import Mathlib

/-!
# Verification of the 2048 move-resolution engine

This file gives a shallow embedding of the 2048 clone's two engine
implementations and its session controller, and proves the specification
claims about them.

* `GridGame` embeds the grid-indexed engine (`Grid = (number | null)[][]`,
  `slideRow`, rotation-based `move`, `spawnTile`, `canMove`, `hasWon`).
* `TileGame` embeds the tile-identity engine (`Tile` records with ids,
  traversal-order `move` with a per-cell merged marker, `spawnTile`,
  `canMove`, `hasWon`).
* `Controller` embeds the session controller (`handleMove`, `handleUndo`)
  of the grid-based component.

JavaScript mutable 4x4 arrays are embedded as `List (List _)` values read
with `getD` and written with `set`; `Math.random()` choices are passed in
as explicit oracle arguments; the module-global `nextTileId` counter is
threaded through explicitly.
-/

set_option maxHeartbeats 1000000
set_option maxRecDepth 100000
set_option linter.unusedVariables false

/-- The four move directions (`type Direction`). -/
inductive Direction where
  | up
  | down
  | left
  | right
deriving DecidableEq, Repr

namespace GridGame

/-- `type Grid = (number | null)[][]` — a 4x4 array of optional values. -/
abbrev Grid := List (List (Option Nat))

/-- Read cell `(r, c)` of a grid, `null` when out of range. -/
def cellAt (g : Grid) (r c : Nat) : Option Nat :=
  (g.getD r []).getD c none

/-- Write cell `(r, c)` of a grid (a no-op when out of range, which the
engine never does on well-formed grids). -/
def setCellAt (g : Grid) (r c : Nat) (v : Option Nat) : Grid :=
  g.set r ((g.getD r []).set c v)

/-- `createEmptyGrid()`: the 4x4 grid of `null`s. -/
def createEmptyGrid : Grid :=
  List.replicate 4 (List.replicate 4 (none : Option Nat))

/-- `getEmptyCells(grid)`: all `(row, col)` with `grid[row][col] === null`,
in row-major order. -/
def getEmptyCells (g : Grid) : List (Nat × Nat) :=
  (List.range 4).flatMap fun row =>
    (List.range 4).filterMap fun col =>
      match cellAt g row col with
      | none => some (row, col)
      | some _ => none

/-- `spawnTile(grid)`: if the board is full return it unchanged, otherwise
put a 2 (or a 4) on one empty cell.  The random choice of cell and of value
is passed in as the oracle arguments `idx` (reduced mod the number of empty
cells) and `isTwo`. -/
def spawnTile (g : Grid) (idx : Nat) (isTwo : Bool) : Grid :=
  let emptyCells := getEmptyCells g
  if emptyCells.length = 0 then g
  else
    let cell := emptyCells.getD (idx % emptyCells.length) (0, 0)
    let value := if isTwo then 2 else 4
    setCellAt g cell.1 cell.2 (some value)

/-- Accumulator of the `while (i < filtered.length)` merge loop inside
`slideRow`: the produced values, the score added, and the merged flag. -/
structure MergeAcc where
  vals : List Nat
  score : Nat
  merged : Bool
deriving DecidableEq, Repr

/-- The merge loop of `slideRow` on the null-filtered row: merge each pair
of equal adjacent values front-to-back, consuming both. -/
def mergePairs : List Nat → MergeAcc
  | [] => ⟨[], 0, false⟩
  | [a] => ⟨[a], 0, false⟩
  | a :: b :: rest =>
    if a = b then
      let acc := mergePairs rest
      ⟨a * 2 :: acc.vals, a * 2 + acc.score, true⟩
    else
      let acc := mergePairs (b :: rest)
      ⟨a :: acc.vals, acc.score, acc.merged⟩

/-- Result of `slideRow`. -/
structure SlideResult where
  newRow : List (Option Nat)
  score : Nat
  merged : Bool
deriving DecidableEq, Repr

/-- `slideRow(row)`: drop the `null`s, merge equal adjacent pairs, and pad
with `null`s back to length 4. -/
def slideRow (row : List (Option Nat)) : SlideResult :=
  let filtered := row.filterMap id
  let acc := mergePairs filtered
  ⟨acc.vals.map some ++ List.replicate (4 - acc.vals.length) none,
   acc.score, acc.merged⟩

/-- Build a 4x4 grid whose cell `(r, c)` is `f r c`. -/
def mkGrid (f : Nat → Nat → Option Nat) : Grid :=
  (List.range 4).map fun r => (List.range 4).map fun c => f r c

/-- `rotateGrid90`: `newGrid[col][3 - row] = grid[row][col]`, so cell
`(r, c)` of the result is `grid[3 - c][r]`. -/
def rotateGrid90 (g : Grid) : Grid :=
  mkGrid fun r c => cellAt g (3 - c) r

/-- `rotateGrid270`: `newGrid[3 - col][row] = grid[row][col]`, so cell
`(r, c)` of the result is `grid[c][3 - r]`. -/
def rotateGrid270 (g : Grid) : Grid :=
  mkGrid fun r c => cellAt g c (3 - r)

/-- `rotateGrid180`: `newGrid[3 - row][3 - col] = grid[row][col]`, so cell
`(r, c)` of the result is `grid[3 - r][3 - c]`. -/
def rotateGrid180 (g : Grid) : Grid :=
  mkGrid fun r c => cellAt g (3 - r) (3 - c)

/-- `gridsEqual(a, b)`: cell-wise equality over the 4x4 board. -/
def gridsEqual (a b : Grid) : Bool :=
  (List.range 4).all fun row =>
    (List.range 4).all fun col =>
      cellAt a row col == cellAt b row col

/-- Result of the grid-indexed `move`. -/
structure MoveResult where
  grid : Grid
  score : Nat
  moved : Bool
  merged : Bool
deriving DecidableEq, Repr

/-- The rotation applied by `move` before sliding, so that the direction
becomes leftward. -/
def preRotate (g : Grid) (direction : Direction) : Grid :=
  match direction with
  | .up => rotateGrid270 g
  | .down => rotateGrid90 g
  | .right => rotateGrid180 g
  | .left => g

/-- The inverse rotation applied by `move` after sliding. -/
def postRotate (g : Grid) (direction : Direction) : Grid :=
  match direction with
  | .up => rotateGrid90 g
  | .down => rotateGrid270 g
  | .right => rotateGrid180 g
  | .left => g

/-- `move(grid, direction)`: rotate so the direction becomes leftward,
`slideRow` each row (accumulating score and the merged flag), rotate back,
and compare with the input to compute `moved`. -/
def move (grid : Grid) (direction : Direction) : MoveResult :=
  let work1 := preRotate grid direction
  let slid := (List.range 4).map fun row => slideRow (work1.getD row [])
  let totalScore := (slid.map SlideResult.score).sum
  let anyMerged := slid.any SlideResult.merged
  let work2 : Grid := slid.map SlideResult.newRow
  let work3 := postRotate work2 direction
  ⟨work3, totalScore, !(gridsEqual grid work3), anyMerged⟩

/-- `hasWon(grid)`: some cell holds 2048. -/
def hasWon (g : Grid) : Bool :=
  (List.range 4).any fun row =>
    (List.range 4).any fun col => cellAt g row col == some 2048

/-- `canMove(grid)`: true if an empty cell exists, otherwise true iff some
row- or column-adjacent pair of cells holds equal values. -/
def canMove (g : Grid) : Bool :=
  if (getEmptyCells g).length > 0 then true
  else
    (List.range 4).any fun row =>
      (List.range 4).any fun col =>
        let current := cellAt g row col
        (decide (col < 3) && (current == cellAt g row (col + 1))) ||
        (decide (row < 3) && (current == cellAt g (row + 1) col))

end GridGame

namespace TileGame

/-- `interface Tile` — identity, value, position and the two transient
animation flags. -/
structure Tile where
  id : Nat
  value : Nat
  row : Nat
  col : Nat
  isNew : Bool := false
  isMerged : Bool := false
deriving DecidableEq, Repr

/-- `createTile(value, row, col, isNew)` with the module-global
`nextTileId` counter passed in as `nid` (the caller threads `nid + 1`). -/
def createTile (nid : Nat) (value row col : Nat) (isNew : Bool := false) : Tile :=
  ⟨nid, value, row, col, isNew, false⟩

/-- `getEmptyCells(tiles)`: the `(row, col)` pairs of the 4x4 board not
occupied by any tile, in row-major order. -/
def getEmptyCells (tiles : List Tile) : List (Nat × Nat) :=
  (List.range 4).flatMap fun row =>
    (List.range 4).filterMap fun col =>
      if tiles.any (fun t => t.row == row && t.col == col) then none
      else some (row, col)

/-- `spawnTile(tiles)`: on a full board return the input unchanged;
otherwise clear every existing tile's transient flags and append a fresh
tile (value 2 or 4) on one empty cell.  The random choices are the oracle
arguments `idx` and `isTwo`; the result carries the updated id counter. -/
def spawnTile (nid : Nat) (tiles : List Tile) (idx : Nat) (isTwo : Bool) :
    List Tile × Nat :=
  let emptyCells := getEmptyCells tiles
  if emptyCells.length = 0 then (tiles, nid)
  else
    let cell := emptyCells.getD (idx % emptyCells.length) (0, 0)
    let value := if isTwo then 2 else 4
    (tiles.map (fun t => { t with isNew := false, isMerged := false }) ++
       [createTile nid value cell.1 cell.2 true],
     nid + 1)

/-- `getVector(direction)`: the unit step of the direction. -/
def getVector (direction : Direction) : Int × Int :=
  match direction with
  | .up => (-1, 0)
  | .down => (1, 0)
  | .left => (0, -1)
  | .right => (0, 1)

/-- `getTraversalOrder(direction)`: row and column enumeration orders;
rows are reversed for `down`, columns for `right`. -/
def getTraversalOrder (direction : Direction) : List Nat × List Nat :=
  let rows := [0, 1, 2, 3]
  let cols := [0, 1, 2, 3]
  (if direction = .down then rows.reverse else rows,
   if direction = .right then cols.reverse else cols)

/-- The 4x4 tile lookup built inside `move` (`const grid: (Tile | null)[][]`). -/
abbrev TGrid := List (List (Option Tile))

/-- Read cell `(r, c)` of the tile lookup. -/
def cellAt (g : TGrid) (r c : Nat) : Option Tile :=
  (g.getD r []).getD c none

/-- Write cell `(r, c)` of the tile lookup. -/
def setCellAt (g : TGrid) (r c : Nat) (v : Option Tile) : TGrid :=
  g.set r ((g.getD r []).set c v)

/-- The per-cell `merged` marker array of `move`. -/
abbrev MGrid := List (List Bool)

/-- Read the merged marker at `(r, c)`. -/
def mergedAt (m : MGrid) (r c : Nat) : Bool :=
  (m.getD r []).getD c false

/-- Set the merged marker at `(r, c)`. -/
def setMergedAt (m : MGrid) (r c : Nat) : MGrid :=
  m.set r ((m.getD r []).set c true)

/-- The `while (true)` slide walk of `move`: from `(r, c)` step along the
vector while the next cell is in bounds and empty; stop on the next cell
(and merge there) when it holds an equal-valued tile whose cell is not yet
marked merged; otherwise stop where we are.  Each iteration consumes one
fuel; fuel 4 is enough to reach the loop's own exit on a 4x4 board. -/
def walk (g : TGrid) (m : MGrid) (vr vc : Int) (value : Nat) :
    Int → Int → Nat → Int × Int
  | r, c, 0 => (r, c)
  | r, c, fuel + 1 =>
    let nr := r + vr
    let nc := c + vc
    if nr < 0 || 3 < nr || nc < 0 || 3 < nc then (r, c)
    else
      match cellAt g nr.toNat nc.toNat with
      | none => walk g m vr vc value nr nc fuel
      | some nt =>
        if nt.value == value && !(mergedAt m nr.toNat nc.toNat) then (nr, nc)
        else (r, c)

/-- The mutable state of `move`'s traversal loop: the tile lookup, the
merged markers, the score/flag accumulators, and the id counter. -/
structure MoveState where
  grid : TGrid
  merged : MGrid
  score : Nat
  anyMoved : Bool
  anyMerged : Bool
  nid : Nat
deriving Repr

/-- One iteration of `move`'s traversal loop at cell `(row, col)`: skip
empty cells; otherwise walk the tile to its destination; if it moved,
clear the source cell and either merge into the destination (fresh tile of
doubled value, merged marker, score) or relocate the tile there. -/
def step (vr vc : Int) (s : MoveState) (p : Nat × Nat) : MoveState :=
  let row := p.1
  let col := p.2
  match cellAt s.grid row col with
  | none => s
  | some tile =>
    let dest := walk s.grid s.merged vr vc tile.value row col 4
    let newRow := dest.1.toNat
    let newCol := dest.2.toNat
    if newRow = row ∧ newCol = col then s
    else
      let g1 := setCellAt s.grid row col none
      match cellAt g1 newRow newCol with
      | some target =>
        if target.value = tile.value then
          { grid := setCellAt g1 newRow newCol
              (some { createTile s.nid (tile.value * 2) newRow newCol with
                        isMerged := true }),
            merged := setMergedAt s.merged newRow newCol,
            score := s.score + tile.value * 2,
            anyMoved := true, anyMerged := true, nid := s.nid + 1 }
        else
          { s with
            grid := setCellAt g1 newRow newCol
              (some { tile with row := newRow, col := newCol }),
            anyMoved := true }
      | none =>
        { s with
          grid := setCellAt g1 newRow newCol
            (some { tile with row := newRow, col := newCol }),
          anyMoved := true }

/-- The empty 4x4 tile lookup. -/
def emptyTGrid : TGrid :=
  List.replicate 4 (List.replicate 4 (none : Option Tile))

/-- The all-false 4x4 merged marker array. -/
def emptyMGrid : MGrid :=
  List.replicate 4 (List.replicate 4 false)

/-- `tiles.forEach(t => grid[t.row][t.col] = {...t, isNew: false,
isMerged: false})`. -/
def materialize (tiles : List Tile) : TGrid :=
  tiles.foldl
    (fun g t => setCellAt g t.row t.col
      (some { t with isNew := false, isMerged := false }))
    emptyTGrid

/-- Result of the tile-identity `move`; `nid` is the value of the global
id counter after the call. -/
structure MoveResult where
  tiles : List Tile
  score : Nat
  moved : Bool
  merged : Bool
  nid : Nat
deriving DecidableEq, Repr

/-- `move(tiles, direction)` of the tile-identity engine: materialize the
tiles into a 4x4 lookup, run the traversal loop, and flatten the surviving
tiles back into a list (row-major). -/
def move (nid : Nat) (tiles : List Tile) (direction : Direction) : MoveResult :=
  let vec := getVector direction
  let trav := getTraversalOrder direction
  let init : MoveState :=
    ⟨materialize tiles, emptyMGrid, 0, false, false, nid⟩
  let pairs := trav.1.flatMap fun row => trav.2.map fun col => (row, col)
  let final := pairs.foldl (step vec.1 vec.2) init
  let newTiles := final.grid.flatMap fun row => row.filterMap id
  ⟨newTiles, final.score, final.anyMoved, final.anyMerged, final.nid⟩

/-- `hasWon(tiles)`: some tile has value 2048. -/
def hasWon (tiles : List Tile) : Bool :=
  tiles.any fun t => t.value == 2048

/-- The value lookup built inside the tile-identity `canMove`
(`grid[t.row][t.col] = t.value`). -/
def valueGrid (tiles : List Tile) : GridGame.Grid :=
  tiles.foldl
    (fun g t => GridGame.setCellAt g t.row t.col (some t.value))
    GridGame.createEmptyGrid

/-- `canMove(tiles)`: true if an empty cell exists, otherwise true iff two
row- or column-adjacent cells hold equal values. -/
def canMove (tiles : List Tile) : Bool :=
  if (getEmptyCells tiles).length > 0 then true
  else
    let g := valueGrid tiles
    (List.range 4).any fun row =>
      (List.range 4).any fun col =>
        let current := GridGame.cellAt g row col
        (decide (col < 3) && (current == GridGame.cellAt g row (col + 1))) ||
        (decide (row < 3) && (current == GridGame.cellAt g (row + 1) col))

end TileGame

namespace Controller

open GridGame

/-- The session state of the grid-based component (`interface GameState`).
The persisted best score is a plain field here. -/
structure CState where
  grid : Grid
  score : Nat
  bestScore : Nat
  gameOver : Bool
  won : Bool
  keepPlaying : Bool
  previousState : Option (Grid × Nat)
deriving DecidableEq, Repr

/-- `handleMove(direction)`: reject when game over or won without
keep-playing; run `move`; reject when nothing moved; otherwise spawn a
tile (oracle arguments `idx`, `isTwo`), add the score, update the best
score, recompute `won` and `gameOver`, and snapshot the previous
grid/score for undo. -/
def handleMove (s : CState) (direction : Direction) (idx : Nat)
    (isTwo : Bool) : CState :=
  if s.gameOver || (s.won && !s.keepPlaying) then s
  else
    let result := move s.grid direction
    if !result.moved then s
    else
      let newGrid := spawnTile result.grid idx isTwo
      let newScore := s.score + result.score
      let newBestScore := max newScore s.bestScore
      let wonNow := !s.won && !s.keepPlaying && hasWon newGrid
      let over := !canMove newGrid
      { grid := newGrid, score := newScore, bestScore := newBestScore,
        gameOver := over, won := wonNow, keepPlaying := s.keepPlaying,
        previousState := some (s.grid, s.score) }

/-- `handleUndo()`: a no-op without a snapshot; otherwise restore grid and
score, clear `gameOver`/`won`, and drop the snapshot. -/
def handleUndo (s : CState) : CState :=
  match s.previousState with
  | none => s
  | some prev =>
    { s with grid := prev.1, score := prev.2,
             gameOver := false, won := false, previousState := none }

end Controller

/-! ## Well-formedness -/

/-- `v` is a power of two and at least 2 (a legal tile value).  Bounded
search keeps this executable: `v = 2 ^ (k + 1)` forces `k < v`. -/
def isPow2Ge2 (v : Nat) : Bool :=
  (List.range v).any fun k => v == 2 ^ (k + 1)

namespace GridGame

/-- The grid is a 4x4 array. -/
def WFdim (g : Grid) : Prop :=
  g.length = 4 ∧ ∀ row ∈ g, row.length = 4

instance : DecidablePred WFdim := fun g => by
  unfold WFdim; infer_instance

/-- Every occupied cell holds a legal tile value. -/
def WFvalues (g : Grid) : Bool :=
  (List.range 4).all fun r =>
    (List.range 4).all fun c =>
      match cellAt g r c with
      | none => true
      | some v => isPow2Ge2 v

/-- A well-formed board of the grid-indexed engine. -/
def WFGrid (g : Grid) : Prop :=
  WFdim g ∧ WFvalues g = true

instance : DecidablePred WFGrid := fun g => by
  unfold WFGrid; infer_instance

theorem length_setCellAt (g : Grid) (r c : Nat) (v : Option Nat) :
    (setCellAt g r c v).length = g.length := by
  simp [setCellAt]

theorem getD_eq_getElem {g : Grid} {r : Nat} (hrl : r < g.length) :
    g.getD r [] = g[r] := by
  rw [List.getD_eq_getElem?_getD, List.getElem?_eq_getElem hrl]; rfl

theorem WFdim_setCellAt {g : Grid} (h : WFdim g) (r c : Nat) (v : Option Nat) :
    WFdim (setCellAt g r c v) := by
  obtain ⟨h1, h2⟩ := h
  refine ⟨by simp [setCellAt, h1], ?_⟩
  intro row hrow
  rcases Nat.lt_or_ge r g.length with hr | hr
  · rcases List.mem_or_eq_of_mem_set hrow with hmem | heq
    · exact h2 row hmem
    · subst heq
      rw [getD_eq_getElem hr, List.length_set]
      exact h2 _ (List.getElem_mem hr)
  · rw [setCellAt, List.set_eq_of_length_le hr] at hrow
    exact h2 row hrow

theorem cellAt_setCellAt_self {g : Grid} (h : WFdim g) {r c : Nat}
    (hr : r < 4) (hc : c < 4) (v : Option Nat) :
    cellAt (setCellAt g r c v) r c = v := by
  obtain ⟨h1, h2⟩ := h
  have hrl : r < g.length := h1 ▸ hr
  have hrow : g[r].length = 4 := h2 _ (List.getElem_mem hrl)
  simp only [cellAt, setCellAt, getD_eq_getElem hrl, List.getD_eq_getElem?_getD]
  rw [List.getElem?_set_self (by simpa using hrl)]
  simp only [Option.getD_some]
  rw [List.getElem?_set_self (by omega)]
  rfl

theorem cellAt_setCellAt_other {g : Grid} {r c r' c' : Nat}
    (hne : ¬(r' = r ∧ c' = c)) (v : Option Nat) :
    cellAt (setCellAt g r c v) r' c' = cellAt g r' c' := by
  rcases eq_or_ne r r' with hr | hr
  · subst hr
    have hcc : c' ≠ c := fun hc => hne ⟨rfl, hc⟩
    rcases Nat.lt_or_ge r g.length with hrl | hrl
    · simp only [cellAt, setCellAt, getD_eq_getElem hrl,
        List.getD_eq_getElem?_getD]
      rw [List.getElem?_set_self (by simpa using hrl)]
      simp only [Option.getD_some]
      rw [List.getElem?_set_ne (Ne.symm hcc)]
    · rw [setCellAt, List.set_eq_of_length_le hrl]
  · simp only [cellAt, setCellAt, List.getD_eq_getElem?_getD]
    rw [List.getElem?_set_ne hr]

theorem WFdim_createEmptyGrid : WFdim createEmptyGrid := by
  constructor <;> simp [createEmptyGrid]

/-- On a board with no empty cell, `getEmptyCells` is `[]`. -/
theorem getEmptyCells_eq_nil {g : Grid}
    (h : ∀ r c, r < 4 → c < 4 → cellAt g r c ≠ none) :
    getEmptyCells g = [] := by
  unfold getEmptyCells
  rw [List.flatMap_eq_nil_iff]
  intro r hr
  rw [List.filterMap_eq_nil_iff]
  intro c hc
  have := h r c (List.mem_range.mp hr) (List.mem_range.mp hc)
  cases hcell : cellAt g r c with
  | none => exact absurd hcell this
  | some v => simp

end GridGame

namespace TileGame

/-- A well-formed tile set: at most 16 tiles, every tile on the board with
a legal value, and at most one tile per cell. -/
def WFTiles (tiles : List Tile) : Prop :=
  tiles.length ≤ 16 ∧
  (∀ t ∈ tiles, t.row < 4 ∧ t.col < 4 ∧ isPow2Ge2 t.value = true) ∧
  tiles.Pairwise fun a b => ¬(a.row = b.row ∧ a.col = b.col)

instance : DecidablePred WFTiles := fun tiles => by
  unfold WFTiles; infer_instance

/-- On a full board, `getEmptyCells` is `[]`. -/
theorem tileEmptyCells_eq_nil {tiles : List Tile}
    (h : ∀ r c, r < 4 → c < 4 → ∃ t ∈ tiles, t.row = r ∧ t.col = c) :
    getEmptyCells tiles = [] := by
  unfold getEmptyCells
  rw [List.flatMap_eq_nil_iff]
  intro r hr
  rw [List.filterMap_eq_nil_iff]
  intro c hc
  obtain ⟨t, ht, htr, htc⟩ := h r c (List.mem_range.mp hr) (List.mem_range.mp hc)
  have : tiles.any (fun t => t.row == r && t.col == c) = true := by
    rw [List.any_eq_true]
    exact ⟨t, ht, by simp [htr, htc]⟩
  simp [this]

end TileGame

/-! ## C7: spawning on a full board is a defined no-op -/

/-- C7: on a board with all 16 cells occupied, `spawnTile` returns its
input unchanged (in both engines, for every random-oracle outcome), and in
particular never fails: spawning on a full board is a defined no-op. -/
theorem C7_spawn_full_noop (g : GridGame.Grid) (tiles : List TileGame.Tile)
    (nid idx idx' : Nat) (isTwo isTwo' : Bool)
    (hg : ∀ r c, r < 4 → c < 4 → GridGame.cellAt g r c ≠ none)
    (ht : ∀ r c, r < 4 → c < 4 → ∃ t ∈ tiles, t.row = r ∧ t.col = c) :
    GridGame.spawnTile g idx isTwo = g ∧
    TileGame.spawnTile nid tiles idx' isTwo' = (tiles, nid) := by
  constructor
  · unfold GridGame.spawnTile
    rw [GridGame.getEmptyCells_eq_nil hg]
    simp
  · unfold TileGame.spawnTile
    rw [TileGame.tileEmptyCells_eq_nil ht]
    simp

/-- Witness for C7 on a concrete full board. -/
theorem C7_spawn_full_noop_witness :
    GridGame.spawnTile
      [[some 2, some 4, some 2, some 4], [some 4, some 2, some 4, some 2],
       [some 2, some 4, some 2, some 4], [some 4, some 2, some 4, some 2]]
      7 true =
      [[some 2, some 4, some 2, some 4], [some 4, some 2, some 4, some 2],
       [some 2, some 4, some 2, some 4], [some 4, some 2, some 4, some 2]] ∧
    TileGame.spawnTile 17
      ((List.range 4).flatMap fun r => (List.range 4).map fun c =>
        ⟨r * 4 + c, (if (r + c) % 2 = 0 then 2 else 4), r, c, false, false⟩)
      5 false =
      (((List.range 4).flatMap fun r => (List.range 4).map fun c =>
        ⟨r * 4 + c, (if (r + c) % 2 = 0 then 2 else 4), r, c, false, false⟩), 17) :=
  C7_spawn_full_noop _ _ 17 7 5 true false
    (by intro r c hr hc; interval_cases r <;> interval_cases c <;> decide)
    (by intro r c hr hc; interval_cases r <;> interval_cases c <;> decide)

/-! ## The merge loop: groups, merged values, conservation -/

/-- Induction following the two-step recursion of the merge loop. -/
theorem twoStepInduction {motive : List Nat → Prop}
    (h0 : motive []) (h1 : ∀ a, motive [a])
    (h2 : ∀ a b rest, motive rest → motive (b :: rest) →
      motive (a :: b :: rest)) :
    ∀ l, motive l := by
  have H : ∀ n (l : List Nat), l.length ≤ n → motive l := by
    intro n
    induction n with
    | zero =>
      intro l hl
      rw [Nat.le_zero, List.length_eq_zero] at hl
      exact hl ▸ h0
    | succ n ih =>
      intro l hl
      match l with
      | [] => exact h0
      | [a] => exact h1 a
      | a :: b :: rest =>
        simp only [List.length_cons] at hl
        exact h2 a b rest (ih rest (by omega)) (ih (b :: rest) (by simp; omega))
  exact fun l => H l.length l le_rfl

namespace GridGame

/-- The partition of a (null-filtered) row that the merge loop of
`slideRow` realizes: each group is either a single value kept as is, or a
pair of equal adjacent values merged into one tile. -/
def mergeGroups : List Nat → List (List Nat)
  | [] => []
  | [a] => [[a]]
  | a :: b :: rest =>
    if a = b then [a, b] :: mergeGroups rest
    else [a] :: mergeGroups (b :: rest)

/-- The doubled values of the merges the merge loop performs, in order. -/
def mergedValues : List Nat → List Nat
  | [] => []
  | [_] => []
  | a :: b :: rest =>
    if a = b then a * 2 :: mergedValues rest
    else mergedValues (b :: rest)

theorem mergeGroups_flatten : ∀ l, (mergeGroups l).flatten = l := by
  refine twoStepInduction rfl (fun a => rfl) ?_
  intro a b rest ih1 ih2
  by_cases hab : a = b
  · simp [mergeGroups, hab] at ih1 ⊢
    exact ih1
  · simp [mergeGroups, hab] at ih2 ⊢
    exact ih2

theorem mergeGroups_small : ∀ l, ∀ grp ∈ mergeGroups l,
    grp.length = 1 ∨ grp.length = 2 := by
  refine twoStepInduction (by simp [mergeGroups]) (by simp [mergeGroups]) ?_
  intro a b rest ih1 ih2 grp hgrp
  by_cases hab : a = b
  · simp only [mergeGroups, hab, if_pos, List.mem_cons] at hgrp
    rcases hgrp with rfl | hgrp
    · right; rfl
    · exact ih1 grp hgrp
  · simp only [mergeGroups, hab, if_neg, ite_false, List.mem_cons] at hgrp
    rcases hgrp with rfl | hgrp
    · left; rfl
    · exact ih2 grp hgrp

theorem mergeGroups_pair_eq : ∀ l, ∀ grp ∈ mergeGroups l,
    grp.length = 2 → ∃ a, grp = [a, a] := by
  refine twoStepInduction (by simp [mergeGroups]) (by simp [mergeGroups]) ?_
  intro a b rest ih1 ih2 grp hgrp hlen
  by_cases hab : a = b
  · simp only [mergeGroups, hab, if_pos, List.mem_cons] at hgrp
    rcases hgrp with rfl | hgrp
    · exact ⟨b, rfl⟩
    · exact ih1 grp hgrp hlen
  · simp only [mergeGroups, hab, if_neg, ite_false, List.mem_cons] at hgrp
    rcases hgrp with rfl | hgrp
    · simp at hlen
    · exact ih2 grp hgrp hlen

theorem mergePairs_vals_eq_groups :
    ∀ l, (mergePairs l).vals = (mergeGroups l).map List.sum := by
  refine twoStepInduction rfl (fun a => by simp [mergePairs, mergeGroups]) ?_
  intro a b rest ih1 ih2
  by_cases hab : a = b
  · subst hab
    simp [mergePairs, mergeGroups, ih1]
    omega
  · simp [mergePairs, mergeGroups, hab, ih2]

theorem mergePairs_score_eq :
    ∀ l, (mergePairs l).score = (mergedValues l).sum := by
  refine twoStepInduction rfl (fun a => rfl) ?_
  intro a b rest ih1 ih2
  by_cases hab : a = b
  · simp [mergePairs, mergedValues, hab, ih1]
  · simp [mergePairs, mergedValues, hab, ih2]

theorem mergePairs_score_even : ∀ l, 2 ∣ (mergePairs l).score := by
  refine twoStepInduction (by simp [mergePairs]) (fun a => by simp [mergePairs]) ?_
  intro a b rest ih1 ih2
  by_cases hab : a = b
  · simp only [mergePairs, hab, if_pos]
    obtain ⟨k, hk⟩ := ih1
    exact ⟨b + k, by simp [hk]; ring⟩
  · simp only [mergePairs, hab, ite_false]
    exact ih2

theorem mergePairs_sum : ∀ l, (mergePairs l).vals.sum = l.sum := by
  refine twoStepInduction rfl (fun a => rfl) ?_
  intro a b rest ih1 ih2
  by_cases hab : a = b
  · subst hab
    simp [mergePairs, ih1]
    omega
  · simp [mergePairs, hab, ih2]

theorem mergePairs_length :
    ∀ l, (mergePairs l).vals.length + (mergedValues l).length = l.length := by
  refine twoStepInduction rfl (fun a => rfl) ?_
  intro a b rest ih1 ih2
  by_cases hab : a = b
  · simp only [mergePairs, mergedValues, hab, if_pos, List.length_cons]
    simp only [List.length_cons] at ih2 ⊢
    omega
  · simp only [mergePairs, mergedValues, hab, ite_false, List.length_cons]
    simp only [List.length_cons] at ih2 ⊢
    omega

theorem mergePairs_merged_iff :
    ∀ l, ((mergePairs l).merged = true ↔ mergedValues l ≠ []) := by
  refine twoStepInduction (by simp [mergePairs, mergedValues]) 
    (fun a => by simp [mergePairs, mergedValues]) ?_
  intro a b rest ih1 ih2
  by_cases hab : a = b
  · simp [mergePairs, mergedValues, hab]
  · simp [mergePairs, mergedValues, hab, ih2]

/-- When the merge loop performs no merge it is the identity: the values
come back unchanged and the score is zero. -/
theorem mergePairs_no_merge :
    ∀ l, (mergePairs l).merged = false → mergePairs l = ⟨l, 0, false⟩ := by
  refine twoStepInduction (fun _ => rfl) (fun a _ => rfl) ?_
  intro a b rest ih1 ih2 h
  by_cases hab : a = b
  · simp [mergePairs, hab] at h
  · simp only [mergePairs, hab, ite_false] at h ⊢
    rw [ih2 h]

/-- A merge-free merge loop leaves no two equal adjacent values. -/
theorem mergePairs_no_merge_chain :
    ∀ l, (mergePairs l).merged = false →
      l.Chain' (fun a b => a ≠ b) := by
  refine twoStepInduction (fun _ => by simp) (fun a _ => by simp) ?_
  intro a b rest ih1 ih2 h
  by_cases hab : a = b
  · simp [mergePairs, hab] at h
  · simp only [mergePairs, hab, ite_false] at h
    exact List.Chain'.cons hab (ih2 h)

/-- On a list with no two equal adjacent values the merge loop is the
identity with no merge. -/
theorem mergePairs_of_chain :
    ∀ l, l.Chain' (fun a b => a ≠ b) → mergePairs l = ⟨l, 0, false⟩ := by
  refine twoStepInduction (fun _ => rfl) (fun a _ => rfl) ?_
  intro a b rest ih1 ih2 h
  rw [List.chain'_cons] at h
  simp only [mergePairs, h.1, ite_false]
  rw [ih2 h.2]

end GridGame

/-! ## Grid shape, rotations, and cell-wise equality -/

namespace GridGame

/-- A 4x4 grid is the explicit list of its 16 cells. -/
theorem WFdim_eq {g : Grid} (h : WFdim g) :
    g = [[cellAt g 0 0, cellAt g 0 1, cellAt g 0 2, cellAt g 0 3],
         [cellAt g 1 0, cellAt g 1 1, cellAt g 1 2, cellAt g 1 3],
         [cellAt g 2 0, cellAt g 2 1, cellAt g 2 2, cellAt g 2 3],
         [cellAt g 3 0, cellAt g 3 1, cellAt g 3 2, cellAt g 3 3]] := by
  obtain ⟨hlen, hrows⟩ := h
  rcases g with _ | ⟨R0, _ | ⟨R1, _ | ⟨R2, _ | ⟨R3, _ | ⟨R4, t⟩⟩⟩⟩⟩ <;>
    simp only [List.length_cons, List.length_nil] at hlen <;> try omega
  have h0 := hrows R0 (by simp)
  have h1 := hrows R1 (by simp)
  have h2 := hrows R2 (by simp)
  have h3 := hrows R3 (by simp)
  rcases R0 with _ | ⟨a, _ | ⟨b, _ | ⟨c, _ | ⟨d, _ | ⟨e, t0⟩⟩⟩⟩⟩ <;>
    simp only [List.length_cons, List.length_nil] at h0 <;> try omega
  rcases R1 with _ | ⟨a1, _ | ⟨b1, _ | ⟨c1, _ | ⟨d1, _ | ⟨e1, t1⟩⟩⟩⟩⟩ <;>
    simp only [List.length_cons, List.length_nil] at h1 <;> try omega
  rcases R2 with _ | ⟨a2, _ | ⟨b2, _ | ⟨c2, _ | ⟨d2, _ | ⟨e2, t2⟩⟩⟩⟩⟩ <;>
    simp only [List.length_cons, List.length_nil] at h2 <;> try omega
  rcases R3 with _ | ⟨a3, _ | ⟨b3, _ | ⟨c3, _ | ⟨d3, _ | ⟨e3, t3⟩⟩⟩⟩⟩ <;>
    simp only [List.length_cons, List.length_nil] at h3 <;> try omega
  rfl

theorem WFdim_mkGrid (f : Nat → Nat → Option Nat) : WFdim (mkGrid f) := by
  constructor <;> simp [mkGrid]

theorem WFdim_rotateGrid90 (g : Grid) : WFdim (rotateGrid90 g) :=
  WFdim_mkGrid _

theorem WFdim_rotateGrid270 (g : Grid) : WFdim (rotateGrid270 g) :=
  WFdim_mkGrid _

theorem WFdim_rotateGrid180 (g : Grid) : WFdim (rotateGrid180 g) :=
  WFdim_mkGrid _

theorem rotateGrid90_rotateGrid270 {g : Grid} (h : WFdim g) :
    rotateGrid90 (rotateGrid270 g) = g := by
  conv_rhs => rw [WFdim_eq h]
  rw [WFdim_eq h]
  rfl

theorem rotateGrid270_rotateGrid90 {g : Grid} (h : WFdim g) :
    rotateGrid270 (rotateGrid90 g) = g := by
  conv_rhs => rw [WFdim_eq h]
  rw [WFdim_eq h]
  rfl

theorem rotateGrid180_rotateGrid180 {g : Grid} (h : WFdim g) :
    rotateGrid180 (rotateGrid180 g) = g := by
  conv_rhs => rw [WFdim_eq h]
  rw [WFdim_eq h]
  rfl

/-- `gridsEqual` decides cell-wise equality. -/
theorem gridsEqual_iff (a b : Grid) :
    gridsEqual a b = true ↔
      ∀ r c, r < 4 → c < 4 → cellAt a r c = cellAt b r c := by
  unfold gridsEqual
  simp only [List.all_eq_true, List.mem_range, beq_iff_eq]
  constructor
  · intro h r c hr hc
    exact h r hr c hc
  · intro h r hr c hc
    exact h r c hr hc

theorem gridsEqual_self (g : Grid) : gridsEqual g g = true := by
  rw [gridsEqual_iff]
  intro r c _ _
  rfl

/-- For 4x4 grids, cell-wise equality is equality. -/
theorem gridsEqual_eq {a b : Grid} (ha : WFdim a) (hb : WFdim b) :
    gridsEqual a b = true ↔ a = b := by
  rw [gridsEqual_iff]
  constructor
  · intro h
    rw [WFdim_eq ha, WFdim_eq hb]
    simp only
      [h 0 0 (by omega) (by omega), h 0 1 (by omega) (by omega),
       h 0 2 (by omega) (by omega), h 0 3 (by omega) (by omega),
       h 1 0 (by omega) (by omega), h 1 1 (by omega) (by omega),
       h 1 2 (by omega) (by omega), h 1 3 (by omega) (by omega),
       h 2 0 (by omega) (by omega), h 2 1 (by omega) (by omega),
       h 2 2 (by omega) (by omega), h 2 3 (by omega) (by omega),
       h 3 0 (by omega) (by omega), h 3 1 (by omega) (by omega),
       h 3 2 (by omega) (by omega), h 3 3 (by omega) (by omega)]
  · rintro rfl r c _ _
    rfl

end GridGame

/-! ## slideRow structure -/

namespace GridGame

theorem filterMap_id_map_some_append_replicate (l : List Nat) (k : Nat) :
    (l.map some ++ List.replicate k (none : Option Nat)).filterMap id = l := by
  induction l with
  | nil =>
    induction k with
    | zero => rfl
    | succ k ih => simp [List.replicate_succ]
  | cons a t ih => simp

/-- The surviving values of a slid row are the group sums of its
null-filtered values. -/
theorem slideRow_filterMap (row : List (Option Nat)) :
    (slideRow row).newRow.filterMap id =
      (mergeGroups (row.filterMap id)).map List.sum := by
  simp only [slideRow]
  rw [filterMap_id_map_some_append_replicate]
  exact mergePairs_vals_eq_groups _

theorem slideRow_score (row : List (Option Nat)) :
    (slideRow row).score = (mergedValues (row.filterMap id)).sum :=
  mergePairs_score_eq _

theorem slideRow_merged (row : List (Option Nat)) :
    (slideRow row).merged = (mergePairs (row.filterMap id)).merged := rfl

theorem slideRow_newRow (row : List (Option Nat)) :
    (slideRow row).newRow =
      (mergePairs (row.filterMap id)).vals.map some ++
        List.replicate (4 - (mergePairs (row.filterMap id)).vals.length) none := rfl

/-- The doubled values of all merges a whole `move` call performs: the
merges of the merge loop on each row of the pre-rotated board. -/
def moveMergedValues (g : Grid) (direction : Direction) : List Nat :=
  (List.range 4).flatMap fun row =>
    mergedValues (((preRotate g direction).getD row []).filterMap id)

theorem sum_flatMap (l : List Nat) (f : Nat → List Nat) :
    (l.flatMap f).sum = (l.map fun a => (f a).sum).sum := by
  induction l with
  | nil => rfl
  | cons a t ih => simp [List.sum_append, ih]

/-- The score of a `move` call is the sum of the doubled values of the
merges it performs, and is even. -/
theorem move_score_eq (g : Grid) (direction : Direction) :
    (move g direction).score = (moveMergedValues g direction).sum ∧
    2 ∣ (move g direction).score := by
  constructor
  · simp only [move, moveMergedValues, sum_flatMap, List.map_map]
    congr 1
    refine List.map_congr_left fun row _ => ?_
    exact slideRow_score _
  · simp only [move, List.map_map]
    refine List.dvd_sum fun x hx => ?_
    simp only [List.mem_map, Function.comp] at hx
    obtain ⟨r, _, rfl⟩ := hx
    exact mergePairs_score_even _

end GridGame

/-! ## C3: score is the sum of doubled merge values, and even -/

/-- C3: for every well-formed board and direction, the score of the
`MoveResult` equals the sum of the doubled values of all merges performed
in that call, and it is an even (hence non-negative) number. -/
theorem C3_move_score (g : GridGame.Grid) (direction : Direction)
    (hwf : GridGame.WFGrid g) :
    (GridGame.move g direction).score =
      (GridGame.moveMergedValues g direction).sum ∧
    2 ∣ (GridGame.move g direction).score :=
  GridGame.move_score_eq g direction

/-- Witness for C3 on a concrete board. -/
theorem C3_move_score_witness :
    GridGame.WFGrid
      [[some 2, some 2, some 4, none], [none, some 8, some 8, none],
       [none, none, none, none], [some 2, none, none, some 2]] ∧
    ((GridGame.move
        [[some 2, some 2, some 4, none], [none, some 8, some 8, none],
         [none, none, none, none], [some 2, none, none, some 2]]
        Direction.left).score =
      (GridGame.moveMergedValues
        [[some 2, some 2, some 4, none], [none, some 8, some 8, none],
         [none, none, none, none], [some 2, none, none, some 2]]
        Direction.left).sum ∧
     2 ∣ (GridGame.move
        [[some 2, some 2, some 4, none], [none, some 8, some 8, none],
         [none, none, none, none], [some 2, none, none, some 2]]
        Direction.left).score) :=
  ⟨by decide, C3_move_score _ _ (by decide)⟩

/-! ## C5: merging is strictly pairwise -/

/-- C5: the merge loop partitions the compacted row into groups of at most
two tiles (so no tile takes part in two merges and no cell absorbs a
second merge), the groups exactly cover the row, the slid row is the list
of group sums; concretely, the row `[2, null, 2, 2]` moved left gives
`[4, 2, null, null]` with score 4 in both engines. -/
theorem C5_pairwise_merges :
    (∀ l : List Nat, ∀ grp ∈ GridGame.mergeGroups l,
        grp.length ≤ 2 ∧ (grp.length = 2 → ∃ a, grp = [a, a])) ∧
    (∀ l : List Nat, (GridGame.mergeGroups l).flatten = l) ∧
    (∀ row, (GridGame.slideRow row).newRow.filterMap id =
        (GridGame.mergeGroups (row.filterMap id)).map List.sum) ∧
    ((GridGame.move
        [[some 2, none, some 2, some 2], [none, none, none, none],
         [none, none, none, none], [none, none, none, none]]
        Direction.left).grid =
      [[some 4, some 2, none, none], [none, none, none, none],
       [none, none, none, none], [none, none, none, none]] ∧
     (GridGame.move
        [[some 2, none, some 2, some 2], [none, none, none, none],
         [none, none, none, none], [none, none, none, none]]
        Direction.left).score = 4) ∧
    (((TileGame.move 10
        [⟨1, 2, 0, 0, false, false⟩, ⟨2, 2, 0, 2, false, false⟩,
         ⟨3, 2, 0, 3, false, false⟩] Direction.left).tiles.map
          fun t => (t.value, t.row, t.col)) = [(4, 0, 0), (2, 0, 1)] ∧
     (TileGame.move 10
        [⟨1, 2, 0, 0, false, false⟩, ⟨2, 2, 0, 2, false, false⟩,
         ⟨3, 2, 0, 3, false, false⟩] Direction.left).score = 4) := by
  refine ⟨?_, GridGame.mergeGroups_flatten, GridGame.slideRow_filterMap,
          ⟨by decide, by decide⟩, ⟨by decide, by decide⟩⟩
  intro l grp hgrp
  refine ⟨?_, GridGame.mergeGroups_pair_eq l grp hgrp⟩
  rcases GridGame.mergeGroups_small l grp hgrp with h | h <;> omega

/-- Witness for C5 at a concrete merge group. -/
theorem C5_pairwise_merges_witness :
    ([2, 2] : List Nat).length ≤ 2 ∧ (∃ a, ([2, 2] : List Nat) = [a, a]) :=
  ⟨(C5_pairwise_merges.1 [2, 2, 4] [2, 2] (by decide)).1,
   (C5_pairwise_merges.1 [2, 2, 4] [2, 2] (by decide)).2 rfl⟩

/-! ## C2: a second move in the same direction is not always a no-op -/

/-- C2 counterexample: on the well-formed row `[2, 2, 4, null]` the first
left move merges the 2s giving `[4, 4, null, null]`, and the second left
move (with no spawn in between) merges the 4s — its `moved` flag is true,
refuting the claim that the second move always has `moved = false`. -/
theorem C2_counterexample :
    TileGame.WFTiles
      [⟨1, 2, 0, 0, false, false⟩, ⟨2, 2, 0, 1, false, false⟩,
       ⟨3, 4, 0, 2, false, false⟩] ∧
    (TileGame.move
        (TileGame.move 10
          [⟨1, 2, 0, 0, false, false⟩, ⟨2, 2, 0, 1, false, false⟩,
           ⟨3, 4, 0, 2, false, false⟩] Direction.left).nid
        (TileGame.move 10
          [⟨1, 2, 0, 0, false, false⟩, ⟨2, 2, 0, 1, false, false⟩,
           ⟨3, 4, 0, 2, false, false⟩] Direction.left).tiles
        Direction.left).moved = true := by
  constructor <;> decide

/-! ## Empty cells and the canMove characterization -/

namespace GridGame

theorem mem_getEmptyCells (g : Grid) (p : Nat × Nat) :
    p ∈ getEmptyCells g ↔ p.1 < 4 ∧ p.2 < 4 ∧ cellAt g p.1 p.2 = none := by
  unfold getEmptyCells
  simp only [List.mem_flatMap, List.mem_filterMap, List.mem_range]
  constructor
  · rintro ⟨r, hr, c, hc, hpc⟩
    cases hcell : cellAt g r c with
    | none =>
      rw [hcell] at hpc
      obtain rfl : (r, c) = p := by simpa using hpc
      exact ⟨hr, hc, hcell⟩
    | some v =>
      rw [hcell] at hpc
      simp at hpc
  · rintro ⟨h1, h2, h3⟩
    exact ⟨p.1, h1, p.2, h2, by rw [h3]⟩

theorem getEmptyCells_full {g : Grid} (h : getEmptyCells g = [])
    {r c : Nat} (hr : r < 4) (hc : c < 4) : cellAt g r c ≠ none := by
  intro hcell
  have : (r, c) ∈ getEmptyCells g := (mem_getEmptyCells g (r, c)).mpr ⟨hr, hc, hcell⟩
  rw [h] at this
  exact absurd this (List.not_mem_nil _)

/-- The grid-indexed `canMove` is false exactly when the board is full and
no two adjacent occupied cells share a value. -/
theorem canMove_false_iff (g : Grid) :
    canMove g = false ↔
      getEmptyCells g = [] ∧
      ¬ ∃ r c r' c', r < 4 ∧ c < 4 ∧ r' < 4 ∧ c' < 4 ∧
        cellAt g r c ≠ none ∧ cellAt g r c = cellAt g r' c' ∧
        ((r' = r ∧ c' = c + 1) ∨ (r' = r + 1 ∧ c' = c)) := by
  unfold canMove
  rcases hlen : (getEmptyCells g).length with _ | n
  · have hnil : getEmptyCells g = [] := List.length_eq_zero.mp hlen
    simp only [hlen, gt_iff_lt, Nat.lt_irrefl, if_false, hnil, true_and]
    rw [← Bool.not_eq_true, List.any_eq_true]
    constructor
    · intro hno hpair
      obtain ⟨r, c, r', c', hr, hc, hr', hc', hocc, heq, hadj⟩ := hpair
      refine hno ⟨r, List.mem_range.mpr hr, ?_⟩
      rw [List.any_eq_true]
      refine ⟨c, List.mem_range.mpr hc, ?_⟩
      rcases hadj with ⟨rfl, rfl⟩ | ⟨rfl, rfl⟩
      · have hc3 : c < 3 := by omega
        simp [hc3, heq]
      · have hr3 : r < 3 := by omega
        simp [hr3, heq]
    · intro hnp hany
      obtain ⟨r, hr, hin⟩ := hany
      rw [List.any_eq_true] at hin
      obtain ⟨c, hc, hcond⟩ := hin
      rw [List.mem_range] at hr hc
      rw [Bool.or_eq_true] at hcond
      rcases hcond with hcond | hcond
      · rw [Bool.and_eq_true, decide_eq_true_iff, beq_iff_eq] at hcond
        exact hnp ⟨r, c, r, c + 1, hr, hc, hr, by omega,
          getEmptyCells_full hnil hr hc, hcond.2, Or.inl ⟨rfl, rfl⟩⟩
      · rw [Bool.and_eq_true, decide_eq_true_iff, beq_iff_eq] at hcond
        exact hnp ⟨r, c, r + 1, c, hr, hc, by omega, hc,
          getEmptyCells_full hnil hr hc, hcond.2, Or.inr ⟨rfl, rfl⟩⟩
  · simp only [hlen, gt_iff_lt, Nat.succ_pos, if_true]
    constructor
    · intro h; cases h
    · rintro ⟨hnil, -⟩
      rw [hnil] at hlen
      cases hlen

end GridGame

namespace TileGame

theorem mem_tileEmptyCells (tiles : List Tile) (p : Nat × Nat) :
    p ∈ getEmptyCells tiles ↔
      p.1 < 4 ∧ p.2 < 4 ∧ ¬ ∃ t ∈ tiles, t.row = p.1 ∧ t.col = p.2 := by
  unfold getEmptyCells
  simp only [List.mem_flatMap, List.mem_filterMap, List.mem_range]
  constructor
  · rintro ⟨r, hr, c, hc, hpc⟩
    by_cases hocc : tiles.any (fun t => t.row == r && t.col == c) = true
    · rw [if_pos hocc] at hpc
      simp at hpc
    · rw [if_neg hocc] at hpc
      obtain rfl : (r, c) = p := by simpa using hpc
      refine ⟨hr, hc, fun hex => hocc ?_⟩
      rw [List.any_eq_true]
      obtain ⟨t, ht, h1, h2⟩ := hex
      exact ⟨t, ht, by simp [h1, h2]⟩
  · rintro ⟨h1, h2, h3⟩
    refine ⟨p.1, h1, p.2, h2, ?_⟩
    have hocc : tiles.any (fun t => t.row == p.1 && t.col == p.2) = false := by
      rw [← Bool.not_eq_true, List.any_eq_true]
      rintro ⟨t, ht, hcond⟩
      rw [Bool.and_eq_true, beq_iff_eq, beq_iff_eq] at hcond
      exact h3 ⟨t, ht, hcond.1, hcond.2⟩
    rw [hocc]
    simp

theorem tileEmptyCells_full {tiles : List Tile} (h : getEmptyCells tiles = [])
    {r c : Nat} (hr : r < 4) (hc : c < 4) :
    ∃ t ∈ tiles, t.row = r ∧ t.col = c := by
  by_contra hno
  have : (r, c) ∈ getEmptyCells tiles :=
    (mem_tileEmptyCells tiles (r, c)).mpr ⟨hr, hc, hno⟩
  rw [h] at this
  exact absurd this (List.not_mem_nil _)

theorem pairwise_pos_unique {tiles : List Tile}
    (hpw : tiles.Pairwise fun a b => ¬(a.row = b.row ∧ a.col = b.col))
    {t1 t2 : Tile} (h1 : t1 ∈ tiles) (h2 : t2 ∈ tiles)
    (hrow : t1.row = t2.row) (hcol : t1.col = t2.col) : t1 = t2 := by
  induction tiles with
  | nil => cases h1
  | cons a rest ih =>
    rw [List.pairwise_cons] at hpw
    rcases List.mem_cons.mp h1 with he1 | h1m <;>
      rcases List.mem_cons.mp h2 with he2 | h2m
    · rw [he1, he2]
    · rw [he1] at hrow hcol
      exact absurd ⟨hrow, hcol⟩ (hpw.1 t2 h2m)
    · rw [he2] at hrow hcol
      exact absurd ⟨hrow.symm, hcol.symm⟩ (hpw.1 t1 h1m)
    · exact ih hpw.2 h1m h2m

/-- Reading a cell of the value lookup built by folding `setCellAt` over a
tile list with distinct in-range positions. -/
theorem foldl_setCell_cellAt :
    ∀ (tiles : List Tile) (g : GridGame.Grid), GridGame.WFdim g →
      (∀ t ∈ tiles, t.row < 4 ∧ t.col < 4) →
      (tiles.Pairwise fun a b => ¬(a.row = b.row ∧ a.col = b.col)) →
      ∀ r c, r < 4 → c < 4 →
      GridGame.cellAt
        (tiles.foldl
          (fun g t => GridGame.setCellAt g t.row t.col (some t.value)) g) r c
        = match tiles.find? (fun t => t.row == r && t.col == c) with
          | some t => some t.value
          | none => GridGame.cellAt g r c := by
  intro tiles
  induction tiles with
  | nil => intro g hg hrange hpw r c hr hc; rfl
  | cons a rest ih =>
    intro g hg hrange hpw r c hr hc
    rw [List.pairwise_cons] at hpw
    have harange := hrange a (List.mem_cons_self a rest)
    have hg' := GridGame.WFdim_setCellAt hg a.row a.col (some a.value)
    rw [List.foldl_cons,
        ih _ hg' (fun t ht => hrange t (List.mem_cons_of_mem a ht)) hpw.2 r c hr hc]
    by_cases hpa : ((fun t : Tile => t.row == r && t.col == c) a) = true
    · rw [@List.find?_cons_of_pos _ (fun t : Tile => t.row == r && t.col == c) a rest hpa]
      simp only [Bool.and_eq_true, beq_iff_eq] at hpa
      obtain ⟨rfl, rfl⟩ := hpa
      have hfind : rest.find? (fun t => t.row == a.row && t.col == a.col) = none := by
        rw [List.find?_eq_none]
        intro t ht hcond
        rw [Bool.and_eq_true, beq_iff_eq, beq_iff_eq] at hcond
        exact hpw.1 t ht ⟨hcond.1.symm, hcond.2.symm⟩
      rw [hfind]
      exact GridGame.cellAt_setCellAt_self hg hr hc (some a.value)
    · rw [@List.find?_cons_of_neg _ (fun t : Tile => t.row == r && t.col == c) a rest hpa]
      cases hfind : rest.find? (fun t => t.row == r && t.col == c) with
      | some t => rfl
      | none =>
        have hne : ¬(r = a.row ∧ c = a.col) := by
          rintro ⟨rfl, rfl⟩
          simp at hpa
        exact GridGame.cellAt_setCellAt_other hne (some a.value)

theorem cellAt_createEmptyGrid (r c : Nat) :
    GridGame.cellAt GridGame.createEmptyGrid r c = none := by
  have hrow : ∀ m, ([none, none, none, none] : List (Option Nat)).getD m none = none := by
    intro m
    rcases m with _ | _ | _ | _ | k <;> rfl
  rcases r with _ | _ | _ | _ | k
  · exact hrow c
  · exact hrow c
  · exact hrow c
  · exact hrow c
  · cases c <;> rfl

/-- On a well-formed tile set, the value lookup holds `v` at `(r, c)` iff
some tile with value `v` sits there. -/
theorem valueGrid_cell {tiles : List Tile} (hWF : WFTiles tiles)
    {r c : Nat} (hr : r < 4) (hc : c < 4) (v : Nat) :
    GridGame.cellAt (valueGrid tiles) r c = some v ↔
      ∃ t ∈ tiles, t.row = r ∧ t.col = c ∧ t.value = v := by
  obtain ⟨-, hrange, hpw⟩ := hWF
  unfold valueGrid
  rw [foldl_setCell_cellAt tiles GridGame.createEmptyGrid
      GridGame.WFdim_createEmptyGrid (fun t ht => ⟨(hrange t ht).1, (hrange t ht).2.1⟩)
      hpw r c hr hc]
  cases hfind : tiles.find? (fun t => t.row == r && t.col == c) with
  | some t =>
    have hmem := List.mem_of_find?_eq_some hfind
    have hcond := List.find?_some hfind
    rw [Bool.and_eq_true, beq_iff_eq, beq_iff_eq] at hcond
    constructor
    · intro hv
      exact ⟨t, hmem, hcond.1, hcond.2, by simpa using hv⟩
    · rintro ⟨t', ht', hrow', hcol', rfl⟩
      have : t' = t := pairwise_pos_unique hpw ht' hmem
        (by rw [hrow', hcond.1]) (by rw [hcol', hcond.2])
      rw [← this]
  | none =>
    rw [cellAt_createEmptyGrid]
    constructor
    · intro h; cases h
    · rintro ⟨t, ht, hrow, hcol, rfl⟩
      rw [List.find?_eq_none] at hfind
      exact absurd (by simp [hrow, hcol]) (hfind t ht)

/-- On a full well-formed board, the value lookup is `some` everywhere. -/
theorem valueGrid_full {tiles : List Tile} (hWF : WFTiles tiles)
    (hfull : getEmptyCells tiles = [])
    {r c : Nat} (hr : r < 4) (hc : c < 4) :
    ∃ v, GridGame.cellAt (valueGrid tiles) r c = some v := by
  obtain ⟨t, ht, htr, htc⟩ := tileEmptyCells_full hfull hr hc
  exact ⟨t.value, (valueGrid_cell hWF hr hc t.value).mpr ⟨t, ht, htr, htc, rfl⟩⟩

/-- The tile-identity `canMove` is false exactly when the board is full
and no two adjacent tiles share a value. -/
theorem tile_canMove_false_iff {tiles : List Tile} (hWF : WFTiles tiles) :
    canMove tiles = false ↔
      getEmptyCells tiles = [] ∧
      ¬ ∃ t1 ∈ tiles, ∃ t2 ∈ tiles, t1.value = t2.value ∧
        ((t2.row = t1.row ∧ t2.col = t1.col + 1) ∨
         (t2.row = t1.row + 1 ∧ t2.col = t1.col)) := by
  unfold canMove
  rcases hlen : (getEmptyCells tiles).length with _ | n
  · have hnil : getEmptyCells tiles = [] := List.length_eq_zero.mp hlen
    simp only [hlen, gt_iff_lt, Nat.lt_irrefl, if_false, hnil, true_and]
    rw [← Bool.not_eq_true, List.any_eq_true]
    constructor
    · intro hno hpair
      obtain ⟨t1, h1, t2, h2, hval, hadj⟩ := hpair
      obtain ⟨ht1r, ht1c, -⟩ := hWF.2.1 t1 h1
      obtain ⟨ht2r, ht2c, -⟩ := hWF.2.1 t2 h2
      refine hno ⟨t1.row, List.mem_range.mpr ht1r, ?_⟩
      rw [List.any_eq_true]
      refine ⟨t1.col, List.mem_range.mpr ht1c, ?_⟩
      have hcell1 : GridGame.cellAt (valueGrid tiles) t1.row t1.col = some t1.value :=
        (valueGrid_cell hWF ht1r ht1c t1.value).mpr ⟨t1, h1, rfl, rfl, rfl⟩
      rcases hadj with ⟨hre, hce⟩ | ⟨hre, hce⟩
      · have hc3 : t1.col < 3 := by omega
        have hcell2 : GridGame.cellAt (valueGrid tiles) t1.row (t1.col + 1) = some t2.value :=
          (valueGrid_cell hWF ht1r (by omega) t2.value).mpr
            ⟨t2, h2, by omega, by omega, rfl⟩
        simp [hc3, hcell1, hcell2, hval]
      · have hr3 : t1.row < 3 := by omega
        have hcell2 : GridGame.cellAt (valueGrid tiles) (t1.row + 1) t1.col = some t2.value :=
          (valueGrid_cell hWF (by omega) ht1c t2.value).mpr
            ⟨t2, h2, by omega, by omega, rfl⟩
        simp [hr3, hcell1, hcell2, hval]
    · intro hnp hany
      obtain ⟨r, hr, hin⟩ := hany
      rw [List.any_eq_true] at hin
      obtain ⟨c, hc, hcond⟩ := hin
      rw [List.mem_range] at hr hc
      rw [Bool.or_eq_true] at hcond
      rcases hcond with hcond | hcond
      · rw [Bool.and_eq_true, decide_eq_true_iff, beq_iff_eq] at hcond
        obtain ⟨hc3, heq⟩ := hcond
        obtain ⟨v1, hv1⟩ := valueGrid_full hWF hnil hr hc
        obtain ⟨v2, hv2⟩ := valueGrid_full hWF hnil hr (show c + 1 < 4 by omega)
        obtain ⟨t1, h1, h1r, h1c, h1v⟩ := (valueGrid_cell hWF hr hc v1).mp hv1
        obtain ⟨t2, h2, h2r, h2c, h2v⟩ :=
          (valueGrid_cell hWF hr (show c + 1 < 4 by omega) v2).mp hv2
        refine hnp ⟨t1, h1, t2, h2, ?_, Or.inl ⟨by omega, by omega⟩⟩
        rw [hv1, hv2] at heq
        obtain rfl : v1 = v2 := by simpa using heq
        rw [h1v, h2v]
      · rw [Bool.and_eq_true, decide_eq_true_iff, beq_iff_eq] at hcond
        obtain ⟨hr3, heq⟩ := hcond
        obtain ⟨v1, hv1⟩ := valueGrid_full hWF hnil hr hc
        obtain ⟨v2, hv2⟩ := valueGrid_full hWF hnil (show r + 1 < 4 by omega) hc
        obtain ⟨t1, h1, h1r, h1c, h1v⟩ := (valueGrid_cell hWF hr hc v1).mp hv1
        obtain ⟨t2, h2, h2r, h2c, h2v⟩ :=
          (valueGrid_cell hWF (show r + 1 < 4 by omega) hc v2).mp hv2
        refine hnp ⟨t1, h1, t2, h2, ?_, Or.inr ⟨by omega, by omega⟩⟩
        rw [hv1, hv2] at heq
        obtain rfl : v1 = v2 := by simpa using heq
        rw [h1v, h2v]
  · simp only [hlen, gt_iff_lt, Nat.succ_pos, if_true]
    constructor
    · intro h; cases h
    · rintro ⟨hnil, -⟩
      rw [hnil] at hlen
      cases hlen

end TileGame

/-! ## C4: canMove is false exactly on stuck full boards -/

/-- C4: in both engines, `canMove` returns false iff the board is full and
no two row- or column-adjacent occupied cells share a value; whenever an
empty cell exists, `canMove` returns true. -/
theorem C4_canMove (tiles : List TileGame.Tile) (g : GridGame.Grid)
    (ht : TileGame.WFTiles tiles) (hg : GridGame.WFGrid g) :
    (TileGame.canMove tiles = false ↔
      TileGame.getEmptyCells tiles = [] ∧
      ¬ ∃ t1 ∈ tiles, ∃ t2 ∈ tiles, t1.value = t2.value ∧
        ((t2.row = t1.row ∧ t2.col = t1.col + 1) ∨
         (t2.row = t1.row + 1 ∧ t2.col = t1.col))) ∧
    ((TileGame.getEmptyCells tiles).length > 0 →
      TileGame.canMove tiles = true) ∧
    (GridGame.canMove g = false ↔
      GridGame.getEmptyCells g = [] ∧
      ¬ ∃ r c r' c', r < 4 ∧ c < 4 ∧ r' < 4 ∧ c' < 4 ∧
        GridGame.cellAt g r c ≠ none ∧
        GridGame.cellAt g r c = GridGame.cellAt g r' c' ∧
        ((r' = r ∧ c' = c + 1) ∨ (r' = r + 1 ∧ c' = c))) ∧
    ((GridGame.getEmptyCells g).length > 0 → GridGame.canMove g = true) := by
  refine ⟨TileGame.tile_canMove_false_iff ht, ?_, GridGame.canMove_false_iff g, ?_⟩
  · intro h
    unfold TileGame.canMove
    rw [if_pos h]
  · intro h
    unfold GridGame.canMove
    rw [if_pos h]

/-- Witness for C4: boards with an empty cell can always move. -/
theorem C4_canMove_witness :
    TileGame.canMove [⟨1, 2, 0, 0, false, false⟩] = true ∧
    GridGame.canMove
      [[some 2, none, none, none], [none, none, none, none],
       [none, none, none, none], [none, none, none, none]] = true :=
  ⟨(C4_canMove [⟨1, 2, 0, 0, false, false⟩]
      [[some 2, none, none, none], [none, none, none, none],
       [none, none, none, none], [none, none, none, none]]
      (by decide) (by decide)).2.1 (by decide),
   (C4_canMove [⟨1, 2, 0, 0, false, false⟩]
      [[some 2, none, none, none], [none, none, none, none],
       [none, none, none, none], [none, none, none, none]]
      (by decide) (by decide)).2.2.2 (by decide)⟩

/-! ## Value-level mirror of the tile-identity move

The traversal loop of the tile-identity `move` never reads tile ids or
flags: its control flow depends only on tile values and the merged
markers.  `Equiv.vstep` is the loop body with tiles replaced by their
values, and `Equiv.lstep` is its restriction to a single line; the
equivalence proof first projects the tile loop onto `vstep`, then
factorizes `vstep` into `lstep` runs, and finally compares `lstep` runs
with `slideRow`. -/

namespace Equiv

/-- The traversal-loop state with tiles replaced by their values. -/
structure VState where
  grid : GridGame.Grid
  merged : List (List Bool)
  score : Nat
  anyMoved : Bool
  anyMerged : Bool
deriving DecidableEq, Repr

/-- The slide walk of the tile-identity `move` on values. -/
def walkV (g : GridGame.Grid) (m : List (List Bool)) (vr vc : Int)
    (value : Nat) : Int → Int → Nat → Int × Int
  | r, c, 0 => (r, c)
  | r, c, fuel + 1 =>
    let nr := r + vr
    let nc := c + vc
    if nr < 0 || 3 < nr || nc < 0 || 3 < nc then (r, c)
    else
      match GridGame.cellAt g nr.toNat nc.toNat with
      | none => walkV g m vr vc value nr nc fuel
      | some nv =>
        if nv == value && !(TileGame.mergedAt m nr.toNat nc.toNat) then (nr, nc)
        else (r, c)

/-- The traversal-loop body of the tile-identity `move` on values. -/
def vstep (vr vc : Int) (s : VState) (p : Nat × Nat) : VState :=
  let row := p.1
  let col := p.2
  match GridGame.cellAt s.grid row col with
  | none => s
  | some v =>
    let dest := walkV s.grid s.merged vr vc v row col 4
    let newRow := dest.1.toNat
    let newCol := dest.2.toNat
    if newRow = row ∧ newCol = col then s
    else
      let g1 := GridGame.setCellAt s.grid row col none
      match GridGame.cellAt g1 newRow newCol with
      | some tv =>
        if tv = v then
          ⟨GridGame.setCellAt g1 newRow newCol (some (v * 2)),
           TileGame.setMergedAt s.merged newRow newCol,
           s.score + v * 2, true, true⟩
        else
          ⟨GridGame.setCellAt g1 newRow newCol (some v), s.merged,
           s.score, true, s.anyMerged⟩
      | none =>
        ⟨GridGame.setCellAt g1 newRow newCol (some v), s.merged,
         s.score, true, s.anyMerged⟩

/-- The loop state restricted to one line. -/
structure LState where
  line : List (Option Nat)
  marks : List Bool
  score : Nat
  anyMoved : Bool
  anyMerged : Bool
deriving DecidableEq, Repr

/-- The slide walk restricted to one line. -/
def rowWalk (L : List (Option Nat)) (M : List Bool) (vc : Int)
    (value : Nat) : Int → Nat → Int
  | c, 0 => c
  | c, fuel + 1 =>
    let nc := c + vc
    if nc < 0 || 3 < nc then c
    else
      match L.getD nc.toNat none with
      | none => rowWalk L M vc value nc fuel
      | some nv => if nv == value && !(M.getD nc.toNat false) then nc else c

/-- The loop body restricted to one line. -/
def lstep (vc : Int) (s : LState) (c : Nat) : LState :=
  match s.line.getD c none with
  | none => s
  | some v =>
    let dest := rowWalk s.line s.marks vc v (c : Int) 4
    let newCol := dest.toNat
    if newCol = c then s
    else
      let l1 := s.line.set c none
      match l1.getD newCol none with
      | some tv =>
        if tv = v then
          ⟨l1.set newCol (some (v * 2)), s.marks.set newCol true,
           s.score + v * 2, true, true⟩
        else ⟨l1.set newCol (some v), s.marks, s.score, true, s.anyMerged⟩
      | none => ⟨l1.set newCol (some v), s.marks, s.score, true, s.anyMerged⟩

/-- Run the line machine over a list of cell indices. -/
def lfold (vc : Int) (s : LState) (cs : List Nat) : LState :=
  cs.foldl (lstep vc) s

end Equiv

set_option linter.unreachableTactic false
set_option linter.unusedTactic false

/-! ## The line machine against slideRow (the per-line equivalence) -/

set_option maxHeartbeats 4000000 in
theorem lineL_spec (a b c d : Option Nat) (sc : Nat) (mv mg : Bool) :
    (Equiv.lfold (-1) ⟨[a, b, c, d], [false, false, false, false], sc, mv, mg⟩
        [0, 1, 2, 3]).line = (GridGame.slideRow [a, b, c, d]).newRow ∧
    (Equiv.lfold (-1) ⟨[a, b, c, d], [false, false, false, false], sc, mv, mg⟩
        [0, 1, 2, 3]).score = sc + (GridGame.slideRow [a, b, c, d]).score ∧
    (Equiv.lfold (-1) ⟨[a, b, c, d], [false, false, false, false], sc, mv, mg⟩
        [0, 1, 2, 3]).anyMerged
      = (mg || (GridGame.slideRow [a, b, c, d]).merged) ∧
    ((Equiv.lfold (-1) ⟨[a, b, c, d], [false, false, false, false], sc, mv, mg⟩
        [0, 1, 2, 3]).anyMoved = true ↔
      (mv = true ∨ (GridGame.slideRow [a, b, c, d]).newRow ≠ [a, b, c, d])) := by
  rcases a with _ | va <;> rcases b with _ | vb <;>
    rcases c with _ | vc2 <;> rcases d with _ | vd
  · simp_all [Equiv.lfold, Equiv.lstep, Equiv.rowWalk, GridGame.slideRow, GridGame.mergePairs] <;> try omega
  · simp_all [Equiv.lfold, Equiv.lstep, Equiv.rowWalk, GridGame.slideRow, GridGame.mergePairs] <;> try omega
  · simp_all [Equiv.lfold, Equiv.lstep, Equiv.rowWalk, GridGame.slideRow, GridGame.mergePairs] <;> try omega
  · by_cases h1 : vc2 = vd <;> simp_all [Equiv.lfold, Equiv.lstep, Equiv.rowWalk, GridGame.slideRow, GridGame.mergePairs] <;> try omega
  · simp_all [Equiv.lfold, Equiv.lstep, Equiv.rowWalk, GridGame.slideRow, GridGame.mergePairs] <;> try omega
  · by_cases h1 : vb = vd <;> simp_all [Equiv.lfold, Equiv.lstep, Equiv.rowWalk, GridGame.slideRow, GridGame.mergePairs] <;> try omega
  · by_cases h1 : vb = vc2 <;> simp_all [Equiv.lfold, Equiv.lstep, Equiv.rowWalk, GridGame.slideRow, GridGame.mergePairs] <;> try omega
  · by_cases h1 : vb = vc2 <;> by_cases h2 : vc2 = vd <;> simp_all [Equiv.lfold, Equiv.lstep, Equiv.rowWalk, GridGame.slideRow, GridGame.mergePairs] <;> try omega
  · simp_all [Equiv.lfold, Equiv.lstep, Equiv.rowWalk, GridGame.slideRow, GridGame.mergePairs] <;> try omega
  · by_cases h1 : va = vd <;> simp_all [Equiv.lfold, Equiv.lstep, Equiv.rowWalk, GridGame.slideRow, GridGame.mergePairs] <;> try omega
  · by_cases h1 : va = vc2 <;> simp_all [Equiv.lfold, Equiv.lstep, Equiv.rowWalk, GridGame.slideRow, GridGame.mergePairs] <;> try omega
  · by_cases h1 : va = vc2 <;> by_cases h2 : vc2 = vd <;> simp_all [Equiv.lfold, Equiv.lstep, Equiv.rowWalk, GridGame.slideRow, GridGame.mergePairs] <;> try omega
  · by_cases h1 : va = vb <;> simp_all [Equiv.lfold, Equiv.lstep, Equiv.rowWalk, GridGame.slideRow, GridGame.mergePairs] <;> try omega
  · by_cases h1 : va = vb <;> by_cases h2 : vb = vd <;> simp_all [Equiv.lfold, Equiv.lstep, Equiv.rowWalk, GridGame.slideRow, GridGame.mergePairs] <;> try omega
  · by_cases h1 : va = vb <;> by_cases h2 : vb = vc2 <;> simp_all [Equiv.lfold, Equiv.lstep, Equiv.rowWalk, GridGame.slideRow, GridGame.mergePairs] <;> try omega
  · by_cases h1 : va = vb <;> by_cases h2 : vb = vc2 <;> by_cases h3 : vc2 = vd <;> simp_all [Equiv.lfold, Equiv.lstep, Equiv.rowWalk, GridGame.slideRow, GridGame.mergePairs] <;> try omega

set_option maxHeartbeats 8000000 in
theorem lineR_spec (a b c d : Option Nat) (sc : Nat) (mv mg : Bool) :
    (Equiv.lfold 1 ⟨[a, b, c, d], [false, false, false, false], sc, mv, mg⟩
        [3, 2, 1, 0]).line
      = (GridGame.slideRow [d, c, b, a]).newRow.reverse ∧
    (Equiv.lfold 1 ⟨[a, b, c, d], [false, false, false, false], sc, mv, mg⟩
        [3, 2, 1, 0]).score = sc + (GridGame.slideRow [d, c, b, a]).score ∧
    (Equiv.lfold 1 ⟨[a, b, c, d], [false, false, false, false], sc, mv, mg⟩
        [3, 2, 1, 0]).anyMerged
      = (mg || (GridGame.slideRow [d, c, b, a]).merged) ∧
    ((Equiv.lfold 1 ⟨[a, b, c, d], [false, false, false, false], sc, mv, mg⟩
        [3, 2, 1, 0]).anyMoved = true ↔
      (mv = true ∨
        (GridGame.slideRow [d, c, b, a]).newRow.reverse ≠ [a, b, c, d])) := by
  rcases a with _ | va <;> rcases b with _ | vb <;>
    rcases c with _ | vc2 <;> rcases d with _ | vd
  · simp_all [Equiv.lfold, Equiv.lstep, Equiv.rowWalk, GridGame.slideRow, GridGame.mergePairs] <;> try omega
  · simp_all [Equiv.lfold, Equiv.lstep, Equiv.rowWalk, GridGame.slideRow, GridGame.mergePairs] <;> try omega
  · simp_all [Equiv.lfold, Equiv.lstep, Equiv.rowWalk, GridGame.slideRow, GridGame.mergePairs] <;> try omega
  · by_cases h1 : vd = vc2 <;> simp_all [Equiv.lfold, Equiv.lstep, Equiv.rowWalk, GridGame.slideRow, GridGame.mergePairs] <;> try omega
  · simp_all [Equiv.lfold, Equiv.lstep, Equiv.rowWalk, GridGame.slideRow, GridGame.mergePairs] <;> try omega
  · by_cases h1 : vd = vb <;> simp_all [Equiv.lfold, Equiv.lstep, Equiv.rowWalk, GridGame.slideRow, GridGame.mergePairs] <;> try omega
  · by_cases h1 : vc2 = vb <;> simp_all [Equiv.lfold, Equiv.lstep, Equiv.rowWalk, GridGame.slideRow, GridGame.mergePairs] <;> try omega
  · by_cases h1 : vd = vc2 <;> by_cases h2 : vc2 = vb <;> simp_all [Equiv.lfold, Equiv.lstep, Equiv.rowWalk, GridGame.slideRow, GridGame.mergePairs] <;> try omega
  · simp_all [Equiv.lfold, Equiv.lstep, Equiv.rowWalk, GridGame.slideRow, GridGame.mergePairs] <;> try omega
  · by_cases h1 : vd = va <;> simp_all [Equiv.lfold, Equiv.lstep, Equiv.rowWalk, GridGame.slideRow, GridGame.mergePairs] <;> try omega
  · by_cases h1 : vc2 = va <;> simp_all [Equiv.lfold, Equiv.lstep, Equiv.rowWalk, GridGame.slideRow, GridGame.mergePairs] <;> try omega
  · by_cases h1 : vd = vc2 <;> by_cases h2 : vc2 = va <;> simp_all [Equiv.lfold, Equiv.lstep, Equiv.rowWalk, GridGame.slideRow, GridGame.mergePairs] <;> try omega
  · by_cases h1 : vb = va <;> simp_all [Equiv.lfold, Equiv.lstep, Equiv.rowWalk, GridGame.slideRow, GridGame.mergePairs] <;> try omega
  · by_cases h1 : vd = vb <;> by_cases h2 : vb = va <;> simp_all [Equiv.lfold, Equiv.lstep, Equiv.rowWalk, GridGame.slideRow, GridGame.mergePairs] <;> try omega
  · by_cases h1 : vc2 = vb <;> by_cases h2 : vb = va <;> simp_all [Equiv.lfold, Equiv.lstep, Equiv.rowWalk, GridGame.slideRow, GridGame.mergePairs] <;> try omega
  · by_cases h1 : vd = vc2 <;> by_cases h2 : vc2 = vb <;> by_cases h3 : vb = va <;> simp_all [Equiv.lfold, Equiv.lstep, Equiv.rowWalk, GridGame.slideRow, GridGame.mergePairs] <;> try omega

/-! ## Row-locality of the value-level loop for horizontal directions -/

namespace Equiv

theorem getD_set_self {α : Type} (l : List α) (i : Nat) (a d : α)
    (h : i < l.length) : (l.set i a).getD i d = a := by
  rw [List.getD_eq_getElem?_getD, List.getElem?_set_self (by simpa using h)]
  rfl

theorem getD_set_ne {α : Type} (l : List α) (i j : Nat) (a d : α)
    (h : i ≠ j) : (l.set i a).getD j d = l.getD j d := by
  rw [List.getD_eq_getElem?_getD, List.getElem?_set_ne h,
      ← List.getD_eq_getElem?_getD]

theorem set_getD_self {α : Type} (l : List α) (i : Nat) (d : α)
    (h : i < l.length) : l.set i (l.getD i d) = l := by
  rw [List.getD_eq_getElem?_getD, List.getElem?_eq_getElem h]
  apply List.ext_getElem
  · simp
  · intro n h1 h2
    rcases eq_or_ne i n with rfl | hne
    · simp
    · simp [List.getElem_set_ne hne]

/-- With a zero row component, the value-level walk stays in its row and
only reads that row. -/
theorem walkV_horiz (g : GridGame.Grid) (m : List (List Bool)) (vc : Int)
    (v : Nat) :
    ∀ (fuel : Nat) (r c : Int), 0 ≤ r → r ≤ 3 →
      walkV g m 0 vc v r c fuel
        = (r, rowWalk (g.getD r.toNat []) (m.getD r.toNat []) vc v c fuel) := by
  intro fuel
  induction fuel with
  | zero => intro r c h0 h3; rfl
  | succ n ih =>
    intro r c h0 h3
    simp only [walkV, rowWalk, Int.add_zero]
    have e1 : decide (r < 0) = false := decide_eq_false (by omega)
    have e2 : decide ((3 : Int) < r) = false := decide_eq_false (by omega)
    rw [e1, e2]
    simp only [Bool.false_or]
    rw [apply_ite (fun t => ((r : Int), t))]
    by_cases hb : (decide (c + vc < 0) || decide (3 < c + vc)) = true
    · rw [if_pos hb, if_pos hb]
    · rw [if_neg hb, if_neg hb]
      show (match GridGame.cellAt g r.toNat (c + vc).toNat with
            | none => walkV g m 0 vc v r (c + vc) n
            | some nv =>
              if nv == v && !(TileGame.mergedAt m r.toNat (c + vc).toNat)
              then (r, c + vc) else (r, c)) = _
      cases hcell : GridGame.cellAt g r.toNat (c + vc).toNat with
      | none =>
        have hrfl : (g.getD r.toNat []).getD (c + vc).toNat none =
            GridGame.cellAt g r.toNat (c + vc).toNat := rfl
        rw [hrfl, hcell]
        exact ih r (c + vc) h0 h3
      | some nv =>
        have hrfl : (g.getD r.toNat []).getD (c + vc).toNat none =
            GridGame.cellAt g r.toNat (c + vc).toNat := rfl
        rw [hrfl, hcell]
        show _ = ((r : Int), if _ then c + vc else c)
        rw [apply_ite (fun t => ((r : Int), t))]
        rfl

/-- One value-level loop iteration with a horizontal vector is an `lstep`
on the row it touches. -/
theorem vstep_row (vc : Int) (s : VState) (r c : Nat) (hr : r < 4)
    (hg : s.grid.length = 4) (hm : s.merged.length = 4) :
    vstep 0 vc s (r, c) =
      { grid := s.grid.set r
          (lstep vc ⟨s.grid.getD r [], s.merged.getD r [],
            s.score, s.anyMoved, s.anyMerged⟩ c).line,
        merged := s.merged.set r
          (lstep vc ⟨s.grid.getD r [], s.merged.getD r [],
            s.score, s.anyMoved, s.anyMerged⟩ c).marks,
        score := (lstep vc ⟨s.grid.getD r [], s.merged.getD r [],
            s.score, s.anyMoved, s.anyMerged⟩ c).score,
        anyMoved := (lstep vc ⟨s.grid.getD r [], s.merged.getD r [],
            s.score, s.anyMoved, s.anyMerged⟩ c).anyMoved,
        anyMerged := (lstep vc ⟨s.grid.getD r [], s.merged.getD r [],
            s.score, s.anyMoved, s.anyMerged⟩ c).anyMerged } := by
  have hsetg := set_getD_self s.grid r [] (by omega)
  have hsetm := set_getD_self s.merged r [] (by omega)
  simp only [vstep, lstep]
  have hcellrfl : GridGame.cellAt s.grid r c = (s.grid.getD r []).getD c none := rfl
  rw [hcellrfl]
  cases hcell : (s.grid.getD r []).getD c none with
  | none =>
    dsimp only
    simp only [hsetg, hsetm]
  | some v =>
    dsimp only
    have hwalk := walkV_horiz s.grid s.merged vc v 4 (r : Int) (c : Int)
      (by omega) (by omega)
    rw [hwalk]
    simp only [Int.toNat_natCast]
    by_cases hdc :
        (rowWalk (s.grid.getD r []) (s.merged.getD r []) vc v (c : Int) 4).toNat = c
    · rw [if_pos ⟨trivial, hdc⟩, if_pos hdc]
      simp only [hsetg, hsetm]
    · rw [if_neg (fun hand => hdc hand.2), if_neg hdc]
      have hg1 : GridGame.cellAt
            (GridGame.setCellAt s.grid r c none) r
            (rowWalk (s.grid.getD r []) (s.merged.getD r []) vc v (c : Int) 4).toNat
          = ((s.grid.getD r []).set c none).getD
              (rowWalk (s.grid.getD r []) (s.merged.getD r []) vc v (c : Int) 4).toNat
              none := by
        unfold GridGame.cellAt GridGame.setCellAt
        rw [getD_set_self s.grid r _ [] (by omega)]
      rw [hg1]
      cases htv : ((s.grid.getD r []).set c none).getD
          (rowWalk (s.grid.getD r []) (s.merged.getD r []) vc v (c : Int) 4).toNat
          none with
      | none =>
        dsimp only
        unfold GridGame.setCellAt
        rw [getD_set_self s.grid r _ [] (by omega), List.set_set, hsetm]
      | some tv =>
        dsimp only
        by_cases heq : tv = v
        · rw [if_pos heq, if_pos heq]
          unfold GridGame.setCellAt TileGame.setMergedAt
          rw [getD_set_self s.grid r _ [] (by omega), List.set_set]
        · rw [if_neg heq, if_neg heq]
          unfold GridGame.setCellAt
          rw [getD_set_self s.grid r _ [] (by omega), List.set_set, hsetm]

end Equiv

/-! ## Generic 4x4 matrix toolkit

`GridGame.cellAt`/`setCellAt`, the tile lookup of `TileGame.move` and its
merged-marker array are all `List (List _)` matrices read with `getD` and
written with `set`.  This section proves the indexing laws once,
generically. -/

namespace Mat

variable {α : Type}

/-- Read entry `(r, c)` with default `d`. -/
def get (g : List (List α)) (d : α) (r c : Nat) : α :=
  (g.getD r []).getD c d

/-- Write entry `(r, c)`. -/
def set (g : List (List α)) (r c : Nat) (v : α) : List (List α) :=
  g.set r ((g.getD r []).set c v)

/-- A well-formed 4x4 matrix. -/
def WF (g : List (List α)) : Prop :=
  g.length = 4 ∧ ∀ row ∈ g, row.length = 4

theorem getD_eq {g : List (List α)} {r : Nat} (hrl : r < g.length) :
    g.getD r [] = g[r] := by
  rw [List.getD_eq_getElem?_getD, List.getElem?_eq_getElem hrl]; rfl

theorem WF_set {g : List (List α)} (h : WF g) (r c : Nat) (v : α) :
    WF (set g r c v) := by
  obtain ⟨h1, h2⟩ := h
  refine ⟨by simp [set, h1], ?_⟩
  intro row hrow
  rcases Nat.lt_or_ge r g.length with hr | hr
  · rcases List.mem_or_eq_of_mem_set hrow with hmem | heq
    · exact h2 row hmem
    · subst heq
      rw [getD_eq hr, List.length_set]
      exact h2 _ (List.getElem_mem hr)
  · rw [set, List.set_eq_of_length_le hr] at hrow
    exact h2 row hrow

theorem get_set_self {g : List (List α)} (d : α) (h : WF g) {r c : Nat}
    (hr : r < 4) (hc : c < 4) (v : α) : get (set g r c v) d r c = v := by
  obtain ⟨h1, h2⟩ := h
  have hrl : r < g.length := h1 ▸ hr
  have hrow : g[r].length = 4 := h2 _ (List.getElem_mem hrl)
  simp only [get, set, getD_eq hrl, List.getD_eq_getElem?_getD]
  rw [List.getElem?_set_self (by simpa using hrl)]
  simp only [Option.getD_some]
  rw [List.getElem?_set_self (by omega)]
  rfl

theorem get_set_other {g : List (List α)} (d : α) {r c r' c' : Nat}
    (hne : ¬(r' = r ∧ c' = c)) (v : α) :
    get (set g r c v) d r' c' = get g d r' c' := by
  rcases eq_or_ne r r' with hr | hr
  · subst hr
    have hcc : c' ≠ c := fun hcx => hne ⟨rfl, hcx⟩
    rcases Nat.lt_or_ge r g.length with hrl | hrl
    · simp only [get, set, getD_eq hrl, List.getD_eq_getElem?_getD]
      rw [List.getElem?_set_self (by simpa using hrl)]
      simp only [Option.getD_some]
      rw [List.getElem?_set_ne (Ne.symm hcc)]
    · rw [set, List.set_eq_of_length_le hrl]
  · simp only [get, set, List.getD_eq_getElem?_getD]
    rw [List.getElem?_set_ne hr]

/-- A 4x4 matrix is the explicit list of its 16 entries. -/
theorem WF_eq (d : α) {g : List (List α)} (h : WF g) :
    g = [[get g d 0 0, get g d 0 1, get g d 0 2, get g d 0 3],
         [get g d 1 0, get g d 1 1, get g d 1 2, get g d 1 3],
         [get g d 2 0, get g d 2 1, get g d 2 2, get g d 2 3],
         [get g d 3 0, get g d 3 1, get g d 3 2, get g d 3 3]] := by
  obtain ⟨hlen, hrows⟩ := h
  rcases g with _ | ⟨R0, _ | ⟨R1, _ | ⟨R2, _ | ⟨R3, _ | ⟨R4, t⟩⟩⟩⟩⟩ <;>
    simp only [List.length_cons, List.length_nil] at hlen <;> try omega
  have h0 := hrows R0 (by simp)
  have h1 := hrows R1 (by simp)
  have h2 := hrows R2 (by simp)
  have h3 := hrows R3 (by simp)
  rcases R0 with _ | ⟨a, _ | ⟨b, _ | ⟨c, _ | ⟨e, _ | ⟨f, t0⟩⟩⟩⟩⟩ <;>
    simp only [List.length_cons, List.length_nil] at h0 <;> try omega
  rcases R1 with _ | ⟨a1, _ | ⟨b1, _ | ⟨c1, _ | ⟨e1, _ | ⟨f1, t1⟩⟩⟩⟩⟩ <;>
    simp only [List.length_cons, List.length_nil] at h1 <;> try omega
  rcases R2 with _ | ⟨a2, _ | ⟨b2, _ | ⟨c2, _ | ⟨e2, _ | ⟨f2, t2⟩⟩⟩⟩⟩ <;>
    simp only [List.length_cons, List.length_nil] at h2 <;> try omega
  rcases R3 with _ | ⟨a3, _ | ⟨b3, _ | ⟨c3, _ | ⟨e3, _ | ⟨f3, t3⟩⟩⟩⟩⟩ <;>
    simp only [List.length_cons, List.length_nil] at h3 <;> try omega
  rfl

/-- Two 4x4 matrices with equal entries are equal. -/
theorem ext (d : α) {a b : List (List α)} (ha : WF a) (hb : WF b)
    (h : ∀ r c, r < 4 → c < 4 → get a d r c = get b d r c) : a = b := by
  rw [WF_eq d ha, WF_eq d hb]
  simp only
    [h 0 0 (by omega) (by omega), h 0 1 (by omega) (by omega),
     h 0 2 (by omega) (by omega), h 0 3 (by omega) (by omega),
     h 1 0 (by omega) (by omega), h 1 1 (by omega) (by omega),
     h 1 2 (by omega) (by omega), h 1 3 (by omega) (by omega),
     h 2 0 (by omega) (by omega), h 2 1 (by omega) (by omega),
     h 2 2 (by omega) (by omega), h 2 3 (by omega) (by omega),
     h 3 0 (by omega) (by omega), h 3 1 (by omega) (by omega),
     h 3 2 (by omega) (by omega), h 3 3 (by omega) (by omega)]

/-- Column `c` as a list, top to bottom. -/
def getCol (g : List (List α)) (d : α) (c : Nat) : List α :=
  [get g d 0 c, get g d 1 c, get g d 2 c, get g d 3 c]

/-- Overwrite column `c` with the entries of `L`. -/
def setCol (g : List (List α)) (d : α) (c : Nat) (L : List α) :
    List (List α) :=
  set (set (set (set g 0 c (L.getD 0 d)) 1 c (L.getD 1 d)) 2 c (L.getD 2 d))
    3 c (L.getD 3 d)

theorem WF_setCol {g : List (List α)} (d : α) (h : WF g) (c : Nat)
    (L : List α) : WF (setCol g d c L) :=
  WF_set (WF_set (WF_set (WF_set h 0 c _) 1 c _) 2 c _) 3 c _

theorem getCol_getD {g : List (List α)} (d : α) (c : Nat) {i : Nat}
    (hi : i < 4) : (getCol g d c).getD i d = get g d i c := by
  interval_cases i <;> rfl

theorem get_setCol_self {g : List (List α)} (d : α) (h : WF g) {i c : Nat}
    (hi : i < 4) (hc : c < 4) (L : List α) :
    get (setCol g d c L) d i c = L.getD i d := by
  have w0 := WF_set h 0 c (L.getD 0 d)
  have w1 := WF_set w0 1 c (L.getD 1 d)
  have w2 := WF_set w1 2 c (L.getD 2 d)
  interval_cases i
  · unfold setCol
    rw [get_set_other d (by omega), get_set_other d (by omega),
        get_set_other d (by omega), get_set_self d h (by omega) hc]
  · unfold setCol
    rw [get_set_other d (by omega), get_set_other d (by omega),
        get_set_self d w0 (by omega) hc]
  · unfold setCol
    rw [get_set_other d (by omega), get_set_self d w1 (by omega) hc]
  · unfold setCol
    rw [get_set_self d w2 (by omega) hc]

theorem get_setCol_other {g : List (List α)} (d : α) {i j c : Nat}
    (hj : j ≠ c) (L : List α) :
    get (setCol g d c L) d i j = get g d i j := by
  unfold setCol
  rw [get_set_other d (fun hand => hj hand.2),
      get_set_other d (fun hand => hj hand.2),
      get_set_other d (fun hand => hj hand.2),
      get_set_other d (fun hand => hj hand.2)]

theorem getCol_setCol_ne {g : List (List α)} (d : α) {c c' : Nat}
    (h : c' ≠ c) (L : List α) :
    getCol (setCol g d c L) d c' = getCol g d c' := by
  unfold getCol
  rw [get_setCol_other d h, get_setCol_other d h, get_setCol_other d h,
      get_setCol_other d h]

/-- A list of length 4 is the list of its four entries. -/
theorem list4_eq (d : α) {L : List α} (h : L.length = 4) :
    L = [L.getD 0 d, L.getD 1 d, L.getD 2 d, L.getD 3 d] := by
  rcases L with _ | ⟨a, _ | ⟨b, _ | ⟨c, _ | ⟨e, _ | ⟨f, t⟩⟩⟩⟩⟩ <;>
    simp only [List.length_cons, List.length_nil] at h <;> try omega
  rfl

theorem getCol_length (g : List (List α)) (d : α) (c : Nat) :
    (getCol g d c).length = 4 := rfl

theorem getCol_setCol_self {g : List (List α)} (d : α) (h : WF g)
    {c : Nat} (hc : c < 4) {L : List α} (hL : L.length = 4) :
    getCol (setCol g d c L) d c = L := by
  conv_rhs => rw [list4_eq d hL]
  unfold getCol
  rw [get_setCol_self d h (by omega) hc, get_setCol_self d h (by omega) hc,
      get_setCol_self d h (by omega) hc, get_setCol_self d h (by omega) hc]

theorem setCol_getCol {g : List (List α)} (d : α) (h : WF g) {c : Nat}
    (hc : c < 4) : setCol g d c (getCol g d c) = g := by
  refine ext d (WF_setCol d h c _) h ?_
  intro r j hr hj
  rcases eq_or_ne j c with heq | hne
  · rw [heq, get_setCol_self d h hr hc, getCol_getD d c hr]
  · rw [get_setCol_other d hne]

theorem setCol_setCol {g : List (List α)} (d : α) (h : WF g) {c : Nat}
    (hc : c < 4) (L L' : List α) :
    setCol (setCol g d c L) d c L' = setCol g d c L' := by
  refine ext d (WF_setCol d (WF_setCol d h c L) c L')
    (WF_setCol d h c L') ?_
  intro r j hr hj
  rcases eq_or_ne j c with heq | hne
  · rw [heq, get_setCol_self d (WF_setCol d h c L) hr hc,
        get_setCol_self d h hr hc]
  · rw [get_setCol_other d hne, get_setCol_other d hne,
        get_setCol_other d hne]

theorem setCol_comm {g : List (List α)} (d : α) (h : WF g) {c c' : Nat}
    (hc : c < 4) (hc' : c' < 4) (hne : c ≠ c') (L L' : List α) :
    setCol (setCol g d c L) d c' L' = setCol (setCol g d c' L') d c L := by
  refine ext d (WF_setCol d (WF_setCol d h c L) c' L')
    (WF_setCol d (WF_setCol d h c' L') c L) ?_
  intro r j hr hj
  rcases eq_or_ne j c' with heq1 | hne1
  · rw [heq1, get_setCol_self d (WF_setCol d h c L) hr hc',
        get_setCol_other d (Ne.symm hne),
        get_setCol_self d h hr hc']
  · rcases eq_or_ne j c with heq2 | hne2
    · rw [heq2, get_setCol_other d hne, get_setCol_self d h hr hc,
          get_setCol_self d (WF_setCol d h c' L') hr hc]
    · rw [get_setCol_other d hne1, get_setCol_other d hne2,
          get_setCol_other d hne2, get_setCol_other d hne1]

end Mat

/-! ## Column-locality of the value-level loop for vertical directions -/

namespace Equiv

theorem cellAt_eq_get (g : GridGame.Grid) (r c : Nat) :
    GridGame.cellAt g r c = Mat.get g none r c := rfl

theorem setCellAt_eq_set (g : GridGame.Grid) (r c : Nat) (v : Option Nat) :
    GridGame.setCellAt g r c v = Mat.set g r c v := rfl

theorem mergedAt_eq_get (m : List (List Bool)) (r c : Nat) :
    TileGame.mergedAt m r c = Mat.get m false r c := rfl

theorem setMergedAt_eq_set (m : List (List Bool)) (r c : Nat) :
    TileGame.setMergedAt m r c = Mat.set m r c true := rfl

/-- The 1-D walk stays within the board. -/
theorem rowWalk_bounds (L : List (Option Nat)) (M : List Bool) (vc : Int)
    (v : Nat) :
    ∀ (fuel : Nat) (c : Int), 0 ≤ c → c ≤ 3 →
      0 ≤ rowWalk L M vc v c fuel ∧ rowWalk L M vc v c fuel ≤ 3 := by
  intro fuel
  induction fuel with
  | zero => intro c h0 h3; exact ⟨h0, h3⟩
  | succ n ih =>
    intro c h0 h3
    simp only [rowWalk]
    by_cases hb : (decide (c + vc < 0) || decide (3 < c + vc)) = true
    · rw [if_pos hb]
      exact ⟨h0, h3⟩
    · rw [if_neg hb]
      rw [Bool.or_eq_true, decide_eq_true_iff, decide_eq_true_iff] at hb
      push_neg at hb
      cases hcell : L.getD (c + vc).toNat none with
      | none => exact ih (c + vc) (by omega) (by omega)
      | some nv =>
        dsimp only
        by_cases hcond :
            (nv == v && !(M.getD (c + vc).toNat false)) = true
        · rw [if_pos hcond]
          constructor <;> omega
        · rw [if_neg hcond]
          exact ⟨h0, h3⟩

/-- With a zero column component, the value-level walk stays in its column
and only reads that column. -/
theorem walkV_vert (g : GridGame.Grid) (m : List (List Bool)) (vr : Int)
    (v : Nat) :
    ∀ (fuel : Nat) (r c : Int), 0 ≤ c → c ≤ 3 →
      walkV g m vr 0 v r c fuel
        = (rowWalk (Mat.getCol g none c.toNat) (Mat.getCol m false c.toNat)
             vr v r fuel, c) := by
  intro fuel
  induction fuel with
  | zero => intro r c h0 h3; rfl
  | succ n ih =>
    intro r c h0 h3
    simp only [walkV, rowWalk, Int.add_zero]
    have e1 : decide (c < 0) = false := decide_eq_false (by omega)
    have e2 : decide ((3 : Int) < c) = false := decide_eq_false (by omega)
    rw [e1, e2]
    simp only [Bool.or_false]
    rw [apply_ite (fun t => (t, c))]
    by_cases hb : (decide (r + vr < 0) || decide (3 < r + vr)) = true
    · rw [if_pos hb, if_pos hb]
    · rw [if_neg hb, if_neg hb]
      rw [Bool.or_eq_true, decide_eq_true_iff, decide_eq_true_iff] at hb
      push_neg at hb
      have hlt : (r + vr).toNat < 4 := by omega
      have hcellc : GridGame.cellAt g (r + vr).toNat c.toNat =
          (Mat.getCol g none c.toNat).getD (r + vr).toNat none := by
        rw [Mat.getCol_getD none c.toNat hlt]
        rfl
      have hmc : TileGame.mergedAt m (r + vr).toNat c.toNat =
          (Mat.getCol m false c.toNat).getD (r + vr).toNat false := by
        rw [Mat.getCol_getD false c.toNat hlt]
        rfl
      rw [hcellc]
      cases hcell : (Mat.getCol g none c.toNat).getD (r + vr).toNat none with
      | none => exact ih (r + vr) c h0 h3
      | some nv =>
        rw [hmc]
        rw [apply_ite (fun t => (t, c))]

theorem lstep_line_length (vc : Int) (s : LState) (c : Nat) :
    (lstep vc s c).line.length = s.line.length := by
  simp only [lstep]
  cases s.line.getD c none with
  | none => rfl
  | some v =>
    dsimp only
    by_cases hd : (rowWalk s.line s.marks vc v (c : Int) 4).toNat = c
    · rw [if_pos hd]
    · rw [if_neg hd]
      cases ((s.line.set c none).getD
          (rowWalk s.line s.marks vc v (c : Int) 4).toNat none) with
      | none => simp
      | some tv =>
        dsimp only
        by_cases heq : tv = v
        · rw [if_pos heq]
          simp
        · rw [if_neg heq]
          simp

theorem lstep_marks_length (vc : Int) (s : LState) (c : Nat) :
    (lstep vc s c).marks.length = s.marks.length := by
  simp only [lstep]
  cases s.line.getD c none with
  | none => rfl
  | some v =>
    dsimp only
    by_cases hd : (rowWalk s.line s.marks vc v (c : Int) 4).toNat = c
    · rw [if_pos hd]
    · rw [if_neg hd]
      cases ((s.line.set c none).getD
          (rowWalk s.line s.marks vc v (c : Int) 4).toNat none) with
      | none => rfl
      | some tv =>
        dsimp only
        by_cases heq : tv = v
        · rw [if_pos heq]
          simp
        · rw [if_neg heq]

/-- `lstep` acts on the score and flag accumulators additively. -/
theorem lstep_shift (vc : Int) (L : List (Option Nat)) (M : List Bool)
    (sc : Nat) (mv mg : Bool) (c : Nat) :
    lstep vc ⟨L, M, sc, mv, mg⟩ c =
      { line := (lstep vc ⟨L, M, 0, false, false⟩ c).line,
        marks := (lstep vc ⟨L, M, 0, false, false⟩ c).marks,
        score := sc + (lstep vc ⟨L, M, 0, false, false⟩ c).score,
        anyMoved := mv || (lstep vc ⟨L, M, 0, false, false⟩ c).anyMoved,
        anyMerged := mg || (lstep vc ⟨L, M, 0, false, false⟩ c).anyMerged } := by
  simp only [lstep]
  cases L.getD c none with
  | none => simp
  | some v =>
    dsimp only
    by_cases hd : (rowWalk L M vc v (c : Int) 4).toNat = c
    · rw [if_pos hd, if_pos hd]
      simp
    · rw [if_neg hd, if_neg hd]
      cases ((L.set c none).getD (rowWalk L M vc v (c : Int) 4).toNat none) with
      | none => simp
      | some tv =>
        dsimp only
        by_cases heq : tv = v
        · rw [if_pos heq, if_pos heq]
          simp
        · rw [if_neg heq, if_neg heq]
          simp

/-- `lfold` acts on the score and flag accumulators additively. -/
theorem lfold_shift (vc : Int) (cs : List Nat) :
    ∀ (L : List (Option Nat)) (M : List Bool) (sc : Nat) (mv mg : Bool),
      lfold vc ⟨L, M, sc, mv, mg⟩ cs =
        { line := (lfold vc ⟨L, M, 0, false, false⟩ cs).line,
          marks := (lfold vc ⟨L, M, 0, false, false⟩ cs).marks,
          score := sc + (lfold vc ⟨L, M, 0, false, false⟩ cs).score,
          anyMoved := mv || (lfold vc ⟨L, M, 0, false, false⟩ cs).anyMoved,
          anyMerged :=
            mg || (lfold vc ⟨L, M, 0, false, false⟩ cs).anyMerged } := by
  induction cs with
  | nil => intro L M sc mv mg; simp [lfold]
  | cons c cs ih =>
    intro L M sc mv mg
    show lfold vc (lstep vc ⟨L, M, sc, mv, mg⟩ c) cs = _
    rw [lstep_shift]
    rcases hz : lstep vc ⟨L, M, 0, false, false⟩ c with ⟨L1, M1, s1, v1, g1⟩
    rw [ih]
    conv_rhs =>
      rw [show lfold vc ⟨L, M, 0, false, false⟩ (c :: cs)
            = lfold vc (lstep vc ⟨L, M, 0, false, false⟩ c) cs from rfl,
          hz]
    rw [ih L1 M1 s1 v1 g1]
    simp only [Nat.add_assoc, Bool.or_assoc]

end Equiv

namespace Mat

/-- A single write is a column overwrite of the written column. -/
theorem set_as_setCol {α : Type} (d : α) {g : List (List α)} (h : WF g)
    {r c : Nat} (hr : r < 4) (hc : c < 4) (v : α) :
    set g r c v = setCol g d c ((getCol g d c).set r v) := by
  refine ext d (WF_set h r c v) (WF_setCol d h c _) ?_
  intro i j hi hj
  rcases eq_or_ne j c with heq | hne
  · rw [heq]
    rcases eq_or_ne i r with heq2 | hne2
    · rw [heq2, get_set_self d h hr hc, get_setCol_self d h hr hc,
          Equiv.getD_set_self _ r v d (by simp [getCol]; omega)]
    · rw [get_set_other d (fun hand => hne2 hand.1),
          get_setCol_self d h hi hc,
          Equiv.getD_set_ne _ r i v d (Ne.symm hne2), getCol_getD d c hi]
  · rw [get_set_other d (fun hand => hne hand.2), get_setCol_other d hne]

end Mat

namespace Equiv

/-- One value-level loop iteration with a vertical vector is an `lstep`
on the column it touches. -/
theorem vstep_col (vr : Int) (s : VState) (r c : Nat) (hr : r < 4)
    (hc : c < 4) (hg : Mat.WF s.grid) (hm : Mat.WF s.merged) :
    vstep vr 0 s (r, c) =
      { grid := Mat.setCol s.grid none c
          (lstep vr ⟨Mat.getCol s.grid none c, Mat.getCol s.merged false c,
            s.score, s.anyMoved, s.anyMerged⟩ r).line,
        merged := Mat.setCol s.merged false c
          (lstep vr ⟨Mat.getCol s.grid none c, Mat.getCol s.merged false c,
            s.score, s.anyMoved, s.anyMerged⟩ r).marks,
        score := (lstep vr ⟨Mat.getCol s.grid none c,
            Mat.getCol s.merged false c,
            s.score, s.anyMoved, s.anyMerged⟩ r).score,
        anyMoved := (lstep vr ⟨Mat.getCol s.grid none c,
            Mat.getCol s.merged false c,
            s.score, s.anyMoved, s.anyMerged⟩ r).anyMoved,
        anyMerged := (lstep vr ⟨Mat.getCol s.grid none c,
            Mat.getCol s.merged false c,
            s.score, s.anyMoved, s.anyMerged⟩ r).anyMerged } := by
  simp only [vstep, lstep]
  have hcellrfl : GridGame.cellAt s.grid r c
      = (Mat.getCol s.grid none c).getD r none := by
    rw [Mat.getCol_getD none c hr]
    rfl
  rw [hcellrfl]
  cases hcell : (Mat.getCol s.grid none c).getD r none with
  | none =>
    dsimp only
    rw [Mat.setCol_getCol none hg hc, Mat.setCol_getCol false hm hc]
  | some v =>
    dsimp only
    have hwalk := walkV_vert s.grid s.merged vr v 4 (r : Int) (c : Int)
      (by omega) (by omega)
    rw [hwalk]
    dsimp only
    simp only [Int.toNat_natCast]
    have hwb := rowWalk_bounds (Mat.getCol s.grid none c)
      (Mat.getCol s.merged false c) vr v 4 (r : Int) (by omega) (by omega)
    have hw4 : (rowWalk (Mat.getCol s.grid none c)
        (Mat.getCol s.merged false c) vr v (r : Int) 4).toNat < 4 := by
      omega
    by_cases hdc : (rowWalk (Mat.getCol s.grid none c)
        (Mat.getCol s.merged false c) vr v (r : Int) 4).toNat = r
    · rw [if_pos ⟨hdc, trivial⟩, if_pos hdc]
      rw [Mat.setCol_getCol none hg hc, Mat.setCol_getCol false hm hc]
    · rw [if_neg (fun hand => hdc hand.1), if_neg hdc]
      have hg1 : GridGame.setCellAt s.grid r c none
          = Mat.setCol s.grid none c ((Mat.getCol s.grid none c).set r none) := by
        rw [setCellAt_eq_set]
        exact Mat.set_as_setCol none hg hr hc none
      have hl1len : ((Mat.getCol s.grid none c).set r none).length = 4 := by
        simp [Mat.getCol]
      have htarget : GridGame.cellAt (GridGame.setCellAt s.grid r c none)
            (rowWalk (Mat.getCol s.grid none c)
              (Mat.getCol s.merged false c) vr v (r : Int) 4).toNat c
          = ((Mat.getCol s.grid none c).set r none).getD
              (rowWalk (Mat.getCol s.grid none c)
                (Mat.getCol s.merged false c) vr v (r : Int) 4).toNat none := by
        rw [hg1, cellAt_eq_get, Mat.get_setCol_self none hg hw4 hc]
      rw [htarget]
      have hgridslide : ∀ X : Option Nat,
          GridGame.setCellAt (GridGame.setCellAt s.grid r c none)
            (rowWalk (Mat.getCol s.grid none c)
              (Mat.getCol s.merged false c) vr v (r : Int) 4).toNat c X
          = Mat.setCol s.grid none c
              (((Mat.getCol s.grid none c).set r none).set
                (rowWalk (Mat.getCol s.grid none c)
                  (Mat.getCol s.merged false c) vr v (r : Int) 4).toNat X) := by
        intro X
        rw [hg1, setCellAt_eq_set,
            Mat.set_as_setCol none (Mat.WF_setCol none hg c _) hw4 hc,
            Mat.getCol_setCol_self none hg hc hl1len,
            Mat.setCol_setCol none hg hc]
      have hmarks : TileGame.setMergedAt s.merged
            (rowWalk (Mat.getCol s.grid none c)
              (Mat.getCol s.merged false c) vr v (r : Int) 4).toNat c
          = Mat.setCol s.merged false c
              ((Mat.getCol s.merged false c).set
                (rowWalk (Mat.getCol s.grid none c)
                  (Mat.getCol s.merged false c) vr v (r : Int) 4).toNat true) := by
        rw [setMergedAt_eq_set]
        exact Mat.set_as_setCol false hm hw4 hc true
      cases htv : ((Mat.getCol s.grid none c).set r none).getD
          (rowWalk (Mat.getCol s.grid none c)
            (Mat.getCol s.merged false c) vr v (r : Int) 4).toNat none with
      | none =>
        dsimp only
        rw [hgridslide, Mat.setCol_getCol false hm hc]
      | some tv =>
        dsimp only
        by_cases heq : tv = v
        · rw [if_pos heq, if_pos heq, hgridslide, hmarks]
        · rw [if_neg heq, if_neg heq, hgridslide, Mat.setCol_getCol false hm hc]

end Equiv

namespace Equiv

theorem lstep_line_const (vc : Int) (L : List (Option Nat)) (M : List Bool)
    (sc : Nat) (mv mg : Bool) (c : Nat) :
    (lstep vc ⟨L, M, sc, mv, mg⟩ c).line
      = (lstep vc ⟨L, M, 0, false, false⟩ c).line := by
  rw [lstep_shift]

theorem lstep_marks_const (vc : Int) (L : List (Option Nat)) (M : List Bool)
    (sc : Nat) (mv mg : Bool) (c : Nat) :
    (lstep vc ⟨L, M, sc, mv, mg⟩ c).marks
      = (lstep vc ⟨L, M, 0, false, false⟩ c).marks := by
  rw [lstep_shift]

theorem lstep_score_add (vc : Int) (L : List (Option Nat)) (M : List Bool)
    (sc : Nat) (mv mg : Bool) (c : Nat) :
    (lstep vc ⟨L, M, sc, mv, mg⟩ c).score
      = sc + (lstep vc ⟨L, M, 0, false, false⟩ c).score := by
  conv_lhs => rw [lstep_shift]

theorem lstep_moved_or (vc : Int) (L : List (Option Nat)) (M : List Bool)
    (sc : Nat) (mv mg : Bool) (c : Nat) :
    (lstep vc ⟨L, M, sc, mv, mg⟩ c).anyMoved
      = (mv || (lstep vc ⟨L, M, 0, false, false⟩ c).anyMoved) := by
  conv_lhs => rw [lstep_shift]

theorem lstep_merged_or (vc : Int) (L : List (Option Nat)) (M : List Bool)
    (sc : Nat) (mv mg : Bool) (c : Nat) :
    (lstep vc ⟨L, M, sc, mv, mg⟩ c).anyMerged
      = (mg || (lstep vc ⟨L, M, 0, false, false⟩ c).anyMerged) := by
  conv_lhs => rw [lstep_shift]

/-- A horizontal fold along one row is an `lfold` on that row. -/
theorem vfold_row (vc : Int) (cs : List Nat) :
    ∀ (s : VState) (r : Nat), r < 4 →
      s.grid.length = 4 → s.merged.length = 4 →
      List.foldl (vstep 0 vc) s (cs.map fun c => (r, c)) =
        { grid := s.grid.set r
            (lfold vc ⟨s.grid.getD r [], s.merged.getD r [],
              s.score, s.anyMoved, s.anyMerged⟩ cs).line,
          merged := s.merged.set r
            (lfold vc ⟨s.grid.getD r [], s.merged.getD r [],
              s.score, s.anyMoved, s.anyMerged⟩ cs).marks,
          score := (lfold vc ⟨s.grid.getD r [], s.merged.getD r [],
              s.score, s.anyMoved, s.anyMerged⟩ cs).score,
          anyMoved := (lfold vc ⟨s.grid.getD r [], s.merged.getD r [],
              s.score, s.anyMoved, s.anyMerged⟩ cs).anyMoved,
          anyMerged := (lfold vc ⟨s.grid.getD r [], s.merged.getD r [],
              s.score, s.anyMoved, s.anyMerged⟩ cs).anyMerged } := by
  induction cs with
  | nil =>
    intro s r hr hg hm
    show s = _
    rw [lfold]
    dsimp only [List.foldl]
    rw [set_getD_self s.grid r [] (by omega),
        set_getD_self s.merged r [] (by omega)]
  | cons c cs ih =>
    intro s r hr hg hm
    show List.foldl (vstep 0 vc) (vstep 0 vc s (r, c)) (cs.map fun c => (r, c)) = _
    rw [vstep_row vc s r c hr hg hm]
    rw [ih _ r hr (by simp [hg]) (by simp [hm])]
    simp only [getD_set_self s.grid r _ [] (by omega),
               getD_set_self s.merged r _ [] (by omega),
               List.set_set]
    rfl

/-- A vertical fold along one column is an `lfold` on that column. -/
theorem vfold_col (vr : Int) (rs : List Nat) :
    ∀ (s : VState) (c : Nat), c < 4 → (∀ r ∈ rs, r < 4) →
      Mat.WF s.grid → Mat.WF s.merged →
      List.foldl (vstep vr 0) s (rs.map fun r => (r, c)) =
        { grid := Mat.setCol s.grid none c
            (lfold vr ⟨Mat.getCol s.grid none c, Mat.getCol s.merged false c,
              s.score, s.anyMoved, s.anyMerged⟩ rs).line,
          merged := Mat.setCol s.merged false c
            (lfold vr ⟨Mat.getCol s.grid none c, Mat.getCol s.merged false c,
              s.score, s.anyMoved, s.anyMerged⟩ rs).marks,
          score := (lfold vr ⟨Mat.getCol s.grid none c,
              Mat.getCol s.merged false c,
              s.score, s.anyMoved, s.anyMerged⟩ rs).score,
          anyMoved := (lfold vr ⟨Mat.getCol s.grid none c,
              Mat.getCol s.merged false c,
              s.score, s.anyMoved, s.anyMerged⟩ rs).anyMoved,
          anyMerged := (lfold vr ⟨Mat.getCol s.grid none c,
              Mat.getCol s.merged false c,
              s.score, s.anyMoved, s.anyMerged⟩ rs).anyMerged } := by
  induction rs with
  | nil =>
    intro s c hc hrs hg hm
    show s = _
    rw [lfold]
    dsimp only [List.foldl]
    rw [Mat.setCol_getCol none hg hc, Mat.setCol_getCol false hm hc]
  | cons r rs ih =>
    intro s c hc hrs hg hm
    have hr : r < 4 := hrs r (List.mem_cons_self r rs)
    show List.foldl (vstep vr 0) (vstep vr 0 s (r, c)) (rs.map fun r => (r, c)) = _
    rw [vstep_col vr s r c hr hc hg hm]
    rw [ih _ c hc (fun x hx => hrs x (List.mem_cons_of_mem r hx))
        (Mat.WF_setCol none hg c _) (Mat.WF_setCol false hm c _)]
    have hlineLen : (lstep vr ⟨Mat.getCol s.grid none c,
        Mat.getCol s.merged false c,
        s.score, s.anyMoved, s.anyMerged⟩ r).line.length = 4 :=
      lstep_line_length vr _ r
    have hmarksLen : (lstep vr ⟨Mat.getCol s.grid none c,
        Mat.getCol s.merged false c,
        s.score, s.anyMoved, s.anyMerged⟩ r).marks.length = 4 :=
      lstep_marks_length vr _ r
    simp only [Mat.getCol_setCol_self none hg hc hlineLen,
               Mat.getCol_setCol_self false hm hc hmarksLen,
               Mat.setCol_setCol none hg hc,
               Mat.setCol_setCol false hm hc]
    rfl

/-- The loop body keeps the grid and the merged markers well-formed. -/
theorem vstep_WF (vr vc : Int) (s : VState) (p : Nat × Nat)
    (hg : Mat.WF s.grid) (hm : Mat.WF s.merged) :
    Mat.WF (vstep vr vc s p).grid ∧ Mat.WF (vstep vr vc s p).merged := by
  simp only [vstep]
  cases GridGame.cellAt s.grid p.1 p.2 with
  | none => exact ⟨hg, hm⟩
  | some v =>
    dsimp only
    by_cases hd : ((walkV s.grid s.merged vr vc v (p.1 : Int) (p.2 : Int) 4).1.toNat = p.1
        ∧ (walkV s.grid s.merged vr vc v (p.1 : Int) (p.2 : Int) 4).2.toNat = p.2)
    · rw [if_pos hd]
      exact ⟨hg, hm⟩
    · rw [if_neg hd]
      cases GridGame.cellAt (GridGame.setCellAt s.grid p.1 p.2 none)
          (walkV s.grid s.merged vr vc v (p.1 : Int) (p.2 : Int) 4).1.toNat
          (walkV s.grid s.merged vr vc v (p.1 : Int) (p.2 : Int) 4).2.toNat with
      | none => exact ⟨Mat.WF_set (Mat.WF_set hg _ _ _) _ _ _, hm⟩
      | some tv =>
        dsimp only
        by_cases heq : tv = v
        · rw [if_pos heq]
          exact ⟨Mat.WF_set (Mat.WF_set hg _ _ _) _ _ _, Mat.WF_set hm _ _ _⟩
        · rw [if_neg heq]
          exact ⟨Mat.WF_set (Mat.WF_set hg _ _ _) _ _ _, hm⟩

end Equiv

namespace Equiv

/-- The line machine run from zero accumulators. -/
def lraw (vc : Int) (L : List (Option Nat)) (M : List Bool) (c : Nat) : LState :=
  lstep vc ⟨L, M, 0, false, false⟩ c

/-- Normal form of an `lstep`: a base run plus accumulator bookkeeping. -/
theorem lstep_norm (vc : Int) (L : List (Option Nat)) (M : List Bool)
    (sc : Nat) (mv mg : Bool) (c : Nat) :
    lstep vc ⟨L, M, sc, mv, mg⟩ c =
      ⟨(lraw vc L M c).line, (lraw vc L M c).marks,
       sc + (lraw vc L M c).score, mv || (lraw vc L M c).anyMoved,
       mg || (lraw vc L M c).anyMerged⟩ := by
  rw [lstep_shift]
  rfl

/-- Vertical loop iterations on different columns commute. -/
theorem vstep_col_comm (vr : Int) (s : VState) {r1 c1 r2 c2 : Nat}
    (h1r : r1 < 4) (h1c : c1 < 4) (h2r : r2 < 4) (h2c : c2 < 4)
    (hne : c1 ≠ c2) (hg : Mat.WF s.grid) (hm : Mat.WF s.merged) :
    vstep vr 0 (vstep vr 0 s (r1, c1)) (r2, c2)
      = vstep vr 0 (vstep vr 0 s (r2, c2)) (r1, c1) := by
  obtain ⟨g, m, sc, mv, mg⟩ := s
  simp only at hg hm
  rw [vstep_col vr ⟨g, m, sc, mv, mg⟩ r1 c1 h1r h1c hg hm,
      vstep_col vr ⟨g, m, sc, mv, mg⟩ r2 c2 h2r h2c hg hm]
  rw [vstep_col vr _ r2 c2 h2r h2c (Mat.WF_setCol none hg c1 _)
      (Mat.WF_setCol false hm c1 _)]
  rw [vstep_col vr _ r1 c1 h1r h1c (Mat.WF_setCol none hg c2 _)
      (Mat.WF_setCol false hm c2 _)]
  simp only [Mat.getCol_setCol_ne none (Ne.symm hne),
             Mat.getCol_setCol_ne false (Ne.symm hne),
             Mat.getCol_setCol_ne none hne,
             Mat.getCol_setCol_ne false hne]
  simp only [lstep_norm, VState.mk.injEq]
  refine ⟨?_, ?_, ?_, ?_, ?_⟩
  · exact Mat.setCol_comm none hg h1c h2c hne _ _
  · exact Mat.setCol_comm false hm h1c h2c hne _ _
  · omega
  · conv_lhs => rw [Bool.or_assoc]
    conv_rhs => rw [Bool.or_assoc]
    rw [Bool.or_comm ((lraw vr (Mat.getCol g none c1)
        (Mat.getCol m false c1) r1).anyMoved)]
  · conv_lhs => rw [Bool.or_assoc]
    conv_rhs => rw [Bool.or_assoc]
    rw [Bool.or_comm ((lraw vr (Mat.getCol g none c1)
        (Mat.getCol m false c1) r1).anyMerged)]

/-- Reorder a fold so that the elements satisfying `P` are processed
first, given an invariant and a commutation law on the element domain. -/
theorem foldl_filter_inv {β σ : Type} (f : σ → β → σ) (P : β → Bool)
    (I : σ → Prop) (Q : β → Prop)
    (hI : ∀ s x, I s → I (f s x))
    (hcomm : ∀ s x y, I s → Q x → Q y → P x = true → P y = false →
      f (f s x) y = f (f s y) x) :
    ∀ (l : List β) (s : σ), I s → (∀ b ∈ l, Q b) →
      List.foldl f s l
        = List.foldl f (List.foldl f s (l.filter P))
            (l.filter fun b => !P b) := by
  have hpast : ∀ (bs : List β) (s : σ) (y : β), I s → Q y →
      (∀ b ∈ bs, P b = true ∧ Q b) → P y = false →
      List.foldl f (f s y) bs = f (List.foldl f s bs) y := by
    intro bs
    induction bs with
    | nil => intro s y _ _ _ _; rfl
    | cons b bs ih =>
      intro s y hs hQy hall hy
      show List.foldl f (f (f s y) b) bs = _
      rw [← hcomm s b y hs (hall b (List.mem_cons_self b bs)).2 hQy
          (hall b (List.mem_cons_self b bs)).1 hy]
      exact ih (f s b) y (hI s b hs) hQy
        (fun b' hb' => hall b' (List.mem_cons_of_mem b hb')) hy
  intro l
  induction l with
  | nil => intro s _ _; rfl
  | cons a l ih =>
    intro s hs hQ
    have hQl : ∀ b ∈ l, Q b := fun b hb => hQ b (List.mem_cons_of_mem a hb)
    by_cases ha : P a = true
    · rw [List.filter_cons_of_pos ha]
      rw [show List.filter (fun b => !P b) (a :: l)
            = List.filter (fun b => !P b) l from by
        simp [List.filter_cons, ha]]
      show List.foldl f (f s a) l = _
      rw [ih (f s a) (hI s a hs) hQl]
      rfl
    · have ha' : P a = false := by simpa using ha
      rw [show List.filter P (a :: l) = List.filter P l from by
        simp [List.filter_cons, ha']]
      rw [show List.filter (fun b => !P b) (a :: l)
            = a :: List.filter (fun b => !P b) l from by
        simp [List.filter_cons, ha']]
      show List.foldl f (f s a) l = _
      rw [ih (f s a) (hI s a hs) hQl]
      rw [hpast (l.filter P) s a hs (hQ a (List.mem_cons_self a l))
          (fun b hb => ⟨List.of_mem_filter hb,
            hQl b (List.mem_of_mem_filter hb)⟩) ha']
      rfl

end Equiv

/-! ## Projection of the tile-identity loop onto the value level -/

namespace Equiv

/-- Forget a tile, keep its value. -/
def projCell : Option TileGame.Tile → Option Nat :=
  Option.map TileGame.Tile.value

/-- Forget all tiles of the 4x4 lookup, keep their values. -/
def projGrid (g : TileGame.TGrid) : GridGame.Grid :=
  g.map (List.map projCell)

/-- Forget the tiles of a traversal-loop state. -/
def projState (s : TileGame.MoveState) : VState :=
  ⟨projGrid s.grid, s.merged, s.score, s.anyMoved, s.anyMerged⟩

theorem projGrid_getD (g : TileGame.TGrid) (r : Nat) :
    (projGrid g).getD r [] = List.map projCell (g.getD r []) := by
  unfold projGrid
  rw [List.getD_eq_getElem?_getD, List.getElem?_map,
      List.getD_eq_getElem?_getD]
  cases g[r]? with
  | none => rfl
  | some row => rfl

theorem projGrid_cell (g : TileGame.TGrid) (r c : Nat) :
    GridGame.cellAt (projGrid g) r c = projCell (TileGame.cellAt g r c) := by
  unfold GridGame.cellAt TileGame.cellAt
  rw [projGrid_getD]
  generalize g.getD r [] = row
  rw [List.getD_eq_getElem?_getD, List.getElem?_map,
      List.getD_eq_getElem?_getD]
  cases row[c]? with
  | none => rfl
  | some cell => rfl

theorem projGrid_set (g : TileGame.TGrid) (r c : Nat)
    (v : Option TileGame.Tile) :
    projGrid (TileGame.setCellAt g r c v)
      = GridGame.setCellAt (projGrid g) r c (projCell v) := by
  unfold projGrid TileGame.setCellAt GridGame.setCellAt
  rw [List.map_set, List.map_set]
  rw [← projGrid_getD]
  rfl

/-- The slide walk only looks at values: it projects. -/
theorem walk_proj (g : TileGame.TGrid) (m : List (List Bool)) (vr vc : Int)
    (v : Nat) :
    ∀ (fuel : Nat) (r c : Int),
      TileGame.walk g m vr vc v r c fuel
        = walkV (projGrid g) m vr vc v r c fuel := by
  intro fuel
  induction fuel with
  | zero => intro r c; rfl
  | succ n ih =>
    intro r c
    simp only [TileGame.walk, walkV]
    by_cases hb : (decide (r + vr < 0) || decide (3 < r + vr) ||
        decide (c + vc < 0) || decide (3 < c + vc)) = true
    · rw [if_pos hb, if_pos hb]
    · rw [if_neg hb, if_neg hb]
      rw [projGrid_cell]
      cases hcell : TileGame.cellAt g (r + vr).toNat (c + vc).toNat with
      | none => exact ih (r + vr) (c + vc)
      | some nt => rfl

/-- Erasing a tile write to `null`. -/
theorem projGrid_set_none (g : TileGame.TGrid) (r c : Nat) :
    projGrid (TileGame.setCellAt g r c none)
      = GridGame.setCellAt (projGrid g) r c none :=
  projGrid_set g r c none

/-- Erasing a tile write. -/
theorem projGrid_set_some (g : TileGame.TGrid) (r c : Nat)
    (t : TileGame.Tile) :
    projGrid (TileGame.setCellAt g r c (some t))
      = GridGame.setCellAt (projGrid g) r c (some t.value) :=
  projGrid_set g r c (some t)

/-- The traversal-loop body only looks at values: it projects onto
`vstep`. -/
theorem step_proj (vr vc : Int) (s : TileGame.MoveState) (p : Nat × Nat) :
    projState (TileGame.step vr vc s p) = vstep vr vc (projState s) p := by
  obtain ⟨g, m, sc, mv, mg, nid⟩ := s
  simp only [TileGame.step, vstep]
  rw [show (projState ⟨g, m, sc, mv, mg, nid⟩).grid = projGrid g from rfl,
      show (projState ⟨g, m, sc, mv, mg, nid⟩).merged = m from rfl]
  rw [projGrid_cell]
  cases hcell : TileGame.cellAt g p.1 p.2 with
  | none => rfl
  | some tile =>
    dsimp only [projCell, Option.map]
    rw [walk_proj g m vr vc tile.value]
    rw [apply_ite projState]
    by_cases hd : ((walkV (projGrid g) m vr vc tile.value (p.1 : Int) (p.2 : Int) 4).1.toNat = p.1
        ∧ (walkV (projGrid g) m vr vc tile.value (p.1 : Int) (p.2 : Int) 4).2.toNat = p.2)
    · rw [if_pos hd, if_pos hd]
    · rw [if_neg hd, if_neg hd]
      rw [← projGrid_set_none g p.1 p.2, projGrid_cell]
      cases htv : TileGame.cellAt (TileGame.setCellAt g p.1 p.2 none)
          (walkV (projGrid g) m vr vc tile.value (p.1 : Int) (p.2 : Int) 4).1.toNat
          (walkV (projGrid g) m vr vc tile.value (p.1 : Int) (p.2 : Int) 4).2.toNat with
      | none =>
        dsimp only [projCell, Option.map]
        simp only [projState, projGrid_set_some, projGrid_set_none]
      | some target =>
        dsimp only [projCell, Option.map]
        by_cases heq : target.value = tile.value
        · rw [if_pos heq, if_pos heq]
          simp only [projState, projGrid_set_some, projGrid_set_none]
          rfl
        · rw [if_neg heq, if_neg heq]
          simp only [projState, projGrid_set_some, projGrid_set_none]

/-- The whole traversal loop projects onto the value level. -/
theorem fold_proj (vr vc : Int) :
    ∀ (ps : List (Nat × Nat)) (s : TileGame.MoveState),
      projState (ps.foldl (TileGame.step vr vc) s)
        = ps.foldl (vstep vr vc) (projState s) := by
  intro ps
  induction ps with
  | nil => intro s; rfl
  | cons p ps ih =>
    intro s
    show projState ((ps).foldl (TileGame.step vr vc) (TileGame.step vr vc s p)) = _
    rw [ih, step_proj]
    rfl

theorem projGrid_empty : projGrid TileGame.emptyTGrid = GridGame.createEmptyGrid := by
  rfl

/-- The value projection of the materialized tile lookup is the value
lookup that `canMove` builds. -/
theorem projGrid_materialize (tiles : List TileGame.Tile) :
    projGrid (TileGame.materialize tiles) = TileGame.valueGrid tiles := by
  unfold TileGame.materialize TileGame.valueGrid
  rw [← projGrid_empty]
  generalize TileGame.emptyTGrid = g0
  induction tiles generalizing g0 with
  | nil => rfl
  | cons t ts ih =>
    show projGrid (ts.foldl _ (TileGame.setCellAt g0 t.row t.col _))
        = ts.foldl _ (GridGame.setCellAt (projGrid g0) t.row t.col _)
    rw [ih (TileGame.setCellAt g0 t.row t.col
          (some { t with isNew := false, isMerged := false })),
        projGrid_set]
    rfl

end Equiv

/-! ## Whole-direction assembly: the value-level fold against the grid engine -/

namespace Equiv

/-- `lineL_spec` for an arbitrary length-4 line. -/
theorem lineL_spec4 {L : List (Option Nat)} (hL : L.length = 4)
    (sc : Nat) (mv mg : Bool) :
    (lfold (-1) ⟨L, [false, false, false, false], sc, mv, mg⟩ [0, 1, 2, 3]).line
        = (GridGame.slideRow L).newRow ∧
    (lfold (-1) ⟨L, [false, false, false, false], sc, mv, mg⟩ [0, 1, 2, 3]).score
        = sc + (GridGame.slideRow L).score ∧
    (lfold (-1) ⟨L, [false, false, false, false], sc, mv, mg⟩ [0, 1, 2, 3]).anyMerged
        = (mg || (GridGame.slideRow L).merged) ∧
    ((lfold (-1) ⟨L, [false, false, false, false], sc, mv, mg⟩
        [0, 1, 2, 3]).anyMoved = true ↔
      (mv = true ∨ (GridGame.slideRow L).newRow ≠ L)) := by
  rw [Mat.list4_eq none hL]
  exact lineL_spec _ _ _ _ sc mv mg

/-- `lineR_spec` for an arbitrary length-4 line. -/
theorem lineR_spec4 {L : List (Option Nat)} (hL : L.length = 4)
    (sc : Nat) (mv mg : Bool) :
    (lfold 1 ⟨L, [false, false, false, false], sc, mv, mg⟩ [3, 2, 1, 0]).line
        = (GridGame.slideRow L.reverse).newRow.reverse ∧
    (lfold 1 ⟨L, [false, false, false, false], sc, mv, mg⟩ [3, 2, 1, 0]).score
        = sc + (GridGame.slideRow L.reverse).score ∧
    (lfold 1 ⟨L, [false, false, false, false], sc, mv, mg⟩ [3, 2, 1, 0]).anyMerged
        = (mg || (GridGame.slideRow L.reverse).merged) ∧
    ((lfold 1 ⟨L, [false, false, false, false], sc, mv, mg⟩
        [3, 2, 1, 0]).anyMoved = true ↔
      (mv = true ∨ (GridGame.slideRow L.reverse).newRow.reverse ≠ L)) := by
  rw [Mat.list4_eq none hL]
  exact lineR_spec _ _ _ _ sc mv mg

/-- A slid row has length 4 again. -/
theorem slideRow_newRow_length {row : List (Option Nat)} (h : row.length = 4) :
    (GridGame.slideRow row).newRow.length = 4 := by
  have h1 : (row.filterMap id).length ≤ 4 :=
    le_of_le_of_eq (List.length_filterMap_le id row) h
  have h2 := GridGame.mergePairs_length (row.filterMap id)
  rw [GridGame.slideRow_newRow]
  simp only [List.length_append, List.length_map, List.length_replicate]
  omega

/-- The traversal pair list that `TileGame.move` folds over. -/
def pairsFor (d : Direction) : List (Nat × Nat) :=
  (TileGame.getTraversalOrder d).1.flatMap fun row =>
    (TileGame.getTraversalOrder d).2.map fun col => (row, col)

theorem pairsFor_left :
    pairsFor .left
      = (([0, 1, 2, 3] : List Nat).map fun c => ((0 : Nat), c))
        ++ ((([0, 1, 2, 3] : List Nat).map fun c => ((1 : Nat), c))
        ++ ((([0, 1, 2, 3] : List Nat).map fun c => ((2 : Nat), c))
        ++ (([0, 1, 2, 3] : List Nat).map fun c => ((3 : Nat), c)))) := rfl

end Equiv

namespace Equiv

/-- The value-level traversal fold for `left` agrees with the grid
engine's `move`. -/
theorem fold_move_left (g : GridGame.Grid) (hg : Mat.WF g) :
    ((pairsFor .left).foldl (vstep 0 (-1))
        ⟨g, TileGame.emptyMGrid, 0, false, false⟩).grid
      = (GridGame.move g .left).grid ∧
    ((pairsFor .left).foldl (vstep 0 (-1))
        ⟨g, TileGame.emptyMGrid, 0, false, false⟩).score
      = (GridGame.move g .left).score ∧
    ((pairsFor .left).foldl (vstep 0 (-1))
        ⟨g, TileGame.emptyMGrid, 0, false, false⟩).anyMoved
      = (GridGame.move g .left).moved ∧
    ((pairsFor .left).foldl (vstep 0 (-1))
        ⟨g, TileGame.emptyMGrid, 0, false, false⟩).anyMerged
      = (GridGame.move g .left).merged := by
  obtain ⟨hlen, hrows⟩ := hg
  rcases g with _ | ⟨R0, _ | ⟨R1, _ | ⟨R2, _ | ⟨R3, _ | ⟨R4, t⟩⟩⟩⟩⟩ <;>
    simp only [List.length_cons, List.length_nil] at hlen <;> try omega
  have h0 : R0.length = 4 := hrows R0 (by simp)
  have h1 : R1.length = 4 := hrows R1 (by simp)
  have h2 : R2.length = 4 := hrows R2 (by simp)
  have h3 : R3.length = 4 := hrows R3 (by simp)
  have e0 := lineL_spec4 h0 0 false false
  have e1 := lineL_spec4 h1 (lfold (-1) ⟨R0, [false, false, false, false], 0, false, false⟩ [0, 1, 2, 3]).score (lfold (-1) ⟨R0, [false, false, false, false], 0, false, false⟩ [0, 1, 2, 3]).anyMoved (lfold (-1) ⟨R0, [false, false, false, false], 0, false, false⟩ [0, 1, 2, 3]).anyMerged
  have e2 := lineL_spec4 h2 (lfold (-1) ⟨R1, [false, false, false, false], (lfold (-1) ⟨R0, [false, false, false, false], 0, false, false⟩ [0, 1, 2, 3]).score, (lfold (-1) ⟨R0, [false, false, false, false], 0, false, false⟩ [0, 1, 2, 3]).anyMoved, (lfold (-1) ⟨R0, [false, false, false, false], 0, false, false⟩ [0, 1, 2, 3]).anyMerged⟩ [0, 1, 2, 3]).score (lfold (-1) ⟨R1, [false, false, false, false], (lfold (-1) ⟨R0, [false, false, false, false], 0, false, false⟩ [0, 1, 2, 3]).score, (lfold (-1) ⟨R0, [false, false, false, false], 0, false, false⟩ [0, 1, 2, 3]).anyMoved, (lfold (-1) ⟨R0, [false, false, false, false], 0, false, false⟩ [0, 1, 2, 3]).anyMerged⟩ [0, 1, 2, 3]).anyMoved (lfold (-1) ⟨R1, [false, false, false, false], (lfold (-1) ⟨R0, [false, false, false, false], 0, false, false⟩ [0, 1, 2, 3]).score, (lfold (-1) ⟨R0, [false, false, false, false], 0, false, false⟩ [0, 1, 2, 3]).anyMoved, (lfold (-1) ⟨R0, [false, false, false, false], 0, false, false⟩ [0, 1, 2, 3]).anyMerged⟩ [0, 1, 2, 3]).anyMerged
  have e3 := lineL_spec4 h3 (lfold (-1) ⟨R2, [false, false, false, false], (lfold (-1) ⟨R1, [false, false, false, false], (lfold (-1) ⟨R0, [false, false, false, false], 0, false, false⟩ [0, 1, 2, 3]).score, (lfold (-1) ⟨R0, [false, false, false, false], 0, false, false⟩ [0, 1, 2, 3]).anyMoved, (lfold (-1) ⟨R0, [false, false, false, false], 0, false, false⟩ [0, 1, 2, 3]).anyMerged⟩ [0, 1, 2, 3]).score, (lfold (-1) ⟨R1, [false, false, false, false], (lfold (-1) ⟨R0, [false, false, false, false], 0, false, false⟩ [0, 1, 2, 3]).score, (lfold (-1) ⟨R0, [false, false, false, false], 0, false, false⟩ [0, 1, 2, 3]).anyMoved, (lfold (-1) ⟨R0, [false, false, false, false], 0, false, false⟩ [0, 1, 2, 3]).anyMerged⟩ [0, 1, 2, 3]).anyMoved, (lfold (-1) ⟨R1, [false, false, false, false], (lfold (-1) ⟨R0, [false, false, false, false], 0, false, false⟩ [0, 1, 2, 3]).score, (lfold (-1) ⟨R0, [false, false, false, false], 0, false, false⟩ [0, 1, 2, 3]).anyMoved, (lfold (-1) ⟨R0, [false, false, false, false], 0, false, false⟩ [0, 1, 2, 3]).anyMerged⟩ [0, 1, 2, 3]).anyMerged⟩ [0, 1, 2, 3]).score (lfold (-1) ⟨R2, [false, false, false, false], (lfold (-1) ⟨R1, [false, false, false, false], (lfold (-1) ⟨R0, [false, false, false, false], 0, false, false⟩ [0, 1, 2, 3]).score, (lfold (-1) ⟨R0, [false, false, false, false], 0, false, false⟩ [0, 1, 2, 3]).anyMoved, (lfold (-1) ⟨R0, [false, false, false, false], 0, false, false⟩ [0, 1, 2, 3]).anyMerged⟩ [0, 1, 2, 3]).score, (lfold (-1) ⟨R1, [false, false, false, false], (lfold (-1) ⟨R0, [false, false, false, false], 0, false, false⟩ [0, 1, 2, 3]).score, (lfold (-1) ⟨R0, [false, false, false, false], 0, false, false⟩ [0, 1, 2, 3]).anyMoved, (lfold (-1) ⟨R0, [false, false, false, false], 0, false, false⟩ [0, 1, 2, 3]).anyMerged⟩ [0, 1, 2, 3]).anyMoved, (lfold (-1) ⟨R1, [false, false, false, false], (lfold (-1) ⟨R0, [false, false, false, false], 0, false, false⟩ [0, 1, 2, 3]).score, (lfold (-1) ⟨R0, [false, false, false, false], 0, false, false⟩ [0, 1, 2, 3]).anyMoved, (lfold (-1) ⟨R0, [false, false, false, false], 0, false, false⟩ [0, 1, 2, 3]).anyMerged⟩ [0, 1, 2, 3]).anyMerged⟩ [0, 1, 2, 3]).anyMoved (lfold (-1) ⟨R2, [false, false, false, false], (lfold (-1) ⟨R1, [false, false, false, false], (lfold (-1) ⟨R0, [false, false, false, false], 0, false, false⟩ [0, 1, 2, 3]).score, (lfold (-1) ⟨R0, [false, false, false, false], 0, false, false⟩ [0, 1, 2, 3]).anyMoved, (lfold (-1) ⟨R0, [false, false, false, false], 0, false, false⟩ [0, 1, 2, 3]).anyMerged⟩ [0, 1, 2, 3]).score, (lfold (-1) ⟨R1, [false, false, false, false], (lfold (-1) ⟨R0, [false, false, false, false], 0, false, false⟩ [0, 1, 2, 3]).score, (lfold (-1) ⟨R0, [false, false, false, false], 0, false, false⟩ [0, 1, 2, 3]).anyMoved, (lfold (-1) ⟨R0, [false, false, false, false], 0, false, false⟩ [0, 1, 2, 3]).anyMerged⟩ [0, 1, 2, 3]).anyMoved, (lfold (-1) ⟨R1, [false, false, false, false], (lfold (-1) ⟨R0, [false, false, false, false], 0, false, false⟩ [0, 1, 2, 3]).score, (lfold (-1) ⟨R0, [false, false, false, false], 0, false, false⟩ [0, 1, 2, 3]).anyMoved, (lfold (-1) ⟨R0, [false, false, false, false], 0, false, false⟩ [0, 1, 2, 3]).anyMerged⟩ [0, 1, 2, 3]).anyMerged⟩ [0, 1, 2, 3]).anyMerged
  have hb0 : List.foldl (vstep 0 (-1)) ⟨[R0, R1, R2, R3], TileGame.emptyMGrid, 0, false, false⟩
      (([0, 1, 2, 3] : List Nat).map fun c => ((0 : Nat), c)) = ⟨[(lfold (-1) ⟨R0, [false, false, false, false], 0, false, false⟩ [0, 1, 2, 3]).line, R1, R2, R3], (TileGame.emptyMGrid.set 0 (lfold (-1) ⟨R0, [false, false, false, false], 0, false, false⟩ [0, 1, 2, 3]).marks), (lfold (-1) ⟨R0, [false, false, false, false], 0, false, false⟩ [0, 1, 2, 3]).score, (lfold (-1) ⟨R0, [false, false, false, false], 0, false, false⟩ [0, 1, 2, 3]).anyMoved, (lfold (-1) ⟨R0, [false, false, false, false], 0, false, false⟩ [0, 1, 2, 3]).anyMerged⟩ := by
    rw [vfold_row (-1) [0, 1, 2, 3] ⟨[R0, R1, R2, R3], TileGame.emptyMGrid, 0, false, false⟩ 0 (by omega) rfl rfl]
    rfl
  have hb1 : List.foldl (vstep 0 (-1)) ⟨[(lfold (-1) ⟨R0, [false, false, false, false], 0, false, false⟩ [0, 1, 2, 3]).line, R1, R2, R3], (TileGame.emptyMGrid.set 0 (lfold (-1) ⟨R0, [false, false, false, false], 0, false, false⟩ [0, 1, 2, 3]).marks), (lfold (-1) ⟨R0, [false, false, false, false], 0, false, false⟩ [0, 1, 2, 3]).score, (lfold (-1) ⟨R0, [false, false, false, false], 0, false, false⟩ [0, 1, 2, 3]).anyMoved, (lfold (-1) ⟨R0, [false, false, false, false], 0, false, false⟩ [0, 1, 2, 3]).anyMerged⟩
      (([0, 1, 2, 3] : List Nat).map fun c => ((1 : Nat), c)) = ⟨[(lfold (-1) ⟨R0, [false, false, false, false], 0, false, false⟩ [0, 1, 2, 3]).line, (lfold (-1) ⟨R1, [false, false, false, false], (lfold (-1) ⟨R0, [false, false, false, false], 0, false, false⟩ [0, 1, 2, 3]).score, (lfold (-1) ⟨R0, [false, false, false, false], 0, false, false⟩ [0, 1, 2, 3]).anyMoved, (lfold (-1) ⟨R0, [false, false, false, false], 0, false, false⟩ [0, 1, 2, 3]).anyMerged⟩ [0, 1, 2, 3]).line, R2, R3], ((TileGame.emptyMGrid.set 0 (lfold (-1) ⟨R0, [false, false, false, false], 0, false, false⟩ [0, 1, 2, 3]).marks).set 1 (lfold (-1) ⟨R1, [false, false, false, false], (lfold (-1) ⟨R0, [false, false, false, false], 0, false, false⟩ [0, 1, 2, 3]).score, (lfold (-1) ⟨R0, [false, false, false, false], 0, false, false⟩ [0, 1, 2, 3]).anyMoved, (lfold (-1) ⟨R0, [false, false, false, false], 0, false, false⟩ [0, 1, 2, 3]).anyMerged⟩ [0, 1, 2, 3]).marks), (lfold (-1) ⟨R1, [false, false, false, false], (lfold (-1) ⟨R0, [false, false, false, false], 0, false, false⟩ [0, 1, 2, 3]).score, (lfold (-1) ⟨R0, [false, false, false, false], 0, false, false⟩ [0, 1, 2, 3]).anyMoved, (lfold (-1) ⟨R0, [false, false, false, false], 0, false, false⟩ [0, 1, 2, 3]).anyMerged⟩ [0, 1, 2, 3]).score, (lfold (-1) ⟨R1, [false, false, false, false], (lfold (-1) ⟨R0, [false, false, false, false], 0, false, false⟩ [0, 1, 2, 3]).score, (lfold (-1) ⟨R0, [false, false, false, false], 0, false, false⟩ [0, 1, 2, 3]).anyMoved, (lfold (-1) ⟨R0, [false, false, false, false], 0, false, false⟩ [0, 1, 2, 3]).anyMerged⟩ [0, 1, 2, 3]).anyMoved, (lfold (-1) ⟨R1, [false, false, false, false], (lfold (-1) ⟨R0, [false, false, false, false], 0, false, false⟩ [0, 1, 2, 3]).score, (lfold (-1) ⟨R0, [false, false, false, false], 0, false, false⟩ [0, 1, 2, 3]).anyMoved, (lfold (-1) ⟨R0, [false, false, false, false], 0, false, false⟩ [0, 1, 2, 3]).anyMerged⟩ [0, 1, 2, 3]).anyMerged⟩ := by
    rw [vfold_row (-1) [0, 1, 2, 3] ⟨[(lfold (-1) ⟨R0, [false, false, false, false], 0, false, false⟩ [0, 1, 2, 3]).line, R1, R2, R3], (TileGame.emptyMGrid.set 0 (lfold (-1) ⟨R0, [false, false, false, false], 0, false, false⟩ [0, 1, 2, 3]).marks), (lfold (-1) ⟨R0, [false, false, false, false], 0, false, false⟩ [0, 1, 2, 3]).score, (lfold (-1) ⟨R0, [false, false, false, false], 0, false, false⟩ [0, 1, 2, 3]).anyMoved, (lfold (-1) ⟨R0, [false, false, false, false], 0, false, false⟩ [0, 1, 2, 3]).anyMerged⟩ 1 (by omega) rfl rfl]
    rfl
  have hb2 : List.foldl (vstep 0 (-1)) ⟨[(lfold (-1) ⟨R0, [false, false, false, false], 0, false, false⟩ [0, 1, 2, 3]).line, (lfold (-1) ⟨R1, [false, false, false, false], (lfold (-1) ⟨R0, [false, false, false, false], 0, false, false⟩ [0, 1, 2, 3]).score, (lfold (-1) ⟨R0, [false, false, false, false], 0, false, false⟩ [0, 1, 2, 3]).anyMoved, (lfold (-1) ⟨R0, [false, false, false, false], 0, false, false⟩ [0, 1, 2, 3]).anyMerged⟩ [0, 1, 2, 3]).line, R2, R3], ((TileGame.emptyMGrid.set 0 (lfold (-1) ⟨R0, [false, false, false, false], 0, false, false⟩ [0, 1, 2, 3]).marks).set 1 (lfold (-1) ⟨R1, [false, false, false, false], (lfold (-1) ⟨R0, [false, false, false, false], 0, false, false⟩ [0, 1, 2, 3]).score, (lfold (-1) ⟨R0, [false, false, false, false], 0, false, false⟩ [0, 1, 2, 3]).anyMoved, (lfold (-1) ⟨R0, [false, false, false, false], 0, false, false⟩ [0, 1, 2, 3]).anyMerged⟩ [0, 1, 2, 3]).marks), (lfold (-1) ⟨R1, [false, false, false, false], (lfold (-1) ⟨R0, [false, false, false, false], 0, false, false⟩ [0, 1, 2, 3]).score, (lfold (-1) ⟨R0, [false, false, false, false], 0, false, false⟩ [0, 1, 2, 3]).anyMoved, (lfold (-1) ⟨R0, [false, false, false, false], 0, false, false⟩ [0, 1, 2, 3]).anyMerged⟩ [0, 1, 2, 3]).score, (lfold (-1) ⟨R1, [false, false, false, false], (lfold (-1) ⟨R0, [false, false, false, false], 0, false, false⟩ [0, 1, 2, 3]).score, (lfold (-1) ⟨R0, [false, false, false, false], 0, false, false⟩ [0, 1, 2, 3]).anyMoved, (lfold (-1) ⟨R0, [false, false, false, false], 0, false, false⟩ [0, 1, 2, 3]).anyMerged⟩ [0, 1, 2, 3]).anyMoved, (lfold (-1) ⟨R1, [false, false, false, false], (lfold (-1) ⟨R0, [false, false, false, false], 0, false, false⟩ [0, 1, 2, 3]).score, (lfold (-1) ⟨R0, [false, false, false, false], 0, false, false⟩ [0, 1, 2, 3]).anyMoved, (lfold (-1) ⟨R0, [false, false, false, false], 0, false, false⟩ [0, 1, 2, 3]).anyMerged⟩ [0, 1, 2, 3]).anyMerged⟩
      (([0, 1, 2, 3] : List Nat).map fun c => ((2 : Nat), c)) = ⟨[(lfold (-1) ⟨R0, [false, false, false, false], 0, false, false⟩ [0, 1, 2, 3]).line, (lfold (-1) ⟨R1, [false, false, false, false], (lfold (-1) ⟨R0, [false, false, false, false], 0, false, false⟩ [0, 1, 2, 3]).score, (lfold (-1) ⟨R0, [false, false, false, false], 0, false, false⟩ [0, 1, 2, 3]).anyMoved, (lfold (-1) ⟨R0, [false, false, false, false], 0, false, false⟩ [0, 1, 2, 3]).anyMerged⟩ [0, 1, 2, 3]).line, (lfold (-1) ⟨R2, [false, false, false, false], (lfold (-1) ⟨R1, [false, false, false, false], (lfold (-1) ⟨R0, [false, false, false, false], 0, false, false⟩ [0, 1, 2, 3]).score, (lfold (-1) ⟨R0, [false, false, false, false], 0, false, false⟩ [0, 1, 2, 3]).anyMoved, (lfold (-1) ⟨R0, [false, false, false, false], 0, false, false⟩ [0, 1, 2, 3]).anyMerged⟩ [0, 1, 2, 3]).score, (lfold (-1) ⟨R1, [false, false, false, false], (lfold (-1) ⟨R0, [false, false, false, false], 0, false, false⟩ [0, 1, 2, 3]).score, (lfold (-1) ⟨R0, [false, false, false, false], 0, false, false⟩ [0, 1, 2, 3]).anyMoved, (lfold (-1) ⟨R0, [false, false, false, false], 0, false, false⟩ [0, 1, 2, 3]).anyMerged⟩ [0, 1, 2, 3]).anyMoved, (lfold (-1) ⟨R1, [false, false, false, false], (lfold (-1) ⟨R0, [false, false, false, false], 0, false, false⟩ [0, 1, 2, 3]).score, (lfold (-1) ⟨R0, [false, false, false, false], 0, false, false⟩ [0, 1, 2, 3]).anyMoved, (lfold (-1) ⟨R0, [false, false, false, false], 0, false, false⟩ [0, 1, 2, 3]).anyMerged⟩ [0, 1, 2, 3]).anyMerged⟩ [0, 1, 2, 3]).line, R3], (((TileGame.emptyMGrid.set 0 (lfold (-1) ⟨R0, [false, false, false, false], 0, false, false⟩ [0, 1, 2, 3]).marks).set 1 (lfold (-1) ⟨R1, [false, false, false, false], (lfold (-1) ⟨R0, [false, false, false, false], 0, false, false⟩ [0, 1, 2, 3]).score, (lfold (-1) ⟨R0, [false, false, false, false], 0, false, false⟩ [0, 1, 2, 3]).anyMoved, (lfold (-1) ⟨R0, [false, false, false, false], 0, false, false⟩ [0, 1, 2, 3]).anyMerged⟩ [0, 1, 2, 3]).marks).set 2 (lfold (-1) ⟨R2, [false, false, false, false], (lfold (-1) ⟨R1, [false, false, false, false], (lfold (-1) ⟨R0, [false, false, false, false], 0, false, false⟩ [0, 1, 2, 3]).score, (lfold (-1) ⟨R0, [false, false, false, false], 0, false, false⟩ [0, 1, 2, 3]).anyMoved, (lfold (-1) ⟨R0, [false, false, false, false], 0, false, false⟩ [0, 1, 2, 3]).anyMerged⟩ [0, 1, 2, 3]).score, (lfold (-1) ⟨R1, [false, false, false, false], (lfold (-1) ⟨R0, [false, false, false, false], 0, false, false⟩ [0, 1, 2, 3]).score, (lfold (-1) ⟨R0, [false, false, false, false], 0, false, false⟩ [0, 1, 2, 3]).anyMoved, (lfold (-1) ⟨R0, [false, false, false, false], 0, false, false⟩ [0, 1, 2, 3]).anyMerged⟩ [0, 1, 2, 3]).anyMoved, (lfold (-1) ⟨R1, [false, false, false, false], (lfold (-1) ⟨R0, [false, false, false, false], 0, false, false⟩ [0, 1, 2, 3]).score, (lfold (-1) ⟨R0, [false, false, false, false], 0, false, false⟩ [0, 1, 2, 3]).anyMoved, (lfold (-1) ⟨R0, [false, false, false, false], 0, false, false⟩ [0, 1, 2, 3]).anyMerged⟩ [0, 1, 2, 3]).anyMerged⟩ [0, 1, 2, 3]).marks), (lfold (-1) ⟨R2, [false, false, false, false], (lfold (-1) ⟨R1, [false, false, false, false], (lfold (-1) ⟨R0, [false, false, false, false], 0, false, false⟩ [0, 1, 2, 3]).score, (lfold (-1) ⟨R0, [false, false, false, false], 0, false, false⟩ [0, 1, 2, 3]).anyMoved, (lfold (-1) ⟨R0, [false, false, false, false], 0, false, false⟩ [0, 1, 2, 3]).anyMerged⟩ [0, 1, 2, 3]).score, (lfold (-1) ⟨R1, [false, false, false, false], (lfold (-1) ⟨R0, [false, false, false, false], 0, false, false⟩ [0, 1, 2, 3]).score, (lfold (-1) ⟨R0, [false, false, false, false], 0, false, false⟩ [0, 1, 2, 3]).anyMoved, (lfold (-1) ⟨R0, [false, false, false, false], 0, false, false⟩ [0, 1, 2, 3]).anyMerged⟩ [0, 1, 2, 3]).anyMoved, (lfold (-1) ⟨R1, [false, false, false, false], (lfold (-1) ⟨R0, [false, false, false, false], 0, false, false⟩ [0, 1, 2, 3]).score, (lfold (-1) ⟨R0, [false, false, false, false], 0, false, false⟩ [0, 1, 2, 3]).anyMoved, (lfold (-1) ⟨R0, [false, false, false, false], 0, false, false⟩ [0, 1, 2, 3]).anyMerged⟩ [0, 1, 2, 3]).anyMerged⟩ [0, 1, 2, 3]).score, (lfold (-1) ⟨R2, [false, false, false, false], (lfold (-1) ⟨R1, [false, false, false, false], (lfold (-1) ⟨R0, [false, false, false, false], 0, false, false⟩ [0, 1, 2, 3]).score, (lfold (-1) ⟨R0, [false, false, false, false], 0, false, false⟩ [0, 1, 2, 3]).anyMoved, (lfold (-1) ⟨R0, [false, false, false, false], 0, false, false⟩ [0, 1, 2, 3]).anyMerged⟩ [0, 1, 2, 3]).score, (lfold (-1) ⟨R1, [false, false, false, false], (lfold (-1) ⟨R0, [false, false, false, false], 0, false, false⟩ [0, 1, 2, 3]).score, (lfold (-1) ⟨R0, [false, false, false, false], 0, false, false⟩ [0, 1, 2, 3]).anyMoved, (lfold (-1) ⟨R0, [false, false, false, false], 0, false, false⟩ [0, 1, 2, 3]).anyMerged⟩ [0, 1, 2, 3]).anyMoved, (lfold (-1) ⟨R1, [false, false, false, false], (lfold (-1) ⟨R0, [false, false, false, false], 0, false, false⟩ [0, 1, 2, 3]).score, (lfold (-1) ⟨R0, [false, false, false, false], 0, false, false⟩ [0, 1, 2, 3]).anyMoved, (lfold (-1) ⟨R0, [false, false, false, false], 0, false, false⟩ [0, 1, 2, 3]).anyMerged⟩ [0, 1, 2, 3]).anyMerged⟩ [0, 1, 2, 3]).anyMoved, (lfold (-1) ⟨R2, [false, false, false, false], (lfold (-1) ⟨R1, [false, false, false, false], (lfold (-1) ⟨R0, [false, false, false, false], 0, false, false⟩ [0, 1, 2, 3]).score, (lfold (-1) ⟨R0, [false, false, false, false], 0, false, false⟩ [0, 1, 2, 3]).anyMoved, (lfold (-1) ⟨R0, [false, false, false, false], 0, false, false⟩ [0, 1, 2, 3]).anyMerged⟩ [0, 1, 2, 3]).score, (lfold (-1) ⟨R1, [false, false, false, false], (lfold (-1) ⟨R0, [false, false, false, false], 0, false, false⟩ [0, 1, 2, 3]).score, (lfold (-1) ⟨R0, [false, false, false, false], 0, false, false⟩ [0, 1, 2, 3]).anyMoved, (lfold (-1) ⟨R0, [false, false, false, false], 0, false, false⟩ [0, 1, 2, 3]).anyMerged⟩ [0, 1, 2, 3]).anyMoved, (lfold (-1) ⟨R1, [false, false, false, false], (lfold (-1) ⟨R0, [false, false, false, false], 0, false, false⟩ [0, 1, 2, 3]).score, (lfold (-1) ⟨R0, [false, false, false, false], 0, false, false⟩ [0, 1, 2, 3]).anyMoved, (lfold (-1) ⟨R0, [false, false, false, false], 0, false, false⟩ [0, 1, 2, 3]).anyMerged⟩ [0, 1, 2, 3]).anyMerged⟩ [0, 1, 2, 3]).anyMerged⟩ := by
    rw [vfold_row (-1) [0, 1, 2, 3] ⟨[(lfold (-1) ⟨R0, [false, false, false, false], 0, false, false⟩ [0, 1, 2, 3]).line, (lfold (-1) ⟨R1, [false, false, false, false], (lfold (-1) ⟨R0, [false, false, false, false], 0, false, false⟩ [0, 1, 2, 3]).score, (lfold (-1) ⟨R0, [false, false, false, false], 0, false, false⟩ [0, 1, 2, 3]).anyMoved, (lfold (-1) ⟨R0, [false, false, false, false], 0, false, false⟩ [0, 1, 2, 3]).anyMerged⟩ [0, 1, 2, 3]).line, R2, R3], ((TileGame.emptyMGrid.set 0 (lfold (-1) ⟨R0, [false, false, false, false], 0, false, false⟩ [0, 1, 2, 3]).marks).set 1 (lfold (-1) ⟨R1, [false, false, false, false], (lfold (-1) ⟨R0, [false, false, false, false], 0, false, false⟩ [0, 1, 2, 3]).score, (lfold (-1) ⟨R0, [false, false, false, false], 0, false, false⟩ [0, 1, 2, 3]).anyMoved, (lfold (-1) ⟨R0, [false, false, false, false], 0, false, false⟩ [0, 1, 2, 3]).anyMerged⟩ [0, 1, 2, 3]).marks), (lfold (-1) ⟨R1, [false, false, false, false], (lfold (-1) ⟨R0, [false, false, false, false], 0, false, false⟩ [0, 1, 2, 3]).score, (lfold (-1) ⟨R0, [false, false, false, false], 0, false, false⟩ [0, 1, 2, 3]).anyMoved, (lfold (-1) ⟨R0, [false, false, false, false], 0, false, false⟩ [0, 1, 2, 3]).anyMerged⟩ [0, 1, 2, 3]).score, (lfold (-1) ⟨R1, [false, false, false, false], (lfold (-1) ⟨R0, [false, false, false, false], 0, false, false⟩ [0, 1, 2, 3]).score, (lfold (-1) ⟨R0, [false, false, false, false], 0, false, false⟩ [0, 1, 2, 3]).anyMoved, (lfold (-1) ⟨R0, [false, false, false, false], 0, false, false⟩ [0, 1, 2, 3]).anyMerged⟩ [0, 1, 2, 3]).anyMoved, (lfold (-1) ⟨R1, [false, false, false, false], (lfold (-1) ⟨R0, [false, false, false, false], 0, false, false⟩ [0, 1, 2, 3]).score, (lfold (-1) ⟨R0, [false, false, false, false], 0, false, false⟩ [0, 1, 2, 3]).anyMoved, (lfold (-1) ⟨R0, [false, false, false, false], 0, false, false⟩ [0, 1, 2, 3]).anyMerged⟩ [0, 1, 2, 3]).anyMerged⟩ 2 (by omega) rfl rfl]
    rfl
  have hb3 : List.foldl (vstep 0 (-1)) ⟨[(lfold (-1) ⟨R0, [false, false, false, false], 0, false, false⟩ [0, 1, 2, 3]).line, (lfold (-1) ⟨R1, [false, false, false, false], (lfold (-1) ⟨R0, [false, false, false, false], 0, false, false⟩ [0, 1, 2, 3]).score, (lfold (-1) ⟨R0, [false, false, false, false], 0, false, false⟩ [0, 1, 2, 3]).anyMoved, (lfold (-1) ⟨R0, [false, false, false, false], 0, false, false⟩ [0, 1, 2, 3]).anyMerged⟩ [0, 1, 2, 3]).line, (lfold (-1) ⟨R2, [false, false, false, false], (lfold (-1) ⟨R1, [false, false, false, false], (lfold (-1) ⟨R0, [false, false, false, false], 0, false, false⟩ [0, 1, 2, 3]).score, (lfold (-1) ⟨R0, [false, false, false, false], 0, false, false⟩ [0, 1, 2, 3]).anyMoved, (lfold (-1) ⟨R0, [false, false, false, false], 0, false, false⟩ [0, 1, 2, 3]).anyMerged⟩ [0, 1, 2, 3]).score, (lfold (-1) ⟨R1, [false, false, false, false], (lfold (-1) ⟨R0, [false, false, false, false], 0, false, false⟩ [0, 1, 2, 3]).score, (lfold (-1) ⟨R0, [false, false, false, false], 0, false, false⟩ [0, 1, 2, 3]).anyMoved, (lfold (-1) ⟨R0, [false, false, false, false], 0, false, false⟩ [0, 1, 2, 3]).anyMerged⟩ [0, 1, 2, 3]).anyMoved, (lfold (-1) ⟨R1, [false, false, false, false], (lfold (-1) ⟨R0, [false, false, false, false], 0, false, false⟩ [0, 1, 2, 3]).score, (lfold (-1) ⟨R0, [false, false, false, false], 0, false, false⟩ [0, 1, 2, 3]).anyMoved, (lfold (-1) ⟨R0, [false, false, false, false], 0, false, false⟩ [0, 1, 2, 3]).anyMerged⟩ [0, 1, 2, 3]).anyMerged⟩ [0, 1, 2, 3]).line, R3], (((TileGame.emptyMGrid.set 0 (lfold (-1) ⟨R0, [false, false, false, false], 0, false, false⟩ [0, 1, 2, 3]).marks).set 1 (lfold (-1) ⟨R1, [false, false, false, false], (lfold (-1) ⟨R0, [false, false, false, false], 0, false, false⟩ [0, 1, 2, 3]).score, (lfold (-1) ⟨R0, [false, false, false, false], 0, false, false⟩ [0, 1, 2, 3]).anyMoved, (lfold (-1) ⟨R0, [false, false, false, false], 0, false, false⟩ [0, 1, 2, 3]).anyMerged⟩ [0, 1, 2, 3]).marks).set 2 (lfold (-1) ⟨R2, [false, false, false, false], (lfold (-1) ⟨R1, [false, false, false, false], (lfold (-1) ⟨R0, [false, false, false, false], 0, false, false⟩ [0, 1, 2, 3]).score, (lfold (-1) ⟨R0, [false, false, false, false], 0, false, false⟩ [0, 1, 2, 3]).anyMoved, (lfold (-1) ⟨R0, [false, false, false, false], 0, false, false⟩ [0, 1, 2, 3]).anyMerged⟩ [0, 1, 2, 3]).score, (lfold (-1) ⟨R1, [false, false, false, false], (lfold (-1) ⟨R0, [false, false, false, false], 0, false, false⟩ [0, 1, 2, 3]).score, (lfold (-1) ⟨R0, [false, false, false, false], 0, false, false⟩ [0, 1, 2, 3]).anyMoved, (lfold (-1) ⟨R0, [false, false, false, false], 0, false, false⟩ [0, 1, 2, 3]).anyMerged⟩ [0, 1, 2, 3]).anyMoved, (lfold (-1) ⟨R1, [false, false, false, false], (lfold (-1) ⟨R0, [false, false, false, false], 0, false, false⟩ [0, 1, 2, 3]).score, (lfold (-1) ⟨R0, [false, false, false, false], 0, false, false⟩ [0, 1, 2, 3]).anyMoved, (lfold (-1) ⟨R0, [false, false, false, false], 0, false, false⟩ [0, 1, 2, 3]).anyMerged⟩ [0, 1, 2, 3]).anyMerged⟩ [0, 1, 2, 3]).marks), (lfold (-1) ⟨R2, [false, false, false, false], (lfold (-1) ⟨R1, [false, false, false, false], (lfold (-1) ⟨R0, [false, false, false, false], 0, false, false⟩ [0, 1, 2, 3]).score, (lfold (-1) ⟨R0, [false, false, false, false], 0, false, false⟩ [0, 1, 2, 3]).anyMoved, (lfold (-1) ⟨R0, [false, false, false, false], 0, false, false⟩ [0, 1, 2, 3]).anyMerged⟩ [0, 1, 2, 3]).score, (lfold (-1) ⟨R1, [false, false, false, false], (lfold (-1) ⟨R0, [false, false, false, false], 0, false, false⟩ [0, 1, 2, 3]).score, (lfold (-1) ⟨R0, [false, false, false, false], 0, false, false⟩ [0, 1, 2, 3]).anyMoved, (lfold (-1) ⟨R0, [false, false, false, false], 0, false, false⟩ [0, 1, 2, 3]).anyMerged⟩ [0, 1, 2, 3]).anyMoved, (lfold (-1) ⟨R1, [false, false, false, false], (lfold (-1) ⟨R0, [false, false, false, false], 0, false, false⟩ [0, 1, 2, 3]).score, (lfold (-1) ⟨R0, [false, false, false, false], 0, false, false⟩ [0, 1, 2, 3]).anyMoved, (lfold (-1) ⟨R0, [false, false, false, false], 0, false, false⟩ [0, 1, 2, 3]).anyMerged⟩ [0, 1, 2, 3]).anyMerged⟩ [0, 1, 2, 3]).score, (lfold (-1) ⟨R2, [false, false, false, false], (lfold (-1) ⟨R1, [false, false, false, false], (lfold (-1) ⟨R0, [false, false, false, false], 0, false, false⟩ [0, 1, 2, 3]).score, (lfold (-1) ⟨R0, [false, false, false, false], 0, false, false⟩ [0, 1, 2, 3]).anyMoved, (lfold (-1) ⟨R0, [false, false, false, false], 0, false, false⟩ [0, 1, 2, 3]).anyMerged⟩ [0, 1, 2, 3]).score, (lfold (-1) ⟨R1, [false, false, false, false], (lfold (-1) ⟨R0, [false, false, false, false], 0, false, false⟩ [0, 1, 2, 3]).score, (lfold (-1) ⟨R0, [false, false, false, false], 0, false, false⟩ [0, 1, 2, 3]).anyMoved, (lfold (-1) ⟨R0, [false, false, false, false], 0, false, false⟩ [0, 1, 2, 3]).anyMerged⟩ [0, 1, 2, 3]).anyMoved, (lfold (-1) ⟨R1, [false, false, false, false], (lfold (-1) ⟨R0, [false, false, false, false], 0, false, false⟩ [0, 1, 2, 3]).score, (lfold (-1) ⟨R0, [false, false, false, false], 0, false, false⟩ [0, 1, 2, 3]).anyMoved, (lfold (-1) ⟨R0, [false, false, false, false], 0, false, false⟩ [0, 1, 2, 3]).anyMerged⟩ [0, 1, 2, 3]).anyMerged⟩ [0, 1, 2, 3]).anyMoved, (lfold (-1) ⟨R2, [false, false, false, false], (lfold (-1) ⟨R1, [false, false, false, false], (lfold (-1) ⟨R0, [false, false, false, false], 0, false, false⟩ [0, 1, 2, 3]).score, (lfold (-1) ⟨R0, [false, false, false, false], 0, false, false⟩ [0, 1, 2, 3]).anyMoved, (lfold (-1) ⟨R0, [false, false, false, false], 0, false, false⟩ [0, 1, 2, 3]).anyMerged⟩ [0, 1, 2, 3]).score, (lfold (-1) ⟨R1, [false, false, false, false], (lfold (-1) ⟨R0, [false, false, false, false], 0, false, false⟩ [0, 1, 2, 3]).score, (lfold (-1) ⟨R0, [false, false, false, false], 0, false, false⟩ [0, 1, 2, 3]).anyMoved, (lfold (-1) ⟨R0, [false, false, false, false], 0, false, false⟩ [0, 1, 2, 3]).anyMerged⟩ [0, 1, 2, 3]).anyMoved, (lfold (-1) ⟨R1, [false, false, false, false], (lfold (-1) ⟨R0, [false, false, false, false], 0, false, false⟩ [0, 1, 2, 3]).score, (lfold (-1) ⟨R0, [false, false, false, false], 0, false, false⟩ [0, 1, 2, 3]).anyMoved, (lfold (-1) ⟨R0, [false, false, false, false], 0, false, false⟩ [0, 1, 2, 3]).anyMerged⟩ [0, 1, 2, 3]).anyMerged⟩ [0, 1, 2, 3]).anyMerged⟩
      (([0, 1, 2, 3] : List Nat).map fun c => ((3 : Nat), c)) = ⟨[(lfold (-1) ⟨R0, [false, false, false, false], 0, false, false⟩ [0, 1, 2, 3]).line, (lfold (-1) ⟨R1, [false, false, false, false], (lfold (-1) ⟨R0, [false, false, false, false], 0, false, false⟩ [0, 1, 2, 3]).score, (lfold (-1) ⟨R0, [false, false, false, false], 0, false, false⟩ [0, 1, 2, 3]).anyMoved, (lfold (-1) ⟨R0, [false, false, false, false], 0, false, false⟩ [0, 1, 2, 3]).anyMerged⟩ [0, 1, 2, 3]).line, (lfold (-1) ⟨R2, [false, false, false, false], (lfold (-1) ⟨R1, [false, false, false, false], (lfold (-1) ⟨R0, [false, false, false, false], 0, false, false⟩ [0, 1, 2, 3]).score, (lfold (-1) ⟨R0, [false, false, false, false], 0, false, false⟩ [0, 1, 2, 3]).anyMoved, (lfold (-1) ⟨R0, [false, false, false, false], 0, false, false⟩ [0, 1, 2, 3]).anyMerged⟩ [0, 1, 2, 3]).score, (lfold (-1) ⟨R1, [false, false, false, false], (lfold (-1) ⟨R0, [false, false, false, false], 0, false, false⟩ [0, 1, 2, 3]).score, (lfold (-1) ⟨R0, [false, false, false, false], 0, false, false⟩ [0, 1, 2, 3]).anyMoved, (lfold (-1) ⟨R0, [false, false, false, false], 0, false, false⟩ [0, 1, 2, 3]).anyMerged⟩ [0, 1, 2, 3]).anyMoved, (lfold (-1) ⟨R1, [false, false, false, false], (lfold (-1) ⟨R0, [false, false, false, false], 0, false, false⟩ [0, 1, 2, 3]).score, (lfold (-1) ⟨R0, [false, false, false, false], 0, false, false⟩ [0, 1, 2, 3]).anyMoved, (lfold (-1) ⟨R0, [false, false, false, false], 0, false, false⟩ [0, 1, 2, 3]).anyMerged⟩ [0, 1, 2, 3]).anyMerged⟩ [0, 1, 2, 3]).line, (lfold (-1) ⟨R3, [false, false, false, false], (lfold (-1) ⟨R2, [false, false, false, false], (lfold (-1) ⟨R1, [false, false, false, false], (lfold (-1) ⟨R0, [false, false, false, false], 0, false, false⟩ [0, 1, 2, 3]).score, (lfold (-1) ⟨R0, [false, false, false, false], 0, false, false⟩ [0, 1, 2, 3]).anyMoved, (lfold (-1) ⟨R0, [false, false, false, false], 0, false, false⟩ [0, 1, 2, 3]).anyMerged⟩ [0, 1, 2, 3]).score, (lfold (-1) ⟨R1, [false, false, false, false], (lfold (-1) ⟨R0, [false, false, false, false], 0, false, false⟩ [0, 1, 2, 3]).score, (lfold (-1) ⟨R0, [false, false, false, false], 0, false, false⟩ [0, 1, 2, 3]).anyMoved, (lfold (-1) ⟨R0, [false, false, false, false], 0, false, false⟩ [0, 1, 2, 3]).anyMerged⟩ [0, 1, 2, 3]).anyMoved, (lfold (-1) ⟨R1, [false, false, false, false], (lfold (-1) ⟨R0, [false, false, false, false], 0, false, false⟩ [0, 1, 2, 3]).score, (lfold (-1) ⟨R0, [false, false, false, false], 0, false, false⟩ [0, 1, 2, 3]).anyMoved, (lfold (-1) ⟨R0, [false, false, false, false], 0, false, false⟩ [0, 1, 2, 3]).anyMerged⟩ [0, 1, 2, 3]).anyMerged⟩ [0, 1, 2, 3]).score, (lfold (-1) ⟨R2, [false, false, false, false], (lfold (-1) ⟨R1, [false, false, false, false], (lfold (-1) ⟨R0, [false, false, false, false], 0, false, false⟩ [0, 1, 2, 3]).score, (lfold (-1) ⟨R0, [false, false, false, false], 0, false, false⟩ [0, 1, 2, 3]).anyMoved, (lfold (-1) ⟨R0, [false, false, false, false], 0, false, false⟩ [0, 1, 2, 3]).anyMerged⟩ [0, 1, 2, 3]).score, (lfold (-1) ⟨R1, [false, false, false, false], (lfold (-1) ⟨R0, [false, false, false, false], 0, false, false⟩ [0, 1, 2, 3]).score, (lfold (-1) ⟨R0, [false, false, false, false], 0, false, false⟩ [0, 1, 2, 3]).anyMoved, (lfold (-1) ⟨R0, [false, false, false, false], 0, false, false⟩ [0, 1, 2, 3]).anyMerged⟩ [0, 1, 2, 3]).anyMoved, (lfold (-1) ⟨R1, [false, false, false, false], (lfold (-1) ⟨R0, [false, false, false, false], 0, false, false⟩ [0, 1, 2, 3]).score, (lfold (-1) ⟨R0, [false, false, false, false], 0, false, false⟩ [0, 1, 2, 3]).anyMoved, (lfold (-1) ⟨R0, [false, false, false, false], 0, false, false⟩ [0, 1, 2, 3]).anyMerged⟩ [0, 1, 2, 3]).anyMerged⟩ [0, 1, 2, 3]).anyMoved, (lfold (-1) ⟨R2, [false, false, false, false], (lfold (-1) ⟨R1, [false, false, false, false], (lfold (-1) ⟨R0, [false, false, false, false], 0, false, false⟩ [0, 1, 2, 3]).score, (lfold (-1) ⟨R0, [false, false, false, false], 0, false, false⟩ [0, 1, 2, 3]).anyMoved, (lfold (-1) ⟨R0, [false, false, false, false], 0, false, false⟩ [0, 1, 2, 3]).anyMerged⟩ [0, 1, 2, 3]).score, (lfold (-1) ⟨R1, [false, false, false, false], (lfold (-1) ⟨R0, [false, false, false, false], 0, false, false⟩ [0, 1, 2, 3]).score, (lfold (-1) ⟨R0, [false, false, false, false], 0, false, false⟩ [0, 1, 2, 3]).anyMoved, (lfold (-1) ⟨R0, [false, false, false, false], 0, false, false⟩ [0, 1, 2, 3]).anyMerged⟩ [0, 1, 2, 3]).anyMoved, (lfold (-1) ⟨R1, [false, false, false, false], (lfold (-1) ⟨R0, [false, false, false, false], 0, false, false⟩ [0, 1, 2, 3]).score, (lfold (-1) ⟨R0, [false, false, false, false], 0, false, false⟩ [0, 1, 2, 3]).anyMoved, (lfold (-1) ⟨R0, [false, false, false, false], 0, false, false⟩ [0, 1, 2, 3]).anyMerged⟩ [0, 1, 2, 3]).anyMerged⟩ [0, 1, 2, 3]).anyMerged⟩ [0, 1, 2, 3]).line], ((((TileGame.emptyMGrid.set 0 (lfold (-1) ⟨R0, [false, false, false, false], 0, false, false⟩ [0, 1, 2, 3]).marks).set 1 (lfold (-1) ⟨R1, [false, false, false, false], (lfold (-1) ⟨R0, [false, false, false, false], 0, false, false⟩ [0, 1, 2, 3]).score, (lfold (-1) ⟨R0, [false, false, false, false], 0, false, false⟩ [0, 1, 2, 3]).anyMoved, (lfold (-1) ⟨R0, [false, false, false, false], 0, false, false⟩ [0, 1, 2, 3]).anyMerged⟩ [0, 1, 2, 3]).marks).set 2 (lfold (-1) ⟨R2, [false, false, false, false], (lfold (-1) ⟨R1, [false, false, false, false], (lfold (-1) ⟨R0, [false, false, false, false], 0, false, false⟩ [0, 1, 2, 3]).score, (lfold (-1) ⟨R0, [false, false, false, false], 0, false, false⟩ [0, 1, 2, 3]).anyMoved, (lfold (-1) ⟨R0, [false, false, false, false], 0, false, false⟩ [0, 1, 2, 3]).anyMerged⟩ [0, 1, 2, 3]).score, (lfold (-1) ⟨R1, [false, false, false, false], (lfold (-1) ⟨R0, [false, false, false, false], 0, false, false⟩ [0, 1, 2, 3]).score, (lfold (-1) ⟨R0, [false, false, false, false], 0, false, false⟩ [0, 1, 2, 3]).anyMoved, (lfold (-1) ⟨R0, [false, false, false, false], 0, false, false⟩ [0, 1, 2, 3]).anyMerged⟩ [0, 1, 2, 3]).anyMoved, (lfold (-1) ⟨R1, [false, false, false, false], (lfold (-1) ⟨R0, [false, false, false, false], 0, false, false⟩ [0, 1, 2, 3]).score, (lfold (-1) ⟨R0, [false, false, false, false], 0, false, false⟩ [0, 1, 2, 3]).anyMoved, (lfold (-1) ⟨R0, [false, false, false, false], 0, false, false⟩ [0, 1, 2, 3]).anyMerged⟩ [0, 1, 2, 3]).anyMerged⟩ [0, 1, 2, 3]).marks).set 3 (lfold (-1) ⟨R3, [false, false, false, false], (lfold (-1) ⟨R2, [false, false, false, false], (lfold (-1) ⟨R1, [false, false, false, false], (lfold (-1) ⟨R0, [false, false, false, false], 0, false, false⟩ [0, 1, 2, 3]).score, (lfold (-1) ⟨R0, [false, false, false, false], 0, false, false⟩ [0, 1, 2, 3]).anyMoved, (lfold (-1) ⟨R0, [false, false, false, false], 0, false, false⟩ [0, 1, 2, 3]).anyMerged⟩ [0, 1, 2, 3]).score, (lfold (-1) ⟨R1, [false, false, false, false], (lfold (-1) ⟨R0, [false, false, false, false], 0, false, false⟩ [0, 1, 2, 3]).score, (lfold (-1) ⟨R0, [false, false, false, false], 0, false, false⟩ [0, 1, 2, 3]).anyMoved, (lfold (-1) ⟨R0, [false, false, false, false], 0, false, false⟩ [0, 1, 2, 3]).anyMerged⟩ [0, 1, 2, 3]).anyMoved, (lfold (-1) ⟨R1, [false, false, false, false], (lfold (-1) ⟨R0, [false, false, false, false], 0, false, false⟩ [0, 1, 2, 3]).score, (lfold (-1) ⟨R0, [false, false, false, false], 0, false, false⟩ [0, 1, 2, 3]).anyMoved, (lfold (-1) ⟨R0, [false, false, false, false], 0, false, false⟩ [0, 1, 2, 3]).anyMerged⟩ [0, 1, 2, 3]).anyMerged⟩ [0, 1, 2, 3]).score, (lfold (-1) ⟨R2, [false, false, false, false], (lfold (-1) ⟨R1, [false, false, false, false], (lfold (-1) ⟨R0, [false, false, false, false], 0, false, false⟩ [0, 1, 2, 3]).score, (lfold (-1) ⟨R0, [false, false, false, false], 0, false, false⟩ [0, 1, 2, 3]).anyMoved, (lfold (-1) ⟨R0, [false, false, false, false], 0, false, false⟩ [0, 1, 2, 3]).anyMerged⟩ [0, 1, 2, 3]).score, (lfold (-1) ⟨R1, [false, false, false, false], (lfold (-1) ⟨R0, [false, false, false, false], 0, false, false⟩ [0, 1, 2, 3]).score, (lfold (-1) ⟨R0, [false, false, false, false], 0, false, false⟩ [0, 1, 2, 3]).anyMoved, (lfold (-1) ⟨R0, [false, false, false, false], 0, false, false⟩ [0, 1, 2, 3]).anyMerged⟩ [0, 1, 2, 3]).anyMoved, (lfold (-1) ⟨R1, [false, false, false, false], (lfold (-1) ⟨R0, [false, false, false, false], 0, false, false⟩ [0, 1, 2, 3]).score, (lfold (-1) ⟨R0, [false, false, false, false], 0, false, false⟩ [0, 1, 2, 3]).anyMoved, (lfold (-1) ⟨R0, [false, false, false, false], 0, false, false⟩ [0, 1, 2, 3]).anyMerged⟩ [0, 1, 2, 3]).anyMerged⟩ [0, 1, 2, 3]).anyMoved, (lfold (-1) ⟨R2, [false, false, false, false], (lfold (-1) ⟨R1, [false, false, false, false], (lfold (-1) ⟨R0, [false, false, false, false], 0, false, false⟩ [0, 1, 2, 3]).score, (lfold (-1) ⟨R0, [false, false, false, false], 0, false, false⟩ [0, 1, 2, 3]).anyMoved, (lfold (-1) ⟨R0, [false, false, false, false], 0, false, false⟩ [0, 1, 2, 3]).anyMerged⟩ [0, 1, 2, 3]).score, (lfold (-1) ⟨R1, [false, false, false, false], (lfold (-1) ⟨R0, [false, false, false, false], 0, false, false⟩ [0, 1, 2, 3]).score, (lfold (-1) ⟨R0, [false, false, false, false], 0, false, false⟩ [0, 1, 2, 3]).anyMoved, (lfold (-1) ⟨R0, [false, false, false, false], 0, false, false⟩ [0, 1, 2, 3]).anyMerged⟩ [0, 1, 2, 3]).anyMoved, (lfold (-1) ⟨R1, [false, false, false, false], (lfold (-1) ⟨R0, [false, false, false, false], 0, false, false⟩ [0, 1, 2, 3]).score, (lfold (-1) ⟨R0, [false, false, false, false], 0, false, false⟩ [0, 1, 2, 3]).anyMoved, (lfold (-1) ⟨R0, [false, false, false, false], 0, false, false⟩ [0, 1, 2, 3]).anyMerged⟩ [0, 1, 2, 3]).anyMerged⟩ [0, 1, 2, 3]).anyMerged⟩ [0, 1, 2, 3]).marks), (lfold (-1) ⟨R3, [false, false, false, false], (lfold (-1) ⟨R2, [false, false, false, false], (lfold (-1) ⟨R1, [false, false, false, false], (lfold (-1) ⟨R0, [false, false, false, false], 0, false, false⟩ [0, 1, 2, 3]).score, (lfold (-1) ⟨R0, [false, false, false, false], 0, false, false⟩ [0, 1, 2, 3]).anyMoved, (lfold (-1) ⟨R0, [false, false, false, false], 0, false, false⟩ [0, 1, 2, 3]).anyMerged⟩ [0, 1, 2, 3]).score, (lfold (-1) ⟨R1, [false, false, false, false], (lfold (-1) ⟨R0, [false, false, false, false], 0, false, false⟩ [0, 1, 2, 3]).score, (lfold (-1) ⟨R0, [false, false, false, false], 0, false, false⟩ [0, 1, 2, 3]).anyMoved, (lfold (-1) ⟨R0, [false, false, false, false], 0, false, false⟩ [0, 1, 2, 3]).anyMerged⟩ [0, 1, 2, 3]).anyMoved, (lfold (-1) ⟨R1, [false, false, false, false], (lfold (-1) ⟨R0, [false, false, false, false], 0, false, false⟩ [0, 1, 2, 3]).score, (lfold (-1) ⟨R0, [false, false, false, false], 0, false, false⟩ [0, 1, 2, 3]).anyMoved, (lfold (-1) ⟨R0, [false, false, false, false], 0, false, false⟩ [0, 1, 2, 3]).anyMerged⟩ [0, 1, 2, 3]).anyMerged⟩ [0, 1, 2, 3]).score, (lfold (-1) ⟨R2, [false, false, false, false], (lfold (-1) ⟨R1, [false, false, false, false], (lfold (-1) ⟨R0, [false, false, false, false], 0, false, false⟩ [0, 1, 2, 3]).score, (lfold (-1) ⟨R0, [false, false, false, false], 0, false, false⟩ [0, 1, 2, 3]).anyMoved, (lfold (-1) ⟨R0, [false, false, false, false], 0, false, false⟩ [0, 1, 2, 3]).anyMerged⟩ [0, 1, 2, 3]).score, (lfold (-1) ⟨R1, [false, false, false, false], (lfold (-1) ⟨R0, [false, false, false, false], 0, false, false⟩ [0, 1, 2, 3]).score, (lfold (-1) ⟨R0, [false, false, false, false], 0, false, false⟩ [0, 1, 2, 3]).anyMoved, (lfold (-1) ⟨R0, [false, false, false, false], 0, false, false⟩ [0, 1, 2, 3]).anyMerged⟩ [0, 1, 2, 3]).anyMoved, (lfold (-1) ⟨R1, [false, false, false, false], (lfold (-1) ⟨R0, [false, false, false, false], 0, false, false⟩ [0, 1, 2, 3]).score, (lfold (-1) ⟨R0, [false, false, false, false], 0, false, false⟩ [0, 1, 2, 3]).anyMoved, (lfold (-1) ⟨R0, [false, false, false, false], 0, false, false⟩ [0, 1, 2, 3]).anyMerged⟩ [0, 1, 2, 3]).anyMerged⟩ [0, 1, 2, 3]).anyMoved, (lfold (-1) ⟨R2, [false, false, false, false], (lfold (-1) ⟨R1, [false, false, false, false], (lfold (-1) ⟨R0, [false, false, false, false], 0, false, false⟩ [0, 1, 2, 3]).score, (lfold (-1) ⟨R0, [false, false, false, false], 0, false, false⟩ [0, 1, 2, 3]).anyMoved, (lfold (-1) ⟨R0, [false, false, false, false], 0, false, false⟩ [0, 1, 2, 3]).anyMerged⟩ [0, 1, 2, 3]).score, (lfold (-1) ⟨R1, [false, false, false, false], (lfold (-1) ⟨R0, [false, false, false, false], 0, false, false⟩ [0, 1, 2, 3]).score, (lfold (-1) ⟨R0, [false, false, false, false], 0, false, false⟩ [0, 1, 2, 3]).anyMoved, (lfold (-1) ⟨R0, [false, false, false, false], 0, false, false⟩ [0, 1, 2, 3]).anyMerged⟩ [0, 1, 2, 3]).anyMoved, (lfold (-1) ⟨R1, [false, false, false, false], (lfold (-1) ⟨R0, [false, false, false, false], 0, false, false⟩ [0, 1, 2, 3]).score, (lfold (-1) ⟨R0, [false, false, false, false], 0, false, false⟩ [0, 1, 2, 3]).anyMoved, (lfold (-1) ⟨R0, [false, false, false, false], 0, false, false⟩ [0, 1, 2, 3]).anyMerged⟩ [0, 1, 2, 3]).anyMerged⟩ [0, 1, 2, 3]).anyMerged⟩ [0, 1, 2, 3]).score, (lfold (-1) ⟨R3, [false, false, false, false], (lfold (-1) ⟨R2, [false, false, false, false], (lfold (-1) ⟨R1, [false, false, false, false], (lfold (-1) ⟨R0, [false, false, false, false], 0, false, false⟩ [0, 1, 2, 3]).score, (lfold (-1) ⟨R0, [false, false, false, false], 0, false, false⟩ [0, 1, 2, 3]).anyMoved, (lfold (-1) ⟨R0, [false, false, false, false], 0, false, false⟩ [0, 1, 2, 3]).anyMerged⟩ [0, 1, 2, 3]).score, (lfold (-1) ⟨R1, [false, false, false, false], (lfold (-1) ⟨R0, [false, false, false, false], 0, false, false⟩ [0, 1, 2, 3]).score, (lfold (-1) ⟨R0, [false, false, false, false], 0, false, false⟩ [0, 1, 2, 3]).anyMoved, (lfold (-1) ⟨R0, [false, false, false, false], 0, false, false⟩ [0, 1, 2, 3]).anyMerged⟩ [0, 1, 2, 3]).anyMoved, (lfold (-1) ⟨R1, [false, false, false, false], (lfold (-1) ⟨R0, [false, false, false, false], 0, false, false⟩ [0, 1, 2, 3]).score, (lfold (-1) ⟨R0, [false, false, false, false], 0, false, false⟩ [0, 1, 2, 3]).anyMoved, (lfold (-1) ⟨R0, [false, false, false, false], 0, false, false⟩ [0, 1, 2, 3]).anyMerged⟩ [0, 1, 2, 3]).anyMerged⟩ [0, 1, 2, 3]).score, (lfold (-1) ⟨R2, [false, false, false, false], (lfold (-1) ⟨R1, [false, false, false, false], (lfold (-1) ⟨R0, [false, false, false, false], 0, false, false⟩ [0, 1, 2, 3]).score, (lfold (-1) ⟨R0, [false, false, false, false], 0, false, false⟩ [0, 1, 2, 3]).anyMoved, (lfold (-1) ⟨R0, [false, false, false, false], 0, false, false⟩ [0, 1, 2, 3]).anyMerged⟩ [0, 1, 2, 3]).score, (lfold (-1) ⟨R1, [false, false, false, false], (lfold (-1) ⟨R0, [false, false, false, false], 0, false, false⟩ [0, 1, 2, 3]).score, (lfold (-1) ⟨R0, [false, false, false, false], 0, false, false⟩ [0, 1, 2, 3]).anyMoved, (lfold (-1) ⟨R0, [false, false, false, false], 0, false, false⟩ [0, 1, 2, 3]).anyMerged⟩ [0, 1, 2, 3]).anyMoved, (lfold (-1) ⟨R1, [false, false, false, false], (lfold (-1) ⟨R0, [false, false, false, false], 0, false, false⟩ [0, 1, 2, 3]).score, (lfold (-1) ⟨R0, [false, false, false, false], 0, false, false⟩ [0, 1, 2, 3]).anyMoved, (lfold (-1) ⟨R0, [false, false, false, false], 0, false, false⟩ [0, 1, 2, 3]).anyMerged⟩ [0, 1, 2, 3]).anyMerged⟩ [0, 1, 2, 3]).anyMoved, (lfold (-1) ⟨R2, [false, false, false, false], (lfold (-1) ⟨R1, [false, false, false, false], (lfold (-1) ⟨R0, [false, false, false, false], 0, false, false⟩ [0, 1, 2, 3]).score, (lfold (-1) ⟨R0, [false, false, false, false], 0, false, false⟩ [0, 1, 2, 3]).anyMoved, (lfold (-1) ⟨R0, [false, false, false, false], 0, false, false⟩ [0, 1, 2, 3]).anyMerged⟩ [0, 1, 2, 3]).score, (lfold (-1) ⟨R1, [false, false, false, false], (lfold (-1) ⟨R0, [false, false, false, false], 0, false, false⟩ [0, 1, 2, 3]).score, (lfold (-1) ⟨R0, [false, false, false, false], 0, false, false⟩ [0, 1, 2, 3]).anyMoved, (lfold (-1) ⟨R0, [false, false, false, false], 0, false, false⟩ [0, 1, 2, 3]).anyMerged⟩ [0, 1, 2, 3]).anyMoved, (lfold (-1) ⟨R1, [false, false, false, false], (lfold (-1) ⟨R0, [false, false, false, false], 0, false, false⟩ [0, 1, 2, 3]).score, (lfold (-1) ⟨R0, [false, false, false, false], 0, false, false⟩ [0, 1, 2, 3]).anyMoved, (lfold (-1) ⟨R0, [false, false, false, false], 0, false, false⟩ [0, 1, 2, 3]).anyMerged⟩ [0, 1, 2, 3]).anyMerged⟩ [0, 1, 2, 3]).anyMerged⟩ [0, 1, 2, 3]).anyMoved, (lfold (-1) ⟨R3, [false, false, false, false], (lfold (-1) ⟨R2, [false, false, false, false], (lfold (-1) ⟨R1, [false, false, false, false], (lfold (-1) ⟨R0, [false, false, false, false], 0, false, false⟩ [0, 1, 2, 3]).score, (lfold (-1) ⟨R0, [false, false, false, false], 0, false, false⟩ [0, 1, 2, 3]).anyMoved, (lfold (-1) ⟨R0, [false, false, false, false], 0, false, false⟩ [0, 1, 2, 3]).anyMerged⟩ [0, 1, 2, 3]).score, (lfold (-1) ⟨R1, [false, false, false, false], (lfold (-1) ⟨R0, [false, false, false, false], 0, false, false⟩ [0, 1, 2, 3]).score, (lfold (-1) ⟨R0, [false, false, false, false], 0, false, false⟩ [0, 1, 2, 3]).anyMoved, (lfold (-1) ⟨R0, [false, false, false, false], 0, false, false⟩ [0, 1, 2, 3]).anyMerged⟩ [0, 1, 2, 3]).anyMoved, (lfold (-1) ⟨R1, [false, false, false, false], (lfold (-1) ⟨R0, [false, false, false, false], 0, false, false⟩ [0, 1, 2, 3]).score, (lfold (-1) ⟨R0, [false, false, false, false], 0, false, false⟩ [0, 1, 2, 3]).anyMoved, (lfold (-1) ⟨R0, [false, false, false, false], 0, false, false⟩ [0, 1, 2, 3]).anyMerged⟩ [0, 1, 2, 3]).anyMerged⟩ [0, 1, 2, 3]).score, (lfold (-1) ⟨R2, [false, false, false, false], (lfold (-1) ⟨R1, [false, false, false, false], (lfold (-1) ⟨R0, [false, false, false, false], 0, false, false⟩ [0, 1, 2, 3]).score, (lfold (-1) ⟨R0, [false, false, false, false], 0, false, false⟩ [0, 1, 2, 3]).anyMoved, (lfold (-1) ⟨R0, [false, false, false, false], 0, false, false⟩ [0, 1, 2, 3]).anyMerged⟩ [0, 1, 2, 3]).score, (lfold (-1) ⟨R1, [false, false, false, false], (lfold (-1) ⟨R0, [false, false, false, false], 0, false, false⟩ [0, 1, 2, 3]).score, (lfold (-1) ⟨R0, [false, false, false, false], 0, false, false⟩ [0, 1, 2, 3]).anyMoved, (lfold (-1) ⟨R0, [false, false, false, false], 0, false, false⟩ [0, 1, 2, 3]).anyMerged⟩ [0, 1, 2, 3]).anyMoved, (lfold (-1) ⟨R1, [false, false, false, false], (lfold (-1) ⟨R0, [false, false, false, false], 0, false, false⟩ [0, 1, 2, 3]).score, (lfold (-1) ⟨R0, [false, false, false, false], 0, false, false⟩ [0, 1, 2, 3]).anyMoved, (lfold (-1) ⟨R0, [false, false, false, false], 0, false, false⟩ [0, 1, 2, 3]).anyMerged⟩ [0, 1, 2, 3]).anyMerged⟩ [0, 1, 2, 3]).anyMoved, (lfold (-1) ⟨R2, [false, false, false, false], (lfold (-1) ⟨R1, [false, false, false, false], (lfold (-1) ⟨R0, [false, false, false, false], 0, false, false⟩ [0, 1, 2, 3]).score, (lfold (-1) ⟨R0, [false, false, false, false], 0, false, false⟩ [0, 1, 2, 3]).anyMoved, (lfold (-1) ⟨R0, [false, false, false, false], 0, false, false⟩ [0, 1, 2, 3]).anyMerged⟩ [0, 1, 2, 3]).score, (lfold (-1) ⟨R1, [false, false, false, false], (lfold (-1) ⟨R0, [false, false, false, false], 0, false, false⟩ [0, 1, 2, 3]).score, (lfold (-1) ⟨R0, [false, false, false, false], 0, false, false⟩ [0, 1, 2, 3]).anyMoved, (lfold (-1) ⟨R0, [false, false, false, false], 0, false, false⟩ [0, 1, 2, 3]).anyMerged⟩ [0, 1, 2, 3]).anyMoved, (lfold (-1) ⟨R1, [false, false, false, false], (lfold (-1) ⟨R0, [false, false, false, false], 0, false, false⟩ [0, 1, 2, 3]).score, (lfold (-1) ⟨R0, [false, false, false, false], 0, false, false⟩ [0, 1, 2, 3]).anyMoved, (lfold (-1) ⟨R0, [false, false, false, false], 0, false, false⟩ [0, 1, 2, 3]).anyMerged⟩ [0, 1, 2, 3]).anyMerged⟩ [0, 1, 2, 3]).anyMerged⟩ [0, 1, 2, 3]).anyMerged⟩ := by
    rw [vfold_row (-1) [0, 1, 2, 3] ⟨[(lfold (-1) ⟨R0, [false, false, false, false], 0, false, false⟩ [0, 1, 2, 3]).line, (lfold (-1) ⟨R1, [false, false, false, false], (lfold (-1) ⟨R0, [false, false, false, false], 0, false, false⟩ [0, 1, 2, 3]).score, (lfold (-1) ⟨R0, [false, false, false, false], 0, false, false⟩ [0, 1, 2, 3]).anyMoved, (lfold (-1) ⟨R0, [false, false, false, false], 0, false, false⟩ [0, 1, 2, 3]).anyMerged⟩ [0, 1, 2, 3]).line, (lfold (-1) ⟨R2, [false, false, false, false], (lfold (-1) ⟨R1, [false, false, false, false], (lfold (-1) ⟨R0, [false, false, false, false], 0, false, false⟩ [0, 1, 2, 3]).score, (lfold (-1) ⟨R0, [false, false, false, false], 0, false, false⟩ [0, 1, 2, 3]).anyMoved, (lfold (-1) ⟨R0, [false, false, false, false], 0, false, false⟩ [0, 1, 2, 3]).anyMerged⟩ [0, 1, 2, 3]).score, (lfold (-1) ⟨R1, [false, false, false, false], (lfold (-1) ⟨R0, [false, false, false, false], 0, false, false⟩ [0, 1, 2, 3]).score, (lfold (-1) ⟨R0, [false, false, false, false], 0, false, false⟩ [0, 1, 2, 3]).anyMoved, (lfold (-1) ⟨R0, [false, false, false, false], 0, false, false⟩ [0, 1, 2, 3]).anyMerged⟩ [0, 1, 2, 3]).anyMoved, (lfold (-1) ⟨R1, [false, false, false, false], (lfold (-1) ⟨R0, [false, false, false, false], 0, false, false⟩ [0, 1, 2, 3]).score, (lfold (-1) ⟨R0, [false, false, false, false], 0, false, false⟩ [0, 1, 2, 3]).anyMoved, (lfold (-1) ⟨R0, [false, false, false, false], 0, false, false⟩ [0, 1, 2, 3]).anyMerged⟩ [0, 1, 2, 3]).anyMerged⟩ [0, 1, 2, 3]).line, R3], (((TileGame.emptyMGrid.set 0 (lfold (-1) ⟨R0, [false, false, false, false], 0, false, false⟩ [0, 1, 2, 3]).marks).set 1 (lfold (-1) ⟨R1, [false, false, false, false], (lfold (-1) ⟨R0, [false, false, false, false], 0, false, false⟩ [0, 1, 2, 3]).score, (lfold (-1) ⟨R0, [false, false, false, false], 0, false, false⟩ [0, 1, 2, 3]).anyMoved, (lfold (-1) ⟨R0, [false, false, false, false], 0, false, false⟩ [0, 1, 2, 3]).anyMerged⟩ [0, 1, 2, 3]).marks).set 2 (lfold (-1) ⟨R2, [false, false, false, false], (lfold (-1) ⟨R1, [false, false, false, false], (lfold (-1) ⟨R0, [false, false, false, false], 0, false, false⟩ [0, 1, 2, 3]).score, (lfold (-1) ⟨R0, [false, false, false, false], 0, false, false⟩ [0, 1, 2, 3]).anyMoved, (lfold (-1) ⟨R0, [false, false, false, false], 0, false, false⟩ [0, 1, 2, 3]).anyMerged⟩ [0, 1, 2, 3]).score, (lfold (-1) ⟨R1, [false, false, false, false], (lfold (-1) ⟨R0, [false, false, false, false], 0, false, false⟩ [0, 1, 2, 3]).score, (lfold (-1) ⟨R0, [false, false, false, false], 0, false, false⟩ [0, 1, 2, 3]).anyMoved, (lfold (-1) ⟨R0, [false, false, false, false], 0, false, false⟩ [0, 1, 2, 3]).anyMerged⟩ [0, 1, 2, 3]).anyMoved, (lfold (-1) ⟨R1, [false, false, false, false], (lfold (-1) ⟨R0, [false, false, false, false], 0, false, false⟩ [0, 1, 2, 3]).score, (lfold (-1) ⟨R0, [false, false, false, false], 0, false, false⟩ [0, 1, 2, 3]).anyMoved, (lfold (-1) ⟨R0, [false, false, false, false], 0, false, false⟩ [0, 1, 2, 3]).anyMerged⟩ [0, 1, 2, 3]).anyMerged⟩ [0, 1, 2, 3]).marks), (lfold (-1) ⟨R2, [false, false, false, false], (lfold (-1) ⟨R1, [false, false, false, false], (lfold (-1) ⟨R0, [false, false, false, false], 0, false, false⟩ [0, 1, 2, 3]).score, (lfold (-1) ⟨R0, [false, false, false, false], 0, false, false⟩ [0, 1, 2, 3]).anyMoved, (lfold (-1) ⟨R0, [false, false, false, false], 0, false, false⟩ [0, 1, 2, 3]).anyMerged⟩ [0, 1, 2, 3]).score, (lfold (-1) ⟨R1, [false, false, false, false], (lfold (-1) ⟨R0, [false, false, false, false], 0, false, false⟩ [0, 1, 2, 3]).score, (lfold (-1) ⟨R0, [false, false, false, false], 0, false, false⟩ [0, 1, 2, 3]).anyMoved, (lfold (-1) ⟨R0, [false, false, false, false], 0, false, false⟩ [0, 1, 2, 3]).anyMerged⟩ [0, 1, 2, 3]).anyMoved, (lfold (-1) ⟨R1, [false, false, false, false], (lfold (-1) ⟨R0, [false, false, false, false], 0, false, false⟩ [0, 1, 2, 3]).score, (lfold (-1) ⟨R0, [false, false, false, false], 0, false, false⟩ [0, 1, 2, 3]).anyMoved, (lfold (-1) ⟨R0, [false, false, false, false], 0, false, false⟩ [0, 1, 2, 3]).anyMerged⟩ [0, 1, 2, 3]).anyMerged⟩ [0, 1, 2, 3]).score, (lfold (-1) ⟨R2, [false, false, false, false], (lfold (-1) ⟨R1, [false, false, false, false], (lfold (-1) ⟨R0, [false, false, false, false], 0, false, false⟩ [0, 1, 2, 3]).score, (lfold (-1) ⟨R0, [false, false, false, false], 0, false, false⟩ [0, 1, 2, 3]).anyMoved, (lfold (-1) ⟨R0, [false, false, false, false], 0, false, false⟩ [0, 1, 2, 3]).anyMerged⟩ [0, 1, 2, 3]).score, (lfold (-1) ⟨R1, [false, false, false, false], (lfold (-1) ⟨R0, [false, false, false, false], 0, false, false⟩ [0, 1, 2, 3]).score, (lfold (-1) ⟨R0, [false, false, false, false], 0, false, false⟩ [0, 1, 2, 3]).anyMoved, (lfold (-1) ⟨R0, [false, false, false, false], 0, false, false⟩ [0, 1, 2, 3]).anyMerged⟩ [0, 1, 2, 3]).anyMoved, (lfold (-1) ⟨R1, [false, false, false, false], (lfold (-1) ⟨R0, [false, false, false, false], 0, false, false⟩ [0, 1, 2, 3]).score, (lfold (-1) ⟨R0, [false, false, false, false], 0, false, false⟩ [0, 1, 2, 3]).anyMoved, (lfold (-1) ⟨R0, [false, false, false, false], 0, false, false⟩ [0, 1, 2, 3]).anyMerged⟩ [0, 1, 2, 3]).anyMerged⟩ [0, 1, 2, 3]).anyMoved, (lfold (-1) ⟨R2, [false, false, false, false], (lfold (-1) ⟨R1, [false, false, false, false], (lfold (-1) ⟨R0, [false, false, false, false], 0, false, false⟩ [0, 1, 2, 3]).score, (lfold (-1) ⟨R0, [false, false, false, false], 0, false, false⟩ [0, 1, 2, 3]).anyMoved, (lfold (-1) ⟨R0, [false, false, false, false], 0, false, false⟩ [0, 1, 2, 3]).anyMerged⟩ [0, 1, 2, 3]).score, (lfold (-1) ⟨R1, [false, false, false, false], (lfold (-1) ⟨R0, [false, false, false, false], 0, false, false⟩ [0, 1, 2, 3]).score, (lfold (-1) ⟨R0, [false, false, false, false], 0, false, false⟩ [0, 1, 2, 3]).anyMoved, (lfold (-1) ⟨R0, [false, false, false, false], 0, false, false⟩ [0, 1, 2, 3]).anyMerged⟩ [0, 1, 2, 3]).anyMoved, (lfold (-1) ⟨R1, [false, false, false, false], (lfold (-1) ⟨R0, [false, false, false, false], 0, false, false⟩ [0, 1, 2, 3]).score, (lfold (-1) ⟨R0, [false, false, false, false], 0, false, false⟩ [0, 1, 2, 3]).anyMoved, (lfold (-1) ⟨R0, [false, false, false, false], 0, false, false⟩ [0, 1, 2, 3]).anyMerged⟩ [0, 1, 2, 3]).anyMerged⟩ [0, 1, 2, 3]).anyMerged⟩ 3 (by omega) rfl rfl]
    rfl
  have hfold : (pairsFor .left).foldl (vstep 0 (-1)) ⟨[R0, R1, R2, R3], TileGame.emptyMGrid, 0, false, false⟩ = ⟨[(lfold (-1) ⟨R0, [false, false, false, false], 0, false, false⟩ [0, 1, 2, 3]).line, (lfold (-1) ⟨R1, [false, false, false, false], (lfold (-1) ⟨R0, [false, false, false, false], 0, false, false⟩ [0, 1, 2, 3]).score, (lfold (-1) ⟨R0, [false, false, false, false], 0, false, false⟩ [0, 1, 2, 3]).anyMoved, (lfold (-1) ⟨R0, [false, false, false, false], 0, false, false⟩ [0, 1, 2, 3]).anyMerged⟩ [0, 1, 2, 3]).line, (lfold (-1) ⟨R2, [false, false, false, false], (lfold (-1) ⟨R1, [false, false, false, false], (lfold (-1) ⟨R0, [false, false, false, false], 0, false, false⟩ [0, 1, 2, 3]).score, (lfold (-1) ⟨R0, [false, false, false, false], 0, false, false⟩ [0, 1, 2, 3]).anyMoved, (lfold (-1) ⟨R0, [false, false, false, false], 0, false, false⟩ [0, 1, 2, 3]).anyMerged⟩ [0, 1, 2, 3]).score, (lfold (-1) ⟨R1, [false, false, false, false], (lfold (-1) ⟨R0, [false, false, false, false], 0, false, false⟩ [0, 1, 2, 3]).score, (lfold (-1) ⟨R0, [false, false, false, false], 0, false, false⟩ [0, 1, 2, 3]).anyMoved, (lfold (-1) ⟨R0, [false, false, false, false], 0, false, false⟩ [0, 1, 2, 3]).anyMerged⟩ [0, 1, 2, 3]).anyMoved, (lfold (-1) ⟨R1, [false, false, false, false], (lfold (-1) ⟨R0, [false, false, false, false], 0, false, false⟩ [0, 1, 2, 3]).score, (lfold (-1) ⟨R0, [false, false, false, false], 0, false, false⟩ [0, 1, 2, 3]).anyMoved, (lfold (-1) ⟨R0, [false, false, false, false], 0, false, false⟩ [0, 1, 2, 3]).anyMerged⟩ [0, 1, 2, 3]).anyMerged⟩ [0, 1, 2, 3]).line, (lfold (-1) ⟨R3, [false, false, false, false], (lfold (-1) ⟨R2, [false, false, false, false], (lfold (-1) ⟨R1, [false, false, false, false], (lfold (-1) ⟨R0, [false, false, false, false], 0, false, false⟩ [0, 1, 2, 3]).score, (lfold (-1) ⟨R0, [false, false, false, false], 0, false, false⟩ [0, 1, 2, 3]).anyMoved, (lfold (-1) ⟨R0, [false, false, false, false], 0, false, false⟩ [0, 1, 2, 3]).anyMerged⟩ [0, 1, 2, 3]).score, (lfold (-1) ⟨R1, [false, false, false, false], (lfold (-1) ⟨R0, [false, false, false, false], 0, false, false⟩ [0, 1, 2, 3]).score, (lfold (-1) ⟨R0, [false, false, false, false], 0, false, false⟩ [0, 1, 2, 3]).anyMoved, (lfold (-1) ⟨R0, [false, false, false, false], 0, false, false⟩ [0, 1, 2, 3]).anyMerged⟩ [0, 1, 2, 3]).anyMoved, (lfold (-1) ⟨R1, [false, false, false, false], (lfold (-1) ⟨R0, [false, false, false, false], 0, false, false⟩ [0, 1, 2, 3]).score, (lfold (-1) ⟨R0, [false, false, false, false], 0, false, false⟩ [0, 1, 2, 3]).anyMoved, (lfold (-1) ⟨R0, [false, false, false, false], 0, false, false⟩ [0, 1, 2, 3]).anyMerged⟩ [0, 1, 2, 3]).anyMerged⟩ [0, 1, 2, 3]).score, (lfold (-1) ⟨R2, [false, false, false, false], (lfold (-1) ⟨R1, [false, false, false, false], (lfold (-1) ⟨R0, [false, false, false, false], 0, false, false⟩ [0, 1, 2, 3]).score, (lfold (-1) ⟨R0, [false, false, false, false], 0, false, false⟩ [0, 1, 2, 3]).anyMoved, (lfold (-1) ⟨R0, [false, false, false, false], 0, false, false⟩ [0, 1, 2, 3]).anyMerged⟩ [0, 1, 2, 3]).score, (lfold (-1) ⟨R1, [false, false, false, false], (lfold (-1) ⟨R0, [false, false, false, false], 0, false, false⟩ [0, 1, 2, 3]).score, (lfold (-1) ⟨R0, [false, false, false, false], 0, false, false⟩ [0, 1, 2, 3]).anyMoved, (lfold (-1) ⟨R0, [false, false, false, false], 0, false, false⟩ [0, 1, 2, 3]).anyMerged⟩ [0, 1, 2, 3]).anyMoved, (lfold (-1) ⟨R1, [false, false, false, false], (lfold (-1) ⟨R0, [false, false, false, false], 0, false, false⟩ [0, 1, 2, 3]).score, (lfold (-1) ⟨R0, [false, false, false, false], 0, false, false⟩ [0, 1, 2, 3]).anyMoved, (lfold (-1) ⟨R0, [false, false, false, false], 0, false, false⟩ [0, 1, 2, 3]).anyMerged⟩ [0, 1, 2, 3]).anyMerged⟩ [0, 1, 2, 3]).anyMoved, (lfold (-1) ⟨R2, [false, false, false, false], (lfold (-1) ⟨R1, [false, false, false, false], (lfold (-1) ⟨R0, [false, false, false, false], 0, false, false⟩ [0, 1, 2, 3]).score, (lfold (-1) ⟨R0, [false, false, false, false], 0, false, false⟩ [0, 1, 2, 3]).anyMoved, (lfold (-1) ⟨R0, [false, false, false, false], 0, false, false⟩ [0, 1, 2, 3]).anyMerged⟩ [0, 1, 2, 3]).score, (lfold (-1) ⟨R1, [false, false, false, false], (lfold (-1) ⟨R0, [false, false, false, false], 0, false, false⟩ [0, 1, 2, 3]).score, (lfold (-1) ⟨R0, [false, false, false, false], 0, false, false⟩ [0, 1, 2, 3]).anyMoved, (lfold (-1) ⟨R0, [false, false, false, false], 0, false, false⟩ [0, 1, 2, 3]).anyMerged⟩ [0, 1, 2, 3]).anyMoved, (lfold (-1) ⟨R1, [false, false, false, false], (lfold (-1) ⟨R0, [false, false, false, false], 0, false, false⟩ [0, 1, 2, 3]).score, (lfold (-1) ⟨R0, [false, false, false, false], 0, false, false⟩ [0, 1, 2, 3]).anyMoved, (lfold (-1) ⟨R0, [false, false, false, false], 0, false, false⟩ [0, 1, 2, 3]).anyMerged⟩ [0, 1, 2, 3]).anyMerged⟩ [0, 1, 2, 3]).anyMerged⟩ [0, 1, 2, 3]).line], ((((TileGame.emptyMGrid.set 0 (lfold (-1) ⟨R0, [false, false, false, false], 0, false, false⟩ [0, 1, 2, 3]).marks).set 1 (lfold (-1) ⟨R1, [false, false, false, false], (lfold (-1) ⟨R0, [false, false, false, false], 0, false, false⟩ [0, 1, 2, 3]).score, (lfold (-1) ⟨R0, [false, false, false, false], 0, false, false⟩ [0, 1, 2, 3]).anyMoved, (lfold (-1) ⟨R0, [false, false, false, false], 0, false, false⟩ [0, 1, 2, 3]).anyMerged⟩ [0, 1, 2, 3]).marks).set 2 (lfold (-1) ⟨R2, [false, false, false, false], (lfold (-1) ⟨R1, [false, false, false, false], (lfold (-1) ⟨R0, [false, false, false, false], 0, false, false⟩ [0, 1, 2, 3]).score, (lfold (-1) ⟨R0, [false, false, false, false], 0, false, false⟩ [0, 1, 2, 3]).anyMoved, (lfold (-1) ⟨R0, [false, false, false, false], 0, false, false⟩ [0, 1, 2, 3]).anyMerged⟩ [0, 1, 2, 3]).score, (lfold (-1) ⟨R1, [false, false, false, false], (lfold (-1) ⟨R0, [false, false, false, false], 0, false, false⟩ [0, 1, 2, 3]).score, (lfold (-1) ⟨R0, [false, false, false, false], 0, false, false⟩ [0, 1, 2, 3]).anyMoved, (lfold (-1) ⟨R0, [false, false, false, false], 0, false, false⟩ [0, 1, 2, 3]).anyMerged⟩ [0, 1, 2, 3]).anyMoved, (lfold (-1) ⟨R1, [false, false, false, false], (lfold (-1) ⟨R0, [false, false, false, false], 0, false, false⟩ [0, 1, 2, 3]).score, (lfold (-1) ⟨R0, [false, false, false, false], 0, false, false⟩ [0, 1, 2, 3]).anyMoved, (lfold (-1) ⟨R0, [false, false, false, false], 0, false, false⟩ [0, 1, 2, 3]).anyMerged⟩ [0, 1, 2, 3]).anyMerged⟩ [0, 1, 2, 3]).marks).set 3 (lfold (-1) ⟨R3, [false, false, false, false], (lfold (-1) ⟨R2, [false, false, false, false], (lfold (-1) ⟨R1, [false, false, false, false], (lfold (-1) ⟨R0, [false, false, false, false], 0, false, false⟩ [0, 1, 2, 3]).score, (lfold (-1) ⟨R0, [false, false, false, false], 0, false, false⟩ [0, 1, 2, 3]).anyMoved, (lfold (-1) ⟨R0, [false, false, false, false], 0, false, false⟩ [0, 1, 2, 3]).anyMerged⟩ [0, 1, 2, 3]).score, (lfold (-1) ⟨R1, [false, false, false, false], (lfold (-1) ⟨R0, [false, false, false, false], 0, false, false⟩ [0, 1, 2, 3]).score, (lfold (-1) ⟨R0, [false, false, false, false], 0, false, false⟩ [0, 1, 2, 3]).anyMoved, (lfold (-1) ⟨R0, [false, false, false, false], 0, false, false⟩ [0, 1, 2, 3]).anyMerged⟩ [0, 1, 2, 3]).anyMoved, (lfold (-1) ⟨R1, [false, false, false, false], (lfold (-1) ⟨R0, [false, false, false, false], 0, false, false⟩ [0, 1, 2, 3]).score, (lfold (-1) ⟨R0, [false, false, false, false], 0, false, false⟩ [0, 1, 2, 3]).anyMoved, (lfold (-1) ⟨R0, [false, false, false, false], 0, false, false⟩ [0, 1, 2, 3]).anyMerged⟩ [0, 1, 2, 3]).anyMerged⟩ [0, 1, 2, 3]).score, (lfold (-1) ⟨R2, [false, false, false, false], (lfold (-1) ⟨R1, [false, false, false, false], (lfold (-1) ⟨R0, [false, false, false, false], 0, false, false⟩ [0, 1, 2, 3]).score, (lfold (-1) ⟨R0, [false, false, false, false], 0, false, false⟩ [0, 1, 2, 3]).anyMoved, (lfold (-1) ⟨R0, [false, false, false, false], 0, false, false⟩ [0, 1, 2, 3]).anyMerged⟩ [0, 1, 2, 3]).score, (lfold (-1) ⟨R1, [false, false, false, false], (lfold (-1) ⟨R0, [false, false, false, false], 0, false, false⟩ [0, 1, 2, 3]).score, (lfold (-1) ⟨R0, [false, false, false, false], 0, false, false⟩ [0, 1, 2, 3]).anyMoved, (lfold (-1) ⟨R0, [false, false, false, false], 0, false, false⟩ [0, 1, 2, 3]).anyMerged⟩ [0, 1, 2, 3]).anyMoved, (lfold (-1) ⟨R1, [false, false, false, false], (lfold (-1) ⟨R0, [false, false, false, false], 0, false, false⟩ [0, 1, 2, 3]).score, (lfold (-1) ⟨R0, [false, false, false, false], 0, false, false⟩ [0, 1, 2, 3]).anyMoved, (lfold (-1) ⟨R0, [false, false, false, false], 0, false, false⟩ [0, 1, 2, 3]).anyMerged⟩ [0, 1, 2, 3]).anyMerged⟩ [0, 1, 2, 3]).anyMoved, (lfold (-1) ⟨R2, [false, false, false, false], (lfold (-1) ⟨R1, [false, false, false, false], (lfold (-1) ⟨R0, [false, false, false, false], 0, false, false⟩ [0, 1, 2, 3]).score, (lfold (-1) ⟨R0, [false, false, false, false], 0, false, false⟩ [0, 1, 2, 3]).anyMoved, (lfold (-1) ⟨R0, [false, false, false, false], 0, false, false⟩ [0, 1, 2, 3]).anyMerged⟩ [0, 1, 2, 3]).score, (lfold (-1) ⟨R1, [false, false, false, false], (lfold (-1) ⟨R0, [false, false, false, false], 0, false, false⟩ [0, 1, 2, 3]).score, (lfold (-1) ⟨R0, [false, false, false, false], 0, false, false⟩ [0, 1, 2, 3]).anyMoved, (lfold (-1) ⟨R0, [false, false, false, false], 0, false, false⟩ [0, 1, 2, 3]).anyMerged⟩ [0, 1, 2, 3]).anyMoved, (lfold (-1) ⟨R1, [false, false, false, false], (lfold (-1) ⟨R0, [false, false, false, false], 0, false, false⟩ [0, 1, 2, 3]).score, (lfold (-1) ⟨R0, [false, false, false, false], 0, false, false⟩ [0, 1, 2, 3]).anyMoved, (lfold (-1) ⟨R0, [false, false, false, false], 0, false, false⟩ [0, 1, 2, 3]).anyMerged⟩ [0, 1, 2, 3]).anyMerged⟩ [0, 1, 2, 3]).anyMerged⟩ [0, 1, 2, 3]).marks), (lfold (-1) ⟨R3, [false, false, false, false], (lfold (-1) ⟨R2, [false, false, false, false], (lfold (-1) ⟨R1, [false, false, false, false], (lfold (-1) ⟨R0, [false, false, false, false], 0, false, false⟩ [0, 1, 2, 3]).score, (lfold (-1) ⟨R0, [false, false, false, false], 0, false, false⟩ [0, 1, 2, 3]).anyMoved, (lfold (-1) ⟨R0, [false, false, false, false], 0, false, false⟩ [0, 1, 2, 3]).anyMerged⟩ [0, 1, 2, 3]).score, (lfold (-1) ⟨R1, [false, false, false, false], (lfold (-1) ⟨R0, [false, false, false, false], 0, false, false⟩ [0, 1, 2, 3]).score, (lfold (-1) ⟨R0, [false, false, false, false], 0, false, false⟩ [0, 1, 2, 3]).anyMoved, (lfold (-1) ⟨R0, [false, false, false, false], 0, false, false⟩ [0, 1, 2, 3]).anyMerged⟩ [0, 1, 2, 3]).anyMoved, (lfold (-1) ⟨R1, [false, false, false, false], (lfold (-1) ⟨R0, [false, false, false, false], 0, false, false⟩ [0, 1, 2, 3]).score, (lfold (-1) ⟨R0, [false, false, false, false], 0, false, false⟩ [0, 1, 2, 3]).anyMoved, (lfold (-1) ⟨R0, [false, false, false, false], 0, false, false⟩ [0, 1, 2, 3]).anyMerged⟩ [0, 1, 2, 3]).anyMerged⟩ [0, 1, 2, 3]).score, (lfold (-1) ⟨R2, [false, false, false, false], (lfold (-1) ⟨R1, [false, false, false, false], (lfold (-1) ⟨R0, [false, false, false, false], 0, false, false⟩ [0, 1, 2, 3]).score, (lfold (-1) ⟨R0, [false, false, false, false], 0, false, false⟩ [0, 1, 2, 3]).anyMoved, (lfold (-1) ⟨R0, [false, false, false, false], 0, false, false⟩ [0, 1, 2, 3]).anyMerged⟩ [0, 1, 2, 3]).score, (lfold (-1) ⟨R1, [false, false, false, false], (lfold (-1) ⟨R0, [false, false, false, false], 0, false, false⟩ [0, 1, 2, 3]).score, (lfold (-1) ⟨R0, [false, false, false, false], 0, false, false⟩ [0, 1, 2, 3]).anyMoved, (lfold (-1) ⟨R0, [false, false, false, false], 0, false, false⟩ [0, 1, 2, 3]).anyMerged⟩ [0, 1, 2, 3]).anyMoved, (lfold (-1) ⟨R1, [false, false, false, false], (lfold (-1) ⟨R0, [false, false, false, false], 0, false, false⟩ [0, 1, 2, 3]).score, (lfold (-1) ⟨R0, [false, false, false, false], 0, false, false⟩ [0, 1, 2, 3]).anyMoved, (lfold (-1) ⟨R0, [false, false, false, false], 0, false, false⟩ [0, 1, 2, 3]).anyMerged⟩ [0, 1, 2, 3]).anyMerged⟩ [0, 1, 2, 3]).anyMoved, (lfold (-1) ⟨R2, [false, false, false, false], (lfold (-1) ⟨R1, [false, false, false, false], (lfold (-1) ⟨R0, [false, false, false, false], 0, false, false⟩ [0, 1, 2, 3]).score, (lfold (-1) ⟨R0, [false, false, false, false], 0, false, false⟩ [0, 1, 2, 3]).anyMoved, (lfold (-1) ⟨R0, [false, false, false, false], 0, false, false⟩ [0, 1, 2, 3]).anyMerged⟩ [0, 1, 2, 3]).score, (lfold (-1) ⟨R1, [false, false, false, false], (lfold (-1) ⟨R0, [false, false, false, false], 0, false, false⟩ [0, 1, 2, 3]).score, (lfold (-1) ⟨R0, [false, false, false, false], 0, false, false⟩ [0, 1, 2, 3]).anyMoved, (lfold (-1) ⟨R0, [false, false, false, false], 0, false, false⟩ [0, 1, 2, 3]).anyMerged⟩ [0, 1, 2, 3]).anyMoved, (lfold (-1) ⟨R1, [false, false, false, false], (lfold (-1) ⟨R0, [false, false, false, false], 0, false, false⟩ [0, 1, 2, 3]).score, (lfold (-1) ⟨R0, [false, false, false, false], 0, false, false⟩ [0, 1, 2, 3]).anyMoved, (lfold (-1) ⟨R0, [false, false, false, false], 0, false, false⟩ [0, 1, 2, 3]).anyMerged⟩ [0, 1, 2, 3]).anyMerged⟩ [0, 1, 2, 3]).anyMerged⟩ [0, 1, 2, 3]).score, (lfold (-1) ⟨R3, [false, false, false, false], (lfold (-1) ⟨R2, [false, false, false, false], (lfold (-1) ⟨R1, [false, false, false, false], (lfold (-1) ⟨R0, [false, false, false, false], 0, false, false⟩ [0, 1, 2, 3]).score, (lfold (-1) ⟨R0, [false, false, false, false], 0, false, false⟩ [0, 1, 2, 3]).anyMoved, (lfold (-1) ⟨R0, [false, false, false, false], 0, false, false⟩ [0, 1, 2, 3]).anyMerged⟩ [0, 1, 2, 3]).score, (lfold (-1) ⟨R1, [false, false, false, false], (lfold (-1) ⟨R0, [false, false, false, false], 0, false, false⟩ [0, 1, 2, 3]).score, (lfold (-1) ⟨R0, [false, false, false, false], 0, false, false⟩ [0, 1, 2, 3]).anyMoved, (lfold (-1) ⟨R0, [false, false, false, false], 0, false, false⟩ [0, 1, 2, 3]).anyMerged⟩ [0, 1, 2, 3]).anyMoved, (lfold (-1) ⟨R1, [false, false, false, false], (lfold (-1) ⟨R0, [false, false, false, false], 0, false, false⟩ [0, 1, 2, 3]).score, (lfold (-1) ⟨R0, [false, false, false, false], 0, false, false⟩ [0, 1, 2, 3]).anyMoved, (lfold (-1) ⟨R0, [false, false, false, false], 0, false, false⟩ [0, 1, 2, 3]).anyMerged⟩ [0, 1, 2, 3]).anyMerged⟩ [0, 1, 2, 3]).score, (lfold (-1) ⟨R2, [false, false, false, false], (lfold (-1) ⟨R1, [false, false, false, false], (lfold (-1) ⟨R0, [false, false, false, false], 0, false, false⟩ [0, 1, 2, 3]).score, (lfold (-1) ⟨R0, [false, false, false, false], 0, false, false⟩ [0, 1, 2, 3]).anyMoved, (lfold (-1) ⟨R0, [false, false, false, false], 0, false, false⟩ [0, 1, 2, 3]).anyMerged⟩ [0, 1, 2, 3]).score, (lfold (-1) ⟨R1, [false, false, false, false], (lfold (-1) ⟨R0, [false, false, false, false], 0, false, false⟩ [0, 1, 2, 3]).score, (lfold (-1) ⟨R0, [false, false, false, false], 0, false, false⟩ [0, 1, 2, 3]).anyMoved, (lfold (-1) ⟨R0, [false, false, false, false], 0, false, false⟩ [0, 1, 2, 3]).anyMerged⟩ [0, 1, 2, 3]).anyMoved, (lfold (-1) ⟨R1, [false, false, false, false], (lfold (-1) ⟨R0, [false, false, false, false], 0, false, false⟩ [0, 1, 2, 3]).score, (lfold (-1) ⟨R0, [false, false, false, false], 0, false, false⟩ [0, 1, 2, 3]).anyMoved, (lfold (-1) ⟨R0, [false, false, false, false], 0, false, false⟩ [0, 1, 2, 3]).anyMerged⟩ [0, 1, 2, 3]).anyMerged⟩ [0, 1, 2, 3]).anyMoved, (lfold (-1) ⟨R2, [false, false, false, false], (lfold (-1) ⟨R1, [false, false, false, false], (lfold (-1) ⟨R0, [false, false, false, false], 0, false, false⟩ [0, 1, 2, 3]).score, (lfold (-1) ⟨R0, [false, false, false, false], 0, false, false⟩ [0, 1, 2, 3]).anyMoved, (lfold (-1) ⟨R0, [false, false, false, false], 0, false, false⟩ [0, 1, 2, 3]).anyMerged⟩ [0, 1, 2, 3]).score, (lfold (-1) ⟨R1, [false, false, false, false], (lfold (-1) ⟨R0, [false, false, false, false], 0, false, false⟩ [0, 1, 2, 3]).score, (lfold (-1) ⟨R0, [false, false, false, false], 0, false, false⟩ [0, 1, 2, 3]).anyMoved, (lfold (-1) ⟨R0, [false, false, false, false], 0, false, false⟩ [0, 1, 2, 3]).anyMerged⟩ [0, 1, 2, 3]).anyMoved, (lfold (-1) ⟨R1, [false, false, false, false], (lfold (-1) ⟨R0, [false, false, false, false], 0, false, false⟩ [0, 1, 2, 3]).score, (lfold (-1) ⟨R0, [false, false, false, false], 0, false, false⟩ [0, 1, 2, 3]).anyMoved, (lfold (-1) ⟨R0, [false, false, false, false], 0, false, false⟩ [0, 1, 2, 3]).anyMerged⟩ [0, 1, 2, 3]).anyMerged⟩ [0, 1, 2, 3]).anyMerged⟩ [0, 1, 2, 3]).anyMoved, (lfold (-1) ⟨R3, [false, false, false, false], (lfold (-1) ⟨R2, [false, false, false, false], (lfold (-1) ⟨R1, [false, false, false, false], (lfold (-1) ⟨R0, [false, false, false, false], 0, false, false⟩ [0, 1, 2, 3]).score, (lfold (-1) ⟨R0, [false, false, false, false], 0, false, false⟩ [0, 1, 2, 3]).anyMoved, (lfold (-1) ⟨R0, [false, false, false, false], 0, false, false⟩ [0, 1, 2, 3]).anyMerged⟩ [0, 1, 2, 3]).score, (lfold (-1) ⟨R1, [false, false, false, false], (lfold (-1) ⟨R0, [false, false, false, false], 0, false, false⟩ [0, 1, 2, 3]).score, (lfold (-1) ⟨R0, [false, false, false, false], 0, false, false⟩ [0, 1, 2, 3]).anyMoved, (lfold (-1) ⟨R0, [false, false, false, false], 0, false, false⟩ [0, 1, 2, 3]).anyMerged⟩ [0, 1, 2, 3]).anyMoved, (lfold (-1) ⟨R1, [false, false, false, false], (lfold (-1) ⟨R0, [false, false, false, false], 0, false, false⟩ [0, 1, 2, 3]).score, (lfold (-1) ⟨R0, [false, false, false, false], 0, false, false⟩ [0, 1, 2, 3]).anyMoved, (lfold (-1) ⟨R0, [false, false, false, false], 0, false, false⟩ [0, 1, 2, 3]).anyMerged⟩ [0, 1, 2, 3]).anyMerged⟩ [0, 1, 2, 3]).score, (lfold (-1) ⟨R2, [false, false, false, false], (lfold (-1) ⟨R1, [false, false, false, false], (lfold (-1) ⟨R0, [false, false, false, false], 0, false, false⟩ [0, 1, 2, 3]).score, (lfold (-1) ⟨R0, [false, false, false, false], 0, false, false⟩ [0, 1, 2, 3]).anyMoved, (lfold (-1) ⟨R0, [false, false, false, false], 0, false, false⟩ [0, 1, 2, 3]).anyMerged⟩ [0, 1, 2, 3]).score, (lfold (-1) ⟨R1, [false, false, false, false], (lfold (-1) ⟨R0, [false, false, false, false], 0, false, false⟩ [0, 1, 2, 3]).score, (lfold (-1) ⟨R0, [false, false, false, false], 0, false, false⟩ [0, 1, 2, 3]).anyMoved, (lfold (-1) ⟨R0, [false, false, false, false], 0, false, false⟩ [0, 1, 2, 3]).anyMerged⟩ [0, 1, 2, 3]).anyMoved, (lfold (-1) ⟨R1, [false, false, false, false], (lfold (-1) ⟨R0, [false, false, false, false], 0, false, false⟩ [0, 1, 2, 3]).score, (lfold (-1) ⟨R0, [false, false, false, false], 0, false, false⟩ [0, 1, 2, 3]).anyMoved, (lfold (-1) ⟨R0, [false, false, false, false], 0, false, false⟩ [0, 1, 2, 3]).anyMerged⟩ [0, 1, 2, 3]).anyMerged⟩ [0, 1, 2, 3]).anyMoved, (lfold (-1) ⟨R2, [false, false, false, false], (lfold (-1) ⟨R1, [false, false, false, false], (lfold (-1) ⟨R0, [false, false, false, false], 0, false, false⟩ [0, 1, 2, 3]).score, (lfold (-1) ⟨R0, [false, false, false, false], 0, false, false⟩ [0, 1, 2, 3]).anyMoved, (lfold (-1) ⟨R0, [false, false, false, false], 0, false, false⟩ [0, 1, 2, 3]).anyMerged⟩ [0, 1, 2, 3]).score, (lfold (-1) ⟨R1, [false, false, false, false], (lfold (-1) ⟨R0, [false, false, false, false], 0, false, false⟩ [0, 1, 2, 3]).score, (lfold (-1) ⟨R0, [false, false, false, false], 0, false, false⟩ [0, 1, 2, 3]).anyMoved, (lfold (-1) ⟨R0, [false, false, false, false], 0, false, false⟩ [0, 1, 2, 3]).anyMerged⟩ [0, 1, 2, 3]).anyMoved, (lfold (-1) ⟨R1, [false, false, false, false], (lfold (-1) ⟨R0, [false, false, false, false], 0, false, false⟩ [0, 1, 2, 3]).score, (lfold (-1) ⟨R0, [false, false, false, false], 0, false, false⟩ [0, 1, 2, 3]).anyMoved, (lfold (-1) ⟨R0, [false, false, false, false], 0, false, false⟩ [0, 1, 2, 3]).anyMerged⟩ [0, 1, 2, 3]).anyMerged⟩ [0, 1, 2, 3]).anyMerged⟩ [0, 1, 2, 3]).anyMerged⟩ := by
    rw [pairsFor_left]
    simp only [List.foldl_append]
    rw [hb0, hb1, hb2, hb3]
  have hmove : GridGame.move [R0, R1, R2, R3] .left
      = ⟨[(GridGame.slideRow R0).newRow, (GridGame.slideRow R1).newRow, (GridGame.slideRow R2).newRow, (GridGame.slideRow R3).newRow],
         (GridGame.slideRow R0).score + ((GridGame.slideRow R1).score + ((GridGame.slideRow R2).score + ((GridGame.slideRow R3).score + 0))),
         !(GridGame.gridsEqual [R0, R1, R2, R3] [(GridGame.slideRow R0).newRow, (GridGame.slideRow R1).newRow, (GridGame.slideRow R2).newRow, (GridGame.slideRow R3).newRow]),
         ((GridGame.slideRow R0).merged || ((GridGame.slideRow R1).merged || ((GridGame.slideRow R2).merged || ((GridGame.slideRow R3).merged || false))))⟩ := rfl
  have hWFg : GridGame.WFdim [R0, R1, R2, R3] := by
    refine ⟨rfl, ?_⟩
    intro row hrow
    simp only [List.mem_cons, List.not_mem_nil, or_false] at hrow
    rcases hrow with rfl | rfl | rfl | rfl
    · exact h0
    · exact h1
    · exact h2
    · exact h3
  have hWFw : GridGame.WFdim [(GridGame.slideRow R0).newRow, (GridGame.slideRow R1).newRow, (GridGame.slideRow R2).newRow, (GridGame.slideRow R3).newRow] := by
    refine ⟨rfl, ?_⟩
    intro row hrow
    simp only [List.mem_cons, List.not_mem_nil, or_false] at hrow
    rcases hrow with rfl | rfl | rfl | rfl
    · exact slideRow_newRow_length h0
    · exact slideRow_newRow_length h1
    · exact slideRow_newRow_length h2
    · exact slideRow_newRow_length h3
  have hlist : ([R0, R1, R2, R3] = [(GridGame.slideRow R0).newRow, (GridGame.slideRow R1).newRow, (GridGame.slideRow R2).newRow, (GridGame.slideRow R3).newRow]) ↔ ((GridGame.slideRow R0).newRow = R0 ∧ (GridGame.slideRow R1).newRow = R1 ∧ (GridGame.slideRow R2).newRow = R2 ∧ (GridGame.slideRow R3).newRow = R3) := by
    simp only [List.cons.injEq, and_true]
    constructor
    · rintro ⟨a, b, c, d⟩
      exact ⟨a.symm, b.symm, c.symm, d.symm⟩
    · rintro ⟨a, b, c, d⟩
      exact ⟨a.symm, b.symm, c.symm, d.symm⟩
  have hg2 : GridGame.gridsEqual [R0, R1, R2, R3] [(GridGame.slideRow R0).newRow, (GridGame.slideRow R1).newRow, (GridGame.slideRow R2).newRow, (GridGame.slideRow R3).newRow] = true ↔ ((GridGame.slideRow R0).newRow = R0 ∧ (GridGame.slideRow R1).newRow = R1 ∧ (GridGame.slideRow R2).newRow = R2 ∧ (GridGame.slideRow R3).newRow = R3) :=
    (GridGame.gridsEqual_eq hWFg hWFw).trans hlist
  have hiff : (lfold (-1) ⟨R3, [false, false, false, false], (lfold (-1) ⟨R2, [false, false, false, false], (lfold (-1) ⟨R1, [false, false, false, false], (lfold (-1) ⟨R0, [false, false, false, false], 0, false, false⟩ [0, 1, 2, 3]).score, (lfold (-1) ⟨R0, [false, false, false, false], 0, false, false⟩ [0, 1, 2, 3]).anyMoved, (lfold (-1) ⟨R0, [false, false, false, false], 0, false, false⟩ [0, 1, 2, 3]).anyMerged⟩ [0, 1, 2, 3]).score, (lfold (-1) ⟨R1, [false, false, false, false], (lfold (-1) ⟨R0, [false, false, false, false], 0, false, false⟩ [0, 1, 2, 3]).score, (lfold (-1) ⟨R0, [false, false, false, false], 0, false, false⟩ [0, 1, 2, 3]).anyMoved, (lfold (-1) ⟨R0, [false, false, false, false], 0, false, false⟩ [0, 1, 2, 3]).anyMerged⟩ [0, 1, 2, 3]).anyMoved, (lfold (-1) ⟨R1, [false, false, false, false], (lfold (-1) ⟨R0, [false, false, false, false], 0, false, false⟩ [0, 1, 2, 3]).score, (lfold (-1) ⟨R0, [false, false, false, false], 0, false, false⟩ [0, 1, 2, 3]).anyMoved, (lfold (-1) ⟨R0, [false, false, false, false], 0, false, false⟩ [0, 1, 2, 3]).anyMerged⟩ [0, 1, 2, 3]).anyMerged⟩ [0, 1, 2, 3]).score, (lfold (-1) ⟨R2, [false, false, false, false], (lfold (-1) ⟨R1, [false, false, false, false], (lfold (-1) ⟨R0, [false, false, false, false], 0, false, false⟩ [0, 1, 2, 3]).score, (lfold (-1) ⟨R0, [false, false, false, false], 0, false, false⟩ [0, 1, 2, 3]).anyMoved, (lfold (-1) ⟨R0, [false, false, false, false], 0, false, false⟩ [0, 1, 2, 3]).anyMerged⟩ [0, 1, 2, 3]).score, (lfold (-1) ⟨R1, [false, false, false, false], (lfold (-1) ⟨R0, [false, false, false, false], 0, false, false⟩ [0, 1, 2, 3]).score, (lfold (-1) ⟨R0, [false, false, false, false], 0, false, false⟩ [0, 1, 2, 3]).anyMoved, (lfold (-1) ⟨R0, [false, false, false, false], 0, false, false⟩ [0, 1, 2, 3]).anyMerged⟩ [0, 1, 2, 3]).anyMoved, (lfold (-1) ⟨R1, [false, false, false, false], (lfold (-1) ⟨R0, [false, false, false, false], 0, false, false⟩ [0, 1, 2, 3]).score, (lfold (-1) ⟨R0, [false, false, false, false], 0, false, false⟩ [0, 1, 2, 3]).anyMoved, (lfold (-1) ⟨R0, [false, false, false, false], 0, false, false⟩ [0, 1, 2, 3]).anyMerged⟩ [0, 1, 2, 3]).anyMerged⟩ [0, 1, 2, 3]).anyMoved, (lfold (-1) ⟨R2, [false, false, false, false], (lfold (-1) ⟨R1, [false, false, false, false], (lfold (-1) ⟨R0, [false, false, false, false], 0, false, false⟩ [0, 1, 2, 3]).score, (lfold (-1) ⟨R0, [false, false, false, false], 0, false, false⟩ [0, 1, 2, 3]).anyMoved, (lfold (-1) ⟨R0, [false, false, false, false], 0, false, false⟩ [0, 1, 2, 3]).anyMerged⟩ [0, 1, 2, 3]).score, (lfold (-1) ⟨R1, [false, false, false, false], (lfold (-1) ⟨R0, [false, false, false, false], 0, false, false⟩ [0, 1, 2, 3]).score, (lfold (-1) ⟨R0, [false, false, false, false], 0, false, false⟩ [0, 1, 2, 3]).anyMoved, (lfold (-1) ⟨R0, [false, false, false, false], 0, false, false⟩ [0, 1, 2, 3]).anyMerged⟩ [0, 1, 2, 3]).anyMoved, (lfold (-1) ⟨R1, [false, false, false, false], (lfold (-1) ⟨R0, [false, false, false, false], 0, false, false⟩ [0, 1, 2, 3]).score, (lfold (-1) ⟨R0, [false, false, false, false], 0, false, false⟩ [0, 1, 2, 3]).anyMoved, (lfold (-1) ⟨R0, [false, false, false, false], 0, false, false⟩ [0, 1, 2, 3]).anyMerged⟩ [0, 1, 2, 3]).anyMerged⟩ [0, 1, 2, 3]).anyMerged⟩ [0, 1, 2, 3]).anyMoved = true ↔ ¬((GridGame.slideRow R0).newRow = R0 ∧ (GridGame.slideRow R1).newRow = R1 ∧ (GridGame.slideRow R2).newRow = R2 ∧ (GridGame.slideRow R3).newRow = R3) := by
    rw [e3.2.2.2, e2.2.2.2, e1.2.2.2, e0.2.2.2]
    simp only [Bool.false_eq_true, false_or, ne_eq]
    constructor
    · rintro (((h | h) | h) | h) hc
      · exact h hc.1
      · exact h hc.2.1
      · exact h hc.2.2.1
      · exact h hc.2.2.2
    · intro hc
      by_cases k0 : (GridGame.slideRow R0).newRow = R0
      · by_cases k1 : (GridGame.slideRow R1).newRow = R1
        · by_cases k2 : (GridGame.slideRow R2).newRow = R2
          · by_cases k3 : (GridGame.slideRow R3).newRow = R3
            · exact absurd ⟨k0, k1, k2, k3⟩ hc
            · exact Or.inr k3
          · exact Or.inl (Or.inr k2)
        · exact Or.inl (Or.inl (Or.inr k1))
      · exact Or.inl (Or.inl (Or.inl k0))
  refine ⟨?_, ?_, ?_, ?_⟩
  · rw [hfold, hmove]
    show [(lfold (-1) ⟨R0, [false, false, false, false], 0, false, false⟩ [0, 1, 2, 3]).line, (lfold (-1) ⟨R1, [false, false, false, false], (lfold (-1) ⟨R0, [false, false, false, false], 0, false, false⟩ [0, 1, 2, 3]).score, (lfold (-1) ⟨R0, [false, false, false, false], 0, false, false⟩ [0, 1, 2, 3]).anyMoved, (lfold (-1) ⟨R0, [false, false, false, false], 0, false, false⟩ [0, 1, 2, 3]).anyMerged⟩ [0, 1, 2, 3]).line, (lfold (-1) ⟨R2, [false, false, false, false], (lfold (-1) ⟨R1, [false, false, false, false], (lfold (-1) ⟨R0, [false, false, false, false], 0, false, false⟩ [0, 1, 2, 3]).score, (lfold (-1) ⟨R0, [false, false, false, false], 0, false, false⟩ [0, 1, 2, 3]).anyMoved, (lfold (-1) ⟨R0, [false, false, false, false], 0, false, false⟩ [0, 1, 2, 3]).anyMerged⟩ [0, 1, 2, 3]).score, (lfold (-1) ⟨R1, [false, false, false, false], (lfold (-1) ⟨R0, [false, false, false, false], 0, false, false⟩ [0, 1, 2, 3]).score, (lfold (-1) ⟨R0, [false, false, false, false], 0, false, false⟩ [0, 1, 2, 3]).anyMoved, (lfold (-1) ⟨R0, [false, false, false, false], 0, false, false⟩ [0, 1, 2, 3]).anyMerged⟩ [0, 1, 2, 3]).anyMoved, (lfold (-1) ⟨R1, [false, false, false, false], (lfold (-1) ⟨R0, [false, false, false, false], 0, false, false⟩ [0, 1, 2, 3]).score, (lfold (-1) ⟨R0, [false, false, false, false], 0, false, false⟩ [0, 1, 2, 3]).anyMoved, (lfold (-1) ⟨R0, [false, false, false, false], 0, false, false⟩ [0, 1, 2, 3]).anyMerged⟩ [0, 1, 2, 3]).anyMerged⟩ [0, 1, 2, 3]).line, (lfold (-1) ⟨R3, [false, false, false, false], (lfold (-1) ⟨R2, [false, false, false, false], (lfold (-1) ⟨R1, [false, false, false, false], (lfold (-1) ⟨R0, [false, false, false, false], 0, false, false⟩ [0, 1, 2, 3]).score, (lfold (-1) ⟨R0, [false, false, false, false], 0, false, false⟩ [0, 1, 2, 3]).anyMoved, (lfold (-1) ⟨R0, [false, false, false, false], 0, false, false⟩ [0, 1, 2, 3]).anyMerged⟩ [0, 1, 2, 3]).score, (lfold (-1) ⟨R1, [false, false, false, false], (lfold (-1) ⟨R0, [false, false, false, false], 0, false, false⟩ [0, 1, 2, 3]).score, (lfold (-1) ⟨R0, [false, false, false, false], 0, false, false⟩ [0, 1, 2, 3]).anyMoved, (lfold (-1) ⟨R0, [false, false, false, false], 0, false, false⟩ [0, 1, 2, 3]).anyMerged⟩ [0, 1, 2, 3]).anyMoved, (lfold (-1) ⟨R1, [false, false, false, false], (lfold (-1) ⟨R0, [false, false, false, false], 0, false, false⟩ [0, 1, 2, 3]).score, (lfold (-1) ⟨R0, [false, false, false, false], 0, false, false⟩ [0, 1, 2, 3]).anyMoved, (lfold (-1) ⟨R0, [false, false, false, false], 0, false, false⟩ [0, 1, 2, 3]).anyMerged⟩ [0, 1, 2, 3]).anyMerged⟩ [0, 1, 2, 3]).score, (lfold (-1) ⟨R2, [false, false, false, false], (lfold (-1) ⟨R1, [false, false, false, false], (lfold (-1) ⟨R0, [false, false, false, false], 0, false, false⟩ [0, 1, 2, 3]).score, (lfold (-1) ⟨R0, [false, false, false, false], 0, false, false⟩ [0, 1, 2, 3]).anyMoved, (lfold (-1) ⟨R0, [false, false, false, false], 0, false, false⟩ [0, 1, 2, 3]).anyMerged⟩ [0, 1, 2, 3]).score, (lfold (-1) ⟨R1, [false, false, false, false], (lfold (-1) ⟨R0, [false, false, false, false], 0, false, false⟩ [0, 1, 2, 3]).score, (lfold (-1) ⟨R0, [false, false, false, false], 0, false, false⟩ [0, 1, 2, 3]).anyMoved, (lfold (-1) ⟨R0, [false, false, false, false], 0, false, false⟩ [0, 1, 2, 3]).anyMerged⟩ [0, 1, 2, 3]).anyMoved, (lfold (-1) ⟨R1, [false, false, false, false], (lfold (-1) ⟨R0, [false, false, false, false], 0, false, false⟩ [0, 1, 2, 3]).score, (lfold (-1) ⟨R0, [false, false, false, false], 0, false, false⟩ [0, 1, 2, 3]).anyMoved, (lfold (-1) ⟨R0, [false, false, false, false], 0, false, false⟩ [0, 1, 2, 3]).anyMerged⟩ [0, 1, 2, 3]).anyMerged⟩ [0, 1, 2, 3]).anyMoved, (lfold (-1) ⟨R2, [false, false, false, false], (lfold (-1) ⟨R1, [false, false, false, false], (lfold (-1) ⟨R0, [false, false, false, false], 0, false, false⟩ [0, 1, 2, 3]).score, (lfold (-1) ⟨R0, [false, false, false, false], 0, false, false⟩ [0, 1, 2, 3]).anyMoved, (lfold (-1) ⟨R0, [false, false, false, false], 0, false, false⟩ [0, 1, 2, 3]).anyMerged⟩ [0, 1, 2, 3]).score, (lfold (-1) ⟨R1, [false, false, false, false], (lfold (-1) ⟨R0, [false, false, false, false], 0, false, false⟩ [0, 1, 2, 3]).score, (lfold (-1) ⟨R0, [false, false, false, false], 0, false, false⟩ [0, 1, 2, 3]).anyMoved, (lfold (-1) ⟨R0, [false, false, false, false], 0, false, false⟩ [0, 1, 2, 3]).anyMerged⟩ [0, 1, 2, 3]).anyMoved, (lfold (-1) ⟨R1, [false, false, false, false], (lfold (-1) ⟨R0, [false, false, false, false], 0, false, false⟩ [0, 1, 2, 3]).score, (lfold (-1) ⟨R0, [false, false, false, false], 0, false, false⟩ [0, 1, 2, 3]).anyMoved, (lfold (-1) ⟨R0, [false, false, false, false], 0, false, false⟩ [0, 1, 2, 3]).anyMerged⟩ [0, 1, 2, 3]).anyMerged⟩ [0, 1, 2, 3]).anyMerged⟩ [0, 1, 2, 3]).line] = _
    rw [e0.1, e1.1, e2.1, e3.1]
  · rw [hfold, hmove]
    show (lfold (-1) ⟨R3, [false, false, false, false], (lfold (-1) ⟨R2, [false, false, false, false], (lfold (-1) ⟨R1, [false, false, false, false], (lfold (-1) ⟨R0, [false, false, false, false], 0, false, false⟩ [0, 1, 2, 3]).score, (lfold (-1) ⟨R0, [false, false, false, false], 0, false, false⟩ [0, 1, 2, 3]).anyMoved, (lfold (-1) ⟨R0, [false, false, false, false], 0, false, false⟩ [0, 1, 2, 3]).anyMerged⟩ [0, 1, 2, 3]).score, (lfold (-1) ⟨R1, [false, false, false, false], (lfold (-1) ⟨R0, [false, false, false, false], 0, false, false⟩ [0, 1, 2, 3]).score, (lfold (-1) ⟨R0, [false, false, false, false], 0, false, false⟩ [0, 1, 2, 3]).anyMoved, (lfold (-1) ⟨R0, [false, false, false, false], 0, false, false⟩ [0, 1, 2, 3]).anyMerged⟩ [0, 1, 2, 3]).anyMoved, (lfold (-1) ⟨R1, [false, false, false, false], (lfold (-1) ⟨R0, [false, false, false, false], 0, false, false⟩ [0, 1, 2, 3]).score, (lfold (-1) ⟨R0, [false, false, false, false], 0, false, false⟩ [0, 1, 2, 3]).anyMoved, (lfold (-1) ⟨R0, [false, false, false, false], 0, false, false⟩ [0, 1, 2, 3]).anyMerged⟩ [0, 1, 2, 3]).anyMerged⟩ [0, 1, 2, 3]).score, (lfold (-1) ⟨R2, [false, false, false, false], (lfold (-1) ⟨R1, [false, false, false, false], (lfold (-1) ⟨R0, [false, false, false, false], 0, false, false⟩ [0, 1, 2, 3]).score, (lfold (-1) ⟨R0, [false, false, false, false], 0, false, false⟩ [0, 1, 2, 3]).anyMoved, (lfold (-1) ⟨R0, [false, false, false, false], 0, false, false⟩ [0, 1, 2, 3]).anyMerged⟩ [0, 1, 2, 3]).score, (lfold (-1) ⟨R1, [false, false, false, false], (lfold (-1) ⟨R0, [false, false, false, false], 0, false, false⟩ [0, 1, 2, 3]).score, (lfold (-1) ⟨R0, [false, false, false, false], 0, false, false⟩ [0, 1, 2, 3]).anyMoved, (lfold (-1) ⟨R0, [false, false, false, false], 0, false, false⟩ [0, 1, 2, 3]).anyMerged⟩ [0, 1, 2, 3]).anyMoved, (lfold (-1) ⟨R1, [false, false, false, false], (lfold (-1) ⟨R0, [false, false, false, false], 0, false, false⟩ [0, 1, 2, 3]).score, (lfold (-1) ⟨R0, [false, false, false, false], 0, false, false⟩ [0, 1, 2, 3]).anyMoved, (lfold (-1) ⟨R0, [false, false, false, false], 0, false, false⟩ [0, 1, 2, 3]).anyMerged⟩ [0, 1, 2, 3]).anyMerged⟩ [0, 1, 2, 3]).anyMoved, (lfold (-1) ⟨R2, [false, false, false, false], (lfold (-1) ⟨R1, [false, false, false, false], (lfold (-1) ⟨R0, [false, false, false, false], 0, false, false⟩ [0, 1, 2, 3]).score, (lfold (-1) ⟨R0, [false, false, false, false], 0, false, false⟩ [0, 1, 2, 3]).anyMoved, (lfold (-1) ⟨R0, [false, false, false, false], 0, false, false⟩ [0, 1, 2, 3]).anyMerged⟩ [0, 1, 2, 3]).score, (lfold (-1) ⟨R1, [false, false, false, false], (lfold (-1) ⟨R0, [false, false, false, false], 0, false, false⟩ [0, 1, 2, 3]).score, (lfold (-1) ⟨R0, [false, false, false, false], 0, false, false⟩ [0, 1, 2, 3]).anyMoved, (lfold (-1) ⟨R0, [false, false, false, false], 0, false, false⟩ [0, 1, 2, 3]).anyMerged⟩ [0, 1, 2, 3]).anyMoved, (lfold (-1) ⟨R1, [false, false, false, false], (lfold (-1) ⟨R0, [false, false, false, false], 0, false, false⟩ [0, 1, 2, 3]).score, (lfold (-1) ⟨R0, [false, false, false, false], 0, false, false⟩ [0, 1, 2, 3]).anyMoved, (lfold (-1) ⟨R0, [false, false, false, false], 0, false, false⟩ [0, 1, 2, 3]).anyMerged⟩ [0, 1, 2, 3]).anyMerged⟩ [0, 1, 2, 3]).anyMerged⟩ [0, 1, 2, 3]).score = (GridGame.slideRow R0).score + ((GridGame.slideRow R1).score + ((GridGame.slideRow R2).score + ((GridGame.slideRow R3).score + 0)))
    rw [e3.2.1, e2.2.1, e1.2.1, e0.2.1]
    omega
  · rw [hfold, hmove]
    show (lfold (-1) ⟨R3, [false, false, false, false], (lfold (-1) ⟨R2, [false, false, false, false], (lfold (-1) ⟨R1, [false, false, false, false], (lfold (-1) ⟨R0, [false, false, false, false], 0, false, false⟩ [0, 1, 2, 3]).score, (lfold (-1) ⟨R0, [false, false, false, false], 0, false, false⟩ [0, 1, 2, 3]).anyMoved, (lfold (-1) ⟨R0, [false, false, false, false], 0, false, false⟩ [0, 1, 2, 3]).anyMerged⟩ [0, 1, 2, 3]).score, (lfold (-1) ⟨R1, [false, false, false, false], (lfold (-1) ⟨R0, [false, false, false, false], 0, false, false⟩ [0, 1, 2, 3]).score, (lfold (-1) ⟨R0, [false, false, false, false], 0, false, false⟩ [0, 1, 2, 3]).anyMoved, (lfold (-1) ⟨R0, [false, false, false, false], 0, false, false⟩ [0, 1, 2, 3]).anyMerged⟩ [0, 1, 2, 3]).anyMoved, (lfold (-1) ⟨R1, [false, false, false, false], (lfold (-1) ⟨R0, [false, false, false, false], 0, false, false⟩ [0, 1, 2, 3]).score, (lfold (-1) ⟨R0, [false, false, false, false], 0, false, false⟩ [0, 1, 2, 3]).anyMoved, (lfold (-1) ⟨R0, [false, false, false, false], 0, false, false⟩ [0, 1, 2, 3]).anyMerged⟩ [0, 1, 2, 3]).anyMerged⟩ [0, 1, 2, 3]).score, (lfold (-1) ⟨R2, [false, false, false, false], (lfold (-1) ⟨R1, [false, false, false, false], (lfold (-1) ⟨R0, [false, false, false, false], 0, false, false⟩ [0, 1, 2, 3]).score, (lfold (-1) ⟨R0, [false, false, false, false], 0, false, false⟩ [0, 1, 2, 3]).anyMoved, (lfold (-1) ⟨R0, [false, false, false, false], 0, false, false⟩ [0, 1, 2, 3]).anyMerged⟩ [0, 1, 2, 3]).score, (lfold (-1) ⟨R1, [false, false, false, false], (lfold (-1) ⟨R0, [false, false, false, false], 0, false, false⟩ [0, 1, 2, 3]).score, (lfold (-1) ⟨R0, [false, false, false, false], 0, false, false⟩ [0, 1, 2, 3]).anyMoved, (lfold (-1) ⟨R0, [false, false, false, false], 0, false, false⟩ [0, 1, 2, 3]).anyMerged⟩ [0, 1, 2, 3]).anyMoved, (lfold (-1) ⟨R1, [false, false, false, false], (lfold (-1) ⟨R0, [false, false, false, false], 0, false, false⟩ [0, 1, 2, 3]).score, (lfold (-1) ⟨R0, [false, false, false, false], 0, false, false⟩ [0, 1, 2, 3]).anyMoved, (lfold (-1) ⟨R0, [false, false, false, false], 0, false, false⟩ [0, 1, 2, 3]).anyMerged⟩ [0, 1, 2, 3]).anyMerged⟩ [0, 1, 2, 3]).anyMoved, (lfold (-1) ⟨R2, [false, false, false, false], (lfold (-1) ⟨R1, [false, false, false, false], (lfold (-1) ⟨R0, [false, false, false, false], 0, false, false⟩ [0, 1, 2, 3]).score, (lfold (-1) ⟨R0, [false, false, false, false], 0, false, false⟩ [0, 1, 2, 3]).anyMoved, (lfold (-1) ⟨R0, [false, false, false, false], 0, false, false⟩ [0, 1, 2, 3]).anyMerged⟩ [0, 1, 2, 3]).score, (lfold (-1) ⟨R1, [false, false, false, false], (lfold (-1) ⟨R0, [false, false, false, false], 0, false, false⟩ [0, 1, 2, 3]).score, (lfold (-1) ⟨R0, [false, false, false, false], 0, false, false⟩ [0, 1, 2, 3]).anyMoved, (lfold (-1) ⟨R0, [false, false, false, false], 0, false, false⟩ [0, 1, 2, 3]).anyMerged⟩ [0, 1, 2, 3]).anyMoved, (lfold (-1) ⟨R1, [false, false, false, false], (lfold (-1) ⟨R0, [false, false, false, false], 0, false, false⟩ [0, 1, 2, 3]).score, (lfold (-1) ⟨R0, [false, false, false, false], 0, false, false⟩ [0, 1, 2, 3]).anyMoved, (lfold (-1) ⟨R0, [false, false, false, false], 0, false, false⟩ [0, 1, 2, 3]).anyMerged⟩ [0, 1, 2, 3]).anyMerged⟩ [0, 1, 2, 3]).anyMerged⟩ [0, 1, 2, 3]).anyMoved = !(GridGame.gridsEqual [R0, R1, R2, R3] [(GridGame.slideRow R0).newRow, (GridGame.slideRow R1).newRow, (GridGame.slideRow R2).newRow, (GridGame.slideRow R3).newRow])
    cases hGE : GridGame.gridsEqual [R0, R1, R2, R3] [(GridGame.slideRow R0).newRow, (GridGame.slideRow R1).newRow, (GridGame.slideRow R2).newRow, (GridGame.slideRow R3).newRow] with
    | true =>
      have hc := hg2.mp hGE
      have hnt : ¬((lfold (-1) ⟨R3, [false, false, false, false], (lfold (-1) ⟨R2, [false, false, false, false], (lfold (-1) ⟨R1, [false, false, false, false], (lfold (-1) ⟨R0, [false, false, false, false], 0, false, false⟩ [0, 1, 2, 3]).score, (lfold (-1) ⟨R0, [false, false, false, false], 0, false, false⟩ [0, 1, 2, 3]).anyMoved, (lfold (-1) ⟨R0, [false, false, false, false], 0, false, false⟩ [0, 1, 2, 3]).anyMerged⟩ [0, 1, 2, 3]).score, (lfold (-1) ⟨R1, [false, false, false, false], (lfold (-1) ⟨R0, [false, false, false, false], 0, false, false⟩ [0, 1, 2, 3]).score, (lfold (-1) ⟨R0, [false, false, false, false], 0, false, false⟩ [0, 1, 2, 3]).anyMoved, (lfold (-1) ⟨R0, [false, false, false, false], 0, false, false⟩ [0, 1, 2, 3]).anyMerged⟩ [0, 1, 2, 3]).anyMoved, (lfold (-1) ⟨R1, [false, false, false, false], (lfold (-1) ⟨R0, [false, false, false, false], 0, false, false⟩ [0, 1, 2, 3]).score, (lfold (-1) ⟨R0, [false, false, false, false], 0, false, false⟩ [0, 1, 2, 3]).anyMoved, (lfold (-1) ⟨R0, [false, false, false, false], 0, false, false⟩ [0, 1, 2, 3]).anyMerged⟩ [0, 1, 2, 3]).anyMerged⟩ [0, 1, 2, 3]).score, (lfold (-1) ⟨R2, [false, false, false, false], (lfold (-1) ⟨R1, [false, false, false, false], (lfold (-1) ⟨R0, [false, false, false, false], 0, false, false⟩ [0, 1, 2, 3]).score, (lfold (-1) ⟨R0, [false, false, false, false], 0, false, false⟩ [0, 1, 2, 3]).anyMoved, (lfold (-1) ⟨R0, [false, false, false, false], 0, false, false⟩ [0, 1, 2, 3]).anyMerged⟩ [0, 1, 2, 3]).score, (lfold (-1) ⟨R1, [false, false, false, false], (lfold (-1) ⟨R0, [false, false, false, false], 0, false, false⟩ [0, 1, 2, 3]).score, (lfold (-1) ⟨R0, [false, false, false, false], 0, false, false⟩ [0, 1, 2, 3]).anyMoved, (lfold (-1) ⟨R0, [false, false, false, false], 0, false, false⟩ [0, 1, 2, 3]).anyMerged⟩ [0, 1, 2, 3]).anyMoved, (lfold (-1) ⟨R1, [false, false, false, false], (lfold (-1) ⟨R0, [false, false, false, false], 0, false, false⟩ [0, 1, 2, 3]).score, (lfold (-1) ⟨R0, [false, false, false, false], 0, false, false⟩ [0, 1, 2, 3]).anyMoved, (lfold (-1) ⟨R0, [false, false, false, false], 0, false, false⟩ [0, 1, 2, 3]).anyMerged⟩ [0, 1, 2, 3]).anyMerged⟩ [0, 1, 2, 3]).anyMoved, (lfold (-1) ⟨R2, [false, false, false, false], (lfold (-1) ⟨R1, [false, false, false, false], (lfold (-1) ⟨R0, [false, false, false, false], 0, false, false⟩ [0, 1, 2, 3]).score, (lfold (-1) ⟨R0, [false, false, false, false], 0, false, false⟩ [0, 1, 2, 3]).anyMoved, (lfold (-1) ⟨R0, [false, false, false, false], 0, false, false⟩ [0, 1, 2, 3]).anyMerged⟩ [0, 1, 2, 3]).score, (lfold (-1) ⟨R1, [false, false, false, false], (lfold (-1) ⟨R0, [false, false, false, false], 0, false, false⟩ [0, 1, 2, 3]).score, (lfold (-1) ⟨R0, [false, false, false, false], 0, false, false⟩ [0, 1, 2, 3]).anyMoved, (lfold (-1) ⟨R0, [false, false, false, false], 0, false, false⟩ [0, 1, 2, 3]).anyMerged⟩ [0, 1, 2, 3]).anyMoved, (lfold (-1) ⟨R1, [false, false, false, false], (lfold (-1) ⟨R0, [false, false, false, false], 0, false, false⟩ [0, 1, 2, 3]).score, (lfold (-1) ⟨R0, [false, false, false, false], 0, false, false⟩ [0, 1, 2, 3]).anyMoved, (lfold (-1) ⟨R0, [false, false, false, false], 0, false, false⟩ [0, 1, 2, 3]).anyMerged⟩ [0, 1, 2, 3]).anyMerged⟩ [0, 1, 2, 3]).anyMerged⟩ [0, 1, 2, 3]).anyMoved = true) := fun h => (hiff.mp h) hc
      rw [Bool.eq_false_iff.mpr hnt]
      rfl
    | false =>
      have hc : ¬((GridGame.slideRow R0).newRow = R0 ∧ (GridGame.slideRow R1).newRow = R1 ∧ (GridGame.slideRow R2).newRow = R2 ∧ (GridGame.slideRow R3).newRow = R3) := fun h => by
        have := hg2.mpr h
        rw [hGE] at this
        exact Bool.noConfusion this
      rw [hiff.mpr hc]
      rfl
  · rw [hfold, hmove]
    show (lfold (-1) ⟨R3, [false, false, false, false], (lfold (-1) ⟨R2, [false, false, false, false], (lfold (-1) ⟨R1, [false, false, false, false], (lfold (-1) ⟨R0, [false, false, false, false], 0, false, false⟩ [0, 1, 2, 3]).score, (lfold (-1) ⟨R0, [false, false, false, false], 0, false, false⟩ [0, 1, 2, 3]).anyMoved, (lfold (-1) ⟨R0, [false, false, false, false], 0, false, false⟩ [0, 1, 2, 3]).anyMerged⟩ [0, 1, 2, 3]).score, (lfold (-1) ⟨R1, [false, false, false, false], (lfold (-1) ⟨R0, [false, false, false, false], 0, false, false⟩ [0, 1, 2, 3]).score, (lfold (-1) ⟨R0, [false, false, false, false], 0, false, false⟩ [0, 1, 2, 3]).anyMoved, (lfold (-1) ⟨R0, [false, false, false, false], 0, false, false⟩ [0, 1, 2, 3]).anyMerged⟩ [0, 1, 2, 3]).anyMoved, (lfold (-1) ⟨R1, [false, false, false, false], (lfold (-1) ⟨R0, [false, false, false, false], 0, false, false⟩ [0, 1, 2, 3]).score, (lfold (-1) ⟨R0, [false, false, false, false], 0, false, false⟩ [0, 1, 2, 3]).anyMoved, (lfold (-1) ⟨R0, [false, false, false, false], 0, false, false⟩ [0, 1, 2, 3]).anyMerged⟩ [0, 1, 2, 3]).anyMerged⟩ [0, 1, 2, 3]).score, (lfold (-1) ⟨R2, [false, false, false, false], (lfold (-1) ⟨R1, [false, false, false, false], (lfold (-1) ⟨R0, [false, false, false, false], 0, false, false⟩ [0, 1, 2, 3]).score, (lfold (-1) ⟨R0, [false, false, false, false], 0, false, false⟩ [0, 1, 2, 3]).anyMoved, (lfold (-1) ⟨R0, [false, false, false, false], 0, false, false⟩ [0, 1, 2, 3]).anyMerged⟩ [0, 1, 2, 3]).score, (lfold (-1) ⟨R1, [false, false, false, false], (lfold (-1) ⟨R0, [false, false, false, false], 0, false, false⟩ [0, 1, 2, 3]).score, (lfold (-1) ⟨R0, [false, false, false, false], 0, false, false⟩ [0, 1, 2, 3]).anyMoved, (lfold (-1) ⟨R0, [false, false, false, false], 0, false, false⟩ [0, 1, 2, 3]).anyMerged⟩ [0, 1, 2, 3]).anyMoved, (lfold (-1) ⟨R1, [false, false, false, false], (lfold (-1) ⟨R0, [false, false, false, false], 0, false, false⟩ [0, 1, 2, 3]).score, (lfold (-1) ⟨R0, [false, false, false, false], 0, false, false⟩ [0, 1, 2, 3]).anyMoved, (lfold (-1) ⟨R0, [false, false, false, false], 0, false, false⟩ [0, 1, 2, 3]).anyMerged⟩ [0, 1, 2, 3]).anyMerged⟩ [0, 1, 2, 3]).anyMoved, (lfold (-1) ⟨R2, [false, false, false, false], (lfold (-1) ⟨R1, [false, false, false, false], (lfold (-1) ⟨R0, [false, false, false, false], 0, false, false⟩ [0, 1, 2, 3]).score, (lfold (-1) ⟨R0, [false, false, false, false], 0, false, false⟩ [0, 1, 2, 3]).anyMoved, (lfold (-1) ⟨R0, [false, false, false, false], 0, false, false⟩ [0, 1, 2, 3]).anyMerged⟩ [0, 1, 2, 3]).score, (lfold (-1) ⟨R1, [false, false, false, false], (lfold (-1) ⟨R0, [false, false, false, false], 0, false, false⟩ [0, 1, 2, 3]).score, (lfold (-1) ⟨R0, [false, false, false, false], 0, false, false⟩ [0, 1, 2, 3]).anyMoved, (lfold (-1) ⟨R0, [false, false, false, false], 0, false, false⟩ [0, 1, 2, 3]).anyMerged⟩ [0, 1, 2, 3]).anyMoved, (lfold (-1) ⟨R1, [false, false, false, false], (lfold (-1) ⟨R0, [false, false, false, false], 0, false, false⟩ [0, 1, 2, 3]).score, (lfold (-1) ⟨R0, [false, false, false, false], 0, false, false⟩ [0, 1, 2, 3]).anyMoved, (lfold (-1) ⟨R0, [false, false, false, false], 0, false, false⟩ [0, 1, 2, 3]).anyMerged⟩ [0, 1, 2, 3]).anyMerged⟩ [0, 1, 2, 3]).anyMerged⟩ [0, 1, 2, 3]).anyMerged = ((GridGame.slideRow R0).merged || ((GridGame.slideRow R1).merged || ((GridGame.slideRow R2).merged || ((GridGame.slideRow R3).merged || false))))
    rw [e3.2.2.1, e2.2.2.1, e1.2.2.1, e0.2.2.1]
    simp [Bool.or_assoc]

end Equiv


namespace Mat

/-- A list of length 4, reversed. -/
theorem list4_reverse {α : Type} (d : α) {L : List α} (h : L.length = 4) :
    L.reverse = [L.getD 3 d, L.getD 2 d, L.getD 1 d, L.getD 0 d] := by
  rcases L with _ | ⟨a, _ | ⟨b, _ | ⟨c, _ | ⟨e, _ | ⟨f, t⟩⟩⟩⟩⟩ <;>
    simp only [List.length_cons, List.length_nil] at h <;> try omega
  rfl

end Mat

namespace Equiv

theorem pairsFor_right :
    pairsFor .right
      = (([3, 2, 1, 0] : List Nat).map fun c => ((0 : Nat), c))
        ++ ((([3, 2, 1, 0] : List Nat).map fun c => ((1 : Nat), c))
        ++ ((([3, 2, 1, 0] : List Nat).map fun c => ((2 : Nat), c))
        ++ (([3, 2, 1, 0] : List Nat).map fun c => ((3 : Nat), c)))) := rfl

end Equiv

namespace Equiv

/-- The value-level traversal fold for `right` agrees with the grid
engine's `move`. -/
theorem fold_move_right (g : GridGame.Grid) (hg : Mat.WF g) :
    ((pairsFor .right).foldl (vstep 0 1)
        ⟨g, TileGame.emptyMGrid, 0, false, false⟩).grid
      = (GridGame.move g .right).grid ∧
    ((pairsFor .right).foldl (vstep 0 1)
        ⟨g, TileGame.emptyMGrid, 0, false, false⟩).score
      = (GridGame.move g .right).score ∧
    ((pairsFor .right).foldl (vstep 0 1)
        ⟨g, TileGame.emptyMGrid, 0, false, false⟩).anyMoved
      = (GridGame.move g .right).moved ∧
    ((pairsFor .right).foldl (vstep 0 1)
        ⟨g, TileGame.emptyMGrid, 0, false, false⟩).anyMerged
      = (GridGame.move g .right).merged := by
  obtain ⟨hlen, hrows⟩ := hg
  rcases g with _ | ⟨R0, _ | ⟨R1, _ | ⟨R2, _ | ⟨R3, _ | ⟨R4, t⟩⟩⟩⟩⟩ <;>
    simp only [List.length_cons, List.length_nil] at hlen <;> try omega
  have h0 : R0.length = 4 := hrows R0 (by simp)
  have h1 : R1.length = 4 := hrows R1 (by simp)
  have h2 : R2.length = 4 := hrows R2 (by simp)
  have h3 : R3.length = 4 := hrows R3 (by simp)
  clear hrows
  rcases R0 with _ | ⟨a00, _ | ⟨a01, _ | ⟨a02, _ | ⟨a03, _ | ⟨a04, t0⟩⟩⟩⟩⟩ <;>
    simp only [List.length_cons, List.length_nil] at h0 <;> try omega
  rcases R1 with _ | ⟨a10, _ | ⟨a11, _ | ⟨a12, _ | ⟨a13, _ | ⟨a14, t1⟩⟩⟩⟩⟩ <;>
    simp only [List.length_cons, List.length_nil] at h1 <;> try omega
  rcases R2 with _ | ⟨a20, _ | ⟨a21, _ | ⟨a22, _ | ⟨a23, _ | ⟨a24, t2⟩⟩⟩⟩⟩ <;>
    simp only [List.length_cons, List.length_nil] at h2 <;> try omega
  rcases R3 with _ | ⟨a30, _ | ⟨a31, _ | ⟨a32, _ | ⟨a33, _ | ⟨a34, t3⟩⟩⟩⟩⟩ <;>
    simp only [List.length_cons, List.length_nil] at h3 <;> try omega
  have e0 := lineR_spec4 (show ([a00, a01, a02, a03] : List (Option Nat)).length = 4 from rfl) 0 false false
  have e1 := lineR_spec4 (show ([a10, a11, a12, a13] : List (Option Nat)).length = 4 from rfl) (lfold 1 ⟨[a00, a01, a02, a03], [false, false, false, false], 0, false, false⟩ [3, 2, 1, 0]).score (lfold 1 ⟨[a00, a01, a02, a03], [false, false, false, false], 0, false, false⟩ [3, 2, 1, 0]).anyMoved (lfold 1 ⟨[a00, a01, a02, a03], [false, false, false, false], 0, false, false⟩ [3, 2, 1, 0]).anyMerged
  have e2 := lineR_spec4 (show ([a20, a21, a22, a23] : List (Option Nat)).length = 4 from rfl) (lfold 1 ⟨[a10, a11, a12, a13], [false, false, false, false], (lfold 1 ⟨[a00, a01, a02, a03], [false, false, false, false], 0, false, false⟩ [3, 2, 1, 0]).score, (lfold 1 ⟨[a00, a01, a02, a03], [false, false, false, false], 0, false, false⟩ [3, 2, 1, 0]).anyMoved, (lfold 1 ⟨[a00, a01, a02, a03], [false, false, false, false], 0, false, false⟩ [3, 2, 1, 0]).anyMerged⟩ [3, 2, 1, 0]).score (lfold 1 ⟨[a10, a11, a12, a13], [false, false, false, false], (lfold 1 ⟨[a00, a01, a02, a03], [false, false, false, false], 0, false, false⟩ [3, 2, 1, 0]).score, (lfold 1 ⟨[a00, a01, a02, a03], [false, false, false, false], 0, false, false⟩ [3, 2, 1, 0]).anyMoved, (lfold 1 ⟨[a00, a01, a02, a03], [false, false, false, false], 0, false, false⟩ [3, 2, 1, 0]).anyMerged⟩ [3, 2, 1, 0]).anyMoved (lfold 1 ⟨[a10, a11, a12, a13], [false, false, false, false], (lfold 1 ⟨[a00, a01, a02, a03], [false, false, false, false], 0, false, false⟩ [3, 2, 1, 0]).score, (lfold 1 ⟨[a00, a01, a02, a03], [false, false, false, false], 0, false, false⟩ [3, 2, 1, 0]).anyMoved, (lfold 1 ⟨[a00, a01, a02, a03], [false, false, false, false], 0, false, false⟩ [3, 2, 1, 0]).anyMerged⟩ [3, 2, 1, 0]).anyMerged
  have e3 := lineR_spec4 (show ([a30, a31, a32, a33] : List (Option Nat)).length = 4 from rfl) (lfold 1 ⟨[a20, a21, a22, a23], [false, false, false, false], (lfold 1 ⟨[a10, a11, a12, a13], [false, false, false, false], (lfold 1 ⟨[a00, a01, a02, a03], [false, false, false, false], 0, false, false⟩ [3, 2, 1, 0]).score, (lfold 1 ⟨[a00, a01, a02, a03], [false, false, false, false], 0, false, false⟩ [3, 2, 1, 0]).anyMoved, (lfold 1 ⟨[a00, a01, a02, a03], [false, false, false, false], 0, false, false⟩ [3, 2, 1, 0]).anyMerged⟩ [3, 2, 1, 0]).score, (lfold 1 ⟨[a10, a11, a12, a13], [false, false, false, false], (lfold 1 ⟨[a00, a01, a02, a03], [false, false, false, false], 0, false, false⟩ [3, 2, 1, 0]).score, (lfold 1 ⟨[a00, a01, a02, a03], [false, false, false, false], 0, false, false⟩ [3, 2, 1, 0]).anyMoved, (lfold 1 ⟨[a00, a01, a02, a03], [false, false, false, false], 0, false, false⟩ [3, 2, 1, 0]).anyMerged⟩ [3, 2, 1, 0]).anyMoved, (lfold 1 ⟨[a10, a11, a12, a13], [false, false, false, false], (lfold 1 ⟨[a00, a01, a02, a03], [false, false, false, false], 0, false, false⟩ [3, 2, 1, 0]).score, (lfold 1 ⟨[a00, a01, a02, a03], [false, false, false, false], 0, false, false⟩ [3, 2, 1, 0]).anyMoved, (lfold 1 ⟨[a00, a01, a02, a03], [false, false, false, false], 0, false, false⟩ [3, 2, 1, 0]).anyMerged⟩ [3, 2, 1, 0]).anyMerged⟩ [3, 2, 1, 0]).score (lfold 1 ⟨[a20, a21, a22, a23], [false, false, false, false], (lfold 1 ⟨[a10, a11, a12, a13], [false, false, false, false], (lfold 1 ⟨[a00, a01, a02, a03], [false, false, false, false], 0, false, false⟩ [3, 2, 1, 0]).score, (lfold 1 ⟨[a00, a01, a02, a03], [false, false, false, false], 0, false, false⟩ [3, 2, 1, 0]).anyMoved, (lfold 1 ⟨[a00, a01, a02, a03], [false, false, false, false], 0, false, false⟩ [3, 2, 1, 0]).anyMerged⟩ [3, 2, 1, 0]).score, (lfold 1 ⟨[a10, a11, a12, a13], [false, false, false, false], (lfold 1 ⟨[a00, a01, a02, a03], [false, false, false, false], 0, false, false⟩ [3, 2, 1, 0]).score, (lfold 1 ⟨[a00, a01, a02, a03], [false, false, false, false], 0, false, false⟩ [3, 2, 1, 0]).anyMoved, (lfold 1 ⟨[a00, a01, a02, a03], [false, false, false, false], 0, false, false⟩ [3, 2, 1, 0]).anyMerged⟩ [3, 2, 1, 0]).anyMoved, (lfold 1 ⟨[a10, a11, a12, a13], [false, false, false, false], (lfold 1 ⟨[a00, a01, a02, a03], [false, false, false, false], 0, false, false⟩ [3, 2, 1, 0]).score, (lfold 1 ⟨[a00, a01, a02, a03], [false, false, false, false], 0, false, false⟩ [3, 2, 1, 0]).anyMoved, (lfold 1 ⟨[a00, a01, a02, a03], [false, false, false, false], 0, false, false⟩ [3, 2, 1, 0]).anyMerged⟩ [3, 2, 1, 0]).anyMerged⟩ [3, 2, 1, 0]).anyMoved (lfold 1 ⟨[a20, a21, a22, a23], [false, false, false, false], (lfold 1 ⟨[a10, a11, a12, a13], [false, false, false, false], (lfold 1 ⟨[a00, a01, a02, a03], [false, false, false, false], 0, false, false⟩ [3, 2, 1, 0]).score, (lfold 1 ⟨[a00, a01, a02, a03], [false, false, false, false], 0, false, false⟩ [3, 2, 1, 0]).anyMoved, (lfold 1 ⟨[a00, a01, a02, a03], [false, false, false, false], 0, false, false⟩ [3, 2, 1, 0]).anyMerged⟩ [3, 2, 1, 0]).score, (lfold 1 ⟨[a10, a11, a12, a13], [false, false, false, false], (lfold 1 ⟨[a00, a01, a02, a03], [false, false, false, false], 0, false, false⟩ [3, 2, 1, 0]).score, (lfold 1 ⟨[a00, a01, a02, a03], [false, false, false, false], 0, false, false⟩ [3, 2, 1, 0]).anyMoved, (lfold 1 ⟨[a00, a01, a02, a03], [false, false, false, false], 0, false, false⟩ [3, 2, 1, 0]).anyMerged⟩ [3, 2, 1, 0]).anyMoved, (lfold 1 ⟨[a10, a11, a12, a13], [false, false, false, false], (lfold 1 ⟨[a00, a01, a02, a03], [false, false, false, false], 0, false, false⟩ [3, 2, 1, 0]).score, (lfold 1 ⟨[a00, a01, a02, a03], [false, false, false, false], 0, false, false⟩ [3, 2, 1, 0]).anyMoved, (lfold 1 ⟨[a00, a01, a02, a03], [false, false, false, false], 0, false, false⟩ [3, 2, 1, 0]).anyMerged⟩ [3, 2, 1, 0]).anyMerged⟩ [3, 2, 1, 0]).anyMerged
  have hb0 : List.foldl (vstep 0 1) ⟨[[a00, a01, a02, a03], [a10, a11, a12, a13], [a20, a21, a22, a23], [a30, a31, a32, a33]], TileGame.emptyMGrid, 0, false, false⟩
      (([3, 2, 1, 0] : List Nat).map fun c => ((0 : Nat), c)) = ⟨[(lfold 1 ⟨[a00, a01, a02, a03], [false, false, false, false], 0, false, false⟩ [3, 2, 1, 0]).line, [a10, a11, a12, a13], [a20, a21, a22, a23], [a30, a31, a32, a33]], (TileGame.emptyMGrid.set 0 (lfold 1 ⟨[a00, a01, a02, a03], [false, false, false, false], 0, false, false⟩ [3, 2, 1, 0]).marks), (lfold 1 ⟨[a00, a01, a02, a03], [false, false, false, false], 0, false, false⟩ [3, 2, 1, 0]).score, (lfold 1 ⟨[a00, a01, a02, a03], [false, false, false, false], 0, false, false⟩ [3, 2, 1, 0]).anyMoved, (lfold 1 ⟨[a00, a01, a02, a03], [false, false, false, false], 0, false, false⟩ [3, 2, 1, 0]).anyMerged⟩ := by
    rw [vfold_row 1 [3, 2, 1, 0] ⟨[[a00, a01, a02, a03], [a10, a11, a12, a13], [a20, a21, a22, a23], [a30, a31, a32, a33]], TileGame.emptyMGrid, 0, false, false⟩ 0 (by omega) rfl rfl]
    rfl
  have hb1 : List.foldl (vstep 0 1) ⟨[(lfold 1 ⟨[a00, a01, a02, a03], [false, false, false, false], 0, false, false⟩ [3, 2, 1, 0]).line, [a10, a11, a12, a13], [a20, a21, a22, a23], [a30, a31, a32, a33]], (TileGame.emptyMGrid.set 0 (lfold 1 ⟨[a00, a01, a02, a03], [false, false, false, false], 0, false, false⟩ [3, 2, 1, 0]).marks), (lfold 1 ⟨[a00, a01, a02, a03], [false, false, false, false], 0, false, false⟩ [3, 2, 1, 0]).score, (lfold 1 ⟨[a00, a01, a02, a03], [false, false, false, false], 0, false, false⟩ [3, 2, 1, 0]).anyMoved, (lfold 1 ⟨[a00, a01, a02, a03], [false, false, false, false], 0, false, false⟩ [3, 2, 1, 0]).anyMerged⟩
      (([3, 2, 1, 0] : List Nat).map fun c => ((1 : Nat), c)) = ⟨[(lfold 1 ⟨[a00, a01, a02, a03], [false, false, false, false], 0, false, false⟩ [3, 2, 1, 0]).line, (lfold 1 ⟨[a10, a11, a12, a13], [false, false, false, false], (lfold 1 ⟨[a00, a01, a02, a03], [false, false, false, false], 0, false, false⟩ [3, 2, 1, 0]).score, (lfold 1 ⟨[a00, a01, a02, a03], [false, false, false, false], 0, false, false⟩ [3, 2, 1, 0]).anyMoved, (lfold 1 ⟨[a00, a01, a02, a03], [false, false, false, false], 0, false, false⟩ [3, 2, 1, 0]).anyMerged⟩ [3, 2, 1, 0]).line, [a20, a21, a22, a23], [a30, a31, a32, a33]], ((TileGame.emptyMGrid.set 0 (lfold 1 ⟨[a00, a01, a02, a03], [false, false, false, false], 0, false, false⟩ [3, 2, 1, 0]).marks).set 1 (lfold 1 ⟨[a10, a11, a12, a13], [false, false, false, false], (lfold 1 ⟨[a00, a01, a02, a03], [false, false, false, false], 0, false, false⟩ [3, 2, 1, 0]).score, (lfold 1 ⟨[a00, a01, a02, a03], [false, false, false, false], 0, false, false⟩ [3, 2, 1, 0]).anyMoved, (lfold 1 ⟨[a00, a01, a02, a03], [false, false, false, false], 0, false, false⟩ [3, 2, 1, 0]).anyMerged⟩ [3, 2, 1, 0]).marks), (lfold 1 ⟨[a10, a11, a12, a13], [false, false, false, false], (lfold 1 ⟨[a00, a01, a02, a03], [false, false, false, false], 0, false, false⟩ [3, 2, 1, 0]).score, (lfold 1 ⟨[a00, a01, a02, a03], [false, false, false, false], 0, false, false⟩ [3, 2, 1, 0]).anyMoved, (lfold 1 ⟨[a00, a01, a02, a03], [false, false, false, false], 0, false, false⟩ [3, 2, 1, 0]).anyMerged⟩ [3, 2, 1, 0]).score, (lfold 1 ⟨[a10, a11, a12, a13], [false, false, false, false], (lfold 1 ⟨[a00, a01, a02, a03], [false, false, false, false], 0, false, false⟩ [3, 2, 1, 0]).score, (lfold 1 ⟨[a00, a01, a02, a03], [false, false, false, false], 0, false, false⟩ [3, 2, 1, 0]).anyMoved, (lfold 1 ⟨[a00, a01, a02, a03], [false, false, false, false], 0, false, false⟩ [3, 2, 1, 0]).anyMerged⟩ [3, 2, 1, 0]).anyMoved, (lfold 1 ⟨[a10, a11, a12, a13], [false, false, false, false], (lfold 1 ⟨[a00, a01, a02, a03], [false, false, false, false], 0, false, false⟩ [3, 2, 1, 0]).score, (lfold 1 ⟨[a00, a01, a02, a03], [false, false, false, false], 0, false, false⟩ [3, 2, 1, 0]).anyMoved, (lfold 1 ⟨[a00, a01, a02, a03], [false, false, false, false], 0, false, false⟩ [3, 2, 1, 0]).anyMerged⟩ [3, 2, 1, 0]).anyMerged⟩ := by
    rw [vfold_row 1 [3, 2, 1, 0] ⟨[(lfold 1 ⟨[a00, a01, a02, a03], [false, false, false, false], 0, false, false⟩ [3, 2, 1, 0]).line, [a10, a11, a12, a13], [a20, a21, a22, a23], [a30, a31, a32, a33]], (TileGame.emptyMGrid.set 0 (lfold 1 ⟨[a00, a01, a02, a03], [false, false, false, false], 0, false, false⟩ [3, 2, 1, 0]).marks), (lfold 1 ⟨[a00, a01, a02, a03], [false, false, false, false], 0, false, false⟩ [3, 2, 1, 0]).score, (lfold 1 ⟨[a00, a01, a02, a03], [false, false, false, false], 0, false, false⟩ [3, 2, 1, 0]).anyMoved, (lfold 1 ⟨[a00, a01, a02, a03], [false, false, false, false], 0, false, false⟩ [3, 2, 1, 0]).anyMerged⟩ 1 (by omega) rfl rfl]
    rfl
  have hb2 : List.foldl (vstep 0 1) ⟨[(lfold 1 ⟨[a00, a01, a02, a03], [false, false, false, false], 0, false, false⟩ [3, 2, 1, 0]).line, (lfold 1 ⟨[a10, a11, a12, a13], [false, false, false, false], (lfold 1 ⟨[a00, a01, a02, a03], [false, false, false, false], 0, false, false⟩ [3, 2, 1, 0]).score, (lfold 1 ⟨[a00, a01, a02, a03], [false, false, false, false], 0, false, false⟩ [3, 2, 1, 0]).anyMoved, (lfold 1 ⟨[a00, a01, a02, a03], [false, false, false, false], 0, false, false⟩ [3, 2, 1, 0]).anyMerged⟩ [3, 2, 1, 0]).line, [a20, a21, a22, a23], [a30, a31, a32, a33]], ((TileGame.emptyMGrid.set 0 (lfold 1 ⟨[a00, a01, a02, a03], [false, false, false, false], 0, false, false⟩ [3, 2, 1, 0]).marks).set 1 (lfold 1 ⟨[a10, a11, a12, a13], [false, false, false, false], (lfold 1 ⟨[a00, a01, a02, a03], [false, false, false, false], 0, false, false⟩ [3, 2, 1, 0]).score, (lfold 1 ⟨[a00, a01, a02, a03], [false, false, false, false], 0, false, false⟩ [3, 2, 1, 0]).anyMoved, (lfold 1 ⟨[a00, a01, a02, a03], [false, false, false, false], 0, false, false⟩ [3, 2, 1, 0]).anyMerged⟩ [3, 2, 1, 0]).marks), (lfold 1 ⟨[a10, a11, a12, a13], [false, false, false, false], (lfold 1 ⟨[a00, a01, a02, a03], [false, false, false, false], 0, false, false⟩ [3, 2, 1, 0]).score, (lfold 1 ⟨[a00, a01, a02, a03], [false, false, false, false], 0, false, false⟩ [3, 2, 1, 0]).anyMoved, (lfold 1 ⟨[a00, a01, a02, a03], [false, false, false, false], 0, false, false⟩ [3, 2, 1, 0]).anyMerged⟩ [3, 2, 1, 0]).score, (lfold 1 ⟨[a10, a11, a12, a13], [false, false, false, false], (lfold 1 ⟨[a00, a01, a02, a03], [false, false, false, false], 0, false, false⟩ [3, 2, 1, 0]).score, (lfold 1 ⟨[a00, a01, a02, a03], [false, false, false, false], 0, false, false⟩ [3, 2, 1, 0]).anyMoved, (lfold 1 ⟨[a00, a01, a02, a03], [false, false, false, false], 0, false, false⟩ [3, 2, 1, 0]).anyMerged⟩ [3, 2, 1, 0]).anyMoved, (lfold 1 ⟨[a10, a11, a12, a13], [false, false, false, false], (lfold 1 ⟨[a00, a01, a02, a03], [false, false, false, false], 0, false, false⟩ [3, 2, 1, 0]).score, (lfold 1 ⟨[a00, a01, a02, a03], [false, false, false, false], 0, false, false⟩ [3, 2, 1, 0]).anyMoved, (lfold 1 ⟨[a00, a01, a02, a03], [false, false, false, false], 0, false, false⟩ [3, 2, 1, 0]).anyMerged⟩ [3, 2, 1, 0]).anyMerged⟩
      (([3, 2, 1, 0] : List Nat).map fun c => ((2 : Nat), c)) = ⟨[(lfold 1 ⟨[a00, a01, a02, a03], [false, false, false, false], 0, false, false⟩ [3, 2, 1, 0]).line, (lfold 1 ⟨[a10, a11, a12, a13], [false, false, false, false], (lfold 1 ⟨[a00, a01, a02, a03], [false, false, false, false], 0, false, false⟩ [3, 2, 1, 0]).score, (lfold 1 ⟨[a00, a01, a02, a03], [false, false, false, false], 0, false, false⟩ [3, 2, 1, 0]).anyMoved, (lfold 1 ⟨[a00, a01, a02, a03], [false, false, false, false], 0, false, false⟩ [3, 2, 1, 0]).anyMerged⟩ [3, 2, 1, 0]).line, (lfold 1 ⟨[a20, a21, a22, a23], [false, false, false, false], (lfold 1 ⟨[a10, a11, a12, a13], [false, false, false, false], (lfold 1 ⟨[a00, a01, a02, a03], [false, false, false, false], 0, false, false⟩ [3, 2, 1, 0]).score, (lfold 1 ⟨[a00, a01, a02, a03], [false, false, false, false], 0, false, false⟩ [3, 2, 1, 0]).anyMoved, (lfold 1 ⟨[a00, a01, a02, a03], [false, false, false, false], 0, false, false⟩ [3, 2, 1, 0]).anyMerged⟩ [3, 2, 1, 0]).score, (lfold 1 ⟨[a10, a11, a12, a13], [false, false, false, false], (lfold 1 ⟨[a00, a01, a02, a03], [false, false, false, false], 0, false, false⟩ [3, 2, 1, 0]).score, (lfold 1 ⟨[a00, a01, a02, a03], [false, false, false, false], 0, false, false⟩ [3, 2, 1, 0]).anyMoved, (lfold 1 ⟨[a00, a01, a02, a03], [false, false, false, false], 0, false, false⟩ [3, 2, 1, 0]).anyMerged⟩ [3, 2, 1, 0]).anyMoved, (lfold 1 ⟨[a10, a11, a12, a13], [false, false, false, false], (lfold 1 ⟨[a00, a01, a02, a03], [false, false, false, false], 0, false, false⟩ [3, 2, 1, 0]).score, (lfold 1 ⟨[a00, a01, a02, a03], [false, false, false, false], 0, false, false⟩ [3, 2, 1, 0]).anyMoved, (lfold 1 ⟨[a00, a01, a02, a03], [false, false, false, false], 0, false, false⟩ [3, 2, 1, 0]).anyMerged⟩ [3, 2, 1, 0]).anyMerged⟩ [3, 2, 1, 0]).line, [a30, a31, a32, a33]], (((TileGame.emptyMGrid.set 0 (lfold 1 ⟨[a00, a01, a02, a03], [false, false, false, false], 0, false, false⟩ [3, 2, 1, 0]).marks).set 1 (lfold 1 ⟨[a10, a11, a12, a13], [false, false, false, false], (lfold 1 ⟨[a00, a01, a02, a03], [false, false, false, false], 0, false, false⟩ [3, 2, 1, 0]).score, (lfold 1 ⟨[a00, a01, a02, a03], [false, false, false, false], 0, false, false⟩ [3, 2, 1, 0]).anyMoved, (lfold 1 ⟨[a00, a01, a02, a03], [false, false, false, false], 0, false, false⟩ [3, 2, 1, 0]).anyMerged⟩ [3, 2, 1, 0]).marks).set 2 (lfold 1 ⟨[a20, a21, a22, a23], [false, false, false, false], (lfold 1 ⟨[a10, a11, a12, a13], [false, false, false, false], (lfold 1 ⟨[a00, a01, a02, a03], [false, false, false, false], 0, false, false⟩ [3, 2, 1, 0]).score, (lfold 1 ⟨[a00, a01, a02, a03], [false, false, false, false], 0, false, false⟩ [3, 2, 1, 0]).anyMoved, (lfold 1 ⟨[a00, a01, a02, a03], [false, false, false, false], 0, false, false⟩ [3, 2, 1, 0]).anyMerged⟩ [3, 2, 1, 0]).score, (lfold 1 ⟨[a10, a11, a12, a13], [false, false, false, false], (lfold 1 ⟨[a00, a01, a02, a03], [false, false, false, false], 0, false, false⟩ [3, 2, 1, 0]).score, (lfold 1 ⟨[a00, a01, a02, a03], [false, false, false, false], 0, false, false⟩ [3, 2, 1, 0]).anyMoved, (lfold 1 ⟨[a00, a01, a02, a03], [false, false, false, false], 0, false, false⟩ [3, 2, 1, 0]).anyMerged⟩ [3, 2, 1, 0]).anyMoved, (lfold 1 ⟨[a10, a11, a12, a13], [false, false, false, false], (lfold 1 ⟨[a00, a01, a02, a03], [false, false, false, false], 0, false, false⟩ [3, 2, 1, 0]).score, (lfold 1 ⟨[a00, a01, a02, a03], [false, false, false, false], 0, false, false⟩ [3, 2, 1, 0]).anyMoved, (lfold 1 ⟨[a00, a01, a02, a03], [false, false, false, false], 0, false, false⟩ [3, 2, 1, 0]).anyMerged⟩ [3, 2, 1, 0]).anyMerged⟩ [3, 2, 1, 0]).marks), (lfold 1 ⟨[a20, a21, a22, a23], [false, false, false, false], (lfold 1 ⟨[a10, a11, a12, a13], [false, false, false, false], (lfold 1 ⟨[a00, a01, a02, a03], [false, false, false, false], 0, false, false⟩ [3, 2, 1, 0]).score, (lfold 1 ⟨[a00, a01, a02, a03], [false, false, false, false], 0, false, false⟩ [3, 2, 1, 0]).anyMoved, (lfold 1 ⟨[a00, a01, a02, a03], [false, false, false, false], 0, false, false⟩ [3, 2, 1, 0]).anyMerged⟩ [3, 2, 1, 0]).score, (lfold 1 ⟨[a10, a11, a12, a13], [false, false, false, false], (lfold 1 ⟨[a00, a01, a02, a03], [false, false, false, false], 0, false, false⟩ [3, 2, 1, 0]).score, (lfold 1 ⟨[a00, a01, a02, a03], [false, false, false, false], 0, false, false⟩ [3, 2, 1, 0]).anyMoved, (lfold 1 ⟨[a00, a01, a02, a03], [false, false, false, false], 0, false, false⟩ [3, 2, 1, 0]).anyMerged⟩ [3, 2, 1, 0]).anyMoved, (lfold 1 ⟨[a10, a11, a12, a13], [false, false, false, false], (lfold 1 ⟨[a00, a01, a02, a03], [false, false, false, false], 0, false, false⟩ [3, 2, 1, 0]).score, (lfold 1 ⟨[a00, a01, a02, a03], [false, false, false, false], 0, false, false⟩ [3, 2, 1, 0]).anyMoved, (lfold 1 ⟨[a00, a01, a02, a03], [false, false, false, false], 0, false, false⟩ [3, 2, 1, 0]).anyMerged⟩ [3, 2, 1, 0]).anyMerged⟩ [3, 2, 1, 0]).score, (lfold 1 ⟨[a20, a21, a22, a23], [false, false, false, false], (lfold 1 ⟨[a10, a11, a12, a13], [false, false, false, false], (lfold 1 ⟨[a00, a01, a02, a03], [false, false, false, false], 0, false, false⟩ [3, 2, 1, 0]).score, (lfold 1 ⟨[a00, a01, a02, a03], [false, false, false, false], 0, false, false⟩ [3, 2, 1, 0]).anyMoved, (lfold 1 ⟨[a00, a01, a02, a03], [false, false, false, false], 0, false, false⟩ [3, 2, 1, 0]).anyMerged⟩ [3, 2, 1, 0]).score, (lfold 1 ⟨[a10, a11, a12, a13], [false, false, false, false], (lfold 1 ⟨[a00, a01, a02, a03], [false, false, false, false], 0, false, false⟩ [3, 2, 1, 0]).score, (lfold 1 ⟨[a00, a01, a02, a03], [false, false, false, false], 0, false, false⟩ [3, 2, 1, 0]).anyMoved, (lfold 1 ⟨[a00, a01, a02, a03], [false, false, false, false], 0, false, false⟩ [3, 2, 1, 0]).anyMerged⟩ [3, 2, 1, 0]).anyMoved, (lfold 1 ⟨[a10, a11, a12, a13], [false, false, false, false], (lfold 1 ⟨[a00, a01, a02, a03], [false, false, false, false], 0, false, false⟩ [3, 2, 1, 0]).score, (lfold 1 ⟨[a00, a01, a02, a03], [false, false, false, false], 0, false, false⟩ [3, 2, 1, 0]).anyMoved, (lfold 1 ⟨[a00, a01, a02, a03], [false, false, false, false], 0, false, false⟩ [3, 2, 1, 0]).anyMerged⟩ [3, 2, 1, 0]).anyMerged⟩ [3, 2, 1, 0]).anyMoved, (lfold 1 ⟨[a20, a21, a22, a23], [false, false, false, false], (lfold 1 ⟨[a10, a11, a12, a13], [false, false, false, false], (lfold 1 ⟨[a00, a01, a02, a03], [false, false, false, false], 0, false, false⟩ [3, 2, 1, 0]).score, (lfold 1 ⟨[a00, a01, a02, a03], [false, false, false, false], 0, false, false⟩ [3, 2, 1, 0]).anyMoved, (lfold 1 ⟨[a00, a01, a02, a03], [false, false, false, false], 0, false, false⟩ [3, 2, 1, 0]).anyMerged⟩ [3, 2, 1, 0]).score, (lfold 1 ⟨[a10, a11, a12, a13], [false, false, false, false], (lfold 1 ⟨[a00, a01, a02, a03], [false, false, false, false], 0, false, false⟩ [3, 2, 1, 0]).score, (lfold 1 ⟨[a00, a01, a02, a03], [false, false, false, false], 0, false, false⟩ [3, 2, 1, 0]).anyMoved, (lfold 1 ⟨[a00, a01, a02, a03], [false, false, false, false], 0, false, false⟩ [3, 2, 1, 0]).anyMerged⟩ [3, 2, 1, 0]).anyMoved, (lfold 1 ⟨[a10, a11, a12, a13], [false, false, false, false], (lfold 1 ⟨[a00, a01, a02, a03], [false, false, false, false], 0, false, false⟩ [3, 2, 1, 0]).score, (lfold 1 ⟨[a00, a01, a02, a03], [false, false, false, false], 0, false, false⟩ [3, 2, 1, 0]).anyMoved, (lfold 1 ⟨[a00, a01, a02, a03], [false, false, false, false], 0, false, false⟩ [3, 2, 1, 0]).anyMerged⟩ [3, 2, 1, 0]).anyMerged⟩ [3, 2, 1, 0]).anyMerged⟩ := by
    rw [vfold_row 1 [3, 2, 1, 0] ⟨[(lfold 1 ⟨[a00, a01, a02, a03], [false, false, false, false], 0, false, false⟩ [3, 2, 1, 0]).line, (lfold 1 ⟨[a10, a11, a12, a13], [false, false, false, false], (lfold 1 ⟨[a00, a01, a02, a03], [false, false, false, false], 0, false, false⟩ [3, 2, 1, 0]).score, (lfold 1 ⟨[a00, a01, a02, a03], [false, false, false, false], 0, false, false⟩ [3, 2, 1, 0]).anyMoved, (lfold 1 ⟨[a00, a01, a02, a03], [false, false, false, false], 0, false, false⟩ [3, 2, 1, 0]).anyMerged⟩ [3, 2, 1, 0]).line, [a20, a21, a22, a23], [a30, a31, a32, a33]], ((TileGame.emptyMGrid.set 0 (lfold 1 ⟨[a00, a01, a02, a03], [false, false, false, false], 0, false, false⟩ [3, 2, 1, 0]).marks).set 1 (lfold 1 ⟨[a10, a11, a12, a13], [false, false, false, false], (lfold 1 ⟨[a00, a01, a02, a03], [false, false, false, false], 0, false, false⟩ [3, 2, 1, 0]).score, (lfold 1 ⟨[a00, a01, a02, a03], [false, false, false, false], 0, false, false⟩ [3, 2, 1, 0]).anyMoved, (lfold 1 ⟨[a00, a01, a02, a03], [false, false, false, false], 0, false, false⟩ [3, 2, 1, 0]).anyMerged⟩ [3, 2, 1, 0]).marks), (lfold 1 ⟨[a10, a11, a12, a13], [false, false, false, false], (lfold 1 ⟨[a00, a01, a02, a03], [false, false, false, false], 0, false, false⟩ [3, 2, 1, 0]).score, (lfold 1 ⟨[a00, a01, a02, a03], [false, false, false, false], 0, false, false⟩ [3, 2, 1, 0]).anyMoved, (lfold 1 ⟨[a00, a01, a02, a03], [false, false, false, false], 0, false, false⟩ [3, 2, 1, 0]).anyMerged⟩ [3, 2, 1, 0]).score, (lfold 1 ⟨[a10, a11, a12, a13], [false, false, false, false], (lfold 1 ⟨[a00, a01, a02, a03], [false, false, false, false], 0, false, false⟩ [3, 2, 1, 0]).score, (lfold 1 ⟨[a00, a01, a02, a03], [false, false, false, false], 0, false, false⟩ [3, 2, 1, 0]).anyMoved, (lfold 1 ⟨[a00, a01, a02, a03], [false, false, false, false], 0, false, false⟩ [3, 2, 1, 0]).anyMerged⟩ [3, 2, 1, 0]).anyMoved, (lfold 1 ⟨[a10, a11, a12, a13], [false, false, false, false], (lfold 1 ⟨[a00, a01, a02, a03], [false, false, false, false], 0, false, false⟩ [3, 2, 1, 0]).score, (lfold 1 ⟨[a00, a01, a02, a03], [false, false, false, false], 0, false, false⟩ [3, 2, 1, 0]).anyMoved, (lfold 1 ⟨[a00, a01, a02, a03], [false, false, false, false], 0, false, false⟩ [3, 2, 1, 0]).anyMerged⟩ [3, 2, 1, 0]).anyMerged⟩ 2 (by omega) rfl rfl]
    rfl
  have hb3 : List.foldl (vstep 0 1) ⟨[(lfold 1 ⟨[a00, a01, a02, a03], [false, false, false, false], 0, false, false⟩ [3, 2, 1, 0]).line, (lfold 1 ⟨[a10, a11, a12, a13], [false, false, false, false], (lfold 1 ⟨[a00, a01, a02, a03], [false, false, false, false], 0, false, false⟩ [3, 2, 1, 0]).score, (lfold 1 ⟨[a00, a01, a02, a03], [false, false, false, false], 0, false, false⟩ [3, 2, 1, 0]).anyMoved, (lfold 1 ⟨[a00, a01, a02, a03], [false, false, false, false], 0, false, false⟩ [3, 2, 1, 0]).anyMerged⟩ [3, 2, 1, 0]).line, (lfold 1 ⟨[a20, a21, a22, a23], [false, false, false, false], (lfold 1 ⟨[a10, a11, a12, a13], [false, false, false, false], (lfold 1 ⟨[a00, a01, a02, a03], [false, false, false, false], 0, false, false⟩ [3, 2, 1, 0]).score, (lfold 1 ⟨[a00, a01, a02, a03], [false, false, false, false], 0, false, false⟩ [3, 2, 1, 0]).anyMoved, (lfold 1 ⟨[a00, a01, a02, a03], [false, false, false, false], 0, false, false⟩ [3, 2, 1, 0]).anyMerged⟩ [3, 2, 1, 0]).score, (lfold 1 ⟨[a10, a11, a12, a13], [false, false, false, false], (lfold 1 ⟨[a00, a01, a02, a03], [false, false, false, false], 0, false, false⟩ [3, 2, 1, 0]).score, (lfold 1 ⟨[a00, a01, a02, a03], [false, false, false, false], 0, false, false⟩ [3, 2, 1, 0]).anyMoved, (lfold 1 ⟨[a00, a01, a02, a03], [false, false, false, false], 0, false, false⟩ [3, 2, 1, 0]).anyMerged⟩ [3, 2, 1, 0]).anyMoved, (lfold 1 ⟨[a10, a11, a12, a13], [false, false, false, false], (lfold 1 ⟨[a00, a01, a02, a03], [false, false, false, false], 0, false, false⟩ [3, 2, 1, 0]).score, (lfold 1 ⟨[a00, a01, a02, a03], [false, false, false, false], 0, false, false⟩ [3, 2, 1, 0]).anyMoved, (lfold 1 ⟨[a00, a01, a02, a03], [false, false, false, false], 0, false, false⟩ [3, 2, 1, 0]).anyMerged⟩ [3, 2, 1, 0]).anyMerged⟩ [3, 2, 1, 0]).line, [a30, a31, a32, a33]], (((TileGame.emptyMGrid.set 0 (lfold 1 ⟨[a00, a01, a02, a03], [false, false, false, false], 0, false, false⟩ [3, 2, 1, 0]).marks).set 1 (lfold 1 ⟨[a10, a11, a12, a13], [false, false, false, false], (lfold 1 ⟨[a00, a01, a02, a03], [false, false, false, false], 0, false, false⟩ [3, 2, 1, 0]).score, (lfold 1 ⟨[a00, a01, a02, a03], [false, false, false, false], 0, false, false⟩ [3, 2, 1, 0]).anyMoved, (lfold 1 ⟨[a00, a01, a02, a03], [false, false, false, false], 0, false, false⟩ [3, 2, 1, 0]).anyMerged⟩ [3, 2, 1, 0]).marks).set 2 (lfold 1 ⟨[a20, a21, a22, a23], [false, false, false, false], (lfold 1 ⟨[a10, a11, a12, a13], [false, false, false, false], (lfold 1 ⟨[a00, a01, a02, a03], [false, false, false, false], 0, false, false⟩ [3, 2, 1, 0]).score, (lfold 1 ⟨[a00, a01, a02, a03], [false, false, false, false], 0, false, false⟩ [3, 2, 1, 0]).anyMoved, (lfold 1 ⟨[a00, a01, a02, a03], [false, false, false, false], 0, false, false⟩ [3, 2, 1, 0]).anyMerged⟩ [3, 2, 1, 0]).score, (lfold 1 ⟨[a10, a11, a12, a13], [false, false, false, false], (lfold 1 ⟨[a00, a01, a02, a03], [false, false, false, false], 0, false, false⟩ [3, 2, 1, 0]).score, (lfold 1 ⟨[a00, a01, a02, a03], [false, false, false, false], 0, false, false⟩ [3, 2, 1, 0]).anyMoved, (lfold 1 ⟨[a00, a01, a02, a03], [false, false, false, false], 0, false, false⟩ [3, 2, 1, 0]).anyMerged⟩ [3, 2, 1, 0]).anyMoved, (lfold 1 ⟨[a10, a11, a12, a13], [false, false, false, false], (lfold 1 ⟨[a00, a01, a02, a03], [false, false, false, false], 0, false, false⟩ [3, 2, 1, 0]).score, (lfold 1 ⟨[a00, a01, a02, a03], [false, false, false, false], 0, false, false⟩ [3, 2, 1, 0]).anyMoved, (lfold 1 ⟨[a00, a01, a02, a03], [false, false, false, false], 0, false, false⟩ [3, 2, 1, 0]).anyMerged⟩ [3, 2, 1, 0]).anyMerged⟩ [3, 2, 1, 0]).marks), (lfold 1 ⟨[a20, a21, a22, a23], [false, false, false, false], (lfold 1 ⟨[a10, a11, a12, a13], [false, false, false, false], (lfold 1 ⟨[a00, a01, a02, a03], [false, false, false, false], 0, false, false⟩ [3, 2, 1, 0]).score, (lfold 1 ⟨[a00, a01, a02, a03], [false, false, false, false], 0, false, false⟩ [3, 2, 1, 0]).anyMoved, (lfold 1 ⟨[a00, a01, a02, a03], [false, false, false, false], 0, false, false⟩ [3, 2, 1, 0]).anyMerged⟩ [3, 2, 1, 0]).score, (lfold 1 ⟨[a10, a11, a12, a13], [false, false, false, false], (lfold 1 ⟨[a00, a01, a02, a03], [false, false, false, false], 0, false, false⟩ [3, 2, 1, 0]).score, (lfold 1 ⟨[a00, a01, a02, a03], [false, false, false, false], 0, false, false⟩ [3, 2, 1, 0]).anyMoved, (lfold 1 ⟨[a00, a01, a02, a03], [false, false, false, false], 0, false, false⟩ [3, 2, 1, 0]).anyMerged⟩ [3, 2, 1, 0]).anyMoved, (lfold 1 ⟨[a10, a11, a12, a13], [false, false, false, false], (lfold 1 ⟨[a00, a01, a02, a03], [false, false, false, false], 0, false, false⟩ [3, 2, 1, 0]).score, (lfold 1 ⟨[a00, a01, a02, a03], [false, false, false, false], 0, false, false⟩ [3, 2, 1, 0]).anyMoved, (lfold 1 ⟨[a00, a01, a02, a03], [false, false, false, false], 0, false, false⟩ [3, 2, 1, 0]).anyMerged⟩ [3, 2, 1, 0]).anyMerged⟩ [3, 2, 1, 0]).score, (lfold 1 ⟨[a20, a21, a22, a23], [false, false, false, false], (lfold 1 ⟨[a10, a11, a12, a13], [false, false, false, false], (lfold 1 ⟨[a00, a01, a02, a03], [false, false, false, false], 0, false, false⟩ [3, 2, 1, 0]).score, (lfold 1 ⟨[a00, a01, a02, a03], [false, false, false, false], 0, false, false⟩ [3, 2, 1, 0]).anyMoved, (lfold 1 ⟨[a00, a01, a02, a03], [false, false, false, false], 0, false, false⟩ [3, 2, 1, 0]).anyMerged⟩ [3, 2, 1, 0]).score, (lfold 1 ⟨[a10, a11, a12, a13], [false, false, false, false], (lfold 1 ⟨[a00, a01, a02, a03], [false, false, false, false], 0, false, false⟩ [3, 2, 1, 0]).score, (lfold 1 ⟨[a00, a01, a02, a03], [false, false, false, false], 0, false, false⟩ [3, 2, 1, 0]).anyMoved, (lfold 1 ⟨[a00, a01, a02, a03], [false, false, false, false], 0, false, false⟩ [3, 2, 1, 0]).anyMerged⟩ [3, 2, 1, 0]).anyMoved, (lfold 1 ⟨[a10, a11, a12, a13], [false, false, false, false], (lfold 1 ⟨[a00, a01, a02, a03], [false, false, false, false], 0, false, false⟩ [3, 2, 1, 0]).score, (lfold 1 ⟨[a00, a01, a02, a03], [false, false, false, false], 0, false, false⟩ [3, 2, 1, 0]).anyMoved, (lfold 1 ⟨[a00, a01, a02, a03], [false, false, false, false], 0, false, false⟩ [3, 2, 1, 0]).anyMerged⟩ [3, 2, 1, 0]).anyMerged⟩ [3, 2, 1, 0]).anyMoved, (lfold 1 ⟨[a20, a21, a22, a23], [false, false, false, false], (lfold 1 ⟨[a10, a11, a12, a13], [false, false, false, false], (lfold 1 ⟨[a00, a01, a02, a03], [false, false, false, false], 0, false, false⟩ [3, 2, 1, 0]).score, (lfold 1 ⟨[a00, a01, a02, a03], [false, false, false, false], 0, false, false⟩ [3, 2, 1, 0]).anyMoved, (lfold 1 ⟨[a00, a01, a02, a03], [false, false, false, false], 0, false, false⟩ [3, 2, 1, 0]).anyMerged⟩ [3, 2, 1, 0]).score, (lfold 1 ⟨[a10, a11, a12, a13], [false, false, false, false], (lfold 1 ⟨[a00, a01, a02, a03], [false, false, false, false], 0, false, false⟩ [3, 2, 1, 0]).score, (lfold 1 ⟨[a00, a01, a02, a03], [false, false, false, false], 0, false, false⟩ [3, 2, 1, 0]).anyMoved, (lfold 1 ⟨[a00, a01, a02, a03], [false, false, false, false], 0, false, false⟩ [3, 2, 1, 0]).anyMerged⟩ [3, 2, 1, 0]).anyMoved, (lfold 1 ⟨[a10, a11, a12, a13], [false, false, false, false], (lfold 1 ⟨[a00, a01, a02, a03], [false, false, false, false], 0, false, false⟩ [3, 2, 1, 0]).score, (lfold 1 ⟨[a00, a01, a02, a03], [false, false, false, false], 0, false, false⟩ [3, 2, 1, 0]).anyMoved, (lfold 1 ⟨[a00, a01, a02, a03], [false, false, false, false], 0, false, false⟩ [3, 2, 1, 0]).anyMerged⟩ [3, 2, 1, 0]).anyMerged⟩ [3, 2, 1, 0]).anyMerged⟩
      (([3, 2, 1, 0] : List Nat).map fun c => ((3 : Nat), c)) = ⟨[(lfold 1 ⟨[a00, a01, a02, a03], [false, false, false, false], 0, false, false⟩ [3, 2, 1, 0]).line, (lfold 1 ⟨[a10, a11, a12, a13], [false, false, false, false], (lfold 1 ⟨[a00, a01, a02, a03], [false, false, false, false], 0, false, false⟩ [3, 2, 1, 0]).score, (lfold 1 ⟨[a00, a01, a02, a03], [false, false, false, false], 0, false, false⟩ [3, 2, 1, 0]).anyMoved, (lfold 1 ⟨[a00, a01, a02, a03], [false, false, false, false], 0, false, false⟩ [3, 2, 1, 0]).anyMerged⟩ [3, 2, 1, 0]).line, (lfold 1 ⟨[a20, a21, a22, a23], [false, false, false, false], (lfold 1 ⟨[a10, a11, a12, a13], [false, false, false, false], (lfold 1 ⟨[a00, a01, a02, a03], [false, false, false, false], 0, false, false⟩ [3, 2, 1, 0]).score, (lfold 1 ⟨[a00, a01, a02, a03], [false, false, false, false], 0, false, false⟩ [3, 2, 1, 0]).anyMoved, (lfold 1 ⟨[a00, a01, a02, a03], [false, false, false, false], 0, false, false⟩ [3, 2, 1, 0]).anyMerged⟩ [3, 2, 1, 0]).score, (lfold 1 ⟨[a10, a11, a12, a13], [false, false, false, false], (lfold 1 ⟨[a00, a01, a02, a03], [false, false, false, false], 0, false, false⟩ [3, 2, 1, 0]).score, (lfold 1 ⟨[a00, a01, a02, a03], [false, false, false, false], 0, false, false⟩ [3, 2, 1, 0]).anyMoved, (lfold 1 ⟨[a00, a01, a02, a03], [false, false, false, false], 0, false, false⟩ [3, 2, 1, 0]).anyMerged⟩ [3, 2, 1, 0]).anyMoved, (lfold 1 ⟨[a10, a11, a12, a13], [false, false, false, false], (lfold 1 ⟨[a00, a01, a02, a03], [false, false, false, false], 0, false, false⟩ [3, 2, 1, 0]).score, (lfold 1 ⟨[a00, a01, a02, a03], [false, false, false, false], 0, false, false⟩ [3, 2, 1, 0]).anyMoved, (lfold 1 ⟨[a00, a01, a02, a03], [false, false, false, false], 0, false, false⟩ [3, 2, 1, 0]).anyMerged⟩ [3, 2, 1, 0]).anyMerged⟩ [3, 2, 1, 0]).line, (lfold 1 ⟨[a30, a31, a32, a33], [false, false, false, false], (lfold 1 ⟨[a20, a21, a22, a23], [false, false, false, false], (lfold 1 ⟨[a10, a11, a12, a13], [false, false, false, false], (lfold 1 ⟨[a00, a01, a02, a03], [false, false, false, false], 0, false, false⟩ [3, 2, 1, 0]).score, (lfold 1 ⟨[a00, a01, a02, a03], [false, false, false, false], 0, false, false⟩ [3, 2, 1, 0]).anyMoved, (lfold 1 ⟨[a00, a01, a02, a03], [false, false, false, false], 0, false, false⟩ [3, 2, 1, 0]).anyMerged⟩ [3, 2, 1, 0]).score, (lfold 1 ⟨[a10, a11, a12, a13], [false, false, false, false], (lfold 1 ⟨[a00, a01, a02, a03], [false, false, false, false], 0, false, false⟩ [3, 2, 1, 0]).score, (lfold 1 ⟨[a00, a01, a02, a03], [false, false, false, false], 0, false, false⟩ [3, 2, 1, 0]).anyMoved, (lfold 1 ⟨[a00, a01, a02, a03], [false, false, false, false], 0, false, false⟩ [3, 2, 1, 0]).anyMerged⟩ [3, 2, 1, 0]).anyMoved, (lfold 1 ⟨[a10, a11, a12, a13], [false, false, false, false], (lfold 1 ⟨[a00, a01, a02, a03], [false, false, false, false], 0, false, false⟩ [3, 2, 1, 0]).score, (lfold 1 ⟨[a00, a01, a02, a03], [false, false, false, false], 0, false, false⟩ [3, 2, 1, 0]).anyMoved, (lfold 1 ⟨[a00, a01, a02, a03], [false, false, false, false], 0, false, false⟩ [3, 2, 1, 0]).anyMerged⟩ [3, 2, 1, 0]).anyMerged⟩ [3, 2, 1, 0]).score, (lfold 1 ⟨[a20, a21, a22, a23], [false, false, false, false], (lfold 1 ⟨[a10, a11, a12, a13], [false, false, false, false], (lfold 1 ⟨[a00, a01, a02, a03], [false, false, false, false], 0, false, false⟩ [3, 2, 1, 0]).score, (lfold 1 ⟨[a00, a01, a02, a03], [false, false, false, false], 0, false, false⟩ [3, 2, 1, 0]).anyMoved, (lfold 1 ⟨[a00, a01, a02, a03], [false, false, false, false], 0, false, false⟩ [3, 2, 1, 0]).anyMerged⟩ [3, 2, 1, 0]).score, (lfold 1 ⟨[a10, a11, a12, a13], [false, false, false, false], (lfold 1 ⟨[a00, a01, a02, a03], [false, false, false, false], 0, false, false⟩ [3, 2, 1, 0]).score, (lfold 1 ⟨[a00, a01, a02, a03], [false, false, false, false], 0, false, false⟩ [3, 2, 1, 0]).anyMoved, (lfold 1 ⟨[a00, a01, a02, a03], [false, false, false, false], 0, false, false⟩ [3, 2, 1, 0]).anyMerged⟩ [3, 2, 1, 0]).anyMoved, (lfold 1 ⟨[a10, a11, a12, a13], [false, false, false, false], (lfold 1 ⟨[a00, a01, a02, a03], [false, false, false, false], 0, false, false⟩ [3, 2, 1, 0]).score, (lfold 1 ⟨[a00, a01, a02, a03], [false, false, false, false], 0, false, false⟩ [3, 2, 1, 0]).anyMoved, (lfold 1 ⟨[a00, a01, a02, a03], [false, false, false, false], 0, false, false⟩ [3, 2, 1, 0]).anyMerged⟩ [3, 2, 1, 0]).anyMerged⟩ [3, 2, 1, 0]).anyMoved, (lfold 1 ⟨[a20, a21, a22, a23], [false, false, false, false], (lfold 1 ⟨[a10, a11, a12, a13], [false, false, false, false], (lfold 1 ⟨[a00, a01, a02, a03], [false, false, false, false], 0, false, false⟩ [3, 2, 1, 0]).score, (lfold 1 ⟨[a00, a01, a02, a03], [false, false, false, false], 0, false, false⟩ [3, 2, 1, 0]).anyMoved, (lfold 1 ⟨[a00, a01, a02, a03], [false, false, false, false], 0, false, false⟩ [3, 2, 1, 0]).anyMerged⟩ [3, 2, 1, 0]).score, (lfold 1 ⟨[a10, a11, a12, a13], [false, false, false, false], (lfold 1 ⟨[a00, a01, a02, a03], [false, false, false, false], 0, false, false⟩ [3, 2, 1, 0]).score, (lfold 1 ⟨[a00, a01, a02, a03], [false, false, false, false], 0, false, false⟩ [3, 2, 1, 0]).anyMoved, (lfold 1 ⟨[a00, a01, a02, a03], [false, false, false, false], 0, false, false⟩ [3, 2, 1, 0]).anyMerged⟩ [3, 2, 1, 0]).anyMoved, (lfold 1 ⟨[a10, a11, a12, a13], [false, false, false, false], (lfold 1 ⟨[a00, a01, a02, a03], [false, false, false, false], 0, false, false⟩ [3, 2, 1, 0]).score, (lfold 1 ⟨[a00, a01, a02, a03], [false, false, false, false], 0, false, false⟩ [3, 2, 1, 0]).anyMoved, (lfold 1 ⟨[a00, a01, a02, a03], [false, false, false, false], 0, false, false⟩ [3, 2, 1, 0]).anyMerged⟩ [3, 2, 1, 0]).anyMerged⟩ [3, 2, 1, 0]).anyMerged⟩ [3, 2, 1, 0]).line], ((((TileGame.emptyMGrid.set 0 (lfold 1 ⟨[a00, a01, a02, a03], [false, false, false, false], 0, false, false⟩ [3, 2, 1, 0]).marks).set 1 (lfold 1 ⟨[a10, a11, a12, a13], [false, false, false, false], (lfold 1 ⟨[a00, a01, a02, a03], [false, false, false, false], 0, false, false⟩ [3, 2, 1, 0]).score, (lfold 1 ⟨[a00, a01, a02, a03], [false, false, false, false], 0, false, false⟩ [3, 2, 1, 0]).anyMoved, (lfold 1 ⟨[a00, a01, a02, a03], [false, false, false, false], 0, false, false⟩ [3, 2, 1, 0]).anyMerged⟩ [3, 2, 1, 0]).marks).set 2 (lfold 1 ⟨[a20, a21, a22, a23], [false, false, false, false], (lfold 1 ⟨[a10, a11, a12, a13], [false, false, false, false], (lfold 1 ⟨[a00, a01, a02, a03], [false, false, false, false], 0, false, false⟩ [3, 2, 1, 0]).score, (lfold 1 ⟨[a00, a01, a02, a03], [false, false, false, false], 0, false, false⟩ [3, 2, 1, 0]).anyMoved, (lfold 1 ⟨[a00, a01, a02, a03], [false, false, false, false], 0, false, false⟩ [3, 2, 1, 0]).anyMerged⟩ [3, 2, 1, 0]).score, (lfold 1 ⟨[a10, a11, a12, a13], [false, false, false, false], (lfold 1 ⟨[a00, a01, a02, a03], [false, false, false, false], 0, false, false⟩ [3, 2, 1, 0]).score, (lfold 1 ⟨[a00, a01, a02, a03], [false, false, false, false], 0, false, false⟩ [3, 2, 1, 0]).anyMoved, (lfold 1 ⟨[a00, a01, a02, a03], [false, false, false, false], 0, false, false⟩ [3, 2, 1, 0]).anyMerged⟩ [3, 2, 1, 0]).anyMoved, (lfold 1 ⟨[a10, a11, a12, a13], [false, false, false, false], (lfold 1 ⟨[a00, a01, a02, a03], [false, false, false, false], 0, false, false⟩ [3, 2, 1, 0]).score, (lfold 1 ⟨[a00, a01, a02, a03], [false, false, false, false], 0, false, false⟩ [3, 2, 1, 0]).anyMoved, (lfold 1 ⟨[a00, a01, a02, a03], [false, false, false, false], 0, false, false⟩ [3, 2, 1, 0]).anyMerged⟩ [3, 2, 1, 0]).anyMerged⟩ [3, 2, 1, 0]).marks).set 3 (lfold 1 ⟨[a30, a31, a32, a33], [false, false, false, false], (lfold 1 ⟨[a20, a21, a22, a23], [false, false, false, false], (lfold 1 ⟨[a10, a11, a12, a13], [false, false, false, false], (lfold 1 ⟨[a00, a01, a02, a03], [false, false, false, false], 0, false, false⟩ [3, 2, 1, 0]).score, (lfold 1 ⟨[a00, a01, a02, a03], [false, false, false, false], 0, false, false⟩ [3, 2, 1, 0]).anyMoved, (lfold 1 ⟨[a00, a01, a02, a03], [false, false, false, false], 0, false, false⟩ [3, 2, 1, 0]).anyMerged⟩ [3, 2, 1, 0]).score, (lfold 1 ⟨[a10, a11, a12, a13], [false, false, false, false], (lfold 1 ⟨[a00, a01, a02, a03], [false, false, false, false], 0, false, false⟩ [3, 2, 1, 0]).score, (lfold 1 ⟨[a00, a01, a02, a03], [false, false, false, false], 0, false, false⟩ [3, 2, 1, 0]).anyMoved, (lfold 1 ⟨[a00, a01, a02, a03], [false, false, false, false], 0, false, false⟩ [3, 2, 1, 0]).anyMerged⟩ [3, 2, 1, 0]).anyMoved, (lfold 1 ⟨[a10, a11, a12, a13], [false, false, false, false], (lfold 1 ⟨[a00, a01, a02, a03], [false, false, false, false], 0, false, false⟩ [3, 2, 1, 0]).score, (lfold 1 ⟨[a00, a01, a02, a03], [false, false, false, false], 0, false, false⟩ [3, 2, 1, 0]).anyMoved, (lfold 1 ⟨[a00, a01, a02, a03], [false, false, false, false], 0, false, false⟩ [3, 2, 1, 0]).anyMerged⟩ [3, 2, 1, 0]).anyMerged⟩ [3, 2, 1, 0]).score, (lfold 1 ⟨[a20, a21, a22, a23], [false, false, false, false], (lfold 1 ⟨[a10, a11, a12, a13], [false, false, false, false], (lfold 1 ⟨[a00, a01, a02, a03], [false, false, false, false], 0, false, false⟩ [3, 2, 1, 0]).score, (lfold 1 ⟨[a00, a01, a02, a03], [false, false, false, false], 0, false, false⟩ [3, 2, 1, 0]).anyMoved, (lfold 1 ⟨[a00, a01, a02, a03], [false, false, false, false], 0, false, false⟩ [3, 2, 1, 0]).anyMerged⟩ [3, 2, 1, 0]).score, (lfold 1 ⟨[a10, a11, a12, a13], [false, false, false, false], (lfold 1 ⟨[a00, a01, a02, a03], [false, false, false, false], 0, false, false⟩ [3, 2, 1, 0]).score, (lfold 1 ⟨[a00, a01, a02, a03], [false, false, false, false], 0, false, false⟩ [3, 2, 1, 0]).anyMoved, (lfold 1 ⟨[a00, a01, a02, a03], [false, false, false, false], 0, false, false⟩ [3, 2, 1, 0]).anyMerged⟩ [3, 2, 1, 0]).anyMoved, (lfold 1 ⟨[a10, a11, a12, a13], [false, false, false, false], (lfold 1 ⟨[a00, a01, a02, a03], [false, false, false, false], 0, false, false⟩ [3, 2, 1, 0]).score, (lfold 1 ⟨[a00, a01, a02, a03], [false, false, false, false], 0, false, false⟩ [3, 2, 1, 0]).anyMoved, (lfold 1 ⟨[a00, a01, a02, a03], [false, false, false, false], 0, false, false⟩ [3, 2, 1, 0]).anyMerged⟩ [3, 2, 1, 0]).anyMerged⟩ [3, 2, 1, 0]).anyMoved, (lfold 1 ⟨[a20, a21, a22, a23], [false, false, false, false], (lfold 1 ⟨[a10, a11, a12, a13], [false, false, false, false], (lfold 1 ⟨[a00, a01, a02, a03], [false, false, false, false], 0, false, false⟩ [3, 2, 1, 0]).score, (lfold 1 ⟨[a00, a01, a02, a03], [false, false, false, false], 0, false, false⟩ [3, 2, 1, 0]).anyMoved, (lfold 1 ⟨[a00, a01, a02, a03], [false, false, false, false], 0, false, false⟩ [3, 2, 1, 0]).anyMerged⟩ [3, 2, 1, 0]).score, (lfold 1 ⟨[a10, a11, a12, a13], [false, false, false, false], (lfold 1 ⟨[a00, a01, a02, a03], [false, false, false, false], 0, false, false⟩ [3, 2, 1, 0]).score, (lfold 1 ⟨[a00, a01, a02, a03], [false, false, false, false], 0, false, false⟩ [3, 2, 1, 0]).anyMoved, (lfold 1 ⟨[a00, a01, a02, a03], [false, false, false, false], 0, false, false⟩ [3, 2, 1, 0]).anyMerged⟩ [3, 2, 1, 0]).anyMoved, (lfold 1 ⟨[a10, a11, a12, a13], [false, false, false, false], (lfold 1 ⟨[a00, a01, a02, a03], [false, false, false, false], 0, false, false⟩ [3, 2, 1, 0]).score, (lfold 1 ⟨[a00, a01, a02, a03], [false, false, false, false], 0, false, false⟩ [3, 2, 1, 0]).anyMoved, (lfold 1 ⟨[a00, a01, a02, a03], [false, false, false, false], 0, false, false⟩ [3, 2, 1, 0]).anyMerged⟩ [3, 2, 1, 0]).anyMerged⟩ [3, 2, 1, 0]).anyMerged⟩ [3, 2, 1, 0]).marks), (lfold 1 ⟨[a30, a31, a32, a33], [false, false, false, false], (lfold 1 ⟨[a20, a21, a22, a23], [false, false, false, false], (lfold 1 ⟨[a10, a11, a12, a13], [false, false, false, false], (lfold 1 ⟨[a00, a01, a02, a03], [false, false, false, false], 0, false, false⟩ [3, 2, 1, 0]).score, (lfold 1 ⟨[a00, a01, a02, a03], [false, false, false, false], 0, false, false⟩ [3, 2, 1, 0]).anyMoved, (lfold 1 ⟨[a00, a01, a02, a03], [false, false, false, false], 0, false, false⟩ [3, 2, 1, 0]).anyMerged⟩ [3, 2, 1, 0]).score, (lfold 1 ⟨[a10, a11, a12, a13], [false, false, false, false], (lfold 1 ⟨[a00, a01, a02, a03], [false, false, false, false], 0, false, false⟩ [3, 2, 1, 0]).score, (lfold 1 ⟨[a00, a01, a02, a03], [false, false, false, false], 0, false, false⟩ [3, 2, 1, 0]).anyMoved, (lfold 1 ⟨[a00, a01, a02, a03], [false, false, false, false], 0, false, false⟩ [3, 2, 1, 0]).anyMerged⟩ [3, 2, 1, 0]).anyMoved, (lfold 1 ⟨[a10, a11, a12, a13], [false, false, false, false], (lfold 1 ⟨[a00, a01, a02, a03], [false, false, false, false], 0, false, false⟩ [3, 2, 1, 0]).score, (lfold 1 ⟨[a00, a01, a02, a03], [false, false, false, false], 0, false, false⟩ [3, 2, 1, 0]).anyMoved, (lfold 1 ⟨[a00, a01, a02, a03], [false, false, false, false], 0, false, false⟩ [3, 2, 1, 0]).anyMerged⟩ [3, 2, 1, 0]).anyMerged⟩ [3, 2, 1, 0]).score, (lfold 1 ⟨[a20, a21, a22, a23], [false, false, false, false], (lfold 1 ⟨[a10, a11, a12, a13], [false, false, false, false], (lfold 1 ⟨[a00, a01, a02, a03], [false, false, false, false], 0, false, false⟩ [3, 2, 1, 0]).score, (lfold 1 ⟨[a00, a01, a02, a03], [false, false, false, false], 0, false, false⟩ [3, 2, 1, 0]).anyMoved, (lfold 1 ⟨[a00, a01, a02, a03], [false, false, false, false], 0, false, false⟩ [3, 2, 1, 0]).anyMerged⟩ [3, 2, 1, 0]).score, (lfold 1 ⟨[a10, a11, a12, a13], [false, false, false, false], (lfold 1 ⟨[a00, a01, a02, a03], [false, false, false, false], 0, false, false⟩ [3, 2, 1, 0]).score, (lfold 1 ⟨[a00, a01, a02, a03], [false, false, false, false], 0, false, false⟩ [3, 2, 1, 0]).anyMoved, (lfold 1 ⟨[a00, a01, a02, a03], [false, false, false, false], 0, false, false⟩ [3, 2, 1, 0]).anyMerged⟩ [3, 2, 1, 0]).anyMoved, (lfold 1 ⟨[a10, a11, a12, a13], [false, false, false, false], (lfold 1 ⟨[a00, a01, a02, a03], [false, false, false, false], 0, false, false⟩ [3, 2, 1, 0]).score, (lfold 1 ⟨[a00, a01, a02, a03], [false, false, false, false], 0, false, false⟩ [3, 2, 1, 0]).anyMoved, (lfold 1 ⟨[a00, a01, a02, a03], [false, false, false, false], 0, false, false⟩ [3, 2, 1, 0]).anyMerged⟩ [3, 2, 1, 0]).anyMerged⟩ [3, 2, 1, 0]).anyMoved, (lfold 1 ⟨[a20, a21, a22, a23], [false, false, false, false], (lfold 1 ⟨[a10, a11, a12, a13], [false, false, false, false], (lfold 1 ⟨[a00, a01, a02, a03], [false, false, false, false], 0, false, false⟩ [3, 2, 1, 0]).score, (lfold 1 ⟨[a00, a01, a02, a03], [false, false, false, false], 0, false, false⟩ [3, 2, 1, 0]).anyMoved, (lfold 1 ⟨[a00, a01, a02, a03], [false, false, false, false], 0, false, false⟩ [3, 2, 1, 0]).anyMerged⟩ [3, 2, 1, 0]).score, (lfold 1 ⟨[a10, a11, a12, a13], [false, false, false, false], (lfold 1 ⟨[a00, a01, a02, a03], [false, false, false, false], 0, false, false⟩ [3, 2, 1, 0]).score, (lfold 1 ⟨[a00, a01, a02, a03], [false, false, false, false], 0, false, false⟩ [3, 2, 1, 0]).anyMoved, (lfold 1 ⟨[a00, a01, a02, a03], [false, false, false, false], 0, false, false⟩ [3, 2, 1, 0]).anyMerged⟩ [3, 2, 1, 0]).anyMoved, (lfold 1 ⟨[a10, a11, a12, a13], [false, false, false, false], (lfold 1 ⟨[a00, a01, a02, a03], [false, false, false, false], 0, false, false⟩ [3, 2, 1, 0]).score, (lfold 1 ⟨[a00, a01, a02, a03], [false, false, false, false], 0, false, false⟩ [3, 2, 1, 0]).anyMoved, (lfold 1 ⟨[a00, a01, a02, a03], [false, false, false, false], 0, false, false⟩ [3, 2, 1, 0]).anyMerged⟩ [3, 2, 1, 0]).anyMerged⟩ [3, 2, 1, 0]).anyMerged⟩ [3, 2, 1, 0]).score, (lfold 1 ⟨[a30, a31, a32, a33], [false, false, false, false], (lfold 1 ⟨[a20, a21, a22, a23], [false, false, false, false], (lfold 1 ⟨[a10, a11, a12, a13], [false, false, false, false], (lfold 1 ⟨[a00, a01, a02, a03], [false, false, false, false], 0, false, false⟩ [3, 2, 1, 0]).score, (lfold 1 ⟨[a00, a01, a02, a03], [false, false, false, false], 0, false, false⟩ [3, 2, 1, 0]).anyMoved, (lfold 1 ⟨[a00, a01, a02, a03], [false, false, false, false], 0, false, false⟩ [3, 2, 1, 0]).anyMerged⟩ [3, 2, 1, 0]).score, (lfold 1 ⟨[a10, a11, a12, a13], [false, false, false, false], (lfold 1 ⟨[a00, a01, a02, a03], [false, false, false, false], 0, false, false⟩ [3, 2, 1, 0]).score, (lfold 1 ⟨[a00, a01, a02, a03], [false, false, false, false], 0, false, false⟩ [3, 2, 1, 0]).anyMoved, (lfold 1 ⟨[a00, a01, a02, a03], [false, false, false, false], 0, false, false⟩ [3, 2, 1, 0]).anyMerged⟩ [3, 2, 1, 0]).anyMoved, (lfold 1 ⟨[a10, a11, a12, a13], [false, false, false, false], (lfold 1 ⟨[a00, a01, a02, a03], [false, false, false, false], 0, false, false⟩ [3, 2, 1, 0]).score, (lfold 1 ⟨[a00, a01, a02, a03], [false, false, false, false], 0, false, false⟩ [3, 2, 1, 0]).anyMoved, (lfold 1 ⟨[a00, a01, a02, a03], [false, false, false, false], 0, false, false⟩ [3, 2, 1, 0]).anyMerged⟩ [3, 2, 1, 0]).anyMerged⟩ [3, 2, 1, 0]).score, (lfold 1 ⟨[a20, a21, a22, a23], [false, false, false, false], (lfold 1 ⟨[a10, a11, a12, a13], [false, false, false, false], (lfold 1 ⟨[a00, a01, a02, a03], [false, false, false, false], 0, false, false⟩ [3, 2, 1, 0]).score, (lfold 1 ⟨[a00, a01, a02, a03], [false, false, false, false], 0, false, false⟩ [3, 2, 1, 0]).anyMoved, (lfold 1 ⟨[a00, a01, a02, a03], [false, false, false, false], 0, false, false⟩ [3, 2, 1, 0]).anyMerged⟩ [3, 2, 1, 0]).score, (lfold 1 ⟨[a10, a11, a12, a13], [false, false, false, false], (lfold 1 ⟨[a00, a01, a02, a03], [false, false, false, false], 0, false, false⟩ [3, 2, 1, 0]).score, (lfold 1 ⟨[a00, a01, a02, a03], [false, false, false, false], 0, false, false⟩ [3, 2, 1, 0]).anyMoved, (lfold 1 ⟨[a00, a01, a02, a03], [false, false, false, false], 0, false, false⟩ [3, 2, 1, 0]).anyMerged⟩ [3, 2, 1, 0]).anyMoved, (lfold 1 ⟨[a10, a11, a12, a13], [false, false, false, false], (lfold 1 ⟨[a00, a01, a02, a03], [false, false, false, false], 0, false, false⟩ [3, 2, 1, 0]).score, (lfold 1 ⟨[a00, a01, a02, a03], [false, false, false, false], 0, false, false⟩ [3, 2, 1, 0]).anyMoved, (lfold 1 ⟨[a00, a01, a02, a03], [false, false, false, false], 0, false, false⟩ [3, 2, 1, 0]).anyMerged⟩ [3, 2, 1, 0]).anyMerged⟩ [3, 2, 1, 0]).anyMoved, (lfold 1 ⟨[a20, a21, a22, a23], [false, false, false, false], (lfold 1 ⟨[a10, a11, a12, a13], [false, false, false, false], (lfold 1 ⟨[a00, a01, a02, a03], [false, false, false, false], 0, false, false⟩ [3, 2, 1, 0]).score, (lfold 1 ⟨[a00, a01, a02, a03], [false, false, false, false], 0, false, false⟩ [3, 2, 1, 0]).anyMoved, (lfold 1 ⟨[a00, a01, a02, a03], [false, false, false, false], 0, false, false⟩ [3, 2, 1, 0]).anyMerged⟩ [3, 2, 1, 0]).score, (lfold 1 ⟨[a10, a11, a12, a13], [false, false, false, false], (lfold 1 ⟨[a00, a01, a02, a03], [false, false, false, false], 0, false, false⟩ [3, 2, 1, 0]).score, (lfold 1 ⟨[a00, a01, a02, a03], [false, false, false, false], 0, false, false⟩ [3, 2, 1, 0]).anyMoved, (lfold 1 ⟨[a00, a01, a02, a03], [false, false, false, false], 0, false, false⟩ [3, 2, 1, 0]).anyMerged⟩ [3, 2, 1, 0]).anyMoved, (lfold 1 ⟨[a10, a11, a12, a13], [false, false, false, false], (lfold 1 ⟨[a00, a01, a02, a03], [false, false, false, false], 0, false, false⟩ [3, 2, 1, 0]).score, (lfold 1 ⟨[a00, a01, a02, a03], [false, false, false, false], 0, false, false⟩ [3, 2, 1, 0]).anyMoved, (lfold 1 ⟨[a00, a01, a02, a03], [false, false, false, false], 0, false, false⟩ [3, 2, 1, 0]).anyMerged⟩ [3, 2, 1, 0]).anyMerged⟩ [3, 2, 1, 0]).anyMerged⟩ [3, 2, 1, 0]).anyMoved, (lfold 1 ⟨[a30, a31, a32, a33], [false, false, false, false], (lfold 1 ⟨[a20, a21, a22, a23], [false, false, false, false], (lfold 1 ⟨[a10, a11, a12, a13], [false, false, false, false], (lfold 1 ⟨[a00, a01, a02, a03], [false, false, false, false], 0, false, false⟩ [3, 2, 1, 0]).score, (lfold 1 ⟨[a00, a01, a02, a03], [false, false, false, false], 0, false, false⟩ [3, 2, 1, 0]).anyMoved, (lfold 1 ⟨[a00, a01, a02, a03], [false, false, false, false], 0, false, false⟩ [3, 2, 1, 0]).anyMerged⟩ [3, 2, 1, 0]).score, (lfold 1 ⟨[a10, a11, a12, a13], [false, false, false, false], (lfold 1 ⟨[a00, a01, a02, a03], [false, false, false, false], 0, false, false⟩ [3, 2, 1, 0]).score, (lfold 1 ⟨[a00, a01, a02, a03], [false, false, false, false], 0, false, false⟩ [3, 2, 1, 0]).anyMoved, (lfold 1 ⟨[a00, a01, a02, a03], [false, false, false, false], 0, false, false⟩ [3, 2, 1, 0]).anyMerged⟩ [3, 2, 1, 0]).anyMoved, (lfold 1 ⟨[a10, a11, a12, a13], [false, false, false, false], (lfold 1 ⟨[a00, a01, a02, a03], [false, false, false, false], 0, false, false⟩ [3, 2, 1, 0]).score, (lfold 1 ⟨[a00, a01, a02, a03], [false, false, false, false], 0, false, false⟩ [3, 2, 1, 0]).anyMoved, (lfold 1 ⟨[a00, a01, a02, a03], [false, false, false, false], 0, false, false⟩ [3, 2, 1, 0]).anyMerged⟩ [3, 2, 1, 0]).anyMerged⟩ [3, 2, 1, 0]).score, (lfold 1 ⟨[a20, a21, a22, a23], [false, false, false, false], (lfold 1 ⟨[a10, a11, a12, a13], [false, false, false, false], (lfold 1 ⟨[a00, a01, a02, a03], [false, false, false, false], 0, false, false⟩ [3, 2, 1, 0]).score, (lfold 1 ⟨[a00, a01, a02, a03], [false, false, false, false], 0, false, false⟩ [3, 2, 1, 0]).anyMoved, (lfold 1 ⟨[a00, a01, a02, a03], [false, false, false, false], 0, false, false⟩ [3, 2, 1, 0]).anyMerged⟩ [3, 2, 1, 0]).score, (lfold 1 ⟨[a10, a11, a12, a13], [false, false, false, false], (lfold 1 ⟨[a00, a01, a02, a03], [false, false, false, false], 0, false, false⟩ [3, 2, 1, 0]).score, (lfold 1 ⟨[a00, a01, a02, a03], [false, false, false, false], 0, false, false⟩ [3, 2, 1, 0]).anyMoved, (lfold 1 ⟨[a00, a01, a02, a03], [false, false, false, false], 0, false, false⟩ [3, 2, 1, 0]).anyMerged⟩ [3, 2, 1, 0]).anyMoved, (lfold 1 ⟨[a10, a11, a12, a13], [false, false, false, false], (lfold 1 ⟨[a00, a01, a02, a03], [false, false, false, false], 0, false, false⟩ [3, 2, 1, 0]).score, (lfold 1 ⟨[a00, a01, a02, a03], [false, false, false, false], 0, false, false⟩ [3, 2, 1, 0]).anyMoved, (lfold 1 ⟨[a00, a01, a02, a03], [false, false, false, false], 0, false, false⟩ [3, 2, 1, 0]).anyMerged⟩ [3, 2, 1, 0]).anyMerged⟩ [3, 2, 1, 0]).anyMoved, (lfold 1 ⟨[a20, a21, a22, a23], [false, false, false, false], (lfold 1 ⟨[a10, a11, a12, a13], [false, false, false, false], (lfold 1 ⟨[a00, a01, a02, a03], [false, false, false, false], 0, false, false⟩ [3, 2, 1, 0]).score, (lfold 1 ⟨[a00, a01, a02, a03], [false, false, false, false], 0, false, false⟩ [3, 2, 1, 0]).anyMoved, (lfold 1 ⟨[a00, a01, a02, a03], [false, false, false, false], 0, false, false⟩ [3, 2, 1, 0]).anyMerged⟩ [3, 2, 1, 0]).score, (lfold 1 ⟨[a10, a11, a12, a13], [false, false, false, false], (lfold 1 ⟨[a00, a01, a02, a03], [false, false, false, false], 0, false, false⟩ [3, 2, 1, 0]).score, (lfold 1 ⟨[a00, a01, a02, a03], [false, false, false, false], 0, false, false⟩ [3, 2, 1, 0]).anyMoved, (lfold 1 ⟨[a00, a01, a02, a03], [false, false, false, false], 0, false, false⟩ [3, 2, 1, 0]).anyMerged⟩ [3, 2, 1, 0]).anyMoved, (lfold 1 ⟨[a10, a11, a12, a13], [false, false, false, false], (lfold 1 ⟨[a00, a01, a02, a03], [false, false, false, false], 0, false, false⟩ [3, 2, 1, 0]).score, (lfold 1 ⟨[a00, a01, a02, a03], [false, false, false, false], 0, false, false⟩ [3, 2, 1, 0]).anyMoved, (lfold 1 ⟨[a00, a01, a02, a03], [false, false, false, false], 0, false, false⟩ [3, 2, 1, 0]).anyMerged⟩ [3, 2, 1, 0]).anyMerged⟩ [3, 2, 1, 0]).anyMerged⟩ [3, 2, 1, 0]).anyMerged⟩ := by
    rw [vfold_row 1 [3, 2, 1, 0] ⟨[(lfold 1 ⟨[a00, a01, a02, a03], [false, false, false, false], 0, false, false⟩ [3, 2, 1, 0]).line, (lfold 1 ⟨[a10, a11, a12, a13], [false, false, false, false], (lfold 1 ⟨[a00, a01, a02, a03], [false, false, false, false], 0, false, false⟩ [3, 2, 1, 0]).score, (lfold 1 ⟨[a00, a01, a02, a03], [false, false, false, false], 0, false, false⟩ [3, 2, 1, 0]).anyMoved, (lfold 1 ⟨[a00, a01, a02, a03], [false, false, false, false], 0, false, false⟩ [3, 2, 1, 0]).anyMerged⟩ [3, 2, 1, 0]).line, (lfold 1 ⟨[a20, a21, a22, a23], [false, false, false, false], (lfold 1 ⟨[a10, a11, a12, a13], [false, false, false, false], (lfold 1 ⟨[a00, a01, a02, a03], [false, false, false, false], 0, false, false⟩ [3, 2, 1, 0]).score, (lfold 1 ⟨[a00, a01, a02, a03], [false, false, false, false], 0, false, false⟩ [3, 2, 1, 0]).anyMoved, (lfold 1 ⟨[a00, a01, a02, a03], [false, false, false, false], 0, false, false⟩ [3, 2, 1, 0]).anyMerged⟩ [3, 2, 1, 0]).score, (lfold 1 ⟨[a10, a11, a12, a13], [false, false, false, false], (lfold 1 ⟨[a00, a01, a02, a03], [false, false, false, false], 0, false, false⟩ [3, 2, 1, 0]).score, (lfold 1 ⟨[a00, a01, a02, a03], [false, false, false, false], 0, false, false⟩ [3, 2, 1, 0]).anyMoved, (lfold 1 ⟨[a00, a01, a02, a03], [false, false, false, false], 0, false, false⟩ [3, 2, 1, 0]).anyMerged⟩ [3, 2, 1, 0]).anyMoved, (lfold 1 ⟨[a10, a11, a12, a13], [false, false, false, false], (lfold 1 ⟨[a00, a01, a02, a03], [false, false, false, false], 0, false, false⟩ [3, 2, 1, 0]).score, (lfold 1 ⟨[a00, a01, a02, a03], [false, false, false, false], 0, false, false⟩ [3, 2, 1, 0]).anyMoved, (lfold 1 ⟨[a00, a01, a02, a03], [false, false, false, false], 0, false, false⟩ [3, 2, 1, 0]).anyMerged⟩ [3, 2, 1, 0]).anyMerged⟩ [3, 2, 1, 0]).line, [a30, a31, a32, a33]], (((TileGame.emptyMGrid.set 0 (lfold 1 ⟨[a00, a01, a02, a03], [false, false, false, false], 0, false, false⟩ [3, 2, 1, 0]).marks).set 1 (lfold 1 ⟨[a10, a11, a12, a13], [false, false, false, false], (lfold 1 ⟨[a00, a01, a02, a03], [false, false, false, false], 0, false, false⟩ [3, 2, 1, 0]).score, (lfold 1 ⟨[a00, a01, a02, a03], [false, false, false, false], 0, false, false⟩ [3, 2, 1, 0]).anyMoved, (lfold 1 ⟨[a00, a01, a02, a03], [false, false, false, false], 0, false, false⟩ [3, 2, 1, 0]).anyMerged⟩ [3, 2, 1, 0]).marks).set 2 (lfold 1 ⟨[a20, a21, a22, a23], [false, false, false, false], (lfold 1 ⟨[a10, a11, a12, a13], [false, false, false, false], (lfold 1 ⟨[a00, a01, a02, a03], [false, false, false, false], 0, false, false⟩ [3, 2, 1, 0]).score, (lfold 1 ⟨[a00, a01, a02, a03], [false, false, false, false], 0, false, false⟩ [3, 2, 1, 0]).anyMoved, (lfold 1 ⟨[a00, a01, a02, a03], [false, false, false, false], 0, false, false⟩ [3, 2, 1, 0]).anyMerged⟩ [3, 2, 1, 0]).score, (lfold 1 ⟨[a10, a11, a12, a13], [false, false, false, false], (lfold 1 ⟨[a00, a01, a02, a03], [false, false, false, false], 0, false, false⟩ [3, 2, 1, 0]).score, (lfold 1 ⟨[a00, a01, a02, a03], [false, false, false, false], 0, false, false⟩ [3, 2, 1, 0]).anyMoved, (lfold 1 ⟨[a00, a01, a02, a03], [false, false, false, false], 0, false, false⟩ [3, 2, 1, 0]).anyMerged⟩ [3, 2, 1, 0]).anyMoved, (lfold 1 ⟨[a10, a11, a12, a13], [false, false, false, false], (lfold 1 ⟨[a00, a01, a02, a03], [false, false, false, false], 0, false, false⟩ [3, 2, 1, 0]).score, (lfold 1 ⟨[a00, a01, a02, a03], [false, false, false, false], 0, false, false⟩ [3, 2, 1, 0]).anyMoved, (lfold 1 ⟨[a00, a01, a02, a03], [false, false, false, false], 0, false, false⟩ [3, 2, 1, 0]).anyMerged⟩ [3, 2, 1, 0]).anyMerged⟩ [3, 2, 1, 0]).marks), (lfold 1 ⟨[a20, a21, a22, a23], [false, false, false, false], (lfold 1 ⟨[a10, a11, a12, a13], [false, false, false, false], (lfold 1 ⟨[a00, a01, a02, a03], [false, false, false, false], 0, false, false⟩ [3, 2, 1, 0]).score, (lfold 1 ⟨[a00, a01, a02, a03], [false, false, false, false], 0, false, false⟩ [3, 2, 1, 0]).anyMoved, (lfold 1 ⟨[a00, a01, a02, a03], [false, false, false, false], 0, false, false⟩ [3, 2, 1, 0]).anyMerged⟩ [3, 2, 1, 0]).score, (lfold 1 ⟨[a10, a11, a12, a13], [false, false, false, false], (lfold 1 ⟨[a00, a01, a02, a03], [false, false, false, false], 0, false, false⟩ [3, 2, 1, 0]).score, (lfold 1 ⟨[a00, a01, a02, a03], [false, false, false, false], 0, false, false⟩ [3, 2, 1, 0]).anyMoved, (lfold 1 ⟨[a00, a01, a02, a03], [false, false, false, false], 0, false, false⟩ [3, 2, 1, 0]).anyMerged⟩ [3, 2, 1, 0]).anyMoved, (lfold 1 ⟨[a10, a11, a12, a13], [false, false, false, false], (lfold 1 ⟨[a00, a01, a02, a03], [false, false, false, false], 0, false, false⟩ [3, 2, 1, 0]).score, (lfold 1 ⟨[a00, a01, a02, a03], [false, false, false, false], 0, false, false⟩ [3, 2, 1, 0]).anyMoved, (lfold 1 ⟨[a00, a01, a02, a03], [false, false, false, false], 0, false, false⟩ [3, 2, 1, 0]).anyMerged⟩ [3, 2, 1, 0]).anyMerged⟩ [3, 2, 1, 0]).score, (lfold 1 ⟨[a20, a21, a22, a23], [false, false, false, false], (lfold 1 ⟨[a10, a11, a12, a13], [false, false, false, false], (lfold 1 ⟨[a00, a01, a02, a03], [false, false, false, false], 0, false, false⟩ [3, 2, 1, 0]).score, (lfold 1 ⟨[a00, a01, a02, a03], [false, false, false, false], 0, false, false⟩ [3, 2, 1, 0]).anyMoved, (lfold 1 ⟨[a00, a01, a02, a03], [false, false, false, false], 0, false, false⟩ [3, 2, 1, 0]).anyMerged⟩ [3, 2, 1, 0]).score, (lfold 1 ⟨[a10, a11, a12, a13], [false, false, false, false], (lfold 1 ⟨[a00, a01, a02, a03], [false, false, false, false], 0, false, false⟩ [3, 2, 1, 0]).score, (lfold 1 ⟨[a00, a01, a02, a03], [false, false, false, false], 0, false, false⟩ [3, 2, 1, 0]).anyMoved, (lfold 1 ⟨[a00, a01, a02, a03], [false, false, false, false], 0, false, false⟩ [3, 2, 1, 0]).anyMerged⟩ [3, 2, 1, 0]).anyMoved, (lfold 1 ⟨[a10, a11, a12, a13], [false, false, false, false], (lfold 1 ⟨[a00, a01, a02, a03], [false, false, false, false], 0, false, false⟩ [3, 2, 1, 0]).score, (lfold 1 ⟨[a00, a01, a02, a03], [false, false, false, false], 0, false, false⟩ [3, 2, 1, 0]).anyMoved, (lfold 1 ⟨[a00, a01, a02, a03], [false, false, false, false], 0, false, false⟩ [3, 2, 1, 0]).anyMerged⟩ [3, 2, 1, 0]).anyMerged⟩ [3, 2, 1, 0]).anyMoved, (lfold 1 ⟨[a20, a21, a22, a23], [false, false, false, false], (lfold 1 ⟨[a10, a11, a12, a13], [false, false, false, false], (lfold 1 ⟨[a00, a01, a02, a03], [false, false, false, false], 0, false, false⟩ [3, 2, 1, 0]).score, (lfold 1 ⟨[a00, a01, a02, a03], [false, false, false, false], 0, false, false⟩ [3, 2, 1, 0]).anyMoved, (lfold 1 ⟨[a00, a01, a02, a03], [false, false, false, false], 0, false, false⟩ [3, 2, 1, 0]).anyMerged⟩ [3, 2, 1, 0]).score, (lfold 1 ⟨[a10, a11, a12, a13], [false, false, false, false], (lfold 1 ⟨[a00, a01, a02, a03], [false, false, false, false], 0, false, false⟩ [3, 2, 1, 0]).score, (lfold 1 ⟨[a00, a01, a02, a03], [false, false, false, false], 0, false, false⟩ [3, 2, 1, 0]).anyMoved, (lfold 1 ⟨[a00, a01, a02, a03], [false, false, false, false], 0, false, false⟩ [3, 2, 1, 0]).anyMerged⟩ [3, 2, 1, 0]).anyMoved, (lfold 1 ⟨[a10, a11, a12, a13], [false, false, false, false], (lfold 1 ⟨[a00, a01, a02, a03], [false, false, false, false], 0, false, false⟩ [3, 2, 1, 0]).score, (lfold 1 ⟨[a00, a01, a02, a03], [false, false, false, false], 0, false, false⟩ [3, 2, 1, 0]).anyMoved, (lfold 1 ⟨[a00, a01, a02, a03], [false, false, false, false], 0, false, false⟩ [3, 2, 1, 0]).anyMerged⟩ [3, 2, 1, 0]).anyMerged⟩ [3, 2, 1, 0]).anyMerged⟩ 3 (by omega) rfl rfl]
    rfl
  have hfold : (pairsFor .right).foldl (vstep 0 1) ⟨[[a00, a01, a02, a03], [a10, a11, a12, a13], [a20, a21, a22, a23], [a30, a31, a32, a33]], TileGame.emptyMGrid, 0, false, false⟩ = ⟨[(lfold 1 ⟨[a00, a01, a02, a03], [false, false, false, false], 0, false, false⟩ [3, 2, 1, 0]).line, (lfold 1 ⟨[a10, a11, a12, a13], [false, false, false, false], (lfold 1 ⟨[a00, a01, a02, a03], [false, false, false, false], 0, false, false⟩ [3, 2, 1, 0]).score, (lfold 1 ⟨[a00, a01, a02, a03], [false, false, false, false], 0, false, false⟩ [3, 2, 1, 0]).anyMoved, (lfold 1 ⟨[a00, a01, a02, a03], [false, false, false, false], 0, false, false⟩ [3, 2, 1, 0]).anyMerged⟩ [3, 2, 1, 0]).line, (lfold 1 ⟨[a20, a21, a22, a23], [false, false, false, false], (lfold 1 ⟨[a10, a11, a12, a13], [false, false, false, false], (lfold 1 ⟨[a00, a01, a02, a03], [false, false, false, false], 0, false, false⟩ [3, 2, 1, 0]).score, (lfold 1 ⟨[a00, a01, a02, a03], [false, false, false, false], 0, false, false⟩ [3, 2, 1, 0]).anyMoved, (lfold 1 ⟨[a00, a01, a02, a03], [false, false, false, false], 0, false, false⟩ [3, 2, 1, 0]).anyMerged⟩ [3, 2, 1, 0]).score, (lfold 1 ⟨[a10, a11, a12, a13], [false, false, false, false], (lfold 1 ⟨[a00, a01, a02, a03], [false, false, false, false], 0, false, false⟩ [3, 2, 1, 0]).score, (lfold 1 ⟨[a00, a01, a02, a03], [false, false, false, false], 0, false, false⟩ [3, 2, 1, 0]).anyMoved, (lfold 1 ⟨[a00, a01, a02, a03], [false, false, false, false], 0, false, false⟩ [3, 2, 1, 0]).anyMerged⟩ [3, 2, 1, 0]).anyMoved, (lfold 1 ⟨[a10, a11, a12, a13], [false, false, false, false], (lfold 1 ⟨[a00, a01, a02, a03], [false, false, false, false], 0, false, false⟩ [3, 2, 1, 0]).score, (lfold 1 ⟨[a00, a01, a02, a03], [false, false, false, false], 0, false, false⟩ [3, 2, 1, 0]).anyMoved, (lfold 1 ⟨[a00, a01, a02, a03], [false, false, false, false], 0, false, false⟩ [3, 2, 1, 0]).anyMerged⟩ [3, 2, 1, 0]).anyMerged⟩ [3, 2, 1, 0]).line, (lfold 1 ⟨[a30, a31, a32, a33], [false, false, false, false], (lfold 1 ⟨[a20, a21, a22, a23], [false, false, false, false], (lfold 1 ⟨[a10, a11, a12, a13], [false, false, false, false], (lfold 1 ⟨[a00, a01, a02, a03], [false, false, false, false], 0, false, false⟩ [3, 2, 1, 0]).score, (lfold 1 ⟨[a00, a01, a02, a03], [false, false, false, false], 0, false, false⟩ [3, 2, 1, 0]).anyMoved, (lfold 1 ⟨[a00, a01, a02, a03], [false, false, false, false], 0, false, false⟩ [3, 2, 1, 0]).anyMerged⟩ [3, 2, 1, 0]).score, (lfold 1 ⟨[a10, a11, a12, a13], [false, false, false, false], (lfold 1 ⟨[a00, a01, a02, a03], [false, false, false, false], 0, false, false⟩ [3, 2, 1, 0]).score, (lfold 1 ⟨[a00, a01, a02, a03], [false, false, false, false], 0, false, false⟩ [3, 2, 1, 0]).anyMoved, (lfold 1 ⟨[a00, a01, a02, a03], [false, false, false, false], 0, false, false⟩ [3, 2, 1, 0]).anyMerged⟩ [3, 2, 1, 0]).anyMoved, (lfold 1 ⟨[a10, a11, a12, a13], [false, false, false, false], (lfold 1 ⟨[a00, a01, a02, a03], [false, false, false, false], 0, false, false⟩ [3, 2, 1, 0]).score, (lfold 1 ⟨[a00, a01, a02, a03], [false, false, false, false], 0, false, false⟩ [3, 2, 1, 0]).anyMoved, (lfold 1 ⟨[a00, a01, a02, a03], [false, false, false, false], 0, false, false⟩ [3, 2, 1, 0]).anyMerged⟩ [3, 2, 1, 0]).anyMerged⟩ [3, 2, 1, 0]).score, (lfold 1 ⟨[a20, a21, a22, a23], [false, false, false, false], (lfold 1 ⟨[a10, a11, a12, a13], [false, false, false, false], (lfold 1 ⟨[a00, a01, a02, a03], [false, false, false, false], 0, false, false⟩ [3, 2, 1, 0]).score, (lfold 1 ⟨[a00, a01, a02, a03], [false, false, false, false], 0, false, false⟩ [3, 2, 1, 0]).anyMoved, (lfold 1 ⟨[a00, a01, a02, a03], [false, false, false, false], 0, false, false⟩ [3, 2, 1, 0]).anyMerged⟩ [3, 2, 1, 0]).score, (lfold 1 ⟨[a10, a11, a12, a13], [false, false, false, false], (lfold 1 ⟨[a00, a01, a02, a03], [false, false, false, false], 0, false, false⟩ [3, 2, 1, 0]).score, (lfold 1 ⟨[a00, a01, a02, a03], [false, false, false, false], 0, false, false⟩ [3, 2, 1, 0]).anyMoved, (lfold 1 ⟨[a00, a01, a02, a03], [false, false, false, false], 0, false, false⟩ [3, 2, 1, 0]).anyMerged⟩ [3, 2, 1, 0]).anyMoved, (lfold 1 ⟨[a10, a11, a12, a13], [false, false, false, false], (lfold 1 ⟨[a00, a01, a02, a03], [false, false, false, false], 0, false, false⟩ [3, 2, 1, 0]).score, (lfold 1 ⟨[a00, a01, a02, a03], [false, false, false, false], 0, false, false⟩ [3, 2, 1, 0]).anyMoved, (lfold 1 ⟨[a00, a01, a02, a03], [false, false, false, false], 0, false, false⟩ [3, 2, 1, 0]).anyMerged⟩ [3, 2, 1, 0]).anyMerged⟩ [3, 2, 1, 0]).anyMoved, (lfold 1 ⟨[a20, a21, a22, a23], [false, false, false, false], (lfold 1 ⟨[a10, a11, a12, a13], [false, false, false, false], (lfold 1 ⟨[a00, a01, a02, a03], [false, false, false, false], 0, false, false⟩ [3, 2, 1, 0]).score, (lfold 1 ⟨[a00, a01, a02, a03], [false, false, false, false], 0, false, false⟩ [3, 2, 1, 0]).anyMoved, (lfold 1 ⟨[a00, a01, a02, a03], [false, false, false, false], 0, false, false⟩ [3, 2, 1, 0]).anyMerged⟩ [3, 2, 1, 0]).score, (lfold 1 ⟨[a10, a11, a12, a13], [false, false, false, false], (lfold 1 ⟨[a00, a01, a02, a03], [false, false, false, false], 0, false, false⟩ [3, 2, 1, 0]).score, (lfold 1 ⟨[a00, a01, a02, a03], [false, false, false, false], 0, false, false⟩ [3, 2, 1, 0]).anyMoved, (lfold 1 ⟨[a00, a01, a02, a03], [false, false, false, false], 0, false, false⟩ [3, 2, 1, 0]).anyMerged⟩ [3, 2, 1, 0]).anyMoved, (lfold 1 ⟨[a10, a11, a12, a13], [false, false, false, false], (lfold 1 ⟨[a00, a01, a02, a03], [false, false, false, false], 0, false, false⟩ [3, 2, 1, 0]).score, (lfold 1 ⟨[a00, a01, a02, a03], [false, false, false, false], 0, false, false⟩ [3, 2, 1, 0]).anyMoved, (lfold 1 ⟨[a00, a01, a02, a03], [false, false, false, false], 0, false, false⟩ [3, 2, 1, 0]).anyMerged⟩ [3, 2, 1, 0]).anyMerged⟩ [3, 2, 1, 0]).anyMerged⟩ [3, 2, 1, 0]).line], ((((TileGame.emptyMGrid.set 0 (lfold 1 ⟨[a00, a01, a02, a03], [false, false, false, false], 0, false, false⟩ [3, 2, 1, 0]).marks).set 1 (lfold 1 ⟨[a10, a11, a12, a13], [false, false, false, false], (lfold 1 ⟨[a00, a01, a02, a03], [false, false, false, false], 0, false, false⟩ [3, 2, 1, 0]).score, (lfold 1 ⟨[a00, a01, a02, a03], [false, false, false, false], 0, false, false⟩ [3, 2, 1, 0]).anyMoved, (lfold 1 ⟨[a00, a01, a02, a03], [false, false, false, false], 0, false, false⟩ [3, 2, 1, 0]).anyMerged⟩ [3, 2, 1, 0]).marks).set 2 (lfold 1 ⟨[a20, a21, a22, a23], [false, false, false, false], (lfold 1 ⟨[a10, a11, a12, a13], [false, false, false, false], (lfold 1 ⟨[a00, a01, a02, a03], [false, false, false, false], 0, false, false⟩ [3, 2, 1, 0]).score, (lfold 1 ⟨[a00, a01, a02, a03], [false, false, false, false], 0, false, false⟩ [3, 2, 1, 0]).anyMoved, (lfold 1 ⟨[a00, a01, a02, a03], [false, false, false, false], 0, false, false⟩ [3, 2, 1, 0]).anyMerged⟩ [3, 2, 1, 0]).score, (lfold 1 ⟨[a10, a11, a12, a13], [false, false, false, false], (lfold 1 ⟨[a00, a01, a02, a03], [false, false, false, false], 0, false, false⟩ [3, 2, 1, 0]).score, (lfold 1 ⟨[a00, a01, a02, a03], [false, false, false, false], 0, false, false⟩ [3, 2, 1, 0]).anyMoved, (lfold 1 ⟨[a00, a01, a02, a03], [false, false, false, false], 0, false, false⟩ [3, 2, 1, 0]).anyMerged⟩ [3, 2, 1, 0]).anyMoved, (lfold 1 ⟨[a10, a11, a12, a13], [false, false, false, false], (lfold 1 ⟨[a00, a01, a02, a03], [false, false, false, false], 0, false, false⟩ [3, 2, 1, 0]).score, (lfold 1 ⟨[a00, a01, a02, a03], [false, false, false, false], 0, false, false⟩ [3, 2, 1, 0]).anyMoved, (lfold 1 ⟨[a00, a01, a02, a03], [false, false, false, false], 0, false, false⟩ [3, 2, 1, 0]).anyMerged⟩ [3, 2, 1, 0]).anyMerged⟩ [3, 2, 1, 0]).marks).set 3 (lfold 1 ⟨[a30, a31, a32, a33], [false, false, false, false], (lfold 1 ⟨[a20, a21, a22, a23], [false, false, false, false], (lfold 1 ⟨[a10, a11, a12, a13], [false, false, false, false], (lfold 1 ⟨[a00, a01, a02, a03], [false, false, false, false], 0, false, false⟩ [3, 2, 1, 0]).score, (lfold 1 ⟨[a00, a01, a02, a03], [false, false, false, false], 0, false, false⟩ [3, 2, 1, 0]).anyMoved, (lfold 1 ⟨[a00, a01, a02, a03], [false, false, false, false], 0, false, false⟩ [3, 2, 1, 0]).anyMerged⟩ [3, 2, 1, 0]).score, (lfold 1 ⟨[a10, a11, a12, a13], [false, false, false, false], (lfold 1 ⟨[a00, a01, a02, a03], [false, false, false, false], 0, false, false⟩ [3, 2, 1, 0]).score, (lfold 1 ⟨[a00, a01, a02, a03], [false, false, false, false], 0, false, false⟩ [3, 2, 1, 0]).anyMoved, (lfold 1 ⟨[a00, a01, a02, a03], [false, false, false, false], 0, false, false⟩ [3, 2, 1, 0]).anyMerged⟩ [3, 2, 1, 0]).anyMoved, (lfold 1 ⟨[a10, a11, a12, a13], [false, false, false, false], (lfold 1 ⟨[a00, a01, a02, a03], [false, false, false, false], 0, false, false⟩ [3, 2, 1, 0]).score, (lfold 1 ⟨[a00, a01, a02, a03], [false, false, false, false], 0, false, false⟩ [3, 2, 1, 0]).anyMoved, (lfold 1 ⟨[a00, a01, a02, a03], [false, false, false, false], 0, false, false⟩ [3, 2, 1, 0]).anyMerged⟩ [3, 2, 1, 0]).anyMerged⟩ [3, 2, 1, 0]).score, (lfold 1 ⟨[a20, a21, a22, a23], [false, false, false, false], (lfold 1 ⟨[a10, a11, a12, a13], [false, false, false, false], (lfold 1 ⟨[a00, a01, a02, a03], [false, false, false, false], 0, false, false⟩ [3, 2, 1, 0]).score, (lfold 1 ⟨[a00, a01, a02, a03], [false, false, false, false], 0, false, false⟩ [3, 2, 1, 0]).anyMoved, (lfold 1 ⟨[a00, a01, a02, a03], [false, false, false, false], 0, false, false⟩ [3, 2, 1, 0]).anyMerged⟩ [3, 2, 1, 0]).score, (lfold 1 ⟨[a10, a11, a12, a13], [false, false, false, false], (lfold 1 ⟨[a00, a01, a02, a03], [false, false, false, false], 0, false, false⟩ [3, 2, 1, 0]).score, (lfold 1 ⟨[a00, a01, a02, a03], [false, false, false, false], 0, false, false⟩ [3, 2, 1, 0]).anyMoved, (lfold 1 ⟨[a00, a01, a02, a03], [false, false, false, false], 0, false, false⟩ [3, 2, 1, 0]).anyMerged⟩ [3, 2, 1, 0]).anyMoved, (lfold 1 ⟨[a10, a11, a12, a13], [false, false, false, false], (lfold 1 ⟨[a00, a01, a02, a03], [false, false, false, false], 0, false, false⟩ [3, 2, 1, 0]).score, (lfold 1 ⟨[a00, a01, a02, a03], [false, false, false, false], 0, false, false⟩ [3, 2, 1, 0]).anyMoved, (lfold 1 ⟨[a00, a01, a02, a03], [false, false, false, false], 0, false, false⟩ [3, 2, 1, 0]).anyMerged⟩ [3, 2, 1, 0]).anyMerged⟩ [3, 2, 1, 0]).anyMoved, (lfold 1 ⟨[a20, a21, a22, a23], [false, false, false, false], (lfold 1 ⟨[a10, a11, a12, a13], [false, false, false, false], (lfold 1 ⟨[a00, a01, a02, a03], [false, false, false, false], 0, false, false⟩ [3, 2, 1, 0]).score, (lfold 1 ⟨[a00, a01, a02, a03], [false, false, false, false], 0, false, false⟩ [3, 2, 1, 0]).anyMoved, (lfold 1 ⟨[a00, a01, a02, a03], [false, false, false, false], 0, false, false⟩ [3, 2, 1, 0]).anyMerged⟩ [3, 2, 1, 0]).score, (lfold 1 ⟨[a10, a11, a12, a13], [false, false, false, false], (lfold 1 ⟨[a00, a01, a02, a03], [false, false, false, false], 0, false, false⟩ [3, 2, 1, 0]).score, (lfold 1 ⟨[a00, a01, a02, a03], [false, false, false, false], 0, false, false⟩ [3, 2, 1, 0]).anyMoved, (lfold 1 ⟨[a00, a01, a02, a03], [false, false, false, false], 0, false, false⟩ [3, 2, 1, 0]).anyMerged⟩ [3, 2, 1, 0]).anyMoved, (lfold 1 ⟨[a10, a11, a12, a13], [false, false, false, false], (lfold 1 ⟨[a00, a01, a02, a03], [false, false, false, false], 0, false, false⟩ [3, 2, 1, 0]).score, (lfold 1 ⟨[a00, a01, a02, a03], [false, false, false, false], 0, false, false⟩ [3, 2, 1, 0]).anyMoved, (lfold 1 ⟨[a00, a01, a02, a03], [false, false, false, false], 0, false, false⟩ [3, 2, 1, 0]).anyMerged⟩ [3, 2, 1, 0]).anyMerged⟩ [3, 2, 1, 0]).anyMerged⟩ [3, 2, 1, 0]).marks), (lfold 1 ⟨[a30, a31, a32, a33], [false, false, false, false], (lfold 1 ⟨[a20, a21, a22, a23], [false, false, false, false], (lfold 1 ⟨[a10, a11, a12, a13], [false, false, false, false], (lfold 1 ⟨[a00, a01, a02, a03], [false, false, false, false], 0, false, false⟩ [3, 2, 1, 0]).score, (lfold 1 ⟨[a00, a01, a02, a03], [false, false, false, false], 0, false, false⟩ [3, 2, 1, 0]).anyMoved, (lfold 1 ⟨[a00, a01, a02, a03], [false, false, false, false], 0, false, false⟩ [3, 2, 1, 0]).anyMerged⟩ [3, 2, 1, 0]).score, (lfold 1 ⟨[a10, a11, a12, a13], [false, false, false, false], (lfold 1 ⟨[a00, a01, a02, a03], [false, false, false, false], 0, false, false⟩ [3, 2, 1, 0]).score, (lfold 1 ⟨[a00, a01, a02, a03], [false, false, false, false], 0, false, false⟩ [3, 2, 1, 0]).anyMoved, (lfold 1 ⟨[a00, a01, a02, a03], [false, false, false, false], 0, false, false⟩ [3, 2, 1, 0]).anyMerged⟩ [3, 2, 1, 0]).anyMoved, (lfold 1 ⟨[a10, a11, a12, a13], [false, false, false, false], (lfold 1 ⟨[a00, a01, a02, a03], [false, false, false, false], 0, false, false⟩ [3, 2, 1, 0]).score, (lfold 1 ⟨[a00, a01, a02, a03], [false, false, false, false], 0, false, false⟩ [3, 2, 1, 0]).anyMoved, (lfold 1 ⟨[a00, a01, a02, a03], [false, false, false, false], 0, false, false⟩ [3, 2, 1, 0]).anyMerged⟩ [3, 2, 1, 0]).anyMerged⟩ [3, 2, 1, 0]).score, (lfold 1 ⟨[a20, a21, a22, a23], [false, false, false, false], (lfold 1 ⟨[a10, a11, a12, a13], [false, false, false, false], (lfold 1 ⟨[a00, a01, a02, a03], [false, false, false, false], 0, false, false⟩ [3, 2, 1, 0]).score, (lfold 1 ⟨[a00, a01, a02, a03], [false, false, false, false], 0, false, false⟩ [3, 2, 1, 0]).anyMoved, (lfold 1 ⟨[a00, a01, a02, a03], [false, false, false, false], 0, false, false⟩ [3, 2, 1, 0]).anyMerged⟩ [3, 2, 1, 0]).score, (lfold 1 ⟨[a10, a11, a12, a13], [false, false, false, false], (lfold 1 ⟨[a00, a01, a02, a03], [false, false, false, false], 0, false, false⟩ [3, 2, 1, 0]).score, (lfold 1 ⟨[a00, a01, a02, a03], [false, false, false, false], 0, false, false⟩ [3, 2, 1, 0]).anyMoved, (lfold 1 ⟨[a00, a01, a02, a03], [false, false, false, false], 0, false, false⟩ [3, 2, 1, 0]).anyMerged⟩ [3, 2, 1, 0]).anyMoved, (lfold 1 ⟨[a10, a11, a12, a13], [false, false, false, false], (lfold 1 ⟨[a00, a01, a02, a03], [false, false, false, false], 0, false, false⟩ [3, 2, 1, 0]).score, (lfold 1 ⟨[a00, a01, a02, a03], [false, false, false, false], 0, false, false⟩ [3, 2, 1, 0]).anyMoved, (lfold 1 ⟨[a00, a01, a02, a03], [false, false, false, false], 0, false, false⟩ [3, 2, 1, 0]).anyMerged⟩ [3, 2, 1, 0]).anyMerged⟩ [3, 2, 1, 0]).anyMoved, (lfold 1 ⟨[a20, a21, a22, a23], [false, false, false, false], (lfold 1 ⟨[a10, a11, a12, a13], [false, false, false, false], (lfold 1 ⟨[a00, a01, a02, a03], [false, false, false, false], 0, false, false⟩ [3, 2, 1, 0]).score, (lfold 1 ⟨[a00, a01, a02, a03], [false, false, false, false], 0, false, false⟩ [3, 2, 1, 0]).anyMoved, (lfold 1 ⟨[a00, a01, a02, a03], [false, false, false, false], 0, false, false⟩ [3, 2, 1, 0]).anyMerged⟩ [3, 2, 1, 0]).score, (lfold 1 ⟨[a10, a11, a12, a13], [false, false, false, false], (lfold 1 ⟨[a00, a01, a02, a03], [false, false, false, false], 0, false, false⟩ [3, 2, 1, 0]).score, (lfold 1 ⟨[a00, a01, a02, a03], [false, false, false, false], 0, false, false⟩ [3, 2, 1, 0]).anyMoved, (lfold 1 ⟨[a00, a01, a02, a03], [false, false, false, false], 0, false, false⟩ [3, 2, 1, 0]).anyMerged⟩ [3, 2, 1, 0]).anyMoved, (lfold 1 ⟨[a10, a11, a12, a13], [false, false, false, false], (lfold 1 ⟨[a00, a01, a02, a03], [false, false, false, false], 0, false, false⟩ [3, 2, 1, 0]).score, (lfold 1 ⟨[a00, a01, a02, a03], [false, false, false, false], 0, false, false⟩ [3, 2, 1, 0]).anyMoved, (lfold 1 ⟨[a00, a01, a02, a03], [false, false, false, false], 0, false, false⟩ [3, 2, 1, 0]).anyMerged⟩ [3, 2, 1, 0]).anyMerged⟩ [3, 2, 1, 0]).anyMerged⟩ [3, 2, 1, 0]).score, (lfold 1 ⟨[a30, a31, a32, a33], [false, false, false, false], (lfold 1 ⟨[a20, a21, a22, a23], [false, false, false, false], (lfold 1 ⟨[a10, a11, a12, a13], [false, false, false, false], (lfold 1 ⟨[a00, a01, a02, a03], [false, false, false, false], 0, false, false⟩ [3, 2, 1, 0]).score, (lfold 1 ⟨[a00, a01, a02, a03], [false, false, false, false], 0, false, false⟩ [3, 2, 1, 0]).anyMoved, (lfold 1 ⟨[a00, a01, a02, a03], [false, false, false, false], 0, false, false⟩ [3, 2, 1, 0]).anyMerged⟩ [3, 2, 1, 0]).score, (lfold 1 ⟨[a10, a11, a12, a13], [false, false, false, false], (lfold 1 ⟨[a00, a01, a02, a03], [false, false, false, false], 0, false, false⟩ [3, 2, 1, 0]).score, (lfold 1 ⟨[a00, a01, a02, a03], [false, false, false, false], 0, false, false⟩ [3, 2, 1, 0]).anyMoved, (lfold 1 ⟨[a00, a01, a02, a03], [false, false, false, false], 0, false, false⟩ [3, 2, 1, 0]).anyMerged⟩ [3, 2, 1, 0]).anyMoved, (lfold 1 ⟨[a10, a11, a12, a13], [false, false, false, false], (lfold 1 ⟨[a00, a01, a02, a03], [false, false, false, false], 0, false, false⟩ [3, 2, 1, 0]).score, (lfold 1 ⟨[a00, a01, a02, a03], [false, false, false, false], 0, false, false⟩ [3, 2, 1, 0]).anyMoved, (lfold 1 ⟨[a00, a01, a02, a03], [false, false, false, false], 0, false, false⟩ [3, 2, 1, 0]).anyMerged⟩ [3, 2, 1, 0]).anyMerged⟩ [3, 2, 1, 0]).score, (lfold 1 ⟨[a20, a21, a22, a23], [false, false, false, false], (lfold 1 ⟨[a10, a11, a12, a13], [false, false, false, false], (lfold 1 ⟨[a00, a01, a02, a03], [false, false, false, false], 0, false, false⟩ [3, 2, 1, 0]).score, (lfold 1 ⟨[a00, a01, a02, a03], [false, false, false, false], 0, false, false⟩ [3, 2, 1, 0]).anyMoved, (lfold 1 ⟨[a00, a01, a02, a03], [false, false, false, false], 0, false, false⟩ [3, 2, 1, 0]).anyMerged⟩ [3, 2, 1, 0]).score, (lfold 1 ⟨[a10, a11, a12, a13], [false, false, false, false], (lfold 1 ⟨[a00, a01, a02, a03], [false, false, false, false], 0, false, false⟩ [3, 2, 1, 0]).score, (lfold 1 ⟨[a00, a01, a02, a03], [false, false, false, false], 0, false, false⟩ [3, 2, 1, 0]).anyMoved, (lfold 1 ⟨[a00, a01, a02, a03], [false, false, false, false], 0, false, false⟩ [3, 2, 1, 0]).anyMerged⟩ [3, 2, 1, 0]).anyMoved, (lfold 1 ⟨[a10, a11, a12, a13], [false, false, false, false], (lfold 1 ⟨[a00, a01, a02, a03], [false, false, false, false], 0, false, false⟩ [3, 2, 1, 0]).score, (lfold 1 ⟨[a00, a01, a02, a03], [false, false, false, false], 0, false, false⟩ [3, 2, 1, 0]).anyMoved, (lfold 1 ⟨[a00, a01, a02, a03], [false, false, false, false], 0, false, false⟩ [3, 2, 1, 0]).anyMerged⟩ [3, 2, 1, 0]).anyMerged⟩ [3, 2, 1, 0]).anyMoved, (lfold 1 ⟨[a20, a21, a22, a23], [false, false, false, false], (lfold 1 ⟨[a10, a11, a12, a13], [false, false, false, false], (lfold 1 ⟨[a00, a01, a02, a03], [false, false, false, false], 0, false, false⟩ [3, 2, 1, 0]).score, (lfold 1 ⟨[a00, a01, a02, a03], [false, false, false, false], 0, false, false⟩ [3, 2, 1, 0]).anyMoved, (lfold 1 ⟨[a00, a01, a02, a03], [false, false, false, false], 0, false, false⟩ [3, 2, 1, 0]).anyMerged⟩ [3, 2, 1, 0]).score, (lfold 1 ⟨[a10, a11, a12, a13], [false, false, false, false], (lfold 1 ⟨[a00, a01, a02, a03], [false, false, false, false], 0, false, false⟩ [3, 2, 1, 0]).score, (lfold 1 ⟨[a00, a01, a02, a03], [false, false, false, false], 0, false, false⟩ [3, 2, 1, 0]).anyMoved, (lfold 1 ⟨[a00, a01, a02, a03], [false, false, false, false], 0, false, false⟩ [3, 2, 1, 0]).anyMerged⟩ [3, 2, 1, 0]).anyMoved, (lfold 1 ⟨[a10, a11, a12, a13], [false, false, false, false], (lfold 1 ⟨[a00, a01, a02, a03], [false, false, false, false], 0, false, false⟩ [3, 2, 1, 0]).score, (lfold 1 ⟨[a00, a01, a02, a03], [false, false, false, false], 0, false, false⟩ [3, 2, 1, 0]).anyMoved, (lfold 1 ⟨[a00, a01, a02, a03], [false, false, false, false], 0, false, false⟩ [3, 2, 1, 0]).anyMerged⟩ [3, 2, 1, 0]).anyMerged⟩ [3, 2, 1, 0]).anyMerged⟩ [3, 2, 1, 0]).anyMoved, (lfold 1 ⟨[a30, a31, a32, a33], [false, false, false, false], (lfold 1 ⟨[a20, a21, a22, a23], [false, false, false, false], (lfold 1 ⟨[a10, a11, a12, a13], [false, false, false, false], (lfold 1 ⟨[a00, a01, a02, a03], [false, false, false, false], 0, false, false⟩ [3, 2, 1, 0]).score, (lfold 1 ⟨[a00, a01, a02, a03], [false, false, false, false], 0, false, false⟩ [3, 2, 1, 0]).anyMoved, (lfold 1 ⟨[a00, a01, a02, a03], [false, false, false, false], 0, false, false⟩ [3, 2, 1, 0]).anyMerged⟩ [3, 2, 1, 0]).score, (lfold 1 ⟨[a10, a11, a12, a13], [false, false, false, false], (lfold 1 ⟨[a00, a01, a02, a03], [false, false, false, false], 0, false, false⟩ [3, 2, 1, 0]).score, (lfold 1 ⟨[a00, a01, a02, a03], [false, false, false, false], 0, false, false⟩ [3, 2, 1, 0]).anyMoved, (lfold 1 ⟨[a00, a01, a02, a03], [false, false, false, false], 0, false, false⟩ [3, 2, 1, 0]).anyMerged⟩ [3, 2, 1, 0]).anyMoved, (lfold 1 ⟨[a10, a11, a12, a13], [false, false, false, false], (lfold 1 ⟨[a00, a01, a02, a03], [false, false, false, false], 0, false, false⟩ [3, 2, 1, 0]).score, (lfold 1 ⟨[a00, a01, a02, a03], [false, false, false, false], 0, false, false⟩ [3, 2, 1, 0]).anyMoved, (lfold 1 ⟨[a00, a01, a02, a03], [false, false, false, false], 0, false, false⟩ [3, 2, 1, 0]).anyMerged⟩ [3, 2, 1, 0]).anyMerged⟩ [3, 2, 1, 0]).score, (lfold 1 ⟨[a20, a21, a22, a23], [false, false, false, false], (lfold 1 ⟨[a10, a11, a12, a13], [false, false, false, false], (lfold 1 ⟨[a00, a01, a02, a03], [false, false, false, false], 0, false, false⟩ [3, 2, 1, 0]).score, (lfold 1 ⟨[a00, a01, a02, a03], [false, false, false, false], 0, false, false⟩ [3, 2, 1, 0]).anyMoved, (lfold 1 ⟨[a00, a01, a02, a03], [false, false, false, false], 0, false, false⟩ [3, 2, 1, 0]).anyMerged⟩ [3, 2, 1, 0]).score, (lfold 1 ⟨[a10, a11, a12, a13], [false, false, false, false], (lfold 1 ⟨[a00, a01, a02, a03], [false, false, false, false], 0, false, false⟩ [3, 2, 1, 0]).score, (lfold 1 ⟨[a00, a01, a02, a03], [false, false, false, false], 0, false, false⟩ [3, 2, 1, 0]).anyMoved, (lfold 1 ⟨[a00, a01, a02, a03], [false, false, false, false], 0, false, false⟩ [3, 2, 1, 0]).anyMerged⟩ [3, 2, 1, 0]).anyMoved, (lfold 1 ⟨[a10, a11, a12, a13], [false, false, false, false], (lfold 1 ⟨[a00, a01, a02, a03], [false, false, false, false], 0, false, false⟩ [3, 2, 1, 0]).score, (lfold 1 ⟨[a00, a01, a02, a03], [false, false, false, false], 0, false, false⟩ [3, 2, 1, 0]).anyMoved, (lfold 1 ⟨[a00, a01, a02, a03], [false, false, false, false], 0, false, false⟩ [3, 2, 1, 0]).anyMerged⟩ [3, 2, 1, 0]).anyMerged⟩ [3, 2, 1, 0]).anyMoved, (lfold 1 ⟨[a20, a21, a22, a23], [false, false, false, false], (lfold 1 ⟨[a10, a11, a12, a13], [false, false, false, false], (lfold 1 ⟨[a00, a01, a02, a03], [false, false, false, false], 0, false, false⟩ [3, 2, 1, 0]).score, (lfold 1 ⟨[a00, a01, a02, a03], [false, false, false, false], 0, false, false⟩ [3, 2, 1, 0]).anyMoved, (lfold 1 ⟨[a00, a01, a02, a03], [false, false, false, false], 0, false, false⟩ [3, 2, 1, 0]).anyMerged⟩ [3, 2, 1, 0]).score, (lfold 1 ⟨[a10, a11, a12, a13], [false, false, false, false], (lfold 1 ⟨[a00, a01, a02, a03], [false, false, false, false], 0, false, false⟩ [3, 2, 1, 0]).score, (lfold 1 ⟨[a00, a01, a02, a03], [false, false, false, false], 0, false, false⟩ [3, 2, 1, 0]).anyMoved, (lfold 1 ⟨[a00, a01, a02, a03], [false, false, false, false], 0, false, false⟩ [3, 2, 1, 0]).anyMerged⟩ [3, 2, 1, 0]).anyMoved, (lfold 1 ⟨[a10, a11, a12, a13], [false, false, false, false], (lfold 1 ⟨[a00, a01, a02, a03], [false, false, false, false], 0, false, false⟩ [3, 2, 1, 0]).score, (lfold 1 ⟨[a00, a01, a02, a03], [false, false, false, false], 0, false, false⟩ [3, 2, 1, 0]).anyMoved, (lfold 1 ⟨[a00, a01, a02, a03], [false, false, false, false], 0, false, false⟩ [3, 2, 1, 0]).anyMerged⟩ [3, 2, 1, 0]).anyMerged⟩ [3, 2, 1, 0]).anyMerged⟩ [3, 2, 1, 0]).anyMerged⟩ := by
    rw [pairsFor_right]
    simp only [List.foldl_append]
    rw [hb0, hb1, hb2, hb3]
  have hrev0 : (GridGame.slideRow [a00, a01, a02, a03].reverse).newRow.reverse
      = [(GridGame.slideRow [a00, a01, a02, a03].reverse).newRow.getD 3 none, (GridGame.slideRow [a00, a01, a02, a03].reverse).newRow.getD 2 none, (GridGame.slideRow [a00, a01, a02, a03].reverse).newRow.getD 1 none,
         (GridGame.slideRow [a00, a01, a02, a03].reverse).newRow.getD 0 none] :=
    Mat.list4_reverse none (slideRow_newRow_length rfl)
  have hrev1 : (GridGame.slideRow [a10, a11, a12, a13].reverse).newRow.reverse
      = [(GridGame.slideRow [a10, a11, a12, a13].reverse).newRow.getD 3 none, (GridGame.slideRow [a10, a11, a12, a13].reverse).newRow.getD 2 none, (GridGame.slideRow [a10, a11, a12, a13].reverse).newRow.getD 1 none,
         (GridGame.slideRow [a10, a11, a12, a13].reverse).newRow.getD 0 none] :=
    Mat.list4_reverse none (slideRow_newRow_length rfl)
  have hrev2 : (GridGame.slideRow [a20, a21, a22, a23].reverse).newRow.reverse
      = [(GridGame.slideRow [a20, a21, a22, a23].reverse).newRow.getD 3 none, (GridGame.slideRow [a20, a21, a22, a23].reverse).newRow.getD 2 none, (GridGame.slideRow [a20, a21, a22, a23].reverse).newRow.getD 1 none,
         (GridGame.slideRow [a20, a21, a22, a23].reverse).newRow.getD 0 none] :=
    Mat.list4_reverse none (slideRow_newRow_length rfl)
  have hrev3 : (GridGame.slideRow [a30, a31, a32, a33].reverse).newRow.reverse
      = [(GridGame.slideRow [a30, a31, a32, a33].reverse).newRow.getD 3 none, (GridGame.slideRow [a30, a31, a32, a33].reverse).newRow.getD 2 none, (GridGame.slideRow [a30, a31, a32, a33].reverse).newRow.getD 1 none,
         (GridGame.slideRow [a30, a31, a32, a33].reverse).newRow.getD 0 none] :=
    Mat.list4_reverse none (slideRow_newRow_length rfl)
  have hmove : GridGame.move [[a00, a01, a02, a03], [a10, a11, a12, a13], [a20, a21, a22, a23], [a30, a31, a32, a33]] .right
      = ⟨[[(GridGame.slideRow [a00, a01, a02, a03].reverse).newRow.getD 3 none, (GridGame.slideRow [a00, a01, a02, a03].reverse).newRow.getD 2 none, (GridGame.slideRow [a00, a01, a02, a03].reverse).newRow.getD 1 none, (GridGame.slideRow [a00, a01, a02, a03].reverse).newRow.getD 0 none], [(GridGame.slideRow [a10, a11, a12, a13].reverse).newRow.getD 3 none, (GridGame.slideRow [a10, a11, a12, a13].reverse).newRow.getD 2 none, (GridGame.slideRow [a10, a11, a12, a13].reverse).newRow.getD 1 none, (GridGame.slideRow [a10, a11, a12, a13].reverse).newRow.getD 0 none], [(GridGame.slideRow [a20, a21, a22, a23].reverse).newRow.getD 3 none, (GridGame.slideRow [a20, a21, a22, a23].reverse).newRow.getD 2 none, (GridGame.slideRow [a20, a21, a22, a23].reverse).newRow.getD 1 none, (GridGame.slideRow [a20, a21, a22, a23].reverse).newRow.getD 0 none], [(GridGame.slideRow [a30, a31, a32, a33].reverse).newRow.getD 3 none, (GridGame.slideRow [a30, a31, a32, a33].reverse).newRow.getD 2 none, (GridGame.slideRow [a30, a31, a32, a33].reverse).newRow.getD 1 none, (GridGame.slideRow [a30, a31, a32, a33].reverse).newRow.getD 0 none]],
         (GridGame.slideRow [a30, a31, a32, a33].reverse).score + ((GridGame.slideRow [a20, a21, a22, a23].reverse).score + ((GridGame.slideRow [a10, a11, a12, a13].reverse).score + ((GridGame.slideRow [a00, a01, a02, a03].reverse).score + 0))),
         !(GridGame.gridsEqual [[a00, a01, a02, a03], [a10, a11, a12, a13], [a20, a21, a22, a23], [a30, a31, a32, a33]] [[(GridGame.slideRow [a00, a01, a02, a03].reverse).newRow.getD 3 none, (GridGame.slideRow [a00, a01, a02, a03].reverse).newRow.getD 2 none, (GridGame.slideRow [a00, a01, a02, a03].reverse).newRow.getD 1 none, (GridGame.slideRow [a00, a01, a02, a03].reverse).newRow.getD 0 none], [(GridGame.slideRow [a10, a11, a12, a13].reverse).newRow.getD 3 none, (GridGame.slideRow [a10, a11, a12, a13].reverse).newRow.getD 2 none, (GridGame.slideRow [a10, a11, a12, a13].reverse).newRow.getD 1 none, (GridGame.slideRow [a10, a11, a12, a13].reverse).newRow.getD 0 none], [(GridGame.slideRow [a20, a21, a22, a23].reverse).newRow.getD 3 none, (GridGame.slideRow [a20, a21, a22, a23].reverse).newRow.getD 2 none, (GridGame.slideRow [a20, a21, a22, a23].reverse).newRow.getD 1 none, (GridGame.slideRow [a20, a21, a22, a23].reverse).newRow.getD 0 none], [(GridGame.slideRow [a30, a31, a32, a33].reverse).newRow.getD 3 none, (GridGame.slideRow [a30, a31, a32, a33].reverse).newRow.getD 2 none, (GridGame.slideRow [a30, a31, a32, a33].reverse).newRow.getD 1 none, (GridGame.slideRow [a30, a31, a32, a33].reverse).newRow.getD 0 none]]),
         ((GridGame.slideRow [a30, a31, a32, a33].reverse).merged || ((GridGame.slideRow [a20, a21, a22, a23].reverse).merged || ((GridGame.slideRow [a10, a11, a12, a13].reverse).merged || ((GridGame.slideRow [a00, a01, a02, a03].reverse).merged || false))))⟩ := rfl
  have hmove2 : GridGame.move [[a00, a01, a02, a03], [a10, a11, a12, a13], [a20, a21, a22, a23], [a30, a31, a32, a33]] .right
      = ⟨[(GridGame.slideRow [a00, a01, a02, a03].reverse).newRow.reverse, (GridGame.slideRow [a10, a11, a12, a13].reverse).newRow.reverse, (GridGame.slideRow [a20, a21, a22, a23].reverse).newRow.reverse, (GridGame.slideRow [a30, a31, a32, a33].reverse).newRow.reverse],
         (GridGame.slideRow [a30, a31, a32, a33].reverse).score + ((GridGame.slideRow [a20, a21, a22, a23].reverse).score + ((GridGame.slideRow [a10, a11, a12, a13].reverse).score + ((GridGame.slideRow [a00, a01, a02, a03].reverse).score + 0))),
         !(GridGame.gridsEqual [[a00, a01, a02, a03], [a10, a11, a12, a13], [a20, a21, a22, a23], [a30, a31, a32, a33]] [(GridGame.slideRow [a00, a01, a02, a03].reverse).newRow.reverse, (GridGame.slideRow [a10, a11, a12, a13].reverse).newRow.reverse, (GridGame.slideRow [a20, a21, a22, a23].reverse).newRow.reverse, (GridGame.slideRow [a30, a31, a32, a33].reverse).newRow.reverse]),
         ((GridGame.slideRow [a30, a31, a32, a33].reverse).merged || ((GridGame.slideRow [a20, a21, a22, a23].reverse).merged || ((GridGame.slideRow [a10, a11, a12, a13].reverse).merged || ((GridGame.slideRow [a00, a01, a02, a03].reverse).merged || false))))⟩ := by
    rw [hmove, ← hrev0, ← hrev1, ← hrev2, ← hrev3]
  have hWFg : GridGame.WFdim [[a00, a01, a02, a03], [a10, a11, a12, a13], [a20, a21, a22, a23], [a30, a31, a32, a33]] := by
    refine ⟨rfl, ?_⟩
    intro row hrow
    simp only [List.mem_cons, List.not_mem_nil, or_false] at hrow
    rcases hrow with rfl | rfl | rfl | rfl <;> rfl
  have hWFw : GridGame.WFdim [(GridGame.slideRow [a00, a01, a02, a03].reverse).newRow.reverse, (GridGame.slideRow [a10, a11, a12, a13].reverse).newRow.reverse, (GridGame.slideRow [a20, a21, a22, a23].reverse).newRow.reverse, (GridGame.slideRow [a30, a31, a32, a33].reverse).newRow.reverse] := by
    refine ⟨rfl, ?_⟩
    intro row hrow
    simp only [List.mem_cons, List.not_mem_nil, or_false] at hrow
    rcases hrow with rfl | rfl | rfl | rfl <;>
      · rw [List.length_reverse]
        exact slideRow_newRow_length rfl
  have hlist : ([[a00, a01, a02, a03], [a10, a11, a12, a13], [a20, a21, a22, a23], [a30, a31, a32, a33]] = [(GridGame.slideRow [a00, a01, a02, a03].reverse).newRow.reverse, (GridGame.slideRow [a10, a11, a12, a13].reverse).newRow.reverse, (GridGame.slideRow [a20, a21, a22, a23].reverse).newRow.reverse, (GridGame.slideRow [a30, a31, a32, a33].reverse).newRow.reverse]) ↔ ((GridGame.slideRow [a00, a01, a02, a03].reverse).newRow.reverse = [a00, a01, a02, a03] ∧ (GridGame.slideRow [a10, a11, a12, a13].reverse).newRow.reverse = [a10, a11, a12, a13] ∧ (GridGame.slideRow [a20, a21, a22, a23].reverse).newRow.reverse = [a20, a21, a22, a23] ∧ (GridGame.slideRow [a30, a31, a32, a33].reverse).newRow.reverse = [a30, a31, a32, a33]) := by
    simp only [List.cons.injEq, and_true]
    constructor
    · rintro ⟨a, b, c, d⟩
      exact ⟨a.symm, b.symm, c.symm, d.symm⟩
    · rintro ⟨a, b, c, d⟩
      exact ⟨a.symm, b.symm, c.symm, d.symm⟩
  have hg2 : GridGame.gridsEqual [[a00, a01, a02, a03], [a10, a11, a12, a13], [a20, a21, a22, a23], [a30, a31, a32, a33]] [(GridGame.slideRow [a00, a01, a02, a03].reverse).newRow.reverse, (GridGame.slideRow [a10, a11, a12, a13].reverse).newRow.reverse, (GridGame.slideRow [a20, a21, a22, a23].reverse).newRow.reverse, (GridGame.slideRow [a30, a31, a32, a33].reverse).newRow.reverse] = true ↔ ((GridGame.slideRow [a00, a01, a02, a03].reverse).newRow.reverse = [a00, a01, a02, a03] ∧ (GridGame.slideRow [a10, a11, a12, a13].reverse).newRow.reverse = [a10, a11, a12, a13] ∧ (GridGame.slideRow [a20, a21, a22, a23].reverse).newRow.reverse = [a20, a21, a22, a23] ∧ (GridGame.slideRow [a30, a31, a32, a33].reverse).newRow.reverse = [a30, a31, a32, a33]) :=
    (GridGame.gridsEqual_eq hWFg hWFw).trans hlist
  have hiff : (lfold 1 ⟨[a30, a31, a32, a33], [false, false, false, false], (lfold 1 ⟨[a20, a21, a22, a23], [false, false, false, false], (lfold 1 ⟨[a10, a11, a12, a13], [false, false, false, false], (lfold 1 ⟨[a00, a01, a02, a03], [false, false, false, false], 0, false, false⟩ [3, 2, 1, 0]).score, (lfold 1 ⟨[a00, a01, a02, a03], [false, false, false, false], 0, false, false⟩ [3, 2, 1, 0]).anyMoved, (lfold 1 ⟨[a00, a01, a02, a03], [false, false, false, false], 0, false, false⟩ [3, 2, 1, 0]).anyMerged⟩ [3, 2, 1, 0]).score, (lfold 1 ⟨[a10, a11, a12, a13], [false, false, false, false], (lfold 1 ⟨[a00, a01, a02, a03], [false, false, false, false], 0, false, false⟩ [3, 2, 1, 0]).score, (lfold 1 ⟨[a00, a01, a02, a03], [false, false, false, false], 0, false, false⟩ [3, 2, 1, 0]).anyMoved, (lfold 1 ⟨[a00, a01, a02, a03], [false, false, false, false], 0, false, false⟩ [3, 2, 1, 0]).anyMerged⟩ [3, 2, 1, 0]).anyMoved, (lfold 1 ⟨[a10, a11, a12, a13], [false, false, false, false], (lfold 1 ⟨[a00, a01, a02, a03], [false, false, false, false], 0, false, false⟩ [3, 2, 1, 0]).score, (lfold 1 ⟨[a00, a01, a02, a03], [false, false, false, false], 0, false, false⟩ [3, 2, 1, 0]).anyMoved, (lfold 1 ⟨[a00, a01, a02, a03], [false, false, false, false], 0, false, false⟩ [3, 2, 1, 0]).anyMerged⟩ [3, 2, 1, 0]).anyMerged⟩ [3, 2, 1, 0]).score, (lfold 1 ⟨[a20, a21, a22, a23], [false, false, false, false], (lfold 1 ⟨[a10, a11, a12, a13], [false, false, false, false], (lfold 1 ⟨[a00, a01, a02, a03], [false, false, false, false], 0, false, false⟩ [3, 2, 1, 0]).score, (lfold 1 ⟨[a00, a01, a02, a03], [false, false, false, false], 0, false, false⟩ [3, 2, 1, 0]).anyMoved, (lfold 1 ⟨[a00, a01, a02, a03], [false, false, false, false], 0, false, false⟩ [3, 2, 1, 0]).anyMerged⟩ [3, 2, 1, 0]).score, (lfold 1 ⟨[a10, a11, a12, a13], [false, false, false, false], (lfold 1 ⟨[a00, a01, a02, a03], [false, false, false, false], 0, false, false⟩ [3, 2, 1, 0]).score, (lfold 1 ⟨[a00, a01, a02, a03], [false, false, false, false], 0, false, false⟩ [3, 2, 1, 0]).anyMoved, (lfold 1 ⟨[a00, a01, a02, a03], [false, false, false, false], 0, false, false⟩ [3, 2, 1, 0]).anyMerged⟩ [3, 2, 1, 0]).anyMoved, (lfold 1 ⟨[a10, a11, a12, a13], [false, false, false, false], (lfold 1 ⟨[a00, a01, a02, a03], [false, false, false, false], 0, false, false⟩ [3, 2, 1, 0]).score, (lfold 1 ⟨[a00, a01, a02, a03], [false, false, false, false], 0, false, false⟩ [3, 2, 1, 0]).anyMoved, (lfold 1 ⟨[a00, a01, a02, a03], [false, false, false, false], 0, false, false⟩ [3, 2, 1, 0]).anyMerged⟩ [3, 2, 1, 0]).anyMerged⟩ [3, 2, 1, 0]).anyMoved, (lfold 1 ⟨[a20, a21, a22, a23], [false, false, false, false], (lfold 1 ⟨[a10, a11, a12, a13], [false, false, false, false], (lfold 1 ⟨[a00, a01, a02, a03], [false, false, false, false], 0, false, false⟩ [3, 2, 1, 0]).score, (lfold 1 ⟨[a00, a01, a02, a03], [false, false, false, false], 0, false, false⟩ [3, 2, 1, 0]).anyMoved, (lfold 1 ⟨[a00, a01, a02, a03], [false, false, false, false], 0, false, false⟩ [3, 2, 1, 0]).anyMerged⟩ [3, 2, 1, 0]).score, (lfold 1 ⟨[a10, a11, a12, a13], [false, false, false, false], (lfold 1 ⟨[a00, a01, a02, a03], [false, false, false, false], 0, false, false⟩ [3, 2, 1, 0]).score, (lfold 1 ⟨[a00, a01, a02, a03], [false, false, false, false], 0, false, false⟩ [3, 2, 1, 0]).anyMoved, (lfold 1 ⟨[a00, a01, a02, a03], [false, false, false, false], 0, false, false⟩ [3, 2, 1, 0]).anyMerged⟩ [3, 2, 1, 0]).anyMoved, (lfold 1 ⟨[a10, a11, a12, a13], [false, false, false, false], (lfold 1 ⟨[a00, a01, a02, a03], [false, false, false, false], 0, false, false⟩ [3, 2, 1, 0]).score, (lfold 1 ⟨[a00, a01, a02, a03], [false, false, false, false], 0, false, false⟩ [3, 2, 1, 0]).anyMoved, (lfold 1 ⟨[a00, a01, a02, a03], [false, false, false, false], 0, false, false⟩ [3, 2, 1, 0]).anyMerged⟩ [3, 2, 1, 0]).anyMerged⟩ [3, 2, 1, 0]).anyMerged⟩ [3, 2, 1, 0]).anyMoved = true ↔ ¬((GridGame.slideRow [a00, a01, a02, a03].reverse).newRow.reverse = [a00, a01, a02, a03] ∧ (GridGame.slideRow [a10, a11, a12, a13].reverse).newRow.reverse = [a10, a11, a12, a13] ∧ (GridGame.slideRow [a20, a21, a22, a23].reverse).newRow.reverse = [a20, a21, a22, a23] ∧ (GridGame.slideRow [a30, a31, a32, a33].reverse).newRow.reverse = [a30, a31, a32, a33]) := by
    rw [e3.2.2.2, e2.2.2.2, e1.2.2.2, e0.2.2.2]
    simp only [Bool.false_eq_true, false_or, ne_eq]
    constructor
    · rintro (((h | h) | h) | h) hc
      · exact h hc.1
      · exact h hc.2.1
      · exact h hc.2.2.1
      · exact h hc.2.2.2
    · intro hc
      by_cases k0 : (GridGame.slideRow [a00, a01, a02, a03].reverse).newRow.reverse = [a00, a01, a02, a03]
      · by_cases k1 : (GridGame.slideRow [a10, a11, a12, a13].reverse).newRow.reverse = [a10, a11, a12, a13]
        · by_cases k2 : (GridGame.slideRow [a20, a21, a22, a23].reverse).newRow.reverse = [a20, a21, a22, a23]
          · by_cases k3 : (GridGame.slideRow [a30, a31, a32, a33].reverse).newRow.reverse = [a30, a31, a32, a33]
            · exact absurd ⟨k0, k1, k2, k3⟩ hc
            · exact Or.inr k3
          · exact Or.inl (Or.inr k2)
        · exact Or.inl (Or.inl (Or.inr k1))
      · exact Or.inl (Or.inl (Or.inl k0))
  refine ⟨?_, ?_, ?_, ?_⟩
  · rw [hfold, hmove2]
    show [(lfold 1 ⟨[a00, a01, a02, a03], [false, false, false, false], 0, false, false⟩ [3, 2, 1, 0]).line, (lfold 1 ⟨[a10, a11, a12, a13], [false, false, false, false], (lfold 1 ⟨[a00, a01, a02, a03], [false, false, false, false], 0, false, false⟩ [3, 2, 1, 0]).score, (lfold 1 ⟨[a00, a01, a02, a03], [false, false, false, false], 0, false, false⟩ [3, 2, 1, 0]).anyMoved, (lfold 1 ⟨[a00, a01, a02, a03], [false, false, false, false], 0, false, false⟩ [3, 2, 1, 0]).anyMerged⟩ [3, 2, 1, 0]).line, (lfold 1 ⟨[a20, a21, a22, a23], [false, false, false, false], (lfold 1 ⟨[a10, a11, a12, a13], [false, false, false, false], (lfold 1 ⟨[a00, a01, a02, a03], [false, false, false, false], 0, false, false⟩ [3, 2, 1, 0]).score, (lfold 1 ⟨[a00, a01, a02, a03], [false, false, false, false], 0, false, false⟩ [3, 2, 1, 0]).anyMoved, (lfold 1 ⟨[a00, a01, a02, a03], [false, false, false, false], 0, false, false⟩ [3, 2, 1, 0]).anyMerged⟩ [3, 2, 1, 0]).score, (lfold 1 ⟨[a10, a11, a12, a13], [false, false, false, false], (lfold 1 ⟨[a00, a01, a02, a03], [false, false, false, false], 0, false, false⟩ [3, 2, 1, 0]).score, (lfold 1 ⟨[a00, a01, a02, a03], [false, false, false, false], 0, false, false⟩ [3, 2, 1, 0]).anyMoved, (lfold 1 ⟨[a00, a01, a02, a03], [false, false, false, false], 0, false, false⟩ [3, 2, 1, 0]).anyMerged⟩ [3, 2, 1, 0]).anyMoved, (lfold 1 ⟨[a10, a11, a12, a13], [false, false, false, false], (lfold 1 ⟨[a00, a01, a02, a03], [false, false, false, false], 0, false, false⟩ [3, 2, 1, 0]).score, (lfold 1 ⟨[a00, a01, a02, a03], [false, false, false, false], 0, false, false⟩ [3, 2, 1, 0]).anyMoved, (lfold 1 ⟨[a00, a01, a02, a03], [false, false, false, false], 0, false, false⟩ [3, 2, 1, 0]).anyMerged⟩ [3, 2, 1, 0]).anyMerged⟩ [3, 2, 1, 0]).line, (lfold 1 ⟨[a30, a31, a32, a33], [false, false, false, false], (lfold 1 ⟨[a20, a21, a22, a23], [false, false, false, false], (lfold 1 ⟨[a10, a11, a12, a13], [false, false, false, false], (lfold 1 ⟨[a00, a01, a02, a03], [false, false, false, false], 0, false, false⟩ [3, 2, 1, 0]).score, (lfold 1 ⟨[a00, a01, a02, a03], [false, false, false, false], 0, false, false⟩ [3, 2, 1, 0]).anyMoved, (lfold 1 ⟨[a00, a01, a02, a03], [false, false, false, false], 0, false, false⟩ [3, 2, 1, 0]).anyMerged⟩ [3, 2, 1, 0]).score, (lfold 1 ⟨[a10, a11, a12, a13], [false, false, false, false], (lfold 1 ⟨[a00, a01, a02, a03], [false, false, false, false], 0, false, false⟩ [3, 2, 1, 0]).score, (lfold 1 ⟨[a00, a01, a02, a03], [false, false, false, false], 0, false, false⟩ [3, 2, 1, 0]).anyMoved, (lfold 1 ⟨[a00, a01, a02, a03], [false, false, false, false], 0, false, false⟩ [3, 2, 1, 0]).anyMerged⟩ [3, 2, 1, 0]).anyMoved, (lfold 1 ⟨[a10, a11, a12, a13], [false, false, false, false], (lfold 1 ⟨[a00, a01, a02, a03], [false, false, false, false], 0, false, false⟩ [3, 2, 1, 0]).score, (lfold 1 ⟨[a00, a01, a02, a03], [false, false, false, false], 0, false, false⟩ [3, 2, 1, 0]).anyMoved, (lfold 1 ⟨[a00, a01, a02, a03], [false, false, false, false], 0, false, false⟩ [3, 2, 1, 0]).anyMerged⟩ [3, 2, 1, 0]).anyMerged⟩ [3, 2, 1, 0]).score, (lfold 1 ⟨[a20, a21, a22, a23], [false, false, false, false], (lfold 1 ⟨[a10, a11, a12, a13], [false, false, false, false], (lfold 1 ⟨[a00, a01, a02, a03], [false, false, false, false], 0, false, false⟩ [3, 2, 1, 0]).score, (lfold 1 ⟨[a00, a01, a02, a03], [false, false, false, false], 0, false, false⟩ [3, 2, 1, 0]).anyMoved, (lfold 1 ⟨[a00, a01, a02, a03], [false, false, false, false], 0, false, false⟩ [3, 2, 1, 0]).anyMerged⟩ [3, 2, 1, 0]).score, (lfold 1 ⟨[a10, a11, a12, a13], [false, false, false, false], (lfold 1 ⟨[a00, a01, a02, a03], [false, false, false, false], 0, false, false⟩ [3, 2, 1, 0]).score, (lfold 1 ⟨[a00, a01, a02, a03], [false, false, false, false], 0, false, false⟩ [3, 2, 1, 0]).anyMoved, (lfold 1 ⟨[a00, a01, a02, a03], [false, false, false, false], 0, false, false⟩ [3, 2, 1, 0]).anyMerged⟩ [3, 2, 1, 0]).anyMoved, (lfold 1 ⟨[a10, a11, a12, a13], [false, false, false, false], (lfold 1 ⟨[a00, a01, a02, a03], [false, false, false, false], 0, false, false⟩ [3, 2, 1, 0]).score, (lfold 1 ⟨[a00, a01, a02, a03], [false, false, false, false], 0, false, false⟩ [3, 2, 1, 0]).anyMoved, (lfold 1 ⟨[a00, a01, a02, a03], [false, false, false, false], 0, false, false⟩ [3, 2, 1, 0]).anyMerged⟩ [3, 2, 1, 0]).anyMerged⟩ [3, 2, 1, 0]).anyMoved, (lfold 1 ⟨[a20, a21, a22, a23], [false, false, false, false], (lfold 1 ⟨[a10, a11, a12, a13], [false, false, false, false], (lfold 1 ⟨[a00, a01, a02, a03], [false, false, false, false], 0, false, false⟩ [3, 2, 1, 0]).score, (lfold 1 ⟨[a00, a01, a02, a03], [false, false, false, false], 0, false, false⟩ [3, 2, 1, 0]).anyMoved, (lfold 1 ⟨[a00, a01, a02, a03], [false, false, false, false], 0, false, false⟩ [3, 2, 1, 0]).anyMerged⟩ [3, 2, 1, 0]).score, (lfold 1 ⟨[a10, a11, a12, a13], [false, false, false, false], (lfold 1 ⟨[a00, a01, a02, a03], [false, false, false, false], 0, false, false⟩ [3, 2, 1, 0]).score, (lfold 1 ⟨[a00, a01, a02, a03], [false, false, false, false], 0, false, false⟩ [3, 2, 1, 0]).anyMoved, (lfold 1 ⟨[a00, a01, a02, a03], [false, false, false, false], 0, false, false⟩ [3, 2, 1, 0]).anyMerged⟩ [3, 2, 1, 0]).anyMoved, (lfold 1 ⟨[a10, a11, a12, a13], [false, false, false, false], (lfold 1 ⟨[a00, a01, a02, a03], [false, false, false, false], 0, false, false⟩ [3, 2, 1, 0]).score, (lfold 1 ⟨[a00, a01, a02, a03], [false, false, false, false], 0, false, false⟩ [3, 2, 1, 0]).anyMoved, (lfold 1 ⟨[a00, a01, a02, a03], [false, false, false, false], 0, false, false⟩ [3, 2, 1, 0]).anyMerged⟩ [3, 2, 1, 0]).anyMerged⟩ [3, 2, 1, 0]).anyMerged⟩ [3, 2, 1, 0]).line] = _
    rw [e0.1, e1.1, e2.1, e3.1]
  · rw [hfold, hmove2]
    show (lfold 1 ⟨[a30, a31, a32, a33], [false, false, false, false], (lfold 1 ⟨[a20, a21, a22, a23], [false, false, false, false], (lfold 1 ⟨[a10, a11, a12, a13], [false, false, false, false], (lfold 1 ⟨[a00, a01, a02, a03], [false, false, false, false], 0, false, false⟩ [3, 2, 1, 0]).score, (lfold 1 ⟨[a00, a01, a02, a03], [false, false, false, false], 0, false, false⟩ [3, 2, 1, 0]).anyMoved, (lfold 1 ⟨[a00, a01, a02, a03], [false, false, false, false], 0, false, false⟩ [3, 2, 1, 0]).anyMerged⟩ [3, 2, 1, 0]).score, (lfold 1 ⟨[a10, a11, a12, a13], [false, false, false, false], (lfold 1 ⟨[a00, a01, a02, a03], [false, false, false, false], 0, false, false⟩ [3, 2, 1, 0]).score, (lfold 1 ⟨[a00, a01, a02, a03], [false, false, false, false], 0, false, false⟩ [3, 2, 1, 0]).anyMoved, (lfold 1 ⟨[a00, a01, a02, a03], [false, false, false, false], 0, false, false⟩ [3, 2, 1, 0]).anyMerged⟩ [3, 2, 1, 0]).anyMoved, (lfold 1 ⟨[a10, a11, a12, a13], [false, false, false, false], (lfold 1 ⟨[a00, a01, a02, a03], [false, false, false, false], 0, false, false⟩ [3, 2, 1, 0]).score, (lfold 1 ⟨[a00, a01, a02, a03], [false, false, false, false], 0, false, false⟩ [3, 2, 1, 0]).anyMoved, (lfold 1 ⟨[a00, a01, a02, a03], [false, false, false, false], 0, false, false⟩ [3, 2, 1, 0]).anyMerged⟩ [3, 2, 1, 0]).anyMerged⟩ [3, 2, 1, 0]).score, (lfold 1 ⟨[a20, a21, a22, a23], [false, false, false, false], (lfold 1 ⟨[a10, a11, a12, a13], [false, false, false, false], (lfold 1 ⟨[a00, a01, a02, a03], [false, false, false, false], 0, false, false⟩ [3, 2, 1, 0]).score, (lfold 1 ⟨[a00, a01, a02, a03], [false, false, false, false], 0, false, false⟩ [3, 2, 1, 0]).anyMoved, (lfold 1 ⟨[a00, a01, a02, a03], [false, false, false, false], 0, false, false⟩ [3, 2, 1, 0]).anyMerged⟩ [3, 2, 1, 0]).score, (lfold 1 ⟨[a10, a11, a12, a13], [false, false, false, false], (lfold 1 ⟨[a00, a01, a02, a03], [false, false, false, false], 0, false, false⟩ [3, 2, 1, 0]).score, (lfold 1 ⟨[a00, a01, a02, a03], [false, false, false, false], 0, false, false⟩ [3, 2, 1, 0]).anyMoved, (lfold 1 ⟨[a00, a01, a02, a03], [false, false, false, false], 0, false, false⟩ [3, 2, 1, 0]).anyMerged⟩ [3, 2, 1, 0]).anyMoved, (lfold 1 ⟨[a10, a11, a12, a13], [false, false, false, false], (lfold 1 ⟨[a00, a01, a02, a03], [false, false, false, false], 0, false, false⟩ [3, 2, 1, 0]).score, (lfold 1 ⟨[a00, a01, a02, a03], [false, false, false, false], 0, false, false⟩ [3, 2, 1, 0]).anyMoved, (lfold 1 ⟨[a00, a01, a02, a03], [false, false, false, false], 0, false, false⟩ [3, 2, 1, 0]).anyMerged⟩ [3, 2, 1, 0]).anyMerged⟩ [3, 2, 1, 0]).anyMoved, (lfold 1 ⟨[a20, a21, a22, a23], [false, false, false, false], (lfold 1 ⟨[a10, a11, a12, a13], [false, false, false, false], (lfold 1 ⟨[a00, a01, a02, a03], [false, false, false, false], 0, false, false⟩ [3, 2, 1, 0]).score, (lfold 1 ⟨[a00, a01, a02, a03], [false, false, false, false], 0, false, false⟩ [3, 2, 1, 0]).anyMoved, (lfold 1 ⟨[a00, a01, a02, a03], [false, false, false, false], 0, false, false⟩ [3, 2, 1, 0]).anyMerged⟩ [3, 2, 1, 0]).score, (lfold 1 ⟨[a10, a11, a12, a13], [false, false, false, false], (lfold 1 ⟨[a00, a01, a02, a03], [false, false, false, false], 0, false, false⟩ [3, 2, 1, 0]).score, (lfold 1 ⟨[a00, a01, a02, a03], [false, false, false, false], 0, false, false⟩ [3, 2, 1, 0]).anyMoved, (lfold 1 ⟨[a00, a01, a02, a03], [false, false, false, false], 0, false, false⟩ [3, 2, 1, 0]).anyMerged⟩ [3, 2, 1, 0]).anyMoved, (lfold 1 ⟨[a10, a11, a12, a13], [false, false, false, false], (lfold 1 ⟨[a00, a01, a02, a03], [false, false, false, false], 0, false, false⟩ [3, 2, 1, 0]).score, (lfold 1 ⟨[a00, a01, a02, a03], [false, false, false, false], 0, false, false⟩ [3, 2, 1, 0]).anyMoved, (lfold 1 ⟨[a00, a01, a02, a03], [false, false, false, false], 0, false, false⟩ [3, 2, 1, 0]).anyMerged⟩ [3, 2, 1, 0]).anyMerged⟩ [3, 2, 1, 0]).anyMerged⟩ [3, 2, 1, 0]).score = (GridGame.slideRow [a30, a31, a32, a33].reverse).score + ((GridGame.slideRow [a20, a21, a22, a23].reverse).score + ((GridGame.slideRow [a10, a11, a12, a13].reverse).score + ((GridGame.slideRow [a00, a01, a02, a03].reverse).score + 0)))
    rw [e3.2.1, e2.2.1, e1.2.1, e0.2.1]
    omega
  · rw [hfold, hmove2]
    show (lfold 1 ⟨[a30, a31, a32, a33], [false, false, false, false], (lfold 1 ⟨[a20, a21, a22, a23], [false, false, false, false], (lfold 1 ⟨[a10, a11, a12, a13], [false, false, false, false], (lfold 1 ⟨[a00, a01, a02, a03], [false, false, false, false], 0, false, false⟩ [3, 2, 1, 0]).score, (lfold 1 ⟨[a00, a01, a02, a03], [false, false, false, false], 0, false, false⟩ [3, 2, 1, 0]).anyMoved, (lfold 1 ⟨[a00, a01, a02, a03], [false, false, false, false], 0, false, false⟩ [3, 2, 1, 0]).anyMerged⟩ [3, 2, 1, 0]).score, (lfold 1 ⟨[a10, a11, a12, a13], [false, false, false, false], (lfold 1 ⟨[a00, a01, a02, a03], [false, false, false, false], 0, false, false⟩ [3, 2, 1, 0]).score, (lfold 1 ⟨[a00, a01, a02, a03], [false, false, false, false], 0, false, false⟩ [3, 2, 1, 0]).anyMoved, (lfold 1 ⟨[a00, a01, a02, a03], [false, false, false, false], 0, false, false⟩ [3, 2, 1, 0]).anyMerged⟩ [3, 2, 1, 0]).anyMoved, (lfold 1 ⟨[a10, a11, a12, a13], [false, false, false, false], (lfold 1 ⟨[a00, a01, a02, a03], [false, false, false, false], 0, false, false⟩ [3, 2, 1, 0]).score, (lfold 1 ⟨[a00, a01, a02, a03], [false, false, false, false], 0, false, false⟩ [3, 2, 1, 0]).anyMoved, (lfold 1 ⟨[a00, a01, a02, a03], [false, false, false, false], 0, false, false⟩ [3, 2, 1, 0]).anyMerged⟩ [3, 2, 1, 0]).anyMerged⟩ [3, 2, 1, 0]).score, (lfold 1 ⟨[a20, a21, a22, a23], [false, false, false, false], (lfold 1 ⟨[a10, a11, a12, a13], [false, false, false, false], (lfold 1 ⟨[a00, a01, a02, a03], [false, false, false, false], 0, false, false⟩ [3, 2, 1, 0]).score, (lfold 1 ⟨[a00, a01, a02, a03], [false, false, false, false], 0, false, false⟩ [3, 2, 1, 0]).anyMoved, (lfold 1 ⟨[a00, a01, a02, a03], [false, false, false, false], 0, false, false⟩ [3, 2, 1, 0]).anyMerged⟩ [3, 2, 1, 0]).score, (lfold 1 ⟨[a10, a11, a12, a13], [false, false, false, false], (lfold 1 ⟨[a00, a01, a02, a03], [false, false, false, false], 0, false, false⟩ [3, 2, 1, 0]).score, (lfold 1 ⟨[a00, a01, a02, a03], [false, false, false, false], 0, false, false⟩ [3, 2, 1, 0]).anyMoved, (lfold 1 ⟨[a00, a01, a02, a03], [false, false, false, false], 0, false, false⟩ [3, 2, 1, 0]).anyMerged⟩ [3, 2, 1, 0]).anyMoved, (lfold 1 ⟨[a10, a11, a12, a13], [false, false, false, false], (lfold 1 ⟨[a00, a01, a02, a03], [false, false, false, false], 0, false, false⟩ [3, 2, 1, 0]).score, (lfold 1 ⟨[a00, a01, a02, a03], [false, false, false, false], 0, false, false⟩ [3, 2, 1, 0]).anyMoved, (lfold 1 ⟨[a00, a01, a02, a03], [false, false, false, false], 0, false, false⟩ [3, 2, 1, 0]).anyMerged⟩ [3, 2, 1, 0]).anyMerged⟩ [3, 2, 1, 0]).anyMoved, (lfold 1 ⟨[a20, a21, a22, a23], [false, false, false, false], (lfold 1 ⟨[a10, a11, a12, a13], [false, false, false, false], (lfold 1 ⟨[a00, a01, a02, a03], [false, false, false, false], 0, false, false⟩ [3, 2, 1, 0]).score, (lfold 1 ⟨[a00, a01, a02, a03], [false, false, false, false], 0, false, false⟩ [3, 2, 1, 0]).anyMoved, (lfold 1 ⟨[a00, a01, a02, a03], [false, false, false, false], 0, false, false⟩ [3, 2, 1, 0]).anyMerged⟩ [3, 2, 1, 0]).score, (lfold 1 ⟨[a10, a11, a12, a13], [false, false, false, false], (lfold 1 ⟨[a00, a01, a02, a03], [false, false, false, false], 0, false, false⟩ [3, 2, 1, 0]).score, (lfold 1 ⟨[a00, a01, a02, a03], [false, false, false, false], 0, false, false⟩ [3, 2, 1, 0]).anyMoved, (lfold 1 ⟨[a00, a01, a02, a03], [false, false, false, false], 0, false, false⟩ [3, 2, 1, 0]).anyMerged⟩ [3, 2, 1, 0]).anyMoved, (lfold 1 ⟨[a10, a11, a12, a13], [false, false, false, false], (lfold 1 ⟨[a00, a01, a02, a03], [false, false, false, false], 0, false, false⟩ [3, 2, 1, 0]).score, (lfold 1 ⟨[a00, a01, a02, a03], [false, false, false, false], 0, false, false⟩ [3, 2, 1, 0]).anyMoved, (lfold 1 ⟨[a00, a01, a02, a03], [false, false, false, false], 0, false, false⟩ [3, 2, 1, 0]).anyMerged⟩ [3, 2, 1, 0]).anyMerged⟩ [3, 2, 1, 0]).anyMerged⟩ [3, 2, 1, 0]).anyMoved = !(GridGame.gridsEqual [[a00, a01, a02, a03], [a10, a11, a12, a13], [a20, a21, a22, a23], [a30, a31, a32, a33]] [(GridGame.slideRow [a00, a01, a02, a03].reverse).newRow.reverse, (GridGame.slideRow [a10, a11, a12, a13].reverse).newRow.reverse, (GridGame.slideRow [a20, a21, a22, a23].reverse).newRow.reverse, (GridGame.slideRow [a30, a31, a32, a33].reverse).newRow.reverse])
    cases hGE : GridGame.gridsEqual [[a00, a01, a02, a03], [a10, a11, a12, a13], [a20, a21, a22, a23], [a30, a31, a32, a33]] [(GridGame.slideRow [a00, a01, a02, a03].reverse).newRow.reverse, (GridGame.slideRow [a10, a11, a12, a13].reverse).newRow.reverse, (GridGame.slideRow [a20, a21, a22, a23].reverse).newRow.reverse, (GridGame.slideRow [a30, a31, a32, a33].reverse).newRow.reverse] with
    | true =>
      have hc := hg2.mp hGE
      have hnt : ¬((lfold 1 ⟨[a30, a31, a32, a33], [false, false, false, false], (lfold 1 ⟨[a20, a21, a22, a23], [false, false, false, false], (lfold 1 ⟨[a10, a11, a12, a13], [false, false, false, false], (lfold 1 ⟨[a00, a01, a02, a03], [false, false, false, false], 0, false, false⟩ [3, 2, 1, 0]).score, (lfold 1 ⟨[a00, a01, a02, a03], [false, false, false, false], 0, false, false⟩ [3, 2, 1, 0]).anyMoved, (lfold 1 ⟨[a00, a01, a02, a03], [false, false, false, false], 0, false, false⟩ [3, 2, 1, 0]).anyMerged⟩ [3, 2, 1, 0]).score, (lfold 1 ⟨[a10, a11, a12, a13], [false, false, false, false], (lfold 1 ⟨[a00, a01, a02, a03], [false, false, false, false], 0, false, false⟩ [3, 2, 1, 0]).score, (lfold 1 ⟨[a00, a01, a02, a03], [false, false, false, false], 0, false, false⟩ [3, 2, 1, 0]).anyMoved, (lfold 1 ⟨[a00, a01, a02, a03], [false, false, false, false], 0, false, false⟩ [3, 2, 1, 0]).anyMerged⟩ [3, 2, 1, 0]).anyMoved, (lfold 1 ⟨[a10, a11, a12, a13], [false, false, false, false], (lfold 1 ⟨[a00, a01, a02, a03], [false, false, false, false], 0, false, false⟩ [3, 2, 1, 0]).score, (lfold 1 ⟨[a00, a01, a02, a03], [false, false, false, false], 0, false, false⟩ [3, 2, 1, 0]).anyMoved, (lfold 1 ⟨[a00, a01, a02, a03], [false, false, false, false], 0, false, false⟩ [3, 2, 1, 0]).anyMerged⟩ [3, 2, 1, 0]).anyMerged⟩ [3, 2, 1, 0]).score, (lfold 1 ⟨[a20, a21, a22, a23], [false, false, false, false], (lfold 1 ⟨[a10, a11, a12, a13], [false, false, false, false], (lfold 1 ⟨[a00, a01, a02, a03], [false, false, false, false], 0, false, false⟩ [3, 2, 1, 0]).score, (lfold 1 ⟨[a00, a01, a02, a03], [false, false, false, false], 0, false, false⟩ [3, 2, 1, 0]).anyMoved, (lfold 1 ⟨[a00, a01, a02, a03], [false, false, false, false], 0, false, false⟩ [3, 2, 1, 0]).anyMerged⟩ [3, 2, 1, 0]).score, (lfold 1 ⟨[a10, a11, a12, a13], [false, false, false, false], (lfold 1 ⟨[a00, a01, a02, a03], [false, false, false, false], 0, false, false⟩ [3, 2, 1, 0]).score, (lfold 1 ⟨[a00, a01, a02, a03], [false, false, false, false], 0, false, false⟩ [3, 2, 1, 0]).anyMoved, (lfold 1 ⟨[a00, a01, a02, a03], [false, false, false, false], 0, false, false⟩ [3, 2, 1, 0]).anyMerged⟩ [3, 2, 1, 0]).anyMoved, (lfold 1 ⟨[a10, a11, a12, a13], [false, false, false, false], (lfold 1 ⟨[a00, a01, a02, a03], [false, false, false, false], 0, false, false⟩ [3, 2, 1, 0]).score, (lfold 1 ⟨[a00, a01, a02, a03], [false, false, false, false], 0, false, false⟩ [3, 2, 1, 0]).anyMoved, (lfold 1 ⟨[a00, a01, a02, a03], [false, false, false, false], 0, false, false⟩ [3, 2, 1, 0]).anyMerged⟩ [3, 2, 1, 0]).anyMerged⟩ [3, 2, 1, 0]).anyMoved, (lfold 1 ⟨[a20, a21, a22, a23], [false, false, false, false], (lfold 1 ⟨[a10, a11, a12, a13], [false, false, false, false], (lfold 1 ⟨[a00, a01, a02, a03], [false, false, false, false], 0, false, false⟩ [3, 2, 1, 0]).score, (lfold 1 ⟨[a00, a01, a02, a03], [false, false, false, false], 0, false, false⟩ [3, 2, 1, 0]).anyMoved, (lfold 1 ⟨[a00, a01, a02, a03], [false, false, false, false], 0, false, false⟩ [3, 2, 1, 0]).anyMerged⟩ [3, 2, 1, 0]).score, (lfold 1 ⟨[a10, a11, a12, a13], [false, false, false, false], (lfold 1 ⟨[a00, a01, a02, a03], [false, false, false, false], 0, false, false⟩ [3, 2, 1, 0]).score, (lfold 1 ⟨[a00, a01, a02, a03], [false, false, false, false], 0, false, false⟩ [3, 2, 1, 0]).anyMoved, (lfold 1 ⟨[a00, a01, a02, a03], [false, false, false, false], 0, false, false⟩ [3, 2, 1, 0]).anyMerged⟩ [3, 2, 1, 0]).anyMoved, (lfold 1 ⟨[a10, a11, a12, a13], [false, false, false, false], (lfold 1 ⟨[a00, a01, a02, a03], [false, false, false, false], 0, false, false⟩ [3, 2, 1, 0]).score, (lfold 1 ⟨[a00, a01, a02, a03], [false, false, false, false], 0, false, false⟩ [3, 2, 1, 0]).anyMoved, (lfold 1 ⟨[a00, a01, a02, a03], [false, false, false, false], 0, false, false⟩ [3, 2, 1, 0]).anyMerged⟩ [3, 2, 1, 0]).anyMerged⟩ [3, 2, 1, 0]).anyMerged⟩ [3, 2, 1, 0]).anyMoved = true) := fun h => (hiff.mp h) hc
      rw [Bool.eq_false_iff.mpr hnt]
      rfl
    | false =>
      have hc : ¬((GridGame.slideRow [a00, a01, a02, a03].reverse).newRow.reverse = [a00, a01, a02, a03] ∧ (GridGame.slideRow [a10, a11, a12, a13].reverse).newRow.reverse = [a10, a11, a12, a13] ∧ (GridGame.slideRow [a20, a21, a22, a23].reverse).newRow.reverse = [a20, a21, a22, a23] ∧ (GridGame.slideRow [a30, a31, a32, a33].reverse).newRow.reverse = [a30, a31, a32, a33]) := fun h => by
        have := hg2.mpr h
        rw [hGE] at this
        exact Bool.noConfusion this
      rw [hiff.mpr hc]
      rfl
  · rw [hfold, hmove2]
    show (lfold 1 ⟨[a30, a31, a32, a33], [false, false, false, false], (lfold 1 ⟨[a20, a21, a22, a23], [false, false, false, false], (lfold 1 ⟨[a10, a11, a12, a13], [false, false, false, false], (lfold 1 ⟨[a00, a01, a02, a03], [false, false, false, false], 0, false, false⟩ [3, 2, 1, 0]).score, (lfold 1 ⟨[a00, a01, a02, a03], [false, false, false, false], 0, false, false⟩ [3, 2, 1, 0]).anyMoved, (lfold 1 ⟨[a00, a01, a02, a03], [false, false, false, false], 0, false, false⟩ [3, 2, 1, 0]).anyMerged⟩ [3, 2, 1, 0]).score, (lfold 1 ⟨[a10, a11, a12, a13], [false, false, false, false], (lfold 1 ⟨[a00, a01, a02, a03], [false, false, false, false], 0, false, false⟩ [3, 2, 1, 0]).score, (lfold 1 ⟨[a00, a01, a02, a03], [false, false, false, false], 0, false, false⟩ [3, 2, 1, 0]).anyMoved, (lfold 1 ⟨[a00, a01, a02, a03], [false, false, false, false], 0, false, false⟩ [3, 2, 1, 0]).anyMerged⟩ [3, 2, 1, 0]).anyMoved, (lfold 1 ⟨[a10, a11, a12, a13], [false, false, false, false], (lfold 1 ⟨[a00, a01, a02, a03], [false, false, false, false], 0, false, false⟩ [3, 2, 1, 0]).score, (lfold 1 ⟨[a00, a01, a02, a03], [false, false, false, false], 0, false, false⟩ [3, 2, 1, 0]).anyMoved, (lfold 1 ⟨[a00, a01, a02, a03], [false, false, false, false], 0, false, false⟩ [3, 2, 1, 0]).anyMerged⟩ [3, 2, 1, 0]).anyMerged⟩ [3, 2, 1, 0]).score, (lfold 1 ⟨[a20, a21, a22, a23], [false, false, false, false], (lfold 1 ⟨[a10, a11, a12, a13], [false, false, false, false], (lfold 1 ⟨[a00, a01, a02, a03], [false, false, false, false], 0, false, false⟩ [3, 2, 1, 0]).score, (lfold 1 ⟨[a00, a01, a02, a03], [false, false, false, false], 0, false, false⟩ [3, 2, 1, 0]).anyMoved, (lfold 1 ⟨[a00, a01, a02, a03], [false, false, false, false], 0, false, false⟩ [3, 2, 1, 0]).anyMerged⟩ [3, 2, 1, 0]).score, (lfold 1 ⟨[a10, a11, a12, a13], [false, false, false, false], (lfold 1 ⟨[a00, a01, a02, a03], [false, false, false, false], 0, false, false⟩ [3, 2, 1, 0]).score, (lfold 1 ⟨[a00, a01, a02, a03], [false, false, false, false], 0, false, false⟩ [3, 2, 1, 0]).anyMoved, (lfold 1 ⟨[a00, a01, a02, a03], [false, false, false, false], 0, false, false⟩ [3, 2, 1, 0]).anyMerged⟩ [3, 2, 1, 0]).anyMoved, (lfold 1 ⟨[a10, a11, a12, a13], [false, false, false, false], (lfold 1 ⟨[a00, a01, a02, a03], [false, false, false, false], 0, false, false⟩ [3, 2, 1, 0]).score, (lfold 1 ⟨[a00, a01, a02, a03], [false, false, false, false], 0, false, false⟩ [3, 2, 1, 0]).anyMoved, (lfold 1 ⟨[a00, a01, a02, a03], [false, false, false, false], 0, false, false⟩ [3, 2, 1, 0]).anyMerged⟩ [3, 2, 1, 0]).anyMerged⟩ [3, 2, 1, 0]).anyMoved, (lfold 1 ⟨[a20, a21, a22, a23], [false, false, false, false], (lfold 1 ⟨[a10, a11, a12, a13], [false, false, false, false], (lfold 1 ⟨[a00, a01, a02, a03], [false, false, false, false], 0, false, false⟩ [3, 2, 1, 0]).score, (lfold 1 ⟨[a00, a01, a02, a03], [false, false, false, false], 0, false, false⟩ [3, 2, 1, 0]).anyMoved, (lfold 1 ⟨[a00, a01, a02, a03], [false, false, false, false], 0, false, false⟩ [3, 2, 1, 0]).anyMerged⟩ [3, 2, 1, 0]).score, (lfold 1 ⟨[a10, a11, a12, a13], [false, false, false, false], (lfold 1 ⟨[a00, a01, a02, a03], [false, false, false, false], 0, false, false⟩ [3, 2, 1, 0]).score, (lfold 1 ⟨[a00, a01, a02, a03], [false, false, false, false], 0, false, false⟩ [3, 2, 1, 0]).anyMoved, (lfold 1 ⟨[a00, a01, a02, a03], [false, false, false, false], 0, false, false⟩ [3, 2, 1, 0]).anyMerged⟩ [3, 2, 1, 0]).anyMoved, (lfold 1 ⟨[a10, a11, a12, a13], [false, false, false, false], (lfold 1 ⟨[a00, a01, a02, a03], [false, false, false, false], 0, false, false⟩ [3, 2, 1, 0]).score, (lfold 1 ⟨[a00, a01, a02, a03], [false, false, false, false], 0, false, false⟩ [3, 2, 1, 0]).anyMoved, (lfold 1 ⟨[a00, a01, a02, a03], [false, false, false, false], 0, false, false⟩ [3, 2, 1, 0]).anyMerged⟩ [3, 2, 1, 0]).anyMerged⟩ [3, 2, 1, 0]).anyMerged⟩ [3, 2, 1, 0]).anyMerged = ((GridGame.slideRow [a30, a31, a32, a33].reverse).merged || ((GridGame.slideRow [a20, a21, a22, a23].reverse).merged || ((GridGame.slideRow [a10, a11, a12, a13].reverse).merged || ((GridGame.slideRow [a00, a01, a02, a03].reverse).merged || false))))
    rw [e3.2.2.1, e2.2.2.1, e1.2.2.1, e0.2.2.1]
    simp [Bool.or_assoc, Bool.or_comm, Bool.or_left_comm]

end Equiv


namespace Equiv

/-- The loop body preserves well-formedness through a whole fold. -/
theorem foldl_vstep_WF (vr vc : Int) :
    ∀ (l : List (Nat × Nat)) (s : VState),
      Mat.WF s.grid ∧ Mat.WF s.merged →
      Mat.WF ((l.foldl (vstep vr vc) s)).grid ∧
        Mat.WF ((l.foldl (vstep vr vc) s)).merged := by
  intro l
  induction l with
  | nil => intro s h; exact h
  | cons p t ih =>
    intro s h
    exact ih (vstep vr vc s p) (vstep_WF vr vc s p h.1 h.2)

/-- Vertical loop iterations commute when one is in column `k` and the
other is not. -/
theorem vstep_comm_of_col_ne (vr : Int) (k : Nat) (s : VState)
    (x y : Nat × Nat) (hs : Mat.WF s.grid ∧ Mat.WF s.merged)
    (hx : x.1 < 4 ∧ x.2 < 4) (hy : y.1 < 4 ∧ y.2 < 4)
    (hpx : (x.2 == k) = true) (hpy : (y.2 == k) = false) :
    vstep vr 0 (vstep vr 0 s x) y = vstep vr 0 (vstep vr 0 s y) x := by
  refine vstep_col_comm vr s hx.1 hx.2 hy.1 hy.2 ?_ hs.1 hs.2
  intro he
  rw [beq_iff_eq] at hpx
  rw [beq_eq_false_iff_ne] at hpy
  exact hpy (he ▸ hpx)

/-- The row-major traversal of `up` can be reordered into column blocks. -/
theorem pairsFor_up_reorder (vr : Int) (s : VState)
    (hg : Mat.WF s.grid) (hm : Mat.WF s.merged) :
    (pairsFor .up).foldl (vstep vr 0) s
      = List.foldl (vstep vr 0) (List.foldl (vstep vr 0) (List.foldl (vstep vr 0)
          (List.foldl (vstep vr 0) s
            (([0, 1, 2, 3] : List Nat).map fun r => (r, (0 : Nat))))
          (([0, 1, 2, 3] : List Nat).map fun r => (r, (1 : Nat))))
          (([0, 1, 2, 3] : List Nat).map fun r => (r, (2 : Nat))))
          (([0, 1, 2, 3] : List Nat).map fun r => (r, (3 : Nat))) := by
  have h1 : (pairsFor .up).foldl (vstep vr 0) s
      = List.foldl (vstep vr 0)
          (List.foldl (vstep vr 0) s
            (([0, 1, 2, 3] : List Nat).map fun r => (r, (0 : Nat))))
          ([(0, 1), (0, 2), (0, 3), (1, 1), (1, 2), (1, 3),
            (2, 1), (2, 2), (2, 3), (3, 1), (3, 2), (3, 3)] : List (Nat × Nat)) :=
    (foldl_filter_inv (vstep vr 0) (fun p => p.2 == 0)
      (fun st => Mat.WF st.grid ∧ Mat.WF st.merged)
      (fun p => p.1 < 4 ∧ p.2 < 4)
      (fun st x h => vstep_WF vr 0 st x h.1 h.2)
      (fun st x y hs hx hy hpx hpy =>
        vstep_comm_of_col_ne vr 0 st x y hs hx hy hpx hpy)
      (pairsFor .up) s ⟨hg, hm⟩ (by decide)).trans rfl
  have hW1 := foldl_vstep_WF vr 0
    (([0, 1, 2, 3] : List Nat).map fun r => (r, (0 : Nat))) s ⟨hg, hm⟩
  have h2 : List.foldl (vstep vr 0)
        (List.foldl (vstep vr 0) s
          (([0, 1, 2, 3] : List Nat).map fun r => (r, (0 : Nat))))
        ([(0, 1), (0, 2), (0, 3), (1, 1), (1, 2), (1, 3),
          (2, 1), (2, 2), (2, 3), (3, 1), (3, 2), (3, 3)] : List (Nat × Nat))
      = List.foldl (vstep vr 0)
          (List.foldl (vstep vr 0)
            (List.foldl (vstep vr 0) s
              (([0, 1, 2, 3] : List Nat).map fun r => (r, (0 : Nat))))
            (([0, 1, 2, 3] : List Nat).map fun r => (r, (1 : Nat))))
          ([(0, 2), (0, 3), (1, 2), (1, 3),
            (2, 2), (2, 3), (3, 2), (3, 3)] : List (Nat × Nat)) :=
    (foldl_filter_inv (vstep vr 0) (fun p => p.2 == 1)
      (fun st => Mat.WF st.grid ∧ Mat.WF st.merged)
      (fun p => p.1 < 4 ∧ p.2 < 4)
      (fun st x h => vstep_WF vr 0 st x h.1 h.2)
      (fun st x y hs hx hy hpx hpy =>
        vstep_comm_of_col_ne vr 1 st x y hs hx hy hpx hpy)
      _ _ hW1 (by decide)).trans rfl
  have hW2 := foldl_vstep_WF vr 0
    (([0, 1, 2, 3] : List Nat).map fun r => (r, (1 : Nat))) _ hW1
  have h3 : List.foldl (vstep vr 0)
        (List.foldl (vstep vr 0)
          (List.foldl (vstep vr 0) s
            (([0, 1, 2, 3] : List Nat).map fun r => (r, (0 : Nat))))
          (([0, 1, 2, 3] : List Nat).map fun r => (r, (1 : Nat))))
        ([(0, 2), (0, 3), (1, 2), (1, 3),
          (2, 2), (2, 3), (3, 2), (3, 3)] : List (Nat × Nat))
      = List.foldl (vstep vr 0)
          (List.foldl (vstep vr 0)
            (List.foldl (vstep vr 0)
              (List.foldl (vstep vr 0) s
                (([0, 1, 2, 3] : List Nat).map fun r => (r, (0 : Nat))))
              (([0, 1, 2, 3] : List Nat).map fun r => (r, (1 : Nat))))
            (([0, 1, 2, 3] : List Nat).map fun r => (r, (2 : Nat))))
          ([(0, 3), (1, 3), (2, 3), (3, 3)] : List (Nat × Nat)) :=
    (foldl_filter_inv (vstep vr 0) (fun p => p.2 == 2)
      (fun st => Mat.WF st.grid ∧ Mat.WF st.merged)
      (fun p => p.1 < 4 ∧ p.2 < 4)
      (fun st x h => vstep_WF vr 0 st x h.1 h.2)
      (fun st x y hs hx hy hpx hpy =>
        vstep_comm_of_col_ne vr 2 st x y hs hx hy hpx hpy)
      _ _ hW2 (by decide)).trans rfl
  rw [h1, h2, h3]
  rfl

/-- The row-major traversal of `down` can be reordered into column
blocks. -/
theorem pairsFor_down_reorder (vr : Int) (s : VState)
    (hg : Mat.WF s.grid) (hm : Mat.WF s.merged) :
    (pairsFor .down).foldl (vstep vr 0) s
      = List.foldl (vstep vr 0) (List.foldl (vstep vr 0) (List.foldl (vstep vr 0)
          (List.foldl (vstep vr 0) s
            (([3, 2, 1, 0] : List Nat).map fun r => (r, (0 : Nat))))
          (([3, 2, 1, 0] : List Nat).map fun r => (r, (1 : Nat))))
          (([3, 2, 1, 0] : List Nat).map fun r => (r, (2 : Nat))))
          (([3, 2, 1, 0] : List Nat).map fun r => (r, (3 : Nat))) := by
  have h1 : (pairsFor .down).foldl (vstep vr 0) s
      = List.foldl (vstep vr 0)
          (List.foldl (vstep vr 0) s
            (([3, 2, 1, 0] : List Nat).map fun r => (r, (0 : Nat))))
          ([(3, 1), (3, 2), (3, 3), (2, 1), (2, 2), (2, 3),
            (1, 1), (1, 2), (1, 3), (0, 1), (0, 2), (0, 3)] : List (Nat × Nat)) :=
    (foldl_filter_inv (vstep vr 0) (fun p => p.2 == 0)
      (fun st => Mat.WF st.grid ∧ Mat.WF st.merged)
      (fun p => p.1 < 4 ∧ p.2 < 4)
      (fun st x h => vstep_WF vr 0 st x h.1 h.2)
      (fun st x y hs hx hy hpx hpy =>
        vstep_comm_of_col_ne vr 0 st x y hs hx hy hpx hpy)
      (pairsFor .down) s ⟨hg, hm⟩ (by decide)).trans rfl
  have hW1 := foldl_vstep_WF vr 0
    (([3, 2, 1, 0] : List Nat).map fun r => (r, (0 : Nat))) s ⟨hg, hm⟩
  have h2 : List.foldl (vstep vr 0)
        (List.foldl (vstep vr 0) s
          (([3, 2, 1, 0] : List Nat).map fun r => (r, (0 : Nat))))
        ([(3, 1), (3, 2), (3, 3), (2, 1), (2, 2), (2, 3),
          (1, 1), (1, 2), (1, 3), (0, 1), (0, 2), (0, 3)] : List (Nat × Nat))
      = List.foldl (vstep vr 0)
          (List.foldl (vstep vr 0)
            (List.foldl (vstep vr 0) s
              (([3, 2, 1, 0] : List Nat).map fun r => (r, (0 : Nat))))
            (([3, 2, 1, 0] : List Nat).map fun r => (r, (1 : Nat))))
          ([(3, 2), (3, 3), (2, 2), (2, 3),
            (1, 2), (1, 3), (0, 2), (0, 3)] : List (Nat × Nat)) :=
    (foldl_filter_inv (vstep vr 0) (fun p => p.2 == 1)
      (fun st => Mat.WF st.grid ∧ Mat.WF st.merged)
      (fun p => p.1 < 4 ∧ p.2 < 4)
      (fun st x h => vstep_WF vr 0 st x h.1 h.2)
      (fun st x y hs hx hy hpx hpy =>
        vstep_comm_of_col_ne vr 1 st x y hs hx hy hpx hpy)
      _ _ hW1 (by decide)).trans rfl
  have hW2 := foldl_vstep_WF vr 0
    (([3, 2, 1, 0] : List Nat).map fun r => (r, (1 : Nat))) _ hW1
  have h3 : List.foldl (vstep vr 0)
        (List.foldl (vstep vr 0)
          (List.foldl (vstep vr 0) s
            (([3, 2, 1, 0] : List Nat).map fun r => (r, (0 : Nat))))
          (([3, 2, 1, 0] : List Nat).map fun r => (r, (1 : Nat))))
        ([(3, 2), (3, 3), (2, 2), (2, 3),
          (1, 2), (1, 3), (0, 2), (0, 3)] : List (Nat × Nat))
      = List.foldl (vstep vr 0)
          (List.foldl (vstep vr 0)
            (List.foldl (vstep vr 0)
              (List.foldl (vstep vr 0) s
                (([3, 2, 1, 0] : List Nat).map fun r => (r, (0 : Nat))))
              (([3, 2, 1, 0] : List Nat).map fun r => (r, (1 : Nat))))
            (([3, 2, 1, 0] : List Nat).map fun r => (r, (2 : Nat))))
          ([(3, 3), (2, 3), (1, 3), (0, 3)] : List (Nat × Nat)) :=
    (foldl_filter_inv (vstep vr 0) (fun p => p.2 == 2)
      (fun st => Mat.WF st.grid ∧ Mat.WF st.merged)
      (fun p => p.1 < 4 ∧ p.2 < 4)
      (fun st x h => vstep_WF vr 0 st x h.1 h.2)
      (fun st x y hs hx hy hpx hpy =>
        vstep_comm_of_col_ne vr 2 st x y hs hx hy hpx hpy)
      _ _ hW2 (by decide)).trans rfl
  rw [h1, h2, h3]
  rfl

end Equiv

namespace Mat

/-- Overwriting all four columns of a 4x4 matrix yields the matrix of the
four columns. -/
theorem setCol_all {α : Type} (d : α) {g : List (List α)} (h : WF g)
    {L0 L1 L2 L3 : List α} (hl0 : L0.length = 4) (hl1 : L1.length = 4)
    (hl2 : L2.length = 4) (hl3 : L3.length = 4) :
    setCol (setCol (setCol (setCol g d 0 L0) d 1 L1) d 2 L2) d 3 L3
      = [[L0.getD 0 d, L1.getD 0 d, L2.getD 0 d, L3.getD 0 d],
         [L0.getD 1 d, L1.getD 1 d, L2.getD 1 d, L3.getD 1 d],
         [L0.getD 2 d, L1.getD 2 d, L2.getD 2 d, L3.getD 2 d],
         [L0.getD 3 d, L1.getD 3 d, L2.getD 3 d, L3.getD 3 d]] := by
  have w1 : WF (setCol g d 0 L0) := WF_setCol d h 0 L0
  have w2 : WF (setCol (setCol g d 0 L0) d 1 L1) := WF_setCol d w1 1 L1
  have w3 : WF (setCol (setCol (setCol g d 0 L0) d 1 L1) d 2 L2) :=
    WF_setCol d w2 2 L2
  have hR : WF ([[L0.getD 0 d, L1.getD 0 d, L2.getD 0 d, L3.getD 0 d],
         [L0.getD 1 d, L1.getD 1 d, L2.getD 1 d, L3.getD 1 d],
         [L0.getD 2 d, L1.getD 2 d, L2.getD 2 d, L3.getD 2 d],
         [L0.getD 3 d, L1.getD 3 d, L2.getD 3 d, L3.getD 3 d]]
        : List (List α)) := by
    refine ⟨rfl, ?_⟩
    intro row hrow
    simp only [List.mem_cons, List.not_mem_nil, or_false] at hrow
    rcases hrow with rfl | rfl | rfl | rfl <;> rfl
  refine ext d (WF_setCol d w3 3 L3) hR ?_
  intro r c hr hc
  interval_cases c
  · rw [get_setCol_other d (by omega), get_setCol_other d (by omega),
        get_setCol_other d (by omega), get_setCol_self d h hr (by omega)]
    interval_cases r <;> rfl
  · rw [get_setCol_other d (by omega), get_setCol_other d (by omega),
        get_setCol_self d w1 hr (by omega)]
    interval_cases r <;> rfl
  · rw [get_setCol_other d (by omega), get_setCol_self d w2 hr (by omega)]
    interval_cases r <;> rfl
  · rw [get_setCol_self d w3 hr (by omega)]
    interval_cases r <;> rfl

end Mat

namespace Equiv

/-- The value-level traversal fold for `up` agrees with the grid
engine's `move`. -/
theorem fold_move_up (g : GridGame.Grid) (hg : Mat.WF g) :
    ((pairsFor .up).foldl (vstep (-1) 0)
        ⟨g, TileGame.emptyMGrid, 0, false, false⟩).grid
      = (GridGame.move g .up).grid ∧
    ((pairsFor .up).foldl (vstep (-1) 0)
        ⟨g, TileGame.emptyMGrid, 0, false, false⟩).score
      = (GridGame.move g .up).score ∧
    ((pairsFor .up).foldl (vstep (-1) 0)
        ⟨g, TileGame.emptyMGrid, 0, false, false⟩).anyMoved
      = (GridGame.move g .up).moved ∧
    ((pairsFor .up).foldl (vstep (-1) 0)
        ⟨g, TileGame.emptyMGrid, 0, false, false⟩).anyMerged
      = (GridGame.move g .up).merged := by
  obtain ⟨hlen, hrows⟩ := hg
  rcases g with _ | ⟨R0, _ | ⟨R1, _ | ⟨R2, _ | ⟨R3, _ | ⟨R4, t⟩⟩⟩⟩⟩ <;>
    simp only [List.length_cons, List.length_nil] at hlen <;> try omega
  have h0 : R0.length = 4 := hrows R0 (by simp)
  have h1 : R1.length = 4 := hrows R1 (by simp)
  have h2 : R2.length = 4 := hrows R2 (by simp)
  have h3 : R3.length = 4 := hrows R3 (by simp)
  clear hrows
  rcases R0 with _ | ⟨a00, _ | ⟨a01, _ | ⟨a02, _ | ⟨a03, _ | ⟨a04, t0⟩⟩⟩⟩⟩ <;>
    simp only [List.length_cons, List.length_nil] at h0 <;> try omega
  rcases R1 with _ | ⟨a10, _ | ⟨a11, _ | ⟨a12, _ | ⟨a13, _ | ⟨a14, t1⟩⟩⟩⟩⟩ <;>
    simp only [List.length_cons, List.length_nil] at h1 <;> try omega
  rcases R2 with _ | ⟨a20, _ | ⟨a21, _ | ⟨a22, _ | ⟨a23, _ | ⟨a24, t2⟩⟩⟩⟩⟩ <;>
    simp only [List.length_cons, List.length_nil] at h2 <;> try omega
  rcases R3 with _ | ⟨a30, _ | ⟨a31, _ | ⟨a32, _ | ⟨a33, _ | ⟨a34, t3⟩⟩⟩⟩⟩ <;>
    simp only [List.length_cons, List.length_nil] at h3 <;> try omega
  clear h0 h1 h2 h3
  have e0 := lineL_spec4 (show ([a00, a10, a20, a30] : List (Option Nat)).length = 4 from rfl) 0 false false
  have e1 := lineL_spec4 (show ([a01, a11, a21, a31] : List (Option Nat)).length = 4 from rfl) (lfold (-1) ⟨[a00, a10, a20, a30], [false, false, false, false], 0, false, false⟩ [0, 1, 2, 3]).score (lfold (-1) ⟨[a00, a10, a20, a30], [false, false, false, false], 0, false, false⟩ [0, 1, 2, 3]).anyMoved (lfold (-1) ⟨[a00, a10, a20, a30], [false, false, false, false], 0, false, false⟩ [0, 1, 2, 3]).anyMerged
  have e2 := lineL_spec4 (show ([a02, a12, a22, a32] : List (Option Nat)).length = 4 from rfl) (lfold (-1) ⟨[a01, a11, a21, a31], [false, false, false, false], (lfold (-1) ⟨[a00, a10, a20, a30], [false, false, false, false], 0, false, false⟩ [0, 1, 2, 3]).score, (lfold (-1) ⟨[a00, a10, a20, a30], [false, false, false, false], 0, false, false⟩ [0, 1, 2, 3]).anyMoved, (lfold (-1) ⟨[a00, a10, a20, a30], [false, false, false, false], 0, false, false⟩ [0, 1, 2, 3]).anyMerged⟩ [0, 1, 2, 3]).score (lfold (-1) ⟨[a01, a11, a21, a31], [false, false, false, false], (lfold (-1) ⟨[a00, a10, a20, a30], [false, false, false, false], 0, false, false⟩ [0, 1, 2, 3]).score, (lfold (-1) ⟨[a00, a10, a20, a30], [false, false, false, false], 0, false, false⟩ [0, 1, 2, 3]).anyMoved, (lfold (-1) ⟨[a00, a10, a20, a30], [false, false, false, false], 0, false, false⟩ [0, 1, 2, 3]).anyMerged⟩ [0, 1, 2, 3]).anyMoved (lfold (-1) ⟨[a01, a11, a21, a31], [false, false, false, false], (lfold (-1) ⟨[a00, a10, a20, a30], [false, false, false, false], 0, false, false⟩ [0, 1, 2, 3]).score, (lfold (-1) ⟨[a00, a10, a20, a30], [false, false, false, false], 0, false, false⟩ [0, 1, 2, 3]).anyMoved, (lfold (-1) ⟨[a00, a10, a20, a30], [false, false, false, false], 0, false, false⟩ [0, 1, 2, 3]).anyMerged⟩ [0, 1, 2, 3]).anyMerged
  have e3 := lineL_spec4 (show ([a03, a13, a23, a33] : List (Option Nat)).length = 4 from rfl) (lfold (-1) ⟨[a02, a12, a22, a32], [false, false, false, false], (lfold (-1) ⟨[a01, a11, a21, a31], [false, false, false, false], (lfold (-1) ⟨[a00, a10, a20, a30], [false, false, false, false], 0, false, false⟩ [0, 1, 2, 3]).score, (lfold (-1) ⟨[a00, a10, a20, a30], [false, false, false, false], 0, false, false⟩ [0, 1, 2, 3]).anyMoved, (lfold (-1) ⟨[a00, a10, a20, a30], [false, false, false, false], 0, false, false⟩ [0, 1, 2, 3]).anyMerged⟩ [0, 1, 2, 3]).score, (lfold (-1) ⟨[a01, a11, a21, a31], [false, false, false, false], (lfold (-1) ⟨[a00, a10, a20, a30], [false, false, false, false], 0, false, false⟩ [0, 1, 2, 3]).score, (lfold (-1) ⟨[a00, a10, a20, a30], [false, false, false, false], 0, false, false⟩ [0, 1, 2, 3]).anyMoved, (lfold (-1) ⟨[a00, a10, a20, a30], [false, false, false, false], 0, false, false⟩ [0, 1, 2, 3]).anyMerged⟩ [0, 1, 2, 3]).anyMoved, (lfold (-1) ⟨[a01, a11, a21, a31], [false, false, false, false], (lfold (-1) ⟨[a00, a10, a20, a30], [false, false, false, false], 0, false, false⟩ [0, 1, 2, 3]).score, (lfold (-1) ⟨[a00, a10, a20, a30], [false, false, false, false], 0, false, false⟩ [0, 1, 2, 3]).anyMoved, (lfold (-1) ⟨[a00, a10, a20, a30], [false, false, false, false], 0, false, false⟩ [0, 1, 2, 3]).anyMerged⟩ [0, 1, 2, 3]).anyMerged⟩ [0, 1, 2, 3]).score (lfold (-1) ⟨[a02, a12, a22, a32], [false, false, false, false], (lfold (-1) ⟨[a01, a11, a21, a31], [false, false, false, false], (lfold (-1) ⟨[a00, a10, a20, a30], [false, false, false, false], 0, false, false⟩ [0, 1, 2, 3]).score, (lfold (-1) ⟨[a00, a10, a20, a30], [false, false, false, false], 0, false, false⟩ [0, 1, 2, 3]).anyMoved, (lfold (-1) ⟨[a00, a10, a20, a30], [false, false, false, false], 0, false, false⟩ [0, 1, 2, 3]).anyMerged⟩ [0, 1, 2, 3]).score, (lfold (-1) ⟨[a01, a11, a21, a31], [false, false, false, false], (lfold (-1) ⟨[a00, a10, a20, a30], [false, false, false, false], 0, false, false⟩ [0, 1, 2, 3]).score, (lfold (-1) ⟨[a00, a10, a20, a30], [false, false, false, false], 0, false, false⟩ [0, 1, 2, 3]).anyMoved, (lfold (-1) ⟨[a00, a10, a20, a30], [false, false, false, false], 0, false, false⟩ [0, 1, 2, 3]).anyMerged⟩ [0, 1, 2, 3]).anyMoved, (lfold (-1) ⟨[a01, a11, a21, a31], [false, false, false, false], (lfold (-1) ⟨[a00, a10, a20, a30], [false, false, false, false], 0, false, false⟩ [0, 1, 2, 3]).score, (lfold (-1) ⟨[a00, a10, a20, a30], [false, false, false, false], 0, false, false⟩ [0, 1, 2, 3]).anyMoved, (lfold (-1) ⟨[a00, a10, a20, a30], [false, false, false, false], 0, false, false⟩ [0, 1, 2, 3]).anyMerged⟩ [0, 1, 2, 3]).anyMerged⟩ [0, 1, 2, 3]).anyMoved (lfold (-1) ⟨[a02, a12, a22, a32], [false, false, false, false], (lfold (-1) ⟨[a01, a11, a21, a31], [false, false, false, false], (lfold (-1) ⟨[a00, a10, a20, a30], [false, false, false, false], 0, false, false⟩ [0, 1, 2, 3]).score, (lfold (-1) ⟨[a00, a10, a20, a30], [false, false, false, false], 0, false, false⟩ [0, 1, 2, 3]).anyMoved, (lfold (-1) ⟨[a00, a10, a20, a30], [false, false, false, false], 0, false, false⟩ [0, 1, 2, 3]).anyMerged⟩ [0, 1, 2, 3]).score, (lfold (-1) ⟨[a01, a11, a21, a31], [false, false, false, false], (lfold (-1) ⟨[a00, a10, a20, a30], [false, false, false, false], 0, false, false⟩ [0, 1, 2, 3]).score, (lfold (-1) ⟨[a00, a10, a20, a30], [false, false, false, false], 0, false, false⟩ [0, 1, 2, 3]).anyMoved, (lfold (-1) ⟨[a00, a10, a20, a30], [false, false, false, false], 0, false, false⟩ [0, 1, 2, 3]).anyMerged⟩ [0, 1, 2, 3]).anyMoved, (lfold (-1) ⟨[a01, a11, a21, a31], [false, false, false, false], (lfold (-1) ⟨[a00, a10, a20, a30], [false, false, false, false], 0, false, false⟩ [0, 1, 2, 3]).score, (lfold (-1) ⟨[a00, a10, a20, a30], [false, false, false, false], 0, false, false⟩ [0, 1, 2, 3]).anyMoved, (lfold (-1) ⟨[a00, a10, a20, a30], [false, false, false, false], 0, false, false⟩ [0, 1, 2, 3]).anyMerged⟩ [0, 1, 2, 3]).anyMerged⟩ [0, 1, 2, 3]).anyMerged
  have wg0 : Mat.WF [[a00, a01, a02, a03], [a10, a11, a12, a13], [a20, a21, a22, a23], [a30, a31, a32, a33]] := by
    refine ⟨rfl, ?_⟩
    intro row hrow
    simp only [List.mem_cons, List.not_mem_nil, or_false] at hrow
    rcases hrow with rfl | rfl | rfl | rfl <;> rfl
  have wm0 : Mat.WF TileGame.emptyMGrid :=
    ⟨rfl, fun row hrow => by rw [List.eq_of_mem_replicate hrow]; rfl⟩
  have wg1 : Mat.WF (Mat.setCol [[a00, a01, a02, a03], [a10, a11, a12, a13], [a20, a21, a22, a23], [a30, a31, a32, a33]] none 0 (lfold (-1) ⟨[a00, a10, a20, a30], [false, false, false, false], 0, false, false⟩ [0, 1, 2, 3]).line) := Mat.WF_setCol none wg0 0 _
  have wm1 : Mat.WF (Mat.setCol TileGame.emptyMGrid false 0 (lfold (-1) ⟨[a00, a10, a20, a30], [false, false, false, false], 0, false, false⟩ [0, 1, 2, 3]).marks) := Mat.WF_setCol false wm0 0 _
  have wg2 : Mat.WF (Mat.setCol (Mat.setCol [[a00, a01, a02, a03], [a10, a11, a12, a13], [a20, a21, a22, a23], [a30, a31, a32, a33]] none 0 (lfold (-1) ⟨[a00, a10, a20, a30], [false, false, false, false], 0, false, false⟩ [0, 1, 2, 3]).line) none 1 (lfold (-1) ⟨[a01, a11, a21, a31], [false, false, false, false], (lfold (-1) ⟨[a00, a10, a20, a30], [false, false, false, false], 0, false, false⟩ [0, 1, 2, 3]).score, (lfold (-1) ⟨[a00, a10, a20, a30], [false, false, false, false], 0, false, false⟩ [0, 1, 2, 3]).anyMoved, (lfold (-1) ⟨[a00, a10, a20, a30], [false, false, false, false], 0, false, false⟩ [0, 1, 2, 3]).anyMerged⟩ [0, 1, 2, 3]).line) := Mat.WF_setCol none wg1 1 _
  have wm2 : Mat.WF (Mat.setCol (Mat.setCol TileGame.emptyMGrid false 0 (lfold (-1) ⟨[a00, a10, a20, a30], [false, false, false, false], 0, false, false⟩ [0, 1, 2, 3]).marks) false 1 (lfold (-1) ⟨[a01, a11, a21, a31], [false, false, false, false], (lfold (-1) ⟨[a00, a10, a20, a30], [false, false, false, false], 0, false, false⟩ [0, 1, 2, 3]).score, (lfold (-1) ⟨[a00, a10, a20, a30], [false, false, false, false], 0, false, false⟩ [0, 1, 2, 3]).anyMoved, (lfold (-1) ⟨[a00, a10, a20, a30], [false, false, false, false], 0, false, false⟩ [0, 1, 2, 3]).anyMerged⟩ [0, 1, 2, 3]).marks) := Mat.WF_setCol false wm1 1 _
  have wg3 : Mat.WF (Mat.setCol (Mat.setCol (Mat.setCol [[a00, a01, a02, a03], [a10, a11, a12, a13], [a20, a21, a22, a23], [a30, a31, a32, a33]] none 0 (lfold (-1) ⟨[a00, a10, a20, a30], [false, false, false, false], 0, false, false⟩ [0, 1, 2, 3]).line) none 1 (lfold (-1) ⟨[a01, a11, a21, a31], [false, false, false, false], (lfold (-1) ⟨[a00, a10, a20, a30], [false, false, false, false], 0, false, false⟩ [0, 1, 2, 3]).score, (lfold (-1) ⟨[a00, a10, a20, a30], [false, false, false, false], 0, false, false⟩ [0, 1, 2, 3]).anyMoved, (lfold (-1) ⟨[a00, a10, a20, a30], [false, false, false, false], 0, false, false⟩ [0, 1, 2, 3]).anyMerged⟩ [0, 1, 2, 3]).line) none 2 (lfold (-1) ⟨[a02, a12, a22, a32], [false, false, false, false], (lfold (-1) ⟨[a01, a11, a21, a31], [false, false, false, false], (lfold (-1) ⟨[a00, a10, a20, a30], [false, false, false, false], 0, false, false⟩ [0, 1, 2, 3]).score, (lfold (-1) ⟨[a00, a10, a20, a30], [false, false, false, false], 0, false, false⟩ [0, 1, 2, 3]).anyMoved, (lfold (-1) ⟨[a00, a10, a20, a30], [false, false, false, false], 0, false, false⟩ [0, 1, 2, 3]).anyMerged⟩ [0, 1, 2, 3]).score, (lfold (-1) ⟨[a01, a11, a21, a31], [false, false, false, false], (lfold (-1) ⟨[a00, a10, a20, a30], [false, false, false, false], 0, false, false⟩ [0, 1, 2, 3]).score, (lfold (-1) ⟨[a00, a10, a20, a30], [false, false, false, false], 0, false, false⟩ [0, 1, 2, 3]).anyMoved, (lfold (-1) ⟨[a00, a10, a20, a30], [false, false, false, false], 0, false, false⟩ [0, 1, 2, 3]).anyMerged⟩ [0, 1, 2, 3]).anyMoved, (lfold (-1) ⟨[a01, a11, a21, a31], [false, false, false, false], (lfold (-1) ⟨[a00, a10, a20, a30], [false, false, false, false], 0, false, false⟩ [0, 1, 2, 3]).score, (lfold (-1) ⟨[a00, a10, a20, a30], [false, false, false, false], 0, false, false⟩ [0, 1, 2, 3]).anyMoved, (lfold (-1) ⟨[a00, a10, a20, a30], [false, false, false, false], 0, false, false⟩ [0, 1, 2, 3]).anyMerged⟩ [0, 1, 2, 3]).anyMerged⟩ [0, 1, 2, 3]).line) := Mat.WF_setCol none wg2 2 _
  have wm3 : Mat.WF (Mat.setCol (Mat.setCol (Mat.setCol TileGame.emptyMGrid false 0 (lfold (-1) ⟨[a00, a10, a20, a30], [false, false, false, false], 0, false, false⟩ [0, 1, 2, 3]).marks) false 1 (lfold (-1) ⟨[a01, a11, a21, a31], [false, false, false, false], (lfold (-1) ⟨[a00, a10, a20, a30], [false, false, false, false], 0, false, false⟩ [0, 1, 2, 3]).score, (lfold (-1) ⟨[a00, a10, a20, a30], [false, false, false, false], 0, false, false⟩ [0, 1, 2, 3]).anyMoved, (lfold (-1) ⟨[a00, a10, a20, a30], [false, false, false, false], 0, false, false⟩ [0, 1, 2, 3]).anyMerged⟩ [0, 1, 2, 3]).marks) false 2 (lfold (-1) ⟨[a02, a12, a22, a32], [false, false, false, false], (lfold (-1) ⟨[a01, a11, a21, a31], [false, false, false, false], (lfold (-1) ⟨[a00, a10, a20, a30], [false, false, false, false], 0, false, false⟩ [0, 1, 2, 3]).score, (lfold (-1) ⟨[a00, a10, a20, a30], [false, false, false, false], 0, false, false⟩ [0, 1, 2, 3]).anyMoved, (lfold (-1) ⟨[a00, a10, a20, a30], [false, false, false, false], 0, false, false⟩ [0, 1, 2, 3]).anyMerged⟩ [0, 1, 2, 3]).score, (lfold (-1) ⟨[a01, a11, a21, a31], [false, false, false, false], (lfold (-1) ⟨[a00, a10, a20, a30], [false, false, false, false], 0, false, false⟩ [0, 1, 2, 3]).score, (lfold (-1) ⟨[a00, a10, a20, a30], [false, false, false, false], 0, false, false⟩ [0, 1, 2, 3]).anyMoved, (lfold (-1) ⟨[a00, a10, a20, a30], [false, false, false, false], 0, false, false⟩ [0, 1, 2, 3]).anyMerged⟩ [0, 1, 2, 3]).anyMoved, (lfold (-1) ⟨[a01, a11, a21, a31], [false, false, false, false], (lfold (-1) ⟨[a00, a10, a20, a30], [false, false, false, false], 0, false, false⟩ [0, 1, 2, 3]).score, (lfold (-1) ⟨[a00, a10, a20, a30], [false, false, false, false], 0, false, false⟩ [0, 1, 2, 3]).anyMoved, (lfold (-1) ⟨[a00, a10, a20, a30], [false, false, false, false], 0, false, false⟩ [0, 1, 2, 3]).anyMerged⟩ [0, 1, 2, 3]).anyMerged⟩ [0, 1, 2, 3]).marks) := Mat.WF_setCol false wm2 2 _
  have wg4 : Mat.WF (Mat.setCol (Mat.setCol (Mat.setCol (Mat.setCol [[a00, a01, a02, a03], [a10, a11, a12, a13], [a20, a21, a22, a23], [a30, a31, a32, a33]] none 0 (lfold (-1) ⟨[a00, a10, a20, a30], [false, false, false, false], 0, false, false⟩ [0, 1, 2, 3]).line) none 1 (lfold (-1) ⟨[a01, a11, a21, a31], [false, false, false, false], (lfold (-1) ⟨[a00, a10, a20, a30], [false, false, false, false], 0, false, false⟩ [0, 1, 2, 3]).score, (lfold (-1) ⟨[a00, a10, a20, a30], [false, false, false, false], 0, false, false⟩ [0, 1, 2, 3]).anyMoved, (lfold (-1) ⟨[a00, a10, a20, a30], [false, false, false, false], 0, false, false⟩ [0, 1, 2, 3]).anyMerged⟩ [0, 1, 2, 3]).line) none 2 (lfold (-1) ⟨[a02, a12, a22, a32], [false, false, false, false], (lfold (-1) ⟨[a01, a11, a21, a31], [false, false, false, false], (lfold (-1) ⟨[a00, a10, a20, a30], [false, false, false, false], 0, false, false⟩ [0, 1, 2, 3]).score, (lfold (-1) ⟨[a00, a10, a20, a30], [false, false, false, false], 0, false, false⟩ [0, 1, 2, 3]).anyMoved, (lfold (-1) ⟨[a00, a10, a20, a30], [false, false, false, false], 0, false, false⟩ [0, 1, 2, 3]).anyMerged⟩ [0, 1, 2, 3]).score, (lfold (-1) ⟨[a01, a11, a21, a31], [false, false, false, false], (lfold (-1) ⟨[a00, a10, a20, a30], [false, false, false, false], 0, false, false⟩ [0, 1, 2, 3]).score, (lfold (-1) ⟨[a00, a10, a20, a30], [false, false, false, false], 0, false, false⟩ [0, 1, 2, 3]).anyMoved, (lfold (-1) ⟨[a00, a10, a20, a30], [false, false, false, false], 0, false, false⟩ [0, 1, 2, 3]).anyMerged⟩ [0, 1, 2, 3]).anyMoved, (lfold (-1) ⟨[a01, a11, a21, a31], [false, false, false, false], (lfold (-1) ⟨[a00, a10, a20, a30], [false, false, false, false], 0, false, false⟩ [0, 1, 2, 3]).score, (lfold (-1) ⟨[a00, a10, a20, a30], [false, false, false, false], 0, false, false⟩ [0, 1, 2, 3]).anyMoved, (lfold (-1) ⟨[a00, a10, a20, a30], [false, false, false, false], 0, false, false⟩ [0, 1, 2, 3]).anyMerged⟩ [0, 1, 2, 3]).anyMerged⟩ [0, 1, 2, 3]).line) none 3 (lfold (-1) ⟨[a03, a13, a23, a33], [false, false, false, false], (lfold (-1) ⟨[a02, a12, a22, a32], [false, false, false, false], (lfold (-1) ⟨[a01, a11, a21, a31], [false, false, false, false], (lfold (-1) ⟨[a00, a10, a20, a30], [false, false, false, false], 0, false, false⟩ [0, 1, 2, 3]).score, (lfold (-1) ⟨[a00, a10, a20, a30], [false, false, false, false], 0, false, false⟩ [0, 1, 2, 3]).anyMoved, (lfold (-1) ⟨[a00, a10, a20, a30], [false, false, false, false], 0, false, false⟩ [0, 1, 2, 3]).anyMerged⟩ [0, 1, 2, 3]).score, (lfold (-1) ⟨[a01, a11, a21, a31], [false, false, false, false], (lfold (-1) ⟨[a00, a10, a20, a30], [false, false, false, false], 0, false, false⟩ [0, 1, 2, 3]).score, (lfold (-1) ⟨[a00, a10, a20, a30], [false, false, false, false], 0, false, false⟩ [0, 1, 2, 3]).anyMoved, (lfold (-1) ⟨[a00, a10, a20, a30], [false, false, false, false], 0, false, false⟩ [0, 1, 2, 3]).anyMerged⟩ [0, 1, 2, 3]).anyMoved, (lfold (-1) ⟨[a01, a11, a21, a31], [false, false, false, false], (lfold (-1) ⟨[a00, a10, a20, a30], [false, false, false, false], 0, false, false⟩ [0, 1, 2, 3]).score, (lfold (-1) ⟨[a00, a10, a20, a30], [false, false, false, false], 0, false, false⟩ [0, 1, 2, 3]).anyMoved, (lfold (-1) ⟨[a00, a10, a20, a30], [false, false, false, false], 0, false, false⟩ [0, 1, 2, 3]).anyMerged⟩ [0, 1, 2, 3]).anyMerged⟩ [0, 1, 2, 3]).score, (lfold (-1) ⟨[a02, a12, a22, a32], [false, false, false, false], (lfold (-1) ⟨[a01, a11, a21, a31], [false, false, false, false], (lfold (-1) ⟨[a00, a10, a20, a30], [false, false, false, false], 0, false, false⟩ [0, 1, 2, 3]).score, (lfold (-1) ⟨[a00, a10, a20, a30], [false, false, false, false], 0, false, false⟩ [0, 1, 2, 3]).anyMoved, (lfold (-1) ⟨[a00, a10, a20, a30], [false, false, false, false], 0, false, false⟩ [0, 1, 2, 3]).anyMerged⟩ [0, 1, 2, 3]).score, (lfold (-1) ⟨[a01, a11, a21, a31], [false, false, false, false], (lfold (-1) ⟨[a00, a10, a20, a30], [false, false, false, false], 0, false, false⟩ [0, 1, 2, 3]).score, (lfold (-1) ⟨[a00, a10, a20, a30], [false, false, false, false], 0, false, false⟩ [0, 1, 2, 3]).anyMoved, (lfold (-1) ⟨[a00, a10, a20, a30], [false, false, false, false], 0, false, false⟩ [0, 1, 2, 3]).anyMerged⟩ [0, 1, 2, 3]).anyMoved, (lfold (-1) ⟨[a01, a11, a21, a31], [false, false, false, false], (lfold (-1) ⟨[a00, a10, a20, a30], [false, false, false, false], 0, false, false⟩ [0, 1, 2, 3]).score, (lfold (-1) ⟨[a00, a10, a20, a30], [false, false, false, false], 0, false, false⟩ [0, 1, 2, 3]).anyMoved, (lfold (-1) ⟨[a00, a10, a20, a30], [false, false, false, false], 0, false, false⟩ [0, 1, 2, 3]).anyMerged⟩ [0, 1, 2, 3]).anyMerged⟩ [0, 1, 2, 3]).anyMoved, (lfold (-1) ⟨[a02, a12, a22, a32], [false, false, false, false], (lfold (-1) ⟨[a01, a11, a21, a31], [false, false, false, false], (lfold (-1) ⟨[a00, a10, a20, a30], [false, false, false, false], 0, false, false⟩ [0, 1, 2, 3]).score, (lfold (-1) ⟨[a00, a10, a20, a30], [false, false, false, false], 0, false, false⟩ [0, 1, 2, 3]).anyMoved, (lfold (-1) ⟨[a00, a10, a20, a30], [false, false, false, false], 0, false, false⟩ [0, 1, 2, 3]).anyMerged⟩ [0, 1, 2, 3]).score, (lfold (-1) ⟨[a01, a11, a21, a31], [false, false, false, false], (lfold (-1) ⟨[a00, a10, a20, a30], [false, false, false, false], 0, false, false⟩ [0, 1, 2, 3]).score, (lfold (-1) ⟨[a00, a10, a20, a30], [false, false, false, false], 0, false, false⟩ [0, 1, 2, 3]).anyMoved, (lfold (-1) ⟨[a00, a10, a20, a30], [false, false, false, false], 0, false, false⟩ [0, 1, 2, 3]).anyMerged⟩ [0, 1, 2, 3]).anyMoved, (lfold (-1) ⟨[a01, a11, a21, a31], [false, false, false, false], (lfold (-1) ⟨[a00, a10, a20, a30], [false, false, false, false], 0, false, false⟩ [0, 1, 2, 3]).score, (lfold (-1) ⟨[a00, a10, a20, a30], [false, false, false, false], 0, false, false⟩ [0, 1, 2, 3]).anyMoved, (lfold (-1) ⟨[a00, a10, a20, a30], [false, false, false, false], 0, false, false⟩ [0, 1, 2, 3]).anyMerged⟩ [0, 1, 2, 3]).anyMerged⟩ [0, 1, 2, 3]).anyMerged⟩ [0, 1, 2, 3]).line) := Mat.WF_setCol none wg3 3 _
  have wm4 : Mat.WF (Mat.setCol (Mat.setCol (Mat.setCol (Mat.setCol TileGame.emptyMGrid false 0 (lfold (-1) ⟨[a00, a10, a20, a30], [false, false, false, false], 0, false, false⟩ [0, 1, 2, 3]).marks) false 1 (lfold (-1) ⟨[a01, a11, a21, a31], [false, false, false, false], (lfold (-1) ⟨[a00, a10, a20, a30], [false, false, false, false], 0, false, false⟩ [0, 1, 2, 3]).score, (lfold (-1) ⟨[a00, a10, a20, a30], [false, false, false, false], 0, false, false⟩ [0, 1, 2, 3]).anyMoved, (lfold (-1) ⟨[a00, a10, a20, a30], [false, false, false, false], 0, false, false⟩ [0, 1, 2, 3]).anyMerged⟩ [0, 1, 2, 3]).marks) false 2 (lfold (-1) ⟨[a02, a12, a22, a32], [false, false, false, false], (lfold (-1) ⟨[a01, a11, a21, a31], [false, false, false, false], (lfold (-1) ⟨[a00, a10, a20, a30], [false, false, false, false], 0, false, false⟩ [0, 1, 2, 3]).score, (lfold (-1) ⟨[a00, a10, a20, a30], [false, false, false, false], 0, false, false⟩ [0, 1, 2, 3]).anyMoved, (lfold (-1) ⟨[a00, a10, a20, a30], [false, false, false, false], 0, false, false⟩ [0, 1, 2, 3]).anyMerged⟩ [0, 1, 2, 3]).score, (lfold (-1) ⟨[a01, a11, a21, a31], [false, false, false, false], (lfold (-1) ⟨[a00, a10, a20, a30], [false, false, false, false], 0, false, false⟩ [0, 1, 2, 3]).score, (lfold (-1) ⟨[a00, a10, a20, a30], [false, false, false, false], 0, false, false⟩ [0, 1, 2, 3]).anyMoved, (lfold (-1) ⟨[a00, a10, a20, a30], [false, false, false, false], 0, false, false⟩ [0, 1, 2, 3]).anyMerged⟩ [0, 1, 2, 3]).anyMoved, (lfold (-1) ⟨[a01, a11, a21, a31], [false, false, false, false], (lfold (-1) ⟨[a00, a10, a20, a30], [false, false, false, false], 0, false, false⟩ [0, 1, 2, 3]).score, (lfold (-1) ⟨[a00, a10, a20, a30], [false, false, false, false], 0, false, false⟩ [0, 1, 2, 3]).anyMoved, (lfold (-1) ⟨[a00, a10, a20, a30], [false, false, false, false], 0, false, false⟩ [0, 1, 2, 3]).anyMerged⟩ [0, 1, 2, 3]).anyMerged⟩ [0, 1, 2, 3]).marks) false 3 (lfold (-1) ⟨[a03, a13, a23, a33], [false, false, false, false], (lfold (-1) ⟨[a02, a12, a22, a32], [false, false, false, false], (lfold (-1) ⟨[a01, a11, a21, a31], [false, false, false, false], (lfold (-1) ⟨[a00, a10, a20, a30], [false, false, false, false], 0, false, false⟩ [0, 1, 2, 3]).score, (lfold (-1) ⟨[a00, a10, a20, a30], [false, false, false, false], 0, false, false⟩ [0, 1, 2, 3]).anyMoved, (lfold (-1) ⟨[a00, a10, a20, a30], [false, false, false, false], 0, false, false⟩ [0, 1, 2, 3]).anyMerged⟩ [0, 1, 2, 3]).score, (lfold (-1) ⟨[a01, a11, a21, a31], [false, false, false, false], (lfold (-1) ⟨[a00, a10, a20, a30], [false, false, false, false], 0, false, false⟩ [0, 1, 2, 3]).score, (lfold (-1) ⟨[a00, a10, a20, a30], [false, false, false, false], 0, false, false⟩ [0, 1, 2, 3]).anyMoved, (lfold (-1) ⟨[a00, a10, a20, a30], [false, false, false, false], 0, false, false⟩ [0, 1, 2, 3]).anyMerged⟩ [0, 1, 2, 3]).anyMoved, (lfold (-1) ⟨[a01, a11, a21, a31], [false, false, false, false], (lfold (-1) ⟨[a00, a10, a20, a30], [false, false, false, false], 0, false, false⟩ [0, 1, 2, 3]).score, (lfold (-1) ⟨[a00, a10, a20, a30], [false, false, false, false], 0, false, false⟩ [0, 1, 2, 3]).anyMoved, (lfold (-1) ⟨[a00, a10, a20, a30], [false, false, false, false], 0, false, false⟩ [0, 1, 2, 3]).anyMerged⟩ [0, 1, 2, 3]).anyMerged⟩ [0, 1, 2, 3]).score, (lfold (-1) ⟨[a02, a12, a22, a32], [false, false, false, false], (lfold (-1) ⟨[a01, a11, a21, a31], [false, false, false, false], (lfold (-1) ⟨[a00, a10, a20, a30], [false, false, false, false], 0, false, false⟩ [0, 1, 2, 3]).score, (lfold (-1) ⟨[a00, a10, a20, a30], [false, false, false, false], 0, false, false⟩ [0, 1, 2, 3]).anyMoved, (lfold (-1) ⟨[a00, a10, a20, a30], [false, false, false, false], 0, false, false⟩ [0, 1, 2, 3]).anyMerged⟩ [0, 1, 2, 3]).score, (lfold (-1) ⟨[a01, a11, a21, a31], [false, false, false, false], (lfold (-1) ⟨[a00, a10, a20, a30], [false, false, false, false], 0, false, false⟩ [0, 1, 2, 3]).score, (lfold (-1) ⟨[a00, a10, a20, a30], [false, false, false, false], 0, false, false⟩ [0, 1, 2, 3]).anyMoved, (lfold (-1) ⟨[a00, a10, a20, a30], [false, false, false, false], 0, false, false⟩ [0, 1, 2, 3]).anyMerged⟩ [0, 1, 2, 3]).anyMoved, (lfold (-1) ⟨[a01, a11, a21, a31], [false, false, false, false], (lfold (-1) ⟨[a00, a10, a20, a30], [false, false, false, false], 0, false, false⟩ [0, 1, 2, 3]).score, (lfold (-1) ⟨[a00, a10, a20, a30], [false, false, false, false], 0, false, false⟩ [0, 1, 2, 3]).anyMoved, (lfold (-1) ⟨[a00, a10, a20, a30], [false, false, false, false], 0, false, false⟩ [0, 1, 2, 3]).anyMerged⟩ [0, 1, 2, 3]).anyMerged⟩ [0, 1, 2, 3]).anyMoved, (lfold (-1) ⟨[a02, a12, a22, a32], [false, false, false, false], (lfold (-1) ⟨[a01, a11, a21, a31], [false, false, false, false], (lfold (-1) ⟨[a00, a10, a20, a30], [false, false, false, false], 0, false, false⟩ [0, 1, 2, 3]).score, (lfold (-1) ⟨[a00, a10, a20, a30], [false, false, false, false], 0, false, false⟩ [0, 1, 2, 3]).anyMoved, (lfold (-1) ⟨[a00, a10, a20, a30], [false, false, false, false], 0, false, false⟩ [0, 1, 2, 3]).anyMerged⟩ [0, 1, 2, 3]).score, (lfold (-1) ⟨[a01, a11, a21, a31], [false, false, false, false], (lfold (-1) ⟨[a00, a10, a20, a30], [false, false, false, false], 0, false, false⟩ [0, 1, 2, 3]).score, (lfold (-1) ⟨[a00, a10, a20, a30], [false, false, false, false], 0, false, false⟩ [0, 1, 2, 3]).anyMoved, (lfold (-1) ⟨[a00, a10, a20, a30], [false, false, false, false], 0, false, false⟩ [0, 1, 2, 3]).anyMerged⟩ [0, 1, 2, 3]).anyMoved, (lfold (-1) ⟨[a01, a11, a21, a31], [false, false, false, false], (lfold (-1) ⟨[a00, a10, a20, a30], [false, false, false, false], 0, false, false⟩ [0, 1, 2, 3]).score, (lfold (-1) ⟨[a00, a10, a20, a30], [false, false, false, false], 0, false, false⟩ [0, 1, 2, 3]).anyMoved, (lfold (-1) ⟨[a00, a10, a20, a30], [false, false, false, false], 0, false, false⟩ [0, 1, 2, 3]).anyMerged⟩ [0, 1, 2, 3]).anyMerged⟩ [0, 1, 2, 3]).anyMerged⟩ [0, 1, 2, 3]).marks) := Mat.WF_setCol false wm3 3 _
  have hb0 : List.foldl (vstep (-1) 0) ⟨[[a00, a01, a02, a03], [a10, a11, a12, a13], [a20, a21, a22, a23], [a30, a31, a32, a33]], TileGame.emptyMGrid, 0, false, false⟩
      (([0, 1, 2, 3] : List Nat).map fun r => (r, (0 : Nat))) = ⟨(Mat.setCol [[a00, a01, a02, a03], [a10, a11, a12, a13], [a20, a21, a22, a23], [a30, a31, a32, a33]] none 0 (lfold (-1) ⟨[a00, a10, a20, a30], [false, false, false, false], 0, false, false⟩ [0, 1, 2, 3]).line), (Mat.setCol TileGame.emptyMGrid false 0 (lfold (-1) ⟨[a00, a10, a20, a30], [false, false, false, false], 0, false, false⟩ [0, 1, 2, 3]).marks), (lfold (-1) ⟨[a00, a10, a20, a30], [false, false, false, false], 0, false, false⟩ [0, 1, 2, 3]).score, (lfold (-1) ⟨[a00, a10, a20, a30], [false, false, false, false], 0, false, false⟩ [0, 1, 2, 3]).anyMoved, (lfold (-1) ⟨[a00, a10, a20, a30], [false, false, false, false], 0, false, false⟩ [0, 1, 2, 3]).anyMerged⟩ := by
    rw [vfold_col (-1) [0, 1, 2, 3] ⟨[[a00, a01, a02, a03], [a10, a11, a12, a13], [a20, a21, a22, a23], [a30, a31, a32, a33]], TileGame.emptyMGrid, 0, false, false⟩ 0 (by omega) (by decide) wg0 wm0]
    rfl
  have hb1 : List.foldl (vstep (-1) 0) ⟨(Mat.setCol [[a00, a01, a02, a03], [a10, a11, a12, a13], [a20, a21, a22, a23], [a30, a31, a32, a33]] none 0 (lfold (-1) ⟨[a00, a10, a20, a30], [false, false, false, false], 0, false, false⟩ [0, 1, 2, 3]).line), (Mat.setCol TileGame.emptyMGrid false 0 (lfold (-1) ⟨[a00, a10, a20, a30], [false, false, false, false], 0, false, false⟩ [0, 1, 2, 3]).marks), (lfold (-1) ⟨[a00, a10, a20, a30], [false, false, false, false], 0, false, false⟩ [0, 1, 2, 3]).score, (lfold (-1) ⟨[a00, a10, a20, a30], [false, false, false, false], 0, false, false⟩ [0, 1, 2, 3]).anyMoved, (lfold (-1) ⟨[a00, a10, a20, a30], [false, false, false, false], 0, false, false⟩ [0, 1, 2, 3]).anyMerged⟩
      (([0, 1, 2, 3] : List Nat).map fun r => (r, (1 : Nat))) = ⟨(Mat.setCol (Mat.setCol [[a00, a01, a02, a03], [a10, a11, a12, a13], [a20, a21, a22, a23], [a30, a31, a32, a33]] none 0 (lfold (-1) ⟨[a00, a10, a20, a30], [false, false, false, false], 0, false, false⟩ [0, 1, 2, 3]).line) none 1 (lfold (-1) ⟨[a01, a11, a21, a31], [false, false, false, false], (lfold (-1) ⟨[a00, a10, a20, a30], [false, false, false, false], 0, false, false⟩ [0, 1, 2, 3]).score, (lfold (-1) ⟨[a00, a10, a20, a30], [false, false, false, false], 0, false, false⟩ [0, 1, 2, 3]).anyMoved, (lfold (-1) ⟨[a00, a10, a20, a30], [false, false, false, false], 0, false, false⟩ [0, 1, 2, 3]).anyMerged⟩ [0, 1, 2, 3]).line), (Mat.setCol (Mat.setCol TileGame.emptyMGrid false 0 (lfold (-1) ⟨[a00, a10, a20, a30], [false, false, false, false], 0, false, false⟩ [0, 1, 2, 3]).marks) false 1 (lfold (-1) ⟨[a01, a11, a21, a31], [false, false, false, false], (lfold (-1) ⟨[a00, a10, a20, a30], [false, false, false, false], 0, false, false⟩ [0, 1, 2, 3]).score, (lfold (-1) ⟨[a00, a10, a20, a30], [false, false, false, false], 0, false, false⟩ [0, 1, 2, 3]).anyMoved, (lfold (-1) ⟨[a00, a10, a20, a30], [false, false, false, false], 0, false, false⟩ [0, 1, 2, 3]).anyMerged⟩ [0, 1, 2, 3]).marks), (lfold (-1) ⟨[a01, a11, a21, a31], [false, false, false, false], (lfold (-1) ⟨[a00, a10, a20, a30], [false, false, false, false], 0, false, false⟩ [0, 1, 2, 3]).score, (lfold (-1) ⟨[a00, a10, a20, a30], [false, false, false, false], 0, false, false⟩ [0, 1, 2, 3]).anyMoved, (lfold (-1) ⟨[a00, a10, a20, a30], [false, false, false, false], 0, false, false⟩ [0, 1, 2, 3]).anyMerged⟩ [0, 1, 2, 3]).score, (lfold (-1) ⟨[a01, a11, a21, a31], [false, false, false, false], (lfold (-1) ⟨[a00, a10, a20, a30], [false, false, false, false], 0, false, false⟩ [0, 1, 2, 3]).score, (lfold (-1) ⟨[a00, a10, a20, a30], [false, false, false, false], 0, false, false⟩ [0, 1, 2, 3]).anyMoved, (lfold (-1) ⟨[a00, a10, a20, a30], [false, false, false, false], 0, false, false⟩ [0, 1, 2, 3]).anyMerged⟩ [0, 1, 2, 3]).anyMoved, (lfold (-1) ⟨[a01, a11, a21, a31], [false, false, false, false], (lfold (-1) ⟨[a00, a10, a20, a30], [false, false, false, false], 0, false, false⟩ [0, 1, 2, 3]).score, (lfold (-1) ⟨[a00, a10, a20, a30], [false, false, false, false], 0, false, false⟩ [0, 1, 2, 3]).anyMoved, (lfold (-1) ⟨[a00, a10, a20, a30], [false, false, false, false], 0, false, false⟩ [0, 1, 2, 3]).anyMerged⟩ [0, 1, 2, 3]).anyMerged⟩ := by
    rw [vfold_col (-1) [0, 1, 2, 3] ⟨(Mat.setCol [[a00, a01, a02, a03], [a10, a11, a12, a13], [a20, a21, a22, a23], [a30, a31, a32, a33]] none 0 (lfold (-1) ⟨[a00, a10, a20, a30], [false, false, false, false], 0, false, false⟩ [0, 1, 2, 3]).line), (Mat.setCol TileGame.emptyMGrid false 0 (lfold (-1) ⟨[a00, a10, a20, a30], [false, false, false, false], 0, false, false⟩ [0, 1, 2, 3]).marks), (lfold (-1) ⟨[a00, a10, a20, a30], [false, false, false, false], 0, false, false⟩ [0, 1, 2, 3]).score, (lfold (-1) ⟨[a00, a10, a20, a30], [false, false, false, false], 0, false, false⟩ [0, 1, 2, 3]).anyMoved, (lfold (-1) ⟨[a00, a10, a20, a30], [false, false, false, false], 0, false, false⟩ [0, 1, 2, 3]).anyMerged⟩ 1 (by omega) (by decide) wg1 wm1]
    rfl
  have hb2 : List.foldl (vstep (-1) 0) ⟨(Mat.setCol (Mat.setCol [[a00, a01, a02, a03], [a10, a11, a12, a13], [a20, a21, a22, a23], [a30, a31, a32, a33]] none 0 (lfold (-1) ⟨[a00, a10, a20, a30], [false, false, false, false], 0, false, false⟩ [0, 1, 2, 3]).line) none 1 (lfold (-1) ⟨[a01, a11, a21, a31], [false, false, false, false], (lfold (-1) ⟨[a00, a10, a20, a30], [false, false, false, false], 0, false, false⟩ [0, 1, 2, 3]).score, (lfold (-1) ⟨[a00, a10, a20, a30], [false, false, false, false], 0, false, false⟩ [0, 1, 2, 3]).anyMoved, (lfold (-1) ⟨[a00, a10, a20, a30], [false, false, false, false], 0, false, false⟩ [0, 1, 2, 3]).anyMerged⟩ [0, 1, 2, 3]).line), (Mat.setCol (Mat.setCol TileGame.emptyMGrid false 0 (lfold (-1) ⟨[a00, a10, a20, a30], [false, false, false, false], 0, false, false⟩ [0, 1, 2, 3]).marks) false 1 (lfold (-1) ⟨[a01, a11, a21, a31], [false, false, false, false], (lfold (-1) ⟨[a00, a10, a20, a30], [false, false, false, false], 0, false, false⟩ [0, 1, 2, 3]).score, (lfold (-1) ⟨[a00, a10, a20, a30], [false, false, false, false], 0, false, false⟩ [0, 1, 2, 3]).anyMoved, (lfold (-1) ⟨[a00, a10, a20, a30], [false, false, false, false], 0, false, false⟩ [0, 1, 2, 3]).anyMerged⟩ [0, 1, 2, 3]).marks), (lfold (-1) ⟨[a01, a11, a21, a31], [false, false, false, false], (lfold (-1) ⟨[a00, a10, a20, a30], [false, false, false, false], 0, false, false⟩ [0, 1, 2, 3]).score, (lfold (-1) ⟨[a00, a10, a20, a30], [false, false, false, false], 0, false, false⟩ [0, 1, 2, 3]).anyMoved, (lfold (-1) ⟨[a00, a10, a20, a30], [false, false, false, false], 0, false, false⟩ [0, 1, 2, 3]).anyMerged⟩ [0, 1, 2, 3]).score, (lfold (-1) ⟨[a01, a11, a21, a31], [false, false, false, false], (lfold (-1) ⟨[a00, a10, a20, a30], [false, false, false, false], 0, false, false⟩ [0, 1, 2, 3]).score, (lfold (-1) ⟨[a00, a10, a20, a30], [false, false, false, false], 0, false, false⟩ [0, 1, 2, 3]).anyMoved, (lfold (-1) ⟨[a00, a10, a20, a30], [false, false, false, false], 0, false, false⟩ [0, 1, 2, 3]).anyMerged⟩ [0, 1, 2, 3]).anyMoved, (lfold (-1) ⟨[a01, a11, a21, a31], [false, false, false, false], (lfold (-1) ⟨[a00, a10, a20, a30], [false, false, false, false], 0, false, false⟩ [0, 1, 2, 3]).score, (lfold (-1) ⟨[a00, a10, a20, a30], [false, false, false, false], 0, false, false⟩ [0, 1, 2, 3]).anyMoved, (lfold (-1) ⟨[a00, a10, a20, a30], [false, false, false, false], 0, false, false⟩ [0, 1, 2, 3]).anyMerged⟩ [0, 1, 2, 3]).anyMerged⟩
      (([0, 1, 2, 3] : List Nat).map fun r => (r, (2 : Nat))) = ⟨(Mat.setCol (Mat.setCol (Mat.setCol [[a00, a01, a02, a03], [a10, a11, a12, a13], [a20, a21, a22, a23], [a30, a31, a32, a33]] none 0 (lfold (-1) ⟨[a00, a10, a20, a30], [false, false, false, false], 0, false, false⟩ [0, 1, 2, 3]).line) none 1 (lfold (-1) ⟨[a01, a11, a21, a31], [false, false, false, false], (lfold (-1) ⟨[a00, a10, a20, a30], [false, false, false, false], 0, false, false⟩ [0, 1, 2, 3]).score, (lfold (-1) ⟨[a00, a10, a20, a30], [false, false, false, false], 0, false, false⟩ [0, 1, 2, 3]).anyMoved, (lfold (-1) ⟨[a00, a10, a20, a30], [false, false, false, false], 0, false, false⟩ [0, 1, 2, 3]).anyMerged⟩ [0, 1, 2, 3]).line) none 2 (lfold (-1) ⟨[a02, a12, a22, a32], [false, false, false, false], (lfold (-1) ⟨[a01, a11, a21, a31], [false, false, false, false], (lfold (-1) ⟨[a00, a10, a20, a30], [false, false, false, false], 0, false, false⟩ [0, 1, 2, 3]).score, (lfold (-1) ⟨[a00, a10, a20, a30], [false, false, false, false], 0, false, false⟩ [0, 1, 2, 3]).anyMoved, (lfold (-1) ⟨[a00, a10, a20, a30], [false, false, false, false], 0, false, false⟩ [0, 1, 2, 3]).anyMerged⟩ [0, 1, 2, 3]).score, (lfold (-1) ⟨[a01, a11, a21, a31], [false, false, false, false], (lfold (-1) ⟨[a00, a10, a20, a30], [false, false, false, false], 0, false, false⟩ [0, 1, 2, 3]).score, (lfold (-1) ⟨[a00, a10, a20, a30], [false, false, false, false], 0, false, false⟩ [0, 1, 2, 3]).anyMoved, (lfold (-1) ⟨[a00, a10, a20, a30], [false, false, false, false], 0, false, false⟩ [0, 1, 2, 3]).anyMerged⟩ [0, 1, 2, 3]).anyMoved, (lfold (-1) ⟨[a01, a11, a21, a31], [false, false, false, false], (lfold (-1) ⟨[a00, a10, a20, a30], [false, false, false, false], 0, false, false⟩ [0, 1, 2, 3]).score, (lfold (-1) ⟨[a00, a10, a20, a30], [false, false, false, false], 0, false, false⟩ [0, 1, 2, 3]).anyMoved, (lfold (-1) ⟨[a00, a10, a20, a30], [false, false, false, false], 0, false, false⟩ [0, 1, 2, 3]).anyMerged⟩ [0, 1, 2, 3]).anyMerged⟩ [0, 1, 2, 3]).line), (Mat.setCol (Mat.setCol (Mat.setCol TileGame.emptyMGrid false 0 (lfold (-1) ⟨[a00, a10, a20, a30], [false, false, false, false], 0, false, false⟩ [0, 1, 2, 3]).marks) false 1 (lfold (-1) ⟨[a01, a11, a21, a31], [false, false, false, false], (lfold (-1) ⟨[a00, a10, a20, a30], [false, false, false, false], 0, false, false⟩ [0, 1, 2, 3]).score, (lfold (-1) ⟨[a00, a10, a20, a30], [false, false, false, false], 0, false, false⟩ [0, 1, 2, 3]).anyMoved, (lfold (-1) ⟨[a00, a10, a20, a30], [false, false, false, false], 0, false, false⟩ [0, 1, 2, 3]).anyMerged⟩ [0, 1, 2, 3]).marks) false 2 (lfold (-1) ⟨[a02, a12, a22, a32], [false, false, false, false], (lfold (-1) ⟨[a01, a11, a21, a31], [false, false, false, false], (lfold (-1) ⟨[a00, a10, a20, a30], [false, false, false, false], 0, false, false⟩ [0, 1, 2, 3]).score, (lfold (-1) ⟨[a00, a10, a20, a30], [false, false, false, false], 0, false, false⟩ [0, 1, 2, 3]).anyMoved, (lfold (-1) ⟨[a00, a10, a20, a30], [false, false, false, false], 0, false, false⟩ [0, 1, 2, 3]).anyMerged⟩ [0, 1, 2, 3]).score, (lfold (-1) ⟨[a01, a11, a21, a31], [false, false, false, false], (lfold (-1) ⟨[a00, a10, a20, a30], [false, false, false, false], 0, false, false⟩ [0, 1, 2, 3]).score, (lfold (-1) ⟨[a00, a10, a20, a30], [false, false, false, false], 0, false, false⟩ [0, 1, 2, 3]).anyMoved, (lfold (-1) ⟨[a00, a10, a20, a30], [false, false, false, false], 0, false, false⟩ [0, 1, 2, 3]).anyMerged⟩ [0, 1, 2, 3]).anyMoved, (lfold (-1) ⟨[a01, a11, a21, a31], [false, false, false, false], (lfold (-1) ⟨[a00, a10, a20, a30], [false, false, false, false], 0, false, false⟩ [0, 1, 2, 3]).score, (lfold (-1) ⟨[a00, a10, a20, a30], [false, false, false, false], 0, false, false⟩ [0, 1, 2, 3]).anyMoved, (lfold (-1) ⟨[a00, a10, a20, a30], [false, false, false, false], 0, false, false⟩ [0, 1, 2, 3]).anyMerged⟩ [0, 1, 2, 3]).anyMerged⟩ [0, 1, 2, 3]).marks), (lfold (-1) ⟨[a02, a12, a22, a32], [false, false, false, false], (lfold (-1) ⟨[a01, a11, a21, a31], [false, false, false, false], (lfold (-1) ⟨[a00, a10, a20, a30], [false, false, false, false], 0, false, false⟩ [0, 1, 2, 3]).score, (lfold (-1) ⟨[a00, a10, a20, a30], [false, false, false, false], 0, false, false⟩ [0, 1, 2, 3]).anyMoved, (lfold (-1) ⟨[a00, a10, a20, a30], [false, false, false, false], 0, false, false⟩ [0, 1, 2, 3]).anyMerged⟩ [0, 1, 2, 3]).score, (lfold (-1) ⟨[a01, a11, a21, a31], [false, false, false, false], (lfold (-1) ⟨[a00, a10, a20, a30], [false, false, false, false], 0, false, false⟩ [0, 1, 2, 3]).score, (lfold (-1) ⟨[a00, a10, a20, a30], [false, false, false, false], 0, false, false⟩ [0, 1, 2, 3]).anyMoved, (lfold (-1) ⟨[a00, a10, a20, a30], [false, false, false, false], 0, false, false⟩ [0, 1, 2, 3]).anyMerged⟩ [0, 1, 2, 3]).anyMoved, (lfold (-1) ⟨[a01, a11, a21, a31], [false, false, false, false], (lfold (-1) ⟨[a00, a10, a20, a30], [false, false, false, false], 0, false, false⟩ [0, 1, 2, 3]).score, (lfold (-1) ⟨[a00, a10, a20, a30], [false, false, false, false], 0, false, false⟩ [0, 1, 2, 3]).anyMoved, (lfold (-1) ⟨[a00, a10, a20, a30], [false, false, false, false], 0, false, false⟩ [0, 1, 2, 3]).anyMerged⟩ [0, 1, 2, 3]).anyMerged⟩ [0, 1, 2, 3]).score, (lfold (-1) ⟨[a02, a12, a22, a32], [false, false, false, false], (lfold (-1) ⟨[a01, a11, a21, a31], [false, false, false, false], (lfold (-1) ⟨[a00, a10, a20, a30], [false, false, false, false], 0, false, false⟩ [0, 1, 2, 3]).score, (lfold (-1) ⟨[a00, a10, a20, a30], [false, false, false, false], 0, false, false⟩ [0, 1, 2, 3]).anyMoved, (lfold (-1) ⟨[a00, a10, a20, a30], [false, false, false, false], 0, false, false⟩ [0, 1, 2, 3]).anyMerged⟩ [0, 1, 2, 3]).score, (lfold (-1) ⟨[a01, a11, a21, a31], [false, false, false, false], (lfold (-1) ⟨[a00, a10, a20, a30], [false, false, false, false], 0, false, false⟩ [0, 1, 2, 3]).score, (lfold (-1) ⟨[a00, a10, a20, a30], [false, false, false, false], 0, false, false⟩ [0, 1, 2, 3]).anyMoved, (lfold (-1) ⟨[a00, a10, a20, a30], [false, false, false, false], 0, false, false⟩ [0, 1, 2, 3]).anyMerged⟩ [0, 1, 2, 3]).anyMoved, (lfold (-1) ⟨[a01, a11, a21, a31], [false, false, false, false], (lfold (-1) ⟨[a00, a10, a20, a30], [false, false, false, false], 0, false, false⟩ [0, 1, 2, 3]).score, (lfold (-1) ⟨[a00, a10, a20, a30], [false, false, false, false], 0, false, false⟩ [0, 1, 2, 3]).anyMoved, (lfold (-1) ⟨[a00, a10, a20, a30], [false, false, false, false], 0, false, false⟩ [0, 1, 2, 3]).anyMerged⟩ [0, 1, 2, 3]).anyMerged⟩ [0, 1, 2, 3]).anyMoved, (lfold (-1) ⟨[a02, a12, a22, a32], [false, false, false, false], (lfold (-1) ⟨[a01, a11, a21, a31], [false, false, false, false], (lfold (-1) ⟨[a00, a10, a20, a30], [false, false, false, false], 0, false, false⟩ [0, 1, 2, 3]).score, (lfold (-1) ⟨[a00, a10, a20, a30], [false, false, false, false], 0, false, false⟩ [0, 1, 2, 3]).anyMoved, (lfold (-1) ⟨[a00, a10, a20, a30], [false, false, false, false], 0, false, false⟩ [0, 1, 2, 3]).anyMerged⟩ [0, 1, 2, 3]).score, (lfold (-1) ⟨[a01, a11, a21, a31], [false, false, false, false], (lfold (-1) ⟨[a00, a10, a20, a30], [false, false, false, false], 0, false, false⟩ [0, 1, 2, 3]).score, (lfold (-1) ⟨[a00, a10, a20, a30], [false, false, false, false], 0, false, false⟩ [0, 1, 2, 3]).anyMoved, (lfold (-1) ⟨[a00, a10, a20, a30], [false, false, false, false], 0, false, false⟩ [0, 1, 2, 3]).anyMerged⟩ [0, 1, 2, 3]).anyMoved, (lfold (-1) ⟨[a01, a11, a21, a31], [false, false, false, false], (lfold (-1) ⟨[a00, a10, a20, a30], [false, false, false, false], 0, false, false⟩ [0, 1, 2, 3]).score, (lfold (-1) ⟨[a00, a10, a20, a30], [false, false, false, false], 0, false, false⟩ [0, 1, 2, 3]).anyMoved, (lfold (-1) ⟨[a00, a10, a20, a30], [false, false, false, false], 0, false, false⟩ [0, 1, 2, 3]).anyMerged⟩ [0, 1, 2, 3]).anyMerged⟩ [0, 1, 2, 3]).anyMerged⟩ := by
    rw [vfold_col (-1) [0, 1, 2, 3] ⟨(Mat.setCol (Mat.setCol [[a00, a01, a02, a03], [a10, a11, a12, a13], [a20, a21, a22, a23], [a30, a31, a32, a33]] none 0 (lfold (-1) ⟨[a00, a10, a20, a30], [false, false, false, false], 0, false, false⟩ [0, 1, 2, 3]).line) none 1 (lfold (-1) ⟨[a01, a11, a21, a31], [false, false, false, false], (lfold (-1) ⟨[a00, a10, a20, a30], [false, false, false, false], 0, false, false⟩ [0, 1, 2, 3]).score, (lfold (-1) ⟨[a00, a10, a20, a30], [false, false, false, false], 0, false, false⟩ [0, 1, 2, 3]).anyMoved, (lfold (-1) ⟨[a00, a10, a20, a30], [false, false, false, false], 0, false, false⟩ [0, 1, 2, 3]).anyMerged⟩ [0, 1, 2, 3]).line), (Mat.setCol (Mat.setCol TileGame.emptyMGrid false 0 (lfold (-1) ⟨[a00, a10, a20, a30], [false, false, false, false], 0, false, false⟩ [0, 1, 2, 3]).marks) false 1 (lfold (-1) ⟨[a01, a11, a21, a31], [false, false, false, false], (lfold (-1) ⟨[a00, a10, a20, a30], [false, false, false, false], 0, false, false⟩ [0, 1, 2, 3]).score, (lfold (-1) ⟨[a00, a10, a20, a30], [false, false, false, false], 0, false, false⟩ [0, 1, 2, 3]).anyMoved, (lfold (-1) ⟨[a00, a10, a20, a30], [false, false, false, false], 0, false, false⟩ [0, 1, 2, 3]).anyMerged⟩ [0, 1, 2, 3]).marks), (lfold (-1) ⟨[a01, a11, a21, a31], [false, false, false, false], (lfold (-1) ⟨[a00, a10, a20, a30], [false, false, false, false], 0, false, false⟩ [0, 1, 2, 3]).score, (lfold (-1) ⟨[a00, a10, a20, a30], [false, false, false, false], 0, false, false⟩ [0, 1, 2, 3]).anyMoved, (lfold (-1) ⟨[a00, a10, a20, a30], [false, false, false, false], 0, false, false⟩ [0, 1, 2, 3]).anyMerged⟩ [0, 1, 2, 3]).score, (lfold (-1) ⟨[a01, a11, a21, a31], [false, false, false, false], (lfold (-1) ⟨[a00, a10, a20, a30], [false, false, false, false], 0, false, false⟩ [0, 1, 2, 3]).score, (lfold (-1) ⟨[a00, a10, a20, a30], [false, false, false, false], 0, false, false⟩ [0, 1, 2, 3]).anyMoved, (lfold (-1) ⟨[a00, a10, a20, a30], [false, false, false, false], 0, false, false⟩ [0, 1, 2, 3]).anyMerged⟩ [0, 1, 2, 3]).anyMoved, (lfold (-1) ⟨[a01, a11, a21, a31], [false, false, false, false], (lfold (-1) ⟨[a00, a10, a20, a30], [false, false, false, false], 0, false, false⟩ [0, 1, 2, 3]).score, (lfold (-1) ⟨[a00, a10, a20, a30], [false, false, false, false], 0, false, false⟩ [0, 1, 2, 3]).anyMoved, (lfold (-1) ⟨[a00, a10, a20, a30], [false, false, false, false], 0, false, false⟩ [0, 1, 2, 3]).anyMerged⟩ [0, 1, 2, 3]).anyMerged⟩ 2 (by omega) (by decide) wg2 wm2]
    rfl
  have hb3 : List.foldl (vstep (-1) 0) ⟨(Mat.setCol (Mat.setCol (Mat.setCol [[a00, a01, a02, a03], [a10, a11, a12, a13], [a20, a21, a22, a23], [a30, a31, a32, a33]] none 0 (lfold (-1) ⟨[a00, a10, a20, a30], [false, false, false, false], 0, false, false⟩ [0, 1, 2, 3]).line) none 1 (lfold (-1) ⟨[a01, a11, a21, a31], [false, false, false, false], (lfold (-1) ⟨[a00, a10, a20, a30], [false, false, false, false], 0, false, false⟩ [0, 1, 2, 3]).score, (lfold (-1) ⟨[a00, a10, a20, a30], [false, false, false, false], 0, false, false⟩ [0, 1, 2, 3]).anyMoved, (lfold (-1) ⟨[a00, a10, a20, a30], [false, false, false, false], 0, false, false⟩ [0, 1, 2, 3]).anyMerged⟩ [0, 1, 2, 3]).line) none 2 (lfold (-1) ⟨[a02, a12, a22, a32], [false, false, false, false], (lfold (-1) ⟨[a01, a11, a21, a31], [false, false, false, false], (lfold (-1) ⟨[a00, a10, a20, a30], [false, false, false, false], 0, false, false⟩ [0, 1, 2, 3]).score, (lfold (-1) ⟨[a00, a10, a20, a30], [false, false, false, false], 0, false, false⟩ [0, 1, 2, 3]).anyMoved, (lfold (-1) ⟨[a00, a10, a20, a30], [false, false, false, false], 0, false, false⟩ [0, 1, 2, 3]).anyMerged⟩ [0, 1, 2, 3]).score, (lfold (-1) ⟨[a01, a11, a21, a31], [false, false, false, false], (lfold (-1) ⟨[a00, a10, a20, a30], [false, false, false, false], 0, false, false⟩ [0, 1, 2, 3]).score, (lfold (-1) ⟨[a00, a10, a20, a30], [false, false, false, false], 0, false, false⟩ [0, 1, 2, 3]).anyMoved, (lfold (-1) ⟨[a00, a10, a20, a30], [false, false, false, false], 0, false, false⟩ [0, 1, 2, 3]).anyMerged⟩ [0, 1, 2, 3]).anyMoved, (lfold (-1) ⟨[a01, a11, a21, a31], [false, false, false, false], (lfold (-1) ⟨[a00, a10, a20, a30], [false, false, false, false], 0, false, false⟩ [0, 1, 2, 3]).score, (lfold (-1) ⟨[a00, a10, a20, a30], [false, false, false, false], 0, false, false⟩ [0, 1, 2, 3]).anyMoved, (lfold (-1) ⟨[a00, a10, a20, a30], [false, false, false, false], 0, false, false⟩ [0, 1, 2, 3]).anyMerged⟩ [0, 1, 2, 3]).anyMerged⟩ [0, 1, 2, 3]).line), (Mat.setCol (Mat.setCol (Mat.setCol TileGame.emptyMGrid false 0 (lfold (-1) ⟨[a00, a10, a20, a30], [false, false, false, false], 0, false, false⟩ [0, 1, 2, 3]).marks) false 1 (lfold (-1) ⟨[a01, a11, a21, a31], [false, false, false, false], (lfold (-1) ⟨[a00, a10, a20, a30], [false, false, false, false], 0, false, false⟩ [0, 1, 2, 3]).score, (lfold (-1) ⟨[a00, a10, a20, a30], [false, false, false, false], 0, false, false⟩ [0, 1, 2, 3]).anyMoved, (lfold (-1) ⟨[a00, a10, a20, a30], [false, false, false, false], 0, false, false⟩ [0, 1, 2, 3]).anyMerged⟩ [0, 1, 2, 3]).marks) false 2 (lfold (-1) ⟨[a02, a12, a22, a32], [false, false, false, false], (lfold (-1) ⟨[a01, a11, a21, a31], [false, false, false, false], (lfold (-1) ⟨[a00, a10, a20, a30], [false, false, false, false], 0, false, false⟩ [0, 1, 2, 3]).score, (lfold (-1) ⟨[a00, a10, a20, a30], [false, false, false, false], 0, false, false⟩ [0, 1, 2, 3]).anyMoved, (lfold (-1) ⟨[a00, a10, a20, a30], [false, false, false, false], 0, false, false⟩ [0, 1, 2, 3]).anyMerged⟩ [0, 1, 2, 3]).score, (lfold (-1) ⟨[a01, a11, a21, a31], [false, false, false, false], (lfold (-1) ⟨[a00, a10, a20, a30], [false, false, false, false], 0, false, false⟩ [0, 1, 2, 3]).score, (lfold (-1) ⟨[a00, a10, a20, a30], [false, false, false, false], 0, false, false⟩ [0, 1, 2, 3]).anyMoved, (lfold (-1) ⟨[a00, a10, a20, a30], [false, false, false, false], 0, false, false⟩ [0, 1, 2, 3]).anyMerged⟩ [0, 1, 2, 3]).anyMoved, (lfold (-1) ⟨[a01, a11, a21, a31], [false, false, false, false], (lfold (-1) ⟨[a00, a10, a20, a30], [false, false, false, false], 0, false, false⟩ [0, 1, 2, 3]).score, (lfold (-1) ⟨[a00, a10, a20, a30], [false, false, false, false], 0, false, false⟩ [0, 1, 2, 3]).anyMoved, (lfold (-1) ⟨[a00, a10, a20, a30], [false, false, false, false], 0, false, false⟩ [0, 1, 2, 3]).anyMerged⟩ [0, 1, 2, 3]).anyMerged⟩ [0, 1, 2, 3]).marks), (lfold (-1) ⟨[a02, a12, a22, a32], [false, false, false, false], (lfold (-1) ⟨[a01, a11, a21, a31], [false, false, false, false], (lfold (-1) ⟨[a00, a10, a20, a30], [false, false, false, false], 0, false, false⟩ [0, 1, 2, 3]).score, (lfold (-1) ⟨[a00, a10, a20, a30], [false, false, false, false], 0, false, false⟩ [0, 1, 2, 3]).anyMoved, (lfold (-1) ⟨[a00, a10, a20, a30], [false, false, false, false], 0, false, false⟩ [0, 1, 2, 3]).anyMerged⟩ [0, 1, 2, 3]).score, (lfold (-1) ⟨[a01, a11, a21, a31], [false, false, false, false], (lfold (-1) ⟨[a00, a10, a20, a30], [false, false, false, false], 0, false, false⟩ [0, 1, 2, 3]).score, (lfold (-1) ⟨[a00, a10, a20, a30], [false, false, false, false], 0, false, false⟩ [0, 1, 2, 3]).anyMoved, (lfold (-1) ⟨[a00, a10, a20, a30], [false, false, false, false], 0, false, false⟩ [0, 1, 2, 3]).anyMerged⟩ [0, 1, 2, 3]).anyMoved, (lfold (-1) ⟨[a01, a11, a21, a31], [false, false, false, false], (lfold (-1) ⟨[a00, a10, a20, a30], [false, false, false, false], 0, false, false⟩ [0, 1, 2, 3]).score, (lfold (-1) ⟨[a00, a10, a20, a30], [false, false, false, false], 0, false, false⟩ [0, 1, 2, 3]).anyMoved, (lfold (-1) ⟨[a00, a10, a20, a30], [false, false, false, false], 0, false, false⟩ [0, 1, 2, 3]).anyMerged⟩ [0, 1, 2, 3]).anyMerged⟩ [0, 1, 2, 3]).score, (lfold (-1) ⟨[a02, a12, a22, a32], [false, false, false, false], (lfold (-1) ⟨[a01, a11, a21, a31], [false, false, false, false], (lfold (-1) ⟨[a00, a10, a20, a30], [false, false, false, false], 0, false, false⟩ [0, 1, 2, 3]).score, (lfold (-1) ⟨[a00, a10, a20, a30], [false, false, false, false], 0, false, false⟩ [0, 1, 2, 3]).anyMoved, (lfold (-1) ⟨[a00, a10, a20, a30], [false, false, false, false], 0, false, false⟩ [0, 1, 2, 3]).anyMerged⟩ [0, 1, 2, 3]).score, (lfold (-1) ⟨[a01, a11, a21, a31], [false, false, false, false], (lfold (-1) ⟨[a00, a10, a20, a30], [false, false, false, false], 0, false, false⟩ [0, 1, 2, 3]).score, (lfold (-1) ⟨[a00, a10, a20, a30], [false, false, false, false], 0, false, false⟩ [0, 1, 2, 3]).anyMoved, (lfold (-1) ⟨[a00, a10, a20, a30], [false, false, false, false], 0, false, false⟩ [0, 1, 2, 3]).anyMerged⟩ [0, 1, 2, 3]).anyMoved, (lfold (-1) ⟨[a01, a11, a21, a31], [false, false, false, false], (lfold (-1) ⟨[a00, a10, a20, a30], [false, false, false, false], 0, false, false⟩ [0, 1, 2, 3]).score, (lfold (-1) ⟨[a00, a10, a20, a30], [false, false, false, false], 0, false, false⟩ [0, 1, 2, 3]).anyMoved, (lfold (-1) ⟨[a00, a10, a20, a30], [false, false, false, false], 0, false, false⟩ [0, 1, 2, 3]).anyMerged⟩ [0, 1, 2, 3]).anyMerged⟩ [0, 1, 2, 3]).anyMoved, (lfold (-1) ⟨[a02, a12, a22, a32], [false, false, false, false], (lfold (-1) ⟨[a01, a11, a21, a31], [false, false, false, false], (lfold (-1) ⟨[a00, a10, a20, a30], [false, false, false, false], 0, false, false⟩ [0, 1, 2, 3]).score, (lfold (-1) ⟨[a00, a10, a20, a30], [false, false, false, false], 0, false, false⟩ [0, 1, 2, 3]).anyMoved, (lfold (-1) ⟨[a00, a10, a20, a30], [false, false, false, false], 0, false, false⟩ [0, 1, 2, 3]).anyMerged⟩ [0, 1, 2, 3]).score, (lfold (-1) ⟨[a01, a11, a21, a31], [false, false, false, false], (lfold (-1) ⟨[a00, a10, a20, a30], [false, false, false, false], 0, false, false⟩ [0, 1, 2, 3]).score, (lfold (-1) ⟨[a00, a10, a20, a30], [false, false, false, false], 0, false, false⟩ [0, 1, 2, 3]).anyMoved, (lfold (-1) ⟨[a00, a10, a20, a30], [false, false, false, false], 0, false, false⟩ [0, 1, 2, 3]).anyMerged⟩ [0, 1, 2, 3]).anyMoved, (lfold (-1) ⟨[a01, a11, a21, a31], [false, false, false, false], (lfold (-1) ⟨[a00, a10, a20, a30], [false, false, false, false], 0, false, false⟩ [0, 1, 2, 3]).score, (lfold (-1) ⟨[a00, a10, a20, a30], [false, false, false, false], 0, false, false⟩ [0, 1, 2, 3]).anyMoved, (lfold (-1) ⟨[a00, a10, a20, a30], [false, false, false, false], 0, false, false⟩ [0, 1, 2, 3]).anyMerged⟩ [0, 1, 2, 3]).anyMerged⟩ [0, 1, 2, 3]).anyMerged⟩
      (([0, 1, 2, 3] : List Nat).map fun r => (r, (3 : Nat))) = ⟨(Mat.setCol (Mat.setCol (Mat.setCol (Mat.setCol [[a00, a01, a02, a03], [a10, a11, a12, a13], [a20, a21, a22, a23], [a30, a31, a32, a33]] none 0 (lfold (-1) ⟨[a00, a10, a20, a30], [false, false, false, false], 0, false, false⟩ [0, 1, 2, 3]).line) none 1 (lfold (-1) ⟨[a01, a11, a21, a31], [false, false, false, false], (lfold (-1) ⟨[a00, a10, a20, a30], [false, false, false, false], 0, false, false⟩ [0, 1, 2, 3]).score, (lfold (-1) ⟨[a00, a10, a20, a30], [false, false, false, false], 0, false, false⟩ [0, 1, 2, 3]).anyMoved, (lfold (-1) ⟨[a00, a10, a20, a30], [false, false, false, false], 0, false, false⟩ [0, 1, 2, 3]).anyMerged⟩ [0, 1, 2, 3]).line) none 2 (lfold (-1) ⟨[a02, a12, a22, a32], [false, false, false, false], (lfold (-1) ⟨[a01, a11, a21, a31], [false, false, false, false], (lfold (-1) ⟨[a00, a10, a20, a30], [false, false, false, false], 0, false, false⟩ [0, 1, 2, 3]).score, (lfold (-1) ⟨[a00, a10, a20, a30], [false, false, false, false], 0, false, false⟩ [0, 1, 2, 3]).anyMoved, (lfold (-1) ⟨[a00, a10, a20, a30], [false, false, false, false], 0, false, false⟩ [0, 1, 2, 3]).anyMerged⟩ [0, 1, 2, 3]).score, (lfold (-1) ⟨[a01, a11, a21, a31], [false, false, false, false], (lfold (-1) ⟨[a00, a10, a20, a30], [false, false, false, false], 0, false, false⟩ [0, 1, 2, 3]).score, (lfold (-1) ⟨[a00, a10, a20, a30], [false, false, false, false], 0, false, false⟩ [0, 1, 2, 3]).anyMoved, (lfold (-1) ⟨[a00, a10, a20, a30], [false, false, false, false], 0, false, false⟩ [0, 1, 2, 3]).anyMerged⟩ [0, 1, 2, 3]).anyMoved, (lfold (-1) ⟨[a01, a11, a21, a31], [false, false, false, false], (lfold (-1) ⟨[a00, a10, a20, a30], [false, false, false, false], 0, false, false⟩ [0, 1, 2, 3]).score, (lfold (-1) ⟨[a00, a10, a20, a30], [false, false, false, false], 0, false, false⟩ [0, 1, 2, 3]).anyMoved, (lfold (-1) ⟨[a00, a10, a20, a30], [false, false, false, false], 0, false, false⟩ [0, 1, 2, 3]).anyMerged⟩ [0, 1, 2, 3]).anyMerged⟩ [0, 1, 2, 3]).line) none 3 (lfold (-1) ⟨[a03, a13, a23, a33], [false, false, false, false], (lfold (-1) ⟨[a02, a12, a22, a32], [false, false, false, false], (lfold (-1) ⟨[a01, a11, a21, a31], [false, false, false, false], (lfold (-1) ⟨[a00, a10, a20, a30], [false, false, false, false], 0, false, false⟩ [0, 1, 2, 3]).score, (lfold (-1) ⟨[a00, a10, a20, a30], [false, false, false, false], 0, false, false⟩ [0, 1, 2, 3]).anyMoved, (lfold (-1) ⟨[a00, a10, a20, a30], [false, false, false, false], 0, false, false⟩ [0, 1, 2, 3]).anyMerged⟩ [0, 1, 2, 3]).score, (lfold (-1) ⟨[a01, a11, a21, a31], [false, false, false, false], (lfold (-1) ⟨[a00, a10, a20, a30], [false, false, false, false], 0, false, false⟩ [0, 1, 2, 3]).score, (lfold (-1) ⟨[a00, a10, a20, a30], [false, false, false, false], 0, false, false⟩ [0, 1, 2, 3]).anyMoved, (lfold (-1) ⟨[a00, a10, a20, a30], [false, false, false, false], 0, false, false⟩ [0, 1, 2, 3]).anyMerged⟩ [0, 1, 2, 3]).anyMoved, (lfold (-1) ⟨[a01, a11, a21, a31], [false, false, false, false], (lfold (-1) ⟨[a00, a10, a20, a30], [false, false, false, false], 0, false, false⟩ [0, 1, 2, 3]).score, (lfold (-1) ⟨[a00, a10, a20, a30], [false, false, false, false], 0, false, false⟩ [0, 1, 2, 3]).anyMoved, (lfold (-1) ⟨[a00, a10, a20, a30], [false, false, false, false], 0, false, false⟩ [0, 1, 2, 3]).anyMerged⟩ [0, 1, 2, 3]).anyMerged⟩ [0, 1, 2, 3]).score, (lfold (-1) ⟨[a02, a12, a22, a32], [false, false, false, false], (lfold (-1) ⟨[a01, a11, a21, a31], [false, false, false, false], (lfold (-1) ⟨[a00, a10, a20, a30], [false, false, false, false], 0, false, false⟩ [0, 1, 2, 3]).score, (lfold (-1) ⟨[a00, a10, a20, a30], [false, false, false, false], 0, false, false⟩ [0, 1, 2, 3]).anyMoved, (lfold (-1) ⟨[a00, a10, a20, a30], [false, false, false, false], 0, false, false⟩ [0, 1, 2, 3]).anyMerged⟩ [0, 1, 2, 3]).score, (lfold (-1) ⟨[a01, a11, a21, a31], [false, false, false, false], (lfold (-1) ⟨[a00, a10, a20, a30], [false, false, false, false], 0, false, false⟩ [0, 1, 2, 3]).score, (lfold (-1) ⟨[a00, a10, a20, a30], [false, false, false, false], 0, false, false⟩ [0, 1, 2, 3]).anyMoved, (lfold (-1) ⟨[a00, a10, a20, a30], [false, false, false, false], 0, false, false⟩ [0, 1, 2, 3]).anyMerged⟩ [0, 1, 2, 3]).anyMoved, (lfold (-1) ⟨[a01, a11, a21, a31], [false, false, false, false], (lfold (-1) ⟨[a00, a10, a20, a30], [false, false, false, false], 0, false, false⟩ [0, 1, 2, 3]).score, (lfold (-1) ⟨[a00, a10, a20, a30], [false, false, false, false], 0, false, false⟩ [0, 1, 2, 3]).anyMoved, (lfold (-1) ⟨[a00, a10, a20, a30], [false, false, false, false], 0, false, false⟩ [0, 1, 2, 3]).anyMerged⟩ [0, 1, 2, 3]).anyMerged⟩ [0, 1, 2, 3]).anyMoved, (lfold (-1) ⟨[a02, a12, a22, a32], [false, false, false, false], (lfold (-1) ⟨[a01, a11, a21, a31], [false, false, false, false], (lfold (-1) ⟨[a00, a10, a20, a30], [false, false, false, false], 0, false, false⟩ [0, 1, 2, 3]).score, (lfold (-1) ⟨[a00, a10, a20, a30], [false, false, false, false], 0, false, false⟩ [0, 1, 2, 3]).anyMoved, (lfold (-1) ⟨[a00, a10, a20, a30], [false, false, false, false], 0, false, false⟩ [0, 1, 2, 3]).anyMerged⟩ [0, 1, 2, 3]).score, (lfold (-1) ⟨[a01, a11, a21, a31], [false, false, false, false], (lfold (-1) ⟨[a00, a10, a20, a30], [false, false, false, false], 0, false, false⟩ [0, 1, 2, 3]).score, (lfold (-1) ⟨[a00, a10, a20, a30], [false, false, false, false], 0, false, false⟩ [0, 1, 2, 3]).anyMoved, (lfold (-1) ⟨[a00, a10, a20, a30], [false, false, false, false], 0, false, false⟩ [0, 1, 2, 3]).anyMerged⟩ [0, 1, 2, 3]).anyMoved, (lfold (-1) ⟨[a01, a11, a21, a31], [false, false, false, false], (lfold (-1) ⟨[a00, a10, a20, a30], [false, false, false, false], 0, false, false⟩ [0, 1, 2, 3]).score, (lfold (-1) ⟨[a00, a10, a20, a30], [false, false, false, false], 0, false, false⟩ [0, 1, 2, 3]).anyMoved, (lfold (-1) ⟨[a00, a10, a20, a30], [false, false, false, false], 0, false, false⟩ [0, 1, 2, 3]).anyMerged⟩ [0, 1, 2, 3]).anyMerged⟩ [0, 1, 2, 3]).anyMerged⟩ [0, 1, 2, 3]).line), (Mat.setCol (Mat.setCol (Mat.setCol (Mat.setCol TileGame.emptyMGrid false 0 (lfold (-1) ⟨[a00, a10, a20, a30], [false, false, false, false], 0, false, false⟩ [0, 1, 2, 3]).marks) false 1 (lfold (-1) ⟨[a01, a11, a21, a31], [false, false, false, false], (lfold (-1) ⟨[a00, a10, a20, a30], [false, false, false, false], 0, false, false⟩ [0, 1, 2, 3]).score, (lfold (-1) ⟨[a00, a10, a20, a30], [false, false, false, false], 0, false, false⟩ [0, 1, 2, 3]).anyMoved, (lfold (-1) ⟨[a00, a10, a20, a30], [false, false, false, false], 0, false, false⟩ [0, 1, 2, 3]).anyMerged⟩ [0, 1, 2, 3]).marks) false 2 (lfold (-1) ⟨[a02, a12, a22, a32], [false, false, false, false], (lfold (-1) ⟨[a01, a11, a21, a31], [false, false, false, false], (lfold (-1) ⟨[a00, a10, a20, a30], [false, false, false, false], 0, false, false⟩ [0, 1, 2, 3]).score, (lfold (-1) ⟨[a00, a10, a20, a30], [false, false, false, false], 0, false, false⟩ [0, 1, 2, 3]).anyMoved, (lfold (-1) ⟨[a00, a10, a20, a30], [false, false, false, false], 0, false, false⟩ [0, 1, 2, 3]).anyMerged⟩ [0, 1, 2, 3]).score, (lfold (-1) ⟨[a01, a11, a21, a31], [false, false, false, false], (lfold (-1) ⟨[a00, a10, a20, a30], [false, false, false, false], 0, false, false⟩ [0, 1, 2, 3]).score, (lfold (-1) ⟨[a00, a10, a20, a30], [false, false, false, false], 0, false, false⟩ [0, 1, 2, 3]).anyMoved, (lfold (-1) ⟨[a00, a10, a20, a30], [false, false, false, false], 0, false, false⟩ [0, 1, 2, 3]).anyMerged⟩ [0, 1, 2, 3]).anyMoved, (lfold (-1) ⟨[a01, a11, a21, a31], [false, false, false, false], (lfold (-1) ⟨[a00, a10, a20, a30], [false, false, false, false], 0, false, false⟩ [0, 1, 2, 3]).score, (lfold (-1) ⟨[a00, a10, a20, a30], [false, false, false, false], 0, false, false⟩ [0, 1, 2, 3]).anyMoved, (lfold (-1) ⟨[a00, a10, a20, a30], [false, false, false, false], 0, false, false⟩ [0, 1, 2, 3]).anyMerged⟩ [0, 1, 2, 3]).anyMerged⟩ [0, 1, 2, 3]).marks) false 3 (lfold (-1) ⟨[a03, a13, a23, a33], [false, false, false, false], (lfold (-1) ⟨[a02, a12, a22, a32], [false, false, false, false], (lfold (-1) ⟨[a01, a11, a21, a31], [false, false, false, false], (lfold (-1) ⟨[a00, a10, a20, a30], [false, false, false, false], 0, false, false⟩ [0, 1, 2, 3]).score, (lfold (-1) ⟨[a00, a10, a20, a30], [false, false, false, false], 0, false, false⟩ [0, 1, 2, 3]).anyMoved, (lfold (-1) ⟨[a00, a10, a20, a30], [false, false, false, false], 0, false, false⟩ [0, 1, 2, 3]).anyMerged⟩ [0, 1, 2, 3]).score, (lfold (-1) ⟨[a01, a11, a21, a31], [false, false, false, false], (lfold (-1) ⟨[a00, a10, a20, a30], [false, false, false, false], 0, false, false⟩ [0, 1, 2, 3]).score, (lfold (-1) ⟨[a00, a10, a20, a30], [false, false, false, false], 0, false, false⟩ [0, 1, 2, 3]).anyMoved, (lfold (-1) ⟨[a00, a10, a20, a30], [false, false, false, false], 0, false, false⟩ [0, 1, 2, 3]).anyMerged⟩ [0, 1, 2, 3]).anyMoved, (lfold (-1) ⟨[a01, a11, a21, a31], [false, false, false, false], (lfold (-1) ⟨[a00, a10, a20, a30], [false, false, false, false], 0, false, false⟩ [0, 1, 2, 3]).score, (lfold (-1) ⟨[a00, a10, a20, a30], [false, false, false, false], 0, false, false⟩ [0, 1, 2, 3]).anyMoved, (lfold (-1) ⟨[a00, a10, a20, a30], [false, false, false, false], 0, false, false⟩ [0, 1, 2, 3]).anyMerged⟩ [0, 1, 2, 3]).anyMerged⟩ [0, 1, 2, 3]).score, (lfold (-1) ⟨[a02, a12, a22, a32], [false, false, false, false], (lfold (-1) ⟨[a01, a11, a21, a31], [false, false, false, false], (lfold (-1) ⟨[a00, a10, a20, a30], [false, false, false, false], 0, false, false⟩ [0, 1, 2, 3]).score, (lfold (-1) ⟨[a00, a10, a20, a30], [false, false, false, false], 0, false, false⟩ [0, 1, 2, 3]).anyMoved, (lfold (-1) ⟨[a00, a10, a20, a30], [false, false, false, false], 0, false, false⟩ [0, 1, 2, 3]).anyMerged⟩ [0, 1, 2, 3]).score, (lfold (-1) ⟨[a01, a11, a21, a31], [false, false, false, false], (lfold (-1) ⟨[a00, a10, a20, a30], [false, false, false, false], 0, false, false⟩ [0, 1, 2, 3]).score, (lfold (-1) ⟨[a00, a10, a20, a30], [false, false, false, false], 0, false, false⟩ [0, 1, 2, 3]).anyMoved, (lfold (-1) ⟨[a00, a10, a20, a30], [false, false, false, false], 0, false, false⟩ [0, 1, 2, 3]).anyMerged⟩ [0, 1, 2, 3]).anyMoved, (lfold (-1) ⟨[a01, a11, a21, a31], [false, false, false, false], (lfold (-1) ⟨[a00, a10, a20, a30], [false, false, false, false], 0, false, false⟩ [0, 1, 2, 3]).score, (lfold (-1) ⟨[a00, a10, a20, a30], [false, false, false, false], 0, false, false⟩ [0, 1, 2, 3]).anyMoved, (lfold (-1) ⟨[a00, a10, a20, a30], [false, false, false, false], 0, false, false⟩ [0, 1, 2, 3]).anyMerged⟩ [0, 1, 2, 3]).anyMerged⟩ [0, 1, 2, 3]).anyMoved, (lfold (-1) ⟨[a02, a12, a22, a32], [false, false, false, false], (lfold (-1) ⟨[a01, a11, a21, a31], [false, false, false, false], (lfold (-1) ⟨[a00, a10, a20, a30], [false, false, false, false], 0, false, false⟩ [0, 1, 2, 3]).score, (lfold (-1) ⟨[a00, a10, a20, a30], [false, false, false, false], 0, false, false⟩ [0, 1, 2, 3]).anyMoved, (lfold (-1) ⟨[a00, a10, a20, a30], [false, false, false, false], 0, false, false⟩ [0, 1, 2, 3]).anyMerged⟩ [0, 1, 2, 3]).score, (lfold (-1) ⟨[a01, a11, a21, a31], [false, false, false, false], (lfold (-1) ⟨[a00, a10, a20, a30], [false, false, false, false], 0, false, false⟩ [0, 1, 2, 3]).score, (lfold (-1) ⟨[a00, a10, a20, a30], [false, false, false, false], 0, false, false⟩ [0, 1, 2, 3]).anyMoved, (lfold (-1) ⟨[a00, a10, a20, a30], [false, false, false, false], 0, false, false⟩ [0, 1, 2, 3]).anyMerged⟩ [0, 1, 2, 3]).anyMoved, (lfold (-1) ⟨[a01, a11, a21, a31], [false, false, false, false], (lfold (-1) ⟨[a00, a10, a20, a30], [false, false, false, false], 0, false, false⟩ [0, 1, 2, 3]).score, (lfold (-1) ⟨[a00, a10, a20, a30], [false, false, false, false], 0, false, false⟩ [0, 1, 2, 3]).anyMoved, (lfold (-1) ⟨[a00, a10, a20, a30], [false, false, false, false], 0, false, false⟩ [0, 1, 2, 3]).anyMerged⟩ [0, 1, 2, 3]).anyMerged⟩ [0, 1, 2, 3]).anyMerged⟩ [0, 1, 2, 3]).marks), (lfold (-1) ⟨[a03, a13, a23, a33], [false, false, false, false], (lfold (-1) ⟨[a02, a12, a22, a32], [false, false, false, false], (lfold (-1) ⟨[a01, a11, a21, a31], [false, false, false, false], (lfold (-1) ⟨[a00, a10, a20, a30], [false, false, false, false], 0, false, false⟩ [0, 1, 2, 3]).score, (lfold (-1) ⟨[a00, a10, a20, a30], [false, false, false, false], 0, false, false⟩ [0, 1, 2, 3]).anyMoved, (lfold (-1) ⟨[a00, a10, a20, a30], [false, false, false, false], 0, false, false⟩ [0, 1, 2, 3]).anyMerged⟩ [0, 1, 2, 3]).score, (lfold (-1) ⟨[a01, a11, a21, a31], [false, false, false, false], (lfold (-1) ⟨[a00, a10, a20, a30], [false, false, false, false], 0, false, false⟩ [0, 1, 2, 3]).score, (lfold (-1) ⟨[a00, a10, a20, a30], [false, false, false, false], 0, false, false⟩ [0, 1, 2, 3]).anyMoved, (lfold (-1) ⟨[a00, a10, a20, a30], [false, false, false, false], 0, false, false⟩ [0, 1, 2, 3]).anyMerged⟩ [0, 1, 2, 3]).anyMoved, (lfold (-1) ⟨[a01, a11, a21, a31], [false, false, false, false], (lfold (-1) ⟨[a00, a10, a20, a30], [false, false, false, false], 0, false, false⟩ [0, 1, 2, 3]).score, (lfold (-1) ⟨[a00, a10, a20, a30], [false, false, false, false], 0, false, false⟩ [0, 1, 2, 3]).anyMoved, (lfold (-1) ⟨[a00, a10, a20, a30], [false, false, false, false], 0, false, false⟩ [0, 1, 2, 3]).anyMerged⟩ [0, 1, 2, 3]).anyMerged⟩ [0, 1, 2, 3]).score, (lfold (-1) ⟨[a02, a12, a22, a32], [false, false, false, false], (lfold (-1) ⟨[a01, a11, a21, a31], [false, false, false, false], (lfold (-1) ⟨[a00, a10, a20, a30], [false, false, false, false], 0, false, false⟩ [0, 1, 2, 3]).score, (lfold (-1) ⟨[a00, a10, a20, a30], [false, false, false, false], 0, false, false⟩ [0, 1, 2, 3]).anyMoved, (lfold (-1) ⟨[a00, a10, a20, a30], [false, false, false, false], 0, false, false⟩ [0, 1, 2, 3]).anyMerged⟩ [0, 1, 2, 3]).score, (lfold (-1) ⟨[a01, a11, a21, a31], [false, false, false, false], (lfold (-1) ⟨[a00, a10, a20, a30], [false, false, false, false], 0, false, false⟩ [0, 1, 2, 3]).score, (lfold (-1) ⟨[a00, a10, a20, a30], [false, false, false, false], 0, false, false⟩ [0, 1, 2, 3]).anyMoved, (lfold (-1) ⟨[a00, a10, a20, a30], [false, false, false, false], 0, false, false⟩ [0, 1, 2, 3]).anyMerged⟩ [0, 1, 2, 3]).anyMoved, (lfold (-1) ⟨[a01, a11, a21, a31], [false, false, false, false], (lfold (-1) ⟨[a00, a10, a20, a30], [false, false, false, false], 0, false, false⟩ [0, 1, 2, 3]).score, (lfold (-1) ⟨[a00, a10, a20, a30], [false, false, false, false], 0, false, false⟩ [0, 1, 2, 3]).anyMoved, (lfold (-1) ⟨[a00, a10, a20, a30], [false, false, false, false], 0, false, false⟩ [0, 1, 2, 3]).anyMerged⟩ [0, 1, 2, 3]).anyMerged⟩ [0, 1, 2, 3]).anyMoved, (lfold (-1) ⟨[a02, a12, a22, a32], [false, false, false, false], (lfold (-1) ⟨[a01, a11, a21, a31], [false, false, false, false], (lfold (-1) ⟨[a00, a10, a20, a30], [false, false, false, false], 0, false, false⟩ [0, 1, 2, 3]).score, (lfold (-1) ⟨[a00, a10, a20, a30], [false, false, false, false], 0, false, false⟩ [0, 1, 2, 3]).anyMoved, (lfold (-1) ⟨[a00, a10, a20, a30], [false, false, false, false], 0, false, false⟩ [0, 1, 2, 3]).anyMerged⟩ [0, 1, 2, 3]).score, (lfold (-1) ⟨[a01, a11, a21, a31], [false, false, false, false], (lfold (-1) ⟨[a00, a10, a20, a30], [false, false, false, false], 0, false, false⟩ [0, 1, 2, 3]).score, (lfold (-1) ⟨[a00, a10, a20, a30], [false, false, false, false], 0, false, false⟩ [0, 1, 2, 3]).anyMoved, (lfold (-1) ⟨[a00, a10, a20, a30], [false, false, false, false], 0, false, false⟩ [0, 1, 2, 3]).anyMerged⟩ [0, 1, 2, 3]).anyMoved, (lfold (-1) ⟨[a01, a11, a21, a31], [false, false, false, false], (lfold (-1) ⟨[a00, a10, a20, a30], [false, false, false, false], 0, false, false⟩ [0, 1, 2, 3]).score, (lfold (-1) ⟨[a00, a10, a20, a30], [false, false, false, false], 0, false, false⟩ [0, 1, 2, 3]).anyMoved, (lfold (-1) ⟨[a00, a10, a20, a30], [false, false, false, false], 0, false, false⟩ [0, 1, 2, 3]).anyMerged⟩ [0, 1, 2, 3]).anyMerged⟩ [0, 1, 2, 3]).anyMerged⟩ [0, 1, 2, 3]).score, (lfold (-1) ⟨[a03, a13, a23, a33], [false, false, false, false], (lfold (-1) ⟨[a02, a12, a22, a32], [false, false, false, false], (lfold (-1) ⟨[a01, a11, a21, a31], [false, false, false, false], (lfold (-1) ⟨[a00, a10, a20, a30], [false, false, false, false], 0, false, false⟩ [0, 1, 2, 3]).score, (lfold (-1) ⟨[a00, a10, a20, a30], [false, false, false, false], 0, false, false⟩ [0, 1, 2, 3]).anyMoved, (lfold (-1) ⟨[a00, a10, a20, a30], [false, false, false, false], 0, false, false⟩ [0, 1, 2, 3]).anyMerged⟩ [0, 1, 2, 3]).score, (lfold (-1) ⟨[a01, a11, a21, a31], [false, false, false, false], (lfold (-1) ⟨[a00, a10, a20, a30], [false, false, false, false], 0, false, false⟩ [0, 1, 2, 3]).score, (lfold (-1) ⟨[a00, a10, a20, a30], [false, false, false, false], 0, false, false⟩ [0, 1, 2, 3]).anyMoved, (lfold (-1) ⟨[a00, a10, a20, a30], [false, false, false, false], 0, false, false⟩ [0, 1, 2, 3]).anyMerged⟩ [0, 1, 2, 3]).anyMoved, (lfold (-1) ⟨[a01, a11, a21, a31], [false, false, false, false], (lfold (-1) ⟨[a00, a10, a20, a30], [false, false, false, false], 0, false, false⟩ [0, 1, 2, 3]).score, (lfold (-1) ⟨[a00, a10, a20, a30], [false, false, false, false], 0, false, false⟩ [0, 1, 2, 3]).anyMoved, (lfold (-1) ⟨[a00, a10, a20, a30], [false, false, false, false], 0, false, false⟩ [0, 1, 2, 3]).anyMerged⟩ [0, 1, 2, 3]).anyMerged⟩ [0, 1, 2, 3]).score, (lfold (-1) ⟨[a02, a12, a22, a32], [false, false, false, false], (lfold (-1) ⟨[a01, a11, a21, a31], [false, false, false, false], (lfold (-1) ⟨[a00, a10, a20, a30], [false, false, false, false], 0, false, false⟩ [0, 1, 2, 3]).score, (lfold (-1) ⟨[a00, a10, a20, a30], [false, false, false, false], 0, false, false⟩ [0, 1, 2, 3]).anyMoved, (lfold (-1) ⟨[a00, a10, a20, a30], [false, false, false, false], 0, false, false⟩ [0, 1, 2, 3]).anyMerged⟩ [0, 1, 2, 3]).score, (lfold (-1) ⟨[a01, a11, a21, a31], [false, false, false, false], (lfold (-1) ⟨[a00, a10, a20, a30], [false, false, false, false], 0, false, false⟩ [0, 1, 2, 3]).score, (lfold (-1) ⟨[a00, a10, a20, a30], [false, false, false, false], 0, false, false⟩ [0, 1, 2, 3]).anyMoved, (lfold (-1) ⟨[a00, a10, a20, a30], [false, false, false, false], 0, false, false⟩ [0, 1, 2, 3]).anyMerged⟩ [0, 1, 2, 3]).anyMoved, (lfold (-1) ⟨[a01, a11, a21, a31], [false, false, false, false], (lfold (-1) ⟨[a00, a10, a20, a30], [false, false, false, false], 0, false, false⟩ [0, 1, 2, 3]).score, (lfold (-1) ⟨[a00, a10, a20, a30], [false, false, false, false], 0, false, false⟩ [0, 1, 2, 3]).anyMoved, (lfold (-1) ⟨[a00, a10, a20, a30], [false, false, false, false], 0, false, false⟩ [0, 1, 2, 3]).anyMerged⟩ [0, 1, 2, 3]).anyMerged⟩ [0, 1, 2, 3]).anyMoved, (lfold (-1) ⟨[a02, a12, a22, a32], [false, false, false, false], (lfold (-1) ⟨[a01, a11, a21, a31], [false, false, false, false], (lfold (-1) ⟨[a00, a10, a20, a30], [false, false, false, false], 0, false, false⟩ [0, 1, 2, 3]).score, (lfold (-1) ⟨[a00, a10, a20, a30], [false, false, false, false], 0, false, false⟩ [0, 1, 2, 3]).anyMoved, (lfold (-1) ⟨[a00, a10, a20, a30], [false, false, false, false], 0, false, false⟩ [0, 1, 2, 3]).anyMerged⟩ [0, 1, 2, 3]).score, (lfold (-1) ⟨[a01, a11, a21, a31], [false, false, false, false], (lfold (-1) ⟨[a00, a10, a20, a30], [false, false, false, false], 0, false, false⟩ [0, 1, 2, 3]).score, (lfold (-1) ⟨[a00, a10, a20, a30], [false, false, false, false], 0, false, false⟩ [0, 1, 2, 3]).anyMoved, (lfold (-1) ⟨[a00, a10, a20, a30], [false, false, false, false], 0, false, false⟩ [0, 1, 2, 3]).anyMerged⟩ [0, 1, 2, 3]).anyMoved, (lfold (-1) ⟨[a01, a11, a21, a31], [false, false, false, false], (lfold (-1) ⟨[a00, a10, a20, a30], [false, false, false, false], 0, false, false⟩ [0, 1, 2, 3]).score, (lfold (-1) ⟨[a00, a10, a20, a30], [false, false, false, false], 0, false, false⟩ [0, 1, 2, 3]).anyMoved, (lfold (-1) ⟨[a00, a10, a20, a30], [false, false, false, false], 0, false, false⟩ [0, 1, 2, 3]).anyMerged⟩ [0, 1, 2, 3]).anyMerged⟩ [0, 1, 2, 3]).anyMerged⟩ [0, 1, 2, 3]).anyMoved, (lfold (-1) ⟨[a03, a13, a23, a33], [false, false, false, false], (lfold (-1) ⟨[a02, a12, a22, a32], [false, false, false, false], (lfold (-1) ⟨[a01, a11, a21, a31], [false, false, false, false], (lfold (-1) ⟨[a00, a10, a20, a30], [false, false, false, false], 0, false, false⟩ [0, 1, 2, 3]).score, (lfold (-1) ⟨[a00, a10, a20, a30], [false, false, false, false], 0, false, false⟩ [0, 1, 2, 3]).anyMoved, (lfold (-1) ⟨[a00, a10, a20, a30], [false, false, false, false], 0, false, false⟩ [0, 1, 2, 3]).anyMerged⟩ [0, 1, 2, 3]).score, (lfold (-1) ⟨[a01, a11, a21, a31], [false, false, false, false], (lfold (-1) ⟨[a00, a10, a20, a30], [false, false, false, false], 0, false, false⟩ [0, 1, 2, 3]).score, (lfold (-1) ⟨[a00, a10, a20, a30], [false, false, false, false], 0, false, false⟩ [0, 1, 2, 3]).anyMoved, (lfold (-1) ⟨[a00, a10, a20, a30], [false, false, false, false], 0, false, false⟩ [0, 1, 2, 3]).anyMerged⟩ [0, 1, 2, 3]).anyMoved, (lfold (-1) ⟨[a01, a11, a21, a31], [false, false, false, false], (lfold (-1) ⟨[a00, a10, a20, a30], [false, false, false, false], 0, false, false⟩ [0, 1, 2, 3]).score, (lfold (-1) ⟨[a00, a10, a20, a30], [false, false, false, false], 0, false, false⟩ [0, 1, 2, 3]).anyMoved, (lfold (-1) ⟨[a00, a10, a20, a30], [false, false, false, false], 0, false, false⟩ [0, 1, 2, 3]).anyMerged⟩ [0, 1, 2, 3]).anyMerged⟩ [0, 1, 2, 3]).score, (lfold (-1) ⟨[a02, a12, a22, a32], [false, false, false, false], (lfold (-1) ⟨[a01, a11, a21, a31], [false, false, false, false], (lfold (-1) ⟨[a00, a10, a20, a30], [false, false, false, false], 0, false, false⟩ [0, 1, 2, 3]).score, (lfold (-1) ⟨[a00, a10, a20, a30], [false, false, false, false], 0, false, false⟩ [0, 1, 2, 3]).anyMoved, (lfold (-1) ⟨[a00, a10, a20, a30], [false, false, false, false], 0, false, false⟩ [0, 1, 2, 3]).anyMerged⟩ [0, 1, 2, 3]).score, (lfold (-1) ⟨[a01, a11, a21, a31], [false, false, false, false], (lfold (-1) ⟨[a00, a10, a20, a30], [false, false, false, false], 0, false, false⟩ [0, 1, 2, 3]).score, (lfold (-1) ⟨[a00, a10, a20, a30], [false, false, false, false], 0, false, false⟩ [0, 1, 2, 3]).anyMoved, (lfold (-1) ⟨[a00, a10, a20, a30], [false, false, false, false], 0, false, false⟩ [0, 1, 2, 3]).anyMerged⟩ [0, 1, 2, 3]).anyMoved, (lfold (-1) ⟨[a01, a11, a21, a31], [false, false, false, false], (lfold (-1) ⟨[a00, a10, a20, a30], [false, false, false, false], 0, false, false⟩ [0, 1, 2, 3]).score, (lfold (-1) ⟨[a00, a10, a20, a30], [false, false, false, false], 0, false, false⟩ [0, 1, 2, 3]).anyMoved, (lfold (-1) ⟨[a00, a10, a20, a30], [false, false, false, false], 0, false, false⟩ [0, 1, 2, 3]).anyMerged⟩ [0, 1, 2, 3]).anyMerged⟩ [0, 1, 2, 3]).anyMoved, (lfold (-1) ⟨[a02, a12, a22, a32], [false, false, false, false], (lfold (-1) ⟨[a01, a11, a21, a31], [false, false, false, false], (lfold (-1) ⟨[a00, a10, a20, a30], [false, false, false, false], 0, false, false⟩ [0, 1, 2, 3]).score, (lfold (-1) ⟨[a00, a10, a20, a30], [false, false, false, false], 0, false, false⟩ [0, 1, 2, 3]).anyMoved, (lfold (-1) ⟨[a00, a10, a20, a30], [false, false, false, false], 0, false, false⟩ [0, 1, 2, 3]).anyMerged⟩ [0, 1, 2, 3]).score, (lfold (-1) ⟨[a01, a11, a21, a31], [false, false, false, false], (lfold (-1) ⟨[a00, a10, a20, a30], [false, false, false, false], 0, false, false⟩ [0, 1, 2, 3]).score, (lfold (-1) ⟨[a00, a10, a20, a30], [false, false, false, false], 0, false, false⟩ [0, 1, 2, 3]).anyMoved, (lfold (-1) ⟨[a00, a10, a20, a30], [false, false, false, false], 0, false, false⟩ [0, 1, 2, 3]).anyMerged⟩ [0, 1, 2, 3]).anyMoved, (lfold (-1) ⟨[a01, a11, a21, a31], [false, false, false, false], (lfold (-1) ⟨[a00, a10, a20, a30], [false, false, false, false], 0, false, false⟩ [0, 1, 2, 3]).score, (lfold (-1) ⟨[a00, a10, a20, a30], [false, false, false, false], 0, false, false⟩ [0, 1, 2, 3]).anyMoved, (lfold (-1) ⟨[a00, a10, a20, a30], [false, false, false, false], 0, false, false⟩ [0, 1, 2, 3]).anyMerged⟩ [0, 1, 2, 3]).anyMerged⟩ [0, 1, 2, 3]).anyMerged⟩ [0, 1, 2, 3]).anyMerged⟩ := by
    rw [vfold_col (-1) [0, 1, 2, 3] ⟨(Mat.setCol (Mat.setCol (Mat.setCol [[a00, a01, a02, a03], [a10, a11, a12, a13], [a20, a21, a22, a23], [a30, a31, a32, a33]] none 0 (lfold (-1) ⟨[a00, a10, a20, a30], [false, false, false, false], 0, false, false⟩ [0, 1, 2, 3]).line) none 1 (lfold (-1) ⟨[a01, a11, a21, a31], [false, false, false, false], (lfold (-1) ⟨[a00, a10, a20, a30], [false, false, false, false], 0, false, false⟩ [0, 1, 2, 3]).score, (lfold (-1) ⟨[a00, a10, a20, a30], [false, false, false, false], 0, false, false⟩ [0, 1, 2, 3]).anyMoved, (lfold (-1) ⟨[a00, a10, a20, a30], [false, false, false, false], 0, false, false⟩ [0, 1, 2, 3]).anyMerged⟩ [0, 1, 2, 3]).line) none 2 (lfold (-1) ⟨[a02, a12, a22, a32], [false, false, false, false], (lfold (-1) ⟨[a01, a11, a21, a31], [false, false, false, false], (lfold (-1) ⟨[a00, a10, a20, a30], [false, false, false, false], 0, false, false⟩ [0, 1, 2, 3]).score, (lfold (-1) ⟨[a00, a10, a20, a30], [false, false, false, false], 0, false, false⟩ [0, 1, 2, 3]).anyMoved, (lfold (-1) ⟨[a00, a10, a20, a30], [false, false, false, false], 0, false, false⟩ [0, 1, 2, 3]).anyMerged⟩ [0, 1, 2, 3]).score, (lfold (-1) ⟨[a01, a11, a21, a31], [false, false, false, false], (lfold (-1) ⟨[a00, a10, a20, a30], [false, false, false, false], 0, false, false⟩ [0, 1, 2, 3]).score, (lfold (-1) ⟨[a00, a10, a20, a30], [false, false, false, false], 0, false, false⟩ [0, 1, 2, 3]).anyMoved, (lfold (-1) ⟨[a00, a10, a20, a30], [false, false, false, false], 0, false, false⟩ [0, 1, 2, 3]).anyMerged⟩ [0, 1, 2, 3]).anyMoved, (lfold (-1) ⟨[a01, a11, a21, a31], [false, false, false, false], (lfold (-1) ⟨[a00, a10, a20, a30], [false, false, false, false], 0, false, false⟩ [0, 1, 2, 3]).score, (lfold (-1) ⟨[a00, a10, a20, a30], [false, false, false, false], 0, false, false⟩ [0, 1, 2, 3]).anyMoved, (lfold (-1) ⟨[a00, a10, a20, a30], [false, false, false, false], 0, false, false⟩ [0, 1, 2, 3]).anyMerged⟩ [0, 1, 2, 3]).anyMerged⟩ [0, 1, 2, 3]).line), (Mat.setCol (Mat.setCol (Mat.setCol TileGame.emptyMGrid false 0 (lfold (-1) ⟨[a00, a10, a20, a30], [false, false, false, false], 0, false, false⟩ [0, 1, 2, 3]).marks) false 1 (lfold (-1) ⟨[a01, a11, a21, a31], [false, false, false, false], (lfold (-1) ⟨[a00, a10, a20, a30], [false, false, false, false], 0, false, false⟩ [0, 1, 2, 3]).score, (lfold (-1) ⟨[a00, a10, a20, a30], [false, false, false, false], 0, false, false⟩ [0, 1, 2, 3]).anyMoved, (lfold (-1) ⟨[a00, a10, a20, a30], [false, false, false, false], 0, false, false⟩ [0, 1, 2, 3]).anyMerged⟩ [0, 1, 2, 3]).marks) false 2 (lfold (-1) ⟨[a02, a12, a22, a32], [false, false, false, false], (lfold (-1) ⟨[a01, a11, a21, a31], [false, false, false, false], (lfold (-1) ⟨[a00, a10, a20, a30], [false, false, false, false], 0, false, false⟩ [0, 1, 2, 3]).score, (lfold (-1) ⟨[a00, a10, a20, a30], [false, false, false, false], 0, false, false⟩ [0, 1, 2, 3]).anyMoved, (lfold (-1) ⟨[a00, a10, a20, a30], [false, false, false, false], 0, false, false⟩ [0, 1, 2, 3]).anyMerged⟩ [0, 1, 2, 3]).score, (lfold (-1) ⟨[a01, a11, a21, a31], [false, false, false, false], (lfold (-1) ⟨[a00, a10, a20, a30], [false, false, false, false], 0, false, false⟩ [0, 1, 2, 3]).score, (lfold (-1) ⟨[a00, a10, a20, a30], [false, false, false, false], 0, false, false⟩ [0, 1, 2, 3]).anyMoved, (lfold (-1) ⟨[a00, a10, a20, a30], [false, false, false, false], 0, false, false⟩ [0, 1, 2, 3]).anyMerged⟩ [0, 1, 2, 3]).anyMoved, (lfold (-1) ⟨[a01, a11, a21, a31], [false, false, false, false], (lfold (-1) ⟨[a00, a10, a20, a30], [false, false, false, false], 0, false, false⟩ [0, 1, 2, 3]).score, (lfold (-1) ⟨[a00, a10, a20, a30], [false, false, false, false], 0, false, false⟩ [0, 1, 2, 3]).anyMoved, (lfold (-1) ⟨[a00, a10, a20, a30], [false, false, false, false], 0, false, false⟩ [0, 1, 2, 3]).anyMerged⟩ [0, 1, 2, 3]).anyMerged⟩ [0, 1, 2, 3]).marks), (lfold (-1) ⟨[a02, a12, a22, a32], [false, false, false, false], (lfold (-1) ⟨[a01, a11, a21, a31], [false, false, false, false], (lfold (-1) ⟨[a00, a10, a20, a30], [false, false, false, false], 0, false, false⟩ [0, 1, 2, 3]).score, (lfold (-1) ⟨[a00, a10, a20, a30], [false, false, false, false], 0, false, false⟩ [0, 1, 2, 3]).anyMoved, (lfold (-1) ⟨[a00, a10, a20, a30], [false, false, false, false], 0, false, false⟩ [0, 1, 2, 3]).anyMerged⟩ [0, 1, 2, 3]).score, (lfold (-1) ⟨[a01, a11, a21, a31], [false, false, false, false], (lfold (-1) ⟨[a00, a10, a20, a30], [false, false, false, false], 0, false, false⟩ [0, 1, 2, 3]).score, (lfold (-1) ⟨[a00, a10, a20, a30], [false, false, false, false], 0, false, false⟩ [0, 1, 2, 3]).anyMoved, (lfold (-1) ⟨[a00, a10, a20, a30], [false, false, false, false], 0, false, false⟩ [0, 1, 2, 3]).anyMerged⟩ [0, 1, 2, 3]).anyMoved, (lfold (-1) ⟨[a01, a11, a21, a31], [false, false, false, false], (lfold (-1) ⟨[a00, a10, a20, a30], [false, false, false, false], 0, false, false⟩ [0, 1, 2, 3]).score, (lfold (-1) ⟨[a00, a10, a20, a30], [false, false, false, false], 0, false, false⟩ [0, 1, 2, 3]).anyMoved, (lfold (-1) ⟨[a00, a10, a20, a30], [false, false, false, false], 0, false, false⟩ [0, 1, 2, 3]).anyMerged⟩ [0, 1, 2, 3]).anyMerged⟩ [0, 1, 2, 3]).score, (lfold (-1) ⟨[a02, a12, a22, a32], [false, false, false, false], (lfold (-1) ⟨[a01, a11, a21, a31], [false, false, false, false], (lfold (-1) ⟨[a00, a10, a20, a30], [false, false, false, false], 0, false, false⟩ [0, 1, 2, 3]).score, (lfold (-1) ⟨[a00, a10, a20, a30], [false, false, false, false], 0, false, false⟩ [0, 1, 2, 3]).anyMoved, (lfold (-1) ⟨[a00, a10, a20, a30], [false, false, false, false], 0, false, false⟩ [0, 1, 2, 3]).anyMerged⟩ [0, 1, 2, 3]).score, (lfold (-1) ⟨[a01, a11, a21, a31], [false, false, false, false], (lfold (-1) ⟨[a00, a10, a20, a30], [false, false, false, false], 0, false, false⟩ [0, 1, 2, 3]).score, (lfold (-1) ⟨[a00, a10, a20, a30], [false, false, false, false], 0, false, false⟩ [0, 1, 2, 3]).anyMoved, (lfold (-1) ⟨[a00, a10, a20, a30], [false, false, false, false], 0, false, false⟩ [0, 1, 2, 3]).anyMerged⟩ [0, 1, 2, 3]).anyMoved, (lfold (-1) ⟨[a01, a11, a21, a31], [false, false, false, false], (lfold (-1) ⟨[a00, a10, a20, a30], [false, false, false, false], 0, false, false⟩ [0, 1, 2, 3]).score, (lfold (-1) ⟨[a00, a10, a20, a30], [false, false, false, false], 0, false, false⟩ [0, 1, 2, 3]).anyMoved, (lfold (-1) ⟨[a00, a10, a20, a30], [false, false, false, false], 0, false, false⟩ [0, 1, 2, 3]).anyMerged⟩ [0, 1, 2, 3]).anyMerged⟩ [0, 1, 2, 3]).anyMoved, (lfold (-1) ⟨[a02, a12, a22, a32], [false, false, false, false], (lfold (-1) ⟨[a01, a11, a21, a31], [false, false, false, false], (lfold (-1) ⟨[a00, a10, a20, a30], [false, false, false, false], 0, false, false⟩ [0, 1, 2, 3]).score, (lfold (-1) ⟨[a00, a10, a20, a30], [false, false, false, false], 0, false, false⟩ [0, 1, 2, 3]).anyMoved, (lfold (-1) ⟨[a00, a10, a20, a30], [false, false, false, false], 0, false, false⟩ [0, 1, 2, 3]).anyMerged⟩ [0, 1, 2, 3]).score, (lfold (-1) ⟨[a01, a11, a21, a31], [false, false, false, false], (lfold (-1) ⟨[a00, a10, a20, a30], [false, false, false, false], 0, false, false⟩ [0, 1, 2, 3]).score, (lfold (-1) ⟨[a00, a10, a20, a30], [false, false, false, false], 0, false, false⟩ [0, 1, 2, 3]).anyMoved, (lfold (-1) ⟨[a00, a10, a20, a30], [false, false, false, false], 0, false, false⟩ [0, 1, 2, 3]).anyMerged⟩ [0, 1, 2, 3]).anyMoved, (lfold (-1) ⟨[a01, a11, a21, a31], [false, false, false, false], (lfold (-1) ⟨[a00, a10, a20, a30], [false, false, false, false], 0, false, false⟩ [0, 1, 2, 3]).score, (lfold (-1) ⟨[a00, a10, a20, a30], [false, false, false, false], 0, false, false⟩ [0, 1, 2, 3]).anyMoved, (lfold (-1) ⟨[a00, a10, a20, a30], [false, false, false, false], 0, false, false⟩ [0, 1, 2, 3]).anyMerged⟩ [0, 1, 2, 3]).anyMerged⟩ [0, 1, 2, 3]).anyMerged⟩ 3 (by omega) (by decide) wg3 wm3]
    rfl
  have hfold : (pairsFor .up).foldl (vstep (-1) 0) ⟨[[a00, a01, a02, a03], [a10, a11, a12, a13], [a20, a21, a22, a23], [a30, a31, a32, a33]], TileGame.emptyMGrid, 0, false, false⟩ = ⟨(Mat.setCol (Mat.setCol (Mat.setCol (Mat.setCol [[a00, a01, a02, a03], [a10, a11, a12, a13], [a20, a21, a22, a23], [a30, a31, a32, a33]] none 0 (lfold (-1) ⟨[a00, a10, a20, a30], [false, false, false, false], 0, false, false⟩ [0, 1, 2, 3]).line) none 1 (lfold (-1) ⟨[a01, a11, a21, a31], [false, false, false, false], (lfold (-1) ⟨[a00, a10, a20, a30], [false, false, false, false], 0, false, false⟩ [0, 1, 2, 3]).score, (lfold (-1) ⟨[a00, a10, a20, a30], [false, false, false, false], 0, false, false⟩ [0, 1, 2, 3]).anyMoved, (lfold (-1) ⟨[a00, a10, a20, a30], [false, false, false, false], 0, false, false⟩ [0, 1, 2, 3]).anyMerged⟩ [0, 1, 2, 3]).line) none 2 (lfold (-1) ⟨[a02, a12, a22, a32], [false, false, false, false], (lfold (-1) ⟨[a01, a11, a21, a31], [false, false, false, false], (lfold (-1) ⟨[a00, a10, a20, a30], [false, false, false, false], 0, false, false⟩ [0, 1, 2, 3]).score, (lfold (-1) ⟨[a00, a10, a20, a30], [false, false, false, false], 0, false, false⟩ [0, 1, 2, 3]).anyMoved, (lfold (-1) ⟨[a00, a10, a20, a30], [false, false, false, false], 0, false, false⟩ [0, 1, 2, 3]).anyMerged⟩ [0, 1, 2, 3]).score, (lfold (-1) ⟨[a01, a11, a21, a31], [false, false, false, false], (lfold (-1) ⟨[a00, a10, a20, a30], [false, false, false, false], 0, false, false⟩ [0, 1, 2, 3]).score, (lfold (-1) ⟨[a00, a10, a20, a30], [false, false, false, false], 0, false, false⟩ [0, 1, 2, 3]).anyMoved, (lfold (-1) ⟨[a00, a10, a20, a30], [false, false, false, false], 0, false, false⟩ [0, 1, 2, 3]).anyMerged⟩ [0, 1, 2, 3]).anyMoved, (lfold (-1) ⟨[a01, a11, a21, a31], [false, false, false, false], (lfold (-1) ⟨[a00, a10, a20, a30], [false, false, false, false], 0, false, false⟩ [0, 1, 2, 3]).score, (lfold (-1) ⟨[a00, a10, a20, a30], [false, false, false, false], 0, false, false⟩ [0, 1, 2, 3]).anyMoved, (lfold (-1) ⟨[a00, a10, a20, a30], [false, false, false, false], 0, false, false⟩ [0, 1, 2, 3]).anyMerged⟩ [0, 1, 2, 3]).anyMerged⟩ [0, 1, 2, 3]).line) none 3 (lfold (-1) ⟨[a03, a13, a23, a33], [false, false, false, false], (lfold (-1) ⟨[a02, a12, a22, a32], [false, false, false, false], (lfold (-1) ⟨[a01, a11, a21, a31], [false, false, false, false], (lfold (-1) ⟨[a00, a10, a20, a30], [false, false, false, false], 0, false, false⟩ [0, 1, 2, 3]).score, (lfold (-1) ⟨[a00, a10, a20, a30], [false, false, false, false], 0, false, false⟩ [0, 1, 2, 3]).anyMoved, (lfold (-1) ⟨[a00, a10, a20, a30], [false, false, false, false], 0, false, false⟩ [0, 1, 2, 3]).anyMerged⟩ [0, 1, 2, 3]).score, (lfold (-1) ⟨[a01, a11, a21, a31], [false, false, false, false], (lfold (-1) ⟨[a00, a10, a20, a30], [false, false, false, false], 0, false, false⟩ [0, 1, 2, 3]).score, (lfold (-1) ⟨[a00, a10, a20, a30], [false, false, false, false], 0, false, false⟩ [0, 1, 2, 3]).anyMoved, (lfold (-1) ⟨[a00, a10, a20, a30], [false, false, false, false], 0, false, false⟩ [0, 1, 2, 3]).anyMerged⟩ [0, 1, 2, 3]).anyMoved, (lfold (-1) ⟨[a01, a11, a21, a31], [false, false, false, false], (lfold (-1) ⟨[a00, a10, a20, a30], [false, false, false, false], 0, false, false⟩ [0, 1, 2, 3]).score, (lfold (-1) ⟨[a00, a10, a20, a30], [false, false, false, false], 0, false, false⟩ [0, 1, 2, 3]).anyMoved, (lfold (-1) ⟨[a00, a10, a20, a30], [false, false, false, false], 0, false, false⟩ [0, 1, 2, 3]).anyMerged⟩ [0, 1, 2, 3]).anyMerged⟩ [0, 1, 2, 3]).score, (lfold (-1) ⟨[a02, a12, a22, a32], [false, false, false, false], (lfold (-1) ⟨[a01, a11, a21, a31], [false, false, false, false], (lfold (-1) ⟨[a00, a10, a20, a30], [false, false, false, false], 0, false, false⟩ [0, 1, 2, 3]).score, (lfold (-1) ⟨[a00, a10, a20, a30], [false, false, false, false], 0, false, false⟩ [0, 1, 2, 3]).anyMoved, (lfold (-1) ⟨[a00, a10, a20, a30], [false, false, false, false], 0, false, false⟩ [0, 1, 2, 3]).anyMerged⟩ [0, 1, 2, 3]).score, (lfold (-1) ⟨[a01, a11, a21, a31], [false, false, false, false], (lfold (-1) ⟨[a00, a10, a20, a30], [false, false, false, false], 0, false, false⟩ [0, 1, 2, 3]).score, (lfold (-1) ⟨[a00, a10, a20, a30], [false, false, false, false], 0, false, false⟩ [0, 1, 2, 3]).anyMoved, (lfold (-1) ⟨[a00, a10, a20, a30], [false, false, false, false], 0, false, false⟩ [0, 1, 2, 3]).anyMerged⟩ [0, 1, 2, 3]).anyMoved, (lfold (-1) ⟨[a01, a11, a21, a31], [false, false, false, false], (lfold (-1) ⟨[a00, a10, a20, a30], [false, false, false, false], 0, false, false⟩ [0, 1, 2, 3]).score, (lfold (-1) ⟨[a00, a10, a20, a30], [false, false, false, false], 0, false, false⟩ [0, 1, 2, 3]).anyMoved, (lfold (-1) ⟨[a00, a10, a20, a30], [false, false, false, false], 0, false, false⟩ [0, 1, 2, 3]).anyMerged⟩ [0, 1, 2, 3]).anyMerged⟩ [0, 1, 2, 3]).anyMoved, (lfold (-1) ⟨[a02, a12, a22, a32], [false, false, false, false], (lfold (-1) ⟨[a01, a11, a21, a31], [false, false, false, false], (lfold (-1) ⟨[a00, a10, a20, a30], [false, false, false, false], 0, false, false⟩ [0, 1, 2, 3]).score, (lfold (-1) ⟨[a00, a10, a20, a30], [false, false, false, false], 0, false, false⟩ [0, 1, 2, 3]).anyMoved, (lfold (-1) ⟨[a00, a10, a20, a30], [false, false, false, false], 0, false, false⟩ [0, 1, 2, 3]).anyMerged⟩ [0, 1, 2, 3]).score, (lfold (-1) ⟨[a01, a11, a21, a31], [false, false, false, false], (lfold (-1) ⟨[a00, a10, a20, a30], [false, false, false, false], 0, false, false⟩ [0, 1, 2, 3]).score, (lfold (-1) ⟨[a00, a10, a20, a30], [false, false, false, false], 0, false, false⟩ [0, 1, 2, 3]).anyMoved, (lfold (-1) ⟨[a00, a10, a20, a30], [false, false, false, false], 0, false, false⟩ [0, 1, 2, 3]).anyMerged⟩ [0, 1, 2, 3]).anyMoved, (lfold (-1) ⟨[a01, a11, a21, a31], [false, false, false, false], (lfold (-1) ⟨[a00, a10, a20, a30], [false, false, false, false], 0, false, false⟩ [0, 1, 2, 3]).score, (lfold (-1) ⟨[a00, a10, a20, a30], [false, false, false, false], 0, false, false⟩ [0, 1, 2, 3]).anyMoved, (lfold (-1) ⟨[a00, a10, a20, a30], [false, false, false, false], 0, false, false⟩ [0, 1, 2, 3]).anyMerged⟩ [0, 1, 2, 3]).anyMerged⟩ [0, 1, 2, 3]).anyMerged⟩ [0, 1, 2, 3]).line), (Mat.setCol (Mat.setCol (Mat.setCol (Mat.setCol TileGame.emptyMGrid false 0 (lfold (-1) ⟨[a00, a10, a20, a30], [false, false, false, false], 0, false, false⟩ [0, 1, 2, 3]).marks) false 1 (lfold (-1) ⟨[a01, a11, a21, a31], [false, false, false, false], (lfold (-1) ⟨[a00, a10, a20, a30], [false, false, false, false], 0, false, false⟩ [0, 1, 2, 3]).score, (lfold (-1) ⟨[a00, a10, a20, a30], [false, false, false, false], 0, false, false⟩ [0, 1, 2, 3]).anyMoved, (lfold (-1) ⟨[a00, a10, a20, a30], [false, false, false, false], 0, false, false⟩ [0, 1, 2, 3]).anyMerged⟩ [0, 1, 2, 3]).marks) false 2 (lfold (-1) ⟨[a02, a12, a22, a32], [false, false, false, false], (lfold (-1) ⟨[a01, a11, a21, a31], [false, false, false, false], (lfold (-1) ⟨[a00, a10, a20, a30], [false, false, false, false], 0, false, false⟩ [0, 1, 2, 3]).score, (lfold (-1) ⟨[a00, a10, a20, a30], [false, false, false, false], 0, false, false⟩ [0, 1, 2, 3]).anyMoved, (lfold (-1) ⟨[a00, a10, a20, a30], [false, false, false, false], 0, false, false⟩ [0, 1, 2, 3]).anyMerged⟩ [0, 1, 2, 3]).score, (lfold (-1) ⟨[a01, a11, a21, a31], [false, false, false, false], (lfold (-1) ⟨[a00, a10, a20, a30], [false, false, false, false], 0, false, false⟩ [0, 1, 2, 3]).score, (lfold (-1) ⟨[a00, a10, a20, a30], [false, false, false, false], 0, false, false⟩ [0, 1, 2, 3]).anyMoved, (lfold (-1) ⟨[a00, a10, a20, a30], [false, false, false, false], 0, false, false⟩ [0, 1, 2, 3]).anyMerged⟩ [0, 1, 2, 3]).anyMoved, (lfold (-1) ⟨[a01, a11, a21, a31], [false, false, false, false], (lfold (-1) ⟨[a00, a10, a20, a30], [false, false, false, false], 0, false, false⟩ [0, 1, 2, 3]).score, (lfold (-1) ⟨[a00, a10, a20, a30], [false, false, false, false], 0, false, false⟩ [0, 1, 2, 3]).anyMoved, (lfold (-1) ⟨[a00, a10, a20, a30], [false, false, false, false], 0, false, false⟩ [0, 1, 2, 3]).anyMerged⟩ [0, 1, 2, 3]).anyMerged⟩ [0, 1, 2, 3]).marks) false 3 (lfold (-1) ⟨[a03, a13, a23, a33], [false, false, false, false], (lfold (-1) ⟨[a02, a12, a22, a32], [false, false, false, false], (lfold (-1) ⟨[a01, a11, a21, a31], [false, false, false, false], (lfold (-1) ⟨[a00, a10, a20, a30], [false, false, false, false], 0, false, false⟩ [0, 1, 2, 3]).score, (lfold (-1) ⟨[a00, a10, a20, a30], [false, false, false, false], 0, false, false⟩ [0, 1, 2, 3]).anyMoved, (lfold (-1) ⟨[a00, a10, a20, a30], [false, false, false, false], 0, false, false⟩ [0, 1, 2, 3]).anyMerged⟩ [0, 1, 2, 3]).score, (lfold (-1) ⟨[a01, a11, a21, a31], [false, false, false, false], (lfold (-1) ⟨[a00, a10, a20, a30], [false, false, false, false], 0, false, false⟩ [0, 1, 2, 3]).score, (lfold (-1) ⟨[a00, a10, a20, a30], [false, false, false, false], 0, false, false⟩ [0, 1, 2, 3]).anyMoved, (lfold (-1) ⟨[a00, a10, a20, a30], [false, false, false, false], 0, false, false⟩ [0, 1, 2, 3]).anyMerged⟩ [0, 1, 2, 3]).anyMoved, (lfold (-1) ⟨[a01, a11, a21, a31], [false, false, false, false], (lfold (-1) ⟨[a00, a10, a20, a30], [false, false, false, false], 0, false, false⟩ [0, 1, 2, 3]).score, (lfold (-1) ⟨[a00, a10, a20, a30], [false, false, false, false], 0, false, false⟩ [0, 1, 2, 3]).anyMoved, (lfold (-1) ⟨[a00, a10, a20, a30], [false, false, false, false], 0, false, false⟩ [0, 1, 2, 3]).anyMerged⟩ [0, 1, 2, 3]).anyMerged⟩ [0, 1, 2, 3]).score, (lfold (-1) ⟨[a02, a12, a22, a32], [false, false, false, false], (lfold (-1) ⟨[a01, a11, a21, a31], [false, false, false, false], (lfold (-1) ⟨[a00, a10, a20, a30], [false, false, false, false], 0, false, false⟩ [0, 1, 2, 3]).score, (lfold (-1) ⟨[a00, a10, a20, a30], [false, false, false, false], 0, false, false⟩ [0, 1, 2, 3]).anyMoved, (lfold (-1) ⟨[a00, a10, a20, a30], [false, false, false, false], 0, false, false⟩ [0, 1, 2, 3]).anyMerged⟩ [0, 1, 2, 3]).score, (lfold (-1) ⟨[a01, a11, a21, a31], [false, false, false, false], (lfold (-1) ⟨[a00, a10, a20, a30], [false, false, false, false], 0, false, false⟩ [0, 1, 2, 3]).score, (lfold (-1) ⟨[a00, a10, a20, a30], [false, false, false, false], 0, false, false⟩ [0, 1, 2, 3]).anyMoved, (lfold (-1) ⟨[a00, a10, a20, a30], [false, false, false, false], 0, false, false⟩ [0, 1, 2, 3]).anyMerged⟩ [0, 1, 2, 3]).anyMoved, (lfold (-1) ⟨[a01, a11, a21, a31], [false, false, false, false], (lfold (-1) ⟨[a00, a10, a20, a30], [false, false, false, false], 0, false, false⟩ [0, 1, 2, 3]).score, (lfold (-1) ⟨[a00, a10, a20, a30], [false, false, false, false], 0, false, false⟩ [0, 1, 2, 3]).anyMoved, (lfold (-1) ⟨[a00, a10, a20, a30], [false, false, false, false], 0, false, false⟩ [0, 1, 2, 3]).anyMerged⟩ [0, 1, 2, 3]).anyMerged⟩ [0, 1, 2, 3]).anyMoved, (lfold (-1) ⟨[a02, a12, a22, a32], [false, false, false, false], (lfold (-1) ⟨[a01, a11, a21, a31], [false, false, false, false], (lfold (-1) ⟨[a00, a10, a20, a30], [false, false, false, false], 0, false, false⟩ [0, 1, 2, 3]).score, (lfold (-1) ⟨[a00, a10, a20, a30], [false, false, false, false], 0, false, false⟩ [0, 1, 2, 3]).anyMoved, (lfold (-1) ⟨[a00, a10, a20, a30], [false, false, false, false], 0, false, false⟩ [0, 1, 2, 3]).anyMerged⟩ [0, 1, 2, 3]).score, (lfold (-1) ⟨[a01, a11, a21, a31], [false, false, false, false], (lfold (-1) ⟨[a00, a10, a20, a30], [false, false, false, false], 0, false, false⟩ [0, 1, 2, 3]).score, (lfold (-1) ⟨[a00, a10, a20, a30], [false, false, false, false], 0, false, false⟩ [0, 1, 2, 3]).anyMoved, (lfold (-1) ⟨[a00, a10, a20, a30], [false, false, false, false], 0, false, false⟩ [0, 1, 2, 3]).anyMerged⟩ [0, 1, 2, 3]).anyMoved, (lfold (-1) ⟨[a01, a11, a21, a31], [false, false, false, false], (lfold (-1) ⟨[a00, a10, a20, a30], [false, false, false, false], 0, false, false⟩ [0, 1, 2, 3]).score, (lfold (-1) ⟨[a00, a10, a20, a30], [false, false, false, false], 0, false, false⟩ [0, 1, 2, 3]).anyMoved, (lfold (-1) ⟨[a00, a10, a20, a30], [false, false, false, false], 0, false, false⟩ [0, 1, 2, 3]).anyMerged⟩ [0, 1, 2, 3]).anyMerged⟩ [0, 1, 2, 3]).anyMerged⟩ [0, 1, 2, 3]).marks), (lfold (-1) ⟨[a03, a13, a23, a33], [false, false, false, false], (lfold (-1) ⟨[a02, a12, a22, a32], [false, false, false, false], (lfold (-1) ⟨[a01, a11, a21, a31], [false, false, false, false], (lfold (-1) ⟨[a00, a10, a20, a30], [false, false, false, false], 0, false, false⟩ [0, 1, 2, 3]).score, (lfold (-1) ⟨[a00, a10, a20, a30], [false, false, false, false], 0, false, false⟩ [0, 1, 2, 3]).anyMoved, (lfold (-1) ⟨[a00, a10, a20, a30], [false, false, false, false], 0, false, false⟩ [0, 1, 2, 3]).anyMerged⟩ [0, 1, 2, 3]).score, (lfold (-1) ⟨[a01, a11, a21, a31], [false, false, false, false], (lfold (-1) ⟨[a00, a10, a20, a30], [false, false, false, false], 0, false, false⟩ [0, 1, 2, 3]).score, (lfold (-1) ⟨[a00, a10, a20, a30], [false, false, false, false], 0, false, false⟩ [0, 1, 2, 3]).anyMoved, (lfold (-1) ⟨[a00, a10, a20, a30], [false, false, false, false], 0, false, false⟩ [0, 1, 2, 3]).anyMerged⟩ [0, 1, 2, 3]).anyMoved, (lfold (-1) ⟨[a01, a11, a21, a31], [false, false, false, false], (lfold (-1) ⟨[a00, a10, a20, a30], [false, false, false, false], 0, false, false⟩ [0, 1, 2, 3]).score, (lfold (-1) ⟨[a00, a10, a20, a30], [false, false, false, false], 0, false, false⟩ [0, 1, 2, 3]).anyMoved, (lfold (-1) ⟨[a00, a10, a20, a30], [false, false, false, false], 0, false, false⟩ [0, 1, 2, 3]).anyMerged⟩ [0, 1, 2, 3]).anyMerged⟩ [0, 1, 2, 3]).score, (lfold (-1) ⟨[a02, a12, a22, a32], [false, false, false, false], (lfold (-1) ⟨[a01, a11, a21, a31], [false, false, false, false], (lfold (-1) ⟨[a00, a10, a20, a30], [false, false, false, false], 0, false, false⟩ [0, 1, 2, 3]).score, (lfold (-1) ⟨[a00, a10, a20, a30], [false, false, false, false], 0, false, false⟩ [0, 1, 2, 3]).anyMoved, (lfold (-1) ⟨[a00, a10, a20, a30], [false, false, false, false], 0, false, false⟩ [0, 1, 2, 3]).anyMerged⟩ [0, 1, 2, 3]).score, (lfold (-1) ⟨[a01, a11, a21, a31], [false, false, false, false], (lfold (-1) ⟨[a00, a10, a20, a30], [false, false, false, false], 0, false, false⟩ [0, 1, 2, 3]).score, (lfold (-1) ⟨[a00, a10, a20, a30], [false, false, false, false], 0, false, false⟩ [0, 1, 2, 3]).anyMoved, (lfold (-1) ⟨[a00, a10, a20, a30], [false, false, false, false], 0, false, false⟩ [0, 1, 2, 3]).anyMerged⟩ [0, 1, 2, 3]).anyMoved, (lfold (-1) ⟨[a01, a11, a21, a31], [false, false, false, false], (lfold (-1) ⟨[a00, a10, a20, a30], [false, false, false, false], 0, false, false⟩ [0, 1, 2, 3]).score, (lfold (-1) ⟨[a00, a10, a20, a30], [false, false, false, false], 0, false, false⟩ [0, 1, 2, 3]).anyMoved, (lfold (-1) ⟨[a00, a10, a20, a30], [false, false, false, false], 0, false, false⟩ [0, 1, 2, 3]).anyMerged⟩ [0, 1, 2, 3]).anyMerged⟩ [0, 1, 2, 3]).anyMoved, (lfold (-1) ⟨[a02, a12, a22, a32], [false, false, false, false], (lfold (-1) ⟨[a01, a11, a21, a31], [false, false, false, false], (lfold (-1) ⟨[a00, a10, a20, a30], [false, false, false, false], 0, false, false⟩ [0, 1, 2, 3]).score, (lfold (-1) ⟨[a00, a10, a20, a30], [false, false, false, false], 0, false, false⟩ [0, 1, 2, 3]).anyMoved, (lfold (-1) ⟨[a00, a10, a20, a30], [false, false, false, false], 0, false, false⟩ [0, 1, 2, 3]).anyMerged⟩ [0, 1, 2, 3]).score, (lfold (-1) ⟨[a01, a11, a21, a31], [false, false, false, false], (lfold (-1) ⟨[a00, a10, a20, a30], [false, false, false, false], 0, false, false⟩ [0, 1, 2, 3]).score, (lfold (-1) ⟨[a00, a10, a20, a30], [false, false, false, false], 0, false, false⟩ [0, 1, 2, 3]).anyMoved, (lfold (-1) ⟨[a00, a10, a20, a30], [false, false, false, false], 0, false, false⟩ [0, 1, 2, 3]).anyMerged⟩ [0, 1, 2, 3]).anyMoved, (lfold (-1) ⟨[a01, a11, a21, a31], [false, false, false, false], (lfold (-1) ⟨[a00, a10, a20, a30], [false, false, false, false], 0, false, false⟩ [0, 1, 2, 3]).score, (lfold (-1) ⟨[a00, a10, a20, a30], [false, false, false, false], 0, false, false⟩ [0, 1, 2, 3]).anyMoved, (lfold (-1) ⟨[a00, a10, a20, a30], [false, false, false, false], 0, false, false⟩ [0, 1, 2, 3]).anyMerged⟩ [0, 1, 2, 3]).anyMerged⟩ [0, 1, 2, 3]).anyMerged⟩ [0, 1, 2, 3]).score, (lfold (-1) ⟨[a03, a13, a23, a33], [false, false, false, false], (lfold (-1) ⟨[a02, a12, a22, a32], [false, false, false, false], (lfold (-1) ⟨[a01, a11, a21, a31], [false, false, false, false], (lfold (-1) ⟨[a00, a10, a20, a30], [false, false, false, false], 0, false, false⟩ [0, 1, 2, 3]).score, (lfold (-1) ⟨[a00, a10, a20, a30], [false, false, false, false], 0, false, false⟩ [0, 1, 2, 3]).anyMoved, (lfold (-1) ⟨[a00, a10, a20, a30], [false, false, false, false], 0, false, false⟩ [0, 1, 2, 3]).anyMerged⟩ [0, 1, 2, 3]).score, (lfold (-1) ⟨[a01, a11, a21, a31], [false, false, false, false], (lfold (-1) ⟨[a00, a10, a20, a30], [false, false, false, false], 0, false, false⟩ [0, 1, 2, 3]).score, (lfold (-1) ⟨[a00, a10, a20, a30], [false, false, false, false], 0, false, false⟩ [0, 1, 2, 3]).anyMoved, (lfold (-1) ⟨[a00, a10, a20, a30], [false, false, false, false], 0, false, false⟩ [0, 1, 2, 3]).anyMerged⟩ [0, 1, 2, 3]).anyMoved, (lfold (-1) ⟨[a01, a11, a21, a31], [false, false, false, false], (lfold (-1) ⟨[a00, a10, a20, a30], [false, false, false, false], 0, false, false⟩ [0, 1, 2, 3]).score, (lfold (-1) ⟨[a00, a10, a20, a30], [false, false, false, false], 0, false, false⟩ [0, 1, 2, 3]).anyMoved, (lfold (-1) ⟨[a00, a10, a20, a30], [false, false, false, false], 0, false, false⟩ [0, 1, 2, 3]).anyMerged⟩ [0, 1, 2, 3]).anyMerged⟩ [0, 1, 2, 3]).score, (lfold (-1) ⟨[a02, a12, a22, a32], [false, false, false, false], (lfold (-1) ⟨[a01, a11, a21, a31], [false, false, false, false], (lfold (-1) ⟨[a00, a10, a20, a30], [false, false, false, false], 0, false, false⟩ [0, 1, 2, 3]).score, (lfold (-1) ⟨[a00, a10, a20, a30], [false, false, false, false], 0, false, false⟩ [0, 1, 2, 3]).anyMoved, (lfold (-1) ⟨[a00, a10, a20, a30], [false, false, false, false], 0, false, false⟩ [0, 1, 2, 3]).anyMerged⟩ [0, 1, 2, 3]).score, (lfold (-1) ⟨[a01, a11, a21, a31], [false, false, false, false], (lfold (-1) ⟨[a00, a10, a20, a30], [false, false, false, false], 0, false, false⟩ [0, 1, 2, 3]).score, (lfold (-1) ⟨[a00, a10, a20, a30], [false, false, false, false], 0, false, false⟩ [0, 1, 2, 3]).anyMoved, (lfold (-1) ⟨[a00, a10, a20, a30], [false, false, false, false], 0, false, false⟩ [0, 1, 2, 3]).anyMerged⟩ [0, 1, 2, 3]).anyMoved, (lfold (-1) ⟨[a01, a11, a21, a31], [false, false, false, false], (lfold (-1) ⟨[a00, a10, a20, a30], [false, false, false, false], 0, false, false⟩ [0, 1, 2, 3]).score, (lfold (-1) ⟨[a00, a10, a20, a30], [false, false, false, false], 0, false, false⟩ [0, 1, 2, 3]).anyMoved, (lfold (-1) ⟨[a00, a10, a20, a30], [false, false, false, false], 0, false, false⟩ [0, 1, 2, 3]).anyMerged⟩ [0, 1, 2, 3]).anyMerged⟩ [0, 1, 2, 3]).anyMoved, (lfold (-1) ⟨[a02, a12, a22, a32], [false, false, false, false], (lfold (-1) ⟨[a01, a11, a21, a31], [false, false, false, false], (lfold (-1) ⟨[a00, a10, a20, a30], [false, false, false, false], 0, false, false⟩ [0, 1, 2, 3]).score, (lfold (-1) ⟨[a00, a10, a20, a30], [false, false, false, false], 0, false, false⟩ [0, 1, 2, 3]).anyMoved, (lfold (-1) ⟨[a00, a10, a20, a30], [false, false, false, false], 0, false, false⟩ [0, 1, 2, 3]).anyMerged⟩ [0, 1, 2, 3]).score, (lfold (-1) ⟨[a01, a11, a21, a31], [false, false, false, false], (lfold (-1) ⟨[a00, a10, a20, a30], [false, false, false, false], 0, false, false⟩ [0, 1, 2, 3]).score, (lfold (-1) ⟨[a00, a10, a20, a30], [false, false, false, false], 0, false, false⟩ [0, 1, 2, 3]).anyMoved, (lfold (-1) ⟨[a00, a10, a20, a30], [false, false, false, false], 0, false, false⟩ [0, 1, 2, 3]).anyMerged⟩ [0, 1, 2, 3]).anyMoved, (lfold (-1) ⟨[a01, a11, a21, a31], [false, false, false, false], (lfold (-1) ⟨[a00, a10, a20, a30], [false, false, false, false], 0, false, false⟩ [0, 1, 2, 3]).score, (lfold (-1) ⟨[a00, a10, a20, a30], [false, false, false, false], 0, false, false⟩ [0, 1, 2, 3]).anyMoved, (lfold (-1) ⟨[a00, a10, a20, a30], [false, false, false, false], 0, false, false⟩ [0, 1, 2, 3]).anyMerged⟩ [0, 1, 2, 3]).anyMerged⟩ [0, 1, 2, 3]).anyMerged⟩ [0, 1, 2, 3]).anyMoved, (lfold (-1) ⟨[a03, a13, a23, a33], [false, false, false, false], (lfold (-1) ⟨[a02, a12, a22, a32], [false, false, false, false], (lfold (-1) ⟨[a01, a11, a21, a31], [false, false, false, false], (lfold (-1) ⟨[a00, a10, a20, a30], [false, false, false, false], 0, false, false⟩ [0, 1, 2, 3]).score, (lfold (-1) ⟨[a00, a10, a20, a30], [false, false, false, false], 0, false, false⟩ [0, 1, 2, 3]).anyMoved, (lfold (-1) ⟨[a00, a10, a20, a30], [false, false, false, false], 0, false, false⟩ [0, 1, 2, 3]).anyMerged⟩ [0, 1, 2, 3]).score, (lfold (-1) ⟨[a01, a11, a21, a31], [false, false, false, false], (lfold (-1) ⟨[a00, a10, a20, a30], [false, false, false, false], 0, false, false⟩ [0, 1, 2, 3]).score, (lfold (-1) ⟨[a00, a10, a20, a30], [false, false, false, false], 0, false, false⟩ [0, 1, 2, 3]).anyMoved, (lfold (-1) ⟨[a00, a10, a20, a30], [false, false, false, false], 0, false, false⟩ [0, 1, 2, 3]).anyMerged⟩ [0, 1, 2, 3]).anyMoved, (lfold (-1) ⟨[a01, a11, a21, a31], [false, false, false, false], (lfold (-1) ⟨[a00, a10, a20, a30], [false, false, false, false], 0, false, false⟩ [0, 1, 2, 3]).score, (lfold (-1) ⟨[a00, a10, a20, a30], [false, false, false, false], 0, false, false⟩ [0, 1, 2, 3]).anyMoved, (lfold (-1) ⟨[a00, a10, a20, a30], [false, false, false, false], 0, false, false⟩ [0, 1, 2, 3]).anyMerged⟩ [0, 1, 2, 3]).anyMerged⟩ [0, 1, 2, 3]).score, (lfold (-1) ⟨[a02, a12, a22, a32], [false, false, false, false], (lfold (-1) ⟨[a01, a11, a21, a31], [false, false, false, false], (lfold (-1) ⟨[a00, a10, a20, a30], [false, false, false, false], 0, false, false⟩ [0, 1, 2, 3]).score, (lfold (-1) ⟨[a00, a10, a20, a30], [false, false, false, false], 0, false, false⟩ [0, 1, 2, 3]).anyMoved, (lfold (-1) ⟨[a00, a10, a20, a30], [false, false, false, false], 0, false, false⟩ [0, 1, 2, 3]).anyMerged⟩ [0, 1, 2, 3]).score, (lfold (-1) ⟨[a01, a11, a21, a31], [false, false, false, false], (lfold (-1) ⟨[a00, a10, a20, a30], [false, false, false, false], 0, false, false⟩ [0, 1, 2, 3]).score, (lfold (-1) ⟨[a00, a10, a20, a30], [false, false, false, false], 0, false, false⟩ [0, 1, 2, 3]).anyMoved, (lfold (-1) ⟨[a00, a10, a20, a30], [false, false, false, false], 0, false, false⟩ [0, 1, 2, 3]).anyMerged⟩ [0, 1, 2, 3]).anyMoved, (lfold (-1) ⟨[a01, a11, a21, a31], [false, false, false, false], (lfold (-1) ⟨[a00, a10, a20, a30], [false, false, false, false], 0, false, false⟩ [0, 1, 2, 3]).score, (lfold (-1) ⟨[a00, a10, a20, a30], [false, false, false, false], 0, false, false⟩ [0, 1, 2, 3]).anyMoved, (lfold (-1) ⟨[a00, a10, a20, a30], [false, false, false, false], 0, false, false⟩ [0, 1, 2, 3]).anyMerged⟩ [0, 1, 2, 3]).anyMerged⟩ [0, 1, 2, 3]).anyMoved, (lfold (-1) ⟨[a02, a12, a22, a32], [false, false, false, false], (lfold (-1) ⟨[a01, a11, a21, a31], [false, false, false, false], (lfold (-1) ⟨[a00, a10, a20, a30], [false, false, false, false], 0, false, false⟩ [0, 1, 2, 3]).score, (lfold (-1) ⟨[a00, a10, a20, a30], [false, false, false, false], 0, false, false⟩ [0, 1, 2, 3]).anyMoved, (lfold (-1) ⟨[a00, a10, a20, a30], [false, false, false, false], 0, false, false⟩ [0, 1, 2, 3]).anyMerged⟩ [0, 1, 2, 3]).score, (lfold (-1) ⟨[a01, a11, a21, a31], [false, false, false, false], (lfold (-1) ⟨[a00, a10, a20, a30], [false, false, false, false], 0, false, false⟩ [0, 1, 2, 3]).score, (lfold (-1) ⟨[a00, a10, a20, a30], [false, false, false, false], 0, false, false⟩ [0, 1, 2, 3]).anyMoved, (lfold (-1) ⟨[a00, a10, a20, a30], [false, false, false, false], 0, false, false⟩ [0, 1, 2, 3]).anyMerged⟩ [0, 1, 2, 3]).anyMoved, (lfold (-1) ⟨[a01, a11, a21, a31], [false, false, false, false], (lfold (-1) ⟨[a00, a10, a20, a30], [false, false, false, false], 0, false, false⟩ [0, 1, 2, 3]).score, (lfold (-1) ⟨[a00, a10, a20, a30], [false, false, false, false], 0, false, false⟩ [0, 1, 2, 3]).anyMoved, (lfold (-1) ⟨[a00, a10, a20, a30], [false, false, false, false], 0, false, false⟩ [0, 1, 2, 3]).anyMerged⟩ [0, 1, 2, 3]).anyMerged⟩ [0, 1, 2, 3]).anyMerged⟩ [0, 1, 2, 3]).anyMerged⟩ := by
    rw [pairsFor_up_reorder (-1) ⟨[[a00, a01, a02, a03], [a10, a11, a12, a13], [a20, a21, a22, a23], [a30, a31, a32, a33]], TileGame.emptyMGrid, 0, false, false⟩ wg0 wm0]
    rw [hb0, hb1, hb2, hb3]
  have hmove : GridGame.move [[a00, a01, a02, a03], [a10, a11, a12, a13], [a20, a21, a22, a23], [a30, a31, a32, a33]] .up
      = ⟨[[(GridGame.slideRow [a00, a10, a20, a30]).newRow.getD 0 none, (GridGame.slideRow [a01, a11, a21, a31]).newRow.getD 0 none, (GridGame.slideRow [a02, a12, a22, a32]).newRow.getD 0 none, (GridGame.slideRow [a03, a13, a23, a33]).newRow.getD 0 none], [(GridGame.slideRow [a00, a10, a20, a30]).newRow.getD 1 none, (GridGame.slideRow [a01, a11, a21, a31]).newRow.getD 1 none, (GridGame.slideRow [a02, a12, a22, a32]).newRow.getD 1 none, (GridGame.slideRow [a03, a13, a23, a33]).newRow.getD 1 none], [(GridGame.slideRow [a00, a10, a20, a30]).newRow.getD 2 none, (GridGame.slideRow [a01, a11, a21, a31]).newRow.getD 2 none, (GridGame.slideRow [a02, a12, a22, a32]).newRow.getD 2 none, (GridGame.slideRow [a03, a13, a23, a33]).newRow.getD 2 none], [(GridGame.slideRow [a00, a10, a20, a30]).newRow.getD 3 none, (GridGame.slideRow [a01, a11, a21, a31]).newRow.getD 3 none, (GridGame.slideRow [a02, a12, a22, a32]).newRow.getD 3 none, (GridGame.slideRow [a03, a13, a23, a33]).newRow.getD 3 none]],
         (GridGame.slideRow [a03, a13, a23, a33]).score + ((GridGame.slideRow [a02, a12, a22, a32]).score + ((GridGame.slideRow [a01, a11, a21, a31]).score + ((GridGame.slideRow [a00, a10, a20, a30]).score + 0))),
         !(GridGame.gridsEqual [[a00, a01, a02, a03], [a10, a11, a12, a13], [a20, a21, a22, a23], [a30, a31, a32, a33]] [[(GridGame.slideRow [a00, a10, a20, a30]).newRow.getD 0 none, (GridGame.slideRow [a01, a11, a21, a31]).newRow.getD 0 none, (GridGame.slideRow [a02, a12, a22, a32]).newRow.getD 0 none, (GridGame.slideRow [a03, a13, a23, a33]).newRow.getD 0 none], [(GridGame.slideRow [a00, a10, a20, a30]).newRow.getD 1 none, (GridGame.slideRow [a01, a11, a21, a31]).newRow.getD 1 none, (GridGame.slideRow [a02, a12, a22, a32]).newRow.getD 1 none, (GridGame.slideRow [a03, a13, a23, a33]).newRow.getD 1 none], [(GridGame.slideRow [a00, a10, a20, a30]).newRow.getD 2 none, (GridGame.slideRow [a01, a11, a21, a31]).newRow.getD 2 none, (GridGame.slideRow [a02, a12, a22, a32]).newRow.getD 2 none, (GridGame.slideRow [a03, a13, a23, a33]).newRow.getD 2 none], [(GridGame.slideRow [a00, a10, a20, a30]).newRow.getD 3 none, (GridGame.slideRow [a01, a11, a21, a31]).newRow.getD 3 none, (GridGame.slideRow [a02, a12, a22, a32]).newRow.getD 3 none, (GridGame.slideRow [a03, a13, a23, a33]).newRow.getD 3 none]]),
         ((GridGame.slideRow [a03, a13, a23, a33]).merged || ((GridGame.slideRow [a02, a12, a22, a32]).merged || ((GridGame.slideRow [a01, a11, a21, a31]).merged || ((GridGame.slideRow [a00, a10, a20, a30]).merged || false))))⟩ := rfl
  have hWFg : GridGame.WFdim [[a00, a01, a02, a03], [a10, a11, a12, a13], [a20, a21, a22, a23], [a30, a31, a32, a33]] := by
    refine ⟨rfl, ?_⟩
    intro row hrow
    simp only [List.mem_cons, List.not_mem_nil, or_false] at hrow
    rcases hrow with rfl | rfl | rfl | rfl <;> rfl
  have hWFw : GridGame.WFdim [[(GridGame.slideRow [a00, a10, a20, a30]).newRow.getD 0 none, (GridGame.slideRow [a01, a11, a21, a31]).newRow.getD 0 none, (GridGame.slideRow [a02, a12, a22, a32]).newRow.getD 0 none, (GridGame.slideRow [a03, a13, a23, a33]).newRow.getD 0 none], [(GridGame.slideRow [a00, a10, a20, a30]).newRow.getD 1 none, (GridGame.slideRow [a01, a11, a21, a31]).newRow.getD 1 none, (GridGame.slideRow [a02, a12, a22, a32]).newRow.getD 1 none, (GridGame.slideRow [a03, a13, a23, a33]).newRow.getD 1 none], [(GridGame.slideRow [a00, a10, a20, a30]).newRow.getD 2 none, (GridGame.slideRow [a01, a11, a21, a31]).newRow.getD 2 none, (GridGame.slideRow [a02, a12, a22, a32]).newRow.getD 2 none, (GridGame.slideRow [a03, a13, a23, a33]).newRow.getD 2 none], [(GridGame.slideRow [a00, a10, a20, a30]).newRow.getD 3 none, (GridGame.slideRow [a01, a11, a21, a31]).newRow.getD 3 none, (GridGame.slideRow [a02, a12, a22, a32]).newRow.getD 3 none, (GridGame.slideRow [a03, a13, a23, a33]).newRow.getD 3 none]] := by
    refine ⟨rfl, ?_⟩
    intro row hrow
    simp only [List.mem_cons, List.not_mem_nil, or_false] at hrow
    rcases hrow with rfl | rfl | rfl | rfl <;> rfl
  have hlist : ([[a00, a01, a02, a03], [a10, a11, a12, a13], [a20, a21, a22, a23], [a30, a31, a32, a33]] = [[(GridGame.slideRow [a00, a10, a20, a30]).newRow.getD 0 none, (GridGame.slideRow [a01, a11, a21, a31]).newRow.getD 0 none, (GridGame.slideRow [a02, a12, a22, a32]).newRow.getD 0 none, (GridGame.slideRow [a03, a13, a23, a33]).newRow.getD 0 none], [(GridGame.slideRow [a00, a10, a20, a30]).newRow.getD 1 none, (GridGame.slideRow [a01, a11, a21, a31]).newRow.getD 1 none, (GridGame.slideRow [a02, a12, a22, a32]).newRow.getD 1 none, (GridGame.slideRow [a03, a13, a23, a33]).newRow.getD 1 none], [(GridGame.slideRow [a00, a10, a20, a30]).newRow.getD 2 none, (GridGame.slideRow [a01, a11, a21, a31]).newRow.getD 2 none, (GridGame.slideRow [a02, a12, a22, a32]).newRow.getD 2 none, (GridGame.slideRow [a03, a13, a23, a33]).newRow.getD 2 none], [(GridGame.slideRow [a00, a10, a20, a30]).newRow.getD 3 none, (GridGame.slideRow [a01, a11, a21, a31]).newRow.getD 3 none, (GridGame.slideRow [a02, a12, a22, a32]).newRow.getD 3 none, (GridGame.slideRow [a03, a13, a23, a33]).newRow.getD 3 none]]) ↔ ((GridGame.slideRow [a00, a10, a20, a30]).newRow = [a00, a10, a20, a30] ∧ (GridGame.slideRow [a01, a11, a21, a31]).newRow = [a01, a11, a21, a31] ∧ (GridGame.slideRow [a02, a12, a22, a32]).newRow = [a02, a12, a22, a32] ∧ (GridGame.slideRow [a03, a13, a23, a33]).newRow = [a03, a13, a23, a33]) := by
    constructor
    · intro h
      simp only [List.cons.injEq, and_true] at h
      obtain ⟨⟨q00, q01, q02, q03⟩, ⟨q10, q11, q12, q13⟩, ⟨q20, q21, q22, q23⟩, ⟨q30, q31, q32, q33⟩⟩ := h
      refine ⟨?_, ?_, ?_, ?_⟩
      · rw [Mat.list4_eq none (slideRow_newRow_length (show ([a00, a10, a20, a30] : List (Option Nat)).length = 4 from rfl))]
        rw [← q00, ← q10, ← q20, ← q30]
      · rw [Mat.list4_eq none (slideRow_newRow_length (show ([a01, a11, a21, a31] : List (Option Nat)).length = 4 from rfl))]
        rw [← q01, ← q11, ← q21, ← q31]
      · rw [Mat.list4_eq none (slideRow_newRow_length (show ([a02, a12, a22, a32] : List (Option Nat)).length = 4 from rfl))]
        rw [← q02, ← q12, ← q22, ← q32]
      · rw [Mat.list4_eq none (slideRow_newRow_length (show ([a03, a13, a23, a33] : List (Option Nat)).length = 4 from rfl))]
        rw [← q03, ← q13, ← q23, ← q33]
    · rintro ⟨k0, k1, k2, k3⟩
      rw [k0, k1, k2, k3]
      rfl
  have hg2 : GridGame.gridsEqual [[a00, a01, a02, a03], [a10, a11, a12, a13], [a20, a21, a22, a23], [a30, a31, a32, a33]] [[(GridGame.slideRow [a00, a10, a20, a30]).newRow.getD 0 none, (GridGame.slideRow [a01, a11, a21, a31]).newRow.getD 0 none, (GridGame.slideRow [a02, a12, a22, a32]).newRow.getD 0 none, (GridGame.slideRow [a03, a13, a23, a33]).newRow.getD 0 none], [(GridGame.slideRow [a00, a10, a20, a30]).newRow.getD 1 none, (GridGame.slideRow [a01, a11, a21, a31]).newRow.getD 1 none, (GridGame.slideRow [a02, a12, a22, a32]).newRow.getD 1 none, (GridGame.slideRow [a03, a13, a23, a33]).newRow.getD 1 none], [(GridGame.slideRow [a00, a10, a20, a30]).newRow.getD 2 none, (GridGame.slideRow [a01, a11, a21, a31]).newRow.getD 2 none, (GridGame.slideRow [a02, a12, a22, a32]).newRow.getD 2 none, (GridGame.slideRow [a03, a13, a23, a33]).newRow.getD 2 none], [(GridGame.slideRow [a00, a10, a20, a30]).newRow.getD 3 none, (GridGame.slideRow [a01, a11, a21, a31]).newRow.getD 3 none, (GridGame.slideRow [a02, a12, a22, a32]).newRow.getD 3 none, (GridGame.slideRow [a03, a13, a23, a33]).newRow.getD 3 none]] = true ↔ ((GridGame.slideRow [a00, a10, a20, a30]).newRow = [a00, a10, a20, a30] ∧ (GridGame.slideRow [a01, a11, a21, a31]).newRow = [a01, a11, a21, a31] ∧ (GridGame.slideRow [a02, a12, a22, a32]).newRow = [a02, a12, a22, a32] ∧ (GridGame.slideRow [a03, a13, a23, a33]).newRow = [a03, a13, a23, a33]) :=
    (GridGame.gridsEqual_eq hWFg hWFw).trans hlist
  have hiff : (lfold (-1) ⟨[a03, a13, a23, a33], [false, false, false, false], (lfold (-1) ⟨[a02, a12, a22, a32], [false, false, false, false], (lfold (-1) ⟨[a01, a11, a21, a31], [false, false, false, false], (lfold (-1) ⟨[a00, a10, a20, a30], [false, false, false, false], 0, false, false⟩ [0, 1, 2, 3]).score, (lfold (-1) ⟨[a00, a10, a20, a30], [false, false, false, false], 0, false, false⟩ [0, 1, 2, 3]).anyMoved, (lfold (-1) ⟨[a00, a10, a20, a30], [false, false, false, false], 0, false, false⟩ [0, 1, 2, 3]).anyMerged⟩ [0, 1, 2, 3]).score, (lfold (-1) ⟨[a01, a11, a21, a31], [false, false, false, false], (lfold (-1) ⟨[a00, a10, a20, a30], [false, false, false, false], 0, false, false⟩ [0, 1, 2, 3]).score, (lfold (-1) ⟨[a00, a10, a20, a30], [false, false, false, false], 0, false, false⟩ [0, 1, 2, 3]).anyMoved, (lfold (-1) ⟨[a00, a10, a20, a30], [false, false, false, false], 0, false, false⟩ [0, 1, 2, 3]).anyMerged⟩ [0, 1, 2, 3]).anyMoved, (lfold (-1) ⟨[a01, a11, a21, a31], [false, false, false, false], (lfold (-1) ⟨[a00, a10, a20, a30], [false, false, false, false], 0, false, false⟩ [0, 1, 2, 3]).score, (lfold (-1) ⟨[a00, a10, a20, a30], [false, false, false, false], 0, false, false⟩ [0, 1, 2, 3]).anyMoved, (lfold (-1) ⟨[a00, a10, a20, a30], [false, false, false, false], 0, false, false⟩ [0, 1, 2, 3]).anyMerged⟩ [0, 1, 2, 3]).anyMerged⟩ [0, 1, 2, 3]).score, (lfold (-1) ⟨[a02, a12, a22, a32], [false, false, false, false], (lfold (-1) ⟨[a01, a11, a21, a31], [false, false, false, false], (lfold (-1) ⟨[a00, a10, a20, a30], [false, false, false, false], 0, false, false⟩ [0, 1, 2, 3]).score, (lfold (-1) ⟨[a00, a10, a20, a30], [false, false, false, false], 0, false, false⟩ [0, 1, 2, 3]).anyMoved, (lfold (-1) ⟨[a00, a10, a20, a30], [false, false, false, false], 0, false, false⟩ [0, 1, 2, 3]).anyMerged⟩ [0, 1, 2, 3]).score, (lfold (-1) ⟨[a01, a11, a21, a31], [false, false, false, false], (lfold (-1) ⟨[a00, a10, a20, a30], [false, false, false, false], 0, false, false⟩ [0, 1, 2, 3]).score, (lfold (-1) ⟨[a00, a10, a20, a30], [false, false, false, false], 0, false, false⟩ [0, 1, 2, 3]).anyMoved, (lfold (-1) ⟨[a00, a10, a20, a30], [false, false, false, false], 0, false, false⟩ [0, 1, 2, 3]).anyMerged⟩ [0, 1, 2, 3]).anyMoved, (lfold (-1) ⟨[a01, a11, a21, a31], [false, false, false, false], (lfold (-1) ⟨[a00, a10, a20, a30], [false, false, false, false], 0, false, false⟩ [0, 1, 2, 3]).score, (lfold (-1) ⟨[a00, a10, a20, a30], [false, false, false, false], 0, false, false⟩ [0, 1, 2, 3]).anyMoved, (lfold (-1) ⟨[a00, a10, a20, a30], [false, false, false, false], 0, false, false⟩ [0, 1, 2, 3]).anyMerged⟩ [0, 1, 2, 3]).anyMerged⟩ [0, 1, 2, 3]).anyMoved, (lfold (-1) ⟨[a02, a12, a22, a32], [false, false, false, false], (lfold (-1) ⟨[a01, a11, a21, a31], [false, false, false, false], (lfold (-1) ⟨[a00, a10, a20, a30], [false, false, false, false], 0, false, false⟩ [0, 1, 2, 3]).score, (lfold (-1) ⟨[a00, a10, a20, a30], [false, false, false, false], 0, false, false⟩ [0, 1, 2, 3]).anyMoved, (lfold (-1) ⟨[a00, a10, a20, a30], [false, false, false, false], 0, false, false⟩ [0, 1, 2, 3]).anyMerged⟩ [0, 1, 2, 3]).score, (lfold (-1) ⟨[a01, a11, a21, a31], [false, false, false, false], (lfold (-1) ⟨[a00, a10, a20, a30], [false, false, false, false], 0, false, false⟩ [0, 1, 2, 3]).score, (lfold (-1) ⟨[a00, a10, a20, a30], [false, false, false, false], 0, false, false⟩ [0, 1, 2, 3]).anyMoved, (lfold (-1) ⟨[a00, a10, a20, a30], [false, false, false, false], 0, false, false⟩ [0, 1, 2, 3]).anyMerged⟩ [0, 1, 2, 3]).anyMoved, (lfold (-1) ⟨[a01, a11, a21, a31], [false, false, false, false], (lfold (-1) ⟨[a00, a10, a20, a30], [false, false, false, false], 0, false, false⟩ [0, 1, 2, 3]).score, (lfold (-1) ⟨[a00, a10, a20, a30], [false, false, false, false], 0, false, false⟩ [0, 1, 2, 3]).anyMoved, (lfold (-1) ⟨[a00, a10, a20, a30], [false, false, false, false], 0, false, false⟩ [0, 1, 2, 3]).anyMerged⟩ [0, 1, 2, 3]).anyMerged⟩ [0, 1, 2, 3]).anyMerged⟩ [0, 1, 2, 3]).anyMoved = true ↔ ¬((GridGame.slideRow [a00, a10, a20, a30]).newRow = [a00, a10, a20, a30] ∧ (GridGame.slideRow [a01, a11, a21, a31]).newRow = [a01, a11, a21, a31] ∧ (GridGame.slideRow [a02, a12, a22, a32]).newRow = [a02, a12, a22, a32] ∧ (GridGame.slideRow [a03, a13, a23, a33]).newRow = [a03, a13, a23, a33]) := by
    rw [e3.2.2.2, e2.2.2.2, e1.2.2.2, e0.2.2.2]
    simp only [Bool.false_eq_true, false_or, ne_eq]
    constructor
    · rintro (((h | h) | h) | h) hc
      · exact h hc.1
      · exact h hc.2.1
      · exact h hc.2.2.1
      · exact h hc.2.2.2
    · intro hc
      by_cases k0 : (GridGame.slideRow [a00, a10, a20, a30]).newRow = [a00, a10, a20, a30]
      · by_cases k1 : (GridGame.slideRow [a01, a11, a21, a31]).newRow = [a01, a11, a21, a31]
        · by_cases k2 : (GridGame.slideRow [a02, a12, a22, a32]).newRow = [a02, a12, a22, a32]
          · by_cases k3 : (GridGame.slideRow [a03, a13, a23, a33]).newRow = [a03, a13, a23, a33]
            · exact absurd ⟨k0, k1, k2, k3⟩ hc
            · exact Or.inr k3
          · exact Or.inl (Or.inr k2)
        · exact Or.inl (Or.inl (Or.inr k1))
      · exact Or.inl (Or.inl (Or.inl k0))
  refine ⟨?_, ?_, ?_, ?_⟩
  · rw [hfold, hmove]
    show (Mat.setCol (Mat.setCol (Mat.setCol (Mat.setCol [[a00, a01, a02, a03], [a10, a11, a12, a13], [a20, a21, a22, a23], [a30, a31, a32, a33]] none 0 (lfold (-1) ⟨[a00, a10, a20, a30], [false, false, false, false], 0, false, false⟩ [0, 1, 2, 3]).line) none 1 (lfold (-1) ⟨[a01, a11, a21, a31], [false, false, false, false], (lfold (-1) ⟨[a00, a10, a20, a30], [false, false, false, false], 0, false, false⟩ [0, 1, 2, 3]).score, (lfold (-1) ⟨[a00, a10, a20, a30], [false, false, false, false], 0, false, false⟩ [0, 1, 2, 3]).anyMoved, (lfold (-1) ⟨[a00, a10, a20, a30], [false, false, false, false], 0, false, false⟩ [0, 1, 2, 3]).anyMerged⟩ [0, 1, 2, 3]).line) none 2 (lfold (-1) ⟨[a02, a12, a22, a32], [false, false, false, false], (lfold (-1) ⟨[a01, a11, a21, a31], [false, false, false, false], (lfold (-1) ⟨[a00, a10, a20, a30], [false, false, false, false], 0, false, false⟩ [0, 1, 2, 3]).score, (lfold (-1) ⟨[a00, a10, a20, a30], [false, false, false, false], 0, false, false⟩ [0, 1, 2, 3]).anyMoved, (lfold (-1) ⟨[a00, a10, a20, a30], [false, false, false, false], 0, false, false⟩ [0, 1, 2, 3]).anyMerged⟩ [0, 1, 2, 3]).score, (lfold (-1) ⟨[a01, a11, a21, a31], [false, false, false, false], (lfold (-1) ⟨[a00, a10, a20, a30], [false, false, false, false], 0, false, false⟩ [0, 1, 2, 3]).score, (lfold (-1) ⟨[a00, a10, a20, a30], [false, false, false, false], 0, false, false⟩ [0, 1, 2, 3]).anyMoved, (lfold (-1) ⟨[a00, a10, a20, a30], [false, false, false, false], 0, false, false⟩ [0, 1, 2, 3]).anyMerged⟩ [0, 1, 2, 3]).anyMoved, (lfold (-1) ⟨[a01, a11, a21, a31], [false, false, false, false], (lfold (-1) ⟨[a00, a10, a20, a30], [false, false, false, false], 0, false, false⟩ [0, 1, 2, 3]).score, (lfold (-1) ⟨[a00, a10, a20, a30], [false, false, false, false], 0, false, false⟩ [0, 1, 2, 3]).anyMoved, (lfold (-1) ⟨[a00, a10, a20, a30], [false, false, false, false], 0, false, false⟩ [0, 1, 2, 3]).anyMerged⟩ [0, 1, 2, 3]).anyMerged⟩ [0, 1, 2, 3]).line) none 3 (lfold (-1) ⟨[a03, a13, a23, a33], [false, false, false, false], (lfold (-1) ⟨[a02, a12, a22, a32], [false, false, false, false], (lfold (-1) ⟨[a01, a11, a21, a31], [false, false, false, false], (lfold (-1) ⟨[a00, a10, a20, a30], [false, false, false, false], 0, false, false⟩ [0, 1, 2, 3]).score, (lfold (-1) ⟨[a00, a10, a20, a30], [false, false, false, false], 0, false, false⟩ [0, 1, 2, 3]).anyMoved, (lfold (-1) ⟨[a00, a10, a20, a30], [false, false, false, false], 0, false, false⟩ [0, 1, 2, 3]).anyMerged⟩ [0, 1, 2, 3]).score, (lfold (-1) ⟨[a01, a11, a21, a31], [false, false, false, false], (lfold (-1) ⟨[a00, a10, a20, a30], [false, false, false, false], 0, false, false⟩ [0, 1, 2, 3]).score, (lfold (-1) ⟨[a00, a10, a20, a30], [false, false, false, false], 0, false, false⟩ [0, 1, 2, 3]).anyMoved, (lfold (-1) ⟨[a00, a10, a20, a30], [false, false, false, false], 0, false, false⟩ [0, 1, 2, 3]).anyMerged⟩ [0, 1, 2, 3]).anyMoved, (lfold (-1) ⟨[a01, a11, a21, a31], [false, false, false, false], (lfold (-1) ⟨[a00, a10, a20, a30], [false, false, false, false], 0, false, false⟩ [0, 1, 2, 3]).score, (lfold (-1) ⟨[a00, a10, a20, a30], [false, false, false, false], 0, false, false⟩ [0, 1, 2, 3]).anyMoved, (lfold (-1) ⟨[a00, a10, a20, a30], [false, false, false, false], 0, false, false⟩ [0, 1, 2, 3]).anyMerged⟩ [0, 1, 2, 3]).anyMerged⟩ [0, 1, 2, 3]).score, (lfold (-1) ⟨[a02, a12, a22, a32], [false, false, false, false], (lfold (-1) ⟨[a01, a11, a21, a31], [false, false, false, false], (lfold (-1) ⟨[a00, a10, a20, a30], [false, false, false, false], 0, false, false⟩ [0, 1, 2, 3]).score, (lfold (-1) ⟨[a00, a10, a20, a30], [false, false, false, false], 0, false, false⟩ [0, 1, 2, 3]).anyMoved, (lfold (-1) ⟨[a00, a10, a20, a30], [false, false, false, false], 0, false, false⟩ [0, 1, 2, 3]).anyMerged⟩ [0, 1, 2, 3]).score, (lfold (-1) ⟨[a01, a11, a21, a31], [false, false, false, false], (lfold (-1) ⟨[a00, a10, a20, a30], [false, false, false, false], 0, false, false⟩ [0, 1, 2, 3]).score, (lfold (-1) ⟨[a00, a10, a20, a30], [false, false, false, false], 0, false, false⟩ [0, 1, 2, 3]).anyMoved, (lfold (-1) ⟨[a00, a10, a20, a30], [false, false, false, false], 0, false, false⟩ [0, 1, 2, 3]).anyMerged⟩ [0, 1, 2, 3]).anyMoved, (lfold (-1) ⟨[a01, a11, a21, a31], [false, false, false, false], (lfold (-1) ⟨[a00, a10, a20, a30], [false, false, false, false], 0, false, false⟩ [0, 1, 2, 3]).score, (lfold (-1) ⟨[a00, a10, a20, a30], [false, false, false, false], 0, false, false⟩ [0, 1, 2, 3]).anyMoved, (lfold (-1) ⟨[a00, a10, a20, a30], [false, false, false, false], 0, false, false⟩ [0, 1, 2, 3]).anyMerged⟩ [0, 1, 2, 3]).anyMerged⟩ [0, 1, 2, 3]).anyMoved, (lfold (-1) ⟨[a02, a12, a22, a32], [false, false, false, false], (lfold (-1) ⟨[a01, a11, a21, a31], [false, false, false, false], (lfold (-1) ⟨[a00, a10, a20, a30], [false, false, false, false], 0, false, false⟩ [0, 1, 2, 3]).score, (lfold (-1) ⟨[a00, a10, a20, a30], [false, false, false, false], 0, false, false⟩ [0, 1, 2, 3]).anyMoved, (lfold (-1) ⟨[a00, a10, a20, a30], [false, false, false, false], 0, false, false⟩ [0, 1, 2, 3]).anyMerged⟩ [0, 1, 2, 3]).score, (lfold (-1) ⟨[a01, a11, a21, a31], [false, false, false, false], (lfold (-1) ⟨[a00, a10, a20, a30], [false, false, false, false], 0, false, false⟩ [0, 1, 2, 3]).score, (lfold (-1) ⟨[a00, a10, a20, a30], [false, false, false, false], 0, false, false⟩ [0, 1, 2, 3]).anyMoved, (lfold (-1) ⟨[a00, a10, a20, a30], [false, false, false, false], 0, false, false⟩ [0, 1, 2, 3]).anyMerged⟩ [0, 1, 2, 3]).anyMoved, (lfold (-1) ⟨[a01, a11, a21, a31], [false, false, false, false], (lfold (-1) ⟨[a00, a10, a20, a30], [false, false, false, false], 0, false, false⟩ [0, 1, 2, 3]).score, (lfold (-1) ⟨[a00, a10, a20, a30], [false, false, false, false], 0, false, false⟩ [0, 1, 2, 3]).anyMoved, (lfold (-1) ⟨[a00, a10, a20, a30], [false, false, false, false], 0, false, false⟩ [0, 1, 2, 3]).anyMerged⟩ [0, 1, 2, 3]).anyMerged⟩ [0, 1, 2, 3]).anyMerged⟩ [0, 1, 2, 3]).line) = _
    rw [e0.1, e1.1, e2.1, e3.1]
    rw [Mat.setCol_all none wg0 (slideRow_newRow_length (show ([a00, a10, a20, a30] : List (Option Nat)).length = 4 from rfl)) (slideRow_newRow_length (show ([a01, a11, a21, a31] : List (Option Nat)).length = 4 from rfl)) (slideRow_newRow_length (show ([a02, a12, a22, a32] : List (Option Nat)).length = 4 from rfl)) (slideRow_newRow_length (show ([a03, a13, a23, a33] : List (Option Nat)).length = 4 from rfl))]
  · rw [hfold, hmove]
    show (lfold (-1) ⟨[a03, a13, a23, a33], [false, false, false, false], (lfold (-1) ⟨[a02, a12, a22, a32], [false, false, false, false], (lfold (-1) ⟨[a01, a11, a21, a31], [false, false, false, false], (lfold (-1) ⟨[a00, a10, a20, a30], [false, false, false, false], 0, false, false⟩ [0, 1, 2, 3]).score, (lfold (-1) ⟨[a00, a10, a20, a30], [false, false, false, false], 0, false, false⟩ [0, 1, 2, 3]).anyMoved, (lfold (-1) ⟨[a00, a10, a20, a30], [false, false, false, false], 0, false, false⟩ [0, 1, 2, 3]).anyMerged⟩ [0, 1, 2, 3]).score, (lfold (-1) ⟨[a01, a11, a21, a31], [false, false, false, false], (lfold (-1) ⟨[a00, a10, a20, a30], [false, false, false, false], 0, false, false⟩ [0, 1, 2, 3]).score, (lfold (-1) ⟨[a00, a10, a20, a30], [false, false, false, false], 0, false, false⟩ [0, 1, 2, 3]).anyMoved, (lfold (-1) ⟨[a00, a10, a20, a30], [false, false, false, false], 0, false, false⟩ [0, 1, 2, 3]).anyMerged⟩ [0, 1, 2, 3]).anyMoved, (lfold (-1) ⟨[a01, a11, a21, a31], [false, false, false, false], (lfold (-1) ⟨[a00, a10, a20, a30], [false, false, false, false], 0, false, false⟩ [0, 1, 2, 3]).score, (lfold (-1) ⟨[a00, a10, a20, a30], [false, false, false, false], 0, false, false⟩ [0, 1, 2, 3]).anyMoved, (lfold (-1) ⟨[a00, a10, a20, a30], [false, false, false, false], 0, false, false⟩ [0, 1, 2, 3]).anyMerged⟩ [0, 1, 2, 3]).anyMerged⟩ [0, 1, 2, 3]).score, (lfold (-1) ⟨[a02, a12, a22, a32], [false, false, false, false], (lfold (-1) ⟨[a01, a11, a21, a31], [false, false, false, false], (lfold (-1) ⟨[a00, a10, a20, a30], [false, false, false, false], 0, false, false⟩ [0, 1, 2, 3]).score, (lfold (-1) ⟨[a00, a10, a20, a30], [false, false, false, false], 0, false, false⟩ [0, 1, 2, 3]).anyMoved, (lfold (-1) ⟨[a00, a10, a20, a30], [false, false, false, false], 0, false, false⟩ [0, 1, 2, 3]).anyMerged⟩ [0, 1, 2, 3]).score, (lfold (-1) ⟨[a01, a11, a21, a31], [false, false, false, false], (lfold (-1) ⟨[a00, a10, a20, a30], [false, false, false, false], 0, false, false⟩ [0, 1, 2, 3]).score, (lfold (-1) ⟨[a00, a10, a20, a30], [false, false, false, false], 0, false, false⟩ [0, 1, 2, 3]).anyMoved, (lfold (-1) ⟨[a00, a10, a20, a30], [false, false, false, false], 0, false, false⟩ [0, 1, 2, 3]).anyMerged⟩ [0, 1, 2, 3]).anyMoved, (lfold (-1) ⟨[a01, a11, a21, a31], [false, false, false, false], (lfold (-1) ⟨[a00, a10, a20, a30], [false, false, false, false], 0, false, false⟩ [0, 1, 2, 3]).score, (lfold (-1) ⟨[a00, a10, a20, a30], [false, false, false, false], 0, false, false⟩ [0, 1, 2, 3]).anyMoved, (lfold (-1) ⟨[a00, a10, a20, a30], [false, false, false, false], 0, false, false⟩ [0, 1, 2, 3]).anyMerged⟩ [0, 1, 2, 3]).anyMerged⟩ [0, 1, 2, 3]).anyMoved, (lfold (-1) ⟨[a02, a12, a22, a32], [false, false, false, false], (lfold (-1) ⟨[a01, a11, a21, a31], [false, false, false, false], (lfold (-1) ⟨[a00, a10, a20, a30], [false, false, false, false], 0, false, false⟩ [0, 1, 2, 3]).score, (lfold (-1) ⟨[a00, a10, a20, a30], [false, false, false, false], 0, false, false⟩ [0, 1, 2, 3]).anyMoved, (lfold (-1) ⟨[a00, a10, a20, a30], [false, false, false, false], 0, false, false⟩ [0, 1, 2, 3]).anyMerged⟩ [0, 1, 2, 3]).score, (lfold (-1) ⟨[a01, a11, a21, a31], [false, false, false, false], (lfold (-1) ⟨[a00, a10, a20, a30], [false, false, false, false], 0, false, false⟩ [0, 1, 2, 3]).score, (lfold (-1) ⟨[a00, a10, a20, a30], [false, false, false, false], 0, false, false⟩ [0, 1, 2, 3]).anyMoved, (lfold (-1) ⟨[a00, a10, a20, a30], [false, false, false, false], 0, false, false⟩ [0, 1, 2, 3]).anyMerged⟩ [0, 1, 2, 3]).anyMoved, (lfold (-1) ⟨[a01, a11, a21, a31], [false, false, false, false], (lfold (-1) ⟨[a00, a10, a20, a30], [false, false, false, false], 0, false, false⟩ [0, 1, 2, 3]).score, (lfold (-1) ⟨[a00, a10, a20, a30], [false, false, false, false], 0, false, false⟩ [0, 1, 2, 3]).anyMoved, (lfold (-1) ⟨[a00, a10, a20, a30], [false, false, false, false], 0, false, false⟩ [0, 1, 2, 3]).anyMerged⟩ [0, 1, 2, 3]).anyMerged⟩ [0, 1, 2, 3]).anyMerged⟩ [0, 1, 2, 3]).score = (GridGame.slideRow [a03, a13, a23, a33]).score + ((GridGame.slideRow [a02, a12, a22, a32]).score + ((GridGame.slideRow [a01, a11, a21, a31]).score + ((GridGame.slideRow [a00, a10, a20, a30]).score + 0)))
    rw [e3.2.1, e2.2.1, e1.2.1, e0.2.1]
    omega
  · rw [hfold, hmove]
    show (lfold (-1) ⟨[a03, a13, a23, a33], [false, false, false, false], (lfold (-1) ⟨[a02, a12, a22, a32], [false, false, false, false], (lfold (-1) ⟨[a01, a11, a21, a31], [false, false, false, false], (lfold (-1) ⟨[a00, a10, a20, a30], [false, false, false, false], 0, false, false⟩ [0, 1, 2, 3]).score, (lfold (-1) ⟨[a00, a10, a20, a30], [false, false, false, false], 0, false, false⟩ [0, 1, 2, 3]).anyMoved, (lfold (-1) ⟨[a00, a10, a20, a30], [false, false, false, false], 0, false, false⟩ [0, 1, 2, 3]).anyMerged⟩ [0, 1, 2, 3]).score, (lfold (-1) ⟨[a01, a11, a21, a31], [false, false, false, false], (lfold (-1) ⟨[a00, a10, a20, a30], [false, false, false, false], 0, false, false⟩ [0, 1, 2, 3]).score, (lfold (-1) ⟨[a00, a10, a20, a30], [false, false, false, false], 0, false, false⟩ [0, 1, 2, 3]).anyMoved, (lfold (-1) ⟨[a00, a10, a20, a30], [false, false, false, false], 0, false, false⟩ [0, 1, 2, 3]).anyMerged⟩ [0, 1, 2, 3]).anyMoved, (lfold (-1) ⟨[a01, a11, a21, a31], [false, false, false, false], (lfold (-1) ⟨[a00, a10, a20, a30], [false, false, false, false], 0, false, false⟩ [0, 1, 2, 3]).score, (lfold (-1) ⟨[a00, a10, a20, a30], [false, false, false, false], 0, false, false⟩ [0, 1, 2, 3]).anyMoved, (lfold (-1) ⟨[a00, a10, a20, a30], [false, false, false, false], 0, false, false⟩ [0, 1, 2, 3]).anyMerged⟩ [0, 1, 2, 3]).anyMerged⟩ [0, 1, 2, 3]).score, (lfold (-1) ⟨[a02, a12, a22, a32], [false, false, false, false], (lfold (-1) ⟨[a01, a11, a21, a31], [false, false, false, false], (lfold (-1) ⟨[a00, a10, a20, a30], [false, false, false, false], 0, false, false⟩ [0, 1, 2, 3]).score, (lfold (-1) ⟨[a00, a10, a20, a30], [false, false, false, false], 0, false, false⟩ [0, 1, 2, 3]).anyMoved, (lfold (-1) ⟨[a00, a10, a20, a30], [false, false, false, false], 0, false, false⟩ [0, 1, 2, 3]).anyMerged⟩ [0, 1, 2, 3]).score, (lfold (-1) ⟨[a01, a11, a21, a31], [false, false, false, false], (lfold (-1) ⟨[a00, a10, a20, a30], [false, false, false, false], 0, false, false⟩ [0, 1, 2, 3]).score, (lfold (-1) ⟨[a00, a10, a20, a30], [false, false, false, false], 0, false, false⟩ [0, 1, 2, 3]).anyMoved, (lfold (-1) ⟨[a00, a10, a20, a30], [false, false, false, false], 0, false, false⟩ [0, 1, 2, 3]).anyMerged⟩ [0, 1, 2, 3]).anyMoved, (lfold (-1) ⟨[a01, a11, a21, a31], [false, false, false, false], (lfold (-1) ⟨[a00, a10, a20, a30], [false, false, false, false], 0, false, false⟩ [0, 1, 2, 3]).score, (lfold (-1) ⟨[a00, a10, a20, a30], [false, false, false, false], 0, false, false⟩ [0, 1, 2, 3]).anyMoved, (lfold (-1) ⟨[a00, a10, a20, a30], [false, false, false, false], 0, false, false⟩ [0, 1, 2, 3]).anyMerged⟩ [0, 1, 2, 3]).anyMerged⟩ [0, 1, 2, 3]).anyMoved, (lfold (-1) ⟨[a02, a12, a22, a32], [false, false, false, false], (lfold (-1) ⟨[a01, a11, a21, a31], [false, false, false, false], (lfold (-1) ⟨[a00, a10, a20, a30], [false, false, false, false], 0, false, false⟩ [0, 1, 2, 3]).score, (lfold (-1) ⟨[a00, a10, a20, a30], [false, false, false, false], 0, false, false⟩ [0, 1, 2, 3]).anyMoved, (lfold (-1) ⟨[a00, a10, a20, a30], [false, false, false, false], 0, false, false⟩ [0, 1, 2, 3]).anyMerged⟩ [0, 1, 2, 3]).score, (lfold (-1) ⟨[a01, a11, a21, a31], [false, false, false, false], (lfold (-1) ⟨[a00, a10, a20, a30], [false, false, false, false], 0, false, false⟩ [0, 1, 2, 3]).score, (lfold (-1) ⟨[a00, a10, a20, a30], [false, false, false, false], 0, false, false⟩ [0, 1, 2, 3]).anyMoved, (lfold (-1) ⟨[a00, a10, a20, a30], [false, false, false, false], 0, false, false⟩ [0, 1, 2, 3]).anyMerged⟩ [0, 1, 2, 3]).anyMoved, (lfold (-1) ⟨[a01, a11, a21, a31], [false, false, false, false], (lfold (-1) ⟨[a00, a10, a20, a30], [false, false, false, false], 0, false, false⟩ [0, 1, 2, 3]).score, (lfold (-1) ⟨[a00, a10, a20, a30], [false, false, false, false], 0, false, false⟩ [0, 1, 2, 3]).anyMoved, (lfold (-1) ⟨[a00, a10, a20, a30], [false, false, false, false], 0, false, false⟩ [0, 1, 2, 3]).anyMerged⟩ [0, 1, 2, 3]).anyMerged⟩ [0, 1, 2, 3]).anyMerged⟩ [0, 1, 2, 3]).anyMoved = !(GridGame.gridsEqual [[a00, a01, a02, a03], [a10, a11, a12, a13], [a20, a21, a22, a23], [a30, a31, a32, a33]] [[(GridGame.slideRow [a00, a10, a20, a30]).newRow.getD 0 none, (GridGame.slideRow [a01, a11, a21, a31]).newRow.getD 0 none, (GridGame.slideRow [a02, a12, a22, a32]).newRow.getD 0 none, (GridGame.slideRow [a03, a13, a23, a33]).newRow.getD 0 none], [(GridGame.slideRow [a00, a10, a20, a30]).newRow.getD 1 none, (GridGame.slideRow [a01, a11, a21, a31]).newRow.getD 1 none, (GridGame.slideRow [a02, a12, a22, a32]).newRow.getD 1 none, (GridGame.slideRow [a03, a13, a23, a33]).newRow.getD 1 none], [(GridGame.slideRow [a00, a10, a20, a30]).newRow.getD 2 none, (GridGame.slideRow [a01, a11, a21, a31]).newRow.getD 2 none, (GridGame.slideRow [a02, a12, a22, a32]).newRow.getD 2 none, (GridGame.slideRow [a03, a13, a23, a33]).newRow.getD 2 none], [(GridGame.slideRow [a00, a10, a20, a30]).newRow.getD 3 none, (GridGame.slideRow [a01, a11, a21, a31]).newRow.getD 3 none, (GridGame.slideRow [a02, a12, a22, a32]).newRow.getD 3 none, (GridGame.slideRow [a03, a13, a23, a33]).newRow.getD 3 none]])
    cases hGE : GridGame.gridsEqual [[a00, a01, a02, a03], [a10, a11, a12, a13], [a20, a21, a22, a23], [a30, a31, a32, a33]] [[(GridGame.slideRow [a00, a10, a20, a30]).newRow.getD 0 none, (GridGame.slideRow [a01, a11, a21, a31]).newRow.getD 0 none, (GridGame.slideRow [a02, a12, a22, a32]).newRow.getD 0 none, (GridGame.slideRow [a03, a13, a23, a33]).newRow.getD 0 none], [(GridGame.slideRow [a00, a10, a20, a30]).newRow.getD 1 none, (GridGame.slideRow [a01, a11, a21, a31]).newRow.getD 1 none, (GridGame.slideRow [a02, a12, a22, a32]).newRow.getD 1 none, (GridGame.slideRow [a03, a13, a23, a33]).newRow.getD 1 none], [(GridGame.slideRow [a00, a10, a20, a30]).newRow.getD 2 none, (GridGame.slideRow [a01, a11, a21, a31]).newRow.getD 2 none, (GridGame.slideRow [a02, a12, a22, a32]).newRow.getD 2 none, (GridGame.slideRow [a03, a13, a23, a33]).newRow.getD 2 none], [(GridGame.slideRow [a00, a10, a20, a30]).newRow.getD 3 none, (GridGame.slideRow [a01, a11, a21, a31]).newRow.getD 3 none, (GridGame.slideRow [a02, a12, a22, a32]).newRow.getD 3 none, (GridGame.slideRow [a03, a13, a23, a33]).newRow.getD 3 none]] with
    | true =>
      have hc := hg2.mp hGE
      have hnt : ¬((lfold (-1) ⟨[a03, a13, a23, a33], [false, false, false, false], (lfold (-1) ⟨[a02, a12, a22, a32], [false, false, false, false], (lfold (-1) ⟨[a01, a11, a21, a31], [false, false, false, false], (lfold (-1) ⟨[a00, a10, a20, a30], [false, false, false, false], 0, false, false⟩ [0, 1, 2, 3]).score, (lfold (-1) ⟨[a00, a10, a20, a30], [false, false, false, false], 0, false, false⟩ [0, 1, 2, 3]).anyMoved, (lfold (-1) ⟨[a00, a10, a20, a30], [false, false, false, false], 0, false, false⟩ [0, 1, 2, 3]).anyMerged⟩ [0, 1, 2, 3]).score, (lfold (-1) ⟨[a01, a11, a21, a31], [false, false, false, false], (lfold (-1) ⟨[a00, a10, a20, a30], [false, false, false, false], 0, false, false⟩ [0, 1, 2, 3]).score, (lfold (-1) ⟨[a00, a10, a20, a30], [false, false, false, false], 0, false, false⟩ [0, 1, 2, 3]).anyMoved, (lfold (-1) ⟨[a00, a10, a20, a30], [false, false, false, false], 0, false, false⟩ [0, 1, 2, 3]).anyMerged⟩ [0, 1, 2, 3]).anyMoved, (lfold (-1) ⟨[a01, a11, a21, a31], [false, false, false, false], (lfold (-1) ⟨[a00, a10, a20, a30], [false, false, false, false], 0, false, false⟩ [0, 1, 2, 3]).score, (lfold (-1) ⟨[a00, a10, a20, a30], [false, false, false, false], 0, false, false⟩ [0, 1, 2, 3]).anyMoved, (lfold (-1) ⟨[a00, a10, a20, a30], [false, false, false, false], 0, false, false⟩ [0, 1, 2, 3]).anyMerged⟩ [0, 1, 2, 3]).anyMerged⟩ [0, 1, 2, 3]).score, (lfold (-1) ⟨[a02, a12, a22, a32], [false, false, false, false], (lfold (-1) ⟨[a01, a11, a21, a31], [false, false, false, false], (lfold (-1) ⟨[a00, a10, a20, a30], [false, false, false, false], 0, false, false⟩ [0, 1, 2, 3]).score, (lfold (-1) ⟨[a00, a10, a20, a30], [false, false, false, false], 0, false, false⟩ [0, 1, 2, 3]).anyMoved, (lfold (-1) ⟨[a00, a10, a20, a30], [false, false, false, false], 0, false, false⟩ [0, 1, 2, 3]).anyMerged⟩ [0, 1, 2, 3]).score, (lfold (-1) ⟨[a01, a11, a21, a31], [false, false, false, false], (lfold (-1) ⟨[a00, a10, a20, a30], [false, false, false, false], 0, false, false⟩ [0, 1, 2, 3]).score, (lfold (-1) ⟨[a00, a10, a20, a30], [false, false, false, false], 0, false, false⟩ [0, 1, 2, 3]).anyMoved, (lfold (-1) ⟨[a00, a10, a20, a30], [false, false, false, false], 0, false, false⟩ [0, 1, 2, 3]).anyMerged⟩ [0, 1, 2, 3]).anyMoved, (lfold (-1) ⟨[a01, a11, a21, a31], [false, false, false, false], (lfold (-1) ⟨[a00, a10, a20, a30], [false, false, false, false], 0, false, false⟩ [0, 1, 2, 3]).score, (lfold (-1) ⟨[a00, a10, a20, a30], [false, false, false, false], 0, false, false⟩ [0, 1, 2, 3]).anyMoved, (lfold (-1) ⟨[a00, a10, a20, a30], [false, false, false, false], 0, false, false⟩ [0, 1, 2, 3]).anyMerged⟩ [0, 1, 2, 3]).anyMerged⟩ [0, 1, 2, 3]).anyMoved, (lfold (-1) ⟨[a02, a12, a22, a32], [false, false, false, false], (lfold (-1) ⟨[a01, a11, a21, a31], [false, false, false, false], (lfold (-1) ⟨[a00, a10, a20, a30], [false, false, false, false], 0, false, false⟩ [0, 1, 2, 3]).score, (lfold (-1) ⟨[a00, a10, a20, a30], [false, false, false, false], 0, false, false⟩ [0, 1, 2, 3]).anyMoved, (lfold (-1) ⟨[a00, a10, a20, a30], [false, false, false, false], 0, false, false⟩ [0, 1, 2, 3]).anyMerged⟩ [0, 1, 2, 3]).score, (lfold (-1) ⟨[a01, a11, a21, a31], [false, false, false, false], (lfold (-1) ⟨[a00, a10, a20, a30], [false, false, false, false], 0, false, false⟩ [0, 1, 2, 3]).score, (lfold (-1) ⟨[a00, a10, a20, a30], [false, false, false, false], 0, false, false⟩ [0, 1, 2, 3]).anyMoved, (lfold (-1) ⟨[a00, a10, a20, a30], [false, false, false, false], 0, false, false⟩ [0, 1, 2, 3]).anyMerged⟩ [0, 1, 2, 3]).anyMoved, (lfold (-1) ⟨[a01, a11, a21, a31], [false, false, false, false], (lfold (-1) ⟨[a00, a10, a20, a30], [false, false, false, false], 0, false, false⟩ [0, 1, 2, 3]).score, (lfold (-1) ⟨[a00, a10, a20, a30], [false, false, false, false], 0, false, false⟩ [0, 1, 2, 3]).anyMoved, (lfold (-1) ⟨[a00, a10, a20, a30], [false, false, false, false], 0, false, false⟩ [0, 1, 2, 3]).anyMerged⟩ [0, 1, 2, 3]).anyMerged⟩ [0, 1, 2, 3]).anyMerged⟩ [0, 1, 2, 3]).anyMoved = true) := fun h => (hiff.mp h) hc
      rw [Bool.eq_false_iff.mpr hnt]
      rfl
    | false =>
      have hc : ¬((GridGame.slideRow [a00, a10, a20, a30]).newRow = [a00, a10, a20, a30] ∧ (GridGame.slideRow [a01, a11, a21, a31]).newRow = [a01, a11, a21, a31] ∧ (GridGame.slideRow [a02, a12, a22, a32]).newRow = [a02, a12, a22, a32] ∧ (GridGame.slideRow [a03, a13, a23, a33]).newRow = [a03, a13, a23, a33]) := fun h => by
        have := hg2.mpr h
        rw [hGE] at this
        exact Bool.noConfusion this
      rw [hiff.mpr hc]
      rfl
  · rw [hfold, hmove]
    show (lfold (-1) ⟨[a03, a13, a23, a33], [false, false, false, false], (lfold (-1) ⟨[a02, a12, a22, a32], [false, false, false, false], (lfold (-1) ⟨[a01, a11, a21, a31], [false, false, false, false], (lfold (-1) ⟨[a00, a10, a20, a30], [false, false, false, false], 0, false, false⟩ [0, 1, 2, 3]).score, (lfold (-1) ⟨[a00, a10, a20, a30], [false, false, false, false], 0, false, false⟩ [0, 1, 2, 3]).anyMoved, (lfold (-1) ⟨[a00, a10, a20, a30], [false, false, false, false], 0, false, false⟩ [0, 1, 2, 3]).anyMerged⟩ [0, 1, 2, 3]).score, (lfold (-1) ⟨[a01, a11, a21, a31], [false, false, false, false], (lfold (-1) ⟨[a00, a10, a20, a30], [false, false, false, false], 0, false, false⟩ [0, 1, 2, 3]).score, (lfold (-1) ⟨[a00, a10, a20, a30], [false, false, false, false], 0, false, false⟩ [0, 1, 2, 3]).anyMoved, (lfold (-1) ⟨[a00, a10, a20, a30], [false, false, false, false], 0, false, false⟩ [0, 1, 2, 3]).anyMerged⟩ [0, 1, 2, 3]).anyMoved, (lfold (-1) ⟨[a01, a11, a21, a31], [false, false, false, false], (lfold (-1) ⟨[a00, a10, a20, a30], [false, false, false, false], 0, false, false⟩ [0, 1, 2, 3]).score, (lfold (-1) ⟨[a00, a10, a20, a30], [false, false, false, false], 0, false, false⟩ [0, 1, 2, 3]).anyMoved, (lfold (-1) ⟨[a00, a10, a20, a30], [false, false, false, false], 0, false, false⟩ [0, 1, 2, 3]).anyMerged⟩ [0, 1, 2, 3]).anyMerged⟩ [0, 1, 2, 3]).score, (lfold (-1) ⟨[a02, a12, a22, a32], [false, false, false, false], (lfold (-1) ⟨[a01, a11, a21, a31], [false, false, false, false], (lfold (-1) ⟨[a00, a10, a20, a30], [false, false, false, false], 0, false, false⟩ [0, 1, 2, 3]).score, (lfold (-1) ⟨[a00, a10, a20, a30], [false, false, false, false], 0, false, false⟩ [0, 1, 2, 3]).anyMoved, (lfold (-1) ⟨[a00, a10, a20, a30], [false, false, false, false], 0, false, false⟩ [0, 1, 2, 3]).anyMerged⟩ [0, 1, 2, 3]).score, (lfold (-1) ⟨[a01, a11, a21, a31], [false, false, false, false], (lfold (-1) ⟨[a00, a10, a20, a30], [false, false, false, false], 0, false, false⟩ [0, 1, 2, 3]).score, (lfold (-1) ⟨[a00, a10, a20, a30], [false, false, false, false], 0, false, false⟩ [0, 1, 2, 3]).anyMoved, (lfold (-1) ⟨[a00, a10, a20, a30], [false, false, false, false], 0, false, false⟩ [0, 1, 2, 3]).anyMerged⟩ [0, 1, 2, 3]).anyMoved, (lfold (-1) ⟨[a01, a11, a21, a31], [false, false, false, false], (lfold (-1) ⟨[a00, a10, a20, a30], [false, false, false, false], 0, false, false⟩ [0, 1, 2, 3]).score, (lfold (-1) ⟨[a00, a10, a20, a30], [false, false, false, false], 0, false, false⟩ [0, 1, 2, 3]).anyMoved, (lfold (-1) ⟨[a00, a10, a20, a30], [false, false, false, false], 0, false, false⟩ [0, 1, 2, 3]).anyMerged⟩ [0, 1, 2, 3]).anyMerged⟩ [0, 1, 2, 3]).anyMoved, (lfold (-1) ⟨[a02, a12, a22, a32], [false, false, false, false], (lfold (-1) ⟨[a01, a11, a21, a31], [false, false, false, false], (lfold (-1) ⟨[a00, a10, a20, a30], [false, false, false, false], 0, false, false⟩ [0, 1, 2, 3]).score, (lfold (-1) ⟨[a00, a10, a20, a30], [false, false, false, false], 0, false, false⟩ [0, 1, 2, 3]).anyMoved, (lfold (-1) ⟨[a00, a10, a20, a30], [false, false, false, false], 0, false, false⟩ [0, 1, 2, 3]).anyMerged⟩ [0, 1, 2, 3]).score, (lfold (-1) ⟨[a01, a11, a21, a31], [false, false, false, false], (lfold (-1) ⟨[a00, a10, a20, a30], [false, false, false, false], 0, false, false⟩ [0, 1, 2, 3]).score, (lfold (-1) ⟨[a00, a10, a20, a30], [false, false, false, false], 0, false, false⟩ [0, 1, 2, 3]).anyMoved, (lfold (-1) ⟨[a00, a10, a20, a30], [false, false, false, false], 0, false, false⟩ [0, 1, 2, 3]).anyMerged⟩ [0, 1, 2, 3]).anyMoved, (lfold (-1) ⟨[a01, a11, a21, a31], [false, false, false, false], (lfold (-1) ⟨[a00, a10, a20, a30], [false, false, false, false], 0, false, false⟩ [0, 1, 2, 3]).score, (lfold (-1) ⟨[a00, a10, a20, a30], [false, false, false, false], 0, false, false⟩ [0, 1, 2, 3]).anyMoved, (lfold (-1) ⟨[a00, a10, a20, a30], [false, false, false, false], 0, false, false⟩ [0, 1, 2, 3]).anyMerged⟩ [0, 1, 2, 3]).anyMerged⟩ [0, 1, 2, 3]).anyMerged⟩ [0, 1, 2, 3]).anyMerged = ((GridGame.slideRow [a03, a13, a23, a33]).merged || ((GridGame.slideRow [a02, a12, a22, a32]).merged || ((GridGame.slideRow [a01, a11, a21, a31]).merged || ((GridGame.slideRow [a00, a10, a20, a30]).merged || false))))
    rw [e3.2.2.1, e2.2.2.1, e1.2.2.1, e0.2.2.1]
    simp [Bool.or_assoc, Bool.or_comm, Bool.or_left_comm]

end Equiv


namespace Equiv

/-- The value-level traversal fold for `down` agrees with the grid
engine's `move`. -/
theorem fold_move_down (g : GridGame.Grid) (hg : Mat.WF g) :
    ((pairsFor .down).foldl (vstep 1 0)
        ⟨g, TileGame.emptyMGrid, 0, false, false⟩).grid
      = (GridGame.move g .down).grid ∧
    ((pairsFor .down).foldl (vstep 1 0)
        ⟨g, TileGame.emptyMGrid, 0, false, false⟩).score
      = (GridGame.move g .down).score ∧
    ((pairsFor .down).foldl (vstep 1 0)
        ⟨g, TileGame.emptyMGrid, 0, false, false⟩).anyMoved
      = (GridGame.move g .down).moved ∧
    ((pairsFor .down).foldl (vstep 1 0)
        ⟨g, TileGame.emptyMGrid, 0, false, false⟩).anyMerged
      = (GridGame.move g .down).merged := by
  obtain ⟨hlen, hrows⟩ := hg
  rcases g with _ | ⟨R0, _ | ⟨R1, _ | ⟨R2, _ | ⟨R3, _ | ⟨R4, t⟩⟩⟩⟩⟩ <;>
    simp only [List.length_cons, List.length_nil] at hlen <;> try omega
  have h0 : R0.length = 4 := hrows R0 (by simp)
  have h1 : R1.length = 4 := hrows R1 (by simp)
  have h2 : R2.length = 4 := hrows R2 (by simp)
  have h3 : R3.length = 4 := hrows R3 (by simp)
  clear hrows
  rcases R0 with _ | ⟨a00, _ | ⟨a01, _ | ⟨a02, _ | ⟨a03, _ | ⟨a04, t0⟩⟩⟩⟩⟩ <;>
    simp only [List.length_cons, List.length_nil] at h0 <;> try omega
  rcases R1 with _ | ⟨a10, _ | ⟨a11, _ | ⟨a12, _ | ⟨a13, _ | ⟨a14, t1⟩⟩⟩⟩⟩ <;>
    simp only [List.length_cons, List.length_nil] at h1 <;> try omega
  rcases R2 with _ | ⟨a20, _ | ⟨a21, _ | ⟨a22, _ | ⟨a23, _ | ⟨a24, t2⟩⟩⟩⟩⟩ <;>
    simp only [List.length_cons, List.length_nil] at h2 <;> try omega
  rcases R3 with _ | ⟨a30, _ | ⟨a31, _ | ⟨a32, _ | ⟨a33, _ | ⟨a34, t3⟩⟩⟩⟩⟩ <;>
    simp only [List.length_cons, List.length_nil] at h3 <;> try omega
  clear h0 h1 h2 h3
  have e0 := lineR_spec4 (show ([a00, a10, a20, a30] : List (Option Nat)).length = 4 from rfl) 0 false false
  have e1 := lineR_spec4 (show ([a01, a11, a21, a31] : List (Option Nat)).length = 4 from rfl) (lfold 1 ⟨[a00, a10, a20, a30], [false, false, false, false], 0, false, false⟩ [3, 2, 1, 0]).score (lfold 1 ⟨[a00, a10, a20, a30], [false, false, false, false], 0, false, false⟩ [3, 2, 1, 0]).anyMoved (lfold 1 ⟨[a00, a10, a20, a30], [false, false, false, false], 0, false, false⟩ [3, 2, 1, 0]).anyMerged
  have e2 := lineR_spec4 (show ([a02, a12, a22, a32] : List (Option Nat)).length = 4 from rfl) (lfold 1 ⟨[a01, a11, a21, a31], [false, false, false, false], (lfold 1 ⟨[a00, a10, a20, a30], [false, false, false, false], 0, false, false⟩ [3, 2, 1, 0]).score, (lfold 1 ⟨[a00, a10, a20, a30], [false, false, false, false], 0, false, false⟩ [3, 2, 1, 0]).anyMoved, (lfold 1 ⟨[a00, a10, a20, a30], [false, false, false, false], 0, false, false⟩ [3, 2, 1, 0]).anyMerged⟩ [3, 2, 1, 0]).score (lfold 1 ⟨[a01, a11, a21, a31], [false, false, false, false], (lfold 1 ⟨[a00, a10, a20, a30], [false, false, false, false], 0, false, false⟩ [3, 2, 1, 0]).score, (lfold 1 ⟨[a00, a10, a20, a30], [false, false, false, false], 0, false, false⟩ [3, 2, 1, 0]).anyMoved, (lfold 1 ⟨[a00, a10, a20, a30], [false, false, false, false], 0, false, false⟩ [3, 2, 1, 0]).anyMerged⟩ [3, 2, 1, 0]).anyMoved (lfold 1 ⟨[a01, a11, a21, a31], [false, false, false, false], (lfold 1 ⟨[a00, a10, a20, a30], [false, false, false, false], 0, false, false⟩ [3, 2, 1, 0]).score, (lfold 1 ⟨[a00, a10, a20, a30], [false, false, false, false], 0, false, false⟩ [3, 2, 1, 0]).anyMoved, (lfold 1 ⟨[a00, a10, a20, a30], [false, false, false, false], 0, false, false⟩ [3, 2, 1, 0]).anyMerged⟩ [3, 2, 1, 0]).anyMerged
  have e3 := lineR_spec4 (show ([a03, a13, a23, a33] : List (Option Nat)).length = 4 from rfl) (lfold 1 ⟨[a02, a12, a22, a32], [false, false, false, false], (lfold 1 ⟨[a01, a11, a21, a31], [false, false, false, false], (lfold 1 ⟨[a00, a10, a20, a30], [false, false, false, false], 0, false, false⟩ [3, 2, 1, 0]).score, (lfold 1 ⟨[a00, a10, a20, a30], [false, false, false, false], 0, false, false⟩ [3, 2, 1, 0]).anyMoved, (lfold 1 ⟨[a00, a10, a20, a30], [false, false, false, false], 0, false, false⟩ [3, 2, 1, 0]).anyMerged⟩ [3, 2, 1, 0]).score, (lfold 1 ⟨[a01, a11, a21, a31], [false, false, false, false], (lfold 1 ⟨[a00, a10, a20, a30], [false, false, false, false], 0, false, false⟩ [3, 2, 1, 0]).score, (lfold 1 ⟨[a00, a10, a20, a30], [false, false, false, false], 0, false, false⟩ [3, 2, 1, 0]).anyMoved, (lfold 1 ⟨[a00, a10, a20, a30], [false, false, false, false], 0, false, false⟩ [3, 2, 1, 0]).anyMerged⟩ [3, 2, 1, 0]).anyMoved, (lfold 1 ⟨[a01, a11, a21, a31], [false, false, false, false], (lfold 1 ⟨[a00, a10, a20, a30], [false, false, false, false], 0, false, false⟩ [3, 2, 1, 0]).score, (lfold 1 ⟨[a00, a10, a20, a30], [false, false, false, false], 0, false, false⟩ [3, 2, 1, 0]).anyMoved, (lfold 1 ⟨[a00, a10, a20, a30], [false, false, false, false], 0, false, false⟩ [3, 2, 1, 0]).anyMerged⟩ [3, 2, 1, 0]).anyMerged⟩ [3, 2, 1, 0]).score (lfold 1 ⟨[a02, a12, a22, a32], [false, false, false, false], (lfold 1 ⟨[a01, a11, a21, a31], [false, false, false, false], (lfold 1 ⟨[a00, a10, a20, a30], [false, false, false, false], 0, false, false⟩ [3, 2, 1, 0]).score, (lfold 1 ⟨[a00, a10, a20, a30], [false, false, false, false], 0, false, false⟩ [3, 2, 1, 0]).anyMoved, (lfold 1 ⟨[a00, a10, a20, a30], [false, false, false, false], 0, false, false⟩ [3, 2, 1, 0]).anyMerged⟩ [3, 2, 1, 0]).score, (lfold 1 ⟨[a01, a11, a21, a31], [false, false, false, false], (lfold 1 ⟨[a00, a10, a20, a30], [false, false, false, false], 0, false, false⟩ [3, 2, 1, 0]).score, (lfold 1 ⟨[a00, a10, a20, a30], [false, false, false, false], 0, false, false⟩ [3, 2, 1, 0]).anyMoved, (lfold 1 ⟨[a00, a10, a20, a30], [false, false, false, false], 0, false, false⟩ [3, 2, 1, 0]).anyMerged⟩ [3, 2, 1, 0]).anyMoved, (lfold 1 ⟨[a01, a11, a21, a31], [false, false, false, false], (lfold 1 ⟨[a00, a10, a20, a30], [false, false, false, false], 0, false, false⟩ [3, 2, 1, 0]).score, (lfold 1 ⟨[a00, a10, a20, a30], [false, false, false, false], 0, false, false⟩ [3, 2, 1, 0]).anyMoved, (lfold 1 ⟨[a00, a10, a20, a30], [false, false, false, false], 0, false, false⟩ [3, 2, 1, 0]).anyMerged⟩ [3, 2, 1, 0]).anyMerged⟩ [3, 2, 1, 0]).anyMoved (lfold 1 ⟨[a02, a12, a22, a32], [false, false, false, false], (lfold 1 ⟨[a01, a11, a21, a31], [false, false, false, false], (lfold 1 ⟨[a00, a10, a20, a30], [false, false, false, false], 0, false, false⟩ [3, 2, 1, 0]).score, (lfold 1 ⟨[a00, a10, a20, a30], [false, false, false, false], 0, false, false⟩ [3, 2, 1, 0]).anyMoved, (lfold 1 ⟨[a00, a10, a20, a30], [false, false, false, false], 0, false, false⟩ [3, 2, 1, 0]).anyMerged⟩ [3, 2, 1, 0]).score, (lfold 1 ⟨[a01, a11, a21, a31], [false, false, false, false], (lfold 1 ⟨[a00, a10, a20, a30], [false, false, false, false], 0, false, false⟩ [3, 2, 1, 0]).score, (lfold 1 ⟨[a00, a10, a20, a30], [false, false, false, false], 0, false, false⟩ [3, 2, 1, 0]).anyMoved, (lfold 1 ⟨[a00, a10, a20, a30], [false, false, false, false], 0, false, false⟩ [3, 2, 1, 0]).anyMerged⟩ [3, 2, 1, 0]).anyMoved, (lfold 1 ⟨[a01, a11, a21, a31], [false, false, false, false], (lfold 1 ⟨[a00, a10, a20, a30], [false, false, false, false], 0, false, false⟩ [3, 2, 1, 0]).score, (lfold 1 ⟨[a00, a10, a20, a30], [false, false, false, false], 0, false, false⟩ [3, 2, 1, 0]).anyMoved, (lfold 1 ⟨[a00, a10, a20, a30], [false, false, false, false], 0, false, false⟩ [3, 2, 1, 0]).anyMerged⟩ [3, 2, 1, 0]).anyMerged⟩ [3, 2, 1, 0]).anyMerged
  have wg0 : Mat.WF [[a00, a01, a02, a03], [a10, a11, a12, a13], [a20, a21, a22, a23], [a30, a31, a32, a33]] := by
    refine ⟨rfl, ?_⟩
    intro row hrow
    simp only [List.mem_cons, List.not_mem_nil, or_false] at hrow
    rcases hrow with rfl | rfl | rfl | rfl <;> rfl
  have wm0 : Mat.WF TileGame.emptyMGrid :=
    ⟨rfl, fun row hrow => by rw [List.eq_of_mem_replicate hrow]; rfl⟩
  have wg1 : Mat.WF (Mat.setCol [[a00, a01, a02, a03], [a10, a11, a12, a13], [a20, a21, a22, a23], [a30, a31, a32, a33]] none 0 (lfold 1 ⟨[a00, a10, a20, a30], [false, false, false, false], 0, false, false⟩ [3, 2, 1, 0]).line) := Mat.WF_setCol none wg0 0 _
  have wm1 : Mat.WF (Mat.setCol TileGame.emptyMGrid false 0 (lfold 1 ⟨[a00, a10, a20, a30], [false, false, false, false], 0, false, false⟩ [3, 2, 1, 0]).marks) := Mat.WF_setCol false wm0 0 _
  have wg2 : Mat.WF (Mat.setCol (Mat.setCol [[a00, a01, a02, a03], [a10, a11, a12, a13], [a20, a21, a22, a23], [a30, a31, a32, a33]] none 0 (lfold 1 ⟨[a00, a10, a20, a30], [false, false, false, false], 0, false, false⟩ [3, 2, 1, 0]).line) none 1 (lfold 1 ⟨[a01, a11, a21, a31], [false, false, false, false], (lfold 1 ⟨[a00, a10, a20, a30], [false, false, false, false], 0, false, false⟩ [3, 2, 1, 0]).score, (lfold 1 ⟨[a00, a10, a20, a30], [false, false, false, false], 0, false, false⟩ [3, 2, 1, 0]).anyMoved, (lfold 1 ⟨[a00, a10, a20, a30], [false, false, false, false], 0, false, false⟩ [3, 2, 1, 0]).anyMerged⟩ [3, 2, 1, 0]).line) := Mat.WF_setCol none wg1 1 _
  have wm2 : Mat.WF (Mat.setCol (Mat.setCol TileGame.emptyMGrid false 0 (lfold 1 ⟨[a00, a10, a20, a30], [false, false, false, false], 0, false, false⟩ [3, 2, 1, 0]).marks) false 1 (lfold 1 ⟨[a01, a11, a21, a31], [false, false, false, false], (lfold 1 ⟨[a00, a10, a20, a30], [false, false, false, false], 0, false, false⟩ [3, 2, 1, 0]).score, (lfold 1 ⟨[a00, a10, a20, a30], [false, false, false, false], 0, false, false⟩ [3, 2, 1, 0]).anyMoved, (lfold 1 ⟨[a00, a10, a20, a30], [false, false, false, false], 0, false, false⟩ [3, 2, 1, 0]).anyMerged⟩ [3, 2, 1, 0]).marks) := Mat.WF_setCol false wm1 1 _
  have wg3 : Mat.WF (Mat.setCol (Mat.setCol (Mat.setCol [[a00, a01, a02, a03], [a10, a11, a12, a13], [a20, a21, a22, a23], [a30, a31, a32, a33]] none 0 (lfold 1 ⟨[a00, a10, a20, a30], [false, false, false, false], 0, false, false⟩ [3, 2, 1, 0]).line) none 1 (lfold 1 ⟨[a01, a11, a21, a31], [false, false, false, false], (lfold 1 ⟨[a00, a10, a20, a30], [false, false, false, false], 0, false, false⟩ [3, 2, 1, 0]).score, (lfold 1 ⟨[a00, a10, a20, a30], [false, false, false, false], 0, false, false⟩ [3, 2, 1, 0]).anyMoved, (lfold 1 ⟨[a00, a10, a20, a30], [false, false, false, false], 0, false, false⟩ [3, 2, 1, 0]).anyMerged⟩ [3, 2, 1, 0]).line) none 2 (lfold 1 ⟨[a02, a12, a22, a32], [false, false, false, false], (lfold 1 ⟨[a01, a11, a21, a31], [false, false, false, false], (lfold 1 ⟨[a00, a10, a20, a30], [false, false, false, false], 0, false, false⟩ [3, 2, 1, 0]).score, (lfold 1 ⟨[a00, a10, a20, a30], [false, false, false, false], 0, false, false⟩ [3, 2, 1, 0]).anyMoved, (lfold 1 ⟨[a00, a10, a20, a30], [false, false, false, false], 0, false, false⟩ [3, 2, 1, 0]).anyMerged⟩ [3, 2, 1, 0]).score, (lfold 1 ⟨[a01, a11, a21, a31], [false, false, false, false], (lfold 1 ⟨[a00, a10, a20, a30], [false, false, false, false], 0, false, false⟩ [3, 2, 1, 0]).score, (lfold 1 ⟨[a00, a10, a20, a30], [false, false, false, false], 0, false, false⟩ [3, 2, 1, 0]).anyMoved, (lfold 1 ⟨[a00, a10, a20, a30], [false, false, false, false], 0, false, false⟩ [3, 2, 1, 0]).anyMerged⟩ [3, 2, 1, 0]).anyMoved, (lfold 1 ⟨[a01, a11, a21, a31], [false, false, false, false], (lfold 1 ⟨[a00, a10, a20, a30], [false, false, false, false], 0, false, false⟩ [3, 2, 1, 0]).score, (lfold 1 ⟨[a00, a10, a20, a30], [false, false, false, false], 0, false, false⟩ [3, 2, 1, 0]).anyMoved, (lfold 1 ⟨[a00, a10, a20, a30], [false, false, false, false], 0, false, false⟩ [3, 2, 1, 0]).anyMerged⟩ [3, 2, 1, 0]).anyMerged⟩ [3, 2, 1, 0]).line) := Mat.WF_setCol none wg2 2 _
  have wm3 : Mat.WF (Mat.setCol (Mat.setCol (Mat.setCol TileGame.emptyMGrid false 0 (lfold 1 ⟨[a00, a10, a20, a30], [false, false, false, false], 0, false, false⟩ [3, 2, 1, 0]).marks) false 1 (lfold 1 ⟨[a01, a11, a21, a31], [false, false, false, false], (lfold 1 ⟨[a00, a10, a20, a30], [false, false, false, false], 0, false, false⟩ [3, 2, 1, 0]).score, (lfold 1 ⟨[a00, a10, a20, a30], [false, false, false, false], 0, false, false⟩ [3, 2, 1, 0]).anyMoved, (lfold 1 ⟨[a00, a10, a20, a30], [false, false, false, false], 0, false, false⟩ [3, 2, 1, 0]).anyMerged⟩ [3, 2, 1, 0]).marks) false 2 (lfold 1 ⟨[a02, a12, a22, a32], [false, false, false, false], (lfold 1 ⟨[a01, a11, a21, a31], [false, false, false, false], (lfold 1 ⟨[a00, a10, a20, a30], [false, false, false, false], 0, false, false⟩ [3, 2, 1, 0]).score, (lfold 1 ⟨[a00, a10, a20, a30], [false, false, false, false], 0, false, false⟩ [3, 2, 1, 0]).anyMoved, (lfold 1 ⟨[a00, a10, a20, a30], [false, false, false, false], 0, false, false⟩ [3, 2, 1, 0]).anyMerged⟩ [3, 2, 1, 0]).score, (lfold 1 ⟨[a01, a11, a21, a31], [false, false, false, false], (lfold 1 ⟨[a00, a10, a20, a30], [false, false, false, false], 0, false, false⟩ [3, 2, 1, 0]).score, (lfold 1 ⟨[a00, a10, a20, a30], [false, false, false, false], 0, false, false⟩ [3, 2, 1, 0]).anyMoved, (lfold 1 ⟨[a00, a10, a20, a30], [false, false, false, false], 0, false, false⟩ [3, 2, 1, 0]).anyMerged⟩ [3, 2, 1, 0]).anyMoved, (lfold 1 ⟨[a01, a11, a21, a31], [false, false, false, false], (lfold 1 ⟨[a00, a10, a20, a30], [false, false, false, false], 0, false, false⟩ [3, 2, 1, 0]).score, (lfold 1 ⟨[a00, a10, a20, a30], [false, false, false, false], 0, false, false⟩ [3, 2, 1, 0]).anyMoved, (lfold 1 ⟨[a00, a10, a20, a30], [false, false, false, false], 0, false, false⟩ [3, 2, 1, 0]).anyMerged⟩ [3, 2, 1, 0]).anyMerged⟩ [3, 2, 1, 0]).marks) := Mat.WF_setCol false wm2 2 _
  have wg4 : Mat.WF (Mat.setCol (Mat.setCol (Mat.setCol (Mat.setCol [[a00, a01, a02, a03], [a10, a11, a12, a13], [a20, a21, a22, a23], [a30, a31, a32, a33]] none 0 (lfold 1 ⟨[a00, a10, a20, a30], [false, false, false, false], 0, false, false⟩ [3, 2, 1, 0]).line) none 1 (lfold 1 ⟨[a01, a11, a21, a31], [false, false, false, false], (lfold 1 ⟨[a00, a10, a20, a30], [false, false, false, false], 0, false, false⟩ [3, 2, 1, 0]).score, (lfold 1 ⟨[a00, a10, a20, a30], [false, false, false, false], 0, false, false⟩ [3, 2, 1, 0]).anyMoved, (lfold 1 ⟨[a00, a10, a20, a30], [false, false, false, false], 0, false, false⟩ [3, 2, 1, 0]).anyMerged⟩ [3, 2, 1, 0]).line) none 2 (lfold 1 ⟨[a02, a12, a22, a32], [false, false, false, false], (lfold 1 ⟨[a01, a11, a21, a31], [false, false, false, false], (lfold 1 ⟨[a00, a10, a20, a30], [false, false, false, false], 0, false, false⟩ [3, 2, 1, 0]).score, (lfold 1 ⟨[a00, a10, a20, a30], [false, false, false, false], 0, false, false⟩ [3, 2, 1, 0]).anyMoved, (lfold 1 ⟨[a00, a10, a20, a30], [false, false, false, false], 0, false, false⟩ [3, 2, 1, 0]).anyMerged⟩ [3, 2, 1, 0]).score, (lfold 1 ⟨[a01, a11, a21, a31], [false, false, false, false], (lfold 1 ⟨[a00, a10, a20, a30], [false, false, false, false], 0, false, false⟩ [3, 2, 1, 0]).score, (lfold 1 ⟨[a00, a10, a20, a30], [false, false, false, false], 0, false, false⟩ [3, 2, 1, 0]).anyMoved, (lfold 1 ⟨[a00, a10, a20, a30], [false, false, false, false], 0, false, false⟩ [3, 2, 1, 0]).anyMerged⟩ [3, 2, 1, 0]).anyMoved, (lfold 1 ⟨[a01, a11, a21, a31], [false, false, false, false], (lfold 1 ⟨[a00, a10, a20, a30], [false, false, false, false], 0, false, false⟩ [3, 2, 1, 0]).score, (lfold 1 ⟨[a00, a10, a20, a30], [false, false, false, false], 0, false, false⟩ [3, 2, 1, 0]).anyMoved, (lfold 1 ⟨[a00, a10, a20, a30], [false, false, false, false], 0, false, false⟩ [3, 2, 1, 0]).anyMerged⟩ [3, 2, 1, 0]).anyMerged⟩ [3, 2, 1, 0]).line) none 3 (lfold 1 ⟨[a03, a13, a23, a33], [false, false, false, false], (lfold 1 ⟨[a02, a12, a22, a32], [false, false, false, false], (lfold 1 ⟨[a01, a11, a21, a31], [false, false, false, false], (lfold 1 ⟨[a00, a10, a20, a30], [false, false, false, false], 0, false, false⟩ [3, 2, 1, 0]).score, (lfold 1 ⟨[a00, a10, a20, a30], [false, false, false, false], 0, false, false⟩ [3, 2, 1, 0]).anyMoved, (lfold 1 ⟨[a00, a10, a20, a30], [false, false, false, false], 0, false, false⟩ [3, 2, 1, 0]).anyMerged⟩ [3, 2, 1, 0]).score, (lfold 1 ⟨[a01, a11, a21, a31], [false, false, false, false], (lfold 1 ⟨[a00, a10, a20, a30], [false, false, false, false], 0, false, false⟩ [3, 2, 1, 0]).score, (lfold 1 ⟨[a00, a10, a20, a30], [false, false, false, false], 0, false, false⟩ [3, 2, 1, 0]).anyMoved, (lfold 1 ⟨[a00, a10, a20, a30], [false, false, false, false], 0, false, false⟩ [3, 2, 1, 0]).anyMerged⟩ [3, 2, 1, 0]).anyMoved, (lfold 1 ⟨[a01, a11, a21, a31], [false, false, false, false], (lfold 1 ⟨[a00, a10, a20, a30], [false, false, false, false], 0, false, false⟩ [3, 2, 1, 0]).score, (lfold 1 ⟨[a00, a10, a20, a30], [false, false, false, false], 0, false, false⟩ [3, 2, 1, 0]).anyMoved, (lfold 1 ⟨[a00, a10, a20, a30], [false, false, false, false], 0, false, false⟩ [3, 2, 1, 0]).anyMerged⟩ [3, 2, 1, 0]).anyMerged⟩ [3, 2, 1, 0]).score, (lfold 1 ⟨[a02, a12, a22, a32], [false, false, false, false], (lfold 1 ⟨[a01, a11, a21, a31], [false, false, false, false], (lfold 1 ⟨[a00, a10, a20, a30], [false, false, false, false], 0, false, false⟩ [3, 2, 1, 0]).score, (lfold 1 ⟨[a00, a10, a20, a30], [false, false, false, false], 0, false, false⟩ [3, 2, 1, 0]).anyMoved, (lfold 1 ⟨[a00, a10, a20, a30], [false, false, false, false], 0, false, false⟩ [3, 2, 1, 0]).anyMerged⟩ [3, 2, 1, 0]).score, (lfold 1 ⟨[a01, a11, a21, a31], [false, false, false, false], (lfold 1 ⟨[a00, a10, a20, a30], [false, false, false, false], 0, false, false⟩ [3, 2, 1, 0]).score, (lfold 1 ⟨[a00, a10, a20, a30], [false, false, false, false], 0, false, false⟩ [3, 2, 1, 0]).anyMoved, (lfold 1 ⟨[a00, a10, a20, a30], [false, false, false, false], 0, false, false⟩ [3, 2, 1, 0]).anyMerged⟩ [3, 2, 1, 0]).anyMoved, (lfold 1 ⟨[a01, a11, a21, a31], [false, false, false, false], (lfold 1 ⟨[a00, a10, a20, a30], [false, false, false, false], 0, false, false⟩ [3, 2, 1, 0]).score, (lfold 1 ⟨[a00, a10, a20, a30], [false, false, false, false], 0, false, false⟩ [3, 2, 1, 0]).anyMoved, (lfold 1 ⟨[a00, a10, a20, a30], [false, false, false, false], 0, false, false⟩ [3, 2, 1, 0]).anyMerged⟩ [3, 2, 1, 0]).anyMerged⟩ [3, 2, 1, 0]).anyMoved, (lfold 1 ⟨[a02, a12, a22, a32], [false, false, false, false], (lfold 1 ⟨[a01, a11, a21, a31], [false, false, false, false], (lfold 1 ⟨[a00, a10, a20, a30], [false, false, false, false], 0, false, false⟩ [3, 2, 1, 0]).score, (lfold 1 ⟨[a00, a10, a20, a30], [false, false, false, false], 0, false, false⟩ [3, 2, 1, 0]).anyMoved, (lfold 1 ⟨[a00, a10, a20, a30], [false, false, false, false], 0, false, false⟩ [3, 2, 1, 0]).anyMerged⟩ [3, 2, 1, 0]).score, (lfold 1 ⟨[a01, a11, a21, a31], [false, false, false, false], (lfold 1 ⟨[a00, a10, a20, a30], [false, false, false, false], 0, false, false⟩ [3, 2, 1, 0]).score, (lfold 1 ⟨[a00, a10, a20, a30], [false, false, false, false], 0, false, false⟩ [3, 2, 1, 0]).anyMoved, (lfold 1 ⟨[a00, a10, a20, a30], [false, false, false, false], 0, false, false⟩ [3, 2, 1, 0]).anyMerged⟩ [3, 2, 1, 0]).anyMoved, (lfold 1 ⟨[a01, a11, a21, a31], [false, false, false, false], (lfold 1 ⟨[a00, a10, a20, a30], [false, false, false, false], 0, false, false⟩ [3, 2, 1, 0]).score, (lfold 1 ⟨[a00, a10, a20, a30], [false, false, false, false], 0, false, false⟩ [3, 2, 1, 0]).anyMoved, (lfold 1 ⟨[a00, a10, a20, a30], [false, false, false, false], 0, false, false⟩ [3, 2, 1, 0]).anyMerged⟩ [3, 2, 1, 0]).anyMerged⟩ [3, 2, 1, 0]).anyMerged⟩ [3, 2, 1, 0]).line) := Mat.WF_setCol none wg3 3 _
  have wm4 : Mat.WF (Mat.setCol (Mat.setCol (Mat.setCol (Mat.setCol TileGame.emptyMGrid false 0 (lfold 1 ⟨[a00, a10, a20, a30], [false, false, false, false], 0, false, false⟩ [3, 2, 1, 0]).marks) false 1 (lfold 1 ⟨[a01, a11, a21, a31], [false, false, false, false], (lfold 1 ⟨[a00, a10, a20, a30], [false, false, false, false], 0, false, false⟩ [3, 2, 1, 0]).score, (lfold 1 ⟨[a00, a10, a20, a30], [false, false, false, false], 0, false, false⟩ [3, 2, 1, 0]).anyMoved, (lfold 1 ⟨[a00, a10, a20, a30], [false, false, false, false], 0, false, false⟩ [3, 2, 1, 0]).anyMerged⟩ [3, 2, 1, 0]).marks) false 2 (lfold 1 ⟨[a02, a12, a22, a32], [false, false, false, false], (lfold 1 ⟨[a01, a11, a21, a31], [false, false, false, false], (lfold 1 ⟨[a00, a10, a20, a30], [false, false, false, false], 0, false, false⟩ [3, 2, 1, 0]).score, (lfold 1 ⟨[a00, a10, a20, a30], [false, false, false, false], 0, false, false⟩ [3, 2, 1, 0]).anyMoved, (lfold 1 ⟨[a00, a10, a20, a30], [false, false, false, false], 0, false, false⟩ [3, 2, 1, 0]).anyMerged⟩ [3, 2, 1, 0]).score, (lfold 1 ⟨[a01, a11, a21, a31], [false, false, false, false], (lfold 1 ⟨[a00, a10, a20, a30], [false, false, false, false], 0, false, false⟩ [3, 2, 1, 0]).score, (lfold 1 ⟨[a00, a10, a20, a30], [false, false, false, false], 0, false, false⟩ [3, 2, 1, 0]).anyMoved, (lfold 1 ⟨[a00, a10, a20, a30], [false, false, false, false], 0, false, false⟩ [3, 2, 1, 0]).anyMerged⟩ [3, 2, 1, 0]).anyMoved, (lfold 1 ⟨[a01, a11, a21, a31], [false, false, false, false], (lfold 1 ⟨[a00, a10, a20, a30], [false, false, false, false], 0, false, false⟩ [3, 2, 1, 0]).score, (lfold 1 ⟨[a00, a10, a20, a30], [false, false, false, false], 0, false, false⟩ [3, 2, 1, 0]).anyMoved, (lfold 1 ⟨[a00, a10, a20, a30], [false, false, false, false], 0, false, false⟩ [3, 2, 1, 0]).anyMerged⟩ [3, 2, 1, 0]).anyMerged⟩ [3, 2, 1, 0]).marks) false 3 (lfold 1 ⟨[a03, a13, a23, a33], [false, false, false, false], (lfold 1 ⟨[a02, a12, a22, a32], [false, false, false, false], (lfold 1 ⟨[a01, a11, a21, a31], [false, false, false, false], (lfold 1 ⟨[a00, a10, a20, a30], [false, false, false, false], 0, false, false⟩ [3, 2, 1, 0]).score, (lfold 1 ⟨[a00, a10, a20, a30], [false, false, false, false], 0, false, false⟩ [3, 2, 1, 0]).anyMoved, (lfold 1 ⟨[a00, a10, a20, a30], [false, false, false, false], 0, false, false⟩ [3, 2, 1, 0]).anyMerged⟩ [3, 2, 1, 0]).score, (lfold 1 ⟨[a01, a11, a21, a31], [false, false, false, false], (lfold 1 ⟨[a00, a10, a20, a30], [false, false, false, false], 0, false, false⟩ [3, 2, 1, 0]).score, (lfold 1 ⟨[a00, a10, a20, a30], [false, false, false, false], 0, false, false⟩ [3, 2, 1, 0]).anyMoved, (lfold 1 ⟨[a00, a10, a20, a30], [false, false, false, false], 0, false, false⟩ [3, 2, 1, 0]).anyMerged⟩ [3, 2, 1, 0]).anyMoved, (lfold 1 ⟨[a01, a11, a21, a31], [false, false, false, false], (lfold 1 ⟨[a00, a10, a20, a30], [false, false, false, false], 0, false, false⟩ [3, 2, 1, 0]).score, (lfold 1 ⟨[a00, a10, a20, a30], [false, false, false, false], 0, false, false⟩ [3, 2, 1, 0]).anyMoved, (lfold 1 ⟨[a00, a10, a20, a30], [false, false, false, false], 0, false, false⟩ [3, 2, 1, 0]).anyMerged⟩ [3, 2, 1, 0]).anyMerged⟩ [3, 2, 1, 0]).score, (lfold 1 ⟨[a02, a12, a22, a32], [false, false, false, false], (lfold 1 ⟨[a01, a11, a21, a31], [false, false, false, false], (lfold 1 ⟨[a00, a10, a20, a30], [false, false, false, false], 0, false, false⟩ [3, 2, 1, 0]).score, (lfold 1 ⟨[a00, a10, a20, a30], [false, false, false, false], 0, false, false⟩ [3, 2, 1, 0]).anyMoved, (lfold 1 ⟨[a00, a10, a20, a30], [false, false, false, false], 0, false, false⟩ [3, 2, 1, 0]).anyMerged⟩ [3, 2, 1, 0]).score, (lfold 1 ⟨[a01, a11, a21, a31], [false, false, false, false], (lfold 1 ⟨[a00, a10, a20, a30], [false, false, false, false], 0, false, false⟩ [3, 2, 1, 0]).score, (lfold 1 ⟨[a00, a10, a20, a30], [false, false, false, false], 0, false, false⟩ [3, 2, 1, 0]).anyMoved, (lfold 1 ⟨[a00, a10, a20, a30], [false, false, false, false], 0, false, false⟩ [3, 2, 1, 0]).anyMerged⟩ [3, 2, 1, 0]).anyMoved, (lfold 1 ⟨[a01, a11, a21, a31], [false, false, false, false], (lfold 1 ⟨[a00, a10, a20, a30], [false, false, false, false], 0, false, false⟩ [3, 2, 1, 0]).score, (lfold 1 ⟨[a00, a10, a20, a30], [false, false, false, false], 0, false, false⟩ [3, 2, 1, 0]).anyMoved, (lfold 1 ⟨[a00, a10, a20, a30], [false, false, false, false], 0, false, false⟩ [3, 2, 1, 0]).anyMerged⟩ [3, 2, 1, 0]).anyMerged⟩ [3, 2, 1, 0]).anyMoved, (lfold 1 ⟨[a02, a12, a22, a32], [false, false, false, false], (lfold 1 ⟨[a01, a11, a21, a31], [false, false, false, false], (lfold 1 ⟨[a00, a10, a20, a30], [false, false, false, false], 0, false, false⟩ [3, 2, 1, 0]).score, (lfold 1 ⟨[a00, a10, a20, a30], [false, false, false, false], 0, false, false⟩ [3, 2, 1, 0]).anyMoved, (lfold 1 ⟨[a00, a10, a20, a30], [false, false, false, false], 0, false, false⟩ [3, 2, 1, 0]).anyMerged⟩ [3, 2, 1, 0]).score, (lfold 1 ⟨[a01, a11, a21, a31], [false, false, false, false], (lfold 1 ⟨[a00, a10, a20, a30], [false, false, false, false], 0, false, false⟩ [3, 2, 1, 0]).score, (lfold 1 ⟨[a00, a10, a20, a30], [false, false, false, false], 0, false, false⟩ [3, 2, 1, 0]).anyMoved, (lfold 1 ⟨[a00, a10, a20, a30], [false, false, false, false], 0, false, false⟩ [3, 2, 1, 0]).anyMerged⟩ [3, 2, 1, 0]).anyMoved, (lfold 1 ⟨[a01, a11, a21, a31], [false, false, false, false], (lfold 1 ⟨[a00, a10, a20, a30], [false, false, false, false], 0, false, false⟩ [3, 2, 1, 0]).score, (lfold 1 ⟨[a00, a10, a20, a30], [false, false, false, false], 0, false, false⟩ [3, 2, 1, 0]).anyMoved, (lfold 1 ⟨[a00, a10, a20, a30], [false, false, false, false], 0, false, false⟩ [3, 2, 1, 0]).anyMerged⟩ [3, 2, 1, 0]).anyMerged⟩ [3, 2, 1, 0]).anyMerged⟩ [3, 2, 1, 0]).marks) := Mat.WF_setCol false wm3 3 _
  have hb0 : List.foldl (vstep 1 0) ⟨[[a00, a01, a02, a03], [a10, a11, a12, a13], [a20, a21, a22, a23], [a30, a31, a32, a33]], TileGame.emptyMGrid, 0, false, false⟩
      (([3, 2, 1, 0] : List Nat).map fun r => (r, (0 : Nat))) = ⟨(Mat.setCol [[a00, a01, a02, a03], [a10, a11, a12, a13], [a20, a21, a22, a23], [a30, a31, a32, a33]] none 0 (lfold 1 ⟨[a00, a10, a20, a30], [false, false, false, false], 0, false, false⟩ [3, 2, 1, 0]).line), (Mat.setCol TileGame.emptyMGrid false 0 (lfold 1 ⟨[a00, a10, a20, a30], [false, false, false, false], 0, false, false⟩ [3, 2, 1, 0]).marks), (lfold 1 ⟨[a00, a10, a20, a30], [false, false, false, false], 0, false, false⟩ [3, 2, 1, 0]).score, (lfold 1 ⟨[a00, a10, a20, a30], [false, false, false, false], 0, false, false⟩ [3, 2, 1, 0]).anyMoved, (lfold 1 ⟨[a00, a10, a20, a30], [false, false, false, false], 0, false, false⟩ [3, 2, 1, 0]).anyMerged⟩ := by
    rw [vfold_col 1 [3, 2, 1, 0] ⟨[[a00, a01, a02, a03], [a10, a11, a12, a13], [a20, a21, a22, a23], [a30, a31, a32, a33]], TileGame.emptyMGrid, 0, false, false⟩ 0 (by omega) (by decide) wg0 wm0]
    rfl
  have hb1 : List.foldl (vstep 1 0) ⟨(Mat.setCol [[a00, a01, a02, a03], [a10, a11, a12, a13], [a20, a21, a22, a23], [a30, a31, a32, a33]] none 0 (lfold 1 ⟨[a00, a10, a20, a30], [false, false, false, false], 0, false, false⟩ [3, 2, 1, 0]).line), (Mat.setCol TileGame.emptyMGrid false 0 (lfold 1 ⟨[a00, a10, a20, a30], [false, false, false, false], 0, false, false⟩ [3, 2, 1, 0]).marks), (lfold 1 ⟨[a00, a10, a20, a30], [false, false, false, false], 0, false, false⟩ [3, 2, 1, 0]).score, (lfold 1 ⟨[a00, a10, a20, a30], [false, false, false, false], 0, false, false⟩ [3, 2, 1, 0]).anyMoved, (lfold 1 ⟨[a00, a10, a20, a30], [false, false, false, false], 0, false, false⟩ [3, 2, 1, 0]).anyMerged⟩
      (([3, 2, 1, 0] : List Nat).map fun r => (r, (1 : Nat))) = ⟨(Mat.setCol (Mat.setCol [[a00, a01, a02, a03], [a10, a11, a12, a13], [a20, a21, a22, a23], [a30, a31, a32, a33]] none 0 (lfold 1 ⟨[a00, a10, a20, a30], [false, false, false, false], 0, false, false⟩ [3, 2, 1, 0]).line) none 1 (lfold 1 ⟨[a01, a11, a21, a31], [false, false, false, false], (lfold 1 ⟨[a00, a10, a20, a30], [false, false, false, false], 0, false, false⟩ [3, 2, 1, 0]).score, (lfold 1 ⟨[a00, a10, a20, a30], [false, false, false, false], 0, false, false⟩ [3, 2, 1, 0]).anyMoved, (lfold 1 ⟨[a00, a10, a20, a30], [false, false, false, false], 0, false, false⟩ [3, 2, 1, 0]).anyMerged⟩ [3, 2, 1, 0]).line), (Mat.setCol (Mat.setCol TileGame.emptyMGrid false 0 (lfold 1 ⟨[a00, a10, a20, a30], [false, false, false, false], 0, false, false⟩ [3, 2, 1, 0]).marks) false 1 (lfold 1 ⟨[a01, a11, a21, a31], [false, false, false, false], (lfold 1 ⟨[a00, a10, a20, a30], [false, false, false, false], 0, false, false⟩ [3, 2, 1, 0]).score, (lfold 1 ⟨[a00, a10, a20, a30], [false, false, false, false], 0, false, false⟩ [3, 2, 1, 0]).anyMoved, (lfold 1 ⟨[a00, a10, a20, a30], [false, false, false, false], 0, false, false⟩ [3, 2, 1, 0]).anyMerged⟩ [3, 2, 1, 0]).marks), (lfold 1 ⟨[a01, a11, a21, a31], [false, false, false, false], (lfold 1 ⟨[a00, a10, a20, a30], [false, false, false, false], 0, false, false⟩ [3, 2, 1, 0]).score, (lfold 1 ⟨[a00, a10, a20, a30], [false, false, false, false], 0, false, false⟩ [3, 2, 1, 0]).anyMoved, (lfold 1 ⟨[a00, a10, a20, a30], [false, false, false, false], 0, false, false⟩ [3, 2, 1, 0]).anyMerged⟩ [3, 2, 1, 0]).score, (lfold 1 ⟨[a01, a11, a21, a31], [false, false, false, false], (lfold 1 ⟨[a00, a10, a20, a30], [false, false, false, false], 0, false, false⟩ [3, 2, 1, 0]).score, (lfold 1 ⟨[a00, a10, a20, a30], [false, false, false, false], 0, false, false⟩ [3, 2, 1, 0]).anyMoved, (lfold 1 ⟨[a00, a10, a20, a30], [false, false, false, false], 0, false, false⟩ [3, 2, 1, 0]).anyMerged⟩ [3, 2, 1, 0]).anyMoved, (lfold 1 ⟨[a01, a11, a21, a31], [false, false, false, false], (lfold 1 ⟨[a00, a10, a20, a30], [false, false, false, false], 0, false, false⟩ [3, 2, 1, 0]).score, (lfold 1 ⟨[a00, a10, a20, a30], [false, false, false, false], 0, false, false⟩ [3, 2, 1, 0]).anyMoved, (lfold 1 ⟨[a00, a10, a20, a30], [false, false, false, false], 0, false, false⟩ [3, 2, 1, 0]).anyMerged⟩ [3, 2, 1, 0]).anyMerged⟩ := by
    rw [vfold_col 1 [3, 2, 1, 0] ⟨(Mat.setCol [[a00, a01, a02, a03], [a10, a11, a12, a13], [a20, a21, a22, a23], [a30, a31, a32, a33]] none 0 (lfold 1 ⟨[a00, a10, a20, a30], [false, false, false, false], 0, false, false⟩ [3, 2, 1, 0]).line), (Mat.setCol TileGame.emptyMGrid false 0 (lfold 1 ⟨[a00, a10, a20, a30], [false, false, false, false], 0, false, false⟩ [3, 2, 1, 0]).marks), (lfold 1 ⟨[a00, a10, a20, a30], [false, false, false, false], 0, false, false⟩ [3, 2, 1, 0]).score, (lfold 1 ⟨[a00, a10, a20, a30], [false, false, false, false], 0, false, false⟩ [3, 2, 1, 0]).anyMoved, (lfold 1 ⟨[a00, a10, a20, a30], [false, false, false, false], 0, false, false⟩ [3, 2, 1, 0]).anyMerged⟩ 1 (by omega) (by decide) wg1 wm1]
    rfl
  have hb2 : List.foldl (vstep 1 0) ⟨(Mat.setCol (Mat.setCol [[a00, a01, a02, a03], [a10, a11, a12, a13], [a20, a21, a22, a23], [a30, a31, a32, a33]] none 0 (lfold 1 ⟨[a00, a10, a20, a30], [false, false, false, false], 0, false, false⟩ [3, 2, 1, 0]).line) none 1 (lfold 1 ⟨[a01, a11, a21, a31], [false, false, false, false], (lfold 1 ⟨[a00, a10, a20, a30], [false, false, false, false], 0, false, false⟩ [3, 2, 1, 0]).score, (lfold 1 ⟨[a00, a10, a20, a30], [false, false, false, false], 0, false, false⟩ [3, 2, 1, 0]).anyMoved, (lfold 1 ⟨[a00, a10, a20, a30], [false, false, false, false], 0, false, false⟩ [3, 2, 1, 0]).anyMerged⟩ [3, 2, 1, 0]).line), (Mat.setCol (Mat.setCol TileGame.emptyMGrid false 0 (lfold 1 ⟨[a00, a10, a20, a30], [false, false, false, false], 0, false, false⟩ [3, 2, 1, 0]).marks) false 1 (lfold 1 ⟨[a01, a11, a21, a31], [false, false, false, false], (lfold 1 ⟨[a00, a10, a20, a30], [false, false, false, false], 0, false, false⟩ [3, 2, 1, 0]).score, (lfold 1 ⟨[a00, a10, a20, a30], [false, false, false, false], 0, false, false⟩ [3, 2, 1, 0]).anyMoved, (lfold 1 ⟨[a00, a10, a20, a30], [false, false, false, false], 0, false, false⟩ [3, 2, 1, 0]).anyMerged⟩ [3, 2, 1, 0]).marks), (lfold 1 ⟨[a01, a11, a21, a31], [false, false, false, false], (lfold 1 ⟨[a00, a10, a20, a30], [false, false, false, false], 0, false, false⟩ [3, 2, 1, 0]).score, (lfold 1 ⟨[a00, a10, a20, a30], [false, false, false, false], 0, false, false⟩ [3, 2, 1, 0]).anyMoved, (lfold 1 ⟨[a00, a10, a20, a30], [false, false, false, false], 0, false, false⟩ [3, 2, 1, 0]).anyMerged⟩ [3, 2, 1, 0]).score, (lfold 1 ⟨[a01, a11, a21, a31], [false, false, false, false], (lfold 1 ⟨[a00, a10, a20, a30], [false, false, false, false], 0, false, false⟩ [3, 2, 1, 0]).score, (lfold 1 ⟨[a00, a10, a20, a30], [false, false, false, false], 0, false, false⟩ [3, 2, 1, 0]).anyMoved, (lfold 1 ⟨[a00, a10, a20, a30], [false, false, false, false], 0, false, false⟩ [3, 2, 1, 0]).anyMerged⟩ [3, 2, 1, 0]).anyMoved, (lfold 1 ⟨[a01, a11, a21, a31], [false, false, false, false], (lfold 1 ⟨[a00, a10, a20, a30], [false, false, false, false], 0, false, false⟩ [3, 2, 1, 0]).score, (lfold 1 ⟨[a00, a10, a20, a30], [false, false, false, false], 0, false, false⟩ [3, 2, 1, 0]).anyMoved, (lfold 1 ⟨[a00, a10, a20, a30], [false, false, false, false], 0, false, false⟩ [3, 2, 1, 0]).anyMerged⟩ [3, 2, 1, 0]).anyMerged⟩
      (([3, 2, 1, 0] : List Nat).map fun r => (r, (2 : Nat))) = ⟨(Mat.setCol (Mat.setCol (Mat.setCol [[a00, a01, a02, a03], [a10, a11, a12, a13], [a20, a21, a22, a23], [a30, a31, a32, a33]] none 0 (lfold 1 ⟨[a00, a10, a20, a30], [false, false, false, false], 0, false, false⟩ [3, 2, 1, 0]).line) none 1 (lfold 1 ⟨[a01, a11, a21, a31], [false, false, false, false], (lfold 1 ⟨[a00, a10, a20, a30], [false, false, false, false], 0, false, false⟩ [3, 2, 1, 0]).score, (lfold 1 ⟨[a00, a10, a20, a30], [false, false, false, false], 0, false, false⟩ [3, 2, 1, 0]).anyMoved, (lfold 1 ⟨[a00, a10, a20, a30], [false, false, false, false], 0, false, false⟩ [3, 2, 1, 0]).anyMerged⟩ [3, 2, 1, 0]).line) none 2 (lfold 1 ⟨[a02, a12, a22, a32], [false, false, false, false], (lfold 1 ⟨[a01, a11, a21, a31], [false, false, false, false], (lfold 1 ⟨[a00, a10, a20, a30], [false, false, false, false], 0, false, false⟩ [3, 2, 1, 0]).score, (lfold 1 ⟨[a00, a10, a20, a30], [false, false, false, false], 0, false, false⟩ [3, 2, 1, 0]).anyMoved, (lfold 1 ⟨[a00, a10, a20, a30], [false, false, false, false], 0, false, false⟩ [3, 2, 1, 0]).anyMerged⟩ [3, 2, 1, 0]).score, (lfold 1 ⟨[a01, a11, a21, a31], [false, false, false, false], (lfold 1 ⟨[a00, a10, a20, a30], [false, false, false, false], 0, false, false⟩ [3, 2, 1, 0]).score, (lfold 1 ⟨[a00, a10, a20, a30], [false, false, false, false], 0, false, false⟩ [3, 2, 1, 0]).anyMoved, (lfold 1 ⟨[a00, a10, a20, a30], [false, false, false, false], 0, false, false⟩ [3, 2, 1, 0]).anyMerged⟩ [3, 2, 1, 0]).anyMoved, (lfold 1 ⟨[a01, a11, a21, a31], [false, false, false, false], (lfold 1 ⟨[a00, a10, a20, a30], [false, false, false, false], 0, false, false⟩ [3, 2, 1, 0]).score, (lfold 1 ⟨[a00, a10, a20, a30], [false, false, false, false], 0, false, false⟩ [3, 2, 1, 0]).anyMoved, (lfold 1 ⟨[a00, a10, a20, a30], [false, false, false, false], 0, false, false⟩ [3, 2, 1, 0]).anyMerged⟩ [3, 2, 1, 0]).anyMerged⟩ [3, 2, 1, 0]).line), (Mat.setCol (Mat.setCol (Mat.setCol TileGame.emptyMGrid false 0 (lfold 1 ⟨[a00, a10, a20, a30], [false, false, false, false], 0, false, false⟩ [3, 2, 1, 0]).marks) false 1 (lfold 1 ⟨[a01, a11, a21, a31], [false, false, false, false], (lfold 1 ⟨[a00, a10, a20, a30], [false, false, false, false], 0, false, false⟩ [3, 2, 1, 0]).score, (lfold 1 ⟨[a00, a10, a20, a30], [false, false, false, false], 0, false, false⟩ [3, 2, 1, 0]).anyMoved, (lfold 1 ⟨[a00, a10, a20, a30], [false, false, false, false], 0, false, false⟩ [3, 2, 1, 0]).anyMerged⟩ [3, 2, 1, 0]).marks) false 2 (lfold 1 ⟨[a02, a12, a22, a32], [false, false, false, false], (lfold 1 ⟨[a01, a11, a21, a31], [false, false, false, false], (lfold 1 ⟨[a00, a10, a20, a30], [false, false, false, false], 0, false, false⟩ [3, 2, 1, 0]).score, (lfold 1 ⟨[a00, a10, a20, a30], [false, false, false, false], 0, false, false⟩ [3, 2, 1, 0]).anyMoved, (lfold 1 ⟨[a00, a10, a20, a30], [false, false, false, false], 0, false, false⟩ [3, 2, 1, 0]).anyMerged⟩ [3, 2, 1, 0]).score, (lfold 1 ⟨[a01, a11, a21, a31], [false, false, false, false], (lfold 1 ⟨[a00, a10, a20, a30], [false, false, false, false], 0, false, false⟩ [3, 2, 1, 0]).score, (lfold 1 ⟨[a00, a10, a20, a30], [false, false, false, false], 0, false, false⟩ [3, 2, 1, 0]).anyMoved, (lfold 1 ⟨[a00, a10, a20, a30], [false, false, false, false], 0, false, false⟩ [3, 2, 1, 0]).anyMerged⟩ [3, 2, 1, 0]).anyMoved, (lfold 1 ⟨[a01, a11, a21, a31], [false, false, false, false], (lfold 1 ⟨[a00, a10, a20, a30], [false, false, false, false], 0, false, false⟩ [3, 2, 1, 0]).score, (lfold 1 ⟨[a00, a10, a20, a30], [false, false, false, false], 0, false, false⟩ [3, 2, 1, 0]).anyMoved, (lfold 1 ⟨[a00, a10, a20, a30], [false, false, false, false], 0, false, false⟩ [3, 2, 1, 0]).anyMerged⟩ [3, 2, 1, 0]).anyMerged⟩ [3, 2, 1, 0]).marks), (lfold 1 ⟨[a02, a12, a22, a32], [false, false, false, false], (lfold 1 ⟨[a01, a11, a21, a31], [false, false, false, false], (lfold 1 ⟨[a00, a10, a20, a30], [false, false, false, false], 0, false, false⟩ [3, 2, 1, 0]).score, (lfold 1 ⟨[a00, a10, a20, a30], [false, false, false, false], 0, false, false⟩ [3, 2, 1, 0]).anyMoved, (lfold 1 ⟨[a00, a10, a20, a30], [false, false, false, false], 0, false, false⟩ [3, 2, 1, 0]).anyMerged⟩ [3, 2, 1, 0]).score, (lfold 1 ⟨[a01, a11, a21, a31], [false, false, false, false], (lfold 1 ⟨[a00, a10, a20, a30], [false, false, false, false], 0, false, false⟩ [3, 2, 1, 0]).score, (lfold 1 ⟨[a00, a10, a20, a30], [false, false, false, false], 0, false, false⟩ [3, 2, 1, 0]).anyMoved, (lfold 1 ⟨[a00, a10, a20, a30], [false, false, false, false], 0, false, false⟩ [3, 2, 1, 0]).anyMerged⟩ [3, 2, 1, 0]).anyMoved, (lfold 1 ⟨[a01, a11, a21, a31], [false, false, false, false], (lfold 1 ⟨[a00, a10, a20, a30], [false, false, false, false], 0, false, false⟩ [3, 2, 1, 0]).score, (lfold 1 ⟨[a00, a10, a20, a30], [false, false, false, false], 0, false, false⟩ [3, 2, 1, 0]).anyMoved, (lfold 1 ⟨[a00, a10, a20, a30], [false, false, false, false], 0, false, false⟩ [3, 2, 1, 0]).anyMerged⟩ [3, 2, 1, 0]).anyMerged⟩ [3, 2, 1, 0]).score, (lfold 1 ⟨[a02, a12, a22, a32], [false, false, false, false], (lfold 1 ⟨[a01, a11, a21, a31], [false, false, false, false], (lfold 1 ⟨[a00, a10, a20, a30], [false, false, false, false], 0, false, false⟩ [3, 2, 1, 0]).score, (lfold 1 ⟨[a00, a10, a20, a30], [false, false, false, false], 0, false, false⟩ [3, 2, 1, 0]).anyMoved, (lfold 1 ⟨[a00, a10, a20, a30], [false, false, false, false], 0, false, false⟩ [3, 2, 1, 0]).anyMerged⟩ [3, 2, 1, 0]).score, (lfold 1 ⟨[a01, a11, a21, a31], [false, false, false, false], (lfold 1 ⟨[a00, a10, a20, a30], [false, false, false, false], 0, false, false⟩ [3, 2, 1, 0]).score, (lfold 1 ⟨[a00, a10, a20, a30], [false, false, false, false], 0, false, false⟩ [3, 2, 1, 0]).anyMoved, (lfold 1 ⟨[a00, a10, a20, a30], [false, false, false, false], 0, false, false⟩ [3, 2, 1, 0]).anyMerged⟩ [3, 2, 1, 0]).anyMoved, (lfold 1 ⟨[a01, a11, a21, a31], [false, false, false, false], (lfold 1 ⟨[a00, a10, a20, a30], [false, false, false, false], 0, false, false⟩ [3, 2, 1, 0]).score, (lfold 1 ⟨[a00, a10, a20, a30], [false, false, false, false], 0, false, false⟩ [3, 2, 1, 0]).anyMoved, (lfold 1 ⟨[a00, a10, a20, a30], [false, false, false, false], 0, false, false⟩ [3, 2, 1, 0]).anyMerged⟩ [3, 2, 1, 0]).anyMerged⟩ [3, 2, 1, 0]).anyMoved, (lfold 1 ⟨[a02, a12, a22, a32], [false, false, false, false], (lfold 1 ⟨[a01, a11, a21, a31], [false, false, false, false], (lfold 1 ⟨[a00, a10, a20, a30], [false, false, false, false], 0, false, false⟩ [3, 2, 1, 0]).score, (lfold 1 ⟨[a00, a10, a20, a30], [false, false, false, false], 0, false, false⟩ [3, 2, 1, 0]).anyMoved, (lfold 1 ⟨[a00, a10, a20, a30], [false, false, false, false], 0, false, false⟩ [3, 2, 1, 0]).anyMerged⟩ [3, 2, 1, 0]).score, (lfold 1 ⟨[a01, a11, a21, a31], [false, false, false, false], (lfold 1 ⟨[a00, a10, a20, a30], [false, false, false, false], 0, false, false⟩ [3, 2, 1, 0]).score, (lfold 1 ⟨[a00, a10, a20, a30], [false, false, false, false], 0, false, false⟩ [3, 2, 1, 0]).anyMoved, (lfold 1 ⟨[a00, a10, a20, a30], [false, false, false, false], 0, false, false⟩ [3, 2, 1, 0]).anyMerged⟩ [3, 2, 1, 0]).anyMoved, (lfold 1 ⟨[a01, a11, a21, a31], [false, false, false, false], (lfold 1 ⟨[a00, a10, a20, a30], [false, false, false, false], 0, false, false⟩ [3, 2, 1, 0]).score, (lfold 1 ⟨[a00, a10, a20, a30], [false, false, false, false], 0, false, false⟩ [3, 2, 1, 0]).anyMoved, (lfold 1 ⟨[a00, a10, a20, a30], [false, false, false, false], 0, false, false⟩ [3, 2, 1, 0]).anyMerged⟩ [3, 2, 1, 0]).anyMerged⟩ [3, 2, 1, 0]).anyMerged⟩ := by
    rw [vfold_col 1 [3, 2, 1, 0] ⟨(Mat.setCol (Mat.setCol [[a00, a01, a02, a03], [a10, a11, a12, a13], [a20, a21, a22, a23], [a30, a31, a32, a33]] none 0 (lfold 1 ⟨[a00, a10, a20, a30], [false, false, false, false], 0, false, false⟩ [3, 2, 1, 0]).line) none 1 (lfold 1 ⟨[a01, a11, a21, a31], [false, false, false, false], (lfold 1 ⟨[a00, a10, a20, a30], [false, false, false, false], 0, false, false⟩ [3, 2, 1, 0]).score, (lfold 1 ⟨[a00, a10, a20, a30], [false, false, false, false], 0, false, false⟩ [3, 2, 1, 0]).anyMoved, (lfold 1 ⟨[a00, a10, a20, a30], [false, false, false, false], 0, false, false⟩ [3, 2, 1, 0]).anyMerged⟩ [3, 2, 1, 0]).line), (Mat.setCol (Mat.setCol TileGame.emptyMGrid false 0 (lfold 1 ⟨[a00, a10, a20, a30], [false, false, false, false], 0, false, false⟩ [3, 2, 1, 0]).marks) false 1 (lfold 1 ⟨[a01, a11, a21, a31], [false, false, false, false], (lfold 1 ⟨[a00, a10, a20, a30], [false, false, false, false], 0, false, false⟩ [3, 2, 1, 0]).score, (lfold 1 ⟨[a00, a10, a20, a30], [false, false, false, false], 0, false, false⟩ [3, 2, 1, 0]).anyMoved, (lfold 1 ⟨[a00, a10, a20, a30], [false, false, false, false], 0, false, false⟩ [3, 2, 1, 0]).anyMerged⟩ [3, 2, 1, 0]).marks), (lfold 1 ⟨[a01, a11, a21, a31], [false, false, false, false], (lfold 1 ⟨[a00, a10, a20, a30], [false, false, false, false], 0, false, false⟩ [3, 2, 1, 0]).score, (lfold 1 ⟨[a00, a10, a20, a30], [false, false, false, false], 0, false, false⟩ [3, 2, 1, 0]).anyMoved, (lfold 1 ⟨[a00, a10, a20, a30], [false, false, false, false], 0, false, false⟩ [3, 2, 1, 0]).anyMerged⟩ [3, 2, 1, 0]).score, (lfold 1 ⟨[a01, a11, a21, a31], [false, false, false, false], (lfold 1 ⟨[a00, a10, a20, a30], [false, false, false, false], 0, false, false⟩ [3, 2, 1, 0]).score, (lfold 1 ⟨[a00, a10, a20, a30], [false, false, false, false], 0, false, false⟩ [3, 2, 1, 0]).anyMoved, (lfold 1 ⟨[a00, a10, a20, a30], [false, false, false, false], 0, false, false⟩ [3, 2, 1, 0]).anyMerged⟩ [3, 2, 1, 0]).anyMoved, (lfold 1 ⟨[a01, a11, a21, a31], [false, false, false, false], (lfold 1 ⟨[a00, a10, a20, a30], [false, false, false, false], 0, false, false⟩ [3, 2, 1, 0]).score, (lfold 1 ⟨[a00, a10, a20, a30], [false, false, false, false], 0, false, false⟩ [3, 2, 1, 0]).anyMoved, (lfold 1 ⟨[a00, a10, a20, a30], [false, false, false, false], 0, false, false⟩ [3, 2, 1, 0]).anyMerged⟩ [3, 2, 1, 0]).anyMerged⟩ 2 (by omega) (by decide) wg2 wm2]
    rfl
  have hb3 : List.foldl (vstep 1 0) ⟨(Mat.setCol (Mat.setCol (Mat.setCol [[a00, a01, a02, a03], [a10, a11, a12, a13], [a20, a21, a22, a23], [a30, a31, a32, a33]] none 0 (lfold 1 ⟨[a00, a10, a20, a30], [false, false, false, false], 0, false, false⟩ [3, 2, 1, 0]).line) none 1 (lfold 1 ⟨[a01, a11, a21, a31], [false, false, false, false], (lfold 1 ⟨[a00, a10, a20, a30], [false, false, false, false], 0, false, false⟩ [3, 2, 1, 0]).score, (lfold 1 ⟨[a00, a10, a20, a30], [false, false, false, false], 0, false, false⟩ [3, 2, 1, 0]).anyMoved, (lfold 1 ⟨[a00, a10, a20, a30], [false, false, false, false], 0, false, false⟩ [3, 2, 1, 0]).anyMerged⟩ [3, 2, 1, 0]).line) none 2 (lfold 1 ⟨[a02, a12, a22, a32], [false, false, false, false], (lfold 1 ⟨[a01, a11, a21, a31], [false, false, false, false], (lfold 1 ⟨[a00, a10, a20, a30], [false, false, false, false], 0, false, false⟩ [3, 2, 1, 0]).score, (lfold 1 ⟨[a00, a10, a20, a30], [false, false, false, false], 0, false, false⟩ [3, 2, 1, 0]).anyMoved, (lfold 1 ⟨[a00, a10, a20, a30], [false, false, false, false], 0, false, false⟩ [3, 2, 1, 0]).anyMerged⟩ [3, 2, 1, 0]).score, (lfold 1 ⟨[a01, a11, a21, a31], [false, false, false, false], (lfold 1 ⟨[a00, a10, a20, a30], [false, false, false, false], 0, false, false⟩ [3, 2, 1, 0]).score, (lfold 1 ⟨[a00, a10, a20, a30], [false, false, false, false], 0, false, false⟩ [3, 2, 1, 0]).anyMoved, (lfold 1 ⟨[a00, a10, a20, a30], [false, false, false, false], 0, false, false⟩ [3, 2, 1, 0]).anyMerged⟩ [3, 2, 1, 0]).anyMoved, (lfold 1 ⟨[a01, a11, a21, a31], [false, false, false, false], (lfold 1 ⟨[a00, a10, a20, a30], [false, false, false, false], 0, false, false⟩ [3, 2, 1, 0]).score, (lfold 1 ⟨[a00, a10, a20, a30], [false, false, false, false], 0, false, false⟩ [3, 2, 1, 0]).anyMoved, (lfold 1 ⟨[a00, a10, a20, a30], [false, false, false, false], 0, false, false⟩ [3, 2, 1, 0]).anyMerged⟩ [3, 2, 1, 0]).anyMerged⟩ [3, 2, 1, 0]).line), (Mat.setCol (Mat.setCol (Mat.setCol TileGame.emptyMGrid false 0 (lfold 1 ⟨[a00, a10, a20, a30], [false, false, false, false], 0, false, false⟩ [3, 2, 1, 0]).marks) false 1 (lfold 1 ⟨[a01, a11, a21, a31], [false, false, false, false], (lfold 1 ⟨[a00, a10, a20, a30], [false, false, false, false], 0, false, false⟩ [3, 2, 1, 0]).score, (lfold 1 ⟨[a00, a10, a20, a30], [false, false, false, false], 0, false, false⟩ [3, 2, 1, 0]).anyMoved, (lfold 1 ⟨[a00, a10, a20, a30], [false, false, false, false], 0, false, false⟩ [3, 2, 1, 0]).anyMerged⟩ [3, 2, 1, 0]).marks) false 2 (lfold 1 ⟨[a02, a12, a22, a32], [false, false, false, false], (lfold 1 ⟨[a01, a11, a21, a31], [false, false, false, false], (lfold 1 ⟨[a00, a10, a20, a30], [false, false, false, false], 0, false, false⟩ [3, 2, 1, 0]).score, (lfold 1 ⟨[a00, a10, a20, a30], [false, false, false, false], 0, false, false⟩ [3, 2, 1, 0]).anyMoved, (lfold 1 ⟨[a00, a10, a20, a30], [false, false, false, false], 0, false, false⟩ [3, 2, 1, 0]).anyMerged⟩ [3, 2, 1, 0]).score, (lfold 1 ⟨[a01, a11, a21, a31], [false, false, false, false], (lfold 1 ⟨[a00, a10, a20, a30], [false, false, false, false], 0, false, false⟩ [3, 2, 1, 0]).score, (lfold 1 ⟨[a00, a10, a20, a30], [false, false, false, false], 0, false, false⟩ [3, 2, 1, 0]).anyMoved, (lfold 1 ⟨[a00, a10, a20, a30], [false, false, false, false], 0, false, false⟩ [3, 2, 1, 0]).anyMerged⟩ [3, 2, 1, 0]).anyMoved, (lfold 1 ⟨[a01, a11, a21, a31], [false, false, false, false], (lfold 1 ⟨[a00, a10, a20, a30], [false, false, false, false], 0, false, false⟩ [3, 2, 1, 0]).score, (lfold 1 ⟨[a00, a10, a20, a30], [false, false, false, false], 0, false, false⟩ [3, 2, 1, 0]).anyMoved, (lfold 1 ⟨[a00, a10, a20, a30], [false, false, false, false], 0, false, false⟩ [3, 2, 1, 0]).anyMerged⟩ [3, 2, 1, 0]).anyMerged⟩ [3, 2, 1, 0]).marks), (lfold 1 ⟨[a02, a12, a22, a32], [false, false, false, false], (lfold 1 ⟨[a01, a11, a21, a31], [false, false, false, false], (lfold 1 ⟨[a00, a10, a20, a30], [false, false, false, false], 0, false, false⟩ [3, 2, 1, 0]).score, (lfold 1 ⟨[a00, a10, a20, a30], [false, false, false, false], 0, false, false⟩ [3, 2, 1, 0]).anyMoved, (lfold 1 ⟨[a00, a10, a20, a30], [false, false, false, false], 0, false, false⟩ [3, 2, 1, 0]).anyMerged⟩ [3, 2, 1, 0]).score, (lfold 1 ⟨[a01, a11, a21, a31], [false, false, false, false], (lfold 1 ⟨[a00, a10, a20, a30], [false, false, false, false], 0, false, false⟩ [3, 2, 1, 0]).score, (lfold 1 ⟨[a00, a10, a20, a30], [false, false, false, false], 0, false, false⟩ [3, 2, 1, 0]).anyMoved, (lfold 1 ⟨[a00, a10, a20, a30], [false, false, false, false], 0, false, false⟩ [3, 2, 1, 0]).anyMerged⟩ [3, 2, 1, 0]).anyMoved, (lfold 1 ⟨[a01, a11, a21, a31], [false, false, false, false], (lfold 1 ⟨[a00, a10, a20, a30], [false, false, false, false], 0, false, false⟩ [3, 2, 1, 0]).score, (lfold 1 ⟨[a00, a10, a20, a30], [false, false, false, false], 0, false, false⟩ [3, 2, 1, 0]).anyMoved, (lfold 1 ⟨[a00, a10, a20, a30], [false, false, false, false], 0, false, false⟩ [3, 2, 1, 0]).anyMerged⟩ [3, 2, 1, 0]).anyMerged⟩ [3, 2, 1, 0]).score, (lfold 1 ⟨[a02, a12, a22, a32], [false, false, false, false], (lfold 1 ⟨[a01, a11, a21, a31], [false, false, false, false], (lfold 1 ⟨[a00, a10, a20, a30], [false, false, false, false], 0, false, false⟩ [3, 2, 1, 0]).score, (lfold 1 ⟨[a00, a10, a20, a30], [false, false, false, false], 0, false, false⟩ [3, 2, 1, 0]).anyMoved, (lfold 1 ⟨[a00, a10, a20, a30], [false, false, false, false], 0, false, false⟩ [3, 2, 1, 0]).anyMerged⟩ [3, 2, 1, 0]).score, (lfold 1 ⟨[a01, a11, a21, a31], [false, false, false, false], (lfold 1 ⟨[a00, a10, a20, a30], [false, false, false, false], 0, false, false⟩ [3, 2, 1, 0]).score, (lfold 1 ⟨[a00, a10, a20, a30], [false, false, false, false], 0, false, false⟩ [3, 2, 1, 0]).anyMoved, (lfold 1 ⟨[a00, a10, a20, a30], [false, false, false, false], 0, false, false⟩ [3, 2, 1, 0]).anyMerged⟩ [3, 2, 1, 0]).anyMoved, (lfold 1 ⟨[a01, a11, a21, a31], [false, false, false, false], (lfold 1 ⟨[a00, a10, a20, a30], [false, false, false, false], 0, false, false⟩ [3, 2, 1, 0]).score, (lfold 1 ⟨[a00, a10, a20, a30], [false, false, false, false], 0, false, false⟩ [3, 2, 1, 0]).anyMoved, (lfold 1 ⟨[a00, a10, a20, a30], [false, false, false, false], 0, false, false⟩ [3, 2, 1, 0]).anyMerged⟩ [3, 2, 1, 0]).anyMerged⟩ [3, 2, 1, 0]).anyMoved, (lfold 1 ⟨[a02, a12, a22, a32], [false, false, false, false], (lfold 1 ⟨[a01, a11, a21, a31], [false, false, false, false], (lfold 1 ⟨[a00, a10, a20, a30], [false, false, false, false], 0, false, false⟩ [3, 2, 1, 0]).score, (lfold 1 ⟨[a00, a10, a20, a30], [false, false, false, false], 0, false, false⟩ [3, 2, 1, 0]).anyMoved, (lfold 1 ⟨[a00, a10, a20, a30], [false, false, false, false], 0, false, false⟩ [3, 2, 1, 0]).anyMerged⟩ [3, 2, 1, 0]).score, (lfold 1 ⟨[a01, a11, a21, a31], [false, false, false, false], (lfold 1 ⟨[a00, a10, a20, a30], [false, false, false, false], 0, false, false⟩ [3, 2, 1, 0]).score, (lfold 1 ⟨[a00, a10, a20, a30], [false, false, false, false], 0, false, false⟩ [3, 2, 1, 0]).anyMoved, (lfold 1 ⟨[a00, a10, a20, a30], [false, false, false, false], 0, false, false⟩ [3, 2, 1, 0]).anyMerged⟩ [3, 2, 1, 0]).anyMoved, (lfold 1 ⟨[a01, a11, a21, a31], [false, false, false, false], (lfold 1 ⟨[a00, a10, a20, a30], [false, false, false, false], 0, false, false⟩ [3, 2, 1, 0]).score, (lfold 1 ⟨[a00, a10, a20, a30], [false, false, false, false], 0, false, false⟩ [3, 2, 1, 0]).anyMoved, (lfold 1 ⟨[a00, a10, a20, a30], [false, false, false, false], 0, false, false⟩ [3, 2, 1, 0]).anyMerged⟩ [3, 2, 1, 0]).anyMerged⟩ [3, 2, 1, 0]).anyMerged⟩
      (([3, 2, 1, 0] : List Nat).map fun r => (r, (3 : Nat))) = ⟨(Mat.setCol (Mat.setCol (Mat.setCol (Mat.setCol [[a00, a01, a02, a03], [a10, a11, a12, a13], [a20, a21, a22, a23], [a30, a31, a32, a33]] none 0 (lfold 1 ⟨[a00, a10, a20, a30], [false, false, false, false], 0, false, false⟩ [3, 2, 1, 0]).line) none 1 (lfold 1 ⟨[a01, a11, a21, a31], [false, false, false, false], (lfold 1 ⟨[a00, a10, a20, a30], [false, false, false, false], 0, false, false⟩ [3, 2, 1, 0]).score, (lfold 1 ⟨[a00, a10, a20, a30], [false, false, false, false], 0, false, false⟩ [3, 2, 1, 0]).anyMoved, (lfold 1 ⟨[a00, a10, a20, a30], [false, false, false, false], 0, false, false⟩ [3, 2, 1, 0]).anyMerged⟩ [3, 2, 1, 0]).line) none 2 (lfold 1 ⟨[a02, a12, a22, a32], [false, false, false, false], (lfold 1 ⟨[a01, a11, a21, a31], [false, false, false, false], (lfold 1 ⟨[a00, a10, a20, a30], [false, false, false, false], 0, false, false⟩ [3, 2, 1, 0]).score, (lfold 1 ⟨[a00, a10, a20, a30], [false, false, false, false], 0, false, false⟩ [3, 2, 1, 0]).anyMoved, (lfold 1 ⟨[a00, a10, a20, a30], [false, false, false, false], 0, false, false⟩ [3, 2, 1, 0]).anyMerged⟩ [3, 2, 1, 0]).score, (lfold 1 ⟨[a01, a11, a21, a31], [false, false, false, false], (lfold 1 ⟨[a00, a10, a20, a30], [false, false, false, false], 0, false, false⟩ [3, 2, 1, 0]).score, (lfold 1 ⟨[a00, a10, a20, a30], [false, false, false, false], 0, false, false⟩ [3, 2, 1, 0]).anyMoved, (lfold 1 ⟨[a00, a10, a20, a30], [false, false, false, false], 0, false, false⟩ [3, 2, 1, 0]).anyMerged⟩ [3, 2, 1, 0]).anyMoved, (lfold 1 ⟨[a01, a11, a21, a31], [false, false, false, false], (lfold 1 ⟨[a00, a10, a20, a30], [false, false, false, false], 0, false, false⟩ [3, 2, 1, 0]).score, (lfold 1 ⟨[a00, a10, a20, a30], [false, false, false, false], 0, false, false⟩ [3, 2, 1, 0]).anyMoved, (lfold 1 ⟨[a00, a10, a20, a30], [false, false, false, false], 0, false, false⟩ [3, 2, 1, 0]).anyMerged⟩ [3, 2, 1, 0]).anyMerged⟩ [3, 2, 1, 0]).line) none 3 (lfold 1 ⟨[a03, a13, a23, a33], [false, false, false, false], (lfold 1 ⟨[a02, a12, a22, a32], [false, false, false, false], (lfold 1 ⟨[a01, a11, a21, a31], [false, false, false, false], (lfold 1 ⟨[a00, a10, a20, a30], [false, false, false, false], 0, false, false⟩ [3, 2, 1, 0]).score, (lfold 1 ⟨[a00, a10, a20, a30], [false, false, false, false], 0, false, false⟩ [3, 2, 1, 0]).anyMoved, (lfold 1 ⟨[a00, a10, a20, a30], [false, false, false, false], 0, false, false⟩ [3, 2, 1, 0]).anyMerged⟩ [3, 2, 1, 0]).score, (lfold 1 ⟨[a01, a11, a21, a31], [false, false, false, false], (lfold 1 ⟨[a00, a10, a20, a30], [false, false, false, false], 0, false, false⟩ [3, 2, 1, 0]).score, (lfold 1 ⟨[a00, a10, a20, a30], [false, false, false, false], 0, false, false⟩ [3, 2, 1, 0]).anyMoved, (lfold 1 ⟨[a00, a10, a20, a30], [false, false, false, false], 0, false, false⟩ [3, 2, 1, 0]).anyMerged⟩ [3, 2, 1, 0]).anyMoved, (lfold 1 ⟨[a01, a11, a21, a31], [false, false, false, false], (lfold 1 ⟨[a00, a10, a20, a30], [false, false, false, false], 0, false, false⟩ [3, 2, 1, 0]).score, (lfold 1 ⟨[a00, a10, a20, a30], [false, false, false, false], 0, false, false⟩ [3, 2, 1, 0]).anyMoved, (lfold 1 ⟨[a00, a10, a20, a30], [false, false, false, false], 0, false, false⟩ [3, 2, 1, 0]).anyMerged⟩ [3, 2, 1, 0]).anyMerged⟩ [3, 2, 1, 0]).score, (lfold 1 ⟨[a02, a12, a22, a32], [false, false, false, false], (lfold 1 ⟨[a01, a11, a21, a31], [false, false, false, false], (lfold 1 ⟨[a00, a10, a20, a30], [false, false, false, false], 0, false, false⟩ [3, 2, 1, 0]).score, (lfold 1 ⟨[a00, a10, a20, a30], [false, false, false, false], 0, false, false⟩ [3, 2, 1, 0]).anyMoved, (lfold 1 ⟨[a00, a10, a20, a30], [false, false, false, false], 0, false, false⟩ [3, 2, 1, 0]).anyMerged⟩ [3, 2, 1, 0]).score, (lfold 1 ⟨[a01, a11, a21, a31], [false, false, false, false], (lfold 1 ⟨[a00, a10, a20, a30], [false, false, false, false], 0, false, false⟩ [3, 2, 1, 0]).score, (lfold 1 ⟨[a00, a10, a20, a30], [false, false, false, false], 0, false, false⟩ [3, 2, 1, 0]).anyMoved, (lfold 1 ⟨[a00, a10, a20, a30], [false, false, false, false], 0, false, false⟩ [3, 2, 1, 0]).anyMerged⟩ [3, 2, 1, 0]).anyMoved, (lfold 1 ⟨[a01, a11, a21, a31], [false, false, false, false], (lfold 1 ⟨[a00, a10, a20, a30], [false, false, false, false], 0, false, false⟩ [3, 2, 1, 0]).score, (lfold 1 ⟨[a00, a10, a20, a30], [false, false, false, false], 0, false, false⟩ [3, 2, 1, 0]).anyMoved, (lfold 1 ⟨[a00, a10, a20, a30], [false, false, false, false], 0, false, false⟩ [3, 2, 1, 0]).anyMerged⟩ [3, 2, 1, 0]).anyMerged⟩ [3, 2, 1, 0]).anyMoved, (lfold 1 ⟨[a02, a12, a22, a32], [false, false, false, false], (lfold 1 ⟨[a01, a11, a21, a31], [false, false, false, false], (lfold 1 ⟨[a00, a10, a20, a30], [false, false, false, false], 0, false, false⟩ [3, 2, 1, 0]).score, (lfold 1 ⟨[a00, a10, a20, a30], [false, false, false, false], 0, false, false⟩ [3, 2, 1, 0]).anyMoved, (lfold 1 ⟨[a00, a10, a20, a30], [false, false, false, false], 0, false, false⟩ [3, 2, 1, 0]).anyMerged⟩ [3, 2, 1, 0]).score, (lfold 1 ⟨[a01, a11, a21, a31], [false, false, false, false], (lfold 1 ⟨[a00, a10, a20, a30], [false, false, false, false], 0, false, false⟩ [3, 2, 1, 0]).score, (lfold 1 ⟨[a00, a10, a20, a30], [false, false, false, false], 0, false, false⟩ [3, 2, 1, 0]).anyMoved, (lfold 1 ⟨[a00, a10, a20, a30], [false, false, false, false], 0, false, false⟩ [3, 2, 1, 0]).anyMerged⟩ [3, 2, 1, 0]).anyMoved, (lfold 1 ⟨[a01, a11, a21, a31], [false, false, false, false], (lfold 1 ⟨[a00, a10, a20, a30], [false, false, false, false], 0, false, false⟩ [3, 2, 1, 0]).score, (lfold 1 ⟨[a00, a10, a20, a30], [false, false, false, false], 0, false, false⟩ [3, 2, 1, 0]).anyMoved, (lfold 1 ⟨[a00, a10, a20, a30], [false, false, false, false], 0, false, false⟩ [3, 2, 1, 0]).anyMerged⟩ [3, 2, 1, 0]).anyMerged⟩ [3, 2, 1, 0]).anyMerged⟩ [3, 2, 1, 0]).line), (Mat.setCol (Mat.setCol (Mat.setCol (Mat.setCol TileGame.emptyMGrid false 0 (lfold 1 ⟨[a00, a10, a20, a30], [false, false, false, false], 0, false, false⟩ [3, 2, 1, 0]).marks) false 1 (lfold 1 ⟨[a01, a11, a21, a31], [false, false, false, false], (lfold 1 ⟨[a00, a10, a20, a30], [false, false, false, false], 0, false, false⟩ [3, 2, 1, 0]).score, (lfold 1 ⟨[a00, a10, a20, a30], [false, false, false, false], 0, false, false⟩ [3, 2, 1, 0]).anyMoved, (lfold 1 ⟨[a00, a10, a20, a30], [false, false, false, false], 0, false, false⟩ [3, 2, 1, 0]).anyMerged⟩ [3, 2, 1, 0]).marks) false 2 (lfold 1 ⟨[a02, a12, a22, a32], [false, false, false, false], (lfold 1 ⟨[a01, a11, a21, a31], [false, false, false, false], (lfold 1 ⟨[a00, a10, a20, a30], [false, false, false, false], 0, false, false⟩ [3, 2, 1, 0]).score, (lfold 1 ⟨[a00, a10, a20, a30], [false, false, false, false], 0, false, false⟩ [3, 2, 1, 0]).anyMoved, (lfold 1 ⟨[a00, a10, a20, a30], [false, false, false, false], 0, false, false⟩ [3, 2, 1, 0]).anyMerged⟩ [3, 2, 1, 0]).score, (lfold 1 ⟨[a01, a11, a21, a31], [false, false, false, false], (lfold 1 ⟨[a00, a10, a20, a30], [false, false, false, false], 0, false, false⟩ [3, 2, 1, 0]).score, (lfold 1 ⟨[a00, a10, a20, a30], [false, false, false, false], 0, false, false⟩ [3, 2, 1, 0]).anyMoved, (lfold 1 ⟨[a00, a10, a20, a30], [false, false, false, false], 0, false, false⟩ [3, 2, 1, 0]).anyMerged⟩ [3, 2, 1, 0]).anyMoved, (lfold 1 ⟨[a01, a11, a21, a31], [false, false, false, false], (lfold 1 ⟨[a00, a10, a20, a30], [false, false, false, false], 0, false, false⟩ [3, 2, 1, 0]).score, (lfold 1 ⟨[a00, a10, a20, a30], [false, false, false, false], 0, false, false⟩ [3, 2, 1, 0]).anyMoved, (lfold 1 ⟨[a00, a10, a20, a30], [false, false, false, false], 0, false, false⟩ [3, 2, 1, 0]).anyMerged⟩ [3, 2, 1, 0]).anyMerged⟩ [3, 2, 1, 0]).marks) false 3 (lfold 1 ⟨[a03, a13, a23, a33], [false, false, false, false], (lfold 1 ⟨[a02, a12, a22, a32], [false, false, false, false], (lfold 1 ⟨[a01, a11, a21, a31], [false, false, false, false], (lfold 1 ⟨[a00, a10, a20, a30], [false, false, false, false], 0, false, false⟩ [3, 2, 1, 0]).score, (lfold 1 ⟨[a00, a10, a20, a30], [false, false, false, false], 0, false, false⟩ [3, 2, 1, 0]).anyMoved, (lfold 1 ⟨[a00, a10, a20, a30], [false, false, false, false], 0, false, false⟩ [3, 2, 1, 0]).anyMerged⟩ [3, 2, 1, 0]).score, (lfold 1 ⟨[a01, a11, a21, a31], [false, false, false, false], (lfold 1 ⟨[a00, a10, a20, a30], [false, false, false, false], 0, false, false⟩ [3, 2, 1, 0]).score, (lfold 1 ⟨[a00, a10, a20, a30], [false, false, false, false], 0, false, false⟩ [3, 2, 1, 0]).anyMoved, (lfold 1 ⟨[a00, a10, a20, a30], [false, false, false, false], 0, false, false⟩ [3, 2, 1, 0]).anyMerged⟩ [3, 2, 1, 0]).anyMoved, (lfold 1 ⟨[a01, a11, a21, a31], [false, false, false, false], (lfold 1 ⟨[a00, a10, a20, a30], [false, false, false, false], 0, false, false⟩ [3, 2, 1, 0]).score, (lfold 1 ⟨[a00, a10, a20, a30], [false, false, false, false], 0, false, false⟩ [3, 2, 1, 0]).anyMoved, (lfold 1 ⟨[a00, a10, a20, a30], [false, false, false, false], 0, false, false⟩ [3, 2, 1, 0]).anyMerged⟩ [3, 2, 1, 0]).anyMerged⟩ [3, 2, 1, 0]).score, (lfold 1 ⟨[a02, a12, a22, a32], [false, false, false, false], (lfold 1 ⟨[a01, a11, a21, a31], [false, false, false, false], (lfold 1 ⟨[a00, a10, a20, a30], [false, false, false, false], 0, false, false⟩ [3, 2, 1, 0]).score, (lfold 1 ⟨[a00, a10, a20, a30], [false, false, false, false], 0, false, false⟩ [3, 2, 1, 0]).anyMoved, (lfold 1 ⟨[a00, a10, a20, a30], [false, false, false, false], 0, false, false⟩ [3, 2, 1, 0]).anyMerged⟩ [3, 2, 1, 0]).score, (lfold 1 ⟨[a01, a11, a21, a31], [false, false, false, false], (lfold 1 ⟨[a00, a10, a20, a30], [false, false, false, false], 0, false, false⟩ [3, 2, 1, 0]).score, (lfold 1 ⟨[a00, a10, a20, a30], [false, false, false, false], 0, false, false⟩ [3, 2, 1, 0]).anyMoved, (lfold 1 ⟨[a00, a10, a20, a30], [false, false, false, false], 0, false, false⟩ [3, 2, 1, 0]).anyMerged⟩ [3, 2, 1, 0]).anyMoved, (lfold 1 ⟨[a01, a11, a21, a31], [false, false, false, false], (lfold 1 ⟨[a00, a10, a20, a30], [false, false, false, false], 0, false, false⟩ [3, 2, 1, 0]).score, (lfold 1 ⟨[a00, a10, a20, a30], [false, false, false, false], 0, false, false⟩ [3, 2, 1, 0]).anyMoved, (lfold 1 ⟨[a00, a10, a20, a30], [false, false, false, false], 0, false, false⟩ [3, 2, 1, 0]).anyMerged⟩ [3, 2, 1, 0]).anyMerged⟩ [3, 2, 1, 0]).anyMoved, (lfold 1 ⟨[a02, a12, a22, a32], [false, false, false, false], (lfold 1 ⟨[a01, a11, a21, a31], [false, false, false, false], (lfold 1 ⟨[a00, a10, a20, a30], [false, false, false, false], 0, false, false⟩ [3, 2, 1, 0]).score, (lfold 1 ⟨[a00, a10, a20, a30], [false, false, false, false], 0, false, false⟩ [3, 2, 1, 0]).anyMoved, (lfold 1 ⟨[a00, a10, a20, a30], [false, false, false, false], 0, false, false⟩ [3, 2, 1, 0]).anyMerged⟩ [3, 2, 1, 0]).score, (lfold 1 ⟨[a01, a11, a21, a31], [false, false, false, false], (lfold 1 ⟨[a00, a10, a20, a30], [false, false, false, false], 0, false, false⟩ [3, 2, 1, 0]).score, (lfold 1 ⟨[a00, a10, a20, a30], [false, false, false, false], 0, false, false⟩ [3, 2, 1, 0]).anyMoved, (lfold 1 ⟨[a00, a10, a20, a30], [false, false, false, false], 0, false, false⟩ [3, 2, 1, 0]).anyMerged⟩ [3, 2, 1, 0]).anyMoved, (lfold 1 ⟨[a01, a11, a21, a31], [false, false, false, false], (lfold 1 ⟨[a00, a10, a20, a30], [false, false, false, false], 0, false, false⟩ [3, 2, 1, 0]).score, (lfold 1 ⟨[a00, a10, a20, a30], [false, false, false, false], 0, false, false⟩ [3, 2, 1, 0]).anyMoved, (lfold 1 ⟨[a00, a10, a20, a30], [false, false, false, false], 0, false, false⟩ [3, 2, 1, 0]).anyMerged⟩ [3, 2, 1, 0]).anyMerged⟩ [3, 2, 1, 0]).anyMerged⟩ [3, 2, 1, 0]).marks), (lfold 1 ⟨[a03, a13, a23, a33], [false, false, false, false], (lfold 1 ⟨[a02, a12, a22, a32], [false, false, false, false], (lfold 1 ⟨[a01, a11, a21, a31], [false, false, false, false], (lfold 1 ⟨[a00, a10, a20, a30], [false, false, false, false], 0, false, false⟩ [3, 2, 1, 0]).score, (lfold 1 ⟨[a00, a10, a20, a30], [false, false, false, false], 0, false, false⟩ [3, 2, 1, 0]).anyMoved, (lfold 1 ⟨[a00, a10, a20, a30], [false, false, false, false], 0, false, false⟩ [3, 2, 1, 0]).anyMerged⟩ [3, 2, 1, 0]).score, (lfold 1 ⟨[a01, a11, a21, a31], [false, false, false, false], (lfold 1 ⟨[a00, a10, a20, a30], [false, false, false, false], 0, false, false⟩ [3, 2, 1, 0]).score, (lfold 1 ⟨[a00, a10, a20, a30], [false, false, false, false], 0, false, false⟩ [3, 2, 1, 0]).anyMoved, (lfold 1 ⟨[a00, a10, a20, a30], [false, false, false, false], 0, false, false⟩ [3, 2, 1, 0]).anyMerged⟩ [3, 2, 1, 0]).anyMoved, (lfold 1 ⟨[a01, a11, a21, a31], [false, false, false, false], (lfold 1 ⟨[a00, a10, a20, a30], [false, false, false, false], 0, false, false⟩ [3, 2, 1, 0]).score, (lfold 1 ⟨[a00, a10, a20, a30], [false, false, false, false], 0, false, false⟩ [3, 2, 1, 0]).anyMoved, (lfold 1 ⟨[a00, a10, a20, a30], [false, false, false, false], 0, false, false⟩ [3, 2, 1, 0]).anyMerged⟩ [3, 2, 1, 0]).anyMerged⟩ [3, 2, 1, 0]).score, (lfold 1 ⟨[a02, a12, a22, a32], [false, false, false, false], (lfold 1 ⟨[a01, a11, a21, a31], [false, false, false, false], (lfold 1 ⟨[a00, a10, a20, a30], [false, false, false, false], 0, false, false⟩ [3, 2, 1, 0]).score, (lfold 1 ⟨[a00, a10, a20, a30], [false, false, false, false], 0, false, false⟩ [3, 2, 1, 0]).anyMoved, (lfold 1 ⟨[a00, a10, a20, a30], [false, false, false, false], 0, false, false⟩ [3, 2, 1, 0]).anyMerged⟩ [3, 2, 1, 0]).score, (lfold 1 ⟨[a01, a11, a21, a31], [false, false, false, false], (lfold 1 ⟨[a00, a10, a20, a30], [false, false, false, false], 0, false, false⟩ [3, 2, 1, 0]).score, (lfold 1 ⟨[a00, a10, a20, a30], [false, false, false, false], 0, false, false⟩ [3, 2, 1, 0]).anyMoved, (lfold 1 ⟨[a00, a10, a20, a30], [false, false, false, false], 0, false, false⟩ [3, 2, 1, 0]).anyMerged⟩ [3, 2, 1, 0]).anyMoved, (lfold 1 ⟨[a01, a11, a21, a31], [false, false, false, false], (lfold 1 ⟨[a00, a10, a20, a30], [false, false, false, false], 0, false, false⟩ [3, 2, 1, 0]).score, (lfold 1 ⟨[a00, a10, a20, a30], [false, false, false, false], 0, false, false⟩ [3, 2, 1, 0]).anyMoved, (lfold 1 ⟨[a00, a10, a20, a30], [false, false, false, false], 0, false, false⟩ [3, 2, 1, 0]).anyMerged⟩ [3, 2, 1, 0]).anyMerged⟩ [3, 2, 1, 0]).anyMoved, (lfold 1 ⟨[a02, a12, a22, a32], [false, false, false, false], (lfold 1 ⟨[a01, a11, a21, a31], [false, false, false, false], (lfold 1 ⟨[a00, a10, a20, a30], [false, false, false, false], 0, false, false⟩ [3, 2, 1, 0]).score, (lfold 1 ⟨[a00, a10, a20, a30], [false, false, false, false], 0, false, false⟩ [3, 2, 1, 0]).anyMoved, (lfold 1 ⟨[a00, a10, a20, a30], [false, false, false, false], 0, false, false⟩ [3, 2, 1, 0]).anyMerged⟩ [3, 2, 1, 0]).score, (lfold 1 ⟨[a01, a11, a21, a31], [false, false, false, false], (lfold 1 ⟨[a00, a10, a20, a30], [false, false, false, false], 0, false, false⟩ [3, 2, 1, 0]).score, (lfold 1 ⟨[a00, a10, a20, a30], [false, false, false, false], 0, false, false⟩ [3, 2, 1, 0]).anyMoved, (lfold 1 ⟨[a00, a10, a20, a30], [false, false, false, false], 0, false, false⟩ [3, 2, 1, 0]).anyMerged⟩ [3, 2, 1, 0]).anyMoved, (lfold 1 ⟨[a01, a11, a21, a31], [false, false, false, false], (lfold 1 ⟨[a00, a10, a20, a30], [false, false, false, false], 0, false, false⟩ [3, 2, 1, 0]).score, (lfold 1 ⟨[a00, a10, a20, a30], [false, false, false, false], 0, false, false⟩ [3, 2, 1, 0]).anyMoved, (lfold 1 ⟨[a00, a10, a20, a30], [false, false, false, false], 0, false, false⟩ [3, 2, 1, 0]).anyMerged⟩ [3, 2, 1, 0]).anyMerged⟩ [3, 2, 1, 0]).anyMerged⟩ [3, 2, 1, 0]).score, (lfold 1 ⟨[a03, a13, a23, a33], [false, false, false, false], (lfold 1 ⟨[a02, a12, a22, a32], [false, false, false, false], (lfold 1 ⟨[a01, a11, a21, a31], [false, false, false, false], (lfold 1 ⟨[a00, a10, a20, a30], [false, false, false, false], 0, false, false⟩ [3, 2, 1, 0]).score, (lfold 1 ⟨[a00, a10, a20, a30], [false, false, false, false], 0, false, false⟩ [3, 2, 1, 0]).anyMoved, (lfold 1 ⟨[a00, a10, a20, a30], [false, false, false, false], 0, false, false⟩ [3, 2, 1, 0]).anyMerged⟩ [3, 2, 1, 0]).score, (lfold 1 ⟨[a01, a11, a21, a31], [false, false, false, false], (lfold 1 ⟨[a00, a10, a20, a30], [false, false, false, false], 0, false, false⟩ [3, 2, 1, 0]).score, (lfold 1 ⟨[a00, a10, a20, a30], [false, false, false, false], 0, false, false⟩ [3, 2, 1, 0]).anyMoved, (lfold 1 ⟨[a00, a10, a20, a30], [false, false, false, false], 0, false, false⟩ [3, 2, 1, 0]).anyMerged⟩ [3, 2, 1, 0]).anyMoved, (lfold 1 ⟨[a01, a11, a21, a31], [false, false, false, false], (lfold 1 ⟨[a00, a10, a20, a30], [false, false, false, false], 0, false, false⟩ [3, 2, 1, 0]).score, (lfold 1 ⟨[a00, a10, a20, a30], [false, false, false, false], 0, false, false⟩ [3, 2, 1, 0]).anyMoved, (lfold 1 ⟨[a00, a10, a20, a30], [false, false, false, false], 0, false, false⟩ [3, 2, 1, 0]).anyMerged⟩ [3, 2, 1, 0]).anyMerged⟩ [3, 2, 1, 0]).score, (lfold 1 ⟨[a02, a12, a22, a32], [false, false, false, false], (lfold 1 ⟨[a01, a11, a21, a31], [false, false, false, false], (lfold 1 ⟨[a00, a10, a20, a30], [false, false, false, false], 0, false, false⟩ [3, 2, 1, 0]).score, (lfold 1 ⟨[a00, a10, a20, a30], [false, false, false, false], 0, false, false⟩ [3, 2, 1, 0]).anyMoved, (lfold 1 ⟨[a00, a10, a20, a30], [false, false, false, false], 0, false, false⟩ [3, 2, 1, 0]).anyMerged⟩ [3, 2, 1, 0]).score, (lfold 1 ⟨[a01, a11, a21, a31], [false, false, false, false], (lfold 1 ⟨[a00, a10, a20, a30], [false, false, false, false], 0, false, false⟩ [3, 2, 1, 0]).score, (lfold 1 ⟨[a00, a10, a20, a30], [false, false, false, false], 0, false, false⟩ [3, 2, 1, 0]).anyMoved, (lfold 1 ⟨[a00, a10, a20, a30], [false, false, false, false], 0, false, false⟩ [3, 2, 1, 0]).anyMerged⟩ [3, 2, 1, 0]).anyMoved, (lfold 1 ⟨[a01, a11, a21, a31], [false, false, false, false], (lfold 1 ⟨[a00, a10, a20, a30], [false, false, false, false], 0, false, false⟩ [3, 2, 1, 0]).score, (lfold 1 ⟨[a00, a10, a20, a30], [false, false, false, false], 0, false, false⟩ [3, 2, 1, 0]).anyMoved, (lfold 1 ⟨[a00, a10, a20, a30], [false, false, false, false], 0, false, false⟩ [3, 2, 1, 0]).anyMerged⟩ [3, 2, 1, 0]).anyMerged⟩ [3, 2, 1, 0]).anyMoved, (lfold 1 ⟨[a02, a12, a22, a32], [false, false, false, false], (lfold 1 ⟨[a01, a11, a21, a31], [false, false, false, false], (lfold 1 ⟨[a00, a10, a20, a30], [false, false, false, false], 0, false, false⟩ [3, 2, 1, 0]).score, (lfold 1 ⟨[a00, a10, a20, a30], [false, false, false, false], 0, false, false⟩ [3, 2, 1, 0]).anyMoved, (lfold 1 ⟨[a00, a10, a20, a30], [false, false, false, false], 0, false, false⟩ [3, 2, 1, 0]).anyMerged⟩ [3, 2, 1, 0]).score, (lfold 1 ⟨[a01, a11, a21, a31], [false, false, false, false], (lfold 1 ⟨[a00, a10, a20, a30], [false, false, false, false], 0, false, false⟩ [3, 2, 1, 0]).score, (lfold 1 ⟨[a00, a10, a20, a30], [false, false, false, false], 0, false, false⟩ [3, 2, 1, 0]).anyMoved, (lfold 1 ⟨[a00, a10, a20, a30], [false, false, false, false], 0, false, false⟩ [3, 2, 1, 0]).anyMerged⟩ [3, 2, 1, 0]).anyMoved, (lfold 1 ⟨[a01, a11, a21, a31], [false, false, false, false], (lfold 1 ⟨[a00, a10, a20, a30], [false, false, false, false], 0, false, false⟩ [3, 2, 1, 0]).score, (lfold 1 ⟨[a00, a10, a20, a30], [false, false, false, false], 0, false, false⟩ [3, 2, 1, 0]).anyMoved, (lfold 1 ⟨[a00, a10, a20, a30], [false, false, false, false], 0, false, false⟩ [3, 2, 1, 0]).anyMerged⟩ [3, 2, 1, 0]).anyMerged⟩ [3, 2, 1, 0]).anyMerged⟩ [3, 2, 1, 0]).anyMoved, (lfold 1 ⟨[a03, a13, a23, a33], [false, false, false, false], (lfold 1 ⟨[a02, a12, a22, a32], [false, false, false, false], (lfold 1 ⟨[a01, a11, a21, a31], [false, false, false, false], (lfold 1 ⟨[a00, a10, a20, a30], [false, false, false, false], 0, false, false⟩ [3, 2, 1, 0]).score, (lfold 1 ⟨[a00, a10, a20, a30], [false, false, false, false], 0, false, false⟩ [3, 2, 1, 0]).anyMoved, (lfold 1 ⟨[a00, a10, a20, a30], [false, false, false, false], 0, false, false⟩ [3, 2, 1, 0]).anyMerged⟩ [3, 2, 1, 0]).score, (lfold 1 ⟨[a01, a11, a21, a31], [false, false, false, false], (lfold 1 ⟨[a00, a10, a20, a30], [false, false, false, false], 0, false, false⟩ [3, 2, 1, 0]).score, (lfold 1 ⟨[a00, a10, a20, a30], [false, false, false, false], 0, false, false⟩ [3, 2, 1, 0]).anyMoved, (lfold 1 ⟨[a00, a10, a20, a30], [false, false, false, false], 0, false, false⟩ [3, 2, 1, 0]).anyMerged⟩ [3, 2, 1, 0]).anyMoved, (lfold 1 ⟨[a01, a11, a21, a31], [false, false, false, false], (lfold 1 ⟨[a00, a10, a20, a30], [false, false, false, false], 0, false, false⟩ [3, 2, 1, 0]).score, (lfold 1 ⟨[a00, a10, a20, a30], [false, false, false, false], 0, false, false⟩ [3, 2, 1, 0]).anyMoved, (lfold 1 ⟨[a00, a10, a20, a30], [false, false, false, false], 0, false, false⟩ [3, 2, 1, 0]).anyMerged⟩ [3, 2, 1, 0]).anyMerged⟩ [3, 2, 1, 0]).score, (lfold 1 ⟨[a02, a12, a22, a32], [false, false, false, false], (lfold 1 ⟨[a01, a11, a21, a31], [false, false, false, false], (lfold 1 ⟨[a00, a10, a20, a30], [false, false, false, false], 0, false, false⟩ [3, 2, 1, 0]).score, (lfold 1 ⟨[a00, a10, a20, a30], [false, false, false, false], 0, false, false⟩ [3, 2, 1, 0]).anyMoved, (lfold 1 ⟨[a00, a10, a20, a30], [false, false, false, false], 0, false, false⟩ [3, 2, 1, 0]).anyMerged⟩ [3, 2, 1, 0]).score, (lfold 1 ⟨[a01, a11, a21, a31], [false, false, false, false], (lfold 1 ⟨[a00, a10, a20, a30], [false, false, false, false], 0, false, false⟩ [3, 2, 1, 0]).score, (lfold 1 ⟨[a00, a10, a20, a30], [false, false, false, false], 0, false, false⟩ [3, 2, 1, 0]).anyMoved, (lfold 1 ⟨[a00, a10, a20, a30], [false, false, false, false], 0, false, false⟩ [3, 2, 1, 0]).anyMerged⟩ [3, 2, 1, 0]).anyMoved, (lfold 1 ⟨[a01, a11, a21, a31], [false, false, false, false], (lfold 1 ⟨[a00, a10, a20, a30], [false, false, false, false], 0, false, false⟩ [3, 2, 1, 0]).score, (lfold 1 ⟨[a00, a10, a20, a30], [false, false, false, false], 0, false, false⟩ [3, 2, 1, 0]).anyMoved, (lfold 1 ⟨[a00, a10, a20, a30], [false, false, false, false], 0, false, false⟩ [3, 2, 1, 0]).anyMerged⟩ [3, 2, 1, 0]).anyMerged⟩ [3, 2, 1, 0]).anyMoved, (lfold 1 ⟨[a02, a12, a22, a32], [false, false, false, false], (lfold 1 ⟨[a01, a11, a21, a31], [false, false, false, false], (lfold 1 ⟨[a00, a10, a20, a30], [false, false, false, false], 0, false, false⟩ [3, 2, 1, 0]).score, (lfold 1 ⟨[a00, a10, a20, a30], [false, false, false, false], 0, false, false⟩ [3, 2, 1, 0]).anyMoved, (lfold 1 ⟨[a00, a10, a20, a30], [false, false, false, false], 0, false, false⟩ [3, 2, 1, 0]).anyMerged⟩ [3, 2, 1, 0]).score, (lfold 1 ⟨[a01, a11, a21, a31], [false, false, false, false], (lfold 1 ⟨[a00, a10, a20, a30], [false, false, false, false], 0, false, false⟩ [3, 2, 1, 0]).score, (lfold 1 ⟨[a00, a10, a20, a30], [false, false, false, false], 0, false, false⟩ [3, 2, 1, 0]).anyMoved, (lfold 1 ⟨[a00, a10, a20, a30], [false, false, false, false], 0, false, false⟩ [3, 2, 1, 0]).anyMerged⟩ [3, 2, 1, 0]).anyMoved, (lfold 1 ⟨[a01, a11, a21, a31], [false, false, false, false], (lfold 1 ⟨[a00, a10, a20, a30], [false, false, false, false], 0, false, false⟩ [3, 2, 1, 0]).score, (lfold 1 ⟨[a00, a10, a20, a30], [false, false, false, false], 0, false, false⟩ [3, 2, 1, 0]).anyMoved, (lfold 1 ⟨[a00, a10, a20, a30], [false, false, false, false], 0, false, false⟩ [3, 2, 1, 0]).anyMerged⟩ [3, 2, 1, 0]).anyMerged⟩ [3, 2, 1, 0]).anyMerged⟩ [3, 2, 1, 0]).anyMerged⟩ := by
    rw [vfold_col 1 [3, 2, 1, 0] ⟨(Mat.setCol (Mat.setCol (Mat.setCol [[a00, a01, a02, a03], [a10, a11, a12, a13], [a20, a21, a22, a23], [a30, a31, a32, a33]] none 0 (lfold 1 ⟨[a00, a10, a20, a30], [false, false, false, false], 0, false, false⟩ [3, 2, 1, 0]).line) none 1 (lfold 1 ⟨[a01, a11, a21, a31], [false, false, false, false], (lfold 1 ⟨[a00, a10, a20, a30], [false, false, false, false], 0, false, false⟩ [3, 2, 1, 0]).score, (lfold 1 ⟨[a00, a10, a20, a30], [false, false, false, false], 0, false, false⟩ [3, 2, 1, 0]).anyMoved, (lfold 1 ⟨[a00, a10, a20, a30], [false, false, false, false], 0, false, false⟩ [3, 2, 1, 0]).anyMerged⟩ [3, 2, 1, 0]).line) none 2 (lfold 1 ⟨[a02, a12, a22, a32], [false, false, false, false], (lfold 1 ⟨[a01, a11, a21, a31], [false, false, false, false], (lfold 1 ⟨[a00, a10, a20, a30], [false, false, false, false], 0, false, false⟩ [3, 2, 1, 0]).score, (lfold 1 ⟨[a00, a10, a20, a30], [false, false, false, false], 0, false, false⟩ [3, 2, 1, 0]).anyMoved, (lfold 1 ⟨[a00, a10, a20, a30], [false, false, false, false], 0, false, false⟩ [3, 2, 1, 0]).anyMerged⟩ [3, 2, 1, 0]).score, (lfold 1 ⟨[a01, a11, a21, a31], [false, false, false, false], (lfold 1 ⟨[a00, a10, a20, a30], [false, false, false, false], 0, false, false⟩ [3, 2, 1, 0]).score, (lfold 1 ⟨[a00, a10, a20, a30], [false, false, false, false], 0, false, false⟩ [3, 2, 1, 0]).anyMoved, (lfold 1 ⟨[a00, a10, a20, a30], [false, false, false, false], 0, false, false⟩ [3, 2, 1, 0]).anyMerged⟩ [3, 2, 1, 0]).anyMoved, (lfold 1 ⟨[a01, a11, a21, a31], [false, false, false, false], (lfold 1 ⟨[a00, a10, a20, a30], [false, false, false, false], 0, false, false⟩ [3, 2, 1, 0]).score, (lfold 1 ⟨[a00, a10, a20, a30], [false, false, false, false], 0, false, false⟩ [3, 2, 1, 0]).anyMoved, (lfold 1 ⟨[a00, a10, a20, a30], [false, false, false, false], 0, false, false⟩ [3, 2, 1, 0]).anyMerged⟩ [3, 2, 1, 0]).anyMerged⟩ [3, 2, 1, 0]).line), (Mat.setCol (Mat.setCol (Mat.setCol TileGame.emptyMGrid false 0 (lfold 1 ⟨[a00, a10, a20, a30], [false, false, false, false], 0, false, false⟩ [3, 2, 1, 0]).marks) false 1 (lfold 1 ⟨[a01, a11, a21, a31], [false, false, false, false], (lfold 1 ⟨[a00, a10, a20, a30], [false, false, false, false], 0, false, false⟩ [3, 2, 1, 0]).score, (lfold 1 ⟨[a00, a10, a20, a30], [false, false, false, false], 0, false, false⟩ [3, 2, 1, 0]).anyMoved, (lfold 1 ⟨[a00, a10, a20, a30], [false, false, false, false], 0, false, false⟩ [3, 2, 1, 0]).anyMerged⟩ [3, 2, 1, 0]).marks) false 2 (lfold 1 ⟨[a02, a12, a22, a32], [false, false, false, false], (lfold 1 ⟨[a01, a11, a21, a31], [false, false, false, false], (lfold 1 ⟨[a00, a10, a20, a30], [false, false, false, false], 0, false, false⟩ [3, 2, 1, 0]).score, (lfold 1 ⟨[a00, a10, a20, a30], [false, false, false, false], 0, false, false⟩ [3, 2, 1, 0]).anyMoved, (lfold 1 ⟨[a00, a10, a20, a30], [false, false, false, false], 0, false, false⟩ [3, 2, 1, 0]).anyMerged⟩ [3, 2, 1, 0]).score, (lfold 1 ⟨[a01, a11, a21, a31], [false, false, false, false], (lfold 1 ⟨[a00, a10, a20, a30], [false, false, false, false], 0, false, false⟩ [3, 2, 1, 0]).score, (lfold 1 ⟨[a00, a10, a20, a30], [false, false, false, false], 0, false, false⟩ [3, 2, 1, 0]).anyMoved, (lfold 1 ⟨[a00, a10, a20, a30], [false, false, false, false], 0, false, false⟩ [3, 2, 1, 0]).anyMerged⟩ [3, 2, 1, 0]).anyMoved, (lfold 1 ⟨[a01, a11, a21, a31], [false, false, false, false], (lfold 1 ⟨[a00, a10, a20, a30], [false, false, false, false], 0, false, false⟩ [3, 2, 1, 0]).score, (lfold 1 ⟨[a00, a10, a20, a30], [false, false, false, false], 0, false, false⟩ [3, 2, 1, 0]).anyMoved, (lfold 1 ⟨[a00, a10, a20, a30], [false, false, false, false], 0, false, false⟩ [3, 2, 1, 0]).anyMerged⟩ [3, 2, 1, 0]).anyMerged⟩ [3, 2, 1, 0]).marks), (lfold 1 ⟨[a02, a12, a22, a32], [false, false, false, false], (lfold 1 ⟨[a01, a11, a21, a31], [false, false, false, false], (lfold 1 ⟨[a00, a10, a20, a30], [false, false, false, false], 0, false, false⟩ [3, 2, 1, 0]).score, (lfold 1 ⟨[a00, a10, a20, a30], [false, false, false, false], 0, false, false⟩ [3, 2, 1, 0]).anyMoved, (lfold 1 ⟨[a00, a10, a20, a30], [false, false, false, false], 0, false, false⟩ [3, 2, 1, 0]).anyMerged⟩ [3, 2, 1, 0]).score, (lfold 1 ⟨[a01, a11, a21, a31], [false, false, false, false], (lfold 1 ⟨[a00, a10, a20, a30], [false, false, false, false], 0, false, false⟩ [3, 2, 1, 0]).score, (lfold 1 ⟨[a00, a10, a20, a30], [false, false, false, false], 0, false, false⟩ [3, 2, 1, 0]).anyMoved, (lfold 1 ⟨[a00, a10, a20, a30], [false, false, false, false], 0, false, false⟩ [3, 2, 1, 0]).anyMerged⟩ [3, 2, 1, 0]).anyMoved, (lfold 1 ⟨[a01, a11, a21, a31], [false, false, false, false], (lfold 1 ⟨[a00, a10, a20, a30], [false, false, false, false], 0, false, false⟩ [3, 2, 1, 0]).score, (lfold 1 ⟨[a00, a10, a20, a30], [false, false, false, false], 0, false, false⟩ [3, 2, 1, 0]).anyMoved, (lfold 1 ⟨[a00, a10, a20, a30], [false, false, false, false], 0, false, false⟩ [3, 2, 1, 0]).anyMerged⟩ [3, 2, 1, 0]).anyMerged⟩ [3, 2, 1, 0]).score, (lfold 1 ⟨[a02, a12, a22, a32], [false, false, false, false], (lfold 1 ⟨[a01, a11, a21, a31], [false, false, false, false], (lfold 1 ⟨[a00, a10, a20, a30], [false, false, false, false], 0, false, false⟩ [3, 2, 1, 0]).score, (lfold 1 ⟨[a00, a10, a20, a30], [false, false, false, false], 0, false, false⟩ [3, 2, 1, 0]).anyMoved, (lfold 1 ⟨[a00, a10, a20, a30], [false, false, false, false], 0, false, false⟩ [3, 2, 1, 0]).anyMerged⟩ [3, 2, 1, 0]).score, (lfold 1 ⟨[a01, a11, a21, a31], [false, false, false, false], (lfold 1 ⟨[a00, a10, a20, a30], [false, false, false, false], 0, false, false⟩ [3, 2, 1, 0]).score, (lfold 1 ⟨[a00, a10, a20, a30], [false, false, false, false], 0, false, false⟩ [3, 2, 1, 0]).anyMoved, (lfold 1 ⟨[a00, a10, a20, a30], [false, false, false, false], 0, false, false⟩ [3, 2, 1, 0]).anyMerged⟩ [3, 2, 1, 0]).anyMoved, (lfold 1 ⟨[a01, a11, a21, a31], [false, false, false, false], (lfold 1 ⟨[a00, a10, a20, a30], [false, false, false, false], 0, false, false⟩ [3, 2, 1, 0]).score, (lfold 1 ⟨[a00, a10, a20, a30], [false, false, false, false], 0, false, false⟩ [3, 2, 1, 0]).anyMoved, (lfold 1 ⟨[a00, a10, a20, a30], [false, false, false, false], 0, false, false⟩ [3, 2, 1, 0]).anyMerged⟩ [3, 2, 1, 0]).anyMerged⟩ [3, 2, 1, 0]).anyMoved, (lfold 1 ⟨[a02, a12, a22, a32], [false, false, false, false], (lfold 1 ⟨[a01, a11, a21, a31], [false, false, false, false], (lfold 1 ⟨[a00, a10, a20, a30], [false, false, false, false], 0, false, false⟩ [3, 2, 1, 0]).score, (lfold 1 ⟨[a00, a10, a20, a30], [false, false, false, false], 0, false, false⟩ [3, 2, 1, 0]).anyMoved, (lfold 1 ⟨[a00, a10, a20, a30], [false, false, false, false], 0, false, false⟩ [3, 2, 1, 0]).anyMerged⟩ [3, 2, 1, 0]).score, (lfold 1 ⟨[a01, a11, a21, a31], [false, false, false, false], (lfold 1 ⟨[a00, a10, a20, a30], [false, false, false, false], 0, false, false⟩ [3, 2, 1, 0]).score, (lfold 1 ⟨[a00, a10, a20, a30], [false, false, false, false], 0, false, false⟩ [3, 2, 1, 0]).anyMoved, (lfold 1 ⟨[a00, a10, a20, a30], [false, false, false, false], 0, false, false⟩ [3, 2, 1, 0]).anyMerged⟩ [3, 2, 1, 0]).anyMoved, (lfold 1 ⟨[a01, a11, a21, a31], [false, false, false, false], (lfold 1 ⟨[a00, a10, a20, a30], [false, false, false, false], 0, false, false⟩ [3, 2, 1, 0]).score, (lfold 1 ⟨[a00, a10, a20, a30], [false, false, false, false], 0, false, false⟩ [3, 2, 1, 0]).anyMoved, (lfold 1 ⟨[a00, a10, a20, a30], [false, false, false, false], 0, false, false⟩ [3, 2, 1, 0]).anyMerged⟩ [3, 2, 1, 0]).anyMerged⟩ [3, 2, 1, 0]).anyMerged⟩ 3 (by omega) (by decide) wg3 wm3]
    rfl
  have hfold : (pairsFor .down).foldl (vstep 1 0) ⟨[[a00, a01, a02, a03], [a10, a11, a12, a13], [a20, a21, a22, a23], [a30, a31, a32, a33]], TileGame.emptyMGrid, 0, false, false⟩ = ⟨(Mat.setCol (Mat.setCol (Mat.setCol (Mat.setCol [[a00, a01, a02, a03], [a10, a11, a12, a13], [a20, a21, a22, a23], [a30, a31, a32, a33]] none 0 (lfold 1 ⟨[a00, a10, a20, a30], [false, false, false, false], 0, false, false⟩ [3, 2, 1, 0]).line) none 1 (lfold 1 ⟨[a01, a11, a21, a31], [false, false, false, false], (lfold 1 ⟨[a00, a10, a20, a30], [false, false, false, false], 0, false, false⟩ [3, 2, 1, 0]).score, (lfold 1 ⟨[a00, a10, a20, a30], [false, false, false, false], 0, false, false⟩ [3, 2, 1, 0]).anyMoved, (lfold 1 ⟨[a00, a10, a20, a30], [false, false, false, false], 0, false, false⟩ [3, 2, 1, 0]).anyMerged⟩ [3, 2, 1, 0]).line) none 2 (lfold 1 ⟨[a02, a12, a22, a32], [false, false, false, false], (lfold 1 ⟨[a01, a11, a21, a31], [false, false, false, false], (lfold 1 ⟨[a00, a10, a20, a30], [false, false, false, false], 0, false, false⟩ [3, 2, 1, 0]).score, (lfold 1 ⟨[a00, a10, a20, a30], [false, false, false, false], 0, false, false⟩ [3, 2, 1, 0]).anyMoved, (lfold 1 ⟨[a00, a10, a20, a30], [false, false, false, false], 0, false, false⟩ [3, 2, 1, 0]).anyMerged⟩ [3, 2, 1, 0]).score, (lfold 1 ⟨[a01, a11, a21, a31], [false, false, false, false], (lfold 1 ⟨[a00, a10, a20, a30], [false, false, false, false], 0, false, false⟩ [3, 2, 1, 0]).score, (lfold 1 ⟨[a00, a10, a20, a30], [false, false, false, false], 0, false, false⟩ [3, 2, 1, 0]).anyMoved, (lfold 1 ⟨[a00, a10, a20, a30], [false, false, false, false], 0, false, false⟩ [3, 2, 1, 0]).anyMerged⟩ [3, 2, 1, 0]).anyMoved, (lfold 1 ⟨[a01, a11, a21, a31], [false, false, false, false], (lfold 1 ⟨[a00, a10, a20, a30], [false, false, false, false], 0, false, false⟩ [3, 2, 1, 0]).score, (lfold 1 ⟨[a00, a10, a20, a30], [false, false, false, false], 0, false, false⟩ [3, 2, 1, 0]).anyMoved, (lfold 1 ⟨[a00, a10, a20, a30], [false, false, false, false], 0, false, false⟩ [3, 2, 1, 0]).anyMerged⟩ [3, 2, 1, 0]).anyMerged⟩ [3, 2, 1, 0]).line) none 3 (lfold 1 ⟨[a03, a13, a23, a33], [false, false, false, false], (lfold 1 ⟨[a02, a12, a22, a32], [false, false, false, false], (lfold 1 ⟨[a01, a11, a21, a31], [false, false, false, false], (lfold 1 ⟨[a00, a10, a20, a30], [false, false, false, false], 0, false, false⟩ [3, 2, 1, 0]).score, (lfold 1 ⟨[a00, a10, a20, a30], [false, false, false, false], 0, false, false⟩ [3, 2, 1, 0]).anyMoved, (lfold 1 ⟨[a00, a10, a20, a30], [false, false, false, false], 0, false, false⟩ [3, 2, 1, 0]).anyMerged⟩ [3, 2, 1, 0]).score, (lfold 1 ⟨[a01, a11, a21, a31], [false, false, false, false], (lfold 1 ⟨[a00, a10, a20, a30], [false, false, false, false], 0, false, false⟩ [3, 2, 1, 0]).score, (lfold 1 ⟨[a00, a10, a20, a30], [false, false, false, false], 0, false, false⟩ [3, 2, 1, 0]).anyMoved, (lfold 1 ⟨[a00, a10, a20, a30], [false, false, false, false], 0, false, false⟩ [3, 2, 1, 0]).anyMerged⟩ [3, 2, 1, 0]).anyMoved, (lfold 1 ⟨[a01, a11, a21, a31], [false, false, false, false], (lfold 1 ⟨[a00, a10, a20, a30], [false, false, false, false], 0, false, false⟩ [3, 2, 1, 0]).score, (lfold 1 ⟨[a00, a10, a20, a30], [false, false, false, false], 0, false, false⟩ [3, 2, 1, 0]).anyMoved, (lfold 1 ⟨[a00, a10, a20, a30], [false, false, false, false], 0, false, false⟩ [3, 2, 1, 0]).anyMerged⟩ [3, 2, 1, 0]).anyMerged⟩ [3, 2, 1, 0]).score, (lfold 1 ⟨[a02, a12, a22, a32], [false, false, false, false], (lfold 1 ⟨[a01, a11, a21, a31], [false, false, false, false], (lfold 1 ⟨[a00, a10, a20, a30], [false, false, false, false], 0, false, false⟩ [3, 2, 1, 0]).score, (lfold 1 ⟨[a00, a10, a20, a30], [false, false, false, false], 0, false, false⟩ [3, 2, 1, 0]).anyMoved, (lfold 1 ⟨[a00, a10, a20, a30], [false, false, false, false], 0, false, false⟩ [3, 2, 1, 0]).anyMerged⟩ [3, 2, 1, 0]).score, (lfold 1 ⟨[a01, a11, a21, a31], [false, false, false, false], (lfold 1 ⟨[a00, a10, a20, a30], [false, false, false, false], 0, false, false⟩ [3, 2, 1, 0]).score, (lfold 1 ⟨[a00, a10, a20, a30], [false, false, false, false], 0, false, false⟩ [3, 2, 1, 0]).anyMoved, (lfold 1 ⟨[a00, a10, a20, a30], [false, false, false, false], 0, false, false⟩ [3, 2, 1, 0]).anyMerged⟩ [3, 2, 1, 0]).anyMoved, (lfold 1 ⟨[a01, a11, a21, a31], [false, false, false, false], (lfold 1 ⟨[a00, a10, a20, a30], [false, false, false, false], 0, false, false⟩ [3, 2, 1, 0]).score, (lfold 1 ⟨[a00, a10, a20, a30], [false, false, false, false], 0, false, false⟩ [3, 2, 1, 0]).anyMoved, (lfold 1 ⟨[a00, a10, a20, a30], [false, false, false, false], 0, false, false⟩ [3, 2, 1, 0]).anyMerged⟩ [3, 2, 1, 0]).anyMerged⟩ [3, 2, 1, 0]).anyMoved, (lfold 1 ⟨[a02, a12, a22, a32], [false, false, false, false], (lfold 1 ⟨[a01, a11, a21, a31], [false, false, false, false], (lfold 1 ⟨[a00, a10, a20, a30], [false, false, false, false], 0, false, false⟩ [3, 2, 1, 0]).score, (lfold 1 ⟨[a00, a10, a20, a30], [false, false, false, false], 0, false, false⟩ [3, 2, 1, 0]).anyMoved, (lfold 1 ⟨[a00, a10, a20, a30], [false, false, false, false], 0, false, false⟩ [3, 2, 1, 0]).anyMerged⟩ [3, 2, 1, 0]).score, (lfold 1 ⟨[a01, a11, a21, a31], [false, false, false, false], (lfold 1 ⟨[a00, a10, a20, a30], [false, false, false, false], 0, false, false⟩ [3, 2, 1, 0]).score, (lfold 1 ⟨[a00, a10, a20, a30], [false, false, false, false], 0, false, false⟩ [3, 2, 1, 0]).anyMoved, (lfold 1 ⟨[a00, a10, a20, a30], [false, false, false, false], 0, false, false⟩ [3, 2, 1, 0]).anyMerged⟩ [3, 2, 1, 0]).anyMoved, (lfold 1 ⟨[a01, a11, a21, a31], [false, false, false, false], (lfold 1 ⟨[a00, a10, a20, a30], [false, false, false, false], 0, false, false⟩ [3, 2, 1, 0]).score, (lfold 1 ⟨[a00, a10, a20, a30], [false, false, false, false], 0, false, false⟩ [3, 2, 1, 0]).anyMoved, (lfold 1 ⟨[a00, a10, a20, a30], [false, false, false, false], 0, false, false⟩ [3, 2, 1, 0]).anyMerged⟩ [3, 2, 1, 0]).anyMerged⟩ [3, 2, 1, 0]).anyMerged⟩ [3, 2, 1, 0]).line), (Mat.setCol (Mat.setCol (Mat.setCol (Mat.setCol TileGame.emptyMGrid false 0 (lfold 1 ⟨[a00, a10, a20, a30], [false, false, false, false], 0, false, false⟩ [3, 2, 1, 0]).marks) false 1 (lfold 1 ⟨[a01, a11, a21, a31], [false, false, false, false], (lfold 1 ⟨[a00, a10, a20, a30], [false, false, false, false], 0, false, false⟩ [3, 2, 1, 0]).score, (lfold 1 ⟨[a00, a10, a20, a30], [false, false, false, false], 0, false, false⟩ [3, 2, 1, 0]).anyMoved, (lfold 1 ⟨[a00, a10, a20, a30], [false, false, false, false], 0, false, false⟩ [3, 2, 1, 0]).anyMerged⟩ [3, 2, 1, 0]).marks) false 2 (lfold 1 ⟨[a02, a12, a22, a32], [false, false, false, false], (lfold 1 ⟨[a01, a11, a21, a31], [false, false, false, false], (lfold 1 ⟨[a00, a10, a20, a30], [false, false, false, false], 0, false, false⟩ [3, 2, 1, 0]).score, (lfold 1 ⟨[a00, a10, a20, a30], [false, false, false, false], 0, false, false⟩ [3, 2, 1, 0]).anyMoved, (lfold 1 ⟨[a00, a10, a20, a30], [false, false, false, false], 0, false, false⟩ [3, 2, 1, 0]).anyMerged⟩ [3, 2, 1, 0]).score, (lfold 1 ⟨[a01, a11, a21, a31], [false, false, false, false], (lfold 1 ⟨[a00, a10, a20, a30], [false, false, false, false], 0, false, false⟩ [3, 2, 1, 0]).score, (lfold 1 ⟨[a00, a10, a20, a30], [false, false, false, false], 0, false, false⟩ [3, 2, 1, 0]).anyMoved, (lfold 1 ⟨[a00, a10, a20, a30], [false, false, false, false], 0, false, false⟩ [3, 2, 1, 0]).anyMerged⟩ [3, 2, 1, 0]).anyMoved, (lfold 1 ⟨[a01, a11, a21, a31], [false, false, false, false], (lfold 1 ⟨[a00, a10, a20, a30], [false, false, false, false], 0, false, false⟩ [3, 2, 1, 0]).score, (lfold 1 ⟨[a00, a10, a20, a30], [false, false, false, false], 0, false, false⟩ [3, 2, 1, 0]).anyMoved, (lfold 1 ⟨[a00, a10, a20, a30], [false, false, false, false], 0, false, false⟩ [3, 2, 1, 0]).anyMerged⟩ [3, 2, 1, 0]).anyMerged⟩ [3, 2, 1, 0]).marks) false 3 (lfold 1 ⟨[a03, a13, a23, a33], [false, false, false, false], (lfold 1 ⟨[a02, a12, a22, a32], [false, false, false, false], (lfold 1 ⟨[a01, a11, a21, a31], [false, false, false, false], (lfold 1 ⟨[a00, a10, a20, a30], [false, false, false, false], 0, false, false⟩ [3, 2, 1, 0]).score, (lfold 1 ⟨[a00, a10, a20, a30], [false, false, false, false], 0, false, false⟩ [3, 2, 1, 0]).anyMoved, (lfold 1 ⟨[a00, a10, a20, a30], [false, false, false, false], 0, false, false⟩ [3, 2, 1, 0]).anyMerged⟩ [3, 2, 1, 0]).score, (lfold 1 ⟨[a01, a11, a21, a31], [false, false, false, false], (lfold 1 ⟨[a00, a10, a20, a30], [false, false, false, false], 0, false, false⟩ [3, 2, 1, 0]).score, (lfold 1 ⟨[a00, a10, a20, a30], [false, false, false, false], 0, false, false⟩ [3, 2, 1, 0]).anyMoved, (lfold 1 ⟨[a00, a10, a20, a30], [false, false, false, false], 0, false, false⟩ [3, 2, 1, 0]).anyMerged⟩ [3, 2, 1, 0]).anyMoved, (lfold 1 ⟨[a01, a11, a21, a31], [false, false, false, false], (lfold 1 ⟨[a00, a10, a20, a30], [false, false, false, false], 0, false, false⟩ [3, 2, 1, 0]).score, (lfold 1 ⟨[a00, a10, a20, a30], [false, false, false, false], 0, false, false⟩ [3, 2, 1, 0]).anyMoved, (lfold 1 ⟨[a00, a10, a20, a30], [false, false, false, false], 0, false, false⟩ [3, 2, 1, 0]).anyMerged⟩ [3, 2, 1, 0]).anyMerged⟩ [3, 2, 1, 0]).score, (lfold 1 ⟨[a02, a12, a22, a32], [false, false, false, false], (lfold 1 ⟨[a01, a11, a21, a31], [false, false, false, false], (lfold 1 ⟨[a00, a10, a20, a30], [false, false, false, false], 0, false, false⟩ [3, 2, 1, 0]).score, (lfold 1 ⟨[a00, a10, a20, a30], [false, false, false, false], 0, false, false⟩ [3, 2, 1, 0]).anyMoved, (lfold 1 ⟨[a00, a10, a20, a30], [false, false, false, false], 0, false, false⟩ [3, 2, 1, 0]).anyMerged⟩ [3, 2, 1, 0]).score, (lfold 1 ⟨[a01, a11, a21, a31], [false, false, false, false], (lfold 1 ⟨[a00, a10, a20, a30], [false, false, false, false], 0, false, false⟩ [3, 2, 1, 0]).score, (lfold 1 ⟨[a00, a10, a20, a30], [false, false, false, false], 0, false, false⟩ [3, 2, 1, 0]).anyMoved, (lfold 1 ⟨[a00, a10, a20, a30], [false, false, false, false], 0, false, false⟩ [3, 2, 1, 0]).anyMerged⟩ [3, 2, 1, 0]).anyMoved, (lfold 1 ⟨[a01, a11, a21, a31], [false, false, false, false], (lfold 1 ⟨[a00, a10, a20, a30], [false, false, false, false], 0, false, false⟩ [3, 2, 1, 0]).score, (lfold 1 ⟨[a00, a10, a20, a30], [false, false, false, false], 0, false, false⟩ [3, 2, 1, 0]).anyMoved, (lfold 1 ⟨[a00, a10, a20, a30], [false, false, false, false], 0, false, false⟩ [3, 2, 1, 0]).anyMerged⟩ [3, 2, 1, 0]).anyMerged⟩ [3, 2, 1, 0]).anyMoved, (lfold 1 ⟨[a02, a12, a22, a32], [false, false, false, false], (lfold 1 ⟨[a01, a11, a21, a31], [false, false, false, false], (lfold 1 ⟨[a00, a10, a20, a30], [false, false, false, false], 0, false, false⟩ [3, 2, 1, 0]).score, (lfold 1 ⟨[a00, a10, a20, a30], [false, false, false, false], 0, false, false⟩ [3, 2, 1, 0]).anyMoved, (lfold 1 ⟨[a00, a10, a20, a30], [false, false, false, false], 0, false, false⟩ [3, 2, 1, 0]).anyMerged⟩ [3, 2, 1, 0]).score, (lfold 1 ⟨[a01, a11, a21, a31], [false, false, false, false], (lfold 1 ⟨[a00, a10, a20, a30], [false, false, false, false], 0, false, false⟩ [3, 2, 1, 0]).score, (lfold 1 ⟨[a00, a10, a20, a30], [false, false, false, false], 0, false, false⟩ [3, 2, 1, 0]).anyMoved, (lfold 1 ⟨[a00, a10, a20, a30], [false, false, false, false], 0, false, false⟩ [3, 2, 1, 0]).anyMerged⟩ [3, 2, 1, 0]).anyMoved, (lfold 1 ⟨[a01, a11, a21, a31], [false, false, false, false], (lfold 1 ⟨[a00, a10, a20, a30], [false, false, false, false], 0, false, false⟩ [3, 2, 1, 0]).score, (lfold 1 ⟨[a00, a10, a20, a30], [false, false, false, false], 0, false, false⟩ [3, 2, 1, 0]).anyMoved, (lfold 1 ⟨[a00, a10, a20, a30], [false, false, false, false], 0, false, false⟩ [3, 2, 1, 0]).anyMerged⟩ [3, 2, 1, 0]).anyMerged⟩ [3, 2, 1, 0]).anyMerged⟩ [3, 2, 1, 0]).marks), (lfold 1 ⟨[a03, a13, a23, a33], [false, false, false, false], (lfold 1 ⟨[a02, a12, a22, a32], [false, false, false, false], (lfold 1 ⟨[a01, a11, a21, a31], [false, false, false, false], (lfold 1 ⟨[a00, a10, a20, a30], [false, false, false, false], 0, false, false⟩ [3, 2, 1, 0]).score, (lfold 1 ⟨[a00, a10, a20, a30], [false, false, false, false], 0, false, false⟩ [3, 2, 1, 0]).anyMoved, (lfold 1 ⟨[a00, a10, a20, a30], [false, false, false, false], 0, false, false⟩ [3, 2, 1, 0]).anyMerged⟩ [3, 2, 1, 0]).score, (lfold 1 ⟨[a01, a11, a21, a31], [false, false, false, false], (lfold 1 ⟨[a00, a10, a20, a30], [false, false, false, false], 0, false, false⟩ [3, 2, 1, 0]).score, (lfold 1 ⟨[a00, a10, a20, a30], [false, false, false, false], 0, false, false⟩ [3, 2, 1, 0]).anyMoved, (lfold 1 ⟨[a00, a10, a20, a30], [false, false, false, false], 0, false, false⟩ [3, 2, 1, 0]).anyMerged⟩ [3, 2, 1, 0]).anyMoved, (lfold 1 ⟨[a01, a11, a21, a31], [false, false, false, false], (lfold 1 ⟨[a00, a10, a20, a30], [false, false, false, false], 0, false, false⟩ [3, 2, 1, 0]).score, (lfold 1 ⟨[a00, a10, a20, a30], [false, false, false, false], 0, false, false⟩ [3, 2, 1, 0]).anyMoved, (lfold 1 ⟨[a00, a10, a20, a30], [false, false, false, false], 0, false, false⟩ [3, 2, 1, 0]).anyMerged⟩ [3, 2, 1, 0]).anyMerged⟩ [3, 2, 1, 0]).score, (lfold 1 ⟨[a02, a12, a22, a32], [false, false, false, false], (lfold 1 ⟨[a01, a11, a21, a31], [false, false, false, false], (lfold 1 ⟨[a00, a10, a20, a30], [false, false, false, false], 0, false, false⟩ [3, 2, 1, 0]).score, (lfold 1 ⟨[a00, a10, a20, a30], [false, false, false, false], 0, false, false⟩ [3, 2, 1, 0]).anyMoved, (lfold 1 ⟨[a00, a10, a20, a30], [false, false, false, false], 0, false, false⟩ [3, 2, 1, 0]).anyMerged⟩ [3, 2, 1, 0]).score, (lfold 1 ⟨[a01, a11, a21, a31], [false, false, false, false], (lfold 1 ⟨[a00, a10, a20, a30], [false, false, false, false], 0, false, false⟩ [3, 2, 1, 0]).score, (lfold 1 ⟨[a00, a10, a20, a30], [false, false, false, false], 0, false, false⟩ [3, 2, 1, 0]).anyMoved, (lfold 1 ⟨[a00, a10, a20, a30], [false, false, false, false], 0, false, false⟩ [3, 2, 1, 0]).anyMerged⟩ [3, 2, 1, 0]).anyMoved, (lfold 1 ⟨[a01, a11, a21, a31], [false, false, false, false], (lfold 1 ⟨[a00, a10, a20, a30], [false, false, false, false], 0, false, false⟩ [3, 2, 1, 0]).score, (lfold 1 ⟨[a00, a10, a20, a30], [false, false, false, false], 0, false, false⟩ [3, 2, 1, 0]).anyMoved, (lfold 1 ⟨[a00, a10, a20, a30], [false, false, false, false], 0, false, false⟩ [3, 2, 1, 0]).anyMerged⟩ [3, 2, 1, 0]).anyMerged⟩ [3, 2, 1, 0]).anyMoved, (lfold 1 ⟨[a02, a12, a22, a32], [false, false, false, false], (lfold 1 ⟨[a01, a11, a21, a31], [false, false, false, false], (lfold 1 ⟨[a00, a10, a20, a30], [false, false, false, false], 0, false, false⟩ [3, 2, 1, 0]).score, (lfold 1 ⟨[a00, a10, a20, a30], [false, false, false, false], 0, false, false⟩ [3, 2, 1, 0]).anyMoved, (lfold 1 ⟨[a00, a10, a20, a30], [false, false, false, false], 0, false, false⟩ [3, 2, 1, 0]).anyMerged⟩ [3, 2, 1, 0]).score, (lfold 1 ⟨[a01, a11, a21, a31], [false, false, false, false], (lfold 1 ⟨[a00, a10, a20, a30], [false, false, false, false], 0, false, false⟩ [3, 2, 1, 0]).score, (lfold 1 ⟨[a00, a10, a20, a30], [false, false, false, false], 0, false, false⟩ [3, 2, 1, 0]).anyMoved, (lfold 1 ⟨[a00, a10, a20, a30], [false, false, false, false], 0, false, false⟩ [3, 2, 1, 0]).anyMerged⟩ [3, 2, 1, 0]).anyMoved, (lfold 1 ⟨[a01, a11, a21, a31], [false, false, false, false], (lfold 1 ⟨[a00, a10, a20, a30], [false, false, false, false], 0, false, false⟩ [3, 2, 1, 0]).score, (lfold 1 ⟨[a00, a10, a20, a30], [false, false, false, false], 0, false, false⟩ [3, 2, 1, 0]).anyMoved, (lfold 1 ⟨[a00, a10, a20, a30], [false, false, false, false], 0, false, false⟩ [3, 2, 1, 0]).anyMerged⟩ [3, 2, 1, 0]).anyMerged⟩ [3, 2, 1, 0]).anyMerged⟩ [3, 2, 1, 0]).score, (lfold 1 ⟨[a03, a13, a23, a33], [false, false, false, false], (lfold 1 ⟨[a02, a12, a22, a32], [false, false, false, false], (lfold 1 ⟨[a01, a11, a21, a31], [false, false, false, false], (lfold 1 ⟨[a00, a10, a20, a30], [false, false, false, false], 0, false, false⟩ [3, 2, 1, 0]).score, (lfold 1 ⟨[a00, a10, a20, a30], [false, false, false, false], 0, false, false⟩ [3, 2, 1, 0]).anyMoved, (lfold 1 ⟨[a00, a10, a20, a30], [false, false, false, false], 0, false, false⟩ [3, 2, 1, 0]).anyMerged⟩ [3, 2, 1, 0]).score, (lfold 1 ⟨[a01, a11, a21, a31], [false, false, false, false], (lfold 1 ⟨[a00, a10, a20, a30], [false, false, false, false], 0, false, false⟩ [3, 2, 1, 0]).score, (lfold 1 ⟨[a00, a10, a20, a30], [false, false, false, false], 0, false, false⟩ [3, 2, 1, 0]).anyMoved, (lfold 1 ⟨[a00, a10, a20, a30], [false, false, false, false], 0, false, false⟩ [3, 2, 1, 0]).anyMerged⟩ [3, 2, 1, 0]).anyMoved, (lfold 1 ⟨[a01, a11, a21, a31], [false, false, false, false], (lfold 1 ⟨[a00, a10, a20, a30], [false, false, false, false], 0, false, false⟩ [3, 2, 1, 0]).score, (lfold 1 ⟨[a00, a10, a20, a30], [false, false, false, false], 0, false, false⟩ [3, 2, 1, 0]).anyMoved, (lfold 1 ⟨[a00, a10, a20, a30], [false, false, false, false], 0, false, false⟩ [3, 2, 1, 0]).anyMerged⟩ [3, 2, 1, 0]).anyMerged⟩ [3, 2, 1, 0]).score, (lfold 1 ⟨[a02, a12, a22, a32], [false, false, false, false], (lfold 1 ⟨[a01, a11, a21, a31], [false, false, false, false], (lfold 1 ⟨[a00, a10, a20, a30], [false, false, false, false], 0, false, false⟩ [3, 2, 1, 0]).score, (lfold 1 ⟨[a00, a10, a20, a30], [false, false, false, false], 0, false, false⟩ [3, 2, 1, 0]).anyMoved, (lfold 1 ⟨[a00, a10, a20, a30], [false, false, false, false], 0, false, false⟩ [3, 2, 1, 0]).anyMerged⟩ [3, 2, 1, 0]).score, (lfold 1 ⟨[a01, a11, a21, a31], [false, false, false, false], (lfold 1 ⟨[a00, a10, a20, a30], [false, false, false, false], 0, false, false⟩ [3, 2, 1, 0]).score, (lfold 1 ⟨[a00, a10, a20, a30], [false, false, false, false], 0, false, false⟩ [3, 2, 1, 0]).anyMoved, (lfold 1 ⟨[a00, a10, a20, a30], [false, false, false, false], 0, false, false⟩ [3, 2, 1, 0]).anyMerged⟩ [3, 2, 1, 0]).anyMoved, (lfold 1 ⟨[a01, a11, a21, a31], [false, false, false, false], (lfold 1 ⟨[a00, a10, a20, a30], [false, false, false, false], 0, false, false⟩ [3, 2, 1, 0]).score, (lfold 1 ⟨[a00, a10, a20, a30], [false, false, false, false], 0, false, false⟩ [3, 2, 1, 0]).anyMoved, (lfold 1 ⟨[a00, a10, a20, a30], [false, false, false, false], 0, false, false⟩ [3, 2, 1, 0]).anyMerged⟩ [3, 2, 1, 0]).anyMerged⟩ [3, 2, 1, 0]).anyMoved, (lfold 1 ⟨[a02, a12, a22, a32], [false, false, false, false], (lfold 1 ⟨[a01, a11, a21, a31], [false, false, false, false], (lfold 1 ⟨[a00, a10, a20, a30], [false, false, false, false], 0, false, false⟩ [3, 2, 1, 0]).score, (lfold 1 ⟨[a00, a10, a20, a30], [false, false, false, false], 0, false, false⟩ [3, 2, 1, 0]).anyMoved, (lfold 1 ⟨[a00, a10, a20, a30], [false, false, false, false], 0, false, false⟩ [3, 2, 1, 0]).anyMerged⟩ [3, 2, 1, 0]).score, (lfold 1 ⟨[a01, a11, a21, a31], [false, false, false, false], (lfold 1 ⟨[a00, a10, a20, a30], [false, false, false, false], 0, false, false⟩ [3, 2, 1, 0]).score, (lfold 1 ⟨[a00, a10, a20, a30], [false, false, false, false], 0, false, false⟩ [3, 2, 1, 0]).anyMoved, (lfold 1 ⟨[a00, a10, a20, a30], [false, false, false, false], 0, false, false⟩ [3, 2, 1, 0]).anyMerged⟩ [3, 2, 1, 0]).anyMoved, (lfold 1 ⟨[a01, a11, a21, a31], [false, false, false, false], (lfold 1 ⟨[a00, a10, a20, a30], [false, false, false, false], 0, false, false⟩ [3, 2, 1, 0]).score, (lfold 1 ⟨[a00, a10, a20, a30], [false, false, false, false], 0, false, false⟩ [3, 2, 1, 0]).anyMoved, (lfold 1 ⟨[a00, a10, a20, a30], [false, false, false, false], 0, false, false⟩ [3, 2, 1, 0]).anyMerged⟩ [3, 2, 1, 0]).anyMerged⟩ [3, 2, 1, 0]).anyMerged⟩ [3, 2, 1, 0]).anyMoved, (lfold 1 ⟨[a03, a13, a23, a33], [false, false, false, false], (lfold 1 ⟨[a02, a12, a22, a32], [false, false, false, false], (lfold 1 ⟨[a01, a11, a21, a31], [false, false, false, false], (lfold 1 ⟨[a00, a10, a20, a30], [false, false, false, false], 0, false, false⟩ [3, 2, 1, 0]).score, (lfold 1 ⟨[a00, a10, a20, a30], [false, false, false, false], 0, false, false⟩ [3, 2, 1, 0]).anyMoved, (lfold 1 ⟨[a00, a10, a20, a30], [false, false, false, false], 0, false, false⟩ [3, 2, 1, 0]).anyMerged⟩ [3, 2, 1, 0]).score, (lfold 1 ⟨[a01, a11, a21, a31], [false, false, false, false], (lfold 1 ⟨[a00, a10, a20, a30], [false, false, false, false], 0, false, false⟩ [3, 2, 1, 0]).score, (lfold 1 ⟨[a00, a10, a20, a30], [false, false, false, false], 0, false, false⟩ [3, 2, 1, 0]).anyMoved, (lfold 1 ⟨[a00, a10, a20, a30], [false, false, false, false], 0, false, false⟩ [3, 2, 1, 0]).anyMerged⟩ [3, 2, 1, 0]).anyMoved, (lfold 1 ⟨[a01, a11, a21, a31], [false, false, false, false], (lfold 1 ⟨[a00, a10, a20, a30], [false, false, false, false], 0, false, false⟩ [3, 2, 1, 0]).score, (lfold 1 ⟨[a00, a10, a20, a30], [false, false, false, false], 0, false, false⟩ [3, 2, 1, 0]).anyMoved, (lfold 1 ⟨[a00, a10, a20, a30], [false, false, false, false], 0, false, false⟩ [3, 2, 1, 0]).anyMerged⟩ [3, 2, 1, 0]).anyMerged⟩ [3, 2, 1, 0]).score, (lfold 1 ⟨[a02, a12, a22, a32], [false, false, false, false], (lfold 1 ⟨[a01, a11, a21, a31], [false, false, false, false], (lfold 1 ⟨[a00, a10, a20, a30], [false, false, false, false], 0, false, false⟩ [3, 2, 1, 0]).score, (lfold 1 ⟨[a00, a10, a20, a30], [false, false, false, false], 0, false, false⟩ [3, 2, 1, 0]).anyMoved, (lfold 1 ⟨[a00, a10, a20, a30], [false, false, false, false], 0, false, false⟩ [3, 2, 1, 0]).anyMerged⟩ [3, 2, 1, 0]).score, (lfold 1 ⟨[a01, a11, a21, a31], [false, false, false, false], (lfold 1 ⟨[a00, a10, a20, a30], [false, false, false, false], 0, false, false⟩ [3, 2, 1, 0]).score, (lfold 1 ⟨[a00, a10, a20, a30], [false, false, false, false], 0, false, false⟩ [3, 2, 1, 0]).anyMoved, (lfold 1 ⟨[a00, a10, a20, a30], [false, false, false, false], 0, false, false⟩ [3, 2, 1, 0]).anyMerged⟩ [3, 2, 1, 0]).anyMoved, (lfold 1 ⟨[a01, a11, a21, a31], [false, false, false, false], (lfold 1 ⟨[a00, a10, a20, a30], [false, false, false, false], 0, false, false⟩ [3, 2, 1, 0]).score, (lfold 1 ⟨[a00, a10, a20, a30], [false, false, false, false], 0, false, false⟩ [3, 2, 1, 0]).anyMoved, (lfold 1 ⟨[a00, a10, a20, a30], [false, false, false, false], 0, false, false⟩ [3, 2, 1, 0]).anyMerged⟩ [3, 2, 1, 0]).anyMerged⟩ [3, 2, 1, 0]).anyMoved, (lfold 1 ⟨[a02, a12, a22, a32], [false, false, false, false], (lfold 1 ⟨[a01, a11, a21, a31], [false, false, false, false], (lfold 1 ⟨[a00, a10, a20, a30], [false, false, false, false], 0, false, false⟩ [3, 2, 1, 0]).score, (lfold 1 ⟨[a00, a10, a20, a30], [false, false, false, false], 0, false, false⟩ [3, 2, 1, 0]).anyMoved, (lfold 1 ⟨[a00, a10, a20, a30], [false, false, false, false], 0, false, false⟩ [3, 2, 1, 0]).anyMerged⟩ [3, 2, 1, 0]).score, (lfold 1 ⟨[a01, a11, a21, a31], [false, false, false, false], (lfold 1 ⟨[a00, a10, a20, a30], [false, false, false, false], 0, false, false⟩ [3, 2, 1, 0]).score, (lfold 1 ⟨[a00, a10, a20, a30], [false, false, false, false], 0, false, false⟩ [3, 2, 1, 0]).anyMoved, (lfold 1 ⟨[a00, a10, a20, a30], [false, false, false, false], 0, false, false⟩ [3, 2, 1, 0]).anyMerged⟩ [3, 2, 1, 0]).anyMoved, (lfold 1 ⟨[a01, a11, a21, a31], [false, false, false, false], (lfold 1 ⟨[a00, a10, a20, a30], [false, false, false, false], 0, false, false⟩ [3, 2, 1, 0]).score, (lfold 1 ⟨[a00, a10, a20, a30], [false, false, false, false], 0, false, false⟩ [3, 2, 1, 0]).anyMoved, (lfold 1 ⟨[a00, a10, a20, a30], [false, false, false, false], 0, false, false⟩ [3, 2, 1, 0]).anyMerged⟩ [3, 2, 1, 0]).anyMerged⟩ [3, 2, 1, 0]).anyMerged⟩ [3, 2, 1, 0]).anyMerged⟩ := by
    rw [pairsFor_down_reorder 1 ⟨[[a00, a01, a02, a03], [a10, a11, a12, a13], [a20, a21, a22, a23], [a30, a31, a32, a33]], TileGame.emptyMGrid, 0, false, false⟩ wg0 wm0]
    rw [hb0, hb1, hb2, hb3]
  have hmoveRaw : GridGame.move [[a00, a01, a02, a03], [a10, a11, a12, a13], [a20, a21, a22, a23], [a30, a31, a32, a33]] .down
      = ⟨[[(GridGame.slideRow [a00, a10, a20, a30].reverse).newRow.getD 3 none, (GridGame.slideRow [a01, a11, a21, a31].reverse).newRow.getD 3 none, (GridGame.slideRow [a02, a12, a22, a32].reverse).newRow.getD 3 none, (GridGame.slideRow [a03, a13, a23, a33].reverse).newRow.getD 3 none], [(GridGame.slideRow [a00, a10, a20, a30].reverse).newRow.getD 2 none, (GridGame.slideRow [a01, a11, a21, a31].reverse).newRow.getD 2 none, (GridGame.slideRow [a02, a12, a22, a32].reverse).newRow.getD 2 none, (GridGame.slideRow [a03, a13, a23, a33].reverse).newRow.getD 2 none], [(GridGame.slideRow [a00, a10, a20, a30].reverse).newRow.getD 1 none, (GridGame.slideRow [a01, a11, a21, a31].reverse).newRow.getD 1 none, (GridGame.slideRow [a02, a12, a22, a32].reverse).newRow.getD 1 none, (GridGame.slideRow [a03, a13, a23, a33].reverse).newRow.getD 1 none], [(GridGame.slideRow [a00, a10, a20, a30].reverse).newRow.getD 0 none, (GridGame.slideRow [a01, a11, a21, a31].reverse).newRow.getD 0 none, (GridGame.slideRow [a02, a12, a22, a32].reverse).newRow.getD 0 none, (GridGame.slideRow [a03, a13, a23, a33].reverse).newRow.getD 0 none]],
         (GridGame.slideRow [a00, a10, a20, a30].reverse).score + ((GridGame.slideRow [a01, a11, a21, a31].reverse).score + ((GridGame.slideRow [a02, a12, a22, a32].reverse).score + ((GridGame.slideRow [a03, a13, a23, a33].reverse).score + 0))),
         !(GridGame.gridsEqual [[a00, a01, a02, a03], [a10, a11, a12, a13], [a20, a21, a22, a23], [a30, a31, a32, a33]] [[(GridGame.slideRow [a00, a10, a20, a30].reverse).newRow.getD 3 none, (GridGame.slideRow [a01, a11, a21, a31].reverse).newRow.getD 3 none, (GridGame.slideRow [a02, a12, a22, a32].reverse).newRow.getD 3 none, (GridGame.slideRow [a03, a13, a23, a33].reverse).newRow.getD 3 none], [(GridGame.slideRow [a00, a10, a20, a30].reverse).newRow.getD 2 none, (GridGame.slideRow [a01, a11, a21, a31].reverse).newRow.getD 2 none, (GridGame.slideRow [a02, a12, a22, a32].reverse).newRow.getD 2 none, (GridGame.slideRow [a03, a13, a23, a33].reverse).newRow.getD 2 none], [(GridGame.slideRow [a00, a10, a20, a30].reverse).newRow.getD 1 none, (GridGame.slideRow [a01, a11, a21, a31].reverse).newRow.getD 1 none, (GridGame.slideRow [a02, a12, a22, a32].reverse).newRow.getD 1 none, (GridGame.slideRow [a03, a13, a23, a33].reverse).newRow.getD 1 none], [(GridGame.slideRow [a00, a10, a20, a30].reverse).newRow.getD 0 none, (GridGame.slideRow [a01, a11, a21, a31].reverse).newRow.getD 0 none, (GridGame.slideRow [a02, a12, a22, a32].reverse).newRow.getD 0 none, (GridGame.slideRow [a03, a13, a23, a33].reverse).newRow.getD 0 none]]),
         ((GridGame.slideRow [a00, a10, a20, a30].reverse).merged || ((GridGame.slideRow [a01, a11, a21, a31].reverse).merged || ((GridGame.slideRow [a02, a12, a22, a32].reverse).merged || ((GridGame.slideRow [a03, a13, a23, a33].reverse).merged || false))))⟩ := rfl
  have hrev0 : (GridGame.slideRow [a00, a10, a20, a30].reverse).newRow.reverse
      = [(GridGame.slideRow [a00, a10, a20, a30].reverse).newRow.getD 3 none, (GridGame.slideRow [a00, a10, a20, a30].reverse).newRow.getD 2 none, (GridGame.slideRow [a00, a10, a20, a30].reverse).newRow.getD 1 none,
         (GridGame.slideRow [a00, a10, a20, a30].reverse).newRow.getD 0 none] :=
    Mat.list4_reverse none (slideRow_newRow_length rfl)
  have hrev1 : (GridGame.slideRow [a01, a11, a21, a31].reverse).newRow.reverse
      = [(GridGame.slideRow [a01, a11, a21, a31].reverse).newRow.getD 3 none, (GridGame.slideRow [a01, a11, a21, a31].reverse).newRow.getD 2 none, (GridGame.slideRow [a01, a11, a21, a31].reverse).newRow.getD 1 none,
         (GridGame.slideRow [a01, a11, a21, a31].reverse).newRow.getD 0 none] :=
    Mat.list4_reverse none (slideRow_newRow_length rfl)
  have hrev2 : (GridGame.slideRow [a02, a12, a22, a32].reverse).newRow.reverse
      = [(GridGame.slideRow [a02, a12, a22, a32].reverse).newRow.getD 3 none, (GridGame.slideRow [a02, a12, a22, a32].reverse).newRow.getD 2 none, (GridGame.slideRow [a02, a12, a22, a32].reverse).newRow.getD 1 none,
         (GridGame.slideRow [a02, a12, a22, a32].reverse).newRow.getD 0 none] :=
    Mat.list4_reverse none (slideRow_newRow_length rfl)
  have hrev3 : (GridGame.slideRow [a03, a13, a23, a33].reverse).newRow.reverse
      = [(GridGame.slideRow [a03, a13, a23, a33].reverse).newRow.getD 3 none, (GridGame.slideRow [a03, a13, a23, a33].reverse).newRow.getD 2 none, (GridGame.slideRow [a03, a13, a23, a33].reverse).newRow.getD 1 none,
         (GridGame.slideRow [a03, a13, a23, a33].reverse).newRow.getD 0 none] :=
    Mat.list4_reverse none (slideRow_newRow_length rfl)
  have hmove : GridGame.move [[a00, a01, a02, a03], [a10, a11, a12, a13], [a20, a21, a22, a23], [a30, a31, a32, a33]] .down
      = ⟨[[(GridGame.slideRow [a00, a10, a20, a30].reverse).newRow.reverse.getD 0 none, (GridGame.slideRow [a01, a11, a21, a31].reverse).newRow.reverse.getD 0 none, (GridGame.slideRow [a02, a12, a22, a32].reverse).newRow.reverse.getD 0 none, (GridGame.slideRow [a03, a13, a23, a33].reverse).newRow.reverse.getD 0 none], [(GridGame.slideRow [a00, a10, a20, a30].reverse).newRow.reverse.getD 1 none, (GridGame.slideRow [a01, a11, a21, a31].reverse).newRow.reverse.getD 1 none, (GridGame.slideRow [a02, a12, a22, a32].reverse).newRow.reverse.getD 1 none, (GridGame.slideRow [a03, a13, a23, a33].reverse).newRow.reverse.getD 1 none], [(GridGame.slideRow [a00, a10, a20, a30].reverse).newRow.reverse.getD 2 none, (GridGame.slideRow [a01, a11, a21, a31].reverse).newRow.reverse.getD 2 none, (GridGame.slideRow [a02, a12, a22, a32].reverse).newRow.reverse.getD 2 none, (GridGame.slideRow [a03, a13, a23, a33].reverse).newRow.reverse.getD 2 none], [(GridGame.slideRow [a00, a10, a20, a30].reverse).newRow.reverse.getD 3 none, (GridGame.slideRow [a01, a11, a21, a31].reverse).newRow.reverse.getD 3 none, (GridGame.slideRow [a02, a12, a22, a32].reverse).newRow.reverse.getD 3 none, (GridGame.slideRow [a03, a13, a23, a33].reverse).newRow.reverse.getD 3 none]],
         (GridGame.slideRow [a00, a10, a20, a30].reverse).score + ((GridGame.slideRow [a01, a11, a21, a31].reverse).score + ((GridGame.slideRow [a02, a12, a22, a32].reverse).score + ((GridGame.slideRow [a03, a13, a23, a33].reverse).score + 0))),
         !(GridGame.gridsEqual [[a00, a01, a02, a03], [a10, a11, a12, a13], [a20, a21, a22, a23], [a30, a31, a32, a33]] [[(GridGame.slideRow [a00, a10, a20, a30].reverse).newRow.reverse.getD 0 none, (GridGame.slideRow [a01, a11, a21, a31].reverse).newRow.reverse.getD 0 none, (GridGame.slideRow [a02, a12, a22, a32].reverse).newRow.reverse.getD 0 none, (GridGame.slideRow [a03, a13, a23, a33].reverse).newRow.reverse.getD 0 none], [(GridGame.slideRow [a00, a10, a20, a30].reverse).newRow.reverse.getD 1 none, (GridGame.slideRow [a01, a11, a21, a31].reverse).newRow.reverse.getD 1 none, (GridGame.slideRow [a02, a12, a22, a32].reverse).newRow.reverse.getD 1 none, (GridGame.slideRow [a03, a13, a23, a33].reverse).newRow.reverse.getD 1 none], [(GridGame.slideRow [a00, a10, a20, a30].reverse).newRow.reverse.getD 2 none, (GridGame.slideRow [a01, a11, a21, a31].reverse).newRow.reverse.getD 2 none, (GridGame.slideRow [a02, a12, a22, a32].reverse).newRow.reverse.getD 2 none, (GridGame.slideRow [a03, a13, a23, a33].reverse).newRow.reverse.getD 2 none], [(GridGame.slideRow [a00, a10, a20, a30].reverse).newRow.reverse.getD 3 none, (GridGame.slideRow [a01, a11, a21, a31].reverse).newRow.reverse.getD 3 none, (GridGame.slideRow [a02, a12, a22, a32].reverse).newRow.reverse.getD 3 none, (GridGame.slideRow [a03, a13, a23, a33].reverse).newRow.reverse.getD 3 none]]),
         ((GridGame.slideRow [a00, a10, a20, a30].reverse).merged || ((GridGame.slideRow [a01, a11, a21, a31].reverse).merged || ((GridGame.slideRow [a02, a12, a22, a32].reverse).merged || ((GridGame.slideRow [a03, a13, a23, a33].reverse).merged || false))))⟩ := by
    rw [hmoveRaw, hrev0, hrev1, hrev2, hrev3]
    rfl
  have hWFg : GridGame.WFdim [[a00, a01, a02, a03], [a10, a11, a12, a13], [a20, a21, a22, a23], [a30, a31, a32, a33]] := by
    refine ⟨rfl, ?_⟩
    intro row hrow
    simp only [List.mem_cons, List.not_mem_nil, or_false] at hrow
    rcases hrow with rfl | rfl | rfl | rfl <;> rfl
  have hWFw : GridGame.WFdim [[(GridGame.slideRow [a00, a10, a20, a30].reverse).newRow.reverse.getD 0 none, (GridGame.slideRow [a01, a11, a21, a31].reverse).newRow.reverse.getD 0 none, (GridGame.slideRow [a02, a12, a22, a32].reverse).newRow.reverse.getD 0 none, (GridGame.slideRow [a03, a13, a23, a33].reverse).newRow.reverse.getD 0 none], [(GridGame.slideRow [a00, a10, a20, a30].reverse).newRow.reverse.getD 1 none, (GridGame.slideRow [a01, a11, a21, a31].reverse).newRow.reverse.getD 1 none, (GridGame.slideRow [a02, a12, a22, a32].reverse).newRow.reverse.getD 1 none, (GridGame.slideRow [a03, a13, a23, a33].reverse).newRow.reverse.getD 1 none], [(GridGame.slideRow [a00, a10, a20, a30].reverse).newRow.reverse.getD 2 none, (GridGame.slideRow [a01, a11, a21, a31].reverse).newRow.reverse.getD 2 none, (GridGame.slideRow [a02, a12, a22, a32].reverse).newRow.reverse.getD 2 none, (GridGame.slideRow [a03, a13, a23, a33].reverse).newRow.reverse.getD 2 none], [(GridGame.slideRow [a00, a10, a20, a30].reverse).newRow.reverse.getD 3 none, (GridGame.slideRow [a01, a11, a21, a31].reverse).newRow.reverse.getD 3 none, (GridGame.slideRow [a02, a12, a22, a32].reverse).newRow.reverse.getD 3 none, (GridGame.slideRow [a03, a13, a23, a33].reverse).newRow.reverse.getD 3 none]] := by
    refine ⟨rfl, ?_⟩
    intro row hrow
    simp only [List.mem_cons, List.not_mem_nil, or_false] at hrow
    rcases hrow with rfl | rfl | rfl | rfl <;> rfl
  have hlist : ([[a00, a01, a02, a03], [a10, a11, a12, a13], [a20, a21, a22, a23], [a30, a31, a32, a33]] = [[(GridGame.slideRow [a00, a10, a20, a30].reverse).newRow.reverse.getD 0 none, (GridGame.slideRow [a01, a11, a21, a31].reverse).newRow.reverse.getD 0 none, (GridGame.slideRow [a02, a12, a22, a32].reverse).newRow.reverse.getD 0 none, (GridGame.slideRow [a03, a13, a23, a33].reverse).newRow.reverse.getD 0 none], [(GridGame.slideRow [a00, a10, a20, a30].reverse).newRow.reverse.getD 1 none, (GridGame.slideRow [a01, a11, a21, a31].reverse).newRow.reverse.getD 1 none, (GridGame.slideRow [a02, a12, a22, a32].reverse).newRow.reverse.getD 1 none, (GridGame.slideRow [a03, a13, a23, a33].reverse).newRow.reverse.getD 1 none], [(GridGame.slideRow [a00, a10, a20, a30].reverse).newRow.reverse.getD 2 none, (GridGame.slideRow [a01, a11, a21, a31].reverse).newRow.reverse.getD 2 none, (GridGame.slideRow [a02, a12, a22, a32].reverse).newRow.reverse.getD 2 none, (GridGame.slideRow [a03, a13, a23, a33].reverse).newRow.reverse.getD 2 none], [(GridGame.slideRow [a00, a10, a20, a30].reverse).newRow.reverse.getD 3 none, (GridGame.slideRow [a01, a11, a21, a31].reverse).newRow.reverse.getD 3 none, (GridGame.slideRow [a02, a12, a22, a32].reverse).newRow.reverse.getD 3 none, (GridGame.slideRow [a03, a13, a23, a33].reverse).newRow.reverse.getD 3 none]]) ↔ ((GridGame.slideRow [a00, a10, a20, a30].reverse).newRow.reverse = [a00, a10, a20, a30] ∧ (GridGame.slideRow [a01, a11, a21, a31].reverse).newRow.reverse = [a01, a11, a21, a31] ∧ (GridGame.slideRow [a02, a12, a22, a32].reverse).newRow.reverse = [a02, a12, a22, a32] ∧ (GridGame.slideRow [a03, a13, a23, a33].reverse).newRow.reverse = [a03, a13, a23, a33]) := by
    constructor
    · intro h
      simp only [List.cons.injEq, and_true] at h
      obtain ⟨⟨q00, q01, q02, q03⟩, ⟨q10, q11, q12, q13⟩, ⟨q20, q21, q22, q23⟩, ⟨q30, q31, q32, q33⟩⟩ := h
      refine ⟨?_, ?_, ?_, ?_⟩
      · rw [Mat.list4_eq none (show ((GridGame.slideRow [a00, a10, a20, a30].reverse).newRow.reverse : List (Option Nat)).length = 4 from (List.length_reverse _).trans (slideRow_newRow_length rfl))]
        rw [← q00, ← q10, ← q20, ← q30]
      · rw [Mat.list4_eq none (show ((GridGame.slideRow [a01, a11, a21, a31].reverse).newRow.reverse : List (Option Nat)).length = 4 from (List.length_reverse _).trans (slideRow_newRow_length rfl))]
        rw [← q01, ← q11, ← q21, ← q31]
      · rw [Mat.list4_eq none (show ((GridGame.slideRow [a02, a12, a22, a32].reverse).newRow.reverse : List (Option Nat)).length = 4 from (List.length_reverse _).trans (slideRow_newRow_length rfl))]
        rw [← q02, ← q12, ← q22, ← q32]
      · rw [Mat.list4_eq none (show ((GridGame.slideRow [a03, a13, a23, a33].reverse).newRow.reverse : List (Option Nat)).length = 4 from (List.length_reverse _).trans (slideRow_newRow_length rfl))]
        rw [← q03, ← q13, ← q23, ← q33]
    · rintro ⟨k0, k1, k2, k3⟩
      rw [k0, k1, k2, k3]
      rfl
  have hg2 : GridGame.gridsEqual [[a00, a01, a02, a03], [a10, a11, a12, a13], [a20, a21, a22, a23], [a30, a31, a32, a33]] [[(GridGame.slideRow [a00, a10, a20, a30].reverse).newRow.reverse.getD 0 none, (GridGame.slideRow [a01, a11, a21, a31].reverse).newRow.reverse.getD 0 none, (GridGame.slideRow [a02, a12, a22, a32].reverse).newRow.reverse.getD 0 none, (GridGame.slideRow [a03, a13, a23, a33].reverse).newRow.reverse.getD 0 none], [(GridGame.slideRow [a00, a10, a20, a30].reverse).newRow.reverse.getD 1 none, (GridGame.slideRow [a01, a11, a21, a31].reverse).newRow.reverse.getD 1 none, (GridGame.slideRow [a02, a12, a22, a32].reverse).newRow.reverse.getD 1 none, (GridGame.slideRow [a03, a13, a23, a33].reverse).newRow.reverse.getD 1 none], [(GridGame.slideRow [a00, a10, a20, a30].reverse).newRow.reverse.getD 2 none, (GridGame.slideRow [a01, a11, a21, a31].reverse).newRow.reverse.getD 2 none, (GridGame.slideRow [a02, a12, a22, a32].reverse).newRow.reverse.getD 2 none, (GridGame.slideRow [a03, a13, a23, a33].reverse).newRow.reverse.getD 2 none], [(GridGame.slideRow [a00, a10, a20, a30].reverse).newRow.reverse.getD 3 none, (GridGame.slideRow [a01, a11, a21, a31].reverse).newRow.reverse.getD 3 none, (GridGame.slideRow [a02, a12, a22, a32].reverse).newRow.reverse.getD 3 none, (GridGame.slideRow [a03, a13, a23, a33].reverse).newRow.reverse.getD 3 none]] = true ↔ ((GridGame.slideRow [a00, a10, a20, a30].reverse).newRow.reverse = [a00, a10, a20, a30] ∧ (GridGame.slideRow [a01, a11, a21, a31].reverse).newRow.reverse = [a01, a11, a21, a31] ∧ (GridGame.slideRow [a02, a12, a22, a32].reverse).newRow.reverse = [a02, a12, a22, a32] ∧ (GridGame.slideRow [a03, a13, a23, a33].reverse).newRow.reverse = [a03, a13, a23, a33]) :=
    (GridGame.gridsEqual_eq hWFg hWFw).trans hlist
  have hiff : (lfold 1 ⟨[a03, a13, a23, a33], [false, false, false, false], (lfold 1 ⟨[a02, a12, a22, a32], [false, false, false, false], (lfold 1 ⟨[a01, a11, a21, a31], [false, false, false, false], (lfold 1 ⟨[a00, a10, a20, a30], [false, false, false, false], 0, false, false⟩ [3, 2, 1, 0]).score, (lfold 1 ⟨[a00, a10, a20, a30], [false, false, false, false], 0, false, false⟩ [3, 2, 1, 0]).anyMoved, (lfold 1 ⟨[a00, a10, a20, a30], [false, false, false, false], 0, false, false⟩ [3, 2, 1, 0]).anyMerged⟩ [3, 2, 1, 0]).score, (lfold 1 ⟨[a01, a11, a21, a31], [false, false, false, false], (lfold 1 ⟨[a00, a10, a20, a30], [false, false, false, false], 0, false, false⟩ [3, 2, 1, 0]).score, (lfold 1 ⟨[a00, a10, a20, a30], [false, false, false, false], 0, false, false⟩ [3, 2, 1, 0]).anyMoved, (lfold 1 ⟨[a00, a10, a20, a30], [false, false, false, false], 0, false, false⟩ [3, 2, 1, 0]).anyMerged⟩ [3, 2, 1, 0]).anyMoved, (lfold 1 ⟨[a01, a11, a21, a31], [false, false, false, false], (lfold 1 ⟨[a00, a10, a20, a30], [false, false, false, false], 0, false, false⟩ [3, 2, 1, 0]).score, (lfold 1 ⟨[a00, a10, a20, a30], [false, false, false, false], 0, false, false⟩ [3, 2, 1, 0]).anyMoved, (lfold 1 ⟨[a00, a10, a20, a30], [false, false, false, false], 0, false, false⟩ [3, 2, 1, 0]).anyMerged⟩ [3, 2, 1, 0]).anyMerged⟩ [3, 2, 1, 0]).score, (lfold 1 ⟨[a02, a12, a22, a32], [false, false, false, false], (lfold 1 ⟨[a01, a11, a21, a31], [false, false, false, false], (lfold 1 ⟨[a00, a10, a20, a30], [false, false, false, false], 0, false, false⟩ [3, 2, 1, 0]).score, (lfold 1 ⟨[a00, a10, a20, a30], [false, false, false, false], 0, false, false⟩ [3, 2, 1, 0]).anyMoved, (lfold 1 ⟨[a00, a10, a20, a30], [false, false, false, false], 0, false, false⟩ [3, 2, 1, 0]).anyMerged⟩ [3, 2, 1, 0]).score, (lfold 1 ⟨[a01, a11, a21, a31], [false, false, false, false], (lfold 1 ⟨[a00, a10, a20, a30], [false, false, false, false], 0, false, false⟩ [3, 2, 1, 0]).score, (lfold 1 ⟨[a00, a10, a20, a30], [false, false, false, false], 0, false, false⟩ [3, 2, 1, 0]).anyMoved, (lfold 1 ⟨[a00, a10, a20, a30], [false, false, false, false], 0, false, false⟩ [3, 2, 1, 0]).anyMerged⟩ [3, 2, 1, 0]).anyMoved, (lfold 1 ⟨[a01, a11, a21, a31], [false, false, false, false], (lfold 1 ⟨[a00, a10, a20, a30], [false, false, false, false], 0, false, false⟩ [3, 2, 1, 0]).score, (lfold 1 ⟨[a00, a10, a20, a30], [false, false, false, false], 0, false, false⟩ [3, 2, 1, 0]).anyMoved, (lfold 1 ⟨[a00, a10, a20, a30], [false, false, false, false], 0, false, false⟩ [3, 2, 1, 0]).anyMerged⟩ [3, 2, 1, 0]).anyMerged⟩ [3, 2, 1, 0]).anyMoved, (lfold 1 ⟨[a02, a12, a22, a32], [false, false, false, false], (lfold 1 ⟨[a01, a11, a21, a31], [false, false, false, false], (lfold 1 ⟨[a00, a10, a20, a30], [false, false, false, false], 0, false, false⟩ [3, 2, 1, 0]).score, (lfold 1 ⟨[a00, a10, a20, a30], [false, false, false, false], 0, false, false⟩ [3, 2, 1, 0]).anyMoved, (lfold 1 ⟨[a00, a10, a20, a30], [false, false, false, false], 0, false, false⟩ [3, 2, 1, 0]).anyMerged⟩ [3, 2, 1, 0]).score, (lfold 1 ⟨[a01, a11, a21, a31], [false, false, false, false], (lfold 1 ⟨[a00, a10, a20, a30], [false, false, false, false], 0, false, false⟩ [3, 2, 1, 0]).score, (lfold 1 ⟨[a00, a10, a20, a30], [false, false, false, false], 0, false, false⟩ [3, 2, 1, 0]).anyMoved, (lfold 1 ⟨[a00, a10, a20, a30], [false, false, false, false], 0, false, false⟩ [3, 2, 1, 0]).anyMerged⟩ [3, 2, 1, 0]).anyMoved, (lfold 1 ⟨[a01, a11, a21, a31], [false, false, false, false], (lfold 1 ⟨[a00, a10, a20, a30], [false, false, false, false], 0, false, false⟩ [3, 2, 1, 0]).score, (lfold 1 ⟨[a00, a10, a20, a30], [false, false, false, false], 0, false, false⟩ [3, 2, 1, 0]).anyMoved, (lfold 1 ⟨[a00, a10, a20, a30], [false, false, false, false], 0, false, false⟩ [3, 2, 1, 0]).anyMerged⟩ [3, 2, 1, 0]).anyMerged⟩ [3, 2, 1, 0]).anyMerged⟩ [3, 2, 1, 0]).anyMoved = true ↔ ¬((GridGame.slideRow [a00, a10, a20, a30].reverse).newRow.reverse = [a00, a10, a20, a30] ∧ (GridGame.slideRow [a01, a11, a21, a31].reverse).newRow.reverse = [a01, a11, a21, a31] ∧ (GridGame.slideRow [a02, a12, a22, a32].reverse).newRow.reverse = [a02, a12, a22, a32] ∧ (GridGame.slideRow [a03, a13, a23, a33].reverse).newRow.reverse = [a03, a13, a23, a33]) := by
    rw [e3.2.2.2, e2.2.2.2, e1.2.2.2, e0.2.2.2]
    simp only [Bool.false_eq_true, false_or, ne_eq]
    constructor
    · rintro (((h | h) | h) | h) hc
      · exact h hc.1
      · exact h hc.2.1
      · exact h hc.2.2.1
      · exact h hc.2.2.2
    · intro hc
      by_cases k0 : (GridGame.slideRow [a00, a10, a20, a30].reverse).newRow.reverse = [a00, a10, a20, a30]
      · by_cases k1 : (GridGame.slideRow [a01, a11, a21, a31].reverse).newRow.reverse = [a01, a11, a21, a31]
        · by_cases k2 : (GridGame.slideRow [a02, a12, a22, a32].reverse).newRow.reverse = [a02, a12, a22, a32]
          · by_cases k3 : (GridGame.slideRow [a03, a13, a23, a33].reverse).newRow.reverse = [a03, a13, a23, a33]
            · exact absurd ⟨k0, k1, k2, k3⟩ hc
            · exact Or.inr k3
          · exact Or.inl (Or.inr k2)
        · exact Or.inl (Or.inl (Or.inr k1))
      · exact Or.inl (Or.inl (Or.inl k0))
  refine ⟨?_, ?_, ?_, ?_⟩
  · rw [hfold, hmove]
    show (Mat.setCol (Mat.setCol (Mat.setCol (Mat.setCol [[a00, a01, a02, a03], [a10, a11, a12, a13], [a20, a21, a22, a23], [a30, a31, a32, a33]] none 0 (lfold 1 ⟨[a00, a10, a20, a30], [false, false, false, false], 0, false, false⟩ [3, 2, 1, 0]).line) none 1 (lfold 1 ⟨[a01, a11, a21, a31], [false, false, false, false], (lfold 1 ⟨[a00, a10, a20, a30], [false, false, false, false], 0, false, false⟩ [3, 2, 1, 0]).score, (lfold 1 ⟨[a00, a10, a20, a30], [false, false, false, false], 0, false, false⟩ [3, 2, 1, 0]).anyMoved, (lfold 1 ⟨[a00, a10, a20, a30], [false, false, false, false], 0, false, false⟩ [3, 2, 1, 0]).anyMerged⟩ [3, 2, 1, 0]).line) none 2 (lfold 1 ⟨[a02, a12, a22, a32], [false, false, false, false], (lfold 1 ⟨[a01, a11, a21, a31], [false, false, false, false], (lfold 1 ⟨[a00, a10, a20, a30], [false, false, false, false], 0, false, false⟩ [3, 2, 1, 0]).score, (lfold 1 ⟨[a00, a10, a20, a30], [false, false, false, false], 0, false, false⟩ [3, 2, 1, 0]).anyMoved, (lfold 1 ⟨[a00, a10, a20, a30], [false, false, false, false], 0, false, false⟩ [3, 2, 1, 0]).anyMerged⟩ [3, 2, 1, 0]).score, (lfold 1 ⟨[a01, a11, a21, a31], [false, false, false, false], (lfold 1 ⟨[a00, a10, a20, a30], [false, false, false, false], 0, false, false⟩ [3, 2, 1, 0]).score, (lfold 1 ⟨[a00, a10, a20, a30], [false, false, false, false], 0, false, false⟩ [3, 2, 1, 0]).anyMoved, (lfold 1 ⟨[a00, a10, a20, a30], [false, false, false, false], 0, false, false⟩ [3, 2, 1, 0]).anyMerged⟩ [3, 2, 1, 0]).anyMoved, (lfold 1 ⟨[a01, a11, a21, a31], [false, false, false, false], (lfold 1 ⟨[a00, a10, a20, a30], [false, false, false, false], 0, false, false⟩ [3, 2, 1, 0]).score, (lfold 1 ⟨[a00, a10, a20, a30], [false, false, false, false], 0, false, false⟩ [3, 2, 1, 0]).anyMoved, (lfold 1 ⟨[a00, a10, a20, a30], [false, false, false, false], 0, false, false⟩ [3, 2, 1, 0]).anyMerged⟩ [3, 2, 1, 0]).anyMerged⟩ [3, 2, 1, 0]).line) none 3 (lfold 1 ⟨[a03, a13, a23, a33], [false, false, false, false], (lfold 1 ⟨[a02, a12, a22, a32], [false, false, false, false], (lfold 1 ⟨[a01, a11, a21, a31], [false, false, false, false], (lfold 1 ⟨[a00, a10, a20, a30], [false, false, false, false], 0, false, false⟩ [3, 2, 1, 0]).score, (lfold 1 ⟨[a00, a10, a20, a30], [false, false, false, false], 0, false, false⟩ [3, 2, 1, 0]).anyMoved, (lfold 1 ⟨[a00, a10, a20, a30], [false, false, false, false], 0, false, false⟩ [3, 2, 1, 0]).anyMerged⟩ [3, 2, 1, 0]).score, (lfold 1 ⟨[a01, a11, a21, a31], [false, false, false, false], (lfold 1 ⟨[a00, a10, a20, a30], [false, false, false, false], 0, false, false⟩ [3, 2, 1, 0]).score, (lfold 1 ⟨[a00, a10, a20, a30], [false, false, false, false], 0, false, false⟩ [3, 2, 1, 0]).anyMoved, (lfold 1 ⟨[a00, a10, a20, a30], [false, false, false, false], 0, false, false⟩ [3, 2, 1, 0]).anyMerged⟩ [3, 2, 1, 0]).anyMoved, (lfold 1 ⟨[a01, a11, a21, a31], [false, false, false, false], (lfold 1 ⟨[a00, a10, a20, a30], [false, false, false, false], 0, false, false⟩ [3, 2, 1, 0]).score, (lfold 1 ⟨[a00, a10, a20, a30], [false, false, false, false], 0, false, false⟩ [3, 2, 1, 0]).anyMoved, (lfold 1 ⟨[a00, a10, a20, a30], [false, false, false, false], 0, false, false⟩ [3, 2, 1, 0]).anyMerged⟩ [3, 2, 1, 0]).anyMerged⟩ [3, 2, 1, 0]).score, (lfold 1 ⟨[a02, a12, a22, a32], [false, false, false, false], (lfold 1 ⟨[a01, a11, a21, a31], [false, false, false, false], (lfold 1 ⟨[a00, a10, a20, a30], [false, false, false, false], 0, false, false⟩ [3, 2, 1, 0]).score, (lfold 1 ⟨[a00, a10, a20, a30], [false, false, false, false], 0, false, false⟩ [3, 2, 1, 0]).anyMoved, (lfold 1 ⟨[a00, a10, a20, a30], [false, false, false, false], 0, false, false⟩ [3, 2, 1, 0]).anyMerged⟩ [3, 2, 1, 0]).score, (lfold 1 ⟨[a01, a11, a21, a31], [false, false, false, false], (lfold 1 ⟨[a00, a10, a20, a30], [false, false, false, false], 0, false, false⟩ [3, 2, 1, 0]).score, (lfold 1 ⟨[a00, a10, a20, a30], [false, false, false, false], 0, false, false⟩ [3, 2, 1, 0]).anyMoved, (lfold 1 ⟨[a00, a10, a20, a30], [false, false, false, false], 0, false, false⟩ [3, 2, 1, 0]).anyMerged⟩ [3, 2, 1, 0]).anyMoved, (lfold 1 ⟨[a01, a11, a21, a31], [false, false, false, false], (lfold 1 ⟨[a00, a10, a20, a30], [false, false, false, false], 0, false, false⟩ [3, 2, 1, 0]).score, (lfold 1 ⟨[a00, a10, a20, a30], [false, false, false, false], 0, false, false⟩ [3, 2, 1, 0]).anyMoved, (lfold 1 ⟨[a00, a10, a20, a30], [false, false, false, false], 0, false, false⟩ [3, 2, 1, 0]).anyMerged⟩ [3, 2, 1, 0]).anyMerged⟩ [3, 2, 1, 0]).anyMoved, (lfold 1 ⟨[a02, a12, a22, a32], [false, false, false, false], (lfold 1 ⟨[a01, a11, a21, a31], [false, false, false, false], (lfold 1 ⟨[a00, a10, a20, a30], [false, false, false, false], 0, false, false⟩ [3, 2, 1, 0]).score, (lfold 1 ⟨[a00, a10, a20, a30], [false, false, false, false], 0, false, false⟩ [3, 2, 1, 0]).anyMoved, (lfold 1 ⟨[a00, a10, a20, a30], [false, false, false, false], 0, false, false⟩ [3, 2, 1, 0]).anyMerged⟩ [3, 2, 1, 0]).score, (lfold 1 ⟨[a01, a11, a21, a31], [false, false, false, false], (lfold 1 ⟨[a00, a10, a20, a30], [false, false, false, false], 0, false, false⟩ [3, 2, 1, 0]).score, (lfold 1 ⟨[a00, a10, a20, a30], [false, false, false, false], 0, false, false⟩ [3, 2, 1, 0]).anyMoved, (lfold 1 ⟨[a00, a10, a20, a30], [false, false, false, false], 0, false, false⟩ [3, 2, 1, 0]).anyMerged⟩ [3, 2, 1, 0]).anyMoved, (lfold 1 ⟨[a01, a11, a21, a31], [false, false, false, false], (lfold 1 ⟨[a00, a10, a20, a30], [false, false, false, false], 0, false, false⟩ [3, 2, 1, 0]).score, (lfold 1 ⟨[a00, a10, a20, a30], [false, false, false, false], 0, false, false⟩ [3, 2, 1, 0]).anyMoved, (lfold 1 ⟨[a00, a10, a20, a30], [false, false, false, false], 0, false, false⟩ [3, 2, 1, 0]).anyMerged⟩ [3, 2, 1, 0]).anyMerged⟩ [3, 2, 1, 0]).anyMerged⟩ [3, 2, 1, 0]).line) = _
    rw [e0.1, e1.1, e2.1, e3.1]
    rw [Mat.setCol_all none wg0 (show ((GridGame.slideRow [a00, a10, a20, a30].reverse).newRow.reverse : List (Option Nat)).length = 4 from (List.length_reverse _).trans (slideRow_newRow_length rfl)) (show ((GridGame.slideRow [a01, a11, a21, a31].reverse).newRow.reverse : List (Option Nat)).length = 4 from (List.length_reverse _).trans (slideRow_newRow_length rfl)) (show ((GridGame.slideRow [a02, a12, a22, a32].reverse).newRow.reverse : List (Option Nat)).length = 4 from (List.length_reverse _).trans (slideRow_newRow_length rfl)) (show ((GridGame.slideRow [a03, a13, a23, a33].reverse).newRow.reverse : List (Option Nat)).length = 4 from (List.length_reverse _).trans (slideRow_newRow_length rfl))]
  · rw [hfold, hmove]
    show (lfold 1 ⟨[a03, a13, a23, a33], [false, false, false, false], (lfold 1 ⟨[a02, a12, a22, a32], [false, false, false, false], (lfold 1 ⟨[a01, a11, a21, a31], [false, false, false, false], (lfold 1 ⟨[a00, a10, a20, a30], [false, false, false, false], 0, false, false⟩ [3, 2, 1, 0]).score, (lfold 1 ⟨[a00, a10, a20, a30], [false, false, false, false], 0, false, false⟩ [3, 2, 1, 0]).anyMoved, (lfold 1 ⟨[a00, a10, a20, a30], [false, false, false, false], 0, false, false⟩ [3, 2, 1, 0]).anyMerged⟩ [3, 2, 1, 0]).score, (lfold 1 ⟨[a01, a11, a21, a31], [false, false, false, false], (lfold 1 ⟨[a00, a10, a20, a30], [false, false, false, false], 0, false, false⟩ [3, 2, 1, 0]).score, (lfold 1 ⟨[a00, a10, a20, a30], [false, false, false, false], 0, false, false⟩ [3, 2, 1, 0]).anyMoved, (lfold 1 ⟨[a00, a10, a20, a30], [false, false, false, false], 0, false, false⟩ [3, 2, 1, 0]).anyMerged⟩ [3, 2, 1, 0]).anyMoved, (lfold 1 ⟨[a01, a11, a21, a31], [false, false, false, false], (lfold 1 ⟨[a00, a10, a20, a30], [false, false, false, false], 0, false, false⟩ [3, 2, 1, 0]).score, (lfold 1 ⟨[a00, a10, a20, a30], [false, false, false, false], 0, false, false⟩ [3, 2, 1, 0]).anyMoved, (lfold 1 ⟨[a00, a10, a20, a30], [false, false, false, false], 0, false, false⟩ [3, 2, 1, 0]).anyMerged⟩ [3, 2, 1, 0]).anyMerged⟩ [3, 2, 1, 0]).score, (lfold 1 ⟨[a02, a12, a22, a32], [false, false, false, false], (lfold 1 ⟨[a01, a11, a21, a31], [false, false, false, false], (lfold 1 ⟨[a00, a10, a20, a30], [false, false, false, false], 0, false, false⟩ [3, 2, 1, 0]).score, (lfold 1 ⟨[a00, a10, a20, a30], [false, false, false, false], 0, false, false⟩ [3, 2, 1, 0]).anyMoved, (lfold 1 ⟨[a00, a10, a20, a30], [false, false, false, false], 0, false, false⟩ [3, 2, 1, 0]).anyMerged⟩ [3, 2, 1, 0]).score, (lfold 1 ⟨[a01, a11, a21, a31], [false, false, false, false], (lfold 1 ⟨[a00, a10, a20, a30], [false, false, false, false], 0, false, false⟩ [3, 2, 1, 0]).score, (lfold 1 ⟨[a00, a10, a20, a30], [false, false, false, false], 0, false, false⟩ [3, 2, 1, 0]).anyMoved, (lfold 1 ⟨[a00, a10, a20, a30], [false, false, false, false], 0, false, false⟩ [3, 2, 1, 0]).anyMerged⟩ [3, 2, 1, 0]).anyMoved, (lfold 1 ⟨[a01, a11, a21, a31], [false, false, false, false], (lfold 1 ⟨[a00, a10, a20, a30], [false, false, false, false], 0, false, false⟩ [3, 2, 1, 0]).score, (lfold 1 ⟨[a00, a10, a20, a30], [false, false, false, false], 0, false, false⟩ [3, 2, 1, 0]).anyMoved, (lfold 1 ⟨[a00, a10, a20, a30], [false, false, false, false], 0, false, false⟩ [3, 2, 1, 0]).anyMerged⟩ [3, 2, 1, 0]).anyMerged⟩ [3, 2, 1, 0]).anyMoved, (lfold 1 ⟨[a02, a12, a22, a32], [false, false, false, false], (lfold 1 ⟨[a01, a11, a21, a31], [false, false, false, false], (lfold 1 ⟨[a00, a10, a20, a30], [false, false, false, false], 0, false, false⟩ [3, 2, 1, 0]).score, (lfold 1 ⟨[a00, a10, a20, a30], [false, false, false, false], 0, false, false⟩ [3, 2, 1, 0]).anyMoved, (lfold 1 ⟨[a00, a10, a20, a30], [false, false, false, false], 0, false, false⟩ [3, 2, 1, 0]).anyMerged⟩ [3, 2, 1, 0]).score, (lfold 1 ⟨[a01, a11, a21, a31], [false, false, false, false], (lfold 1 ⟨[a00, a10, a20, a30], [false, false, false, false], 0, false, false⟩ [3, 2, 1, 0]).score, (lfold 1 ⟨[a00, a10, a20, a30], [false, false, false, false], 0, false, false⟩ [3, 2, 1, 0]).anyMoved, (lfold 1 ⟨[a00, a10, a20, a30], [false, false, false, false], 0, false, false⟩ [3, 2, 1, 0]).anyMerged⟩ [3, 2, 1, 0]).anyMoved, (lfold 1 ⟨[a01, a11, a21, a31], [false, false, false, false], (lfold 1 ⟨[a00, a10, a20, a30], [false, false, false, false], 0, false, false⟩ [3, 2, 1, 0]).score, (lfold 1 ⟨[a00, a10, a20, a30], [false, false, false, false], 0, false, false⟩ [3, 2, 1, 0]).anyMoved, (lfold 1 ⟨[a00, a10, a20, a30], [false, false, false, false], 0, false, false⟩ [3, 2, 1, 0]).anyMerged⟩ [3, 2, 1, 0]).anyMerged⟩ [3, 2, 1, 0]).anyMerged⟩ [3, 2, 1, 0]).score = (GridGame.slideRow [a00, a10, a20, a30].reverse).score + ((GridGame.slideRow [a01, a11, a21, a31].reverse).score + ((GridGame.slideRow [a02, a12, a22, a32].reverse).score + ((GridGame.slideRow [a03, a13, a23, a33].reverse).score + 0)))
    rw [e3.2.1, e2.2.1, e1.2.1, e0.2.1]
    omega
  · rw [hfold, hmove]
    show (lfold 1 ⟨[a03, a13, a23, a33], [false, false, false, false], (lfold 1 ⟨[a02, a12, a22, a32], [false, false, false, false], (lfold 1 ⟨[a01, a11, a21, a31], [false, false, false, false], (lfold 1 ⟨[a00, a10, a20, a30], [false, false, false, false], 0, false, false⟩ [3, 2, 1, 0]).score, (lfold 1 ⟨[a00, a10, a20, a30], [false, false, false, false], 0, false, false⟩ [3, 2, 1, 0]).anyMoved, (lfold 1 ⟨[a00, a10, a20, a30], [false, false, false, false], 0, false, false⟩ [3, 2, 1, 0]).anyMerged⟩ [3, 2, 1, 0]).score, (lfold 1 ⟨[a01, a11, a21, a31], [false, false, false, false], (lfold 1 ⟨[a00, a10, a20, a30], [false, false, false, false], 0, false, false⟩ [3, 2, 1, 0]).score, (lfold 1 ⟨[a00, a10, a20, a30], [false, false, false, false], 0, false, false⟩ [3, 2, 1, 0]).anyMoved, (lfold 1 ⟨[a00, a10, a20, a30], [false, false, false, false], 0, false, false⟩ [3, 2, 1, 0]).anyMerged⟩ [3, 2, 1, 0]).anyMoved, (lfold 1 ⟨[a01, a11, a21, a31], [false, false, false, false], (lfold 1 ⟨[a00, a10, a20, a30], [false, false, false, false], 0, false, false⟩ [3, 2, 1, 0]).score, (lfold 1 ⟨[a00, a10, a20, a30], [false, false, false, false], 0, false, false⟩ [3, 2, 1, 0]).anyMoved, (lfold 1 ⟨[a00, a10, a20, a30], [false, false, false, false], 0, false, false⟩ [3, 2, 1, 0]).anyMerged⟩ [3, 2, 1, 0]).anyMerged⟩ [3, 2, 1, 0]).score, (lfold 1 ⟨[a02, a12, a22, a32], [false, false, false, false], (lfold 1 ⟨[a01, a11, a21, a31], [false, false, false, false], (lfold 1 ⟨[a00, a10, a20, a30], [false, false, false, false], 0, false, false⟩ [3, 2, 1, 0]).score, (lfold 1 ⟨[a00, a10, a20, a30], [false, false, false, false], 0, false, false⟩ [3, 2, 1, 0]).anyMoved, (lfold 1 ⟨[a00, a10, a20, a30], [false, false, false, false], 0, false, false⟩ [3, 2, 1, 0]).anyMerged⟩ [3, 2, 1, 0]).score, (lfold 1 ⟨[a01, a11, a21, a31], [false, false, false, false], (lfold 1 ⟨[a00, a10, a20, a30], [false, false, false, false], 0, false, false⟩ [3, 2, 1, 0]).score, (lfold 1 ⟨[a00, a10, a20, a30], [false, false, false, false], 0, false, false⟩ [3, 2, 1, 0]).anyMoved, (lfold 1 ⟨[a00, a10, a20, a30], [false, false, false, false], 0, false, false⟩ [3, 2, 1, 0]).anyMerged⟩ [3, 2, 1, 0]).anyMoved, (lfold 1 ⟨[a01, a11, a21, a31], [false, false, false, false], (lfold 1 ⟨[a00, a10, a20, a30], [false, false, false, false], 0, false, false⟩ [3, 2, 1, 0]).score, (lfold 1 ⟨[a00, a10, a20, a30], [false, false, false, false], 0, false, false⟩ [3, 2, 1, 0]).anyMoved, (lfold 1 ⟨[a00, a10, a20, a30], [false, false, false, false], 0, false, false⟩ [3, 2, 1, 0]).anyMerged⟩ [3, 2, 1, 0]).anyMerged⟩ [3, 2, 1, 0]).anyMoved, (lfold 1 ⟨[a02, a12, a22, a32], [false, false, false, false], (lfold 1 ⟨[a01, a11, a21, a31], [false, false, false, false], (lfold 1 ⟨[a00, a10, a20, a30], [false, false, false, false], 0, false, false⟩ [3, 2, 1, 0]).score, (lfold 1 ⟨[a00, a10, a20, a30], [false, false, false, false], 0, false, false⟩ [3, 2, 1, 0]).anyMoved, (lfold 1 ⟨[a00, a10, a20, a30], [false, false, false, false], 0, false, false⟩ [3, 2, 1, 0]).anyMerged⟩ [3, 2, 1, 0]).score, (lfold 1 ⟨[a01, a11, a21, a31], [false, false, false, false], (lfold 1 ⟨[a00, a10, a20, a30], [false, false, false, false], 0, false, false⟩ [3, 2, 1, 0]).score, (lfold 1 ⟨[a00, a10, a20, a30], [false, false, false, false], 0, false, false⟩ [3, 2, 1, 0]).anyMoved, (lfold 1 ⟨[a00, a10, a20, a30], [false, false, false, false], 0, false, false⟩ [3, 2, 1, 0]).anyMerged⟩ [3, 2, 1, 0]).anyMoved, (lfold 1 ⟨[a01, a11, a21, a31], [false, false, false, false], (lfold 1 ⟨[a00, a10, a20, a30], [false, false, false, false], 0, false, false⟩ [3, 2, 1, 0]).score, (lfold 1 ⟨[a00, a10, a20, a30], [false, false, false, false], 0, false, false⟩ [3, 2, 1, 0]).anyMoved, (lfold 1 ⟨[a00, a10, a20, a30], [false, false, false, false], 0, false, false⟩ [3, 2, 1, 0]).anyMerged⟩ [3, 2, 1, 0]).anyMerged⟩ [3, 2, 1, 0]).anyMerged⟩ [3, 2, 1, 0]).anyMoved = !(GridGame.gridsEqual [[a00, a01, a02, a03], [a10, a11, a12, a13], [a20, a21, a22, a23], [a30, a31, a32, a33]] [[(GridGame.slideRow [a00, a10, a20, a30].reverse).newRow.reverse.getD 0 none, (GridGame.slideRow [a01, a11, a21, a31].reverse).newRow.reverse.getD 0 none, (GridGame.slideRow [a02, a12, a22, a32].reverse).newRow.reverse.getD 0 none, (GridGame.slideRow [a03, a13, a23, a33].reverse).newRow.reverse.getD 0 none], [(GridGame.slideRow [a00, a10, a20, a30].reverse).newRow.reverse.getD 1 none, (GridGame.slideRow [a01, a11, a21, a31].reverse).newRow.reverse.getD 1 none, (GridGame.slideRow [a02, a12, a22, a32].reverse).newRow.reverse.getD 1 none, (GridGame.slideRow [a03, a13, a23, a33].reverse).newRow.reverse.getD 1 none], [(GridGame.slideRow [a00, a10, a20, a30].reverse).newRow.reverse.getD 2 none, (GridGame.slideRow [a01, a11, a21, a31].reverse).newRow.reverse.getD 2 none, (GridGame.slideRow [a02, a12, a22, a32].reverse).newRow.reverse.getD 2 none, (GridGame.slideRow [a03, a13, a23, a33].reverse).newRow.reverse.getD 2 none], [(GridGame.slideRow [a00, a10, a20, a30].reverse).newRow.reverse.getD 3 none, (GridGame.slideRow [a01, a11, a21, a31].reverse).newRow.reverse.getD 3 none, (GridGame.slideRow [a02, a12, a22, a32].reverse).newRow.reverse.getD 3 none, (GridGame.slideRow [a03, a13, a23, a33].reverse).newRow.reverse.getD 3 none]])
    cases hGE : GridGame.gridsEqual [[a00, a01, a02, a03], [a10, a11, a12, a13], [a20, a21, a22, a23], [a30, a31, a32, a33]] [[(GridGame.slideRow [a00, a10, a20, a30].reverse).newRow.reverse.getD 0 none, (GridGame.slideRow [a01, a11, a21, a31].reverse).newRow.reverse.getD 0 none, (GridGame.slideRow [a02, a12, a22, a32].reverse).newRow.reverse.getD 0 none, (GridGame.slideRow [a03, a13, a23, a33].reverse).newRow.reverse.getD 0 none], [(GridGame.slideRow [a00, a10, a20, a30].reverse).newRow.reverse.getD 1 none, (GridGame.slideRow [a01, a11, a21, a31].reverse).newRow.reverse.getD 1 none, (GridGame.slideRow [a02, a12, a22, a32].reverse).newRow.reverse.getD 1 none, (GridGame.slideRow [a03, a13, a23, a33].reverse).newRow.reverse.getD 1 none], [(GridGame.slideRow [a00, a10, a20, a30].reverse).newRow.reverse.getD 2 none, (GridGame.slideRow [a01, a11, a21, a31].reverse).newRow.reverse.getD 2 none, (GridGame.slideRow [a02, a12, a22, a32].reverse).newRow.reverse.getD 2 none, (GridGame.slideRow [a03, a13, a23, a33].reverse).newRow.reverse.getD 2 none], [(GridGame.slideRow [a00, a10, a20, a30].reverse).newRow.reverse.getD 3 none, (GridGame.slideRow [a01, a11, a21, a31].reverse).newRow.reverse.getD 3 none, (GridGame.slideRow [a02, a12, a22, a32].reverse).newRow.reverse.getD 3 none, (GridGame.slideRow [a03, a13, a23, a33].reverse).newRow.reverse.getD 3 none]] with
    | true =>
      have hc := hg2.mp hGE
      have hnt : ¬((lfold 1 ⟨[a03, a13, a23, a33], [false, false, false, false], (lfold 1 ⟨[a02, a12, a22, a32], [false, false, false, false], (lfold 1 ⟨[a01, a11, a21, a31], [false, false, false, false], (lfold 1 ⟨[a00, a10, a20, a30], [false, false, false, false], 0, false, false⟩ [3, 2, 1, 0]).score, (lfold 1 ⟨[a00, a10, a20, a30], [false, false, false, false], 0, false, false⟩ [3, 2, 1, 0]).anyMoved, (lfold 1 ⟨[a00, a10, a20, a30], [false, false, false, false], 0, false, false⟩ [3, 2, 1, 0]).anyMerged⟩ [3, 2, 1, 0]).score, (lfold 1 ⟨[a01, a11, a21, a31], [false, false, false, false], (lfold 1 ⟨[a00, a10, a20, a30], [false, false, false, false], 0, false, false⟩ [3, 2, 1, 0]).score, (lfold 1 ⟨[a00, a10, a20, a30], [false, false, false, false], 0, false, false⟩ [3, 2, 1, 0]).anyMoved, (lfold 1 ⟨[a00, a10, a20, a30], [false, false, false, false], 0, false, false⟩ [3, 2, 1, 0]).anyMerged⟩ [3, 2, 1, 0]).anyMoved, (lfold 1 ⟨[a01, a11, a21, a31], [false, false, false, false], (lfold 1 ⟨[a00, a10, a20, a30], [false, false, false, false], 0, false, false⟩ [3, 2, 1, 0]).score, (lfold 1 ⟨[a00, a10, a20, a30], [false, false, false, false], 0, false, false⟩ [3, 2, 1, 0]).anyMoved, (lfold 1 ⟨[a00, a10, a20, a30], [false, false, false, false], 0, false, false⟩ [3, 2, 1, 0]).anyMerged⟩ [3, 2, 1, 0]).anyMerged⟩ [3, 2, 1, 0]).score, (lfold 1 ⟨[a02, a12, a22, a32], [false, false, false, false], (lfold 1 ⟨[a01, a11, a21, a31], [false, false, false, false], (lfold 1 ⟨[a00, a10, a20, a30], [false, false, false, false], 0, false, false⟩ [3, 2, 1, 0]).score, (lfold 1 ⟨[a00, a10, a20, a30], [false, false, false, false], 0, false, false⟩ [3, 2, 1, 0]).anyMoved, (lfold 1 ⟨[a00, a10, a20, a30], [false, false, false, false], 0, false, false⟩ [3, 2, 1, 0]).anyMerged⟩ [3, 2, 1, 0]).score, (lfold 1 ⟨[a01, a11, a21, a31], [false, false, false, false], (lfold 1 ⟨[a00, a10, a20, a30], [false, false, false, false], 0, false, false⟩ [3, 2, 1, 0]).score, (lfold 1 ⟨[a00, a10, a20, a30], [false, false, false, false], 0, false, false⟩ [3, 2, 1, 0]).anyMoved, (lfold 1 ⟨[a00, a10, a20, a30], [false, false, false, false], 0, false, false⟩ [3, 2, 1, 0]).anyMerged⟩ [3, 2, 1, 0]).anyMoved, (lfold 1 ⟨[a01, a11, a21, a31], [false, false, false, false], (lfold 1 ⟨[a00, a10, a20, a30], [false, false, false, false], 0, false, false⟩ [3, 2, 1, 0]).score, (lfold 1 ⟨[a00, a10, a20, a30], [false, false, false, false], 0, false, false⟩ [3, 2, 1, 0]).anyMoved, (lfold 1 ⟨[a00, a10, a20, a30], [false, false, false, false], 0, false, false⟩ [3, 2, 1, 0]).anyMerged⟩ [3, 2, 1, 0]).anyMerged⟩ [3, 2, 1, 0]).anyMoved, (lfold 1 ⟨[a02, a12, a22, a32], [false, false, false, false], (lfold 1 ⟨[a01, a11, a21, a31], [false, false, false, false], (lfold 1 ⟨[a00, a10, a20, a30], [false, false, false, false], 0, false, false⟩ [3, 2, 1, 0]).score, (lfold 1 ⟨[a00, a10, a20, a30], [false, false, false, false], 0, false, false⟩ [3, 2, 1, 0]).anyMoved, (lfold 1 ⟨[a00, a10, a20, a30], [false, false, false, false], 0, false, false⟩ [3, 2, 1, 0]).anyMerged⟩ [3, 2, 1, 0]).score, (lfold 1 ⟨[a01, a11, a21, a31], [false, false, false, false], (lfold 1 ⟨[a00, a10, a20, a30], [false, false, false, false], 0, false, false⟩ [3, 2, 1, 0]).score, (lfold 1 ⟨[a00, a10, a20, a30], [false, false, false, false], 0, false, false⟩ [3, 2, 1, 0]).anyMoved, (lfold 1 ⟨[a00, a10, a20, a30], [false, false, false, false], 0, false, false⟩ [3, 2, 1, 0]).anyMerged⟩ [3, 2, 1, 0]).anyMoved, (lfold 1 ⟨[a01, a11, a21, a31], [false, false, false, false], (lfold 1 ⟨[a00, a10, a20, a30], [false, false, false, false], 0, false, false⟩ [3, 2, 1, 0]).score, (lfold 1 ⟨[a00, a10, a20, a30], [false, false, false, false], 0, false, false⟩ [3, 2, 1, 0]).anyMoved, (lfold 1 ⟨[a00, a10, a20, a30], [false, false, false, false], 0, false, false⟩ [3, 2, 1, 0]).anyMerged⟩ [3, 2, 1, 0]).anyMerged⟩ [3, 2, 1, 0]).anyMerged⟩ [3, 2, 1, 0]).anyMoved = true) := fun h => (hiff.mp h) hc
      rw [Bool.eq_false_iff.mpr hnt]
      rfl
    | false =>
      have hc : ¬((GridGame.slideRow [a00, a10, a20, a30].reverse).newRow.reverse = [a00, a10, a20, a30] ∧ (GridGame.slideRow [a01, a11, a21, a31].reverse).newRow.reverse = [a01, a11, a21, a31] ∧ (GridGame.slideRow [a02, a12, a22, a32].reverse).newRow.reverse = [a02, a12, a22, a32] ∧ (GridGame.slideRow [a03, a13, a23, a33].reverse).newRow.reverse = [a03, a13, a23, a33]) := fun h => by
        have := hg2.mpr h
        rw [hGE] at this
        exact Bool.noConfusion this
      rw [hiff.mpr hc]
      rfl
  · rw [hfold, hmove]
    show (lfold 1 ⟨[a03, a13, a23, a33], [false, false, false, false], (lfold 1 ⟨[a02, a12, a22, a32], [false, false, false, false], (lfold 1 ⟨[a01, a11, a21, a31], [false, false, false, false], (lfold 1 ⟨[a00, a10, a20, a30], [false, false, false, false], 0, false, false⟩ [3, 2, 1, 0]).score, (lfold 1 ⟨[a00, a10, a20, a30], [false, false, false, false], 0, false, false⟩ [3, 2, 1, 0]).anyMoved, (lfold 1 ⟨[a00, a10, a20, a30], [false, false, false, false], 0, false, false⟩ [3, 2, 1, 0]).anyMerged⟩ [3, 2, 1, 0]).score, (lfold 1 ⟨[a01, a11, a21, a31], [false, false, false, false], (lfold 1 ⟨[a00, a10, a20, a30], [false, false, false, false], 0, false, false⟩ [3, 2, 1, 0]).score, (lfold 1 ⟨[a00, a10, a20, a30], [false, false, false, false], 0, false, false⟩ [3, 2, 1, 0]).anyMoved, (lfold 1 ⟨[a00, a10, a20, a30], [false, false, false, false], 0, false, false⟩ [3, 2, 1, 0]).anyMerged⟩ [3, 2, 1, 0]).anyMoved, (lfold 1 ⟨[a01, a11, a21, a31], [false, false, false, false], (lfold 1 ⟨[a00, a10, a20, a30], [false, false, false, false], 0, false, false⟩ [3, 2, 1, 0]).score, (lfold 1 ⟨[a00, a10, a20, a30], [false, false, false, false], 0, false, false⟩ [3, 2, 1, 0]).anyMoved, (lfold 1 ⟨[a00, a10, a20, a30], [false, false, false, false], 0, false, false⟩ [3, 2, 1, 0]).anyMerged⟩ [3, 2, 1, 0]).anyMerged⟩ [3, 2, 1, 0]).score, (lfold 1 ⟨[a02, a12, a22, a32], [false, false, false, false], (lfold 1 ⟨[a01, a11, a21, a31], [false, false, false, false], (lfold 1 ⟨[a00, a10, a20, a30], [false, false, false, false], 0, false, false⟩ [3, 2, 1, 0]).score, (lfold 1 ⟨[a00, a10, a20, a30], [false, false, false, false], 0, false, false⟩ [3, 2, 1, 0]).anyMoved, (lfold 1 ⟨[a00, a10, a20, a30], [false, false, false, false], 0, false, false⟩ [3, 2, 1, 0]).anyMerged⟩ [3, 2, 1, 0]).score, (lfold 1 ⟨[a01, a11, a21, a31], [false, false, false, false], (lfold 1 ⟨[a00, a10, a20, a30], [false, false, false, false], 0, false, false⟩ [3, 2, 1, 0]).score, (lfold 1 ⟨[a00, a10, a20, a30], [false, false, false, false], 0, false, false⟩ [3, 2, 1, 0]).anyMoved, (lfold 1 ⟨[a00, a10, a20, a30], [false, false, false, false], 0, false, false⟩ [3, 2, 1, 0]).anyMerged⟩ [3, 2, 1, 0]).anyMoved, (lfold 1 ⟨[a01, a11, a21, a31], [false, false, false, false], (lfold 1 ⟨[a00, a10, a20, a30], [false, false, false, false], 0, false, false⟩ [3, 2, 1, 0]).score, (lfold 1 ⟨[a00, a10, a20, a30], [false, false, false, false], 0, false, false⟩ [3, 2, 1, 0]).anyMoved, (lfold 1 ⟨[a00, a10, a20, a30], [false, false, false, false], 0, false, false⟩ [3, 2, 1, 0]).anyMerged⟩ [3, 2, 1, 0]).anyMerged⟩ [3, 2, 1, 0]).anyMoved, (lfold 1 ⟨[a02, a12, a22, a32], [false, false, false, false], (lfold 1 ⟨[a01, a11, a21, a31], [false, false, false, false], (lfold 1 ⟨[a00, a10, a20, a30], [false, false, false, false], 0, false, false⟩ [3, 2, 1, 0]).score, (lfold 1 ⟨[a00, a10, a20, a30], [false, false, false, false], 0, false, false⟩ [3, 2, 1, 0]).anyMoved, (lfold 1 ⟨[a00, a10, a20, a30], [false, false, false, false], 0, false, false⟩ [3, 2, 1, 0]).anyMerged⟩ [3, 2, 1, 0]).score, (lfold 1 ⟨[a01, a11, a21, a31], [false, false, false, false], (lfold 1 ⟨[a00, a10, a20, a30], [false, false, false, false], 0, false, false⟩ [3, 2, 1, 0]).score, (lfold 1 ⟨[a00, a10, a20, a30], [false, false, false, false], 0, false, false⟩ [3, 2, 1, 0]).anyMoved, (lfold 1 ⟨[a00, a10, a20, a30], [false, false, false, false], 0, false, false⟩ [3, 2, 1, 0]).anyMerged⟩ [3, 2, 1, 0]).anyMoved, (lfold 1 ⟨[a01, a11, a21, a31], [false, false, false, false], (lfold 1 ⟨[a00, a10, a20, a30], [false, false, false, false], 0, false, false⟩ [3, 2, 1, 0]).score, (lfold 1 ⟨[a00, a10, a20, a30], [false, false, false, false], 0, false, false⟩ [3, 2, 1, 0]).anyMoved, (lfold 1 ⟨[a00, a10, a20, a30], [false, false, false, false], 0, false, false⟩ [3, 2, 1, 0]).anyMerged⟩ [3, 2, 1, 0]).anyMerged⟩ [3, 2, 1, 0]).anyMerged⟩ [3, 2, 1, 0]).anyMerged = ((GridGame.slideRow [a00, a10, a20, a30].reverse).merged || ((GridGame.slideRow [a01, a11, a21, a31].reverse).merged || ((GridGame.slideRow [a02, a12, a22, a32].reverse).merged || ((GridGame.slideRow [a03, a13, a23, a33].reverse).merged || false))))
    rw [e3.2.2.1, e2.2.2.1, e1.2.2.1, e0.2.2.1]
    simp [Bool.or_assoc, Bool.or_comm, Bool.or_left_comm]

end Equiv


/-! ## The tile lookup keeps tiles at their own coordinates -/

namespace Equiv

/-- Every tile stored in the lookup sits at the cell matching its own
`row`/`col` fields. -/
def Sync (g : TileGame.TGrid) : Prop :=
  ∀ r c t, r < 4 → c < 4 → TileGame.cellAt g r c = some t →
    t.row = r ∧ t.col = c

theorem tcellAt_eq_get (g : TileGame.TGrid) (r c : Nat) :
    TileGame.cellAt g r c = Mat.get g none r c := rfl

theorem tsetCellAt_eq_set (g : TileGame.TGrid) (r c : Nat)
    (v : Option TileGame.Tile) :
    TileGame.setCellAt g r c v = Mat.set g r c v := rfl

/-- Writing a tile that carries the written cell's coordinates keeps the
lookup in sync. -/
theorem Sync_set {g : TileGame.TGrid} (hWF : Mat.WF g) (hS : Sync g)
    (a b : Nat) (v : Option TileGame.Tile)
    (hv : ∀ t, v = some t → t.row = a ∧ t.col = b) :
    Sync (TileGame.setCellAt g a b v) := by
  intro r c t hr hc hcell
  rw [tcellAt_eq_get, tsetCellAt_eq_set] at hcell
  by_cases hab : r = a ∧ c = b
  · obtain ⟨rfl, rfl⟩ := hab
    rw [Mat.get_set_self none hWF hr hc] at hcell
    exact hv t hcell
  · rw [Mat.get_set_other none hab] at hcell
    exact hS r c t hr hc hcell

/-- One traversal-loop iteration keeps the lookup well-formed and in
sync. -/
theorem step_WF_Sync (vr vc : Int) (s : TileGame.MoveState) (p : Nat × Nat)
    (h : Mat.WF s.grid ∧ Sync s.grid) :
    Mat.WF (TileGame.step vr vc s p).grid ∧
      Sync (TileGame.step vr vc s p).grid := by
  obtain ⟨hWF, hS⟩ := h
  simp only [TileGame.step]
  cases TileGame.cellAt s.grid p.1 p.2 with
  | none => exact ⟨hWF, hS⟩
  | some tile =>
    dsimp only
    by_cases hd : ((TileGame.walk s.grid s.merged vr vc tile.value (p.1 : Int)
          (p.2 : Int) 4).1.toNat = p.1
        ∧ (TileGame.walk s.grid s.merged vr vc tile.value (p.1 : Int)
          (p.2 : Int) 4).2.toNat = p.2)
    · rw [if_pos hd]
      exact ⟨hWF, hS⟩
    · rw [if_neg hd]
      have hWF1 : Mat.WF (TileGame.setCellAt s.grid p.1 p.2 none) :=
        Mat.WF_set hWF _ _ _
      have hS1 : Sync (TileGame.setCellAt s.grid p.1 p.2 none) :=
        Sync_set hWF hS p.1 p.2 none (fun t ht => Option.noConfusion ht)
      cases TileGame.cellAt (TileGame.setCellAt s.grid p.1 p.2 none)
          (TileGame.walk s.grid s.merged vr vc tile.value (p.1 : Int)
            (p.2 : Int) 4).1.toNat
          (TileGame.walk s.grid s.merged vr vc tile.value (p.1 : Int)
            (p.2 : Int) 4).2.toNat with
      | none =>
        exact ⟨Mat.WF_set hWF1 _ _ _,
          Sync_set hWF1 hS1 _ _ _ (fun t ht => by cases ht; exact ⟨rfl, rfl⟩)⟩
      | some target =>
        dsimp only
        by_cases heq : target.value = tile.value
        · rw [if_pos heq]
          exact ⟨Mat.WF_set hWF1 _ _ _,
            Sync_set hWF1 hS1 _ _ _ (fun t ht => by cases ht; exact ⟨rfl, rfl⟩)⟩
        · rw [if_neg heq]
          exact ⟨Mat.WF_set hWF1 _ _ _,
            Sync_set hWF1 hS1 _ _ _ (fun t ht => by cases ht; exact ⟨rfl, rfl⟩)⟩

/-- The whole traversal loop keeps the lookup well-formed and in sync. -/
theorem foldl_step_WF_Sync (vr vc : Int) :
    ∀ (l : List (Nat × Nat)) (s : TileGame.MoveState),
      Mat.WF s.grid ∧ Sync s.grid →
      Mat.WF ((l.foldl (TileGame.step vr vc) s)).grid ∧
        Sync ((l.foldl (TileGame.step vr vc) s)).grid := by
  intro l
  induction l with
  | nil => intro s h; exact h
  | cons p t ih => intro s h; exact ih _ (step_WF_Sync vr vc s p h)

theorem WF_emptyTGrid : Mat.WF TileGame.emptyTGrid :=
  ⟨rfl, fun row hrow => by rw [List.eq_of_mem_replicate hrow]; rfl⟩

theorem Sync_emptyTGrid : Sync TileGame.emptyTGrid := by
  intro r c t hr hc hcell
  exfalso
  revert hcell
  interval_cases r <;> interval_cases c <;> exact fun hcell => Option.noConfusion hcell

/-- The materialized lookup is well-formed and in sync. -/
theorem materialize_WF_Sync (tiles : List TileGame.Tile) :
    Mat.WF (TileGame.materialize tiles) ∧ Sync (TileGame.materialize tiles) := by
  unfold TileGame.materialize
  have main : ∀ (ts : List TileGame.Tile) (g : TileGame.TGrid),
      Mat.WF g ∧ Sync g →
      Mat.WF (ts.foldl
          (fun g t => TileGame.setCellAt g t.row t.col
            (some { t with isNew := false, isMerged := false })) g) ∧
        Sync (ts.foldl
          (fun g t => TileGame.setCellAt g t.row t.col
            (some { t with isNew := false, isMerged := false })) g) := by
    intro ts
    induction ts with
    | nil => intro g h; exact h
    | cons t ts ih =>
      intro g h
      exact ih _ ⟨Mat.WF_set h.1 _ _ _,
        Sync_set h.1 h.2 _ _ _ (fun u hu => by cases hu; exact ⟨rfl, rfl⟩)⟩
  exact main tiles TileGame.emptyTGrid ⟨WF_emptyTGrid, Sync_emptyTGrid⟩

end Equiv

/-! ## Flattening the final lookup back to tiles -/

namespace Equiv

/-- Setting the first cell after a prefix. -/
theorem set_append_len {α : Type} (xs ys : List α) (v : α) :
    (xs ++ ys).set xs.length v = xs ++ ys.set 0 v := by
  induction xs with
  | nil => rfl
  | cons a t ih =>
    show (a :: (t ++ ys)).set (t.length + 1) v = a :: (t ++ ys.set 0 v)
    rw [List.set_cons_succ, ih]

/-- Writing one row's surviving tiles into the value grid fills that row
with the tiles' values. -/
theorem write_row_fold :
    ∀ (R : List (Option TileGame.Tile)) (k : Nat) (G : GridGame.Grid)
      (r : Nat) (pre : List (Option Nat)),
      r < G.length → pre.length = k → R.length + k = 4 →
      G.getD r [] = pre ++ List.replicate (4 - k) (none : Option Nat) →
      (∀ c t, R.getD c none = some t → t.row = r ∧ t.col = c + k) →
      (R.filterMap id).foldl
          (fun g t => GridGame.setCellAt g t.row t.col (some t.value)) G
        = G.set r (pre ++ R.map projCell) := by
  intro R
  induction R with
  | nil =>
    intro k G r pre hr hpre hlen hrow hsync
    have hk : k = 4 := by simpa using hlen
    subst hk
    simp only [Nat.sub_self, List.replicate_zero, List.append_nil] at hrow
    show G = G.set r (pre ++ [])
    rw [List.append_nil, ← hrow, set_getD_self G r [] hr]
  | cons x R ih =>
    intro k G r pre hr hpre hlen hrow hsync
    have hk3 : k < 4 := by
      simp only [List.length_cons] at hlen
      omega
    have hrep : List.replicate (4 - k) (none : Option Nat)
        = none :: List.replicate (4 - (k + 1)) none := by
      rw [show 4 - k = (4 - (k + 1)) + 1 from by omega, List.replicate_succ]
    cases x with
    | none =>
      show (R.filterMap id).foldl
          (fun g t => GridGame.setCellAt g t.row t.col (some t.value)) G = _
      have hrow' : G.getD r []
          = (pre ++ [none]) ++ List.replicate (4 - (k + 1)) none := by
        rw [hrow, hrep, List.append_assoc]
        rfl
      have hsync' : ∀ c t, R.getD c none = some t → t.row = r ∧ t.col = c + (k + 1) := by
        intro c t hc
        have h2 := hsync (c + 1) t (by simpa using hc)
        exact ⟨h2.1, by omega⟩
      rw [ih (k + 1) G r (pre ++ [none]) hr (by simp [hpre])
          (by simp only [List.length_cons] at hlen; omega) hrow' hsync']
      rw [List.append_assoc]
      rfl
    | some t =>
      show (R.filterMap id).foldl
          (fun g t => GridGame.setCellAt g t.row t.col (some t.value))
          (GridGame.setCellAt G t.row t.col (some t.value)) = _
      obtain ⟨hrt, hct⟩ := hsync 0 t rfl
      rw [hrt, hct]
      have hG1 : GridGame.setCellAt G r (0 + k) (some t.value)
          = G.set r ((pre ++ [some t.value])
              ++ List.replicate (4 - (k + 1)) none) := by
        show G.set r ((G.getD r []).set (0 + k) (some t.value)) = _
        rw [hrow, hrep, Nat.zero_add, ← hpre, set_append_len]
        rw [List.set_cons_zero, List.append_assoc]
        rfl
      rw [hG1]
      have hlen1 : r < (G.set r ((pre ++ [some t.value])
          ++ List.replicate (4 - (k + 1)) none)).length := by
        simpa using hr
      have hrow1 : (G.set r ((pre ++ [some t.value])
            ++ List.replicate (4 - (k + 1)) none)).getD r []
          = (pre ++ [some t.value]) ++ List.replicate (4 - (k + 1)) none :=
        getD_set_self G r _ [] hr
      have hsync' : ∀ c u, R.getD c none = some u → u.row = r ∧ u.col = c + (k + 1) := by
        intro c u hc
        have h2 := hsync (c + 1) u (by simpa using hc)
        exact ⟨h2.1, by omega⟩
      rw [ih (k + 1) _ r (pre ++ [some t.value]) hlen1 (by simp [hpre])
          (by simp only [List.length_cons] at hlen; omega) hrow1 hsync']
      rw [List.set_set, List.append_assoc]
      rfl

/-- The value grid built from the flattened lookup is the lookup's value
projection. -/
theorem valueGrid_flatten {g : TileGame.TGrid} (hWF : Mat.WF g)
    (hS : Sync g) :
    TileGame.valueGrid (g.flatMap fun row => row.filterMap id)
      = projGrid g := by
  obtain ⟨hlen, hrows⟩ := hWF
  rcases g with _ | ⟨R0, _ | ⟨R1, _ | ⟨R2, _ | ⟨R3, _ | ⟨R4, t⟩⟩⟩⟩⟩ <;>
    simp only [List.length_cons, List.length_nil] at hlen <;> try omega
  have h0 : R0.length = 4 := hrows R0 (by simp)
  have h1 : R1.length = 4 := hrows R1 (by simp)
  have h2 : R2.length = 4 := hrows R2 (by simp)
  have h3 : R3.length = 4 := hrows R3 (by simp)
  have hs0 : ∀ c t, R0.getD c none = some t → t.row = 0 ∧ t.col = c + 0 := by
    intro c t hc
    by_cases hc4 : c < 4
    · have := hS 0 c t (by omega) hc4 hc
      exact ⟨this.1, by omega⟩
    · rw [List.getD_eq_default _ _ (by omega)] at hc
      exact Option.noConfusion hc
  have hs1 : ∀ c t, R1.getD c none = some t → t.row = 1 ∧ t.col = c + 0 := by
    intro c t hc
    by_cases hc4 : c < 4
    · have := hS 1 c t (by omega) hc4 hc
      exact ⟨this.1, by omega⟩
    · rw [List.getD_eq_default _ _ (by omega)] at hc
      exact Option.noConfusion hc
  have hs2 : ∀ c t, R2.getD c none = some t → t.row = 2 ∧ t.col = c + 0 := by
    intro c t hc
    by_cases hc4 : c < 4
    · have := hS 2 c t (by omega) hc4 hc
      exact ⟨this.1, by omega⟩
    · rw [List.getD_eq_default _ _ (by omega)] at hc
      exact Option.noConfusion hc
  have hs3 : ∀ c t, R3.getD c none = some t → t.row = 3 ∧ t.col = c + 0 := by
    intro c t hc
    by_cases hc4 : c < 4
    · have := hS 3 c t (by omega) hc4 hc
      exact ⟨this.1, by omega⟩
    · rw [List.getD_eq_default _ _ (by omega)] at hc
      exact Option.noConfusion hc
  show TileGame.valueGrid
      (R0.filterMap id ++ (R1.filterMap id ++ (R2.filterMap id
        ++ (R3.filterMap id ++ [])))) = _
  unfold TileGame.valueGrid
  simp only [List.foldl_append, List.foldl_nil]
  rw [write_row_fold R0 0 GridGame.createEmptyGrid 0 []
      (by simp [GridGame.createEmptyGrid]) rfl (by omega) rfl hs0]
  rw [write_row_fold R1 0 _ 1 [] (by simp [GridGame.createEmptyGrid]) rfl (by omega)
      (by rw [getD_set_ne _ _ _ _ _ (by omega)]; rfl) hs1]
  rw [write_row_fold R2 0 _ 2 [] (by simp [GridGame.createEmptyGrid]) rfl (by omega)
      (by rw [getD_set_ne _ _ _ _ _ (by omega), getD_set_ne _ _ _ _ _ (by omega)]; rfl) hs2]
  rw [write_row_fold R3 0 _ 3 [] (by simp [GridGame.createEmptyGrid]) rfl (by omega)
      (by rw [getD_set_ne _ _ _ _ _ (by omega), getD_set_ne _ _ _ _ _ (by omega),
              getD_set_ne _ _ _ _ _ (by omega)]; rfl) hs3]
  rfl

/-- The value lookup of `canMove` is well-formed. -/
theorem WF_valueGrid (tiles : List TileGame.Tile) :
    Mat.WF (TileGame.valueGrid tiles) := by
  unfold TileGame.valueGrid
  have main : ∀ (ts : List TileGame.Tile) (G : GridGame.Grid), Mat.WF G →
      Mat.WF (ts.foldl
        (fun g t => GridGame.setCellAt g t.row t.col (some t.value)) G) := by
    intro ts
    induction ts with
    | nil => intro G h; exact h
    | cons t ts ih => intro G h; exact ih _ (Mat.WF_set h _ _ _)
  exact main tiles _ GridGame.WFdim_createEmptyGrid

end Equiv

/-! ## C1: the two engines agree -/

namespace Equiv

/-- Grid component of the loop projection. -/
theorem fold_proj_grid (vr vc : Int) (l : List (Nat × Nat))
    (s : TileGame.MoveState) :
    projGrid (l.foldl (TileGame.step vr vc) s).grid
      = (l.foldl (vstep vr vc) (projState s)).grid :=
  congrArg VState.grid (fold_proj vr vc l s)

/-- Score component of the loop projection. -/
theorem fold_proj_score (vr vc : Int) (l : List (Nat × Nat))
    (s : TileGame.MoveState) :
    (l.foldl (TileGame.step vr vc) s).score
      = (l.foldl (vstep vr vc) (projState s)).score :=
  congrArg VState.score (fold_proj vr vc l s)

/-- Moved component of the loop projection. -/
theorem fold_proj_moved (vr vc : Int) (l : List (Nat × Nat))
    (s : TileGame.MoveState) :
    (l.foldl (TileGame.step vr vc) s).anyMoved
      = (l.foldl (vstep vr vc) (projState s)).anyMoved :=
  congrArg VState.anyMoved (fold_proj vr vc l s)

/-- Merged component of the loop projection. -/
theorem fold_proj_merged (vr vc : Int) (l : List (Nat × Nat))
    (s : TileGame.MoveState) :
    (l.foldl (TileGame.step vr vc) s).anyMerged
      = (l.foldl (vstep vr vc) (projState s)).anyMerged :=
  congrArg VState.anyMerged (fold_proj vr vc l s)

/-- The projection of the loop's initial state. -/
theorem projState_init (nid : Nat) (tiles : List TileGame.Tile) :
    projState ⟨TileGame.materialize tiles, TileGame.emptyMGrid, 0,
        false, false, nid⟩
      = ⟨TileGame.valueGrid tiles, TileGame.emptyMGrid, 0, false, false⟩ := by
  rw [show projState ⟨TileGame.materialize tiles, TileGame.emptyMGrid, 0,
        false, false, nid⟩
      = ⟨projGrid (TileGame.materialize tiles), TileGame.emptyMGrid, 0,
         false, false⟩ from rfl]
  rw [projGrid_materialize]

/-- The tile-identity `move` and the grid-indexed `move` agree after
discarding tile identity: same values cell by cell, same score, same
`moved` and `merged` flags. -/
theorem move_equiv (nid : Nat) (tiles : List TileGame.Tile) (d : Direction) :
    TileGame.valueGrid ((TileGame.move nid tiles d).tiles)
        = (GridGame.move (TileGame.valueGrid tiles) d).grid ∧
    (TileGame.move nid tiles d).score
        = (GridGame.move (TileGame.valueGrid tiles) d).score ∧
    (TileGame.move nid tiles d).moved
        = (GridGame.move (TileGame.valueGrid tiles) d).moved ∧
    (TileGame.move nid tiles d).merged
        = (GridGame.move (TileGame.valueGrid tiles) d).merged := by
  cases d with
  | left =>
    have hfm := fold_move_left (TileGame.valueGrid tiles) (WF_valueGrid tiles)
    have hWS := foldl_step_WF_Sync 0 (-1) (pairsFor .left)
        ⟨TileGame.materialize tiles, TileGame.emptyMGrid, 0, false, false, nid⟩
        (materialize_WF_Sync tiles)
    simp only [TileGame.move]
    rw [show TileGame.getVector Direction.left = ((0 : Int), (-1 : Int)) from rfl,
        show TileGame.getTraversalOrder Direction.left = ([0, 1, 2, 3], [0, 1, 2, 3]) from rfl]
    dsimp only
    rw [show (([0, 1, 2, 3] : List Nat).flatMap fun row => ([0, 1, 2, 3] : List Nat).map
          fun col => (row, col)) = pairsFor .left from rfl]
    refine ⟨?_, ?_, ?_, ?_⟩
    · rw [valueGrid_flatten hWS.1 hWS.2]
      rw [fold_proj_grid, projState_init]
      exact hfm.1
    · rw [fold_proj_score, projState_init]
      exact hfm.2.1
    · rw [fold_proj_moved, projState_init]
      exact hfm.2.2.1
    · rw [fold_proj_merged, projState_init]
      exact hfm.2.2.2
  | right =>
    have hfm := fold_move_right (TileGame.valueGrid tiles) (WF_valueGrid tiles)
    have hWS := foldl_step_WF_Sync 0 1 (pairsFor .right)
        ⟨TileGame.materialize tiles, TileGame.emptyMGrid, 0, false, false, nid⟩
        (materialize_WF_Sync tiles)
    simp only [TileGame.move]
    rw [show TileGame.getVector Direction.right = ((0 : Int), (1 : Int)) from rfl,
        show TileGame.getTraversalOrder Direction.right = ([0, 1, 2, 3], [3, 2, 1, 0]) from rfl]
    dsimp only
    rw [show (([0, 1, 2, 3] : List Nat).flatMap fun row => ([3, 2, 1, 0] : List Nat).map
          fun col => (row, col)) = pairsFor .right from rfl]
    refine ⟨?_, ?_, ?_, ?_⟩
    · rw [valueGrid_flatten hWS.1 hWS.2]
      rw [fold_proj_grid, projState_init]
      exact hfm.1
    · rw [fold_proj_score, projState_init]
      exact hfm.2.1
    · rw [fold_proj_moved, projState_init]
      exact hfm.2.2.1
    · rw [fold_proj_merged, projState_init]
      exact hfm.2.2.2
  | up =>
    have hfm := fold_move_up (TileGame.valueGrid tiles) (WF_valueGrid tiles)
    have hWS := foldl_step_WF_Sync (-1) 0 (pairsFor .up)
        ⟨TileGame.materialize tiles, TileGame.emptyMGrid, 0, false, false, nid⟩
        (materialize_WF_Sync tiles)
    simp only [TileGame.move]
    rw [show TileGame.getVector Direction.up = (((-1) : Int), (0 : Int)) from rfl,
        show TileGame.getTraversalOrder Direction.up = ([0, 1, 2, 3], [0, 1, 2, 3]) from rfl]
    dsimp only
    rw [show (([0, 1, 2, 3] : List Nat).flatMap fun row => ([0, 1, 2, 3] : List Nat).map
          fun col => (row, col)) = pairsFor .up from rfl]
    refine ⟨?_, ?_, ?_, ?_⟩
    · rw [valueGrid_flatten hWS.1 hWS.2]
      rw [fold_proj_grid, projState_init]
      exact hfm.1
    · rw [fold_proj_score, projState_init]
      exact hfm.2.1
    · rw [fold_proj_moved, projState_init]
      exact hfm.2.2.1
    · rw [fold_proj_merged, projState_init]
      exact hfm.2.2.2
  | down =>
    have hfm := fold_move_down (TileGame.valueGrid tiles) (WF_valueGrid tiles)
    have hWS := foldl_step_WF_Sync 1 0 (pairsFor .down)
        ⟨TileGame.materialize tiles, TileGame.emptyMGrid, 0, false, false, nid⟩
        (materialize_WF_Sync tiles)
    simp only [TileGame.move]
    rw [show TileGame.getVector Direction.down = ((1 : Int), (0 : Int)) from rfl,
        show TileGame.getTraversalOrder Direction.down = ([3, 2, 1, 0], [0, 1, 2, 3]) from rfl]
    dsimp only
    rw [show (([3, 2, 1, 0] : List Nat).flatMap fun row => ([0, 1, 2, 3] : List Nat).map
          fun col => (row, col)) = pairsFor .down from rfl]
    refine ⟨?_, ?_, ?_, ?_⟩
    · rw [valueGrid_flatten hWS.1 hWS.2]
      rw [fold_proj_grid, projState_init]
      exact hfm.1
    · rw [fold_proj_score, projState_init]
      exact hfm.2.1
    · rw [fold_proj_moved, projState_init]
      exact hfm.2.2.1
    · rw [fold_proj_merged, projState_init]
      exact hfm.2.2.2

end Equiv

/-- C1: for every well-formed tile set (at most 16 tiles, at most one per
cell, power-of-two values) and every direction, the tile-identity `move`
and the grid-indexed `move` produce value-equivalent boards — the same
value at every cell once tile identity is discarded — and the same score
delta, moved flag and merged flag. -/
theorem C1_move_refinement (nid : Nat) (tiles : List TileGame.Tile)
    (d : Direction) (hWF : TileGame.WFTiles tiles) :
    TileGame.valueGrid ((TileGame.move nid tiles d).tiles)
        = (GridGame.move (TileGame.valueGrid tiles) d).grid ∧
    (TileGame.move nid tiles d).score
        = (GridGame.move (TileGame.valueGrid tiles) d).score ∧
    (TileGame.move nid tiles d).moved
        = (GridGame.move (TileGame.valueGrid tiles) d).moved ∧
    (TileGame.move nid tiles d).merged
        = (GridGame.move (TileGame.valueGrid tiles) d).merged :=
  Equiv.move_equiv nid tiles d

/-- Witness: C1 at a concrete board — two mergeable 2-tiles and an 8-tile
— moved left. -/
theorem C1_move_refinement_witness :
    TileGame.WFTiles
        [⟨1, 2, 0, 0, false, false⟩, ⟨2, 2, 0, 1, false, false⟩,
       ⟨3, 8, 2, 3, false, false⟩] ∧
      (TileGame.valueGrid ((TileGame.move 4 [⟨1, 2, 0, 0, false, false⟩, ⟨2, 2, 0, 1, false, false⟩,
       ⟨3, 8, 2, 3, false, false⟩] .left).tiles)
          = (GridGame.move (TileGame.valueGrid [⟨1, 2, 0, 0, false, false⟩, ⟨2, 2, 0, 1, false, false⟩,
       ⟨3, 8, 2, 3, false, false⟩]) .left).grid ∧
        (TileGame.move 4 [⟨1, 2, 0, 0, false, false⟩, ⟨2, 2, 0, 1, false, false⟩,
       ⟨3, 8, 2, 3, false, false⟩] .left).score
          = (GridGame.move (TileGame.valueGrid [⟨1, 2, 0, 0, false, false⟩, ⟨2, 2, 0, 1, false, false⟩,
       ⟨3, 8, 2, 3, false, false⟩]) .left).score ∧
        (TileGame.move 4 [⟨1, 2, 0, 0, false, false⟩, ⟨2, 2, 0, 1, false, false⟩,
       ⟨3, 8, 2, 3, false, false⟩] .left).moved
          = (GridGame.move (TileGame.valueGrid [⟨1, 2, 0, 0, false, false⟩, ⟨2, 2, 0, 1, false, false⟩,
       ⟨3, 8, 2, 3, false, false⟩]) .left).moved ∧
        (TileGame.move 4 [⟨1, 2, 0, 0, false, false⟩, ⟨2, 2, 0, 1, false, false⟩,
       ⟨3, 8, 2, 3, false, false⟩] .left).merged
          = (GridGame.move (TileGame.valueGrid [⟨1, 2, 0, 0, false, false⟩, ⟨2, 2, 0, 1, false, false⟩,
       ⟨3, 8, 2, 3, false, false⟩]) .left).merged) :=
  ⟨by decide, C1_move_refinement 4 [⟨1, 2, 0, 0, false, false⟩, ⟨2, 2, 0, 1, false, false⟩,
       ⟨3, 8, 2, 3, false, false⟩] .left (by decide)⟩
